import Mathlib

/-!
# The Qobuz request engine (`src/qobuz/qobuzrequest.cpp`)

A shallow embedding of `QobuzRequest`: the member variables become the fields of
`State`, every member function becomes a function on `State`, and the signals
the object emits are appended to the field `emitted`.  The network is an input:
a finished `QNetworkReply` is a value carrying what the handlers read from it.

Conventions
* `int` values are `Int`; Qt strings and URLs are `String`.
* `QMap`/`QHash`/`QMultiMap` members are association lists in insertion order.
* The query id is the same in every signal of one request and is left out.
* The header's default arguments (all `0`) are written out at the call sites.
* The request parameters handed to `CreateRequest` (auth token, search text,
  limit and offset strings) do not influence the engine and are not kept; the
  cursor of an issued request is kept in the connection of its reply.
-/

namespace Qobuz

/-! ## JSON as the handlers read it -/

/-- A `QJsonValue`; numbers are the integers `toInt()` yields. -/
inductive QJsonValue where
  | null
  | bool (b : Bool)
  | number (n : Int)
  | string (s : String)
  | array (items : List QJsonValue)
  | object (members : List (String × QJsonValue))

/-- A `QJsonObject`: its members in document order. -/
abbrev QJsonObject := List (String × QJsonValue)

/-- `QJsonObject::contains`. -/
def jsonContains (o : QJsonObject) (key : String) : Bool :=
  o.any (fun kv => kv.1 == key)

/-- `QJsonObject::operator[]`: the member, or an undefined value. -/
def jsonValue (o : QJsonObject) (key : String) : QJsonValue :=
  match o.find? (fun kv => kv.1 == key) with
  | some kv => kv.2
  | none => QJsonValue.null

/-- `QJsonValue::toInt()`: `0` unless the value is a number. -/
def QJsonValue.toInt : QJsonValue → Int
  | QJsonValue.number n => n
  | _ => 0

/-- `QJsonValue::toString()`: empty unless the value is a string. -/
def QJsonValue.toQString : QJsonValue → String
  | QJsonValue.string s => s
  | _ => ""

/-- The idiom `v.isString() ? v.toString() : QString::number(v.toInt())`. -/
def idString (v : QJsonValue) : String :=
  match v with
  | QJsonValue.string s => s
  | other => toString other.toInt

/-! ## Records of the request -/

inductive QueryType where
  | QueryType_None
  | QueryType_Artists
  | QueryType_Albums
  | QueryType_Songs
  | QueryType_SearchArtists
  | QueryType_SearchAlbums
  | QueryType_SearchSongs
  | QueryType_StreamURL
  deriving DecidableEq, Repr

open QueryType

/-- Modelled from the spec: `IsQuery()` of the absent header, a direct (non-search) query. -/
def IsQuery (t : QueryType) : Bool :=
  t = QueryType_Artists || t = QueryType_Albums || t = QueryType_Songs

/-- Modelled from the spec: `IsSearch()` of the absent header, a search-type query. -/
def IsSearch (t : QueryType) : Bool :=
  t = QueryType_SearchArtists || t = QueryType_SearchAlbums || t = QueryType_SearchSongs

structure Artist where
  artist_id : String
  artist : String
  deriving DecidableEq, Repr

structure Album where
  album_id : String
  album : String
  cover_url : String
  deriving DecidableEq, Repr

/-- A default-constructed `Artist()`. -/
def Artist.empty : Artist := { artist_id := "", artist := "" }

/-- A default-constructed `Album()`. -/
def Album.empty : Album := { album_id := "", album := "", cover_url := "" }

structure Request where
  offset : Int
  limit : Int
  deriving DecidableEq, Repr

structure ArtistAlbumsRequest where
  artist : Artist
  offset : Int
  limit : Int
  deriving DecidableEq, Repr

structure AlbumSongsRequest where
  artist : Artist
  album : Album
  offset : Int
  limit : Int
  deriving DecidableEq, Repr

structure AlbumCoverRequest where
  url : String
  filename : String
  deriving DecidableEq, Repr

/-- The fields of `Song` that `ParseSong` and the cover handler write. -/
structure Song where
  valid : Bool
  song_id : String
  album_id : String
  artist_id : String
  album : String
  artist : String
  albumartist : String
  title : String
  track : Int
  url : String
  length_nanosec : Int
  art_automatic : String
  performer : String
  composer : String
  comment : String
  disc : Int
  compilation_detected : Bool
  deriving DecidableEq, Repr

/-- A fresh `Song(Song::Source_Qobuz)`: invalid, no disc, nothing set. -/
def Song.fresh : Song :=
  { valid := false, song_id := "", album_id := "", artist_id := "", album := "", artist := "",
    albumartist := "", title := "", track := -1, url := "", length_nanosec := -1,
    art_automatic := "", performer := "", composer := "", comment := "", disc := -1,
    compilation_detected := false }

/-- The aggregate result: song id to song. -/
abbrev SongMap := List (String × Song)

/-- The argument of `UpdateProgress`: the literal `0`, or a call `GetProgress(count, total)`. -/
inductive Progress where
  | Zero
  | GetProgress (count total : Int)
  deriving DecidableEq, Repr

/-- The signals of the request. -/
inductive Event where
  | UpdateStatus (text : String)
  | UpdateProgress (progress : Progress)
  | Results (songs : SongMap) (error : String)
  deriving DecidableEq, Repr

/-- The slot a reply's `finished` signal is connected to, with the captured arguments. -/
inductive Callback where
  | Artists (limit offset : Int)
  | Albums (limit offset : Int)
  | Songs (limit offset : Int)
  | ArtistAlbums (artist : Artist) (offset : Int)
  | AlbumSongs (artist : Artist) (album : Album) (offset : Int)
  | AlbumCover (url filename : String)
  deriving DecidableEq, Repr

/-- The collaborators the engine reads but does not own. -/
structure Env where
  download_album_covers : Bool
  artistssearchlimit : Int
  albumssearchlimit : Int
  songssearchlimit : Int
  /-- `QUrl::isValid`. -/
  url_valid : String → Bool
  /-- `AlbumCoverLoader::CoverFilePath` for a song and its cover URL. -/
  CoverFilePath : Song → String
  /-- `title.remove(Song::kTitleRemoveMisc)`. -/
  title_remove_misc : String → String
  /-- `url_handler_->scheme()`. -/
  scheme : String
  /-- Whether `ImageUtils` supports the mimetype as type or as format. -/
  mimetype_supported : String → Bool

/-- The bytes of a successful reply as `ExtractJsonObj` sees them. -/
structure ReplyBytes where
  /-- What `ExtractJsonObj` reports through `Error` while parsing. -/
  parse_errors : List String
  /-- The object `ExtractJsonObj` returns (empty on a parse failure). -/
  json_obj : QJsonObject

/-- A finished `QNetworkReply`, by what the handlers read from it. -/
structure QNetworkReply where
  handle : Nat
  /-- What `GetReplyData` reports through `Error` while reading the reply. -/
  read_errors : List String
  /-- What `GetReplyData` returns: nothing, or bytes. -/
  data : Option ReplyBytes
  /-- The `reply->error()` of a failed download, as error string and code. -/
  error : Option (String × Int)
  http_status : Int
  content_type : String
  /-- Whether `readAll()` is empty. -/
  body_empty : Bool
  /-- Whether `QImage::loadFromData` succeeds. -/
  image_loads : Bool
  /-- Whether `QImage::save` succeeds. -/
  image_saves : Bool

/-- The member variables of `QobuzRequest`, the live connections and the signals emitted so far. -/
structure State where
  type_ : QueryType
  timer_active : Bool
  finished_ : Bool
  artists_requests_total_ : Int
  artists_requests_active_ : Int
  artists_requests_received_ : Int
  artists_total_ : Int
  artists_received_ : Int
  albums_requests_total_ : Int
  albums_requests_active_ : Int
  albums_requests_received_ : Int
  albums_total_ : Int
  albums_received_ : Int
  songs_requests_total_ : Int
  songs_requests_active_ : Int
  songs_requests_received_ : Int
  songs_total_ : Int
  songs_received_ : Int
  artist_albums_requests_total_ : Int
  artist_albums_requests_active_ : Int
  artist_albums_requests_received_ : Int
  album_songs_requests_total_ : Int
  album_songs_requests_active_ : Int
  album_songs_requests_received_ : Int
  album_covers_requests_total_ : Int
  album_covers_requests_active_ : Int
  album_covers_requests_received_ : Int
  no_results_ : Bool
  artists_requests_queue_ : List Request
  albums_requests_queue_ : List Request
  songs_requests_queue_ : List Request
  artist_albums_requests_queue_ : List ArtistAlbumsRequest
  album_songs_requests_queue_ : List AlbumSongsRequest
  album_cover_requests_queue_ : List AlbumCoverRequest
  artist_albums_requests_pending_ : List (String × ArtistAlbumsRequest)
  album_songs_requests_pending_ : List (String × AlbumSongsRequest)
  album_covers_requests_sent_ : List (String × String)
  songs_ : SongMap
  errors_ : List String
  replies_ : List Nat
  album_cover_replies_ : List Nat
  /-- The `QObject::connect` connections of replies to their slots. -/
  connections : List (Nat × Callback)
  /-- The handle the next created reply gets. -/
  next_reply : Nat
  /-- The signals emitted so far, oldest first. -/
  emitted : List Event

/-- The state the constructor leaves. -/
def State.init (type : QueryType) : State :=
  { type_ := type, timer_active := false, finished_ := false,
    artists_requests_total_ := 0, artists_requests_active_ := 0, artists_requests_received_ := 0,
    artists_total_ := 0, artists_received_ := 0,
    albums_requests_total_ := 0, albums_requests_active_ := 0, albums_requests_received_ := 0,
    albums_total_ := 0, albums_received_ := 0,
    songs_requests_total_ := 0, songs_requests_active_ := 0, songs_requests_received_ := 0,
    songs_total_ := 0, songs_received_ := 0,
    artist_albums_requests_total_ := 0, artist_albums_requests_active_ := 0,
    artist_albums_requests_received_ := 0,
    album_songs_requests_total_ := 0, album_songs_requests_active_ := 0,
    album_songs_requests_received_ := 0,
    album_covers_requests_total_ := 0, album_covers_requests_active_ := 0,
    album_covers_requests_received_ := 0,
    no_results_ := false,
    artists_requests_queue_ := [], albums_requests_queue_ := [], songs_requests_queue_ := [],
    artist_albums_requests_queue_ := [], album_songs_requests_queue_ := [],
    album_cover_requests_queue_ := [],
    artist_albums_requests_pending_ := [], album_songs_requests_pending_ := [],
    album_covers_requests_sent_ := [], songs_ := [], errors_ := [],
    replies_ := [], album_cover_replies_ := [], connections := [], next_reply := 0,
    emitted := [] }

def kMaxConcurrentArtistsRequests : Int := 3
def kMaxConcurrentAlbumsRequests : Int := 3
def kMaxConcurrentSongsRequests : Int := 3
def kMaxConcurrentArtistAlbumsRequests : Int := 3
def kMaxConcurrentAlbumSongsRequests : Int := 3
def kMaxConcurrentAlbumCoverRequests : Int := 1

/-- The nanoseconds of a second, `kNsecPerSec` of `core/timeconstants.h`. -/
def kNsecPerSec : Int := 1000000000

/-! ## Small steps shared by the member functions -/

/-- An `emit` of a signal. -/
def emit (s : State) (e : Event) : State :=
  { s with emitted := s.emitted ++ [e] }

/-- Modelled from the spec: `ErrorsToHTML` of the absent base request renders the error log,
one line per error, and is the empty string when no error was logged. -/
def ErrorsToHTML (errors : List String) : String :=
  errors.foldl (fun html error => html ++ error ++ "<br />") ""

/-- The quiescence test shared by `FinishCheck` and `GetAlbumCoversCheck`: every queue, pending
set and the cover registry is empty and no active count is positive. -/
def Quiescent (s : State) : Prop :=
  s.artists_requests_queue_ = [] ∧
  s.albums_requests_queue_ = [] ∧
  s.songs_requests_queue_ = [] ∧
  s.artist_albums_requests_queue_ = [] ∧
  s.album_songs_requests_queue_ = [] ∧
  s.album_cover_requests_queue_ = [] ∧
  s.artist_albums_requests_pending_ = [] ∧
  s.album_songs_requests_pending_ = [] ∧
  s.album_covers_requests_sent_ = [] ∧
  s.artists_requests_active_ ≤ 0 ∧
  s.albums_requests_active_ ≤ 0 ∧
  s.songs_requests_active_ ≤ 0 ∧
  s.artist_albums_requests_active_ ≤ 0 ∧
  s.album_songs_requests_active_ ≤ 0 ∧
  s.album_covers_requests_active_ ≤ 0

instance (s : State) : Decidable (Quiescent s) := by
  unfold Quiescent
  infer_instance

/-- `QobuzRequest::FinishCheck`. -/
def FinishCheck (s : State) : State :=
  if s.finished_ = false ∧ Quiescent s then
    let s1 := { s with timer_active := false, finished_ := true }
    if s.no_results_ = true ∧ s.songs_ = [] then
      if IsSearch s.type_ = true then emit s1 (Event.Results [] "No match.")
      else emit s1 (Event.Results [] "")
    else
      if s.songs_ = [] ∧ s.errors_ = [] then emit s1 (Event.Results s.songs_ "Unknown error")
      else emit s1 (Event.Results s.songs_ (ErrorsToHTML s.errors_))
  else s

/-- `QobuzRequest::Error`: a non-empty error is appended to the log, then `FinishCheck` runs. -/
def Error (s : State) (error : String) : State :=
  FinishCheck (if error ≠ "" then { s with errors_ := s.errors_ ++ [error] } else s)

/-- `QobuzRequest::StartRequests`. -/
def StartRequests (s : State) : State :=
  if s.timer_active = false then { s with timer_active := true } else s

/-- `contains` of a keyed container. -/
def mapContains {α : Type} (m : List (String × α)) (key : String) : Bool :=
  m.any (fun kv => kv.1 == key)

/-- `QMap::insert`: the value of an existing key is replaced, a new key is added. -/
def mapInsert {α : Type} (m : List (String × α)) (key : String) (value : α) : List (String × α) :=
  if mapContains m key = true then m.map (fun kv => if kv.1 == key then (key, value) else kv)
  else m ++ [(key, value)]

/-- A reply created by `CreateRequest`, appended to `replies_` and connected to its slot. -/
def issueReply (s : State) (slot : Callback) : State :=
  { s with replies_ := s.replies_ ++ [s.next_reply],
           connections := s.connections ++ [(s.next_reply, slot)],
           next_reply := s.next_reply + 1 }

/-- A reply created by `network_->get`, appended to `album_cover_replies_` and connected. -/
def issueCoverReply (s : State) (slot : Callback) : State :=
  { s with album_cover_replies_ := s.album_cover_replies_ ++ [s.next_reply],
           connections := s.connections ++ [(s.next_reply, slot)],
           next_reply := s.next_reply + 1 }

/-- The head of an API reply handler: `replies_.removeAll(reply)` and `QObject::disconnect`. -/
def takeReply (s : State) (reply : Nat) : State :=
  { s with replies_ := s.replies_.filter (fun r => r != reply),
           connections := s.connections.filter (fun c => c.1 != reply) }

/-- The head of the cover handler: `album_cover_replies_.removeAll(reply)` and `disconnect`. -/
def takeCoverReply (s : State) (reply : Nat) : State :=
  { s with album_cover_replies_ := s.album_cover_replies_.filter (fun r => r != reply),
           connections := s.connections.filter (fun c => c.1 != reply) }

/-- Modelled from the spec: `GetReplyData` of the absent base request; what it reports for a
failed transport goes through `Error`, the bytes it returns are `reply.data`. -/
def GetReplyData (s : State) (reply : QNetworkReply) : State :=
  reply.read_errors.foldl Error s

/-- Modelled from the spec: `ExtractJsonObj` of the absent base request; what it reports for
bytes that hold no object goes through `Error`, the object it returns is `bytes.json_obj`. -/
def ExtractJsonObj (s : State) (bytes : ReplyBytes) : State :=
  bytes.parse_errors.foldl Error s

/-- Modelled from the spec: `ExtractItems` of the absent base request, the page's items value. -/
def ExtractItems (obj : QJsonObject) : QJsonValue :=
  jsonValue obj "items"

/-- The test that a page container lacks one of `limit`, `offset`, `total`, `items`. -/
def missingPageValues (obj : QJsonObject) : Bool :=
  !jsonContains obj "limit" || !jsonContains obj "offset" ||
  !jsonContains obj "total" || !jsonContains obj "items"

/-! ## Artists, albums and songs requests -/

/-- `QobuzRequest::AddArtistsRequest`. -/
def AddArtistsRequest (s : State) (offset limit : Int) : State :=
  StartRequests
    { s with artists_requests_queue_ := s.artists_requests_queue_ ++ [{ offset := offset, limit := limit }],
             artists_requests_total_ := s.artists_requests_total_ + 1 }

/-- `QobuzRequest::AddArtistsSearchRequest`. -/
def AddArtistsSearchRequest (env : Env) (s : State) (offset : Int) : State :=
  AddArtistsRequest s offset env.artistssearchlimit

/-- The `++artists_requests_active_` of a request that was sent. -/
def artistsSent (s : State) : State :=
  { s with artists_requests_active_ := s.artists_requests_active_ + 1 }

/-- The loop of `QobuzRequest::FlushArtistsRequests`; the list is `artists_requests_queue_`. -/
def FlushArtistsLoop : List Request → State → State
  | [], s => s
  | request :: rest, s =>
    if s.artists_requests_active_ < kMaxConcurrentArtistsRequests then
      if s.type_ = QueryType_Artists ∨ s.type_ = QueryType_SearchArtists then
        FlushArtistsLoop rest
          (artistsSent (issueReply { s with artists_requests_queue_ := rest }
            (Callback.Artists request.limit request.offset)))
      else FlushArtistsLoop rest { s with artists_requests_queue_ := rest }
    else s

/-- `QobuzRequest::FlushArtistsRequests`. -/
def FlushArtistsRequests (s : State) : State :=
  FlushArtistsLoop s.artists_requests_queue_ s

/-- `QobuzRequest::AddAlbumsRequest`. -/
def AddAlbumsRequest (s : State) (offset limit : Int) : State :=
  StartRequests
    { s with albums_requests_queue_ := s.albums_requests_queue_ ++ [{ offset := offset, limit := limit }],
             albums_requests_total_ := s.albums_requests_total_ + 1 }

/-- `QobuzRequest::AddAlbumsSearchRequest`. -/
def AddAlbumsSearchRequest (env : Env) (s : State) (offset : Int) : State :=
  AddAlbumsRequest s offset env.albumssearchlimit

/-- The `++albums_requests_active_` of a request that was sent. -/
def albumsSent (s : State) : State :=
  { s with albums_requests_active_ := s.albums_requests_active_ + 1 }

/-- The loop of `QobuzRequest::FlushAlbumsRequests`; the list is `albums_requests_queue_`. -/
def FlushAlbumsLoop : List Request → State → State
  | [], s => s
  | request :: rest, s =>
    if s.albums_requests_active_ < kMaxConcurrentAlbumsRequests then
      if s.type_ = QueryType_Albums ∨ s.type_ = QueryType_SearchAlbums then
        FlushAlbumsLoop rest
          (albumsSent (issueReply { s with albums_requests_queue_ := rest }
            (Callback.Albums request.limit request.offset)))
      else FlushAlbumsLoop rest { s with albums_requests_queue_ := rest }
    else s

/-- `QobuzRequest::FlushAlbumsRequests`. -/
def FlushAlbumsRequests (s : State) : State :=
  FlushAlbumsLoop s.albums_requests_queue_ s

/-- `QobuzRequest::AddSongsRequest`. -/
def AddSongsRequest (s : State) (offset limit : Int) : State :=
  StartRequests
    { s with songs_requests_queue_ := s.songs_requests_queue_ ++ [{ offset := offset, limit := limit }],
             songs_requests_total_ := s.songs_requests_total_ + 1 }

/-- `QobuzRequest::AddSongsSearchRequest`. -/
def AddSongsSearchRequest (env : Env) (s : State) (offset : Int) : State :=
  AddSongsRequest s offset env.songssearchlimit

/-- The `++songs_requests_active_` of a request that was sent. -/
def songsSent (s : State) : State :=
  { s with songs_requests_active_ := s.songs_requests_active_ + 1 }

/-- The loop of `QobuzRequest::FlushSongsRequests`; the list is `songs_requests_queue_`. -/
def FlushSongsLoop : List Request → State → State
  | [], s => s
  | request :: rest, s =>
    if s.songs_requests_active_ < kMaxConcurrentSongsRequests then
      if s.type_ = QueryType_Songs ∨ s.type_ = QueryType_SearchSongs then
        FlushSongsLoop rest
          (songsSent (issueReply { s with songs_requests_queue_ := rest }
            (Callback.Songs request.limit request.offset)))
      else FlushSongsLoop rest { s with songs_requests_queue_ := rest }
    else s

/-- `QobuzRequest::FlushSongsRequests`. -/
def FlushSongsRequests (s : State) : State :=
  FlushSongsLoop s.songs_requests_queue_ s

/-- `QobuzRequest::AddArtistAlbumsRequest`. -/
def AddArtistAlbumsRequest (s : State) (artist : Artist) (offset : Int) : State :=
  StartRequests
    { s with artist_albums_requests_queue_ :=
               s.artist_albums_requests_queue_ ++ [{ artist := artist, offset := offset, limit := 0 }],
             artist_albums_requests_total_ := s.artist_albums_requests_total_ + 1 }

/-- The `++artist_albums_requests_active_` of a request that was sent. -/
def artistAlbumsSent (s : State) : State :=
  { s with artist_albums_requests_active_ := s.artist_albums_requests_active_ + 1 }

/-- The loop of `QobuzRequest::FlushArtistAlbumsRequests`. -/
def FlushArtistAlbumsLoop : List ArtistAlbumsRequest → State → State
  | [], s => s
  | request :: rest, s =>
    if s.artist_albums_requests_active_ < kMaxConcurrentArtistAlbumsRequests then
      FlushArtistAlbumsLoop rest
        (artistAlbumsSent (issueReply { s with artist_albums_requests_queue_ := rest }
          (Callback.ArtistAlbums request.artist request.offset)))
    else s

/-- `QobuzRequest::FlushArtistAlbumsRequests`. -/
def FlushArtistAlbumsRequests (s : State) : State :=
  FlushArtistAlbumsLoop s.artist_albums_requests_queue_ s

/-- `QobuzRequest::AddAlbumSongsRequest`. -/
def AddAlbumSongsRequest (s : State) (artist : Artist) (album : Album) (offset : Int) : State :=
  StartRequests
    { s with album_songs_requests_queue_ :=
               s.album_songs_requests_queue_ ++
                 [{ artist := artist, album := album, offset := offset, limit := 0 }],
             album_songs_requests_total_ := s.album_songs_requests_total_ + 1 }

/-- The `++album_songs_requests_active_` of a request that was sent. -/
def albumSongsSent (s : State) : State :=
  { s with album_songs_requests_active_ := s.album_songs_requests_active_ + 1 }

/-- The loop of `QobuzRequest::FlushAlbumSongsRequests`. -/
def FlushAlbumSongsLoop : List AlbumSongsRequest → State → State
  | [], s => s
  | request :: rest, s =>
    if s.album_songs_requests_active_ < kMaxConcurrentAlbumSongsRequests then
      FlushAlbumSongsLoop rest
        (albumSongsSent (issueReply { s with album_songs_requests_queue_ := rest }
          (Callback.AlbumSongs request.artist request.album request.offset)))
    else s

/-- `QobuzRequest::FlushAlbumSongsRequests`. -/
def FlushAlbumSongsRequests (s : State) : State :=
  FlushAlbumSongsLoop s.album_songs_requests_queue_ s

/-- The `++album_covers_requests_active_` of a download that was started. -/
def albumCoverSent (s : State) : State :=
  { s with album_covers_requests_active_ := s.album_covers_requests_active_ + 1 }

/-- The loop of `QobuzRequest::FlushAlbumCoverRequests`. -/
def FlushAlbumCoverLoop : List AlbumCoverRequest → State → State
  | [], s => s
  | request :: rest, s =>
    if s.album_covers_requests_active_ < kMaxConcurrentAlbumCoverRequests then
      FlushAlbumCoverLoop rest
        (albumCoverSent (issueCoverReply { s with album_cover_requests_queue_ := rest }
          (Callback.AlbumCover request.url request.filename)))
    else s

/-- `QobuzRequest::FlushAlbumCoverRequests`. -/
def FlushAlbumCoverRequests (s : State) : State :=
  FlushAlbumCoverLoop s.album_cover_requests_queue_ s

/-- `QobuzRequest::FlushRequests`, the slot of the flush timer. -/
def FlushRequests (s : State) : State :=
  if s.artists_requests_queue_ ≠ [] then FlushArtistsRequests s
  else if s.albums_requests_queue_ ≠ [] then FlushAlbumsRequests s
  else if s.artist_albums_requests_queue_ ≠ [] then FlushArtistAlbumsRequests s
  else if s.album_songs_requests_queue_ ≠ [] then FlushAlbumSongsRequests s
  else if s.songs_requests_queue_ ≠ [] then FlushSongsRequests s
  else if s.album_cover_requests_queue_ ≠ [] then FlushAlbumCoverRequests s
  else { s with timer_active := false }

/-! ## Album covers -/

/-- `QobuzRequest::AddAlbumCoverRequest`. -/
def AddAlbumCoverRequest (env : Env) (s : State) (song : Song) : State :=
  if env.url_valid song.art_automatic = false then s
  else if mapContains s.album_covers_requests_sent_ song.art_automatic = true then
    { s with album_covers_requests_sent_ :=
               s.album_covers_requests_sent_ ++ [(song.art_automatic, song.song_id)] }
  else if env.CoverFilePath song = "" then s
  else
    { s with album_covers_requests_sent_ :=
               s.album_covers_requests_sent_ ++ [(song.art_automatic, song.song_id)],
             album_covers_requests_total_ := s.album_covers_requests_total_ + 1,
             album_cover_requests_queue_ :=
               s.album_cover_requests_queue_ ++
                 [{ url := song.art_automatic, filename := env.CoverFilePath song }] }

/-- The status `GetAlbumCovers` emits once the downloads are queued. -/
def albumCoversStatus (s : State) : State :=
  if s.album_covers_requests_total_ = 1 then
    emit s (Event.UpdateStatus
      ("Receiving album cover for " ++ toString s.album_covers_requests_total_ ++ " album..."))
  else
    emit s (Event.UpdateStatus
      ("Receiving album covers for " ++ toString s.album_covers_requests_total_ ++ " albums..."))

/-- `QobuzRequest::GetAlbumCovers`. -/
def GetAlbumCovers (env : Env) (s : State) : State :=
  StartRequests
    (emit (albumCoversStatus (s.songs_.foldl (fun st kv => AddAlbumCoverRequest env st kv.2) s))
      (Event.UpdateProgress Progress.Zero))

/-- `QobuzRequest::GetAlbumCoversCheck`. -/
def GetAlbumCoversCheck (env : Env) (s : State) : State :=
  if s.finished_ = false ∧ env.download_album_covers = true ∧ IsQuery s.type_ = true ∧ Quiescent s then
    GetAlbumCovers env s
  else s

/-- `QobuzRequest::AlbumCoverFinishCheck`. -/
def AlbumCoverFinishCheck (s : State) : State :=
  FinishCheck s

/-- The `remove(cover_url)` of the cover registry: every entry of the URL goes. -/
def removeCover (s : State) (cover_url : String) : State :=
  { s with album_covers_requests_sent_ :=
             s.album_covers_requests_sent_.filter (fun kv => kv.1 != cover_url) }

/-- One round of the `take` loop: the song, if it is in `songs_`, gets the local file as cover. -/
def setLocalCover (songs : SongMap) (filename song_id : String) : SongMap :=
  songs.map (fun kv =>
    if kv.1 == song_id then (kv.1, { kv.2 with art_automatic := "file://" ++ filename }) else kv)

/-- The `while (album_covers_requests_sent_.contains(cover_url))` loop of a saved cover: every
song id registered under the URL is taken and its song updated. -/
def applyCover (s : State) (cover_url filename : String) : State :=
  { s with
    songs_ :=
      ((s.album_covers_requests_sent_.filter (fun kv => kv.1 == cover_url)).map (fun kv => kv.2)).foldl
        (fun songs id => setLocalCover songs filename id) s.songs_,
    album_covers_requests_sent_ :=
      s.album_covers_requests_sent_.filter (fun kv => kv.1 != cover_url) }

/-- The `--album_covers_requests_active_; ++album_covers_requests_received_` of the handler. -/
def albumCoverSettled (s : State) : State :=
  { s with album_covers_requests_active_ := s.album_covers_requests_active_ - 1,
           album_covers_requests_received_ := s.album_covers_requests_received_ + 1 }

/-- The progress signal of `AlbumCoverReceived`. -/
def albumCoverProgress (s : State) : State :=
  emit s (Event.UpdateProgress
    (Progress.GetProgress s.album_covers_requests_received_ s.album_covers_requests_total_))

/-- `AlbumCoverReceived` from the registry test on. -/
def AlbumCoverBody (env : Env) (s : State) (reply : QNetworkReply)
    (cover_url filename : String) : State :=
  if mapContains s.album_covers_requests_sent_ cover_url = false then AlbumCoverFinishCheck s
  else
    match reply.error with
    | some (errorString, code) =>
      AlbumCoverFinishCheck
        (removeCover (Error s (errorString ++ " (" ++ toString code ++ ")")) cover_url)
    | none =>
      if reply.http_status ≠ 200 then
        AlbumCoverFinishCheck
          (removeCover
            (Error s ("Received HTTP code " ++ toString reply.http_status ++ " for " ++
              cover_url ++ "."))
            cover_url)
      else if env.mimetype_supported (reply.content_type.takeWhile (fun c => c != ';')) = false then
        AlbumCoverFinishCheck
          (removeCover
            (Error s ("Unsupported mimetype for image reader " ++
              reply.content_type.takeWhile (fun c => c != ';') ++ " for " ++ cover_url))
            cover_url)
      else if reply.body_empty = true then
        AlbumCoverFinishCheck
          (removeCover (Error s ("Received empty image data for " ++ cover_url)) cover_url)
      else if reply.image_loads = true then
        if reply.image_saves = true then AlbumCoverFinishCheck (applyCover s cover_url filename)
        else
          AlbumCoverFinishCheck
            (removeCover (Error s ("Error saving image data to " ++ filename)) cover_url)
      else
        AlbumCoverFinishCheck
          (Error (removeCover s cover_url) ("Error decoding image data from " ++ cover_url))

/-- `AlbumCoverReceived` from the `finished_` test on. -/
def AlbumCoverSettled (env : Env) (s : State) (reply : QNetworkReply)
    (cover_url filename : String) : State :=
  if s.finished_ = true then s
  else AlbumCoverBody env (albumCoverProgress s) reply cover_url filename

/-- `QobuzRequest::AlbumCoverReceived`. -/
def AlbumCoverReceived (env : Env) (s : State) (reply : QNetworkReply)
    (cover_url filename : String) : State :=
  if reply.handle ∉ s.album_cover_replies_ then AlbumCoverFinishCheck s
  else
    AlbumCoverSettled env (albumCoverSettled (takeCoverReply s reply.handle)) reply cover_url filename

/-! ## The artists stage -/

/-- The first block of `QobuzRequest::ArtistsFinishCheck`: the next page of the listing. -/
def ArtistsNextPage (env : Env) (s : State) (limit offset artists_received : Int) : State :=
  if (limit = 0 ∨ limit > artists_received) ∧ s.artists_received_ < s.artists_total_ then
    if offset + artists_received > 0 ∧ offset + artists_received < s.artists_total_ then
      if s.type_ = QueryType_Artists then AddArtistsRequest s (offset + artists_received) 0
      else if s.type_ = QueryType_SearchArtists then
        AddArtistsSearchRequest env s (offset + artists_received)
      else s
    else s
  else s

/-- The `artist_albums_requests_pending_.clear()` of `ArtistsFinishCheck`. -/
def clearArtistAlbumsPending (s : State) : State :=
  { s with artist_albums_requests_pending_ := [] }

/-- The status and progress `ArtistsFinishCheck` emits when artist-albums requests exist. -/
def artistAlbumsStatus (s : State) : State :=
  if s.artist_albums_requests_total_ > 0 then
    emit
      (if s.artist_albums_requests_total_ = 1 then
        emit s (Event.UpdateStatus
          ("Receiving albums for " ++ toString s.artist_albums_requests_total_ ++ " artist..."))
      else
        emit s (Event.UpdateStatus
          ("Receiving albums for " ++ toString s.artist_albums_requests_total_ ++ " artists...")))
      (Event.UpdateProgress Progress.Zero)
  else s

/-- The second block of `QobuzRequest::ArtistsFinishCheck`: once the artists stage has drained,
the pending artists become artist-albums requests. -/
def ArtistsRelease (s : State) : State :=
  if s.artists_requests_queue_ = [] ∧ s.artists_requests_active_ ≤ 0 then
    artistAlbumsStatus (clearArtistAlbumsPending
      (s.artist_albums_requests_pending_.foldl
        (fun st kv => AddArtistAlbumsRequest st kv.2.artist 0) s))
  else s

/-- `QobuzRequest::ArtistsFinishCheck`. -/
def ArtistsFinishCheck (env : Env) (s : State) (limit offset artists_received : Int) : State :=
  if s.finished_ = true then s
  else FinishCheck (ArtistsRelease (ArtistsNextPage env s limit offset artists_received))

/-- The body of the item loop of `ArtistsReplyReceived` once the item object is at hand. -/
def ArtistsItemObject (s : State) (obj_item : QJsonObject) : State :=
  if jsonContains obj_item "id" = false ∨ jsonContains obj_item "name" = false then
    Error s "Invalid Json reply, item missing id or album."
  else if mapContains s.artist_albums_requests_pending_ (idString (jsonValue obj_item "id")) = true
  then s
  else
    { s with artist_albums_requests_pending_ :=
               mapInsert s.artist_albums_requests_pending_ (idString (jsonValue obj_item "id"))
                 { artist := { artist_id := idString (jsonValue obj_item "id"),
                               artist := (jsonValue obj_item "name").toQString },
                   offset := 0, limit := 0 } }

/-- One round of the item loop of `ArtistsReplyReceived`. -/
def ArtistsItem (s : State) (value_item : QJsonValue) : State :=
  match value_item with
  | QJsonValue.object obj_item =>
    if jsonContains obj_item "item" = true then
      match jsonValue obj_item "item" with
      | QJsonValue.object json_item => ArtistsItemObject s json_item
      | _ => Error s "Invalid Json reply, item not a object."
    else ArtistsItemObject s obj_item
  | _ => Error s "Invalid Json reply, item not a object."

/-- The `no_results_ = true` of an empty first page. -/
def noResults (s : State) : State :=
  { s with no_results_ := true }

/-- The `artists_total_ = artists_total` of a first page. -/
def artistsTotalStored (s : State) (artists_total : Int) : State :=
  { s with artists_total_ := artists_total }

/-- The `artists_received_ += artists_received` after the item loop. -/
def artistsCounted (s : State) (artists_received : Int) : State :=
  { s with artists_received_ := s.artists_received_ + artists_received }

/-- The progress signal of `ArtistsReplyReceived`. -/
def artistsProgress (s : State) : State :=
  emit s (Event.UpdateProgress (Progress.GetProgress s.artists_received_ s.artists_total_))

/-- `ArtistsReplyReceived` from `ExtractItems` on. -/
def ArtistsItems (env : Env) (s : State) (obj_artists : QJsonObject)
    (limit_requested offset_requested : Int) : State :=
  match ExtractItems obj_artists with
  | QJsonValue.array array_items =>
    if array_items.isEmpty = true then
      ArtistsFinishCheck env (if offset_requested = 0 then noResults s else s) 0 0 0
    else if offset_requested ≠ 0 then
      ArtistsFinishCheck env
        (artistsProgress (artistsCounted (array_items.foldl ArtistsItem s) array_items.length))
        limit_requested (jsonValue obj_artists "offset").toInt array_items.length
    else
      ArtistsFinishCheck env (artistsCounted (array_items.foldl ArtistsItem s) array_items.length)
        limit_requested (jsonValue obj_artists "offset").toInt array_items.length
  | _ => ArtistsFinishCheck env s 0 0 0

/-- `ArtistsReplyReceived` from the offset check on; `artists_total_` is already settled. -/
def ArtistsPage (env : Env) (s : State) (obj_artists : QJsonObject)
    (limit_requested offset_requested : Int) : State :=
  if (jsonValue obj_artists "offset").toInt ≠ offset_requested then
    ArtistsFinishCheck env
      (Error s ("Offset returned does not match offset requested! " ++
        toString (jsonValue obj_artists "offset").toInt ++ " != " ++ toString offset_requested)) 0 0 0
  else if offset_requested = 0 then
    ArtistsItems env (artistsProgress s) obj_artists limit_requested offset_requested
  else ArtistsItems env s obj_artists limit_requested offset_requested

/-- `ArtistsReplyReceived` once the `artists` container object is at hand. -/
def ArtistsContainer (env : Env) (s : State) (obj_artists : QJsonObject)
    (limit_requested offset_requested : Int) : State :=
  if missingPageValues obj_artists = true then
    Error (ArtistsFinishCheck env s 0 0 0) "Json artists object is missing values."
  else if offset_requested = 0 then
    ArtistsPage env (artistsTotalStored s (jsonValue obj_artists "total").toInt) obj_artists
      limit_requested offset_requested
  else if (jsonValue obj_artists "total").toInt ≠ s.artists_total_ then
    ArtistsFinishCheck env
      (Error s ("total returned does not match previous total! " ++
        toString (jsonValue obj_artists "total").toInt ++ " != " ++ toString s.artists_total_)) 0 0 0
  else ArtistsPage env s obj_artists limit_requested offset_requested

/-- `ArtistsReplyReceived` once `ExtractJsonObj` has run. -/
def ArtistsParsed (env : Env) (s : State) (json_obj : QJsonObject)
    (limit_requested offset_requested : Int) : State :=
  if json_obj.isEmpty = true then ArtistsFinishCheck env s 0 0 0
  else if jsonContains json_obj "artists" = false then
    Error (ArtistsFinishCheck env s 0 0 0) "Json object is missing artists."
  else
    match jsonValue json_obj "artists" with
    | QJsonValue.object obj_artists =>
      ArtistsContainer env s obj_artists limit_requested offset_requested
    | _ => ArtistsFinishCheck env (Error s "Json artists is not an object.") 0 0 0

/-- The `--artists_requests_active_; ++artists_requests_received_` of the handler. -/
def artistsSettled (s : State) : State :=
  { s with artists_requests_active_ := s.artists_requests_active_ - 1,
           artists_requests_received_ := s.artists_requests_received_ + 1 }

/-- `ArtistsReplyReceived` from the `finished_` test on. -/
def ArtistsSettled (env : Env) (s : State) (reply : QNetworkReply)
    (limit_requested offset_requested : Int) : State :=
  if s.finished_ = true then s
  else
    match reply.data with
    | none => ArtistsFinishCheck env s 0 0 0
    | some bytes =>
      ArtistsParsed env (ExtractJsonObj s bytes) bytes.json_obj limit_requested offset_requested

/-- `QobuzRequest::ArtistsReplyReceived`. -/
def ArtistsReplyReceived (env : Env) (s : State) (reply : QNetworkReply)
    (limit_requested offset_requested : Int) : State :=
  if reply.handle ∉ s.replies_ then s
  else
    ArtistsSettled env (artistsSettled (GetReplyData (takeReply s reply.handle) reply)) reply
      limit_requested offset_requested

/-! ## The albums stage -/

/-- The first block of `QobuzRequest::AlbumsFinishCheck`: the next page of the listing. -/
def AlbumsNextPage (env : Env) (s : State) (artist : Artist)
    (limit offset albums_total albums_received : Int) : State :=
  if limit = 0 ∨ limit > albums_received then
    if offset + albums_received > 0 ∧ offset + albums_received < albums_total then
      match s.type_ with
      | QueryType_Albums => AddAlbumsRequest s (offset + albums_received) 0
      | QueryType_SearchAlbums => AddAlbumsSearchRequest env s (offset + albums_received)
      | QueryType_Artists => AddArtistAlbumsRequest s artist (offset + albums_received)
      | QueryType_SearchArtists => AddArtistAlbumsRequest s artist (offset + albums_received)
      | _ => s
    else s
  else s

/-- The `album_songs_requests_pending_.clear()` of `AlbumsFinishCheck`. -/
def clearAlbumSongsPending (s : State) : State :=
  { s with album_songs_requests_pending_ := [] }

/-- The status and progress `AlbumsFinishCheck` emits when album-songs requests exist. -/
def albumSongsStatus (s : State) : State :=
  if s.album_songs_requests_total_ > 0 then
    emit
      (if s.album_songs_requests_total_ = 1 then
        emit s (Event.UpdateStatus
          ("Receiving songs for " ++ toString s.album_songs_requests_total_ ++ " album..."))
      else
        emit s (Event.UpdateStatus
          ("Receiving songs for " ++ toString s.album_songs_requests_total_ ++ " albums...")))
      (Event.UpdateProgress Progress.Zero)
  else s

/-- The second block of `QobuzRequest::AlbumsFinishCheck`: once the artists, albums and
artist-albums stages have drained, the pending albums become album-songs requests. -/
def AlbumsRelease (s : State) : State :=
  if s.artists_requests_queue_ = [] ∧ s.artists_requests_active_ ≤ 0 ∧
      s.albums_requests_queue_ = [] ∧ s.albums_requests_active_ ≤ 0 ∧
      s.artist_albums_requests_queue_ = [] ∧ s.artist_albums_requests_active_ ≤ 0 then
    albumSongsStatus (clearAlbumSongsPending
      (s.album_songs_requests_pending_.foldl
        (fun st kv => AddAlbumSongsRequest st kv.2.artist kv.2.album 0) s))
  else s

/-- `QobuzRequest::AlbumsFinishCheck`. -/
def AlbumsFinishCheck (env : Env) (s : State) (artist : Artist)
    (limit offset albums_total albums_received : Int) : State :=
  if s.finished_ = true then s
  else
    FinishCheck (GetAlbumCoversCheck env
      (AlbumsRelease (AlbumsNextPage env s artist limit offset albums_total albums_received)))

/-- The tail of the item loop of `AlbumsReceived`: the album's artist and the pending entry. -/
def AlbumsItemArtist (artist_requested : Artist) (s : State) (obj_item : QJsonObject) : State :=
  match jsonValue obj_item "artist" with
  | QJsonValue.object obj_artist =>
    if jsonContains obj_artist "id" = false ∨ jsonContains obj_artist "name" = false then
      Error s "Invalid Json reply, item artist missing id or name."
    else if artist_requested.artist_id ≠ "" ∧
        idString (jsonValue obj_artist "id") ≠ artist_requested.artist_id then s
    else
      { s with album_songs_requests_pending_ :=
                 mapInsert s.album_songs_requests_pending_ (idString (jsonValue obj_item "id"))
                   { artist := { artist_id := idString (jsonValue obj_artist "id"),
                                 artist := (jsonValue obj_artist "name").toQString },
                     album := { album_id := idString (jsonValue obj_item "id"),
                                album := (jsonValue obj_item "title").toQString, cover_url := "" },
                     offset := 0, limit := 0 } }
  | _ => Error s "Invalid Json reply, item artist is not a object."

/-- One round of the item loop of `AlbumsReceived`. -/
def AlbumsItem (artist_requested : Artist) (s : State) (value_item : QJsonValue) : State :=
  match value_item with
  | QJsonValue.object obj_item =>
    if jsonContains obj_item "artist" = false ∨ jsonContains obj_item "title" = false ∨
        jsonContains obj_item "id" = false then
      Error s "Invalid Json reply, item missing artist, title or id."
    else if mapContains s.album_songs_requests_pending_ (idString (jsonValue obj_item "id")) = true
    then s
    else AlbumsItemArtist artist_requested s obj_item
  | _ => Error s "Invalid Json reply, item in array is not a object."

/-- The `albums_received_ += albums_received` and the progress signal of a listing page. -/
def albumsCounted (s : State) (albums_received : Int) : State :=
  if s.type_ = QueryType_Albums ∨ s.type_ = QueryType_SearchAlbums then
    emit { s with albums_received_ := s.albums_received_ + albums_received }
      (Event.UpdateProgress
        (Progress.GetProgress (s.albums_received_ + albums_received) s.albums_total_))
  else s

/-- `AlbumsReceived` once the `albums` container object is at hand. -/
def AlbumsContainer (env : Env) (s : State) (obj_albums : QJsonObject) (artist_requested : Artist)
    (limit_requested offset_requested : Int) : State :=
  if missingPageValues obj_albums = true then
    Error (AlbumsFinishCheck env s artist_requested 0 0 0 0) "Json albums object is missing values."
  else if (jsonValue obj_albums "offset").toInt ≠ offset_requested then
    AlbumsFinishCheck env
      (Error s ("Offset returned does not match offset requested! " ++
        toString (jsonValue obj_albums "offset").toInt ++ " != " ++ toString offset_requested))
      artist_requested 0 0 0 0
  else
    match ExtractItems obj_albums with
    | QJsonValue.array array_items =>
      if array_items.isEmpty = true then
        AlbumsFinishCheck env
          (if (s.type_ = QueryType_Albums ∨ s.type_ = QueryType_SearchAlbums) ∧ offset_requested = 0
            then noResults s else s) artist_requested 0 0 0 0
      else
        AlbumsFinishCheck env
          (albumsCounted (array_items.foldl (AlbumsItem artist_requested) s) array_items.length)
          artist_requested limit_requested (jsonValue obj_albums "offset").toInt
          (jsonValue obj_albums "total").toInt array_items.length
    | _ => AlbumsFinishCheck env s artist_requested 0 0 0 0

/-- The artist an albums reply names at its top level, or the requested one. -/
def repliedArtist (json_obj : QJsonObject) (artist_requested : Artist) : Artist :=
  if jsonContains json_obj "id" = true ∧ jsonContains json_obj "name" = true then
    { artist_id := idString (jsonValue json_obj "id"),
      artist := (jsonValue json_obj "name").toQString }
  else artist_requested

/-- `AlbumsReceived` once `ExtractJsonObj` has run. -/
def AlbumsParsed (env : Env) (s : State) (json_obj : QJsonObject) (artist_requested : Artist)
    (limit_requested offset_requested : Int) : State :=
  if json_obj.isEmpty = true then AlbumsFinishCheck env s artist_requested 0 0 0 0
  else if (repliedArtist json_obj artist_requested).artist_id ≠ artist_requested.artist_id then
    Error (AlbumsFinishCheck env s artist_requested 0 0 0 0)
      "Artist ID returned does not match artist ID requested."
  else if jsonContains json_obj "albums" = false then
    Error (AlbumsFinishCheck env s artist_requested 0 0 0 0) "Json object is missing albums."
  else
    match jsonValue json_obj "albums" with
    | QJsonValue.object obj_albums =>
      AlbumsContainer env s obj_albums artist_requested limit_requested offset_requested
    | _ =>
      AlbumsFinishCheck env (Error s "Json albums is not an object.") artist_requested 0 0 0 0

/-- `AlbumsReceived` from the `finished_` test on. -/
def AlbumsSettled (env : Env) (s : State) (reply : QNetworkReply) (artist_requested : Artist)
    (limit_requested offset_requested : Int) : State :=
  if s.finished_ = true then s
  else
    match reply.data with
    | none => AlbumsFinishCheck env s artist_requested 0 0 0 0
    | some bytes =>
      AlbumsParsed env (ExtractJsonObj s bytes) bytes.json_obj artist_requested limit_requested
        offset_requested

/-- `QobuzRequest::AlbumsReceived`. -/
def AlbumsReceived (env : Env) (s : State) (reply : QNetworkReply) (artist_requested : Artist)
    (limit_requested offset_requested : Int) : State :=
  if reply.handle ∉ s.replies_ then s
  else
    AlbumsSettled env (GetReplyData (takeReply s reply.handle) reply) reply artist_requested
      limit_requested offset_requested

/-- The `--albums_requests_active_; ++albums_requests_received_` of the handler. -/
def albumsSettled (s : State) : State :=
  { s with albums_requests_active_ := s.albums_requests_active_ - 1,
           albums_requests_received_ := s.albums_requests_received_ + 1 }

/-- `QobuzRequest::AlbumsReplyReceived`. -/
def AlbumsReplyReceived (env : Env) (s : State) (reply : QNetworkReply)
    (limit_requested offset_requested : Int) : State :=
  AlbumsReceived env (albumsSettled s) reply Artist.empty limit_requested offset_requested

/-- The `--artist_albums_requests_active_; ++artist_albums_requests_received_` of the handler. -/
def artistAlbumsSettled (s : State) : State :=
  { s with artist_albums_requests_active_ := s.artist_albums_requests_active_ - 1,
           artist_albums_requests_received_ := s.artist_albums_requests_received_ + 1 }

/-- The progress signal of `ArtistAlbumsReplyReceived`. -/
def artistAlbumsProgress (s : State) : State :=
  emit s (Event.UpdateProgress
    (Progress.GetProgress s.artist_albums_requests_received_ s.artist_albums_requests_total_))

/-- `QobuzRequest::ArtistAlbumsReplyReceived`. -/
def ArtistAlbumsReplyReceived (env : Env) (s : State) (reply : QNetworkReply) (artist : Artist)
    (offset_requested : Int) : State :=
  AlbumsReceived env (artistAlbumsProgress (artistAlbumsSettled s)) reply artist 0 offset_requested

/-! ## The songs stage -/

/-- The first block of `QobuzRequest::SongsFinishCheck`: the next page of the listing. -/
def SongsNextPage (env : Env) (s : State) (artist : Artist) (album : Album)
    (limit offset songs_total songs_received : Int) : State :=
  if limit = 0 ∨ limit > songs_received then
    if offset + songs_received > 0 ∧ offset + songs_received < songs_total then
      match s.type_ with
      | QueryType_Songs => AddSongsRequest s (offset + songs_received) 0
      | QueryType_SearchSongs => AddSongsSearchRequest env s (offset + songs_received)
      | QueryType_Artists => AddAlbumSongsRequest s artist album (offset + songs_received)
      | QueryType_SearchArtists => AddAlbumSongsRequest s artist album (offset + songs_received)
      | QueryType_Albums => AddAlbumSongsRequest s artist album (offset + songs_received)
      | QueryType_SearchAlbums => AddAlbumSongsRequest s artist album (offset + songs_received)
      | _ => s
    else s
  else s

/-- `QobuzRequest::SongsFinishCheck`. -/
def SongsFinishCheck (env : Env) (s : State) (artist : Artist) (album : Album)
    (limit offset songs_total songs_received : Int) : State :=
  if s.finished_ = true then s
  else
    FinishCheck (GetAlbumCoversCheck env
      (SongsNextPage env s artist album limit offset songs_total songs_received))

/-- The `album` block of `ParseSong`: the song's album and artist, or the error it reports. -/
def ParseSongAlbum (json_obj : QJsonObject) (album_artist : Artist) (album : Album) :
    Except String (Artist × Album) :=
  if jsonContains json_obj "album" = true then
    match jsonValue json_obj "album" with
    | QJsonValue.object obj_album =>
      let album1 : Album :=
        if jsonContains obj_album "id" = true then
          { album with album_id := idString (jsonValue obj_album "id") }
        else album
      let album2 : Album :=
        if jsonContains obj_album "title" = true then
          { album1 with album := (jsonValue obj_album "title").toQString }
        else album1
      let artist? : Except String Artist :=
        if jsonContains obj_album "artist" = true then
          match jsonValue obj_album "artist" with
          | QJsonValue.object obj_artist =>
            if jsonContains obj_artist "id" = false ∨ jsonContains obj_artist "name" = false then
              Except.error "Invalid Json reply, album artist is missing id or name."
            else
              Except.ok { artist_id := idString (jsonValue obj_artist "id"),
                          artist := (jsonValue obj_artist "name").toQString }
          | _ => Except.error "Invalid Json reply, album artist is not a object."
        else Except.ok album_artist
      match artist? with
      | Except.error e => Except.error e
      | Except.ok song_artist =>
        if jsonContains obj_album "image" = true then
          match jsonValue obj_album "image" with
          | QJsonValue.object obj_image =>
            if jsonContains obj_image "large" = false then
              Except.error "Invalid Json reply, album image is missing large."
            else
              let album_image := (jsonValue obj_image "large").toQString
              if album_image ≠ "" then Except.ok (song_artist, { album2 with cover_url := album_image })
              else Except.ok (song_artist, album2)
          | _ => Except.error "Invalid Json reply, album image is not a object."
        else Except.ok (song_artist, album2)
    | _ => Except.error "Invalid Json reply, album is not an object."
  else Except.ok (album_artist, album)

/-- The `composer` and `performer` blocks of `ParseSong`: the name, or the error reported. -/
def ParseSongPerson (json_obj : QJsonObject) (key : String) : Except String String :=
  if jsonContains json_obj key = true then
    match jsonValue json_obj key with
    | QJsonValue.object obj_person =>
      if jsonContains obj_person "id" = false ∨ jsonContains obj_person "name" = false then
        Except.error ("Invalid Json reply, track " ++ key ++ " is missing id or name.")
      else Except.ok (jsonValue obj_person "name").toQString
    | _ => Except.error ("Invalid Json reply, track " ++ key ++ " is not a object.")
  else Except.ok ""

/-- The parse of `ParseSong`: the filled song, or the one error the function reports before it
returns with the song untouched. -/
def ParseSongFields (env : Env) (json_obj : QJsonObject) (album_artist : Artist) (album : Album) :
    Except String Song :=
  if jsonContains json_obj "id" = false ∨ jsonContains json_obj "title" = false ∨
      jsonContains json_obj "track_number" = false ∨ jsonContains json_obj "duration" = false ∨
      jsonContains json_obj "copyright" = false ∨ jsonContains json_obj "streamable" = false then
    Except.error "Invalid Json reply, track is missing one or more values."
  else
    let song_id := idString (jsonValue json_obj "id")
    let title := (jsonValue json_obj "title").toQString
    let track := (jsonValue json_obj "track_number").toInt
    let copyright := (jsonValue json_obj "copyright").toQString
    let duration := (jsonValue json_obj "duration").toInt * kNsecPerSec
    match ParseSongAlbum json_obj album_artist album with
    | Except.error e => Except.error e
    | Except.ok (song_artist, song_album) =>
      match ParseSongPerson json_obj "composer" with
      | Except.error e => Except.error e
      | Except.ok composer =>
        match ParseSongPerson json_obj "performer" with
        | Except.error e => Except.error e
        | Except.ok performer =>
          Except.ok
            { Song.fresh with
              song_id := song_id, album_id := song_album.album_id, artist_id := song_artist.artist_id,
              album := song_album.album, artist := song_artist.artist,
              albumartist :=
                if album_artist.artist ≠ "" ∧ album_artist.artist ≠ song_artist.artist
                then album_artist.artist else "",
              title := env.title_remove_misc title, track := track,
              url := env.scheme ++ ":" ++ song_id, length_nanosec := duration,
              art_automatic := song_album.cover_url, performer := performer, composer := composer,
              comment := copyright, valid := true }

/-- `QobuzRequest::ParseSong`: the state after it and the song it leaves. -/
def ParseSong (env : Env) (s : State) (json_obj : QJsonObject) (album_artist : Artist)
    (album : Album) : State × Song :=
  match ParseSongFields env json_obj album_artist album with
  | Except.error e => (Error s e, Song.fresh)
  | Except.ok song => (s, song)

/-- The item loop of `SongsReceived`: the state after it and the valid songs, in page order. -/
def SongsItems (env : Env) (album_artist : Artist) (album : Album) :
    List QJsonValue → State → State × List Song
  | [], s => (s, [])
  | QJsonValue.object obj_item :: rest, s =>
    let parsed := ParseSong env s obj_item album_artist album
    let looped := SongsItems env album_artist album rest parsed.1
    (looped.1, if parsed.2.valid = true then parsed.2 :: looped.2 else looped.2)
  | _ :: rest, s =>
    SongsItems env album_artist album rest (Error s "Invalid Json reply, track is not a object.")

/-- The value `songs_received` has after the item loop: the items that are objects. -/
def songsReceivedCount : List QJsonValue → Int
  | [] => 0
  | QJsonValue.object _ :: rest => songsReceivedCount rest + 1
  | _ :: rest => songsReceivedCount rest

/-- The second loop of `SongsReceived`: the page's songs go into `songs_`. -/
def insertSongs (songs_ : SongMap) (songs : List Song) : SongMap :=
  let compilation := songs.any (fun song => song.compilation_detected)
  let multidisc := songs.any (fun song => decide (song.disc ≥ 2))
  songs.foldl
    (fun m song =>
      let song1 := if compilation = true then { song with compilation_detected := true } else song
      let song2 := if multidisc = false then { song1 with disc := 0 } else song1
      mapInsert m song2.song_id song2)
    songs_

/-- The header of an album reply in `SongsReceived`: the album artist and album the tracks
belong to, or the error reported for a malformed `artist` or `image` member. -/
def SongsAlbumHeader (json_obj : QJsonObject) (artist_requested : Artist) (album_requested : Album) :
    Except String (Artist × Album) :=
  let album : Album :=
    if jsonContains json_obj "id" = true ∧ jsonContains json_obj "title" = true then
      { album_requested with album_id := idString (jsonValue json_obj "id"),
                             album := (jsonValue json_obj "title").toQString }
    else album_requested
  let artist? : Except String Artist :=
    if jsonContains json_obj "artist" = true then
      match jsonValue json_obj "artist" with
      | QJsonValue.object obj_artist =>
        if jsonContains obj_artist "id" = false ∨ jsonContains obj_artist "name" = false then
          Except.error "Invalid Json reply, album artist is missing id or name."
        else
          Except.ok { artist_id := idString (jsonValue obj_artist "id"),
                      artist := (jsonValue obj_artist "name").toQString }
      | _ => Except.error "Invalid Json reply, album artist is not a object."
    else Except.ok artist_requested
  match artist? with
  | Except.error e => Except.error e
  | Except.ok album_artist =>
    if jsonContains json_obj "image" = true then
      match jsonValue json_obj "image" with
      | QJsonValue.object obj_image =>
        if jsonContains obj_image "large" = false then
          Except.error "Invalid Json reply, album image is missing large."
        else
          let album_image := (jsonValue obj_image "large").toQString
          if album_image ≠ "" then Except.ok (album_artist, { album with cover_url := album_image })
          else Except.ok (album_artist, album)
      | _ => Except.error "Invalid Json reply, album image is not a object."
    else Except.ok (album_artist, album)

/-- The `songs_.insert` loop of `SongsReceived`. -/
def songsInserted (s : State) (songs : List Song) : State :=
  { s with songs_ := insertSongs s.songs_ songs }

/-- The `songs_received_ += songs_received` and the progress signal of a listing page. -/
def songsCounted (s : State) (songs_received : Int) : State :=
  if s.type_ = QueryType_Songs ∨ s.type_ = QueryType_SearchSongs then
    emit { s with songs_received_ := s.songs_received_ + songs_received }
      (Event.UpdateProgress
        (Progress.GetProgress (s.songs_received_ + songs_received) s.songs_total_))
  else s

/-- `SongsReceived` once the `tracks` container object is at hand. -/
def SongsContainer (env : Env) (s : State) (obj_tracks : QJsonObject)
    (artist_requested : Artist) (album_requested : Album) (album_artist : Artist) (album : Album)
    (limit_requested offset_requested : Int) : State :=
  if missingPageValues obj_tracks = true then
    Error (SongsFinishCheck env s artist_requested album_requested limit_requested offset_requested 0 0)
      "Json songs object is missing values."
  else if (jsonValue obj_tracks "offset").toInt ≠ offset_requested then
    SongsFinishCheck env
      (Error s ("Offset returned does not match offset requested! " ++
        toString (jsonValue obj_tracks "offset").toInt ++ " != " ++ toString offset_requested))
      album_artist album limit_requested offset_requested (jsonValue obj_tracks "total").toInt 0
  else
    match ExtractItems obj_tracks with
    | QJsonValue.array array_items =>
      if array_items.isEmpty = true then
        SongsFinishCheck env
          (if (s.type_ = QueryType_Songs ∨ s.type_ = QueryType_SearchSongs) ∧ offset_requested = 0
            then noResults s else s)
          album_artist album limit_requested offset_requested (jsonValue obj_tracks "total").toInt 0
      else
        SongsFinishCheck env
          (songsCounted
            (songsInserted (SongsItems env album_artist album array_items s).1
              (SongsItems env album_artist album array_items s).2)
            (songsReceivedCount array_items))
          album_artist album limit_requested offset_requested (jsonValue obj_tracks "total").toInt
          (songsReceivedCount array_items)
    | _ =>
      SongsFinishCheck env s album_artist album limit_requested offset_requested
        (jsonValue obj_tracks "total").toInt 0

/-- `SongsReceived` once `ExtractJsonObj` has run. -/
def SongsParsed (env : Env) (s : State) (json_obj : QJsonObject) (artist_requested : Artist)
    (album_requested : Album) (limit_requested offset_requested : Int) : State :=
  if json_obj.isEmpty = true then
    SongsFinishCheck env s artist_requested album_requested limit_requested offset_requested 0 0
  else if jsonContains json_obj "tracks" = false then
    SongsFinishCheck env (Error s "Json object is missing tracks.")
      artist_requested album_requested limit_requested offset_requested 0 0
  else
    match SongsAlbumHeader json_obj artist_requested album_requested with
    | Except.error e =>
      SongsFinishCheck env (Error s e)
        artist_requested album_requested limit_requested offset_requested 0 0
    | Except.ok (album_artist, album) =>
      match jsonValue json_obj "tracks" with
      | QJsonValue.object obj_tracks =>
        SongsContainer env s obj_tracks artist_requested album_requested album_artist album
          limit_requested offset_requested
      | _ =>
        SongsFinishCheck env (Error s "Json tracks is not an object.")
          artist_requested album_requested limit_requested offset_requested 0 0

/-- `SongsReceived` from the `finished_` test on. -/
def SongsSettled (env : Env) (s : State) (reply : QNetworkReply) (artist_requested : Artist)
    (album_requested : Album) (limit_requested offset_requested : Int) : State :=
  if s.finished_ = true then s
  else
    match reply.data with
    | none =>
      SongsFinishCheck env s artist_requested album_requested limit_requested offset_requested 0 0
    | some bytes =>
      SongsParsed env (ExtractJsonObj s bytes) bytes.json_obj artist_requested album_requested
        limit_requested offset_requested

/-- `QobuzRequest::SongsReceived`. -/
def SongsReceived (env : Env) (s : State) (reply : QNetworkReply) (artist_requested : Artist)
    (album_requested : Album) (limit_requested offset_requested : Int) : State :=
  if reply.handle ∉ s.replies_ then s
  else
    SongsSettled env (GetReplyData (takeReply s reply.handle) reply) reply artist_requested
      album_requested limit_requested offset_requested

/-- The `--songs_requests_active_; ++songs_requests_received_` of the handler. -/
def songsSettled (s : State) : State :=
  { s with songs_requests_active_ := s.songs_requests_active_ - 1,
           songs_requests_received_ := s.songs_requests_received_ + 1 }

/-- `QobuzRequest::SongsReplyReceived`. -/
def SongsReplyReceived (env : Env) (s : State) (reply : QNetworkReply)
    (limit_requested offset_requested : Int) : State :=
  SongsReceived env (songsSettled s) reply Artist.empty Album.empty limit_requested offset_requested

/-- The `--album_songs_requests_active_; ++album_songs_requests_received_` of the handler. -/
def albumSongsSettled (s : State) : State :=
  { s with album_songs_requests_active_ := s.album_songs_requests_active_ - 1,
           album_songs_requests_received_ := s.album_songs_requests_received_ + 1 }

/-- The progress signal of `AlbumSongsReplyReceived`, emitted for a first page only. -/
def albumSongsProgress (s : State) (offset_requested : Int) : State :=
  if offset_requested = 0 then
    emit s (Event.UpdateProgress
      (Progress.GetProgress s.album_songs_requests_received_ s.album_songs_requests_total_))
  else s

/-- `QobuzRequest::AlbumSongsReplyReceived`. -/
def AlbumSongsReplyReceived (env : Env) (s : State) (reply : QNetworkReply) (artist : Artist)
    (album : Album) (offset_requested : Int) : State :=
  SongsReceived env (albumSongsProgress (albumSongsSettled s) offset_requested) reply artist album 0
    offset_requested

/-! ## The query driver -/

/-- `QobuzRequest::GetArtists`. -/
def GetArtists (s : State) : State :=
  AddArtistsRequest
    (emit (emit s (Event.UpdateStatus "Receiving artists...")) (Event.UpdateProgress Progress.Zero)) 0 0

/-- `QobuzRequest::GetAlbums`. -/
def GetAlbums (s : State) : State :=
  AddAlbumsRequest
    (emit (emit s (Event.UpdateStatus "Receiving albums...")) (Event.UpdateProgress Progress.Zero)) 0 0

/-- `QobuzRequest::GetSongs`. -/
def GetSongs (s : State) : State :=
  AddSongsRequest
    (emit (emit s (Event.UpdateStatus "Receiving songs...")) (Event.UpdateProgress Progress.Zero)) 0 0

/-- `QobuzRequest::ArtistsSearch`. -/
def ArtistsSearch (env : Env) (s : State) : State :=
  AddArtistsSearchRequest env
    (emit (emit s (Event.UpdateStatus "Searching...")) (Event.UpdateProgress Progress.Zero)) 0

/-- `QobuzRequest::AlbumsSearch`. -/
def AlbumsSearch (env : Env) (s : State) : State :=
  AddAlbumsSearchRequest env
    (emit (emit s (Event.UpdateStatus "Searching...")) (Event.UpdateProgress Progress.Zero)) 0

/-- `QobuzRequest::SongsSearch`. -/
def SongsSearch (env : Env) (s : State) : State :=
  AddSongsSearchRequest env
    (emit (emit s (Event.UpdateStatus "Searching...")) (Event.UpdateProgress Progress.Zero)) 0

/-- `QobuzRequest::Process`. -/
def Process (env : Env) (s : State) : State :=
  match s.type_ with
  | QueryType_Artists => GetArtists s
  | QueryType_Albums => GetAlbums s
  | QueryType_Songs => GetSongs s
  | QueryType_SearchArtists => ArtistsSearch env s
  | QueryType_SearchAlbums => AlbumsSearch env s
  | QueryType_SearchSongs => SongsSearch env s
  | _ => Error s "Invalid query type."

/-- The slot call a finished reply makes through its connection. -/
def dispatch (env : Env) (s : State) (reply : QNetworkReply) : Callback → State
  | Callback.Artists limit offset => ArtistsReplyReceived env s reply limit offset
  | Callback.Albums limit offset => AlbumsReplyReceived env s reply limit offset
  | Callback.Songs limit offset => SongsReplyReceived env s reply limit offset
  | Callback.ArtistAlbums artist offset => ArtistAlbumsReplyReceived env s reply artist offset
  | Callback.AlbumSongs artist album offset => AlbumSongsReplyReceived env s reply artist album offset
  | Callback.AlbumCover url filename => AlbumCoverReceived env s reply url filename

/-- What the event loop delivers to the request: a timeout of the flush timer, or the
`finished` signal of a reply. -/
inductive Input where
  | Tick
  | Finished (reply : QNetworkReply)

/-- One delivery: a timeout runs `FlushRequests` while the timer is active, a finished reply
runs the slot it is connected to, if it still is connected. -/
def step (env : Env) (s : State) : Input → State
  | Input.Tick => if s.timer_active = true then FlushRequests s else s
  | Input.Finished reply =>
    match s.connections.find? (fun c => c.1 == reply.handle) with
    | some c => dispatch env s reply c.2
    | none => s

/-- A run of the request: `Process` on the constructed object, then the deliveries in order. -/
def run (env : Env) (type : QueryType) (inputs : List Input) : State :=
  inputs.foldl (step env) (Process env (State.init type))

/-! ## Predicates of the specification -/

/-- Whether a signal is the final `Results`. -/
def isResults : Event → Bool
  | Event.Results _ _ => true
  | _ => false

/-- The number of `Results` signals emitted so far. -/
def resultsCount (s : State) : Nat := s.emitted.countP isResults

/-- The flag `finished_` as a number: one when set. -/
def finishedCount (s : State) : Nat := if s.finished_ = true then 1 else 0

/-- From `s` to `t` the flag `finished_` is not cleared, and a `Results` signal is emitted
exactly when the flag goes from clear to set. -/
def Mono (s t : State) : Prop :=
  finishedCount s ≤ finishedCount t ∧
  resultsCount t + finishedCount s = resultsCount s + finishedCount t

/-- The condition under which the specification lets `FinishCheck` finalize: not finished,
the six queues empty, the six active counts at most zero, the three pending sets empty. -/
def FinalizeCondition (s : State) : Prop :=
  s.finished_ = false ∧
  (s.artists_requests_queue_ = [] ∧ s.albums_requests_queue_ = [] ∧ s.songs_requests_queue_ = [] ∧
    s.artist_albums_requests_queue_ = [] ∧ s.album_songs_requests_queue_ = [] ∧
    s.album_cover_requests_queue_ = []) ∧
  (s.artists_requests_active_ ≤ 0 ∧ s.albums_requests_active_ ≤ 0 ∧ s.songs_requests_active_ ≤ 0 ∧
    s.artist_albums_requests_active_ ≤ 0 ∧ s.album_songs_requests_active_ ≤ 0 ∧
    s.album_covers_requests_active_ ≤ 0) ∧
  (s.artist_albums_requests_pending_ = [] ∧ s.album_songs_requests_pending_ = [] ∧
    s.album_covers_requests_sent_ = [])

/-! ## Concrete inputs of the scenarios -/

/-- A service configuration without cover download. -/
def sampleEnv : Env :=
  { download_album_covers := false, artistssearchlimit := 10, albumssearchlimit := 10,
    songssearchlimit := 10, url_valid := fun url => url != "",
    CoverFilePath := fun song => "/covers/" ++ song.album_id, title_remove_misc := fun title => title,
    scheme := "qobuz", mimetype_supported := fun _ => true }

/-- A track object with every member `ParseSong` requires. -/
def sampleTrack (id : String) : QJsonValue :=
  QJsonValue.object
    [("id", QJsonValue.string id), ("title", QJsonValue.string "title"),
     ("track_number", QJsonValue.number 1), ("duration", QJsonValue.number 10),
     ("copyright", QJsonValue.string "c"), ("streamable", QJsonValue.bool true)]

/-- A track object without `id`. -/
def malformedTrack : QJsonValue :=
  QJsonValue.object
    [("title", QJsonValue.string "title"), ("track_number", QJsonValue.number 1),
     ("duration", QJsonValue.number 10), ("copyright", QJsonValue.string "c"),
     ("streamable", QJsonValue.bool true)]

/-- A reply object with one page container under `key`. -/
def samplePage (key : String) (offset total : Int) (items : List QJsonValue) : QJsonObject :=
  [(key, QJsonValue.object
    [("limit", QJsonValue.number 50), ("offset", QJsonValue.number offset),
     ("total", QJsonValue.number total), ("items", QJsonValue.array items)])]

/-- A successful API reply carrying the object. -/
def sampleReply (handle : Nat) (json_obj : QJsonObject) : QNetworkReply :=
  { handle := handle, read_errors := [], data := some { parse_errors := [], json_obj := json_obj },
    error := none, http_status := 200, content_type := "", body_empty := false,
    image_loads := true, image_saves := true }

/-- Scenario B: a direct songs query whose first page reports total 5 and carries the four valid
tracks `a`, `b`, `c`, `d` with the malformed track at position `k`. -/
def scenarioB (k : Nat) : State :=
  run sampleEnv QueryType_Songs
    [Input.Tick,
     Input.Finished (sampleReply 0 (samplePage "tracks" 0 5
       ((["a", "b", "c", "d"].map sampleTrack).take k ++ [malformedTrack] ++
         (["a", "b", "c", "d"].map sampleTrack).drop k)))]

/-! ## Footprints: which member variables a step may write -/

/-- The member variables of `State`, by name. -/
inductive Field where
  | type_
  | timer_active
  | finished_
  | artists_requests_total_
  | artists_requests_active_
  | artists_requests_received_
  | artists_total_
  | artists_received_
  | albums_requests_total_
  | albums_requests_active_
  | albums_requests_received_
  | albums_total_
  | albums_received_
  | songs_requests_total_
  | songs_requests_active_
  | songs_requests_received_
  | songs_total_
  | songs_received_
  | artist_albums_requests_total_
  | artist_albums_requests_active_
  | artist_albums_requests_received_
  | album_songs_requests_total_
  | album_songs_requests_active_
  | album_songs_requests_received_
  | album_covers_requests_total_
  | album_covers_requests_active_
  | album_covers_requests_received_
  | no_results_
  | artists_requests_queue_
  | albums_requests_queue_
  | songs_requests_queue_
  | artist_albums_requests_queue_
  | album_songs_requests_queue_
  | album_cover_requests_queue_
  | artist_albums_requests_pending_
  | album_songs_requests_pending_
  | album_covers_requests_sent_
  | songs_
  | errors_
  | replies_
  | album_cover_replies_
  | connections
  | next_reply
  | emitted
  deriving DecidableEq

/-- The states `s` and `t` agree on every member variable outside `W`. -/
structure AgreeOff (W : List Field) (s t : State) : Prop where
  type_ : Field.type_ ∉ W → t.type_ = s.type_
  timer_active : Field.timer_active ∉ W → t.timer_active = s.timer_active
  finished_ : Field.finished_ ∉ W → t.finished_ = s.finished_
  artists_requests_total_ : Field.artists_requests_total_ ∉ W → t.artists_requests_total_ = s.artists_requests_total_
  artists_requests_active_ : Field.artists_requests_active_ ∉ W → t.artists_requests_active_ = s.artists_requests_active_
  artists_requests_received_ : Field.artists_requests_received_ ∉ W → t.artists_requests_received_ = s.artists_requests_received_
  artists_total_ : Field.artists_total_ ∉ W → t.artists_total_ = s.artists_total_
  artists_received_ : Field.artists_received_ ∉ W → t.artists_received_ = s.artists_received_
  albums_requests_total_ : Field.albums_requests_total_ ∉ W → t.albums_requests_total_ = s.albums_requests_total_
  albums_requests_active_ : Field.albums_requests_active_ ∉ W → t.albums_requests_active_ = s.albums_requests_active_
  albums_requests_received_ : Field.albums_requests_received_ ∉ W → t.albums_requests_received_ = s.albums_requests_received_
  albums_total_ : Field.albums_total_ ∉ W → t.albums_total_ = s.albums_total_
  albums_received_ : Field.albums_received_ ∉ W → t.albums_received_ = s.albums_received_
  songs_requests_total_ : Field.songs_requests_total_ ∉ W → t.songs_requests_total_ = s.songs_requests_total_
  songs_requests_active_ : Field.songs_requests_active_ ∉ W → t.songs_requests_active_ = s.songs_requests_active_
  songs_requests_received_ : Field.songs_requests_received_ ∉ W → t.songs_requests_received_ = s.songs_requests_received_
  songs_total_ : Field.songs_total_ ∉ W → t.songs_total_ = s.songs_total_
  songs_received_ : Field.songs_received_ ∉ W → t.songs_received_ = s.songs_received_
  artist_albums_requests_total_ : Field.artist_albums_requests_total_ ∉ W → t.artist_albums_requests_total_ = s.artist_albums_requests_total_
  artist_albums_requests_active_ : Field.artist_albums_requests_active_ ∉ W → t.artist_albums_requests_active_ = s.artist_albums_requests_active_
  artist_albums_requests_received_ : Field.artist_albums_requests_received_ ∉ W → t.artist_albums_requests_received_ = s.artist_albums_requests_received_
  album_songs_requests_total_ : Field.album_songs_requests_total_ ∉ W → t.album_songs_requests_total_ = s.album_songs_requests_total_
  album_songs_requests_active_ : Field.album_songs_requests_active_ ∉ W → t.album_songs_requests_active_ = s.album_songs_requests_active_
  album_songs_requests_received_ : Field.album_songs_requests_received_ ∉ W → t.album_songs_requests_received_ = s.album_songs_requests_received_
  album_covers_requests_total_ : Field.album_covers_requests_total_ ∉ W → t.album_covers_requests_total_ = s.album_covers_requests_total_
  album_covers_requests_active_ : Field.album_covers_requests_active_ ∉ W → t.album_covers_requests_active_ = s.album_covers_requests_active_
  album_covers_requests_received_ : Field.album_covers_requests_received_ ∉ W → t.album_covers_requests_received_ = s.album_covers_requests_received_
  no_results_ : Field.no_results_ ∉ W → t.no_results_ = s.no_results_
  artists_requests_queue_ : Field.artists_requests_queue_ ∉ W → t.artists_requests_queue_ = s.artists_requests_queue_
  albums_requests_queue_ : Field.albums_requests_queue_ ∉ W → t.albums_requests_queue_ = s.albums_requests_queue_
  songs_requests_queue_ : Field.songs_requests_queue_ ∉ W → t.songs_requests_queue_ = s.songs_requests_queue_
  artist_albums_requests_queue_ : Field.artist_albums_requests_queue_ ∉ W → t.artist_albums_requests_queue_ = s.artist_albums_requests_queue_
  album_songs_requests_queue_ : Field.album_songs_requests_queue_ ∉ W → t.album_songs_requests_queue_ = s.album_songs_requests_queue_
  album_cover_requests_queue_ : Field.album_cover_requests_queue_ ∉ W → t.album_cover_requests_queue_ = s.album_cover_requests_queue_
  artist_albums_requests_pending_ : Field.artist_albums_requests_pending_ ∉ W → t.artist_albums_requests_pending_ = s.artist_albums_requests_pending_
  album_songs_requests_pending_ : Field.album_songs_requests_pending_ ∉ W → t.album_songs_requests_pending_ = s.album_songs_requests_pending_
  album_covers_requests_sent_ : Field.album_covers_requests_sent_ ∉ W → t.album_covers_requests_sent_ = s.album_covers_requests_sent_
  songs_ : Field.songs_ ∉ W → t.songs_ = s.songs_
  errors_ : Field.errors_ ∉ W → t.errors_ = s.errors_
  replies_ : Field.replies_ ∉ W → t.replies_ = s.replies_
  album_cover_replies_ : Field.album_cover_replies_ ∉ W → t.album_cover_replies_ = s.album_cover_replies_
  connections : Field.connections ∉ W → t.connections = s.connections
  next_reply : Field.next_reply ∉ W → t.next_reply = s.next_reply
  emitted : Field.emitted ∉ W → t.emitted = s.emitted

/-- What `FinishCheck` may write. -/
def fpFinishCheck : List Field :=
  [Field.timer_active, Field.finished_, Field.emitted]

/-- What `Error` may write. -/
def fpError : List Field :=
  [Field.errors_] ++ fpFinishCheck

/-- What `AddArtistsRequest` may write. -/
def fpAddArtistsRequest : List Field :=
  [Field.artists_requests_queue_, Field.artists_requests_total_, Field.timer_active]

/-- What `FlushArtistsRequests` may write. -/
def fpFlushArtists : List Field :=
  [Field.artists_requests_queue_, Field.artists_requests_active_, Field.replies_, Field.connections, Field.next_reply]

/-- What `AddAlbumsRequest` may write. -/
def fpAddAlbumsRequest : List Field :=
  [Field.albums_requests_queue_, Field.albums_requests_total_, Field.timer_active]

/-- What `FlushAlbumsRequests` may write. -/
def fpFlushAlbums : List Field :=
  [Field.albums_requests_queue_, Field.albums_requests_active_, Field.replies_, Field.connections, Field.next_reply]

/-- What `AddSongsRequest` may write. -/
def fpAddSongsRequest : List Field :=
  [Field.songs_requests_queue_, Field.songs_requests_total_, Field.timer_active]

/-- What `FlushSongsRequests` may write. -/
def fpFlushSongs : List Field :=
  [Field.songs_requests_queue_, Field.songs_requests_active_, Field.replies_, Field.connections, Field.next_reply]

/-- What `AddArtistAlbumsRequest` may write. -/
def fpAddArtistAlbumsRequest : List Field :=
  [Field.artist_albums_requests_queue_, Field.artist_albums_requests_total_, Field.timer_active]

/-- What `FlushArtistAlbumsRequests` may write. -/
def fpFlushArtistAlbums : List Field :=
  [Field.artist_albums_requests_queue_, Field.artist_albums_requests_active_, Field.replies_, Field.connections, Field.next_reply]

/-- What `AddAlbumSongsRequest` may write. -/
def fpAddAlbumSongsRequest : List Field :=
  [Field.album_songs_requests_queue_, Field.album_songs_requests_total_, Field.timer_active]

/-- What `FlushAlbumSongsRequests` may write. -/
def fpFlushAlbumSongs : List Field :=
  [Field.album_songs_requests_queue_, Field.album_songs_requests_active_, Field.replies_, Field.connections, Field.next_reply]

/-- What `FlushAlbumCoverRequests` may write. -/
def fpFlushAlbumCover : List Field :=
  [Field.album_cover_requests_queue_, Field.album_covers_requests_active_, Field.album_cover_replies_, Field.connections, Field.next_reply]

/-- What `FlushRequests` may write. -/
def fpFlushRequests : List Field :=
  fpFlushArtists ++ fpFlushAlbums ++ fpFlushSongs ++ fpFlushArtistAlbums ++ fpFlushAlbumSongs ++ fpFlushAlbumCover ++ [Field.timer_active]

/-- What `GetAlbumCovers` may write. -/
def fpGetAlbumCovers : List Field :=
  [Field.album_covers_requests_sent_, Field.album_covers_requests_total_, Field.album_cover_requests_queue_, Field.emitted, Field.timer_active]

/-- What `AlbumCoverReceived` may write. -/
def fpAlbumCoverReceived : List Field :=
  fpError ++ [Field.album_covers_requests_sent_, Field.songs_, Field.album_cover_replies_, Field.connections, Field.album_covers_requests_active_, Field.album_covers_requests_received_]

/-- What `ArtistsFinishCheck` may write. -/
def fpArtistsFinishCheck : List Field :=
  fpAddArtistsRequest ++ fpAddArtistAlbumsRequest ++ [Field.artist_albums_requests_pending_] ++ fpFinishCheck

/-- What `ArtistsReplyReceived` may write. -/
def fpArtistsReplyReceived : List Field :=
  fpArtistsFinishCheck ++ fpError ++ [Field.artist_albums_requests_pending_, Field.no_results_, Field.artists_received_, Field.artists_total_, Field.replies_, Field.connections, Field.artists_requests_active_, Field.artists_requests_received_]

/-- What `AlbumsFinishCheck` may write. -/
def fpAlbumsFinishCheck : List Field :=
  fpAddAlbumsRequest ++ fpAddArtistAlbumsRequest ++ fpAddAlbumSongsRequest ++ [Field.album_songs_requests_pending_] ++ fpGetAlbumCovers ++ fpFinishCheck

/-- What `AlbumsReceived` may write. -/
def fpAlbumsReceived : List Field :=
  fpAlbumsFinishCheck ++ fpError ++ [Field.album_songs_requests_pending_, Field.no_results_, Field.albums_received_, Field.replies_, Field.connections]

/-- What `SongsFinishCheck` may write. -/
def fpSongsFinishCheck : List Field :=
  fpAddSongsRequest ++ fpAddAlbumSongsRequest ++ fpGetAlbumCovers ++ fpFinishCheck

/-- What `SongsReceived` may write. -/
def fpSongsReceived : List Field :=
  fpSongsFinishCheck ++ fpError ++ [Field.songs_, Field.no_results_, Field.songs_received_, Field.replies_, Field.connections]

/-- What `ArtistsReplyReceived` may write once the reply is taken off the registry. -/
def fpArtistsBody : List Field :=
  fpArtistsFinishCheck ++ fpError ++ [Field.artist_albums_requests_pending_, Field.no_results_, Field.artists_received_, Field.artists_total_]

/-- What `AlbumsReceived` may write once the reply is taken off the registry. -/
def fpAlbumsBody : List Field :=
  fpAlbumsFinishCheck ++ fpError ++ [Field.album_songs_requests_pending_, Field.no_results_, Field.albums_received_]

/-- What `SongsReceived` may write once the reply is taken off the registry. -/
def fpSongsBody : List Field :=
  fpSongsFinishCheck ++ fpError ++ [Field.songs_, Field.no_results_, Field.songs_received_]

/-- What `AlbumCoverReceived` may write once the reply is taken off the registry. -/
def fpAlbumCoverBody : List Field :=
  fpError ++ [Field.album_covers_requests_sent_, Field.songs_]

/-- An album object as the albums listing carries it: id, title and the album's artist. -/
def sampleAlbum (id : String) : QJsonValue :=
  QJsonValue.object
    [("id", QJsonValue.string id), ("title", QJsonValue.string "album"),
     ("artist", QJsonValue.object
       [("id", QJsonValue.string "artist1"), ("name", QJsonValue.string "artist")])]

/-- An artist object as the artists listing carries it. -/
def sampleArtist (id : String) : QJsonValue :=
  QJsonValue.object [("id", QJsonValue.string id), ("name", QJsonValue.string "artist")]

/-- The deliveries of Scenario E up to the moment the second page of album `x` is in flight: a
direct albums query lists the albums `x` and `y`; both album-songs requests are sent; the first
page of `x` (total 10, five tracks) arrives and the page at offset 5 is requested and sent,
while the request for `y` is still in flight. -/
def scenarioEInputs : List Input :=
  [Input.Tick,
   Input.Finished (sampleReply 0 (samplePage "albums" 0 2 [sampleAlbum "x", sampleAlbum "y"])),
   Input.Tick,
   Input.Finished (sampleReply 1 (samplePage "tracks" 0 10
     (["a", "b", "c", "d", "e"].map sampleTrack))),
   Input.Tick]

/-- The reply to the request at offset 5 that reports offset 0. -/
def scenarioEMismatch : Input :=
  Input.Finished (sampleReply 3 (samplePage "tracks" 0 10 [sampleTrack "f"]))

/-- The reply reader reports no error and hands over the object `json_obj`, which holds the
page container `obj` under `key` with all four page values. -/
def PageReply (reply : QNetworkReply) (json_obj : QJsonObject) (key : String)
    (obj : QJsonObject) : Prop :=
  reply.read_errors = [] ∧
  (∃ bytes, reply.data = some bytes ∧ bytes.parse_errors = [] ∧ bytes.json_obj = json_obj) ∧
  json_obj.isEmpty = false ∧ jsonContains json_obj key = true ∧
  jsonValue json_obj key = QJsonValue.object obj ∧ missingPageValues obj = false

/-- What a rejected page leaves of the state `s` before the reply in the state `t` after it:
one more error in the log; the song map, the items-received counters and the albums and songs
totals as they were; and each pending set as it was, or emptied by the release of a drained
stage. -/
def RejectedPage (s t : State) : Prop :=
  (∃ error, error ≠ "" ∧ t.errors_ = s.errors_ ++ [error]) ∧
  t.songs_ = s.songs_ ∧
  t.artists_received_ = s.artists_received_ ∧
  t.albums_received_ = s.albums_received_ ∧
  t.songs_received_ = s.songs_received_ ∧
  t.albums_total_ = s.albums_total_ ∧
  t.songs_total_ = s.songs_total_ ∧
  (t.artist_albums_requests_pending_ = s.artist_albums_requests_pending_ ∨
    t.artist_albums_requests_pending_ = []) ∧
  (t.album_songs_requests_pending_ = s.album_songs_requests_pending_ ∨
    t.album_songs_requests_pending_ = [])

/-- The member variables a reply handler writes before it looks at the page. -/
def fpSettle : List Field :=
  [Field.replies_, Field.connections, Field.emitted, Field.artists_total_,
   Field.artists_requests_active_, Field.artists_requests_received_,
   Field.albums_requests_active_, Field.albums_requests_received_,
   Field.songs_requests_active_, Field.songs_requests_received_,
   Field.artist_albums_requests_active_, Field.artist_albums_requests_received_,
   Field.album_songs_requests_active_, Field.album_songs_requests_received_]

/-- The deliveries of a direct artists query up to the moment its second page is in flight: the
first page (total 4) lists the artists `p` and `q`, and the page at offset 2 is requested and
sent. -/
def secondArtistsPageInputs : List Input :=
  [Input.Tick,
   Input.Finished (sampleReply 0 (samplePage "artists" 0 4 [sampleArtist "p", sampleArtist "q"])),
   Input.Tick]

/-- The outcome of Scenario A: the request has finished, the last signal is the one `Results`
with an empty song map and an empty error string, no error is logged, the song map and all six
queues are empty, and over all stages exactly one request was ever queued. -/
def FinalizedNoMatch (t : State) : Prop :=
  t.finished_ = true ∧ t.emitted.getLast? = some (Event.Results [] "") ∧ resultsCount t = 1 ∧
  t.no_results_ = true ∧ t.errors_ = [] ∧ t.songs_ = [] ∧
  t.artists_requests_queue_ = [] ∧ t.albums_requests_queue_ = [] ∧ t.songs_requests_queue_ = [] ∧
  t.artist_albums_requests_queue_ = [] ∧ t.album_songs_requests_queue_ = [] ∧
  t.album_cover_requests_queue_ = [] ∧
  t.artists_requests_total_ + t.albums_requests_total_ + t.songs_requests_total_ +
    t.artist_albums_requests_total_ + t.album_songs_requests_total_ +
    t.album_covers_requests_total_ = 1

/-- The queue `after` is the queue `before`, or `before` with one more cursor whose offset lies
strictly between 0 and `total`. -/
def RePaged {α : Type} (offset : α → Int) (before after : List α) (total : Int) : Prop :=
  after = before ∨
    ∃ cursor, after = before ++ [cursor] ∧ 0 < offset cursor ∧ offset cursor < total

/-- The total the page of a reply reports under `key`; 0 when the reply carries no such page. -/
def reportedTotal (reply : QNetworkReply) (key : String) : Int :=
  match reply.data with
  | some bytes =>
    match jsonValue bytes.json_obj key with
    | QJsonValue.object obj => (jsonValue obj "total").toInt
    | _ => 0
  | none => 0

/-- What `ArtistsReplyReceived` writes before its finish check, `artists_total_` aside. -/
def fpArtistsPage : List Field :=
  fpError ++ [Field.artist_albums_requests_pending_, Field.no_results_, Field.artists_received_,
    Field.replies_, Field.connections, Field.artists_requests_active_,
    Field.artists_requests_received_]

/-- What `AlbumsReceived` writes before its finish check. -/
def fpAlbumsPage : List Field :=
  fpError ++ [Field.album_songs_requests_pending_, Field.no_results_, Field.albums_received_,
    Field.replies_, Field.connections]

/-- What `SongsReceived` writes before its finish check. -/
def fpSongsPage : List Field :=
  fpError ++ [Field.songs_, Field.no_results_, Field.songs_received_, Field.replies_,
    Field.connections]

/-- An item the loop of `ArtistsReplyReceived` takes without an error: an object, or an object
wrapped under `item`, that has `id` and `name`. -/
def ValidArtistItem : QJsonValue → Bool
  | QJsonValue.object obj_item =>
    if jsonContains obj_item "item" = true then
      match jsonValue obj_item "item" with
      | QJsonValue.object json_item =>
        jsonContains json_item "id" && jsonContains json_item "name"
      | _ => false
    else jsonContains obj_item "id" && jsonContains obj_item "name"
  | _ => false

/-- An item the loop of `AlbumsReceived` takes without an error: an object with `artist`,
`title` and `id` whose `artist` is an object with `id` and `name`. -/
def ValidAlbumItem : QJsonValue → Bool
  | QJsonValue.object obj_item =>
    jsonContains obj_item "artist" && jsonContains obj_item "title" &&
    jsonContains obj_item "id" &&
    match jsonValue obj_item "artist" with
    | QJsonValue.object obj_artist => jsonContains obj_artist "id" && jsonContains obj_artist "name"
    | _ => false
  | _ => false

/-- An item the loop of `SongsReceived` takes without an error: an object `ParseSong` fills a
song from. -/
def ValidTrack (env : Env) (album_artist : Artist) (album : Album) : QJsonValue → Bool
  | QJsonValue.object obj_item =>
    match ParseSongFields env obj_item album_artist album with
    | Except.ok _ => true
    | Except.error _ => false
  | _ => false

/-- A well-formed page: the reply `reply` with handle `handle` hands over `json_obj`, whose
container under `key` reports `offset` and `total` and carries the items `items`. -/
def PageOf (reply : QNetworkReply) (handle : Nat) (json_obj : QJsonObject) (key : String)
    (obj : QJsonObject) (offset total : Int) (items : List QJsonValue) : Prop :=
  reply.handle = handle ∧ PageReply reply json_obj key obj ∧
  (jsonValue obj "offset").toInt = offset ∧ (jsonValue obj "total").toInt = total ∧
  jsonValue obj "items" = QJsonValue.array items

/-- Every connection of `t` is a connection of `s` or has a slot with the property `P`. -/
def ConnGrow (P : Callback → Prop) (s t : State) : Prop :=
  ∀ c ∈ t.connections, c ∈ s.connections ∨ P c.2

/-- The slots `FlushRequests` can connect in the state `s`: those of a stage whose queue holds
a request. -/
def FlushKind (s : State) : Callback → Prop
  | Callback.Artists _ _ => s.artists_requests_queue_ ≠ []
  | Callback.Albums _ _ => s.albums_requests_queue_ ≠ []
  | Callback.Songs _ _ => s.songs_requests_queue_ ≠ []
  | Callback.ArtistAlbums _ _ => s.artist_albums_requests_queue_ ≠ []
  | Callback.AlbumSongs _ _ _ => s.album_songs_requests_queue_ ≠ []
  | Callback.AlbumCover _ _ => s.album_cover_requests_queue_ ≠ []

/-- The artists listing is drained: its queue is empty and none of its requests is in flight. -/
def ArtistsDrained (s : State) : Prop :=
  s.artists_requests_queue_ = [] ∧ ∀ c ∈ s.connections, ∀ l o, c.2 ≠ Callback.Artists l o

/-- The albums listing is drained, and so is everything that could queue an albums request:
the artists listing and the albums-of-an-artist requests. -/
def AlbumsDrained (s : State) : Prop :=
  ArtistsDrained s ∧ s.albums_requests_queue_ = [] ∧ s.artist_albums_requests_queue_ = [] ∧
  ∀ c ∈ s.connections,
    (∀ l o, c.2 ≠ Callback.Albums l o) ∧ (∀ a o, c.2 ≠ Callback.ArtistAlbums a o)

/-- The songs listing is drained, and so is everything that could queue a songs request: only
cover downloads are left. -/
def SongsDrained (s : State) : Prop :=
  AlbumsDrained s ∧ s.album_songs_requests_queue_ = [] ∧ s.songs_requests_queue_ = [] ∧
  ∀ c ∈ s.connections,
    (∀ l o, c.2 ≠ Callback.Songs l o) ∧ (∀ a b o, c.2 ≠ Callback.AlbumSongs a b o)

/-- What the handlers of the stages below the artists listing may write. -/
def fpBelowArtists : List Field :=
  fpAlbumsReceived ++ fpSongsReceived ++ fpAlbumCoverReceived ++
    [Field.albums_requests_active_, Field.albums_requests_received_,
     Field.songs_requests_active_, Field.songs_requests_received_,
     Field.artist_albums_requests_active_, Field.artist_albums_requests_received_,
     Field.album_songs_requests_active_, Field.album_songs_requests_received_]

/-- What the handlers of the stages below the albums listings may write. -/
def fpBelowAlbums : List Field :=
  fpSongsReceived ++ fpAlbumCoverReceived ++
    [Field.songs_requests_active_, Field.songs_requests_received_,
     Field.album_songs_requests_active_, Field.album_songs_requests_received_]

/-- The two pages of Scenario C for a direct artists query: the replies to the first and to the
second request report total 10 at the offsets 0 and 5 and carry five valid items each. -/
def ArtistsPages (page1 page2 : QNetworkReply) : Prop :=
  ∃ json1 obj1 items1 json2 obj2 items2,
    PageOf page1 0 json1 "artists" obj1 0 10 items1 ∧
    PageOf page2 1 json2 "artists" obj2 5 10 items2 ∧
    items1.length = 5 ∧ items2.length = 5 ∧
    items1.all ValidArtistItem = true ∧ items2.all ValidArtistItem = true

/-- The two pages of Scenario C for a direct albums query; a direct listing names no artist at
its top level. -/
def AlbumsPages (page1 page2 : QNetworkReply) : Prop :=
  ∃ json1 obj1 items1 json2 obj2 items2,
    PageOf page1 0 json1 "albums" obj1 0 10 items1 ∧
    PageOf page2 1 json2 "albums" obj2 5 10 items2 ∧
    (repliedArtist json1 Artist.empty).artist_id = Artist.empty.artist_id ∧
    (repliedArtist json2 Artist.empty).artist_id = Artist.empty.artist_id ∧
    items1.length = 5 ∧ items2.length = 5 ∧
    items1.all ValidAlbumItem = true ∧ items2.all ValidAlbumItem = true

/-- The two pages of Scenario C for a direct songs query; the header of each reply is read
without an error and the tracks are valid for the artist and album it yields. -/
def SongsPages (env : Env) (page1 page2 : QNetworkReply) : Prop :=
  ∃ json1 obj1 items1 json2 obj2 items2 aa1 bb1 aa2 bb2,
    PageOf page1 0 json1 "tracks" obj1 0 10 items1 ∧
    PageOf page2 1 json2 "tracks" obj2 5 10 items2 ∧
    SongsAlbumHeader json1 Artist.empty Album.empty = Except.ok (aa1, bb1) ∧
    SongsAlbumHeader json2 Artist.empty Album.empty = Except.ok (aa2, bb2) ∧
    items1.length = 5 ∧ items2.length = 5 ∧
    items1.all (ValidTrack env aa1 bb1) = true ∧ items2.all (ValidTrack env aa2 bb2) = true

/-- The outcome of Scenario C for the listing with the queue `queue`, the counter `total` and
the slot `slot`: `Process` queues the cursor at offset 0 and the first tick sends it; the first
page queues the cursor at offset 5 and the second tick sends it; the second page queues
nothing; and whatever is delivered afterwards, the listing has queued two requests. -/
def TwoPagesRequested (env : Env) (type : QueryType) (page1 page2 : QNetworkReply)
    (queue : State → List Request) (total : State → Int) (slot : Int → Int → Callback) : Prop :=
  queue (run env type []) = [{ offset := 0, limit := 0 }] ∧
  (run env type [Input.Tick]).connections = [(0, slot 0 0)] ∧
  queue (run env type [Input.Tick, Input.Finished page1]) = [{ offset := 5, limit := 0 }] ∧
  (run env type [Input.Tick, Input.Finished page1, Input.Tick]).connections = [(1, slot 0 5)] ∧
  queue (run env type [Input.Tick, Input.Finished page1, Input.Tick, Input.Finished page2])
    = [] ∧
  ∀ rest,
    total (run env type
      ([Input.Tick, Input.Finished page1, Input.Tick, Input.Finished page2] ++ rest)) = 2

/-- The page container `samplePage` puts under its key. -/
def sampleContainer (offset total : Int) (items : List QJsonValue) : QJsonObject :=
  [("limit", QJsonValue.number 50), ("offset", QJsonValue.number offset),
   ("total", QJsonValue.number total), ("items", QJsonValue.array items)]

/-- A direct songs query whose first page reports offset 0 and total 10 and carries five
entries: the valid tracks `a`, `b`, `c`, `d` and a track without `id` at position `k`. -/
def badTrackOfTen (k : Nat) : State :=
  run sampleEnv QueryType_Songs
    [Input.Tick,
     Input.Finished (sampleReply 0 (samplePage "tracks" 0 10
       ((["a", "b", "c", "d"].map sampleTrack).take k ++ [malformedTrack] ++
         (["a", "b", "c", "d"].map sampleTrack).drop k)))]

/-- A direct artists query whose first page reports offset 0 and total 10 and carries five
entries, the first of which is not an object. -/
def badArtistOfTen : State :=
  run sampleEnv QueryType_Artists
    [Input.Tick,
     Input.Finished (sampleReply 0 (samplePage "artists" 0 10
       ([QJsonValue.string "junk"] ++ ["a", "b", "c", "d"].map sampleArtist)))]

/-- A direct albums query lists the albums `x` and `y`, both album-songs requests are sent, and
the first page of `x` (offset 0, total 10) arrives with three entries, the first of which is
not an object, while the request for `y` is still in flight. -/
def nonObjectTrackInputs : List Input :=
  [Input.Tick,
   Input.Finished (sampleReply 0 (samplePage "albums" 0 2 [sampleAlbum "x", sampleAlbum "y"])),
   Input.Tick,
   Input.Finished (sampleReply 1 (samplePage "tracks" 0 10
     [QJsonValue.string "junk", sampleTrack "a", sampleTrack "b"]))]

/-- A direct artists query whose first page (offset 0, total 10) carries three entries, the
second of which is not an object. -/
def nonObjectArtistInputs : List Input :=
  [Input.Tick,
   Input.Finished (sampleReply 0 (samplePage "artists" 0 10
     [sampleArtist "a", QJsonValue.string "junk", sampleArtist "b"]))]

/-- A direct albums query whose first page (offset 0, total 10) carries three entries, the
second of which is not an object. -/
def nonObjectAlbumInputs : List Input :=
  [Input.Tick,
   Input.Finished (sampleReply 0 (samplePage "albums" 0 10
     [sampleAlbum "a", QJsonValue.string "junk", sampleAlbum "b"]))]

/-- A direct songs query: the first page (offset 0, total 10) carries five tracks, the page at
offset 5 is requested and sent, and its reply reports offset 5, total 10 and no items. -/
def emptySecondPageInputs : List Input :=
  [Input.Tick,
   Input.Finished (sampleReply 0 (samplePage "tracks" 0 10
     (["a", "b", "c", "d", "e"].map sampleTrack))),
   Input.Tick,
   Input.Finished (sampleReply 1 (samplePage "tracks" 5 10 []))]

/-- The two pages of a listing under `key`: five items at offset 0 with total 10, then five
items at offset 5 with total 20. -/
def differingTotalInputs (key : String) (item : String → QJsonValue) : List Input :=
  [Input.Tick,
   Input.Finished (sampleReply 0 (samplePage key 0 10 (["a", "b", "c", "d", "e"].map item))),
   Input.Tick,
   Input.Finished (sampleReply 1 (samplePage key 5 20 (["f", "g", "h", "i", "j"].map item)))]

/-- The song ids registered under `cover_url` in the cover registry. -/
def coverSongIds (s : State) (cover_url : String) : List String :=
  (s.album_covers_requests_sent_.filter (fun kv => kv.1 == cover_url)).map (fun kv => kv.2)

/-- The tests a cover download passes in `AlbumCoverReceived` before the songs are updated: no
network error, HTTP 200, a supported mimetype, data, and an image that loads and is saved. -/
def CoverSaved (env : Env) (reply : QNetworkReply) : Prop :=
  reply.error = none ∧ reply.http_status = 200 ∧
  env.mimetype_supported (reply.content_type.takeWhile (fun c => c != ';')) = true ∧
  reply.body_empty = false ∧ reply.image_loads = true ∧ reply.image_saves = true

instance (env : Env) (reply : QNetworkReply) : Decidable (CoverSaved env reply) := by
  unfold CoverSaved
  infer_instance

/-- A registered download of an unfinished request whose URL is in the cover registry. -/
def CoverDue (s : State) (reply : QNetworkReply) (cover_url : String) : Prop :=
  reply.handle ∈ s.album_cover_replies_ ∧ s.finished_ = false ∧
  mapContains s.album_covers_requests_sent_ cover_url = true

instance (s : State) (reply : QNetworkReply) (cover_url : String) :
    Decidable (CoverDue s reply cover_url) := by
  unfold CoverDue
  infer_instance

/-- A song map with two songs that share the cover `u`, and one with the cover `v`. -/
def sharedCoverState : State :=
  { State.init QueryType_Songs with
    songs_ := [("1", { Song.fresh with song_id := "1", art_automatic := "u" }),
               ("2", { Song.fresh with song_id := "2", art_automatic := "u" }),
               ("3", { Song.fresh with song_id := "3", art_automatic := "v" })],
    album_covers_requests_sent_ := [("u", "1"), ("v", "3"), ("u", "2")],
    album_covers_requests_total_ := 2, album_covers_requests_active_ := 1,
    album_cover_requests_queue_ := [{ url := "v", filename := "/covers/v" }],
    album_cover_replies_ := [0], connections := [(0, Callback.AlbumCover "u" "/covers/u")],
    next_reply := 1, timer_active := true }

/-- A finished download: the image arrives and is saved. -/
def savedCoverReply (handle : Nat) : QNetworkReply :=
  { handle := handle, read_errors := [], data := none, error := none, http_status := 200,
    content_type := "image/jpeg; q=1", body_empty := false, image_loads := true,
    image_saves := true }

def notFoundCoverReply (handle : Nat) : QNetworkReply :=
  { savedCoverReply handle with http_status := 404 }

/-- The cover queue against the registry: no URL is queued twice, the queued URLs are the
registered ones, and the total is `base` plus the queued downloads. -/
structure CoversQueued (base : Int) (s : State) : Prop where
  nodup : (s.album_cover_requests_queue_.map (fun r => r.url)).Nodup
  registered : ∀ u, u ∈ s.album_cover_requests_queue_.map (fun r => r.url) ↔
    mapContains s.album_covers_requests_sent_ u = true
  total : s.album_covers_requests_total_ = base + s.album_cover_requests_queue_.length

/-- A service configuration with cover download; the file of a cover is named after its URL. -/
def coverEnv : Env :=
  { sampleEnv with download_album_covers := true,
                   CoverFilePath := fun song => "/covers/" ++ song.art_automatic }

/-- Scenario D before the covers are requested: songs 1 and 2 share the cover `u`. -/
def sharedCoverSongs : State :=
  { State.init QueryType_Songs with songs_ := sharedCoverState.songs_ }

/-- The six kinds of request the engine sends. -/
inductive Stage where
  | artists
  | albums
  | songs
  | artistAlbums
  | albumSongs
  | albumCovers
  deriving DecidableEq

/-- The stage whose handler a connection calls. -/
def Callback.stage : Callback → Stage
  | Callback.Artists _ _ => Stage.artists
  | Callback.Albums _ _ => Stage.albums
  | Callback.Songs _ _ => Stage.songs
  | Callback.ArtistAlbums _ _ => Stage.artistAlbums
  | Callback.AlbumSongs _ _ _ => Stage.albumSongs
  | Callback.AlbumCover _ _ => Stage.albumCovers

/-- The active counter of a stage. -/
def State.active (s : State) : Stage → Int
  | Stage.artists => s.artists_requests_active_
  | Stage.albums => s.albums_requests_active_
  | Stage.songs => s.songs_requests_active_
  | Stage.artistAlbums => s.artist_albums_requests_active_
  | Stage.albumSongs => s.album_songs_requests_active_
  | Stage.albumCovers => s.album_covers_requests_active_

/-- The number of replies of a stage that are connected to their handler. -/
def inFlight (s : State) (k : Stage) : Int :=
  ((s.connections.countP (fun c => c.2.stage == k) : Nat) : Int)

/-- The bookkeeping of the replies in flight: the handles of the connected replies are distinct
and below `next_reply`, each connected reply is in the registry of its kind, and the active
counter of every stage is the number of its connected replies. -/
structure Wired (s : State) : Prop where
  fresh : ∀ c ∈ s.connections, c.1 < s.next_reply
  nodup : (s.connections.map (fun c => c.1)).Nodup
  api : ∀ c ∈ s.connections, c.2.stage ≠ Stage.albumCovers → c.1 ∈ s.replies_
  cover : ∀ c ∈ s.connections, c.2.stage = Stage.albumCovers → c.1 ∈ s.album_cover_replies_
  counts : ∀ k, s.active k = inFlight s k

/-- The stage ordering: artist-albums requests are queued or in flight only when the artists
listing is drained, album-songs requests only when the artists, albums and artist-albums
stages are drained. -/
def StageOrder (s : State) : Prop :=
  ((s.artist_albums_requests_queue_ ≠ [] ∨ s.artist_albums_requests_active_ > 0) →
    s.artists_requests_queue_ = [] ∧ s.artists_requests_active_ ≤ 0) ∧
  ((s.album_songs_requests_queue_ ≠ [] ∨ s.album_songs_requests_active_ > 0) →
    s.artists_requests_queue_ = [] ∧ s.artists_requests_active_ ≤ 0 ∧
    s.albums_requests_queue_ = [] ∧ s.albums_requests_active_ ≤ 0 ∧
    s.artist_albums_requests_queue_ = [] ∧ s.artist_albums_requests_active_ ≤ 0)

/-- The albums listing works only for an albums query, the songs listing only for a songs
query. -/
def ListingTypes (s : State) : Prop :=
  ((s.albums_requests_queue_ ≠ [] ∨ s.albums_requests_active_ > 0) →
    s.type_ = QueryType_Albums ∨ s.type_ = QueryType_SearchAlbums) ∧
  ((s.songs_requests_queue_ ≠ [] ∨ s.songs_requests_active_ > 0) →
    s.type_ = QueryType_Songs ∨ s.type_ = QueryType_SearchSongs)

/-- What holds of the request between two deliveries. -/
structure Sound (s : State) : Prop where
  wired : Wired s
  order : StageOrder s
  types : ListingTypes s

/-- What `ArtistsReplyReceived` writes between the bookkeeping of the reply and its finish
check. -/
def fpArtistsPre : List Field :=
  fpError ++ [Field.artist_albums_requests_pending_, Field.no_results_, Field.artists_received_,
    Field.artists_total_]

/-- The same without the pending set, which only the item loop writes. -/
def fpArtistsQuiet : List Field :=
  fpError ++ [Field.no_results_, Field.artists_received_, Field.artists_total_]

/-- What `AlbumsReceived` writes between the bookkeeping of the reply and its finish check. -/
def fpAlbumsPre : List Field :=
  fpError ++ [Field.album_songs_requests_pending_, Field.no_results_, Field.albums_received_]

/-- The same without the pending set, which only the item loop writes. -/
def fpAlbumsQuiet : List Field :=
  fpError ++ [Field.no_results_, Field.albums_received_]

/-- What `SongsReceived` writes between the bookkeeping of the reply and its finish check. -/
def fpSongsPre : List Field :=
  fpError ++ [Field.songs_, Field.no_results_, Field.songs_received_]

/-- The property `P` does not depend on the member variables in `V`. -/
def Quiet (V : List Field) (P : State → Prop) : Prop :=
  ∀ a b, AgreeOff V a b → P a → P b

/-- What `ArtistsReplyReceived` writes before its finish check besides the pending set and what
`Error` writes. -/
def fpArtistsStill : List Field :=
  [Field.no_results_, Field.artists_received_, Field.artists_total_, Field.emitted]

/-- What `AlbumsReceived` writes before its finish check besides the pending set and what
`Error` writes. -/
def fpAlbumsStill : List Field :=
  [Field.no_results_, Field.albums_received_, Field.emitted]

/-- What `SongsReceived` writes before its finish check besides what `Error` writes. -/
def fpSongsStill : List Field :=
  [Field.songs_, Field.no_results_, Field.songs_received_, Field.emitted]

/-- The property `P` does not depend on the member variables in `V` and survives `Error`. -/
structure Steady (V : List Field) (P : State → Prop) : Prop where
  quiet : Quiet V P
  error : ∀ s e, P s → P (Error s e)

/-- A state `y` a handler can be in when it calls its finish check: it differs from `t`, the
state after the bookkeeping of the reply, only in `W`, and `P` holds of it. -/
structure Before (W : List Field) (P : State → Prop) (t y : State) : Prop where
  agree : AgreeOff W t y
  holds : P y

/-- The result `u` of `ArtistsReplyReceived` is its finish check at a state the handler reaches
from `t`, or an `Error` after that finish check. -/
def ArtistsFactor (env : Env) (P : State → Prop) (t u : State) : Prop :=
  ∃ y l o r, Before fpArtistsPre P t y ∧
    (u = ArtistsFinishCheck env y l o r ∨ ∃ e, u = Error (ArtistsFinishCheck env y l o r) e)

/-- The result `u` of `AlbumsReceived` is its finish check at a state the handler reaches from
`t`, or an `Error` after that finish check. -/
def AlbumsFactor (env : Env) (P : State → Prop) (artist : Artist) (t u : State) : Prop :=
  ∃ y l o n r, Before fpAlbumsPre P t y ∧
    (u = AlbumsFinishCheck env y artist l o n r ∨
      ∃ e, u = Error (AlbumsFinishCheck env y artist l o n r) e)

/-- The result `u` of `SongsReceived` is its finish check at a state the handler reaches from
`t`, or an `Error` after that finish check. -/
def SongsFactor (env : Env) (P : State → Prop) (t u : State) : Prop :=
  ∃ y a b l o n r, Before fpSongsPre P t y ∧
    (u = SongsFinishCheck env y a b l o n r ∨
      ∃ e, u = Error (SongsFinishCheck env y a b l o n r) e)

/-- The member variables `Sound` speaks of. -/
def fpSound : List Field :=
  [Field.type_, Field.connections, Field.next_reply, Field.replies_, Field.album_cover_replies_,
   Field.artists_requests_active_, Field.albums_requests_active_, Field.songs_requests_active_,
   Field.artist_albums_requests_active_, Field.album_songs_requests_active_,
   Field.album_covers_requests_active_, Field.artists_requests_queue_,
   Field.albums_requests_queue_, Field.songs_requests_queue_,
   Field.artist_albums_requests_queue_, Field.album_songs_requests_queue_]

/-- The member variables `Wired` speaks of. -/
def fpWired : List Field :=
  [Field.connections, Field.next_reply, Field.replies_, Field.album_cover_replies_,
   Field.artists_requests_active_, Field.albums_requests_active_, Field.songs_requests_active_,
   Field.artist_albums_requests_active_, Field.album_songs_requests_active_,
   Field.album_covers_requests_active_]

/-- The member variables `StageOrder` speaks of. -/
def fpOrder : List Field :=
  [Field.artists_requests_active_, Field.albums_requests_active_,
   Field.artist_albums_requests_active_, Field.album_songs_requests_active_,
   Field.artists_requests_queue_, Field.albums_requests_queue_,
   Field.artist_albums_requests_queue_, Field.album_songs_requests_queue_]

/-- The member variables `ListingTypes` speaks of. -/
def fpTypes : List Field :=
  [Field.type_, Field.albums_requests_active_, Field.songs_requests_active_,
   Field.albums_requests_queue_, Field.songs_requests_queue_]

/-- What a reply handler writes while it takes the reply off the registry and counts it. -/
def fpTaken (active received : Field) : List Field :=
  fpError ++ [Field.replies_, Field.connections, Field.album_cover_replies_, active, received]

/-- What the reply slots of the albums and songs stages write before `AlbumsReceived` resp.
`SongsReceived` runs: the counters of the reply and the progress signal. -/
def fpReplyCounted : List Field :=
  [Field.emitted, Field.albums_requests_active_, Field.albums_requests_received_,
   Field.songs_requests_active_, Field.songs_requests_received_,
   Field.artist_albums_requests_active_, Field.artist_albums_requests_received_,
   Field.album_songs_requests_active_, Field.album_songs_requests_received_]

/-- The artist-albums requests `ArtistsFinishCheck` queues for the pending artists: one per
entry, at offset 0. -/
def releasedArtistAlbums (pending : List (String × ArtistAlbumsRequest)) :
    List ArtistAlbumsRequest :=
  pending.map (fun kv => { artist := kv.2.artist, offset := 0, limit := 0 })

/-- The pending artists are well kept: no id is a key twice, and each entry carries the artist
whose id is its key. -/
def ArtistsPendingOK (s : State) : Prop :=
  (s.artist_albums_requests_pending_.map (fun kv => kv.1)).Nodup ∧
  ∀ kv ∈ s.artist_albums_requests_pending_, kv.2.artist.artist_id = kv.1

/-- The artist-albums requests at offset 0 that a delivery appends to the queue. -/
def artistAlbumsQueuedBy (env : Env) (s : State) (input : Input) : List ArtistAlbumsRequest :=
  (((step env s input).artist_albums_requests_queue_.drop
    s.artist_albums_requests_queue_.length).filter (fun r => r.offset == 0))

/-- The artist-albums requests at offset 0 queued over the deliveries `inputs` from `s` on. -/
def artistAlbumsLog (env : Env) : State → List Input → List ArtistAlbumsRequest
  | _, [] => []
  | s, input :: rest =>
    artistAlbumsQueuedBy env s input ++ artistAlbumsLog env (step env s input) rest

/-- The album-songs requests `AlbumsFinishCheck` queues for the pending albums: one per entry,
at offset 0. -/
def releasedAlbumSongs (pending : List (String × AlbumSongsRequest)) : List AlbumSongsRequest :=
  pending.map (fun kv => { artist := kv.2.artist, album := kv.2.album, offset := 0, limit := 0 })

/-- The pending albums are well kept: no id is a key twice, and each entry carries the album
whose id is its key. -/
def AlbumsPendingOK (s : State) : Prop :=
  (s.album_songs_requests_pending_.map (fun kv => kv.1)).Nodup ∧
  ∀ kv ∈ s.album_songs_requests_pending_, kv.2.album.album_id = kv.1

/-- The artists, albums and artist-albums stages are drained. -/
def ParentsDrained (s : State) : Prop :=
  s.artists_requests_queue_ = [] ∧ s.artists_requests_active_ ≤ 0 ∧
  s.albums_requests_queue_ = [] ∧ s.albums_requests_active_ ≤ 0 ∧
  s.artist_albums_requests_queue_ = [] ∧ s.artist_albums_requests_active_ ≤ 0

/-- The album-songs requests at offset 0 that a delivery appends to the queue. -/
def albumSongsQueuedBy (env : Env) (s : State) (input : Input) : List AlbumSongsRequest :=
  (((step env s input).album_songs_requests_queue_.drop
    s.album_songs_requests_queue_.length).filter (fun r => r.offset == 0))

/-- The album-songs requests at offset 0 queued over the deliveries `inputs` from `s` on. -/
def albumSongsLog (env : Env) : State → List Input → List AlbumSongsRequest
  | _, [] => []
  | s, input :: rest =>
    albumSongsQueuedBy env s input ++ albumSongsLog env (step env s input) rest

/-- A direct artists query whose listing names `a` twice on the first page (offset 0, total 5,
three entries) and `b` again on the second page (offset 3, two entries). -/
def repeatedArtistInputs : List Input :=
  [Input.Tick,
   Input.Finished (sampleReply 0 (samplePage "artists" 0 5
     [sampleArtist "a", sampleArtist "b", sampleArtist "a"])),
   Input.Tick,
   Input.Finished (sampleReply 1 (samplePage "artists" 3 5
     [sampleArtist "b", sampleArtist "c"]))]

/-- An album object with the id `id` whose artist has the id `artist`. -/
def albumBy (id artist : String) : QJsonValue :=
  QJsonValue.object
    [("id", QJsonValue.string id), ("title", QJsonValue.string "album"),
     ("artist", QJsonValue.object
       [("id", QJsonValue.string artist), ("name", QJsonValue.string "artist")])]

/-- A direct artists query lists the artists `x` and `y`; both artist-albums requests are sent
and answered in the reverse order: `y` has the albums `m` and `n`, `x` has the albums `m` and
`p`, the latter listed twice. -/
def sharedAlbumInputs : List Input :=
  [Input.Tick,
   Input.Finished (sampleReply 0 (samplePage "artists" 0 2
     [sampleArtist "x", sampleArtist "y"])),
   Input.Tick,
   Input.Finished (sampleReply 2 (samplePage "albums" 0 2 [albumBy "m" "y", albumBy "n" "y"])),
   Input.Finished (sampleReply 1 (samplePage "albums" 0 3
     [albumBy "m" "x", albumBy "p" "x", albumBy "p" "x"]))]

/-- The URL a connection downloads, when its slot is `AlbumCoverReceived`. -/
def Callback.coverUrl : Callback → Option String
  | Callback.AlbumCover url _ => some url
  | _ => none

/-- The cover URLs that are queued for download or in flight. -/
def coverUrls (s : State) : List String :=
  s.album_cover_requests_queue_.map (fun r => r.url) ++
    s.connections.filterMap (fun c => c.2.coverUrl)

/-- Every queue is empty and no request is in flight. -/
def Drained (s : State) : Prop :=
  (s.artists_requests_queue_ = [] ∧ s.albums_requests_queue_ = [] ∧
    s.songs_requests_queue_ = [] ∧ s.artist_albums_requests_queue_ = [] ∧
    s.album_songs_requests_queue_ = [] ∧ s.album_cover_requests_queue_ = []) ∧
  ∀ k, s.active k ≤ 0

/-- A finished request is drained. -/
def FinishedIdle (s : State) : Prop :=
  s.finished_ = true → Drained s

/-- No API request is queued, pending or in flight. -/
def ApiDone (s : State) : Prop :=
  s.artists_requests_queue_ = [] ∧ s.albums_requests_queue_ = [] ∧
  s.songs_requests_queue_ = [] ∧ s.artist_albums_requests_queue_ = [] ∧
  s.album_songs_requests_queue_ = [] ∧ s.artist_albums_requests_pending_ = [] ∧
  s.album_songs_requests_pending_ = [] ∧ s.artists_requests_active_ ≤ 0 ∧
  s.albums_requests_active_ ≤ 0 ∧ s.songs_requests_active_ ≤ 0 ∧
  s.artist_albums_requests_active_ ≤ 0 ∧ s.album_songs_requests_active_ ≤ 0

/-- No cover download is queued, registered or in flight. -/
def CoverIdle (s : State) : Prop :=
  s.album_cover_requests_queue_ = [] ∧ s.album_covers_requests_sent_ = [] ∧
  s.album_covers_requests_active_ ≤ 0

/-- The cover stage has not begun: no download is queued, registered, counted or connected. -/
structure CoverFresh (s : State) : Prop where
  queue : s.album_cover_requests_queue_ = []
  sent : s.album_covers_requests_sent_ = []
  total : s.album_covers_requests_total_ = 0
  active : s.album_covers_requests_active_ ≤ 0
  conns : ∀ c ∈ s.connections, c.2.coverUrl = none

/-- The cover stage as `GetAlbumCovers` leaves it: the downloads are queued, one per registered
URL and all of them counted, none is connected yet, and the API stages are over. -/
structure CoversBegun (s : State) : Prop where
  queued : CoversQueued 0 s
  api : ApiDone s
  active : s.album_covers_requests_active_ ≤ 0
  conns : ∀ c ∈ s.connections, c.2.coverUrl = none

/-- The books of the cover stage between two deliveries: a finished request is drained, cover
downloads exist only once the API stages are over, no URL is queued or in flight twice, the
registered URLs are the queued and the in-flight ones, and downloads are counted only while the
cover stage works or after the request has finished. -/
structure Booked (s : State) : Prop where
  fin : FinishedIdle s
  phase : ¬ CoverIdle s → ApiDone s
  urls : (coverUrls s).Nodup
  registered : ∀ u, mapContains s.album_covers_requests_sent_ u = true ↔ u ∈ coverUrls s
  total : s.album_covers_requests_total_ ≠ 0 → ¬ CoverIdle s ∨ s.finished_ = true

/-- The member variables `Drained` speaks of. -/
def fpDrained : List Field :=
  [Field.artists_requests_queue_, Field.albums_requests_queue_, Field.songs_requests_queue_,
   Field.artist_albums_requests_queue_, Field.album_songs_requests_queue_,
   Field.album_cover_requests_queue_, Field.artists_requests_active_,
   Field.albums_requests_active_, Field.songs_requests_active_,
   Field.artist_albums_requests_active_, Field.album_songs_requests_active_,
   Field.album_covers_requests_active_]

/-- The member variables `ApiDone` speaks of. -/
def fpApiDone : List Field :=
  [Field.artists_requests_queue_, Field.albums_requests_queue_, Field.songs_requests_queue_,
   Field.artist_albums_requests_queue_, Field.album_songs_requests_queue_,
   Field.artist_albums_requests_pending_, Field.album_songs_requests_pending_,
   Field.artists_requests_active_, Field.albums_requests_active_, Field.songs_requests_active_,
   Field.artist_albums_requests_active_, Field.album_songs_requests_active_]

/-- The member variables of the cover stage. -/
def fpCoverBooks : List Field :=
  [Field.album_cover_requests_queue_, Field.album_covers_requests_sent_,
   Field.album_covers_requests_total_, Field.album_covers_requests_active_]

/-- What a reply handler of the API stages leaves of the cover stage: a finished request is
drained, and the cover stage has not begun or has just been started by `GetAlbumCovers`. -/
def CoverOpen (s : State) : Prop :=
  FinishedIdle s ∧ (CoverFresh s ∨ CoversBegun s)

/-- A track object whose album carries the cover image `url`. -/
def coverTrack (id url : String) : QJsonValue :=
  QJsonValue.object
    [("id", QJsonValue.string id), ("title", QJsonValue.string "title"),
     ("track_number", QJsonValue.number 1), ("duration", QJsonValue.number 10),
     ("copyright", QJsonValue.string "c"), ("streamable", QJsonValue.bool true),
     ("album", QJsonValue.object
       [("id", QJsonValue.string "x"), ("title", QJsonValue.string "album"),
        ("image", QJsonValue.object [("large", QJsonValue.string url)])])]

/-- Scenario D as a run of a direct songs query with cover download: the request is sent, its
only page carries the tracks 1 and 2 with the cover `u` and the track 3 with the cover `v`, and
the next timeout sends the download of `u`, which gets the handle 1. -/
def scenarioDInputs : List Input :=
  [Input.Tick,
   Input.Finished (sampleReply 0 (samplePage "tracks" 0 3
     [coverTrack "1" "u", coverTrack "2" "u", coverTrack "3" "v"])),
   Input.Tick]

/-- A queued request of any stage. -/
inductive Queued where
  | page (request : Request)
  | artistAlbums (request : ArtistAlbumsRequest)
  | albumSongs (request : AlbumSongsRequest)
  | albumCover (request : AlbumCoverRequest)
  deriving DecidableEq

/-- The queue of a stage. -/
def State.queue (s : State) : Stage → List Queued
  | Stage.artists => s.artists_requests_queue_.map Queued.page
  | Stage.albums => s.albums_requests_queue_.map Queued.page
  | Stage.songs => s.songs_requests_queue_.map Queued.page
  | Stage.artistAlbums => s.artist_albums_requests_queue_.map Queued.artistAlbums
  | Stage.albumSongs => s.album_songs_requests_queue_.map Queued.albumSongs
  | Stage.albumCovers => s.album_cover_requests_queue_.map Queued.albumCover

/-- The flush function of a stage. -/
def stageFlush : Stage → State → State
  | Stage.artists => FlushArtistsRequests
  | Stage.albums => FlushAlbumsRequests
  | Stage.songs => FlushSongsRequests
  | Stage.artistAlbums => FlushArtistAlbumsRequests
  | Stage.albumSongs => FlushAlbumSongsRequests
  | Stage.albumCovers => FlushAlbumCoverRequests

/-- The first stage with a non-empty queue in the order artists, albums, artist-albums,
album-songs, songs, album covers. -/
def firstBusy (s : State) : Option Stage :=
  if s.queue Stage.artists ≠ [] then some Stage.artists
  else if s.queue Stage.albums ≠ [] then some Stage.albums
  else if s.queue Stage.artistAlbums ≠ [] then some Stage.artistAlbums
  else if s.queue Stage.albumSongs ≠ [] then some Stage.albumSongs
  else if s.queue Stage.songs ≠ [] then some Stage.songs
  else if s.queue Stage.albumCovers ≠ [] then some Stage.albumCovers
  else none

/-- A state with one artists page and two artist-albums requests queued. -/
def twoQueuesState : State :=
  { State.init QueryType_Artists with
    timer_active := true,
    artists_requests_queue_ := [{ offset := 50, limit := 0 }],
    artist_albums_requests_queue_ :=
      [{ artist := { artist_id := "a", artist := "A" }, offset := 0, limit := 0 },
       { artist := { artist_id := "b", artist := "B" }, offset := 0, limit := 0 }] }

/-- An unfinished artists request with the artists `a` and `b` pending and the artists stage
drained. -/
def twoPendingArtists : State :=
  { State.init QueryType_Artists with
    artist_albums_requests_pending_ :=
      [("a", { artist := { artist_id := "a", artist := "A" }, offset := 0, limit := 0 }),
       ("b", { artist := { artist_id := "b", artist := "B" }, offset := 0, limit := 0 })] }



/-- The concurrency cap of a stage. -/
def Stage.cap : Stage → Int
  | Stage.artists => kMaxConcurrentArtistsRequests
  | Stage.albums => kMaxConcurrentAlbumsRequests
  | Stage.songs => kMaxConcurrentSongsRequests
  | Stage.artistAlbums => kMaxConcurrentArtistAlbumsRequests
  | Stage.albumSongs => kMaxConcurrentAlbumSongsRequests
  | Stage.albumCovers => kMaxConcurrentAlbumCoverRequests

/-- The slot the flush of a stage connects the reply of a dequeued request to; the listing
stages send a request only in a query of their own type and drop it otherwise. -/
def stageSlot (type : QueryType) : Stage → Queued → Option Callback
  | Stage.artists, Queued.page r =>
    if type = QueryType_Artists ∨ type = QueryType_SearchArtists then
      some (Callback.Artists r.limit r.offset)
    else none
  | Stage.albums, Queued.page r =>
    if type = QueryType_Albums ∨ type = QueryType_SearchAlbums then
      some (Callback.Albums r.limit r.offset)
    else none
  | Stage.songs, Queued.page r =>
    if type = QueryType_Songs ∨ type = QueryType_SearchSongs then
      some (Callback.Songs r.limit r.offset)
    else none
  | Stage.artistAlbums, Queued.artistAlbums r => some (Callback.ArtistAlbums r.artist r.offset)
  | Stage.albumSongs, Queued.albumSongs r =>
    some (Callback.AlbumSongs r.artist r.album r.offset)
  | Stage.albumCovers, Queued.albumCover r => some (Callback.AlbumCover r.url r.filename)
  | _, _ => none

/-- No stage has more requests in flight than its cap. -/
def Capped (s : State) : Prop :=
  ∀ k, s.active k ≤ k.cap

/-- An artists request with five artist-albums requests queued and none in flight. -/
def fiveQueuedState : State :=
  { State.init QueryType_Artists with
    timer_active := true,
    artist_albums_requests_queue_ :=
      ["a", "b", "c", "d", "e"].map
        (fun id => { artist := { artist_id := id, artist := id }, offset := 0, limit := 0 }) }

/-- The flush timer runs whenever a request is queued in one of the six stages. -/
def TimerLive (s : State) : Prop :=
  (∃ k, s.queue k ≠ []) → s.timer_active = true

/-- The member variables `TimerLive` speaks of. -/
def fpTimerLive : List Field :=
  [Field.timer_active, Field.artists_requests_queue_, Field.albums_requests_queue_,
   Field.songs_requests_queue_, Field.artist_albums_requests_queue_,
   Field.album_songs_requests_queue_, Field.album_cover_requests_queue_]

/-- An artists request whose timer was stopped by a flush tick that found every queue empty,
with one artist pending. -/
def stoppedTimerState : State :=
  { State.init QueryType_Artists with
    artists_requests_total_ := 1, artists_requests_received_ := 1,
    artist_albums_requests_pending_ :=
      [("a", { artist := { artist_id := "a", artist := "A" }, offset := 0, limit := 0 })] }

/-- A direct artists query lists the one artist `x`; the artist-albums request is sent and
answered by a well-formed page without items: the artist has no albums. -/
def artistWithoutAlbumsInputs : List Input :=
  [Input.Tick,
   Input.Finished (sampleReply 0 (samplePage "artists" 0 1 [sampleArtist "x"])),
   Input.Tick,
   Input.Finished (sampleReply 1 (samplePage "albums" 0 0 []))]

/-- A direct albums query lists the one album `x`; the album-songs request is sent and answered
by a well-formed page without items: the album has no tracks. -/
def albumWithoutTracksInputs : List Input :=
  [Input.Tick,
   Input.Finished (sampleReply 0 (samplePage "albums" 0 1 [sampleAlbum "x"])),
   Input.Tick,
   Input.Finished (sampleReply 1 (samplePage "tracks" 0 0 []))]

/-- A request about to finalize with nothing found and nothing logged: unfinished, quiescent,
with the empty song map and error log of the constructed object. -/
def nothingFoundState (type : QueryType) (no_results : Bool) : State :=
  { State.init type with no_results_ := no_results }

/-- An artist object without `name`. -/
def namelessArtist : QJsonValue :=
  QJsonValue.object [("id", QJsonValue.string "z")]

/-- A direct artists query whose only page (offset 0, total 3) carries the valid artists `a`
and `b` and the artist without name at position `k`. -/
def namelessArtistAt (k : Nat) : State :=
  run sampleEnv QueryType_Artists
    [Input.Tick,
     Input.Finished (sampleReply 0 (samplePage "artists" 0 3
       ((["a", "b"].map sampleArtist).take k ++ [namelessArtist] ++
         (["a", "b"].map sampleArtist).drop k)))]

/-- The first page of a direct listing under `key`: offset 0, total 2 and two valid items. -/
def firstPageOfTwoInputs (key : String) (item : String → QJsonValue) : List Input :=
  [Input.Tick, Input.Finished (sampleReply 0 (samplePage key 0 2 [item "x", item "y"]))]

/-- The only page of a direct artists listing without artists: offset 0, total 0, no items. -/
def noArtistsInputs : List Input :=
  [Input.Tick, Input.Finished (sampleReply 0 (samplePage "artists" 0 0 []))]

/-- The page container `obj` answers a request for offset `offset_requested` as an accepted
first page without items: it has the four page values, reports the requested offset, the
requested offset is 0 and the items array is empty. -/
def EmptyFirstPage (obj : QJsonObject) (offset_requested : Int) : Prop :=
  missingPageValues obj = false ∧ (jsonValue obj "offset").toInt = offset_requested ∧
  offset_requested = 0 ∧ ExtractItems obj = QJsonValue.array []

/-- The reply hands over an object whose container under `key` is an accepted first page
without items. -/
def EmptyFirstReply (reply : QNetworkReply) (key : String) (offset_requested : Int) : Prop :=
  ∃ bytes obj, reply.data = some bytes ∧ bytes.json_obj.isEmpty = false ∧
    jsonContains bytes.json_obj key = true ∧
    jsonValue bytes.json_obj key = QJsonValue.object obj ∧ EmptyFirstPage obj offset_requested

/-- The reply is a registered reply of the unfinished request `s` and carries an accepted first
page without items under `key`. -/
def AcceptedEmptyFirst (s : State) (reply : QNetworkReply) (key : String)
    (offset_requested : Int) : Prop :=
  s.finished_ = false ∧ reply.handle ∈ s.replies_ ∧ EmptyFirstReply reply key offset_requested

/-- From `s` to `t` the query type is kept, the no-results flag is not cleared, and the flag is
set only if `C` holds. -/
def FlagStep (C : Prop) (s t : State) : Prop :=
  t.type_ = s.type_ ∧ (s.no_results_ = true → t.no_results_ = true) ∧
  (t.no_results_ = true → s.no_results_ = true ∨ C)

/-- Under what the handler behind `slot` sets the no-results flag when the reply arrives in the
state `s`. -/
def SetsNoResults (s : State) (reply : QNetworkReply) : Callback → Prop
  | Callback.Artists _ o => AcceptedEmptyFirst s reply "artists" o
  | Callback.Albums _ o =>
    (s.type_ = QueryType_Albums ∨ s.type_ = QueryType_SearchAlbums) ∧
      AcceptedEmptyFirst s reply "albums" o
  | Callback.ArtistAlbums _ o =>
    (s.type_ = QueryType_Albums ∨ s.type_ = QueryType_SearchAlbums) ∧
      AcceptedEmptyFirst s reply "albums" o
  | Callback.Songs _ o =>
    (s.type_ = QueryType_Songs ∨ s.type_ = QueryType_SearchSongs) ∧
      AcceptedEmptyFirst s reply "tracks" o
  | Callback.AlbumSongs _ _ o =>
    (s.type_ = QueryType_Songs ∨ s.type_ = QueryType_SearchSongs) ∧
      AcceptedEmptyFirst s reply "tracks" o
  | Callback.AlbumCover _ _ => False

/-- What `ArtistsReplyReceived` may write besides the no-results flag. -/
def fpArtistsUnflagged : List Field :=
  fpArtistsFinishCheck ++ fpError ++ [Field.artist_albums_requests_pending_,
    Field.artists_received_, Field.artists_total_, Field.replies_, Field.connections,
    Field.artists_requests_active_, Field.artists_requests_received_]

/-- What `AlbumsReceived` and its two callers may write besides the no-results flag. -/
def fpAlbumsUnflagged : List Field :=
  fpAlbumsFinishCheck ++ fpError ++ [Field.album_songs_requests_pending_,
    Field.albums_received_, Field.replies_, Field.connections,
    Field.albums_requests_active_, Field.albums_requests_received_,
    Field.artist_albums_requests_active_, Field.artist_albums_requests_received_]

/-- What `SongsReceived` and its two callers may write besides the no-results flag. -/
def fpSongsUnflagged : List Field :=
  fpSongsFinishCheck ++ fpError ++ [Field.songs_, Field.songs_received_, Field.replies_,
    Field.connections, Field.songs_requests_active_, Field.songs_requests_received_,
    Field.album_songs_requests_active_, Field.album_songs_requests_received_]

/-- The offset a slot was connected for; a cover download has none. -/
def Callback.offset_requested : Callback → Option Int
  | Callback.Artists _ o => some o
  | Callback.Albums _ o => some o
  | Callback.Songs _ o => some o
  | Callback.ArtistAlbums _ o => some o
  | Callback.AlbumSongs _ _ o => some o
  | Callback.AlbumCover _ _ => none

/-- The query types a stage works for: a listing for the queries of its own kind, the albums of
an artist for an artists query, the songs of an album for an artists or an albums query. -/
def Stage.serves : Stage → QueryType → Prop
  | Stage.artists, t => t = QueryType_Artists ∨ t = QueryType_SearchArtists
  | Stage.albums, t => t = QueryType_Albums ∨ t = QueryType_SearchAlbums
  | Stage.songs, t => t = QueryType_Songs ∨ t = QueryType_SearchSongs
  | Stage.artistAlbums, t => t = QueryType_Artists ∨ t = QueryType_SearchArtists
  | Stage.albumSongs, t =>
    (t = QueryType_Artists ∨ t = QueryType_SearchArtists) ∨
      (t = QueryType_Albums ∨ t = QueryType_SearchAlbums)
  | Stage.albumCovers, _ => True

/-- A stage has requests queued or in flight only in a query it works for. -/
def StageTypes (s : State) : Prop :=
  ∀ k, (s.queue k ≠ [] ∨ 0 < s.active k) → k.serves s.type_

/-- `QMap::value`: the value stored under the key, if there is one. -/
def mapValue {α : Type} (m : List (String × α)) (key : String) : Option α :=
  (m.find? (fun kv => kv.1 == key)).map (fun kv => kv.2)

/-- The record the second loop of `SongsReceived` stores for a song of the page `songs`: the
song with the compilation flag and the disc number the loop gives every song of the page. -/
def storedSong (songs : List Song) (song : Song) : Song :=
  let compilation := songs.any (fun song => song.compilation_detected)
  let multidisc := songs.any (fun song => decide (song.disc ≥ 2))
  let song1 := if compilation = true then { song with compilation_detected := true } else song
  if multidisc = false then { song1 with disc := 0 } else song1

/-- The last song of the page with the id `id`. -/
def lastWrite (songs : List Song) (id : String) : Option Song :=
  songs.reverse.find? (fun song => song.song_id == id)

/-- The songs of a page that `ParseSong` leaves valid, in page order. -/
def pageSongs (env : Env) (album_artist : Artist) (album : Album)
    (items : List QJsonValue) : List Song :=
  items.filterMap (fun value_item =>
    match value_item with
    | QJsonValue.object obj_item =>
      match ParseSongFields env obj_item album_artist album with
      | Except.ok song => if song.valid = true then some song else none
      | Except.error _ => none
    | _ => none)

/-- The song map has one entry per key, and every song is stored under its own id. -/
def Keyed (m : SongMap) : Prop :=
  (m.map (fun kv => kv.1)).Nodup ∧ ∀ kv ∈ m, kv.1 = kv.2.song_id

/-- Two tracks with the same id and different titles, and one other track. -/
def rewrittenTrackPage : List QJsonValue :=
  [sampleTrack "a",
   QJsonValue.object
     [("id", QJsonValue.string "b"), ("title", QJsonValue.string "first"),
      ("track_number", QJsonValue.number 1), ("duration", QJsonValue.number 10),
      ("copyright", QJsonValue.string "c"), ("streamable", QJsonValue.bool true)],
   QJsonValue.object
     [("id", QJsonValue.string "b"), ("title", QJsonValue.string "second"),
      ("track_number", QJsonValue.number 2), ("duration", QJsonValue.number 10),
      ("copyright", QJsonValue.string "c"), ("streamable", QJsonValue.bool true)]]

/-- The position of the leading binary digit of `n`, by halving at most `fuel` times. -/
def log2Fuel : Nat → Nat → Nat
  | 0, _ => 0
  | fuel + 1, n => if n < 2 then 0 else log2Fuel fuel (n / 2) + 1

/-- The binary exponent of a rational `q ≠ 0`: the `e` with `2^e ≤ |q| < 2^(e+1)`. -/
def floorLog2 (q : ℚ) : Int :=
  let e0 : Int := (log2Fuel q.num.natAbs q.num.natAbs : Int) - (log2Fuel q.den q.den : Int)
  if (2 : ℚ) ^ e0 ≤ |q| then e0 else e0 - 1

/-- Rounding to the nearest integer, ties to the even one. -/
def roundHalfEven (x : ℚ) : Int :=
  if x - ⌊x⌋ < 1 / 2 then ⌊x⌋
  else if 1 / 2 < x - ⌊x⌋ then ⌊x⌋ + 1
  else if ⌊x⌋ % 2 = 0 then ⌊x⌋ else ⌊x⌋ + 1

/-- The binary32 value nearest to `q`, ties to even: `q` is scaled to 24 significant binary
digits, rounded, and scaled back.  Overflow and gradual underflow are left out: they are out
of reach of the quotient of two `int` values and its hundredfold. -/
def roundToFloat (q : ℚ) : ℚ :=
  if q = 0 then 0
  else (roundHalfEven (q / (2 : ℚ) ^ (floorLog2 q - 23)) : ℚ) * (2 : ℚ) ^ (floorLog2 q - 23)

/-- `QobuzRequest::GetProgress`: the two casts to `float`, the division, the product with
`100.0F` and the cast to `int`, which truncates; a division by zero has no `int` value. -/
def GetProgress (count total : Int) : Option Int :=
  if total = 0 then none
  else some ⌊roundToFloat (roundToFloat (roundToFloat count / roundToFloat total) * 100)⌋

/-- The specification's progress value: `count / total * 100` over the rationals, rounded to
the nearest integer, a half upwards. -/
def roundedPercent (count total : Int) : Int :=
  ⌊(count : ℚ) / (total : ℚ) * 100 + 1 / 2⌋

/-- The percentage a progress signal carries: 0 for the reset of a stage, the value of
`GetProgress` for the recorded call. -/
def Progress.percent : Progress → Option Int
  | Progress.Zero => some 0
  | Progress.GetProgress count total => Qobuz.GetProgress count total

/-- The property of a state a handler returns: a quiescent state is a finished one. -/
def NoStall (s : State) : Prop :=
  Quiescent s → s.finished_ = true

/-- The state `Process` leaves of a request whose type is none of the six query types: the one
error is logged and the request is finalized with an empty song map. -/
def invalidTypeState (type : QueryType) : State :=
  { State.init type with
    errors_ := ["Invalid query type."], finished_ := true,
    emitted := [Event.Results [] (ErrorsToHTML ["Invalid query type."])] }

/-- The error log of `s` is an initial segment of the error log of `t`. -/
def LogKept (s t : State) : Prop :=
  s.errors_ <+: t.errors_

/-- The `requests_total` counter of a stage. -/
def State.total (s : State) : Stage → Int
  | Stage.artists => s.artists_requests_total_
  | Stage.albums => s.albums_requests_total_
  | Stage.songs => s.songs_requests_total_
  | Stage.artistAlbums => s.artist_albums_requests_total_
  | Stage.albumSongs => s.album_songs_requests_total_
  | Stage.albumCovers => s.album_covers_requests_total_

/-- The `requests_received` counter of a stage. -/
def State.received (s : State) : Stage → Int
  | Stage.artists => s.artists_requests_received_
  | Stage.albums => s.albums_requests_received_
  | Stage.songs => s.songs_requests_received_
  | Stage.artistAlbums => s.artist_albums_requests_received_
  | Stage.albumSongs => s.album_songs_requests_received_
  | Stage.albumCovers => s.album_covers_requests_received_

/-- The registry the replies of a stage are kept in: `album_cover_replies_` for the cover
downloads, `replies_` for the five API stages. -/
def State.registry (s : State) : Stage → List Nat
  | Stage.albumCovers => s.album_cover_replies_
  | _ => s.replies_

/-- The number of replies of a stage in the in-flight registry: the replies connected to the
slot of the stage whose handle is in the registry of the stage. -/
def registered (s : State) (k : Stage) : Int :=
  (((s.connections.filter
    (fun c => c.2.stage == k && (s.registry k).contains c.1)).length : Nat) : Int)

/-- Request conservation: in every stage the requests counted in `requests_total` are the
queued ones, the active ones and the received ones. -/
def Conserved (s : State) : Prop :=
  ∀ k, s.total k = ((s.queue k).length : Int) + s.active k + s.received k

/-- The member variables `Conserved` speaks of. -/
def fpConserved : List Field :=
  [Field.artists_requests_total_, Field.artists_requests_queue_, Field.artists_requests_active_, Field.artists_requests_received_,
   Field.albums_requests_total_, Field.albums_requests_queue_, Field.albums_requests_active_, Field.albums_requests_received_,
   Field.songs_requests_total_, Field.songs_requests_queue_, Field.songs_requests_active_, Field.songs_requests_received_,
   Field.artist_albums_requests_total_, Field.artist_albums_requests_queue_, Field.artist_albums_requests_active_, Field.artist_albums_requests_received_,
   Field.album_songs_requests_total_, Field.album_songs_requests_queue_, Field.album_songs_requests_active_, Field.album_songs_requests_received_,
   Field.album_covers_requests_total_, Field.album_cover_requests_queue_, Field.album_covers_requests_active_, Field.album_covers_requests_received_]

/-- A direct albums query whose listing names the albums `x` and `y`: the albums request is sent
and answered, and the next timeout sends the two album-songs requests. -/
def twoAlbumsSentInputs : List Input :=
  [Input.Tick,
   Input.Finished (sampleReply 0 (samplePage "albums" 0 2 [sampleAlbum "x", sampleAlbum "y"])),
   Input.Tick]

/-- Cover download is switched off in the service configuration, or the request is not a direct
query (`IsQuery()` fails, as it does for every search). -/
def CoversOff (env : Env) (type : QueryType) : Prop :=
  env.download_album_covers = false ∨ IsQuery type = false

/-- What `AlbumsFinishCheck` writes when it does not start the cover downloads. -/
def fpAlbumsFinishOff : List Field :=
  fpAddAlbumsRequest ++ fpAddArtistAlbumsRequest ++ fpAddAlbumSongsRequest ++
    [Field.album_songs_requests_pending_, Field.emitted] ++ fpFinishCheck

/-- What `SongsFinishCheck` writes when it does not start the cover downloads. -/
def fpSongsFinishOff : List Field :=
  fpAddSongsRequest ++ fpAddAlbumSongsRequest ++ fpFinishCheck

/-- A songs search answered by one page of three tracks with cover images: the tracks 1 and 2
carry the cover `u`, the track 3 the cover `v`. -/
def searchWithCoversInputs : List Input :=
  [Input.Tick,
   Input.Finished (sampleReply 0 (samplePage "tracks" 0 3
     [coverTrack "1" "u", coverTrack "2" "u", coverTrack "3" "v"]))]

/-- The pending entry the item loop of `AlbumsReceived` stores for an album object: the key is
the album id, the request carries the album's own artist and the album. -/
def albumEntry (obj_item obj_artist : QJsonObject) : String × AlbumSongsRequest :=
  (idString (jsonValue obj_item "id"),
    { artist := { artist_id := idString (jsonValue obj_artist "id"),
                  artist := (jsonValue obj_artist "name").toQString },
      album := { album_id := idString (jsonValue obj_item "id"),
                 album := (jsonValue obj_item "title").toQString, cover_url := "" },
      offset := 0, limit := 0 })

/-- The entry `kv` is the one the item loop stores for the album object `v`, and the album's own
artist id is the id of the requested artist. -/
def OwnAlbum (artist_requested : Artist) (v : QJsonValue) (kv : String × AlbumSongsRequest) :
    Prop :=
  ∃ obj_item obj_artist, v = QJsonValue.object obj_item ∧
    jsonValue obj_item "artist" = QJsonValue.object obj_artist ∧
    idString (jsonValue obj_artist "id") = artist_requested.artist_id ∧
    kv = albumEntry obj_item obj_artist

/-- The state in which the item loop of `SongsReceived` starts on the page of Scenario B: the
request was sent by the first timeout, and the handler has counted the reply 0 and taken it
from the registry. -/
def scenarioBLoopStart : State :=
  takeReply (songsSettled (run sampleEnv QueryType_Songs [Input.Tick])) 0

/-- The songs `SongsContainer` hands to the song map when it accepts the `tracks` container of
a reply: the valid songs `ParseSong` makes of the items, with the album artist and album of the
header.  For a container it rejects (missing values, another offset) it stores none of them. -/
def containerSongs (env : Env) (obj_tracks : QJsonObject) (album_artist : Artist)
    (album : Album) : List Song :=
  match ExtractItems obj_tracks with
  | QJsonValue.array array_items => pageSongs env album_artist album array_items
  | _ => []

/-- The songs `SongsParsed` hands to the song map for the object of a reply: the header is read
with the requested artist and album, the songs are those of the `tracks` container. -/
def objectSongs (env : Env) (json_obj : QJsonObject) (artist_requested : Artist)
    (album_requested : Album) : List Song :=
  match SongsAlbumHeader json_obj artist_requested album_requested with
  | Except.error _ => []
  | Except.ok (album_artist, album) =>
    match jsonValue json_obj "tracks" with
    | QJsonValue.object obj_tracks => containerSongs env obj_tracks album_artist album
    | _ => []

/-- The songs `SongsReceived` can parse from a reply it is called with for the requested artist
and album: the songs as `ParseSong` leaves them, before they are stored. -/
def replySongs (env : Env) (reply : QNetworkReply) (artist_requested : Artist)
    (album_requested : Album) : List Song :=
  match reply.data with
  | none => []
  | some bytes => objectSongs env bytes.json_obj artist_requested album_requested

/-- The songs the slot parses from the reply: `SongsReplyReceived` calls `SongsReceived` with
an empty artist and album, `AlbumSongsReplyReceived` with the artist and album of its
request; the other slots parse no song. -/
def Callback.parsed (env : Env) (reply : QNetworkReply) : Callback → List Song
  | Callback.Songs _ _ => replySongs env reply Artist.empty Album.empty
  | Callback.AlbumSongs artist album _ => replySongs env reply artist album
  | _ => []

/-- The songs a delivery parses: those the slot the delivered reply is connected to parses from
it. -/
def parsedBy (env : Env) (s : State) : Input → List Song
  | Input.Tick => []
  | Input.Finished reply =>
    match s.connections.find? (fun c => c.1 == reply.handle) with
    | some c => c.2.parsed env reply
    | none => []

/-- One delivery, with the log of the songs parsed so far. -/
def stepParsed (env : Env) (p : State × List Song) (input : Input) : State × List Song :=
  (step env p.1 input, p.2 ++ parsedBy env p.1 input)

/-- The songs parsed in the run, in the order of the deliveries: for every delivered reply that
was connected to a songs slot, the songs `ParseSong` made of its track objects. -/
def parsedSongs (env : Env) (type : QueryType) (inputs : List Input) : List Song :=
  (inputs.foldl (stepParsed env) (Process env (State.init type), [])).2

/-- The song carries its original remote cover reference: it has the id and the cover
reference (`art_automatic`, the `image` URL of the reply) of one of the parsed songs. -/
def RemoteCover (parsed : List Song) (song : Song) : Prop :=
  ∃ p ∈ parsed, p.song_id = song.song_id ∧ p.art_automatic = song.art_automatic

/-- Every song of the map carries the cover reference of a parsed song with its id. -/
def Remote (parsed : List Song) (m : SongMap) : Prop :=
  ∀ kv ∈ m, RemoteCover parsed kv.2

/-- Every song in the aggregate map and in every `Results` signal emitted so far carries the
cover reference of a parsed song with its id. -/
def Orig (parsed : List Song) (t : State) : Prop :=
  Remote parsed t.songs_ ∧
    ∀ songs error, Event.Results songs error ∈ t.emitted → Remote parsed songs

/-- Scenario D to its end: the direct songs query with cover download, the download of `u`
answered with an image that is saved, the download of `v` sent and answered likewise. -/
def coversSavedInputs : List Input :=
  scenarioDInputs ++
    [Input.Finished (sampleReply 1 []), Input.Tick, Input.Finished (sampleReply 2 [])]

/-! # Verification -/

set_option linter.unusedTactic false
set_option linter.unreachableTactic false

/-! ## `FinishCheck` finalizes once -/

theorem FinishCheck_of_finished (s : State) (h : s.finished_ = true) : FinishCheck s = s := by
  simp [FinishCheck, h]

theorem FinishCheck_of_not_quiescent (s : State) (h : ¬ Quiescent s) : FinishCheck s = s := by
  simp [FinishCheck, h]

/-- The event `FinishCheck` emits when it finalizes in state `s`. -/
theorem FinishCheck_of_quiescent (s : State) (h : s.finished_ = false) (hq : Quiescent s) :
    ∃ songs error, FinishCheck s =
      { s with timer_active := false, finished_ := true,
               emitted := s.emitted ++ [Event.Results songs error] } := by
  unfold FinishCheck
  rw [if_pos ⟨h, hq⟩]
  dsimp only
  split_ifs <;> exact ⟨_, _, rfl⟩

theorem FinishCheck_idem (s : State) : FinishCheck (FinishCheck s) = FinishCheck s := by
  by_cases h : s.finished_ = false ∧ Quiescent s
  · obtain ⟨songs, error, he⟩ := FinishCheck_of_quiescent s h.1 h.2
    rw [he]
    exact FinishCheck_of_finished _ rfl
  · have : FinishCheck s = s := by simp [FinishCheck, h]
    rw [this, this]


theorem Mono.refl (s : State) : Mono s s := ⟨Nat.le_refl _, rfl⟩

theorem Mono.trans {s t u : State} (h1 : Mono s t) (h2 : Mono t u) : Mono s u := by
  unfold Mono at *
  omega

theorem mono_mk {s t : State} (h : Mono s t)
    {a1 : QueryType} {a2 : Bool} {a4 a5 a6 a7 a8 a9 a10 a11 a12 a13 a14 a15 a16 a17 a18 a19 a20
      a21 a22 a23 a24 a25 a26 a27 : Int} {a28 : Bool} {a29 a30 a31 : List Request}
    {a32 : List ArtistAlbumsRequest} {a33 : List AlbumSongsRequest}
    {a34 : List AlbumCoverRequest} {a35 : List (String × ArtistAlbumsRequest)}
    {a36 : List (String × AlbumSongsRequest)} {a37 : List (String × String)} {a38 : SongMap}
    {a39 : List String} {a40 a41 : List Nat} {a42 : List (Nat × Callback)} {a43 : Nat} :
    Mono s (State.mk a1 a2 t.finished_ a4 a5 a6 a7 a8 a9 a10 a11 a12 a13 a14 a15 a16 a17 a18 a19
      a20 a21 a22 a23 a24 a25 a26 a27 a28 a29 a30 a31 a32 a33 a34 a35 a36 a37 a38 a39 a40 a41 a42
      a43 t.emitted) := h

theorem mono_emit_status {s t : State} (h : Mono s t) (text : String) :
    Mono s (emit t (Event.UpdateStatus text)) := by
  simpa [Mono, emit, resultsCount, finishedCount, isResults] using h

theorem mono_emit_progress {s t : State} (h : Mono s t) (p : Progress) :
    Mono s (emit t (Event.UpdateProgress p)) := by
  simpa [Mono, emit, resultsCount, finishedCount, isResults] using h

theorem mono_FinishCheck {s t : State} (h : Mono s t) : Mono s (FinishCheck t) := by
  refine Mono.trans h ?_
  by_cases h1 : t.finished_ = false ∧ Quiescent t
  · obtain ⟨songs, error, he⟩ := FinishCheck_of_quiescent t h1.1 h1.2
    rw [he]
    simp [Mono, resultsCount, finishedCount, isResults, h1.1]
  · have he : FinishCheck t = t := by simp [FinishCheck, h1]
    rw [he]
    exact Mono.refl t

theorem mono_Error {s t : State} (h : Mono s t) (e : String) : Mono s (Error t e) := by
  unfold Error
  apply mono_FinishCheck
  split
  · exact mono_mk h
  · exact h

theorem mono_StartRequests {s t : State} (h : Mono s t) : Mono s (StartRequests t) := by
  unfold StartRequests
  split
  · exact mono_mk h
  · exact h

theorem mono_foldl {β : Type} {s : State} (f : State → β → State)
    (hf : ∀ t b, Mono s t → Mono s (f t b)) (l : List β) :
    ∀ t, Mono s t → Mono s (l.foldl f t) := by
  induction l with
  | nil => intro t h; exact h
  | cons b l ih => intro t h; exact ih _ (hf t b h)

theorem mono_issueReply {s t : State} (h : Mono s t) (slot : Callback) :
    Mono s (issueReply t slot) := mono_mk h

theorem mono_issueCoverReply {s t : State} (h : Mono s t) (slot : Callback) :
    Mono s (issueCoverReply t slot) := mono_mk h

theorem mono_takeReply {s t : State} (h : Mono s t) (reply : Nat) :
    Mono s (takeReply t reply) := mono_mk h

theorem mono_takeCoverReply {s t : State} (h : Mono s t) (reply : Nat) :
    Mono s (takeCoverReply t reply) := mono_mk h

theorem mono_removeCover {s t : State} (h : Mono s t) (url : String) :
    Mono s (removeCover t url) := mono_mk h

theorem mono_applyCover {s t : State} (h : Mono s t) (url filename : String) :
    Mono s (applyCover t url filename) := mono_mk h

theorem mono_artistsSent {s t : State} (h : Mono s t) : Mono s (artistsSent t) := mono_mk h
theorem mono_albumsSent {s t : State} (h : Mono s t) : Mono s (albumsSent t) := mono_mk h
theorem mono_songsSent {s t : State} (h : Mono s t) : Mono s (songsSent t) := mono_mk h
theorem mono_artistAlbumsSent {s t : State} (h : Mono s t) : Mono s (artistAlbumsSent t) :=
  mono_mk h
theorem mono_albumSongsSent {s t : State} (h : Mono s t) : Mono s (albumSongsSent t) := mono_mk h
theorem mono_albumCoverSent {s t : State} (h : Mono s t) : Mono s (albumCoverSent t) := mono_mk h
theorem mono_artistsSettled {s t : State} (h : Mono s t) : Mono s (artistsSettled t) := mono_mk h
theorem mono_albumsSettled {s t : State} (h : Mono s t) : Mono s (albumsSettled t) := mono_mk h
theorem mono_songsSettled {s t : State} (h : Mono s t) : Mono s (songsSettled t) := mono_mk h
theorem mono_artistAlbumsSettled {s t : State} (h : Mono s t) : Mono s (artistAlbumsSettled t) :=
  mono_mk h
theorem mono_albumSongsSettled {s t : State} (h : Mono s t) : Mono s (albumSongsSettled t) :=
  mono_mk h
theorem mono_albumCoverSettled {s t : State} (h : Mono s t) : Mono s (albumCoverSettled t) :=
  mono_mk h
theorem mono_clearArtistAlbumsPending {s t : State} (h : Mono s t) :
    Mono s (clearArtistAlbumsPending t) := mono_mk h
theorem mono_clearAlbumSongsPending {s t : State} (h : Mono s t) :
    Mono s (clearAlbumSongsPending t) := mono_mk h
theorem mono_artistsCounted {s t : State} (h : Mono s t) (n : Int) :
    Mono s (artistsCounted t n) := mono_mk h
theorem mono_songsInserted {s t : State} (h : Mono s t) (l : List Song) :
    Mono s (songsInserted t l) := mono_mk h

theorem mono_artistsProgress {s t : State} (h : Mono s t) : Mono s (artistsProgress t) :=
  mono_emit_progress h _
theorem mono_artistAlbumsProgress {s t : State} (h : Mono s t) :
    Mono s (artistAlbumsProgress t) := mono_emit_progress h _
theorem mono_albumCoverProgress {s t : State} (h : Mono s t) : Mono s (albumCoverProgress t) :=
  mono_emit_progress h _

theorem mono_albumSongsProgress {s t : State} (h : Mono s t) (o : Int) :
    Mono s (albumSongsProgress t o) := by
  unfold albumSongsProgress
  split
  · exact mono_emit_progress h _
  · exact h

theorem mono_albumsCounted {s t : State} (h : Mono s t) (n : Int) :
    Mono s (albumsCounted t n) := by
  unfold albumsCounted
  split
  · exact mono_emit_progress (mono_mk h) _
  · exact h

theorem mono_songsCounted {s t : State} (h : Mono s t) (n : Int) :
    Mono s (songsCounted t n) := by
  unfold songsCounted
  split
  · exact mono_emit_progress (mono_mk h) _
  · exact h

theorem mono_albumCoversStatus {s t : State} (h : Mono s t) : Mono s (albumCoversStatus t) := by
  unfold albumCoversStatus
  split <;> exact mono_emit_status h _

theorem mono_artistAlbumsStatus {s t : State} (h : Mono s t) : Mono s (artistAlbumsStatus t) := by
  unfold artistAlbumsStatus
  split
  · apply mono_emit_progress
    split <;> exact mono_emit_status h _
  · exact h

theorem mono_albumSongsStatus {s t : State} (h : Mono s t) : Mono s (albumSongsStatus t) := by
  unfold albumSongsStatus
  split
  · apply mono_emit_progress
    split <;> exact mono_emit_status h _
  · exact h

theorem mono_GetReplyData {s t : State} (h : Mono s t) (reply : QNetworkReply) :
    Mono s (GetReplyData t reply) :=
  mono_foldl Error (fun _ e ht => mono_Error ht e) _ t h

theorem mono_ExtractJsonObj {s t : State} (h : Mono s t) (bytes : ReplyBytes) :
    Mono s (ExtractJsonObj t bytes) :=
  mono_foldl Error (fun _ e ht => mono_Error ht e) _ t h

theorem mono_AddArtistsRequest {s t : State} (h : Mono s t) (o l : Int) :
    Mono s (AddArtistsRequest t o l) := mono_StartRequests (mono_mk h)

theorem mono_AddAlbumsRequest {s t : State} (h : Mono s t) (o l : Int) :
    Mono s (AddAlbumsRequest t o l) := mono_StartRequests (mono_mk h)

theorem mono_AddSongsRequest {s t : State} (h : Mono s t) (o l : Int) :
    Mono s (AddSongsRequest t o l) := mono_StartRequests (mono_mk h)

theorem mono_AddArtistAlbumsRequest {s t : State} (h : Mono s t) (a : Artist) (o : Int) :
    Mono s (AddArtistAlbumsRequest t a o) := mono_StartRequests (mono_mk h)

theorem mono_AddAlbumSongsRequest {s t : State} (h : Mono s t) (a : Artist) (b : Album) (o : Int) :
    Mono s (AddAlbumSongsRequest t a b o) := mono_StartRequests (mono_mk h)

theorem mono_FlushArtistsLoop {s : State} (q : List Request) :
    ∀ t, Mono s t → Mono s (FlushArtistsLoop q t) := by
  induction q with
  | nil => intro t h; exact h
  | cons r q ih =>
    intro t h
    unfold FlushArtistsLoop
    repeat' first
      | with_reducible apply ih
      | with_reducible apply mono_artistsSent
      | with_reducible apply mono_issueReply
      | split
      | exact h

theorem mono_FlushAlbumsLoop {s : State} (q : List Request) :
    ∀ t, Mono s t → Mono s (FlushAlbumsLoop q t) := by
  induction q with
  | nil => intro t h; exact h
  | cons r q ih =>
    intro t h
    unfold FlushAlbumsLoop
    repeat' first
      | with_reducible apply ih
      | with_reducible apply mono_albumsSent
      | with_reducible apply mono_issueReply
      | split
      | exact h

theorem mono_FlushSongsLoop {s : State} (q : List Request) :
    ∀ t, Mono s t → Mono s (FlushSongsLoop q t) := by
  induction q with
  | nil => intro t h; exact h
  | cons r q ih =>
    intro t h
    unfold FlushSongsLoop
    repeat' first
      | with_reducible apply ih
      | with_reducible apply mono_songsSent
      | with_reducible apply mono_issueReply
      | split
      | exact h

theorem mono_FlushArtistAlbumsLoop {s : State} (q : List ArtistAlbumsRequest) :
    ∀ t, Mono s t → Mono s (FlushArtistAlbumsLoop q t) := by
  induction q with
  | nil => intro t h; exact h
  | cons r q ih =>
    intro t h
    unfold FlushArtistAlbumsLoop
    repeat' first
      | with_reducible apply ih
      | with_reducible apply mono_artistAlbumsSent
      | with_reducible apply mono_issueReply
      | split
      | exact h

theorem mono_FlushAlbumSongsLoop {s : State} (q : List AlbumSongsRequest) :
    ∀ t, Mono s t → Mono s (FlushAlbumSongsLoop q t) := by
  induction q with
  | nil => intro t h; exact h
  | cons r q ih =>
    intro t h
    unfold FlushAlbumSongsLoop
    repeat' first
      | with_reducible apply ih
      | with_reducible apply mono_albumSongsSent
      | with_reducible apply mono_issueReply
      | split
      | exact h

theorem mono_FlushAlbumCoverLoop {s : State} (q : List AlbumCoverRequest) :
    ∀ t, Mono s t → Mono s (FlushAlbumCoverLoop q t) := by
  induction q with
  | nil => intro t h; exact h
  | cons r q ih =>
    intro t h
    unfold FlushAlbumCoverLoop
    repeat' first
      | with_reducible apply ih
      | with_reducible apply mono_albumCoverSent
      | with_reducible apply mono_issueCoverReply
      | split
      | exact h

theorem mono_FlushRequests {s t : State} (h : Mono s t) : Mono s (FlushRequests t) := by
  unfold FlushRequests FlushArtistsRequests FlushAlbumsRequests FlushSongsRequests
    FlushArtistAlbumsRequests FlushAlbumSongsRequests FlushAlbumCoverRequests
  repeat' first
    | with_reducible apply mono_FlushArtistsLoop
    | with_reducible apply mono_FlushAlbumsLoop
    | with_reducible apply mono_FlushSongsLoop
    | with_reducible apply mono_FlushArtistAlbumsLoop
    | with_reducible apply mono_FlushAlbumSongsLoop
    | with_reducible apply mono_FlushAlbumCoverLoop
    | split
    | exact h

theorem mono_AddAlbumCoverRequest {s t : State} (h : Mono s t) (env : Env) (song : Song) :
    Mono s (AddAlbumCoverRequest env t song) := by
  unfold AddAlbumCoverRequest
  repeat' first
    | split
    | exact h

theorem mono_GetAlbumCovers {s t : State} (h : Mono s t) (env : Env) :
    Mono s (GetAlbumCovers env t) := by
  unfold GetAlbumCovers
  exact mono_StartRequests (mono_emit_progress (mono_albumCoversStatus
    (mono_foldl (fun st (kv : String × Song) => AddAlbumCoverRequest env st kv.2)
      (fun t b ht => mono_AddAlbumCoverRequest ht env b.2) t.songs_ t h)) _)

theorem mono_GetAlbumCoversCheck {s t : State} (h : Mono s t) (env : Env) :
    Mono s (GetAlbumCoversCheck env t) := by
  unfold GetAlbumCoversCheck
  split
  · exact mono_GetAlbumCovers h env
  · exact h

theorem mono_AlbumCoverFinishCheck {s t : State} (h : Mono s t) :
    Mono s (AlbumCoverFinishCheck t) := mono_FinishCheck h

theorem mono_AlbumCoverBody {s t : State} (h : Mono s t) (env : Env) (reply : QNetworkReply)
    (url filename : String) : Mono s (AlbumCoverBody env t reply url filename) := by
  unfold AlbumCoverBody
  repeat' first
    | with_reducible apply mono_AlbumCoverFinishCheck
    | with_reducible apply mono_Error
    | with_reducible apply mono_removeCover
    | with_reducible apply mono_applyCover
    | split
    | exact h

theorem mono_AlbumCoverSettled {s t : State} (h : Mono s t) (env : Env) (reply : QNetworkReply)
    (url filename : String) : Mono s (AlbumCoverSettled env t reply url filename) := by
  unfold AlbumCoverSettled
  split
  · exact h
  · exact mono_AlbumCoverBody (mono_albumCoverProgress h) env reply url filename

theorem mono_AlbumCoverReceived {s t : State} (h : Mono s t) (env : Env) (reply : QNetworkReply)
    (url filename : String) : Mono s (AlbumCoverReceived env t reply url filename) := by
  unfold AlbumCoverReceived
  split
  · exact mono_AlbumCoverFinishCheck h
  · exact mono_AlbumCoverSettled (mono_albumCoverSettled (mono_takeCoverReply h _)) env reply url
      filename

theorem mono_ArtistsNextPage {s t : State} (h : Mono s t) (env : Env) (l o r : Int) :
    Mono s (ArtistsNextPage env t l o r) := by
  unfold ArtistsNextPage AddArtistsSearchRequest
  repeat' first
    | with_reducible apply mono_AddArtistsRequest
    | split
    | exact h

theorem mono_ArtistsRelease {s t : State} (h : Mono s t) : Mono s (ArtistsRelease t) := by
  unfold ArtistsRelease
  split
  · exact mono_artistAlbumsStatus (mono_clearArtistAlbumsPending
      (mono_foldl (fun st (kv : String × ArtistAlbumsRequest) =>
          AddArtistAlbumsRequest st kv.2.artist 0)
        (fun t b ht => mono_AddArtistAlbumsRequest ht b.2.artist 0)
        t.artist_albums_requests_pending_ t h))
  · exact h

theorem mono_ArtistsFinishCheck {s t : State} (h : Mono s t) (env : Env) (l o r : Int) :
    Mono s (ArtistsFinishCheck env t l o r) := by
  unfold ArtistsFinishCheck
  split
  · exact h
  · exact mono_FinishCheck (mono_ArtistsRelease (mono_ArtistsNextPage h env l o r))

theorem mono_ArtistsItemObject {s t : State} (h : Mono s t) (o : QJsonObject) :
    Mono s (ArtistsItemObject t o) := by
  unfold ArtistsItemObject
  repeat' first
    | with_reducible apply mono_Error
    | split
    | exact h

theorem mono_ArtistsItem {s t : State} (h : Mono s t) (v : QJsonValue) :
    Mono s (ArtistsItem t v) := by
  unfold ArtistsItem
  repeat' first
    | with_reducible apply mono_Error
    | with_reducible apply mono_ArtistsItemObject
    | split
    | exact h

theorem mono_ArtistsItems {s t : State} (h : Mono s t) (env : Env) (obj : QJsonObject)
    (l o : Int) : Mono s (ArtistsItems env t obj l o) := by
  unfold ArtistsItems
  repeat' first
    | with_reducible apply mono_ArtistsFinishCheck
    | with_reducible apply mono_artistsProgress
    | with_reducible apply mono_artistsCounted
    | with_reducible apply mono_foldl ArtistsItem (fun _ b ht => mono_ArtistsItem ht b)
    | split
    | exact h

theorem mono_ArtistsPage {s t : State} (h : Mono s t) (env : Env) (obj : QJsonObject)
    (l o : Int) : Mono s (ArtistsPage env t obj l o) := by
  unfold ArtistsPage
  repeat' first
    | with_reducible apply mono_ArtistsFinishCheck
    | with_reducible apply mono_ArtistsItems
    | with_reducible apply mono_Error
    | with_reducible apply mono_artistsProgress
    | split
    | exact h

theorem mono_ArtistsContainer {s t : State} (h : Mono s t) (env : Env) (obj : QJsonObject)
    (l o : Int) : Mono s (ArtistsContainer env t obj l o) := by
  unfold ArtistsContainer
  repeat' first
    | with_reducible apply mono_ArtistsPage
    | with_reducible apply mono_ArtistsFinishCheck
    | with_reducible apply mono_Error
    | split
    | exact h

theorem mono_ArtistsParsed {s t : State} (h : Mono s t) (env : Env) (obj : QJsonObject)
    (l o : Int) : Mono s (ArtistsParsed env t obj l o) := by
  unfold ArtistsParsed
  repeat' first
    | with_reducible apply mono_ArtistsContainer
    | with_reducible apply mono_ArtistsFinishCheck
    | with_reducible apply mono_Error
    | split
    | exact h

theorem mono_ArtistsSettled {s t : State} (h : Mono s t) (env : Env) (reply : QNetworkReply)
    (l o : Int) : Mono s (ArtistsSettled env t reply l o) := by
  unfold ArtistsSettled
  repeat' first
    | with_reducible apply mono_ArtistsParsed
    | with_reducible apply mono_ArtistsFinishCheck
    | with_reducible apply mono_ExtractJsonObj
    | split
    | exact h

theorem mono_ArtistsReplyReceived {s t : State} (h : Mono s t) (env : Env)
    (reply : QNetworkReply) (l o : Int) : Mono s (ArtistsReplyReceived env t reply l o) := by
  unfold ArtistsReplyReceived
  split
  · exact h
  · exact mono_ArtistsSettled (mono_artistsSettled (mono_GetReplyData (mono_takeReply h _) reply))
      env reply l o

theorem mono_AlbumsNextPage {s t : State} (h : Mono s t) (env : Env) (a : Artist)
    (l o n r : Int) : Mono s (AlbumsNextPage env t a l o n r) := by
  unfold AlbumsNextPage AddAlbumsSearchRequest
  repeat' first
    | with_reducible apply mono_AddAlbumsRequest
    | with_reducible apply mono_AddArtistAlbumsRequest
    | split
    | exact h

theorem mono_AlbumsRelease {s t : State} (h : Mono s t) : Mono s (AlbumsRelease t) := by
  unfold AlbumsRelease
  split
  · exact mono_albumSongsStatus (mono_clearAlbumSongsPending
      (mono_foldl (fun st (kv : String × AlbumSongsRequest) =>
          AddAlbumSongsRequest st kv.2.artist kv.2.album 0)
        (fun t b ht => mono_AddAlbumSongsRequest ht b.2.artist b.2.album 0)
        t.album_songs_requests_pending_ t h))
  · exact h

theorem mono_AlbumsFinishCheck {s t : State} (h : Mono s t) (env : Env) (a : Artist)
    (l o n r : Int) : Mono s (AlbumsFinishCheck env t a l o n r) := by
  unfold AlbumsFinishCheck
  split
  · exact h
  · exact mono_FinishCheck (mono_GetAlbumCoversCheck
      (mono_AlbumsRelease (mono_AlbumsNextPage h env a l o n r)) env)

theorem mono_AlbumsItemArtist {s t : State} (h : Mono s t) (a : Artist) (o : QJsonObject) :
    Mono s (AlbumsItemArtist a t o) := by
  unfold AlbumsItemArtist
  repeat' first
    | with_reducible apply mono_Error
    | split
    | exact h

theorem mono_AlbumsItem {s t : State} (h : Mono s t) (a : Artist) (v : QJsonValue) :
    Mono s (AlbumsItem a t v) := by
  unfold AlbumsItem
  repeat' first
    | with_reducible apply mono_Error
    | with_reducible apply mono_AlbumsItemArtist
    | split
    | exact h

theorem mono_AlbumsContainer {s t : State} (h : Mono s t) (env : Env) (obj : QJsonObject)
    (a : Artist) (l o : Int) : Mono s (AlbumsContainer env t obj a l o) := by
  unfold AlbumsContainer
  repeat' first
    | with_reducible apply mono_AlbumsFinishCheck
    | with_reducible apply mono_Error
    | with_reducible apply mono_albumsCounted
    | with_reducible apply mono_foldl (AlbumsItem a) (fun _ b ht => mono_AlbumsItem ht a b)
    | split
    | exact h

theorem mono_AlbumsParsed {s t : State} (h : Mono s t) (env : Env) (obj : QJsonObject)
    (a : Artist) (l o : Int) : Mono s (AlbumsParsed env t obj a l o) := by
  unfold AlbumsParsed
  repeat' first
    | with_reducible apply mono_AlbumsContainer
    | with_reducible apply mono_AlbumsFinishCheck
    | with_reducible apply mono_Error
    | split
    | exact h

theorem mono_AlbumsSettled {s t : State} (h : Mono s t) (env : Env) (reply : QNetworkReply)
    (a : Artist) (l o : Int) : Mono s (AlbumsSettled env t reply a l o) := by
  unfold AlbumsSettled
  repeat' first
    | with_reducible apply mono_AlbumsParsed
    | with_reducible apply mono_AlbumsFinishCheck
    | with_reducible apply mono_ExtractJsonObj
    | split
    | exact h

theorem mono_AlbumsReceived {s t : State} (h : Mono s t) (env : Env) (reply : QNetworkReply)
    (a : Artist) (l o : Int) : Mono s (AlbumsReceived env t reply a l o) := by
  unfold AlbumsReceived
  split
  · exact h
  · exact mono_AlbumsSettled (mono_GetReplyData (mono_takeReply h _) reply) env reply a l o

theorem mono_AlbumsReplyReceived {s t : State} (h : Mono s t) (env : Env)
    (reply : QNetworkReply) (l o : Int) : Mono s (AlbumsReplyReceived env t reply l o) :=
  mono_AlbumsReceived (mono_albumsSettled h) env reply _ l o

theorem mono_ArtistAlbumsReplyReceived {s t : State} (h : Mono s t) (env : Env)
    (reply : QNetworkReply) (a : Artist) (o : Int) :
    Mono s (ArtistAlbumsReplyReceived env t reply a o) :=
  mono_AlbumsReceived (mono_artistAlbumsProgress (mono_artistAlbumsSettled h)) env reply a 0 o

theorem mono_SongsNextPage {s t : State} (h : Mono s t) (env : Env) (a : Artist) (b : Album)
    (l o n r : Int) : Mono s (SongsNextPage env t a b l o n r) := by
  unfold SongsNextPage AddSongsSearchRequest
  repeat' first
    | with_reducible apply mono_AddSongsRequest
    | with_reducible apply mono_AddAlbumSongsRequest
    | split
    | exact h

theorem mono_SongsFinishCheck {s t : State} (h : Mono s t) (env : Env) (a : Artist) (b : Album)
    (l o n r : Int) : Mono s (SongsFinishCheck env t a b l o n r) := by
  unfold SongsFinishCheck
  split
  · exact h
  · exact mono_FinishCheck (mono_GetAlbumCoversCheck (mono_SongsNextPage h env a b l o n r) env)

theorem mono_ParseSong {s t : State} (h : Mono s t) (env : Env) (o : QJsonObject) (a : Artist)
    (b : Album) : Mono s (ParseSong env t o a b).1 := by
  unfold ParseSong
  split
  · exact mono_Error h _
  · exact h

theorem mono_SongsItems {s : State} (env : Env) (a : Artist) (b : Album) (l : List QJsonValue) :
    ∀ t, Mono s t → Mono s (SongsItems env a b l t).1 := by
  induction l with
  | nil => intro t h; exact h
  | cons v l ih =>
    intro t h
    cases v <;> simp only [SongsItems]
    all_goals first
      | exact ih _ (mono_Error h _)
      | exact ih _ (mono_ParseSong h env _ a b)

theorem mono_SongsContainer {s t : State} (h : Mono s t) (env : Env) (obj : QJsonObject)
    (a : Artist) (b : Album) (a1 : Artist) (b1 : Album) (l o : Int) :
    Mono s (SongsContainer env t obj a b a1 b1 l o) := by
  unfold SongsContainer
  repeat' first
    | with_reducible apply mono_SongsFinishCheck
    | with_reducible apply mono_Error
    | with_reducible apply mono_songsCounted
    | with_reducible apply mono_songsInserted
    | with_reducible apply mono_SongsItems
    | split
    | exact h

theorem mono_SongsParsed {s t : State} (h : Mono s t) (env : Env) (obj : QJsonObject)
    (a : Artist) (b : Album) (l o : Int) : Mono s (SongsParsed env t obj a b l o) := by
  unfold SongsParsed
  repeat' first
    | with_reducible apply mono_SongsContainer
    | with_reducible apply mono_SongsFinishCheck
    | with_reducible apply mono_Error
    | split
    | exact h

theorem mono_SongsSettled {s t : State} (h : Mono s t) (env : Env) (reply : QNetworkReply)
    (a : Artist) (b : Album) (l o : Int) : Mono s (SongsSettled env t reply a b l o) := by
  unfold SongsSettled
  repeat' first
    | with_reducible apply mono_SongsParsed
    | with_reducible apply mono_SongsFinishCheck
    | with_reducible apply mono_ExtractJsonObj
    | split
    | exact h

theorem mono_SongsReceived {s t : State} (h : Mono s t) (env : Env) (reply : QNetworkReply)
    (a : Artist) (b : Album) (l o : Int) : Mono s (SongsReceived env t reply a b l o) := by
  unfold SongsReceived
  split
  · exact h
  · exact mono_SongsSettled (mono_GetReplyData (mono_takeReply h _) reply) env reply a b l o

theorem mono_SongsReplyReceived {s t : State} (h : Mono s t) (env : Env)
    (reply : QNetworkReply) (l o : Int) : Mono s (SongsReplyReceived env t reply l o) :=
  mono_SongsReceived (mono_songsSettled h) env reply _ _ l o

theorem mono_AlbumSongsReplyReceived {s t : State} (h : Mono s t) (env : Env)
    (reply : QNetworkReply) (a : Artist) (b : Album) (o : Int) :
    Mono s (AlbumSongsReplyReceived env t reply a b o) :=
  mono_SongsReceived (mono_albumSongsProgress (mono_albumSongsSettled h) o) env reply a b 0 o

theorem mono_Process {s t : State} (h : Mono s t) (env : Env) : Mono s (Process env t) := by
  unfold Process GetArtists GetAlbums GetSongs ArtistsSearch AlbumsSearch SongsSearch
    AddArtistsSearchRequest AddAlbumsSearchRequest AddSongsSearchRequest
  repeat' first
    | with_reducible apply mono_AddArtistsRequest
    | with_reducible apply mono_AddAlbumsRequest
    | with_reducible apply mono_AddSongsRequest
    | with_reducible apply mono_emit_progress
    | with_reducible apply mono_emit_status
    | with_reducible apply mono_Error
    | split
    | exact h

theorem mono_dispatch {s t : State} (h : Mono s t) (env : Env) (reply : QNetworkReply)
    (c : Callback) : Mono s (dispatch env t reply c) := by
  cases c with
  | Artists l o => exact mono_ArtistsReplyReceived h env reply l o
  | Albums l o => exact mono_AlbumsReplyReceived h env reply l o
  | Songs l o => exact mono_SongsReplyReceived h env reply l o
  | ArtistAlbums a o => exact mono_ArtistAlbumsReplyReceived h env reply a o
  | AlbumSongs a b o => exact mono_AlbumSongsReplyReceived h env reply a b o
  | AlbumCover u f => exact mono_AlbumCoverReceived h env reply u f

theorem mono_step {s t : State} (h : Mono s t) (env : Env) (i : Input) :
    Mono s (step env t i) := by
  cases i with
  | Tick =>
    show Mono s (if t.timer_active = true then FlushRequests t else t)
    split
    · exact mono_FlushRequests h
    · exact h
  | Finished reply =>
    show Mono s (match t.connections.find? (fun c => c.1 == reply.handle) with
      | some c => dispatch env t reply c.2
      | none => t)
    split
    · exact mono_dispatch h env reply _
    · exact h

theorem mono_steps {s : State} (env : Env) (inputs : List Input) :
    ∀ t, Mono s t → Mono s (inputs.foldl (step env) t) :=
  mono_foldl (step env) (fun _ i ht => mono_step ht env i) inputs

/-- C1: in every run the number of `Results` signals emitted so far is one if the request has
finished and zero otherwise, `FinishCheck` emits exactly one when it finalizes and none
otherwise, and once `finished_` is set every continuation of the run keeps it set and emits no
further `Results`. -/
theorem results_emitted_exactly_once (env : Env) (type : QueryType) (inputs : List Input) :
    resultsCount (run env type inputs) = finishedCount (run env type inputs) ∧
    resultsCount (run env type inputs) ≤ 1 ∧
    (∀ s : State, resultsCount (FinishCheck s) =
      resultsCount s + (if s.finished_ = false ∧ Quiescent s then 1 else 0)) ∧
    (∀ more : List Input, (run env type inputs).finished_ = true →
      (run env type (inputs ++ more)).finished_ = true ∧
      resultsCount (run env type (inputs ++ more)) = 1) := by
  have h0 : Mono (State.init type) (run env type inputs) :=
    mono_steps env inputs _ (mono_Process (Mono.refl _) env)
  have hc : resultsCount (run env type inputs) = finishedCount (run env type inputs) := by
    have := h0.2
    simp [resultsCount, finishedCount, State.init] at this
    simpa [resultsCount, finishedCount] using this
  refine ⟨hc, ?_, ?_, ?_⟩
  · rw [hc]; unfold finishedCount; split <;> omega
  · intro s
    by_cases h1 : s.finished_ = false ∧ Quiescent s
    · obtain ⟨songs, error, he⟩ := FinishCheck_of_quiescent s h1.1 h1.2
      rw [he, if_pos h1]
      simp [resultsCount, isResults]
    · have he : FinishCheck s = s := by simp [FinishCheck, h1]
      rw [he, if_neg h1]; rfl
  · intro more hf
    have h1 : Mono (run env type inputs) (run env type (inputs ++ more)) := by
      unfold run
      rw [List.foldl_append]
      exact mono_steps env more _ (Mono.refl _)
    have hm := h1
    unfold Mono finishedCount at hm
    rw [if_pos hf] at hm
    have hc1 : resultsCount (run env type inputs) = 1 := by
      rw [hc]; unfold finishedCount; rw [if_pos hf]
    by_cases hf2 : (run env type (inputs ++ more)).finished_ = true
    · rw [if_pos hf2] at hm
      exact ⟨hf2, by omega⟩
    · rw [if_neg hf2] at hm
      omega

/-! ## What `FinishCheck` does -/

theorem FinalizeCondition_iff (s : State) :
    FinalizeCondition s ↔ (s.finished_ = false ∧ Quiescent s) := by
  unfold FinalizeCondition Quiescent
  tauto

/-- C3: `FinishCheck` finalizes (timer stopped, `finished_` set, one `Results` appended, all else
as before) exactly in the states where `finished_` is false, the six queues are empty, the six
active counts are at most zero and the three pending sets are empty; in every other state it
returns the state unchanged. -/
theorem FinishCheck_finalizes_iff (s : State) :
    (FinalizeCondition s →
      ∃ songs error, FinishCheck s =
        { s with timer_active := false, finished_ := true,
                 emitted := s.emitted ++ [Event.Results songs error] }) ∧
    (¬ FinalizeCondition s → FinishCheck s = s) ∧
    (FinalizeCondition s ↔ FinishCheck s ≠ s) := by
  have hfin : FinalizeCondition s →
      ∃ songs error, FinishCheck s =
        { s with timer_active := false, finished_ := true,
                 emitted := s.emitted ++ [Event.Results songs error] } := by
    intro h
    rw [FinalizeCondition_iff] at h
    exact FinishCheck_of_quiescent s h.1 h.2
  have hnot : ¬ FinalizeCondition s → FinishCheck s = s := by
    intro h
    rw [FinalizeCondition_iff] at h
    simp [FinishCheck, h]
  refine ⟨hfin, hnot, ?_⟩
  constructor
  · intro h he
    obtain ⟨songs, error, hs⟩ := hfin h
    have h1 : (FinishCheck s).finished_ = true := by rw [hs]
    rw [he] at h1
    rw [h.1] at h1
    exact Bool.false_ne_true h1
  · intro h
    by_contra hc
    exact h (hnot hc)

/-- The state after the constructor meets the condition of C3, so `FinishCheck` finalizes it. -/
theorem FinishCheck_finalizes_witness :
    FinalizeCondition (State.init QueryType_Songs) ∧
    ∃ songs error, FinishCheck (State.init QueryType_Songs) =
      { State.init QueryType_Songs with
        timer_active := false, finished_ := true,
        emitted := (State.init QueryType_Songs).emitted ++ [Event.Results songs error] } :=
  have h : FinalizeCondition (State.init QueryType_Songs) := by
    simp [FinalizeCondition, State.init]
  ⟨h, (FinishCheck_finalizes_iff (State.init QueryType_Songs)).1 h⟩

theorem ErrorsToHTML_nil : ErrorsToHTML [] = "" := rfl

theorem ErrorsToHTML_concat (errors : List String) (e : String) :
    ErrorsToHTML (errors ++ [e]) = ErrorsToHTML errors ++ e ++ "<br />" := by
  simp [ErrorsToHTML, List.foldl_append]

theorem ErrorsToHTML_ends (errors : List String) (h : errors ≠ []) :
    ∃ p : String, ErrorsToHTML errors = p ++ "<br />" := by
  rcases List.eq_nil_or_concat errors with h1 | ⟨l, e, h1⟩
  · exact absurd h1 h
  · exact ⟨ErrorsToHTML l ++ e, by rw [h1, List.concat_eq_append, ErrorsToHTML_concat]⟩

theorem append_br_ne (p : String) :
    p ++ "<br />" ≠ "" ∧ p ++ "<br />" ≠ "No match." ∧ p ++ "<br />" ≠ "Unknown error" := by
  have hl : ∀ q : String, p ++ "<br />" = q → q.data.getLast? = some '>' := by
    intro q hq
    rw [← hq, String.data_append]
    simp
  refine ⟨?_, ?_, ?_⟩ <;> intro hq <;> have := hl _ hq <;> revert this <;> decide

/-- C4: when `FinishCheck` finalizes, the `Results` it emits is the empty map with the no-match
text (`No match.` for a search, the empty string for a direct query) if `no_results_` is set and
`songs_` is empty; otherwise `songs_` with `Unknown error` if `songs_` and the error log are
empty; otherwise `songs_` with the rendered error log, which is the empty string for an empty
log.  The no-match signal differs from the unknown-error signal and from every signal that
carries a rendered non-empty log. -/
theorem FinishCheck_outcome (s : State) (hf : s.finished_ = false) (hq : Quiescent s) :
    (s.no_results_ = true ∧ s.songs_ = [] →
      (FinishCheck s).emitted =
        s.emitted ++ [Event.Results [] (if IsSearch s.type_ = true then "No match." else "")]) ∧
    (¬ (s.no_results_ = true ∧ s.songs_ = []) → s.songs_ = [] ∧ s.errors_ = [] →
      (FinishCheck s).emitted = s.emitted ++ [Event.Results s.songs_ "Unknown error"]) ∧
    (¬ (s.no_results_ = true ∧ s.songs_ = []) → ¬ (s.songs_ = [] ∧ s.errors_ = []) →
      (FinishCheck s).emitted = s.emitted ++ [Event.Results s.songs_ (ErrorsToHTML s.errors_)]) ∧
    ErrorsToHTML [] = "" ∧
    (∀ (songs : SongMap) (errors : List String), errors ≠ [] →
      Event.Results [] (if IsSearch s.type_ = true then "No match." else "") ≠
        Event.Results songs (ErrorsToHTML errors) ∧
      Event.Results [] (if IsSearch s.type_ = true then "No match." else "") ≠
        Event.Results songs "Unknown error") := by
  refine ⟨?_, ?_, ?_, rfl, ?_⟩
  · intro h
    unfold FinishCheck
    rw [if_pos ⟨hf, hq⟩, if_pos h]
    split <;> rfl
  · intro h1 h2
    unfold FinishCheck
    rw [if_pos ⟨hf, hq⟩, if_neg h1, if_pos h2]
    rfl
  · intro h1 h2
    unfold FinishCheck
    rw [if_pos ⟨hf, hq⟩, if_neg h1, if_neg h2]
    rfl
  · intro songs errors he
    obtain ⟨p, hp⟩ := ErrorsToHTML_ends errors he
    have hb := append_br_ne p
    rw [hp]
    constructor
    · intro heq
      injection heq with _ h2
      split at h2
      · exact hb.2.1 h2.symm
      · exact hb.1 h2.symm
    · intro heq
      injection heq with _ h2
      split at h2
      · revert h2; decide
      · revert h2; decide

/-- The request after the constructor with `no_results_` set: `FinishCheck` emits the no-match
signal of a direct query. -/
theorem FinishCheck_outcome_witness :
    (FinishCheck { State.init QueryType_Songs with no_results_ := true }).emitted =
      [Event.Results [] ""] :=
  (FinishCheck_outcome { State.init QueryType_Songs with no_results_ := true } rfl
    (by simp [Quiescent, State.init])).1 ⟨rfl, rfl⟩

/-- C5: `FinishCheck` is idempotent, and on a state with `finished_` set it changes nothing, so
it emits nothing. -/
theorem FinishCheck_idempotent (s : State) :
    FinishCheck (FinishCheck s) = FinishCheck s ∧
    (s.finished_ = true → FinishCheck s = s ∧ (FinishCheck s).emitted = s.emitted) := by
  refine ⟨?_, ?_⟩
  · by_cases h : s.finished_ = false ∧ Quiescent s
    · obtain ⟨songs, error, he⟩ := FinishCheck_of_quiescent s h.1 h.2
      rw [he]
      exact FinishCheck_of_finished _ rfl
    · have he : FinishCheck s = s := by simp [FinishCheck, h]
      rw [he, he]
  · intro h
    rw [FinishCheck_of_finished s h]
    exact ⟨rfl, rfl⟩

/-! ## Scenario B: a page with one malformed item -/

/-- C7 (the code at the failing input): wherever the malformed track stands in the page, the
request finalizes while the page is still being parsed: the one `Results` signal carries an
empty song map and the one logged error; the four valid songs reach `songs_` only afterwards,
and a progress signal follows `Results`.  No further page is queued. -/
theorem scenarioB_results_carry_no_song :
    (List.range 5).all (fun k =>
      decide ((scenarioB k).emitted =
        [Event.UpdateStatus "Receiving songs...", Event.UpdateProgress Progress.Zero,
         Event.Results [] "Invalid Json reply, track is missing one or more values.<br />",
         Event.UpdateProgress (Progress.GetProgress 5 0)]) &&
      decide ((scenarioB k).songs_.map (fun kv => kv.1) = ["a", "b", "c", "d"]) &&
      decide ((scenarioB k).errors_ =
        ["Invalid Json reply, track is missing one or more values."]) &&
      decide ((scenarioB k).songs_requests_queue_ = []) &&
      decide ((scenarioB k).songs_requests_total_ = 1)) = true := by
  decide

/-! ## Footprint lemmas -/

theorem AgreeOff.unchanged (W : List Field) (s : State) : AgreeOff W s s := by
  constructor <;> intro _ <;> rfl

theorem AgreeOff.andThen {W : List Field} {s t u : State} (h1 : AgreeOff W s t)
    (h2 : AgreeOff W t u) : AgreeOff W s u := by
  constructor <;> intro hn
  · exact (h2.type_ hn).trans (h1.type_ hn)
  · exact (h2.timer_active hn).trans (h1.timer_active hn)
  · exact (h2.finished_ hn).trans (h1.finished_ hn)
  · exact (h2.artists_requests_total_ hn).trans (h1.artists_requests_total_ hn)
  · exact (h2.artists_requests_active_ hn).trans (h1.artists_requests_active_ hn)
  · exact (h2.artists_requests_received_ hn).trans (h1.artists_requests_received_ hn)
  · exact (h2.artists_total_ hn).trans (h1.artists_total_ hn)
  · exact (h2.artists_received_ hn).trans (h1.artists_received_ hn)
  · exact (h2.albums_requests_total_ hn).trans (h1.albums_requests_total_ hn)
  · exact (h2.albums_requests_active_ hn).trans (h1.albums_requests_active_ hn)
  · exact (h2.albums_requests_received_ hn).trans (h1.albums_requests_received_ hn)
  · exact (h2.albums_total_ hn).trans (h1.albums_total_ hn)
  · exact (h2.albums_received_ hn).trans (h1.albums_received_ hn)
  · exact (h2.songs_requests_total_ hn).trans (h1.songs_requests_total_ hn)
  · exact (h2.songs_requests_active_ hn).trans (h1.songs_requests_active_ hn)
  · exact (h2.songs_requests_received_ hn).trans (h1.songs_requests_received_ hn)
  · exact (h2.songs_total_ hn).trans (h1.songs_total_ hn)
  · exact (h2.songs_received_ hn).trans (h1.songs_received_ hn)
  · exact (h2.artist_albums_requests_total_ hn).trans (h1.artist_albums_requests_total_ hn)
  · exact (h2.artist_albums_requests_active_ hn).trans (h1.artist_albums_requests_active_ hn)
  · exact (h2.artist_albums_requests_received_ hn).trans (h1.artist_albums_requests_received_ hn)
  · exact (h2.album_songs_requests_total_ hn).trans (h1.album_songs_requests_total_ hn)
  · exact (h2.album_songs_requests_active_ hn).trans (h1.album_songs_requests_active_ hn)
  · exact (h2.album_songs_requests_received_ hn).trans (h1.album_songs_requests_received_ hn)
  · exact (h2.album_covers_requests_total_ hn).trans (h1.album_covers_requests_total_ hn)
  · exact (h2.album_covers_requests_active_ hn).trans (h1.album_covers_requests_active_ hn)
  · exact (h2.album_covers_requests_received_ hn).trans (h1.album_covers_requests_received_ hn)
  · exact (h2.no_results_ hn).trans (h1.no_results_ hn)
  · exact (h2.artists_requests_queue_ hn).trans (h1.artists_requests_queue_ hn)
  · exact (h2.albums_requests_queue_ hn).trans (h1.albums_requests_queue_ hn)
  · exact (h2.songs_requests_queue_ hn).trans (h1.songs_requests_queue_ hn)
  · exact (h2.artist_albums_requests_queue_ hn).trans (h1.artist_albums_requests_queue_ hn)
  · exact (h2.album_songs_requests_queue_ hn).trans (h1.album_songs_requests_queue_ hn)
  · exact (h2.album_cover_requests_queue_ hn).trans (h1.album_cover_requests_queue_ hn)
  · exact (h2.artist_albums_requests_pending_ hn).trans (h1.artist_albums_requests_pending_ hn)
  · exact (h2.album_songs_requests_pending_ hn).trans (h1.album_songs_requests_pending_ hn)
  · exact (h2.album_covers_requests_sent_ hn).trans (h1.album_covers_requests_sent_ hn)
  · exact (h2.songs_ hn).trans (h1.songs_ hn)
  · exact (h2.errors_ hn).trans (h1.errors_ hn)
  · exact (h2.replies_ hn).trans (h1.replies_ hn)
  · exact (h2.album_cover_replies_ hn).trans (h1.album_cover_replies_ hn)
  · exact (h2.connections hn).trans (h1.connections hn)
  · exact (h2.next_reply hn).trans (h1.next_reply hn)
  · exact (h2.emitted hn).trans (h1.emitted hn)

theorem AgreeOff.weaken {W V : List Field} {s t : State} (h : AgreeOff W s t) (hV : W ⊆ V) :
    AgreeOff V s t := by
  constructor <;> intro hn
  · exact h.type_ (fun hm => hn (hV hm))
  · exact h.timer_active (fun hm => hn (hV hm))
  · exact h.finished_ (fun hm => hn (hV hm))
  · exact h.artists_requests_total_ (fun hm => hn (hV hm))
  · exact h.artists_requests_active_ (fun hm => hn (hV hm))
  · exact h.artists_requests_received_ (fun hm => hn (hV hm))
  · exact h.artists_total_ (fun hm => hn (hV hm))
  · exact h.artists_received_ (fun hm => hn (hV hm))
  · exact h.albums_requests_total_ (fun hm => hn (hV hm))
  · exact h.albums_requests_active_ (fun hm => hn (hV hm))
  · exact h.albums_requests_received_ (fun hm => hn (hV hm))
  · exact h.albums_total_ (fun hm => hn (hV hm))
  · exact h.albums_received_ (fun hm => hn (hV hm))
  · exact h.songs_requests_total_ (fun hm => hn (hV hm))
  · exact h.songs_requests_active_ (fun hm => hn (hV hm))
  · exact h.songs_requests_received_ (fun hm => hn (hV hm))
  · exact h.songs_total_ (fun hm => hn (hV hm))
  · exact h.songs_received_ (fun hm => hn (hV hm))
  · exact h.artist_albums_requests_total_ (fun hm => hn (hV hm))
  · exact h.artist_albums_requests_active_ (fun hm => hn (hV hm))
  · exact h.artist_albums_requests_received_ (fun hm => hn (hV hm))
  · exact h.album_songs_requests_total_ (fun hm => hn (hV hm))
  · exact h.album_songs_requests_active_ (fun hm => hn (hV hm))
  · exact h.album_songs_requests_received_ (fun hm => hn (hV hm))
  · exact h.album_covers_requests_total_ (fun hm => hn (hV hm))
  · exact h.album_covers_requests_active_ (fun hm => hn (hV hm))
  · exact h.album_covers_requests_received_ (fun hm => hn (hV hm))
  · exact h.no_results_ (fun hm => hn (hV hm))
  · exact h.artists_requests_queue_ (fun hm => hn (hV hm))
  · exact h.albums_requests_queue_ (fun hm => hn (hV hm))
  · exact h.songs_requests_queue_ (fun hm => hn (hV hm))
  · exact h.artist_albums_requests_queue_ (fun hm => hn (hV hm))
  · exact h.album_songs_requests_queue_ (fun hm => hn (hV hm))
  · exact h.album_cover_requests_queue_ (fun hm => hn (hV hm))
  · exact h.artist_albums_requests_pending_ (fun hm => hn (hV hm))
  · exact h.album_songs_requests_pending_ (fun hm => hn (hV hm))
  · exact h.album_covers_requests_sent_ (fun hm => hn (hV hm))
  · exact h.songs_ (fun hm => hn (hV hm))
  · exact h.errors_ (fun hm => hn (hV hm))
  · exact h.replies_ (fun hm => hn (hV hm))
  · exact h.album_cover_replies_ (fun hm => hn (hV hm))
  · exact h.connections (fun hm => hn (hV hm))
  · exact h.next_reply (fun hm => hn (hV hm))
  · exact h.emitted (fun hm => hn (hV hm))

theorem agree_emit {W : List Field} {s t : State}
    (hW : [Field.emitted] ⊆ W) (h : AgreeOff W s t) (e : Event) :
    AgreeOff W s (emit t e) :=
  h.andThen (by constructor <;> intro hn <;> first | rfl | exact absurd (hW (by decide)) hn)

theorem agree_issueReply {W : List Field} {s t : State}
    (hW : [Field.replies_, Field.connections, Field.next_reply] ⊆ W) (h : AgreeOff W s t) (slot : Callback) :
    AgreeOff W s (issueReply t slot) :=
  h.andThen (by constructor <;> intro hn <;> first | rfl | exact absurd (hW (by decide)) hn)

theorem agree_issueCoverReply {W : List Field} {s t : State}
    (hW : [Field.album_cover_replies_, Field.connections, Field.next_reply] ⊆ W) (h : AgreeOff W s t) (slot : Callback) :
    AgreeOff W s (issueCoverReply t slot) :=
  h.andThen (by constructor <;> intro hn <;> first | rfl | exact absurd (hW (by decide)) hn)

theorem agree_takeReply {W : List Field} {s t : State}
    (hW : [Field.replies_, Field.connections] ⊆ W) (h : AgreeOff W s t) (reply : Nat) :
    AgreeOff W s (takeReply t reply) :=
  h.andThen (by constructor <;> intro hn <;> first | rfl | exact absurd (hW (by decide)) hn)

theorem agree_takeCoverReply {W : List Field} {s t : State}
    (hW : [Field.album_cover_replies_, Field.connections] ⊆ W) (h : AgreeOff W s t) (reply : Nat) :
    AgreeOff W s (takeCoverReply t reply) :=
  h.andThen (by constructor <;> intro hn <;> first | rfl | exact absurd (hW (by decide)) hn)

theorem agree_removeCover {W : List Field} {s t : State}
    (hW : [Field.album_covers_requests_sent_] ⊆ W) (h : AgreeOff W s t) (url : String) :
    AgreeOff W s (removeCover t url) :=
  h.andThen (by constructor <;> intro hn <;> first | rfl | exact absurd (hW (by decide)) hn)

theorem agree_applyCover {W : List Field} {s t : State}
    (hW : [Field.songs_, Field.album_covers_requests_sent_] ⊆ W) (h : AgreeOff W s t) (url filename : String) :
    AgreeOff W s (applyCover t url filename) :=
  h.andThen (by constructor <;> intro hn <;> first | rfl | exact absurd (hW (by decide)) hn)

theorem agree_artistsSent {W : List Field} {s t : State}
    (hW : [Field.artists_requests_active_] ⊆ W) (h : AgreeOff W s t) :
    AgreeOff W s (artistsSent t) :=
  h.andThen (by constructor <;> intro hn <;> first | rfl | exact absurd (hW (by decide)) hn)

theorem agree_artistsSettled {W : List Field} {s t : State}
    (hW : [Field.artists_requests_active_, Field.artists_requests_received_] ⊆ W) (h : AgreeOff W s t) :
    AgreeOff W s (artistsSettled t) :=
  h.andThen (by constructor <;> intro hn <;> first | rfl | exact absurd (hW (by decide)) hn)

theorem agree_albumsSent {W : List Field} {s t : State}
    (hW : [Field.albums_requests_active_] ⊆ W) (h : AgreeOff W s t) :
    AgreeOff W s (albumsSent t) :=
  h.andThen (by constructor <;> intro hn <;> first | rfl | exact absurd (hW (by decide)) hn)

theorem agree_albumsSettled {W : List Field} {s t : State}
    (hW : [Field.albums_requests_active_, Field.albums_requests_received_] ⊆ W) (h : AgreeOff W s t) :
    AgreeOff W s (albumsSettled t) :=
  h.andThen (by constructor <;> intro hn <;> first | rfl | exact absurd (hW (by decide)) hn)

theorem agree_songsSent {W : List Field} {s t : State}
    (hW : [Field.songs_requests_active_] ⊆ W) (h : AgreeOff W s t) :
    AgreeOff W s (songsSent t) :=
  h.andThen (by constructor <;> intro hn <;> first | rfl | exact absurd (hW (by decide)) hn)

theorem agree_songsSettled {W : List Field} {s t : State}
    (hW : [Field.songs_requests_active_, Field.songs_requests_received_] ⊆ W) (h : AgreeOff W s t) :
    AgreeOff W s (songsSettled t) :=
  h.andThen (by constructor <;> intro hn <;> first | rfl | exact absurd (hW (by decide)) hn)

theorem agree_artistAlbumsSent {W : List Field} {s t : State}
    (hW : [Field.artist_albums_requests_active_] ⊆ W) (h : AgreeOff W s t) :
    AgreeOff W s (artistAlbumsSent t) :=
  h.andThen (by constructor <;> intro hn <;> first | rfl | exact absurd (hW (by decide)) hn)

theorem agree_artistAlbumsSettled {W : List Field} {s t : State}
    (hW : [Field.artist_albums_requests_active_, Field.artist_albums_requests_received_] ⊆ W) (h : AgreeOff W s t) :
    AgreeOff W s (artistAlbumsSettled t) :=
  h.andThen (by constructor <;> intro hn <;> first | rfl | exact absurd (hW (by decide)) hn)

theorem agree_albumSongsSent {W : List Field} {s t : State}
    (hW : [Field.album_songs_requests_active_] ⊆ W) (h : AgreeOff W s t) :
    AgreeOff W s (albumSongsSent t) :=
  h.andThen (by constructor <;> intro hn <;> first | rfl | exact absurd (hW (by decide)) hn)

theorem agree_albumSongsSettled {W : List Field} {s t : State}
    (hW : [Field.album_songs_requests_active_, Field.album_songs_requests_received_] ⊆ W) (h : AgreeOff W s t) :
    AgreeOff W s (albumSongsSettled t) :=
  h.andThen (by constructor <;> intro hn <;> first | rfl | exact absurd (hW (by decide)) hn)

theorem agree_albumCoverSent {W : List Field} {s t : State}
    (hW : [Field.album_covers_requests_active_] ⊆ W) (h : AgreeOff W s t) :
    AgreeOff W s (albumCoverSent t) :=
  h.andThen (by constructor <;> intro hn <;> first | rfl | exact absurd (hW (by decide)) hn)

theorem agree_albumCoverSettled {W : List Field} {s t : State}
    (hW : [Field.album_covers_requests_active_, Field.album_covers_requests_received_] ⊆ W) (h : AgreeOff W s t) :
    AgreeOff W s (albumCoverSettled t) :=
  h.andThen (by constructor <;> intro hn <;> first | rfl | exact absurd (hW (by decide)) hn)

theorem agree_clearArtistAlbumsPending {W : List Field} {s t : State}
    (hW : [Field.artist_albums_requests_pending_] ⊆ W) (h : AgreeOff W s t) :
    AgreeOff W s (clearArtistAlbumsPending t) :=
  h.andThen (by constructor <;> intro hn <;> first | rfl | exact absurd (hW (by decide)) hn)

theorem agree_clearAlbumSongsPending {W : List Field} {s t : State}
    (hW : [Field.album_songs_requests_pending_] ⊆ W) (h : AgreeOff W s t) :
    AgreeOff W s (clearAlbumSongsPending t) :=
  h.andThen (by constructor <;> intro hn <;> first | rfl | exact absurd (hW (by decide)) hn)

theorem agree_artistsCounted {W : List Field} {s t : State}
    (hW : [Field.artists_received_] ⊆ W) (h : AgreeOff W s t) (n : Int) :
    AgreeOff W s (artistsCounted t n) :=
  h.andThen (by constructor <;> intro hn <;> first | rfl | exact absurd (hW (by decide)) hn)

theorem agree_songsInserted {W : List Field} {s t : State}
    (hW : [Field.songs_] ⊆ W) (h : AgreeOff W s t) (l : List Song) :
    AgreeOff W s (songsInserted t l) :=
  h.andThen (by constructor <;> intro hn <;> first | rfl | exact absurd (hW (by decide)) hn)

theorem agree_artistsProgress {W : List Field} {s t : State}
    (hW : [Field.emitted] ⊆ W) (h : AgreeOff W s t) :
    AgreeOff W s (artistsProgress t) :=
  h.andThen (by constructor <;> intro hn <;> first | rfl | exact absurd (hW (by decide)) hn)

theorem agree_artistAlbumsProgress {W : List Field} {s t : State}
    (hW : [Field.emitted] ⊆ W) (h : AgreeOff W s t) :
    AgreeOff W s (artistAlbumsProgress t) :=
  h.andThen (by constructor <;> intro hn <;> first | rfl | exact absurd (hW (by decide)) hn)

theorem agree_albumCoverProgress {W : List Field} {s t : State}
    (hW : [Field.emitted] ⊆ W) (h : AgreeOff W s t) :
    AgreeOff W s (albumCoverProgress t) :=
  h.andThen (by constructor <;> intro hn <;> first | rfl | exact absurd (hW (by decide)) hn)

theorem agree_albumSongsProgress {W : List Field} {s t : State}
    (hW : [Field.emitted] ⊆ W) (h : AgreeOff W s t) (o : Int) :
    AgreeOff W s (albumSongsProgress t o) := by
  unfold albumSongsProgress
  split
  · exact agree_emit hW h _
  · exact h

theorem agree_albumsCounted {W : List Field} {s t : State}
    (hW : [Field.albums_received_, Field.emitted] ⊆ W) (h : AgreeOff W s t) (n : Int) :
    AgreeOff W s (albumsCounted t n) := by
  unfold albumsCounted
  split
  · exact h.andThen (by constructor <;> intro hn <;> first | rfl | exact absurd (hW (by decide)) hn)
  · exact h

theorem agree_songsCounted {W : List Field} {s t : State}
    (hW : [Field.songs_received_, Field.emitted] ⊆ W) (h : AgreeOff W s t) (n : Int) :
    AgreeOff W s (songsCounted t n) := by
  unfold songsCounted
  split
  · exact h.andThen (by constructor <;> intro hn <;> first | rfl | exact absurd (hW (by decide)) hn)
  · exact h

theorem agree_albumCoversStatus {W : List Field} {s t : State}
    (hW : [Field.emitted] ⊆ W) (h : AgreeOff W s t) : AgreeOff W s (albumCoversStatus t) := by
  unfold albumCoversStatus
  split <;> exact agree_emit hW h _

theorem agree_artistAlbumsStatus {W : List Field} {s t : State}
    (hW : [Field.emitted] ⊆ W) (h : AgreeOff W s t) : AgreeOff W s (artistAlbumsStatus t) := by
  unfold artistAlbumsStatus
  split
  · apply agree_emit hW
    split <;> exact agree_emit hW h _
  · exact h

theorem agree_albumSongsStatus {W : List Field} {s t : State}
    (hW : [Field.emitted] ⊆ W) (h : AgreeOff W s t) : AgreeOff W s (albumSongsStatus t) := by
  unfold albumSongsStatus
  split
  · apply agree_emit hW
    split <;> exact agree_emit hW h _
  · exact h

theorem agree_foldl {β : Type} {W : List Field} {s : State} (f : State → β → State)
    (hf : ∀ t b, AgreeOff W s t → AgreeOff W s (f t b)) (l : List β) :
    ∀ t, AgreeOff W s t → AgreeOff W s (l.foldl f t) := by
  induction l with
  | nil => intro t h; exact h
  | cons b l ih => intro t h; exact ih _ (hf t b h)

theorem agree_FinishCheck {W : List Field} {s t : State} (hW : fpFinishCheck ⊆ W)
    (h : AgreeOff W s t) : AgreeOff W s (FinishCheck t) := by
  by_cases h1 : t.finished_ = false ∧ Quiescent t
  · obtain ⟨songs, error, he⟩ := FinishCheck_of_quiescent t h1.1 h1.2
    rw [he]
    exact h.andThen (by constructor <;> intro hn <;> first | rfl | exact absurd (hW (by decide)) hn)
  · have he : FinishCheck t = t := by simp [FinishCheck, h1]
    rw [he]
    exact h

theorem agree_Error {W : List Field} {s t : State} (hW : fpError ⊆ W)
    (h : AgreeOff W s t) (e : String) : AgreeOff W s (Error t e) := by
  unfold Error
  apply agree_FinishCheck (List.Subset.trans (by decide) hW)
  split
  · exact h.andThen (by constructor <;> intro hn <;> first | rfl | exact absurd (hW (by decide)) hn)
  · exact h

theorem agree_StartRequests {W : List Field} {s t : State} (hW : [Field.timer_active] ⊆ W)
    (h : AgreeOff W s t) : AgreeOff W s (StartRequests t) := by
  unfold StartRequests
  split
  · exact h.andThen (by constructor <;> intro hn <;> first | rfl | exact absurd (hW (by decide)) hn)
  · exact h

theorem agree_GetReplyData {W : List Field} {s t : State} (hW : fpError ⊆ W)
    (h : AgreeOff W s t) (reply : QNetworkReply) : AgreeOff W s (GetReplyData t reply) :=
  agree_foldl Error (fun _ e ht => agree_Error hW ht e) _ t h

theorem agree_ExtractJsonObj {W : List Field} {s t : State} (hW : fpError ⊆ W)
    (h : AgreeOff W s t) (bytes : ReplyBytes) : AgreeOff W s (ExtractJsonObj t bytes) :=
  agree_foldl Error (fun _ e ht => agree_Error hW ht e) _ t h

theorem agree_AddArtistsRequest {W : List Field} {s t : State} (hW : fpAddArtistsRequest ⊆ W)
    (h : AgreeOff W s t) (o l : Int) : AgreeOff W s (AddArtistsRequest t o l) := by
  unfold AddArtistsRequest
  apply agree_StartRequests (List.Subset.trans (by decide) hW)
  exact h.andThen (by constructor <;> intro hn <;> first | rfl | exact absurd (hW (by decide)) hn)

theorem agree_AddAlbumsRequest {W : List Field} {s t : State} (hW : fpAddAlbumsRequest ⊆ W)
    (h : AgreeOff W s t) (o l : Int) : AgreeOff W s (AddAlbumsRequest t o l) := by
  unfold AddAlbumsRequest
  apply agree_StartRequests (List.Subset.trans (by decide) hW)
  exact h.andThen (by constructor <;> intro hn <;> first | rfl | exact absurd (hW (by decide)) hn)

theorem agree_AddSongsRequest {W : List Field} {s t : State} (hW : fpAddSongsRequest ⊆ W)
    (h : AgreeOff W s t) (o l : Int) : AgreeOff W s (AddSongsRequest t o l) := by
  unfold AddSongsRequest
  apply agree_StartRequests (List.Subset.trans (by decide) hW)
  exact h.andThen (by constructor <;> intro hn <;> first | rfl | exact absurd (hW (by decide)) hn)

theorem agree_AddArtistAlbumsRequest {W : List Field} {s t : State}
    (hW : fpAddArtistAlbumsRequest ⊆ W) (h : AgreeOff W s t) (a : Artist) (o : Int) :
    AgreeOff W s (AddArtistAlbumsRequest t a o) := by
  unfold AddArtistAlbumsRequest
  apply agree_StartRequests (List.Subset.trans (by decide) hW)
  exact h.andThen (by constructor <;> intro hn <;> first | rfl | exact absurd (hW (by decide)) hn)

theorem agree_AddAlbumSongsRequest {W : List Field} {s t : State}
    (hW : fpAddAlbumSongsRequest ⊆ W) (h : AgreeOff W s t) (a : Artist) (b : Album) (o : Int) :
    AgreeOff W s (AddAlbumSongsRequest t a b o) := by
  unfold AddAlbumSongsRequest
  apply agree_StartRequests (List.Subset.trans (by decide) hW)
  exact h.andThen (by constructor <;> intro hn <;> first | rfl | exact absurd (hW (by decide)) hn)

theorem agree_FlushArtistsLoop {W : List Field} {s : State} (hW : fpFlushArtists ⊆ W) (q : List Request) :
    ∀ t, AgreeOff W s t → AgreeOff W s (FlushArtistsLoop q t) := by
  induction q with
  | nil => intro t h; exact h
  | cons r q ih =>
    intro t h
    unfold FlushArtistsLoop
    have h1 : [Field.artists_requests_active_] ⊆ W := List.Subset.trans (by decide) hW
    have h2 : [Field.replies_, Field.connections, Field.next_reply] ⊆ W :=
      List.Subset.trans (by decide) hW
    repeat' first
      | with_reducible apply ih
      | with_reducible apply agree_artistsSent h1
      | with_reducible apply agree_issueReply h2
      | split
      | exact h
      | exact h.andThen (by constructor <;> intro hn <;> first | rfl | exact absurd (hW (by decide)) hn)

theorem agree_FlushAlbumsLoop {W : List Field} {s : State} (hW : fpFlushAlbums ⊆ W) (q : List Request) :
    ∀ t, AgreeOff W s t → AgreeOff W s (FlushAlbumsLoop q t) := by
  induction q with
  | nil => intro t h; exact h
  | cons r q ih =>
    intro t h
    unfold FlushAlbumsLoop
    have h1 : [Field.albums_requests_active_] ⊆ W := List.Subset.trans (by decide) hW
    have h2 : [Field.replies_, Field.connections, Field.next_reply] ⊆ W :=
      List.Subset.trans (by decide) hW
    repeat' first
      | with_reducible apply ih
      | with_reducible apply agree_albumsSent h1
      | with_reducible apply agree_issueReply h2
      | split
      | exact h
      | exact h.andThen (by constructor <;> intro hn <;> first | rfl | exact absurd (hW (by decide)) hn)

theorem agree_FlushSongsLoop {W : List Field} {s : State} (hW : fpFlushSongs ⊆ W) (q : List Request) :
    ∀ t, AgreeOff W s t → AgreeOff W s (FlushSongsLoop q t) := by
  induction q with
  | nil => intro t h; exact h
  | cons r q ih =>
    intro t h
    unfold FlushSongsLoop
    have h1 : [Field.songs_requests_active_] ⊆ W := List.Subset.trans (by decide) hW
    have h2 : [Field.replies_, Field.connections, Field.next_reply] ⊆ W :=
      List.Subset.trans (by decide) hW
    repeat' first
      | with_reducible apply ih
      | with_reducible apply agree_songsSent h1
      | with_reducible apply agree_issueReply h2
      | split
      | exact h
      | exact h.andThen (by constructor <;> intro hn <;> first | rfl | exact absurd (hW (by decide)) hn)

theorem agree_FlushArtistAlbumsLoop {W : List Field} {s : State} (hW : fpFlushArtistAlbums ⊆ W) (q : List ArtistAlbumsRequest) :
    ∀ t, AgreeOff W s t → AgreeOff W s (FlushArtistAlbumsLoop q t) := by
  induction q with
  | nil => intro t h; exact h
  | cons r q ih =>
    intro t h
    unfold FlushArtistAlbumsLoop
    have h1 : [Field.artist_albums_requests_active_] ⊆ W := List.Subset.trans (by decide) hW
    have h2 : [Field.replies_, Field.connections, Field.next_reply] ⊆ W :=
      List.Subset.trans (by decide) hW
    repeat' first
      | with_reducible apply ih
      | with_reducible apply agree_artistAlbumsSent h1
      | with_reducible apply agree_issueReply h2
      | split
      | exact h
      | exact h.andThen (by constructor <;> intro hn <;> first | rfl | exact absurd (hW (by decide)) hn)

theorem agree_FlushAlbumSongsLoop {W : List Field} {s : State} (hW : fpFlushAlbumSongs ⊆ W) (q : List AlbumSongsRequest) :
    ∀ t, AgreeOff W s t → AgreeOff W s (FlushAlbumSongsLoop q t) := by
  induction q with
  | nil => intro t h; exact h
  | cons r q ih =>
    intro t h
    unfold FlushAlbumSongsLoop
    have h1 : [Field.album_songs_requests_active_] ⊆ W := List.Subset.trans (by decide) hW
    have h2 : [Field.replies_, Field.connections, Field.next_reply] ⊆ W :=
      List.Subset.trans (by decide) hW
    repeat' first
      | with_reducible apply ih
      | with_reducible apply agree_albumSongsSent h1
      | with_reducible apply agree_issueReply h2
      | split
      | exact h
      | exact h.andThen (by constructor <;> intro hn <;> first | rfl | exact absurd (hW (by decide)) hn)

theorem agree_FlushAlbumCoverLoop {W : List Field} {s : State} (hW : fpFlushAlbumCover ⊆ W) (q : List AlbumCoverRequest) :
    ∀ t, AgreeOff W s t → AgreeOff W s (FlushAlbumCoverLoop q t) := by
  induction q with
  | nil => intro t h; exact h
  | cons r q ih =>
    intro t h
    unfold FlushAlbumCoverLoop
    have h1 : [Field.album_covers_requests_active_] ⊆ W := List.Subset.trans (by decide) hW
    have h2 : [Field.album_cover_replies_, Field.connections, Field.next_reply] ⊆ W :=
      List.Subset.trans (by decide) hW
    repeat' first
      | with_reducible apply ih
      | with_reducible apply agree_albumCoverSent h1
      | with_reducible apply agree_issueCoverReply h2
      | split
      | exact h
      | exact h.andThen (by constructor <;> intro hn <;> first | rfl | exact absurd (hW (by decide)) hn)

theorem agree_FlushRequests {W : List Field} {s t : State} (hW : fpFlushRequests ⊆ W)
    (h : AgreeOff W s t) : AgreeOff W s (FlushRequests t) := by
  unfold FlushRequests FlushArtistsRequests FlushAlbumsRequests FlushSongsRequests
    FlushArtistAlbumsRequests FlushAlbumSongsRequests FlushAlbumCoverRequests
  repeat' first
    | with_reducible apply agree_FlushArtistsLoop (List.Subset.trans (by decide : fpFlushArtists ⊆ _) hW)
    | with_reducible apply agree_FlushAlbumsLoop (List.Subset.trans (by decide : fpFlushAlbums ⊆ _) hW)
    | with_reducible apply agree_FlushSongsLoop (List.Subset.trans (by decide : fpFlushSongs ⊆ _) hW)
    | with_reducible apply agree_FlushArtistAlbumsLoop (List.Subset.trans (by decide : fpFlushArtistAlbums ⊆ _) hW)
    | with_reducible apply agree_FlushAlbumSongsLoop (List.Subset.trans (by decide : fpFlushAlbumSongs ⊆ _) hW)
    | with_reducible apply agree_FlushAlbumCoverLoop (List.Subset.trans (by decide : fpFlushAlbumCover ⊆ _) hW)
    | split
    | exact h
    | exact h.andThen (by constructor <;> intro hn <;> first | rfl | exact absurd (hW (by decide)) hn)

theorem agree_AddAlbumCoverRequest {W : List Field} {s t : State} (hW : fpGetAlbumCovers ⊆ W)
    (h : AgreeOff W s t) (env : Env) (song : Song) :
    AgreeOff W s (AddAlbumCoverRequest env t song) := by
  unfold AddAlbumCoverRequest
  repeat' first
    | split
    | exact h
    | exact h.andThen (by constructor <;> intro hn <;> first | rfl | exact absurd (hW (by decide)) hn)

theorem agree_GetAlbumCovers {W : List Field} {s t : State} (hW : fpGetAlbumCovers ⊆ W)
    (h : AgreeOff W s t) (env : Env) : AgreeOff W s (GetAlbumCovers env t) := by
  unfold GetAlbumCovers
  have he : [Field.emitted] ⊆ W := List.Subset.trans (by decide) hW
  exact agree_StartRequests (List.Subset.trans (by decide) hW) (agree_emit he
    (agree_albumCoversStatus he
      (agree_foldl (fun st (kv : String × Song) => AddAlbumCoverRequest env st kv.2)
        (fun t b ht => agree_AddAlbumCoverRequest hW ht env b.2) t.songs_ t h)) _)

theorem agree_GetAlbumCoversCheck {W : List Field} {s t : State} (hW : fpGetAlbumCovers ⊆ W)
    (h : AgreeOff W s t) (env : Env) : AgreeOff W s (GetAlbumCoversCheck env t) := by
  unfold GetAlbumCoversCheck
  split
  · exact agree_GetAlbumCovers hW h env
  · exact h

theorem agree_AlbumCoverFinishCheck {W : List Field} {s t : State} (hW : fpFinishCheck ⊆ W)
    (h : AgreeOff W s t) : AgreeOff W s (AlbumCoverFinishCheck t) := agree_FinishCheck hW h

theorem agree_AlbumCoverBody {W : List Field} {s t : State} (hW : fpAlbumCoverBody ⊆ W)
    (h : AgreeOff W s t) (env : Env) (reply : QNetworkReply) (url filename : String) :
    AgreeOff W s (AlbumCoverBody env t reply url filename) := by
  unfold AlbumCoverBody
  repeat' first
    | with_reducible apply agree_AlbumCoverFinishCheck (List.Subset.trans (by decide : fpFinishCheck ⊆ _) hW)
    | with_reducible apply agree_Error (List.Subset.trans (by decide : fpError ⊆ _) hW)
    | with_reducible apply agree_removeCover (List.Subset.trans (by decide : [Field.album_covers_requests_sent_] ⊆ _) hW)
    | with_reducible apply agree_applyCover (List.Subset.trans (by decide : [Field.songs_, Field.album_covers_requests_sent_] ⊆ _) hW)
    | split
    | exact h
    | exact h.andThen (by constructor <;> intro hn <;> first | rfl | exact absurd (hW (by decide)) hn)

theorem agree_AlbumCoverSettled {W : List Field} {s t : State} (hW : fpAlbumCoverBody ⊆ W)
    (h : AgreeOff W s t) (env : Env) (reply : QNetworkReply) (url filename : String) :
    AgreeOff W s (AlbumCoverSettled env t reply url filename) := by
  unfold AlbumCoverSettled
  split
  · exact h
  · exact agree_AlbumCoverBody hW
      (agree_albumCoverProgress (List.Subset.trans (by decide) hW) h) env reply url filename

theorem agree_AlbumCoverReceived {W : List Field} {s t : State} (hW : fpAlbumCoverReceived ⊆ W)
    (h : AgreeOff W s t) (env : Env) (reply : QNetworkReply) (url filename : String) :
    AgreeOff W s (AlbumCoverReceived env t reply url filename) := by
  unfold AlbumCoverReceived
  split
  · exact agree_AlbumCoverFinishCheck (List.Subset.trans (by decide) hW) h
  · exact agree_AlbumCoverSettled (List.Subset.trans (by decide) hW)
      (agree_albumCoverSettled (List.Subset.trans (by decide) hW)
        (agree_takeCoverReply (List.Subset.trans (by decide) hW) h _)) env reply url filename

theorem agree_ArtistsNextPage {W : List Field} {s t : State} (hW : fpAddArtistsRequest ⊆ W)
    (h : AgreeOff W s t) (env : Env) (l o r : Int) :
    AgreeOff W s (ArtistsNextPage env t l o r) := by
  unfold ArtistsNextPage AddArtistsSearchRequest
  repeat' first
    | with_reducible apply agree_AddArtistsRequest hW
    | split
    | exact h
    | exact h.andThen (by constructor <;> intro hn <;> first | rfl | exact absurd (hW (by decide)) hn)

theorem agree_ArtistsRelease {W : List Field} {s t : State}
    (hW : fpAddArtistAlbumsRequest ++ [Field.artist_albums_requests_pending_, Field.emitted] ⊆ W)
    (h : AgreeOff W s t) : AgreeOff W s (ArtistsRelease t) := by
  unfold ArtistsRelease
  split
  · exact agree_artistAlbumsStatus (List.Subset.trans (by decide) hW)
      (agree_clearArtistAlbumsPending (List.Subset.trans (by decide) hW)
        (agree_foldl (fun st (kv : String × ArtistAlbumsRequest) =>
            AddArtistAlbumsRequest st kv.2.artist 0)
          (fun t b ht =>
            agree_AddArtistAlbumsRequest (List.Subset.trans (by decide) hW) ht b.2.artist 0)
          t.artist_albums_requests_pending_ t h))
  · exact h

theorem agree_ArtistsFinishCheck {W : List Field} {s t : State} (hW : fpArtistsFinishCheck ⊆ W)
    (h : AgreeOff W s t) (env : Env) (l o r : Int) :
    AgreeOff W s (ArtistsFinishCheck env t l o r) := by
  unfold ArtistsFinishCheck
  split
  · exact h
  · exact agree_FinishCheck (List.Subset.trans (by decide) hW)
      (agree_ArtistsRelease (List.Subset.trans (by decide) hW)
        (agree_ArtistsNextPage (List.Subset.trans (by decide) hW) h env l o r))

theorem agree_ArtistsItemObject {W : List Field} {s t : State}
    (hW : fpError ++ [Field.artist_albums_requests_pending_] ⊆ W)
    (h : AgreeOff W s t) (o : QJsonObject) : AgreeOff W s (ArtistsItemObject t o) := by
  unfold ArtistsItemObject
  repeat' first
    | with_reducible apply agree_Error (List.Subset.trans (by decide : fpError ⊆ _) hW)
    | split
    | exact h
    | exact h.andThen (by constructor <;> intro hn <;> first | rfl | exact absurd (hW (by decide)) hn)

theorem agree_ArtistsItem {W : List Field} {s t : State}
    (hW : fpError ++ [Field.artist_albums_requests_pending_] ⊆ W)
    (h : AgreeOff W s t) (v : QJsonValue) : AgreeOff W s (ArtistsItem t v) := by
  unfold ArtistsItem
  repeat' first
    | with_reducible apply agree_Error (List.Subset.trans (by decide : fpError ⊆ _) hW)
    | with_reducible apply agree_ArtistsItemObject hW
    | split
    | exact h
    | exact h.andThen (by constructor <;> intro hn <;> first | rfl | exact absurd (hW (by decide)) hn)

theorem agree_ArtistsItems {W : List Field} {s t : State} (hW : fpArtistsBody ⊆ W)
    (h : AgreeOff W s t) (env : Env) (obj : QJsonObject) (l o : Int) :
    AgreeOff W s (ArtistsItems env t obj l o) := by
  unfold ArtistsItems
  have hi : fpError ++ [Field.artist_albums_requests_pending_] ⊆ W :=
    List.Subset.trans (by decide) hW
  repeat' first
    | with_reducible apply agree_ArtistsFinishCheck (List.Subset.trans (by decide : fpArtistsFinishCheck ⊆ _) hW)
    | with_reducible apply agree_artistsProgress (List.Subset.trans (by decide : [Field.emitted] ⊆ _) hW)
    | with_reducible apply agree_artistsCounted (List.Subset.trans (by decide : [Field.artists_received_] ⊆ _) hW)
    | with_reducible apply agree_foldl ArtistsItem (fun _ b ht => agree_ArtistsItem hi ht b)
    | split
    | exact h
    | exact h.andThen (by constructor <;> intro hn <;> first | rfl | exact absurd (hW (by decide)) hn)

theorem agree_ArtistsPage {W : List Field} {s t : State} (hW : fpArtistsBody ⊆ W)
    (h : AgreeOff W s t) (env : Env) (obj : QJsonObject) (l o : Int) :
    AgreeOff W s (ArtistsPage env t obj l o) := by
  unfold ArtistsPage
  repeat' first
    | with_reducible apply agree_ArtistsFinishCheck (List.Subset.trans (by decide : fpArtistsFinishCheck ⊆ _) hW)
    | with_reducible apply agree_ArtistsItems hW
    | with_reducible apply agree_Error (List.Subset.trans (by decide : fpError ⊆ _) hW)
    | with_reducible apply agree_artistsProgress (List.Subset.trans (by decide : [Field.emitted] ⊆ _) hW)
    | split
    | exact h
    | exact h.andThen (by constructor <;> intro hn <;> first | rfl | exact absurd (hW (by decide)) hn)

theorem agree_ArtistsContainer {W : List Field} {s t : State} (hW : fpArtistsBody ⊆ W)
    (h : AgreeOff W s t) (env : Env) (obj : QJsonObject) (l o : Int) :
    AgreeOff W s (ArtistsContainer env t obj l o) := by
  unfold ArtistsContainer
  repeat' first
    | with_reducible apply agree_ArtistsPage hW
    | with_reducible apply agree_ArtistsFinishCheck (List.Subset.trans (by decide : fpArtistsFinishCheck ⊆ _) hW)
    | with_reducible apply agree_Error (List.Subset.trans (by decide : fpError ⊆ _) hW)
    | split
    | exact h
    | exact h.andThen (by constructor <;> intro hn <;> first | rfl | exact absurd (hW (by decide)) hn)

theorem agree_ArtistsParsed {W : List Field} {s t : State} (hW : fpArtistsBody ⊆ W)
    (h : AgreeOff W s t) (env : Env) (obj : QJsonObject) (l o : Int) :
    AgreeOff W s (ArtistsParsed env t obj l o) := by
  unfold ArtistsParsed
  repeat' first
    | with_reducible apply agree_ArtistsContainer hW
    | with_reducible apply agree_ArtistsFinishCheck (List.Subset.trans (by decide : fpArtistsFinishCheck ⊆ _) hW)
    | with_reducible apply agree_Error (List.Subset.trans (by decide : fpError ⊆ _) hW)
    | split
    | exact h
    | exact h.andThen (by constructor <;> intro hn <;> first | rfl | exact absurd (hW (by decide)) hn)

theorem agree_ArtistsSettled {W : List Field} {s t : State} (hW : fpArtistsBody ⊆ W)
    (h : AgreeOff W s t) (env : Env) (reply : QNetworkReply) (l o : Int) :
    AgreeOff W s (ArtistsSettled env t reply l o) := by
  unfold ArtistsSettled
  repeat' first
    | with_reducible apply agree_ArtistsParsed hW
    | with_reducible apply agree_ArtistsFinishCheck (List.Subset.trans (by decide : fpArtistsFinishCheck ⊆ _) hW)
    | with_reducible apply agree_ExtractJsonObj (List.Subset.trans (by decide : fpError ⊆ _) hW)
    | split
    | exact h
    | exact h.andThen (by constructor <;> intro hn <;> first | rfl | exact absurd (hW (by decide)) hn)

theorem agree_ArtistsReplyReceived {W : List Field} {s t : State}
    (hW : fpArtistsReplyReceived ⊆ W) (h : AgreeOff W s t) (env : Env) (reply : QNetworkReply)
    (l o : Int) : AgreeOff W s (ArtistsReplyReceived env t reply l o) := by
  unfold ArtistsReplyReceived
  split
  · exact h
  · exact agree_ArtistsSettled (List.Subset.trans (by decide) hW)
      (agree_artistsSettled (List.Subset.trans (by decide) hW)
        (agree_GetReplyData (List.Subset.trans (by decide) hW)
          (agree_takeReply (List.Subset.trans (by decide) hW) h _) reply)) env reply l o

theorem agree_AlbumsNextPage {W : List Field} {s t : State}
    (hW : fpAddAlbumsRequest ++ fpAddArtistAlbumsRequest ⊆ W)
    (h : AgreeOff W s t) (env : Env) (a : Artist) (l o n r : Int) :
    AgreeOff W s (AlbumsNextPage env t a l o n r) := by
  unfold AlbumsNextPage AddAlbumsSearchRequest
  repeat' first
    | with_reducible apply agree_AddAlbumsRequest (List.Subset.trans (by decide : fpAddAlbumsRequest ⊆ _) hW)
    | with_reducible apply agree_AddArtistAlbumsRequest (List.Subset.trans (by decide : fpAddArtistAlbumsRequest ⊆ _) hW)
    | split
    | exact h
    | exact h.andThen (by constructor <;> intro hn <;> first | rfl | exact absurd (hW (by decide)) hn)

theorem agree_AlbumsRelease {W : List Field} {s t : State}
    (hW : fpAddAlbumSongsRequest ++ [Field.album_songs_requests_pending_, Field.emitted] ⊆ W)
    (h : AgreeOff W s t) : AgreeOff W s (AlbumsRelease t) := by
  unfold AlbumsRelease
  split
  · exact agree_albumSongsStatus (List.Subset.trans (by decide) hW)
      (agree_clearAlbumSongsPending (List.Subset.trans (by decide) hW)
        (agree_foldl (fun st (kv : String × AlbumSongsRequest) =>
            AddAlbumSongsRequest st kv.2.artist kv.2.album 0)
          (fun t b ht =>
            agree_AddAlbumSongsRequest (List.Subset.trans (by decide) hW) ht b.2.artist
              b.2.album 0)
          t.album_songs_requests_pending_ t h))
  · exact h

theorem agree_AlbumsFinishCheck {W : List Field} {s t : State} (hW : fpAlbumsFinishCheck ⊆ W)
    (h : AgreeOff W s t) (env : Env) (a : Artist) (l o n r : Int) :
    AgreeOff W s (AlbumsFinishCheck env t a l o n r) := by
  unfold AlbumsFinishCheck
  split
  · exact h
  · exact agree_FinishCheck (List.Subset.trans (by decide) hW)
      (agree_GetAlbumCoversCheck (List.Subset.trans (by decide) hW)
        (agree_AlbumsRelease (List.Subset.trans (by decide) hW)
          (agree_AlbumsNextPage (List.Subset.trans (by decide) hW) h env a l o n r)) env)

theorem agree_AlbumsItemArtist {W : List Field} {s t : State}
    (hW : fpError ++ [Field.album_songs_requests_pending_] ⊆ W)
    (h : AgreeOff W s t) (a : Artist) (o : QJsonObject) :
    AgreeOff W s (AlbumsItemArtist a t o) := by
  unfold AlbumsItemArtist
  repeat' first
    | with_reducible apply agree_Error (List.Subset.trans (by decide : fpError ⊆ _) hW)
    | split
    | exact h
    | exact h.andThen (by constructor <;> intro hn <;> first | rfl | exact absurd (hW (by decide)) hn)

theorem agree_AlbumsItem {W : List Field} {s t : State}
    (hW : fpError ++ [Field.album_songs_requests_pending_] ⊆ W)
    (h : AgreeOff W s t) (a : Artist) (v : QJsonValue) : AgreeOff W s (AlbumsItem a t v) := by
  unfold AlbumsItem
  repeat' first
    | with_reducible apply agree_Error (List.Subset.trans (by decide : fpError ⊆ _) hW)
    | with_reducible apply agree_AlbumsItemArtist hW
    | split
    | exact h
    | exact h.andThen (by constructor <;> intro hn <;> first | rfl | exact absurd (hW (by decide)) hn)

theorem agree_AlbumsContainer {W : List Field} {s t : State} (hW : fpAlbumsBody ⊆ W)
    (h : AgreeOff W s t) (env : Env) (obj : QJsonObject) (a : Artist) (l o : Int) :
    AgreeOff W s (AlbumsContainer env t obj a l o) := by
  unfold AlbumsContainer
  have hi : fpError ++ [Field.album_songs_requests_pending_] ⊆ W :=
    List.Subset.trans (by decide) hW
  repeat' first
    | with_reducible apply agree_AlbumsFinishCheck (List.Subset.trans (by decide : fpAlbumsFinishCheck ⊆ _) hW)
    | with_reducible apply agree_Error (List.Subset.trans (by decide : fpError ⊆ _) hW)
    | with_reducible apply agree_albumsCounted (List.Subset.trans (by decide : [Field.albums_received_, Field.emitted] ⊆ _) hW)
    | with_reducible apply agree_foldl (AlbumsItem a) (fun _ b ht => agree_AlbumsItem hi ht a b)
    | split
    | exact h
    | exact h.andThen (by constructor <;> intro hn <;> first | rfl | exact absurd (hW (by decide)) hn)

theorem agree_AlbumsParsed {W : List Field} {s t : State} (hW : fpAlbumsBody ⊆ W)
    (h : AgreeOff W s t) (env : Env) (obj : QJsonObject) (a : Artist) (l o : Int) :
    AgreeOff W s (AlbumsParsed env t obj a l o) := by
  unfold AlbumsParsed
  repeat' first
    | with_reducible apply agree_AlbumsContainer hW
    | with_reducible apply agree_AlbumsFinishCheck (List.Subset.trans (by decide : fpAlbumsFinishCheck ⊆ _) hW)
    | with_reducible apply agree_Error (List.Subset.trans (by decide : fpError ⊆ _) hW)
    | split
    | exact h
    | exact h.andThen (by constructor <;> intro hn <;> first | rfl | exact absurd (hW (by decide)) hn)

theorem agree_AlbumsSettled {W : List Field} {s t : State} (hW : fpAlbumsBody ⊆ W)
    (h : AgreeOff W s t) (env : Env) (reply : QNetworkReply) (a : Artist) (l o : Int) :
    AgreeOff W s (AlbumsSettled env t reply a l o) := by
  unfold AlbumsSettled
  repeat' first
    | with_reducible apply agree_AlbumsParsed hW
    | with_reducible apply agree_AlbumsFinishCheck (List.Subset.trans (by decide : fpAlbumsFinishCheck ⊆ _) hW)
    | with_reducible apply agree_ExtractJsonObj (List.Subset.trans (by decide : fpError ⊆ _) hW)
    | split
    | exact h
    | exact h.andThen (by constructor <;> intro hn <;> first | rfl | exact absurd (hW (by decide)) hn)

theorem agree_AlbumsReceived {W : List Field} {s t : State} (hW : fpAlbumsReceived ⊆ W)
    (h : AgreeOff W s t) (env : Env) (reply : QNetworkReply) (a : Artist) (l o : Int) :
    AgreeOff W s (AlbumsReceived env t reply a l o) := by
  unfold AlbumsReceived
  split
  · exact h
  · exact agree_AlbumsSettled (List.Subset.trans (by decide) hW)
      (agree_GetReplyData (List.Subset.trans (by decide) hW)
        (agree_takeReply (List.Subset.trans (by decide) hW) h _) reply) env reply a l o

theorem agree_SongsNextPage {W : List Field} {s t : State}
    (hW : fpAddSongsRequest ++ fpAddAlbumSongsRequest ⊆ W)
    (h : AgreeOff W s t) (env : Env) (a : Artist) (b : Album) (l o n r : Int) :
    AgreeOff W s (SongsNextPage env t a b l o n r) := by
  unfold SongsNextPage AddSongsSearchRequest
  repeat' first
    | with_reducible apply agree_AddSongsRequest (List.Subset.trans (by decide : fpAddSongsRequest ⊆ _) hW)
    | with_reducible apply agree_AddAlbumSongsRequest (List.Subset.trans (by decide : fpAddAlbumSongsRequest ⊆ _) hW)
    | split
    | exact h
    | exact h.andThen (by constructor <;> intro hn <;> first | rfl | exact absurd (hW (by decide)) hn)

theorem agree_SongsFinishCheck {W : List Field} {s t : State} (hW : fpSongsFinishCheck ⊆ W)
    (h : AgreeOff W s t) (env : Env) (a : Artist) (b : Album) (l o n r : Int) :
    AgreeOff W s (SongsFinishCheck env t a b l o n r) := by
  unfold SongsFinishCheck
  split
  · exact h
  · exact agree_FinishCheck (List.Subset.trans (by decide) hW)
      (agree_GetAlbumCoversCheck (List.Subset.trans (by decide) hW)
        (agree_SongsNextPage (List.Subset.trans (by decide) hW) h env a b l o n r) env)

theorem agree_ParseSong {W : List Field} {s t : State} (hW : fpError ⊆ W)
    (h : AgreeOff W s t) (env : Env) (o : QJsonObject) (a : Artist) (b : Album) :
    AgreeOff W s (ParseSong env t o a b).1 := by
  unfold ParseSong
  split
  · exact agree_Error hW h _
  · exact h

theorem agree_SongsItems {W : List Field} {s : State} (hW : fpError ⊆ W) (env : Env)
    (a : Artist) (b : Album) (l : List QJsonValue) :
    ∀ t, AgreeOff W s t → AgreeOff W s (SongsItems env a b l t).1 := by
  induction l with
  | nil => intro t h; exact h
  | cons v l ih =>
    intro t h
    cases v <;> simp only [SongsItems]
    all_goals first
      | exact ih _ (agree_Error hW h _)
      | exact ih _ (agree_ParseSong hW h env _ a b)

theorem agree_SongsContainer {W : List Field} {s t : State} (hW : fpSongsBody ⊆ W)
    (h : AgreeOff W s t) (env : Env) (obj : QJsonObject) (a : Artist) (b : Album) (a1 : Artist)
    (b1 : Album) (l o : Int) : AgreeOff W s (SongsContainer env t obj a b a1 b1 l o) := by
  unfold SongsContainer
  repeat' first
    | with_reducible apply agree_SongsFinishCheck (List.Subset.trans (by decide : fpSongsFinishCheck ⊆ _) hW)
    | with_reducible apply agree_Error (List.Subset.trans (by decide : fpError ⊆ _) hW)
    | with_reducible apply agree_songsCounted (List.Subset.trans (by decide : [Field.songs_received_, Field.emitted] ⊆ _) hW)
    | with_reducible apply agree_songsInserted (List.Subset.trans (by decide : [Field.songs_] ⊆ _) hW)
    | with_reducible apply agree_SongsItems (List.Subset.trans (by decide : fpError ⊆ _) hW)
    | split
    | exact h
    | exact h.andThen (by constructor <;> intro hn <;> first | rfl | exact absurd (hW (by decide)) hn)

theorem agree_SongsParsed {W : List Field} {s t : State} (hW : fpSongsBody ⊆ W)
    (h : AgreeOff W s t) (env : Env) (obj : QJsonObject) (a : Artist) (b : Album) (l o : Int) :
    AgreeOff W s (SongsParsed env t obj a b l o) := by
  unfold SongsParsed
  repeat' first
    | with_reducible apply agree_SongsContainer hW
    | with_reducible apply agree_SongsFinishCheck (List.Subset.trans (by decide : fpSongsFinishCheck ⊆ _) hW)
    | with_reducible apply agree_Error (List.Subset.trans (by decide : fpError ⊆ _) hW)
    | split
    | exact h
    | exact h.andThen (by constructor <;> intro hn <;> first | rfl | exact absurd (hW (by decide)) hn)

theorem agree_SongsSettled {W : List Field} {s t : State} (hW : fpSongsBody ⊆ W)
    (h : AgreeOff W s t) (env : Env) (reply : QNetworkReply) (a : Artist) (b : Album) (l o : Int) :
    AgreeOff W s (SongsSettled env t reply a b l o) := by
  unfold SongsSettled
  repeat' first
    | with_reducible apply agree_SongsParsed hW
    | with_reducible apply agree_SongsFinishCheck (List.Subset.trans (by decide : fpSongsFinishCheck ⊆ _) hW)
    | with_reducible apply agree_ExtractJsonObj (List.Subset.trans (by decide : fpError ⊆ _) hW)
    | split
    | exact h
    | exact h.andThen (by constructor <;> intro hn <;> first | rfl | exact absurd (hW (by decide)) hn)

theorem agree_SongsReceived {W : List Field} {s t : State} (hW : fpSongsReceived ⊆ W)
    (h : AgreeOff W s t) (env : Env) (reply : QNetworkReply) (a : Artist) (b : Album) (l o : Int) :
    AgreeOff W s (SongsReceived env t reply a b l o) := by
  unfold SongsReceived
  split
  · exact h
  · exact agree_SongsSettled (List.Subset.trans (by decide) hW)
      (agree_GetReplyData (List.Subset.trans (by decide) hW)
        (agree_takeReply (List.Subset.trans (by decide) hW) h _) reply) env reply a b l o

/-! ## Handlers entered after finalization -/

theorem Error_of_finished (s : State) (e : String) (hf : s.finished_ = true) :
    Error s e = if e ≠ "" then { s with errors_ := s.errors_ ++ [e] } else s := by
  unfold Error
  split
  · exact FinishCheck_of_finished _ hf
  · exact FinishCheck_of_finished _ hf

theorem agree_Error_finished {W : List Field} {s t : State} (hW : [Field.errors_] ⊆ W)
    (hfW : Field.finished_ ∉ W) (hf : s.finished_ = true) (h : AgreeOff W s t) (e : String) :
    AgreeOff W s (Error t e) := by
  have ht : t.finished_ = true := (h.finished_ hfW).trans hf
  rw [Error_of_finished t e ht]
  split
  · exact h.andThen (by constructor <;> intro hn <;> first | rfl | exact absurd (hW (by decide)) hn)
  · exact h

theorem agree_foldl_Error_finished {W : List Field} {s : State} (hW : [Field.errors_] ⊆ W)
    (hfW : Field.finished_ ∉ W) (hf : s.finished_ = true) (l : List String) :
    ∀ t, AgreeOff W s t → AgreeOff W s (l.foldl Error t) :=
  agree_foldl Error (fun _ e ht => agree_Error_finished hW hfW hf ht e) l

theorem ArtistsFinishCheck_of_finished (env : Env) (s : State) (l o r : Int)
    (hf : s.finished_ = true) : ArtistsFinishCheck env s l o r = s := by
  simp [ArtistsFinishCheck, hf]

theorem AlbumsFinishCheck_of_finished (env : Env) (s : State) (a : Artist) (l o n r : Int)
    (hf : s.finished_ = true) : AlbumsFinishCheck env s a l o n r = s := by
  simp [AlbumsFinishCheck, hf]

theorem SongsFinishCheck_of_finished (env : Env) (s : State) (a : Artist) (b : Album)
    (l o n r : Int) (hf : s.finished_ = true) : SongsFinishCheck env s a b l o n r = s := by
  simp [SongsFinishCheck, hf]

theorem GetAlbumCoversCheck_of_finished (env : Env) (s : State) (hf : s.finished_ = true) :
    GetAlbumCoversCheck env s = s := by
  simp [GetAlbumCoversCheck, hf]

theorem AlbumsReceived_of_finished {W : List Field} {s t : State} (env : Env)
    (hW : [Field.replies_, Field.connections, Field.errors_] ⊆ W) (hfW : Field.finished_ ∉ W)
    (hf : s.finished_ = true) (h : AgreeOff W s t) (reply : QNetworkReply) (a : Artist)
    (l o : Int) : AgreeOff W s (AlbumsReceived env t reply a l o) := by
  unfold AlbumsReceived
  split
  · exact h
  · have h1 : AgreeOff W s (GetReplyData (takeReply t reply.handle) reply) :=
      agree_foldl_Error_finished (List.Subset.trans (by decide) hW) hfW hf _ _
        (agree_takeReply (List.Subset.trans (by decide) hW) h _)
    have h2 : (GetReplyData (takeReply t reply.handle) reply).finished_ = true :=
      (h1.finished_ hfW).trans hf
    unfold AlbumsSettled
    rw [if_pos h2]
    exact h1

theorem SongsReceived_of_finished {W : List Field} {s t : State} (env : Env)
    (hW : [Field.replies_, Field.connections, Field.errors_] ⊆ W) (hfW : Field.finished_ ∉ W)
    (hf : s.finished_ = true) (h : AgreeOff W s t) (reply : QNetworkReply) (a : Artist)
    (b : Album) (l o : Int) : AgreeOff W s (SongsReceived env t reply a b l o) := by
  unfold SongsReceived
  split
  · exact h
  · have h1 : AgreeOff W s (GetReplyData (takeReply t reply.handle) reply) :=
      agree_foldl_Error_finished (List.Subset.trans (by decide) hW) hfW hf _ _
        (agree_takeReply (List.Subset.trans (by decide) hW) h _)
    have h2 : (GetReplyData (takeReply t reply.handle) reply).finished_ = true :=
      (h1.finished_ hfW).trans hf
    unfold SongsSettled
    rw [if_pos h2]
    exact h1

theorem AlbumsReceived_emitted_of_finished (env : Env) (t : State) (hf : t.finished_ = true)
    (reply : QNetworkReply) (a : Artist) (l o : Int) :
    (AlbumsReceived env t reply a l o).emitted = t.emitted :=
  (AlbumsReceived_of_finished (W := [Field.replies_, Field.connections, Field.errors_]) env
    (fun _ hx => hx) (by decide) hf (AgreeOff.unchanged _ t) reply a l o).emitted (by decide)

theorem SongsReceived_emitted_of_finished (env : Env) (t : State) (hf : t.finished_ = true)
    (reply : QNetworkReply) (a : Artist) (b : Album) (l o : Int) :
    (SongsReceived env t reply a b l o).emitted = t.emitted :=
  (SongsReceived_of_finished (W := [Field.replies_, Field.connections, Field.errors_]) env
    (fun _ hx => hx) (by decide) hf (AgreeOff.unchanged _ t) reply a b l o).emitted (by decide)

/-- A handler entered with `finished_` set: `FinishCheck`, the stage finish-checks and
`GetAlbumCoversCheck` return the state unchanged, `Error` writes the error log only, and a reply
handler writes at most the reply registry with its connections, the error log and its own
`requests_active_`/`requests_received_` counters; the two sub-fetch handlers also emit their
progress signal, and nothing else is emitted. -/
theorem finished_entry_frozen (env : Env) (s : State) (hf : s.finished_ = true)
    (reply : QNetworkReply) (artist : Artist) (album : Album) (l o n r : Int)
    (url filename e : String) :
    FinishCheck s = s ∧ ArtistsFinishCheck env s l o r = s ∧
    AlbumsFinishCheck env s artist l o n r = s ∧ SongsFinishCheck env s artist album l o n r = s ∧
    AlbumCoverFinishCheck s = s ∧ GetAlbumCoversCheck env s = s ∧
    AgreeOff [Field.errors_] s (Error s e) ∧
    AgreeOff [Field.replies_, Field.connections, Field.errors_, Field.artists_requests_active_,
      Field.artists_requests_received_] s (ArtistsReplyReceived env s reply l o) ∧
    AgreeOff [Field.replies_, Field.connections, Field.errors_, Field.albums_requests_active_,
      Field.albums_requests_received_] s (AlbumsReplyReceived env s reply l o) ∧
    AgreeOff [Field.replies_, Field.connections, Field.errors_, Field.songs_requests_active_,
      Field.songs_requests_received_] s (SongsReplyReceived env s reply l o) ∧
    AgreeOff [Field.replies_, Field.connections, Field.errors_,
      Field.artist_albums_requests_active_, Field.artist_albums_requests_received_,
      Field.emitted] s (ArtistAlbumsReplyReceived env s reply artist o) ∧
    (ArtistAlbumsReplyReceived env s reply artist o).emitted =
      s.emitted ++ [Event.UpdateProgress (Progress.GetProgress
        (s.artist_albums_requests_received_ + 1) s.artist_albums_requests_total_)] ∧
    AgreeOff [Field.replies_, Field.connections, Field.errors_,
      Field.album_songs_requests_active_, Field.album_songs_requests_received_,
      Field.emitted] s (AlbumSongsReplyReceived env s reply artist album o) ∧
    (AlbumSongsReplyReceived env s reply artist album o).emitted =
      (if o = 0 then
        s.emitted ++ [Event.UpdateProgress (Progress.GetProgress
          (s.album_songs_requests_received_ + 1) s.album_songs_requests_total_)]
      else s.emitted) ∧
    AgreeOff [Field.album_cover_replies_, Field.connections,
      Field.album_covers_requests_active_, Field.album_covers_requests_received_] s
      (AlbumCoverReceived env s reply url filename) := by
  refine ⟨FinishCheck_of_finished s hf, ArtistsFinishCheck_of_finished env s l o r hf,
    AlbumsFinishCheck_of_finished env s artist l o n r hf,
    SongsFinishCheck_of_finished env s artist album l o n r hf, FinishCheck_of_finished s hf,
    GetAlbumCoversCheck_of_finished env s hf,
    agree_Error_finished (fun _ hx => hx) (by decide) hf (AgreeOff.unchanged _ s) e,
    ?_, ?_, ?_, ?_, ?_, ?_, ?_, ?_⟩
  · unfold ArtistsReplyReceived
    split
    · exact AgreeOff.unchanged _ s
    · have h1 : AgreeOff [Field.replies_, Field.connections, Field.errors_,
          Field.artists_requests_active_, Field.artists_requests_received_] s
          (artistsSettled (GetReplyData (takeReply s reply.handle) reply)) :=
        agree_artistsSettled (by decide)
          (agree_foldl_Error_finished (by decide) (by decide) hf _ _
            (agree_takeReply (by decide) (AgreeOff.unchanged _ s) _))
      have h2 := (h1.finished_ (by decide)).trans hf
      unfold ArtistsSettled
      rw [if_pos h2]
      exact h1
  · exact AlbumsReceived_of_finished env (by decide) (by decide) hf
      (agree_albumsSettled (by decide) (AgreeOff.unchanged _ s)) reply _ l o
  · exact SongsReceived_of_finished env (by decide) (by decide) hf
      (agree_songsSettled (by decide) (AgreeOff.unchanged _ s)) reply _ _ l o
  · exact AlbumsReceived_of_finished env (by decide) (by decide) hf
      (agree_artistAlbumsProgress (by decide)
        (agree_artistAlbumsSettled (by decide) (AgreeOff.unchanged _ s))) reply artist 0 o
  · unfold ArtistAlbumsReplyReceived
    rw [AlbumsReceived_emitted_of_finished env (artistAlbumsProgress (artistAlbumsSettled s)) hf]
    rfl
  · exact SongsReceived_of_finished env (by decide) (by decide) hf
      (agree_albumSongsProgress (by decide)
        (agree_albumSongsSettled (by decide) (AgreeOff.unchanged _ s)) o) reply artist album 0 o
  · unfold AlbumSongsReplyReceived
    rw [SongsReceived_emitted_of_finished env (albumSongsProgress (albumSongsSettled s) o)
      (by unfold albumSongsProgress; split <;> exact hf)]
    unfold albumSongsProgress
    split <;> rfl
  · unfold AlbumCoverReceived
    split
    · rw [show AlbumCoverFinishCheck s = s from FinishCheck_of_finished s hf]
      exact AgreeOff.unchanged _ s
    · have h1 : AgreeOff [Field.album_cover_replies_, Field.connections,
          Field.album_covers_requests_active_, Field.album_covers_requests_received_] s
          (albumCoverSettled (takeCoverReply s reply.handle)) :=
        agree_albumCoverSettled (by decide)
          (agree_takeCoverReply (by decide) (AgreeOff.unchanged _ s) _)
      have h2 := (h1.finished_ (by decide)).trans hf
      unfold AlbumCoverSettled
      rw [if_pos h2]
      exact h1

/-! ## Pages whose offset differs from the requested one -/

theorem append_ne_empty_left (a b : String) (h : a ≠ "") : a ++ b ≠ "" := by
  intro hab
  apply h
  have h1 := congrArg String.data hab
  rw [String.data_append] at h1
  have h2 : a.data = [] := (List.append_eq_nil.mp h1).1
  cases a
  simp_all

theorem GetReplyData_quiet (s : State) (reply : QNetworkReply) (h : reply.read_errors = []) :
    GetReplyData s reply = s := by
  simp [GetReplyData, h]

theorem ExtractJsonObj_quiet (s : State) (bytes : ReplyBytes) (h : bytes.parse_errors = []) :
    ExtractJsonObj s bytes = s := by
  simp [ExtractJsonObj, h]

theorem FinishCheck_errors (s : State) : (FinishCheck s).errors_ = s.errors_ :=
  (agree_FinishCheck (fun _ h => h) (AgreeOff.unchanged fpFinishCheck s)).errors_ (by decide)

theorem Error_errors (s : State) (e : String) (he : e ≠ "") :
    (Error s e).errors_ = s.errors_ ++ [e] := by
  unfold Error
  rw [FinishCheck_errors, if_pos he]

theorem ArtistsReplyReceived_mismatch (env : Env) (s : State) (reply : QNetworkReply)
    (json_obj obj : QJsonObject) (l o : Int) (hreg : reply.handle ∈ s.replies_)
    (hfin : s.finished_ = false) (hoff : (jsonValue obj "offset").toInt ≠ o)
    (hp : PageReply reply json_obj "artists" obj) :
    ∃ msg, msg ≠ "" ∧
      ArtistsReplyReceived env s reply l o =
        ArtistsFinishCheck env
          (Error
            (if o = 0 then
              artistsTotalStored (artistsSettled (takeReply s reply.handle))
                (jsonValue obj "total").toInt
            else artistsSettled (takeReply s reply.handle)) msg) 0 0 0 := by
  obtain ⟨hre, ⟨bytes, hdata, hpe, hjson⟩, hne, hc, hv, hm⟩ := hp
  subst hjson
  unfold ArtistsReplyReceived
  rw [if_neg (not_not.mpr hreg), GetReplyData_quiet _ _ hre]
  unfold ArtistsSettled
  rw [if_neg (by simp [artistsSettled, takeReply, hfin])]
  simp only [hdata]
  rw [ExtractJsonObj_quiet _ _ hpe]
  unfold ArtistsParsed
  rw [if_neg (by simp [hne]), if_neg (by simp [hc])]
  simp only [hv]
  unfold ArtistsContainer
  rw [if_neg (by simp [hm])]
  by_cases ho : o = 0
  · rw [if_pos ho, if_pos ho]
    unfold ArtistsPage
    rw [if_pos hoff]
    exact ⟨_, append_ne_empty_left _ _ (append_ne_empty_left _ _
      (append_ne_empty_left _ _ (by decide))), rfl⟩
  · rw [if_neg ho, if_neg ho]
    split
    · exact ⟨_, append_ne_empty_left _ _ (append_ne_empty_left _ _
        (append_ne_empty_left _ _ (by decide))), rfl⟩
    · unfold ArtistsPage
      rw [if_pos hoff]
      exact ⟨_, append_ne_empty_left _ _ (append_ne_empty_left _ _
        (append_ne_empty_left _ _ (by decide))), rfl⟩

theorem AlbumsReceived_mismatch (env : Env) (s : State) (reply : QNetworkReply)
    (json_obj obj : QJsonObject) (a : Artist) (l o : Int) (hreg : reply.handle ∈ s.replies_)
    (hfin : s.finished_ = false) (hoff : (jsonValue obj "offset").toInt ≠ o)
    (hp : PageReply reply json_obj "albums" obj)
    (ha : (repliedArtist json_obj a).artist_id = a.artist_id) :
    ∃ msg, msg ≠ "" ∧
      AlbumsReceived env s reply a l o =
        AlbumsFinishCheck env (Error (takeReply s reply.handle) msg) a 0 0 0 0 := by
  obtain ⟨hre, ⟨bytes, hdata, hpe, hjson⟩, hne, hc, hv, hm⟩ := hp
  subst hjson
  unfold AlbumsReceived
  rw [if_neg (not_not.mpr hreg), GetReplyData_quiet _ _ hre]
  unfold AlbumsSettled
  rw [if_neg (by simp [takeReply, hfin])]
  simp only [hdata]
  rw [ExtractJsonObj_quiet _ _ hpe]
  unfold AlbumsParsed
  rw [if_neg (by simp [hne]), if_neg (not_not.mpr ha), if_neg (by simp [hc])]
  simp only [hv]
  unfold AlbumsContainer
  rw [if_neg (by simp [hm]), if_pos hoff]
  exact ⟨_, append_ne_empty_left _ _ (append_ne_empty_left _ _
    (append_ne_empty_left _ _ (by decide))), rfl⟩

theorem SongsReceived_mismatch (env : Env) (s : State) (reply : QNetworkReply)
    (json_obj obj : QJsonObject) (a : Artist) (b : Album) (aa : Artist) (bb : Album) (l o : Int)
    (hreg : reply.handle ∈ s.replies_) (hfin : s.finished_ = false)
    (hoff : (jsonValue obj "offset").toInt ≠ o) (hp : PageReply reply json_obj "tracks" obj)
    (hh : SongsAlbumHeader json_obj a b = Except.ok (aa, bb)) :
    ∃ msg, msg ≠ "" ∧
      SongsReceived env s reply a b l o =
        SongsFinishCheck env (Error (takeReply s reply.handle) msg) aa bb l o
          (jsonValue obj "total").toInt 0 := by
  obtain ⟨hre, ⟨bytes, hdata, hpe, hjson⟩, hne, hc, hv, hm⟩ := hp
  subst hjson
  unfold SongsReceived
  rw [if_neg (not_not.mpr hreg), GetReplyData_quiet _ _ hre]
  unfold SongsSettled
  rw [if_neg (by simp [takeReply, hfin])]
  simp only [hdata]
  rw [ExtractJsonObj_quiet _ _ hpe]
  unfold SongsParsed
  rw [if_neg (by simp [hne]), if_neg (by simp [hc])]
  simp only [hh, hv]
  unfold SongsContainer
  rw [if_neg (by simp [hm]), if_pos hoff]
  exact ⟨_, append_ne_empty_left _ _ (append_ne_empty_left _ _
    (append_ne_empty_left _ _ (by decide))), rfl⟩

theorem ArtistsFinishCheck_pending (env : Env) (t : State) (l o r : Int) :
    (ArtistsFinishCheck env t l o r).artist_albums_requests_pending_ =
        t.artist_albums_requests_pending_ ∨
      (ArtistsFinishCheck env t l o r).artist_albums_requests_pending_ = [] := by
  unfold ArtistsFinishCheck
  split
  · exact Or.inl rfl
  · have h1 := (agree_FinishCheck (fun _ h => h)
      (AgreeOff.unchanged fpFinishCheck (ArtistsRelease (ArtistsNextPage env t l o r)))
      ).artist_albums_requests_pending_ (by decide)
    have h2 := (agree_ArtistsNextPage (fun _ h => h) (AgreeOff.unchanged fpAddArtistsRequest t)
      env l o r).artist_albums_requests_pending_ (by decide)
    rw [h1]
    unfold ArtistsRelease
    split
    · right
      exact (agree_artistAlbumsStatus (fun _ h => h)
        (AgreeOff.unchanged [Field.emitted] _)).artist_albums_requests_pending_ (by decide)
    · exact Or.inl h2

theorem AlbumsFinishCheck_pending (env : Env) (t : State) (a : Artist) (l o n r : Int) :
    (AlbumsFinishCheck env t a l o n r).album_songs_requests_pending_ =
        t.album_songs_requests_pending_ ∨
      (AlbumsFinishCheck env t a l o n r).album_songs_requests_pending_ = [] := by
  unfold AlbumsFinishCheck
  split
  · exact Or.inl rfl
  · have h1 := (agree_FinishCheck (W := fpGetAlbumCovers ++ fpFinishCheck)
      (List.Subset.trans (by decide) (fun _ h => h))
      (agree_GetAlbumCoversCheck (List.Subset.trans (by decide) (fun _ h => h))
        (AgreeOff.unchanged _ (AlbumsRelease (AlbumsNextPage env t a l o n r))) env)
      ).album_songs_requests_pending_ (by decide)
    have h2 := (agree_AlbumsNextPage (fun _ h => h)
      (AgreeOff.unchanged (fpAddAlbumsRequest ++ fpAddArtistAlbumsRequest) t)
      env a l o n r).album_songs_requests_pending_ (by decide)
    rw [h1]
    unfold AlbumsRelease
    split
    · right
      exact (agree_albumSongsStatus (fun _ h => h)
        (AgreeOff.unchanged [Field.emitted] _)).album_songs_requests_pending_ (by decide)
    · exact Or.inl h2

theorem rejected_ArtistsFinishCheck (env : Env) (s y : State) (msg : String) (hm : msg ≠ "")
    (h : AgreeOff fpSettle s y) :
    RejectedPage s (ArtistsFinishCheck env (Error y msg) 0 0 0) := by
  have hE : AgreeOff (fpArtistsFinishCheck ++ fpError) y (Error y msg) :=
    agree_Error (List.Subset.trans (by decide) (fun _ h => h)) (AgreeOff.unchanged _ y) msg
  have hA : AgreeOff (fpArtistsFinishCheck ++ fpError) y
      (ArtistsFinishCheck env (Error y msg) 0 0 0) :=
    agree_ArtistsFinishCheck (List.Subset.trans (by decide) (fun _ h => h)) hE env 0 0 0
  have hF : AgreeOff fpArtistsFinishCheck (Error y msg)
      (ArtistsFinishCheck env (Error y msg) 0 0 0) :=
    agree_ArtistsFinishCheck (fun _ h => h) (AgreeOff.unchanged _ _) env 0 0 0
  refine ⟨⟨msg, hm, ?_⟩, ?_, ?_, ?_, ?_, ?_, ?_, ?_, ?_⟩
  · rw [hF.errors_ (by decide), Error_errors _ _ hm, h.errors_ (by decide)]
  · rw [hA.songs_ (by decide), h.songs_ (by decide)]
  · rw [hA.artists_received_ (by decide), h.artists_received_ (by decide)]
  · rw [hA.albums_received_ (by decide), h.albums_received_ (by decide)]
  · rw [hA.songs_received_ (by decide), h.songs_received_ (by decide)]
  · rw [hA.albums_total_ (by decide), h.albums_total_ (by decide)]
  · rw [hA.songs_total_ (by decide), h.songs_total_ (by decide)]
  · have hp := ArtistsFinishCheck_pending env (Error y msg) 0 0 0
    have he : (Error y msg).artist_albums_requests_pending_ = s.artist_albums_requests_pending_ :=
      ((agree_Error (fun _ h => h) (AgreeOff.unchanged fpError y) msg).artist_albums_requests_pending_
        (by decide)).trans (h.artist_albums_requests_pending_ (by decide))
    rw [he] at hp
    exact hp
  · left
    rw [hA.album_songs_requests_pending_ (by decide), h.album_songs_requests_pending_ (by decide)]

theorem rejected_AlbumsFinishCheck (env : Env) (s y : State) (msg : String) (hm : msg ≠ "")
    (a : Artist) (h : AgreeOff fpSettle s y) :
    RejectedPage s (AlbumsFinishCheck env (Error y msg) a 0 0 0 0) := by
  have hE : AgreeOff (fpAlbumsFinishCheck ++ fpError) y (Error y msg) :=
    agree_Error (List.Subset.trans (by decide) (fun _ h => h)) (AgreeOff.unchanged _ y) msg
  have hA : AgreeOff (fpAlbumsFinishCheck ++ fpError) y
      (AlbumsFinishCheck env (Error y msg) a 0 0 0 0) :=
    agree_AlbumsFinishCheck (List.Subset.trans (by decide) (fun _ h => h)) hE env a 0 0 0 0
  have hF : AgreeOff fpAlbumsFinishCheck (Error y msg)
      (AlbumsFinishCheck env (Error y msg) a 0 0 0 0) :=
    agree_AlbumsFinishCheck (fun _ h => h) (AgreeOff.unchanged _ _) env a 0 0 0 0
  refine ⟨⟨msg, hm, ?_⟩, ?_, ?_, ?_, ?_, ?_, ?_, ?_, ?_⟩
  · rw [hF.errors_ (by decide), Error_errors _ _ hm, h.errors_ (by decide)]
  · rw [hA.songs_ (by decide), h.songs_ (by decide)]
  · rw [hA.artists_received_ (by decide), h.artists_received_ (by decide)]
  · rw [hA.albums_received_ (by decide), h.albums_received_ (by decide)]
  · rw [hA.songs_received_ (by decide), h.songs_received_ (by decide)]
  · rw [hA.albums_total_ (by decide), h.albums_total_ (by decide)]
  · rw [hA.songs_total_ (by decide), h.songs_total_ (by decide)]
  · left
    rw [hA.artist_albums_requests_pending_ (by decide),
      h.artist_albums_requests_pending_ (by decide)]
  · have hp := AlbumsFinishCheck_pending env (Error y msg) a 0 0 0 0
    have he : (Error y msg).album_songs_requests_pending_ = s.album_songs_requests_pending_ :=
      ((agree_Error (fun _ h => h) (AgreeOff.unchanged fpError y) msg).album_songs_requests_pending_
        (by decide)).trans (h.album_songs_requests_pending_ (by decide))
    rw [he] at hp
    exact hp

theorem rejected_SongsFinishCheck (env : Env) (s y : State) (msg : String) (hm : msg ≠ "")
    (a : Artist) (b : Album) (l o n r : Int) (h : AgreeOff fpSettle s y) :
    RejectedPage s (SongsFinishCheck env (Error y msg) a b l o n r) := by
  have hE : AgreeOff (fpSongsFinishCheck ++ fpError) y (Error y msg) :=
    agree_Error (List.Subset.trans (by decide) (fun _ h => h)) (AgreeOff.unchanged _ y) msg
  have hA : AgreeOff (fpSongsFinishCheck ++ fpError) y
      (SongsFinishCheck env (Error y msg) a b l o n r) :=
    agree_SongsFinishCheck (List.Subset.trans (by decide) (fun _ h => h)) hE env a b l o n r
  have hF : AgreeOff fpSongsFinishCheck (Error y msg)
      (SongsFinishCheck env (Error y msg) a b l o n r) :=
    agree_SongsFinishCheck (fun _ h => h) (AgreeOff.unchanged _ _) env a b l o n r
  refine ⟨⟨msg, hm, ?_⟩, ?_, ?_, ?_, ?_, ?_, ?_, ?_, ?_⟩
  · rw [hF.errors_ (by decide), Error_errors _ _ hm, h.errors_ (by decide)]
  · rw [hA.songs_ (by decide), h.songs_ (by decide)]
  · rw [hA.artists_received_ (by decide), h.artists_received_ (by decide)]
  · rw [hA.albums_received_ (by decide), h.albums_received_ (by decide)]
  · rw [hA.songs_received_ (by decide), h.songs_received_ (by decide)]
  · rw [hA.albums_total_ (by decide), h.albums_total_ (by decide)]
  · rw [hA.songs_total_ (by decide), h.songs_total_ (by decide)]
  · left
    rw [hA.artist_albums_requests_pending_ (by decide),
      h.artist_albums_requests_pending_ (by decide)]
  · left
    rw [hA.album_songs_requests_pending_ (by decide), h.album_songs_requests_pending_ (by decide)]

theorem ArtistsFinishCheck_Error_artists_total (env : Env) (y : State) (msg : String) :
    (ArtistsFinishCheck env (Error y msg) 0 0 0).artists_total_ = y.artists_total_ :=
  (agree_ArtistsFinishCheck (W := fpArtistsFinishCheck ++ fpError)
    (List.Subset.trans (by decide) (fun _ h => h))
    (agree_Error (List.Subset.trans (by decide) (fun _ h => h)) (AgreeOff.unchanged _ y) msg)
    env 0 0 0).artists_total_ (by decide)

theorem AlbumsFinishCheck_Error_artists_total (env : Env) (y : State) (msg : String)
    (a : Artist) :
    (AlbumsFinishCheck env (Error y msg) a 0 0 0 0).artists_total_ = y.artists_total_ :=
  (agree_AlbumsFinishCheck (W := fpAlbumsFinishCheck ++ fpError)
    (List.Subset.trans (by decide) (fun _ h => h))
    (agree_Error (List.Subset.trans (by decide) (fun _ h => h)) (AgreeOff.unchanged _ y) msg)
    env a 0 0 0 0).artists_total_ (by decide)

theorem SongsFinishCheck_Error_artists_total (env : Env) (y : State) (msg : String)
    (a : Artist) (b : Album) (l o n r : Int) :
    (SongsFinishCheck env (Error y msg) a b l o n r).artists_total_ = y.artists_total_ :=
  (agree_SongsFinishCheck (W := fpSongsFinishCheck ++ fpError)
    (List.Subset.trans (by decide) (fun _ h => h))
    (agree_Error (List.Subset.trans (by decide) (fun _ h => h)) (AgreeOff.unchanged _ y) msg)
    env a b l o n r).artists_total_ (by decide)

/-- C9 as amended: in every stage a registered reply of an unfinished request whose page reports
an offset other than the requested one is rejected as a whole: one error is logged; the song
map, the items-received counters and the albums and songs totals stay as they were; no entry is
added to a pending set (each stays as it was or is emptied by the release of a drained stage);
and the stored artists total stays as it was, except that `ArtistsReplyReceived` has stored the
page's total before the offset check when the requested offset is 0. -/
theorem offset_mismatch_rejects_page (env : Env) (s : State) (reply : QNetworkReply)
    (json_obj obj : QJsonObject) (artist : Artist) (album : Album) (aa aa1 : Artist)
    (bb bb1 : Album) (l o : Int)
    (hreg : reply.handle ∈ s.replies_) (hfin : s.finished_ = false)
    (hoff : (jsonValue obj "offset").toInt ≠ o) :
    (PageReply reply json_obj "artists" obj →
      RejectedPage s (ArtistsReplyReceived env s reply l o) ∧
      (ArtistsReplyReceived env s reply l o).artists_total_ =
        if o = 0 then (jsonValue obj "total").toInt else s.artists_total_) ∧
    (PageReply reply json_obj "albums" obj →
      (repliedArtist json_obj Artist.empty).artist_id = Artist.empty.artist_id →
      RejectedPage s (AlbumsReplyReceived env s reply l o) ∧
      (AlbumsReplyReceived env s reply l o).artists_total_ = s.artists_total_) ∧
    (PageReply reply json_obj "albums" obj →
      (repliedArtist json_obj artist).artist_id = artist.artist_id →
      RejectedPage s (ArtistAlbumsReplyReceived env s reply artist o) ∧
      (ArtistAlbumsReplyReceived env s reply artist o).artists_total_ = s.artists_total_) ∧
    (PageReply reply json_obj "tracks" obj →
      SongsAlbumHeader json_obj Artist.empty Album.empty = Except.ok (aa, bb) →
      RejectedPage s (SongsReplyReceived env s reply l o) ∧
      (SongsReplyReceived env s reply l o).artists_total_ = s.artists_total_) ∧
    (PageReply reply json_obj "tracks" obj →
      SongsAlbumHeader json_obj artist album = Except.ok (aa1, bb1) →
      RejectedPage s (AlbumSongsReplyReceived env s reply artist album o) ∧
      (AlbumSongsReplyReceived env s reply artist album o).artists_total_ = s.artists_total_) := by
  refine ⟨?_, ?_, ?_, ?_, ?_⟩
  · intro hp
    obtain ⟨msg, hm, he⟩ := ArtistsReplyReceived_mismatch env s reply json_obj obj l o hreg hfin
      hoff hp
    rw [he, ArtistsFinishCheck_Error_artists_total]
    have h0 : AgreeOff fpSettle s (artistsSettled (takeReply s reply.handle)) :=
      agree_artistsSettled (by decide) (agree_takeReply (by decide) (AgreeOff.unchanged _ s) _)
    refine ⟨rejected_ArtistsFinishCheck env s _ msg hm ?_, ?_⟩
    · split
      · exact h0.andThen
          (by constructor <;> intro hn <;> first | rfl | exact absurd (by decide) hn)
      · exact h0
    · split <;> rfl
  · intro hp ha
    unfold AlbumsReplyReceived
    obtain ⟨msg, hm, he⟩ := AlbumsReceived_mismatch env (albumsSettled s) reply json_obj obj
      Artist.empty l o hreg hfin hoff hp ha
    rw [he, AlbumsFinishCheck_Error_artists_total]
    exact ⟨rejected_AlbumsFinishCheck env s _ msg hm _
      (agree_takeReply (by decide) (agree_albumsSettled (by decide) (AgreeOff.unchanged _ s)) _), rfl⟩
  · intro hp ha
    unfold ArtistAlbumsReplyReceived
    obtain ⟨msg, hm, he⟩ := AlbumsReceived_mismatch env
      (artistAlbumsProgress (artistAlbumsSettled s)) reply json_obj obj artist 0 o hreg hfin hoff
      hp ha
    rw [he, AlbumsFinishCheck_Error_artists_total]
    exact ⟨rejected_AlbumsFinishCheck env s _ msg hm _
      (agree_takeReply (by decide) (agree_artistAlbumsProgress (by decide)
        (agree_artistAlbumsSettled (by decide) (AgreeOff.unchanged _ s))) _), rfl⟩
  · intro hp hh
    unfold SongsReplyReceived
    obtain ⟨msg, hm, he⟩ := SongsReceived_mismatch env (songsSettled s) reply json_obj obj
      Artist.empty Album.empty aa bb l o hreg hfin hoff hp hh
    rw [he, SongsFinishCheck_Error_artists_total]
    exact ⟨rejected_SongsFinishCheck env s _ msg hm _ _ _ _ _ _
      (agree_takeReply (by decide) (agree_songsSettled (by decide) (AgreeOff.unchanged _ s)) _), rfl⟩
  · intro hp hh
    unfold AlbumSongsReplyReceived
    have hfin1 : (albumSongsProgress (albumSongsSettled s) o).finished_ = false := by
      unfold albumSongsProgress; split <;> exact hfin
    have hreg1 : reply.handle ∈ (albumSongsProgress (albumSongsSettled s) o).replies_ := by
      unfold albumSongsProgress; split <;> exact hreg
    obtain ⟨msg, hm, he⟩ := SongsReceived_mismatch env
      (albumSongsProgress (albumSongsSettled s) o) reply json_obj obj artist album aa1 bb1 0 o
      hreg1 hfin1 hoff hp hh
    rw [he, SongsFinishCheck_Error_artists_total]
    refine ⟨rejected_SongsFinishCheck env s _ msg hm _ _ _ _ _ _
      (agree_takeReply (by decide) (agree_albumSongsProgress (by decide)
        (agree_albumSongsSettled (by decide) (AgreeOff.unchanged _ s)) o) _), ?_⟩
    unfold albumSongsProgress
    split <;> rfl

/-- The mismatched reply of Scenario E is rejected as a whole by `AlbumSongsReplyReceived`. -/
theorem offset_mismatch_rejects_page_witness :
    RejectedPage (run sampleEnv QueryType_Albums scenarioEInputs)
      (AlbumSongsReplyReceived sampleEnv (run sampleEnv QueryType_Albums scenarioEInputs)
        (sampleReply 3 (samplePage "tracks" 0 10 [sampleTrack "f"]))
        { artist_id := "artist1", artist := "artist" }
        { album_id := "x", album := "album", cover_url := "" } 5) :=
  ((offset_mismatch_rejects_page sampleEnv (run sampleEnv QueryType_Albums scenarioEInputs)
    (sampleReply 3 (samplePage "tracks" 0 10 [sampleTrack "f"]))
    (samplePage "tracks" 0 10 [sampleTrack "f"])
    [("limit", QJsonValue.number 50), ("offset", QJsonValue.number 0),
     ("total", QJsonValue.number 10), ("items", QJsonValue.array [sampleTrack "f"])]
    { artist_id := "artist1", artist := "artist" }
    { album_id := "x", album := "album", cover_url := "" }
    Artist.empty { artist_id := "artist1", artist := "artist" }
    Album.empty { album_id := "x", album := "album", cover_url := "" } 0 5
    (by decide) (by decide) (by decide)).2.2.2.2
    ⟨rfl, ⟨_, rfl, rfl, rfl⟩, rfl, rfl, rfl, rfl⟩ rfl).1

/-- C9 as stated fails twice for the artists stage.  A first page that reports offset 3 is
rejected, yet its total 7 has replaced the stored artists total 0.  And a second page that
reports offset 0 instead of 2 is rejected while the pending set of the two artists of the first
page is emptied into the artist-albums queue. -/
theorem offset_mismatch_changes_total_and_pending :
    (run sampleEnv QueryType_Artists [Input.Tick]).artists_total_ = 0 ∧
    (run sampleEnv QueryType_Artists
      [Input.Tick,
       Input.Finished (sampleReply 0 (samplePage "artists" 3 7 [sampleArtist "p"]))]).artists_total_
      = 7 ∧
    (run sampleEnv QueryType_Artists
      [Input.Tick,
       Input.Finished (sampleReply 0 (samplePage "artists" 3 7 [sampleArtist "p"]))]).errors_ =
      ["Offset returned does not match offset requested! 3 != 0"] ∧
    (run sampleEnv QueryType_Artists secondArtistsPageInputs).artist_albums_requests_pending_.map
      (fun kv => kv.1) = ["p", "q"] ∧
    (run sampleEnv QueryType_Artists
      (secondArtistsPageInputs ++
        [Input.Finished (sampleReply 1 (samplePage "artists" 0 4 [sampleArtist "r"]))])
      ).artist_albums_requests_pending_ = [] ∧
    (run sampleEnv QueryType_Artists
      (secondArtistsPageInputs ++
        [Input.Finished (sampleReply 1 (samplePage "artists" 0 4 [sampleArtist "r"]))])
      ).errors_ = ["Offset returned does not match offset requested! 0 != 2"] := by
  decide

/-! ## Scenario E: the songs stage requests the rejected page again -/

/-- C10 (the code at the failing input): the album-songs reply that reports offset 0 for the
requested offset 5 is logged and counted (active count 2 to 1), and `SongsFinishCheck` queues
the cursor at offset 5 again: the album-songs queue, empty before the reply, holds it
afterwards, and `album_songs_requests_total_` goes from 3 to 4. -/
theorem scenarioE_requests_the_page_again :
    (run sampleEnv QueryType_Albums scenarioEInputs).album_songs_requests_queue_ = [] ∧
    (run sampleEnv QueryType_Albums scenarioEInputs).album_songs_requests_active_ = 2 ∧
    (run sampleEnv QueryType_Albums scenarioEInputs).album_songs_requests_total_ = 3 ∧
    (run sampleEnv QueryType_Albums scenarioEInputs).finished_ = false ∧
    (run sampleEnv QueryType_Albums (scenarioEInputs ++ [scenarioEMismatch])
      ).album_songs_requests_queue_ =
      [{ artist := { artist_id := "artist1", artist := "artist" },
         album := { album_id := "x", album := "album", cover_url := "" },
         offset := 5, limit := 0 }] ∧
    (run sampleEnv QueryType_Albums (scenarioEInputs ++ [scenarioEMismatch])
      ).album_songs_requests_active_ = 1 ∧
    (run sampleEnv QueryType_Albums (scenarioEInputs ++ [scenarioEMismatch])
      ).album_songs_requests_total_ = 4 ∧
    (run sampleEnv QueryType_Albums (scenarioEInputs ++ [scenarioEMismatch])).errors_ =
      ["Offset returned does not match offset requested! 0 != 5"] := by
  decide

/-! ## Scenario A: an empty first page -/

theorem first_flush_artists (env : Env) :
    step env (Process env (State.init QueryType_Artists)) Input.Tick =
      { State.init QueryType_Artists with
        timer_active := true, artists_requests_total_ := 1, artists_requests_active_ := 1,
        replies_ := [0], connections := [(0, Callback.Artists 0 0)], next_reply := 1,
        emitted := [Event.UpdateStatus "Receiving artists...",
                    Event.UpdateProgress Progress.Zero] } := rfl

theorem first_flush_albums (env : Env) :
    step env (Process env (State.init QueryType_Albums)) Input.Tick =
      { State.init QueryType_Albums with
        timer_active := true, albums_requests_total_ := 1, albums_requests_active_ := 1,
        replies_ := [0], connections := [(0, Callback.Albums 0 0)], next_reply := 1,
        emitted := [Event.UpdateStatus "Receiving albums...",
                    Event.UpdateProgress Progress.Zero] } := rfl

theorem first_flush_songs (env : Env) :
    step env (Process env (State.init QueryType_Songs)) Input.Tick =
      { State.init QueryType_Songs with
        timer_active := true, songs_requests_total_ := 1, songs_requests_active_ := 1,
        replies_ := [0], connections := [(0, Callback.Songs 0 0)], next_reply := 1,
        emitted := [Event.UpdateStatus "Receiving songs...",
                    Event.UpdateProgress Progress.Zero] } := rfl

theorem step_Finished (env : Env) (s : State) (reply : QNetworkReply) (slot : Callback)
    (rest : List (Nat × Callback)) (hs : s.connections = (reply.handle, slot) :: rest) :
    step env s (Input.Finished reply) = dispatch env s reply slot := by
  simp [step, hs]

theorem ArtistsReplyReceived_first_empty (env : Env) (s : State) (reply : QNetworkReply)
    (json_obj obj : QJsonObject) (l : Int) (hreg : reply.handle ∈ s.replies_)
    (hfin : s.finished_ = false) (hp : PageReply reply json_obj "artists" obj)
    (hoff : (jsonValue obj "offset").toInt = 0)
    (hitems : jsonValue obj "items" = QJsonValue.array []) :
    ArtistsReplyReceived env s reply l 0 =
      ArtistsFinishCheck env
        (noResults (artistsProgress (artistsTotalStored (artistsSettled (takeReply s reply.handle))
          (jsonValue obj "total").toInt))) 0 0 0 := by
  obtain ⟨hre, ⟨bytes, hdata, hpe, hjson⟩, hne, hc, hv, hm⟩ := hp
  subst hjson
  unfold ArtistsReplyReceived
  rw [if_neg (not_not.mpr hreg), GetReplyData_quiet _ _ hre]
  unfold ArtistsSettled
  rw [if_neg (by simp [artistsSettled, takeReply, hfin])]
  simp only [hdata]
  rw [ExtractJsonObj_quiet _ _ hpe]
  unfold ArtistsParsed
  rw [if_neg (by simp [hne]), if_neg (by simp [hc])]
  simp only [hv]
  unfold ArtistsContainer
  rw [if_neg (by simp [hm]), if_pos rfl]
  unfold ArtistsPage
  rw [if_neg (not_not.mpr hoff), if_pos rfl]
  unfold ArtistsItems ExtractItems
  simp only [hitems]
  rfl

theorem AlbumsReceived_first_empty (env : Env) (s : State) (reply : QNetworkReply)
    (json_obj obj : QJsonObject) (a : Artist) (l : Int) (hreg : reply.handle ∈ s.replies_)
    (hfin : s.finished_ = false) (hp : PageReply reply json_obj "albums" obj)
    (ha : (repliedArtist json_obj a).artist_id = a.artist_id)
    (hoff : (jsonValue obj "offset").toInt = 0)
    (hitems : jsonValue obj "items" = QJsonValue.array [])
    (ht : s.type_ = QueryType_Albums) :
    AlbumsReceived env s reply a l 0 =
      AlbumsFinishCheck env (noResults (takeReply s reply.handle)) a 0 0 0 0 := by
  obtain ⟨hre, ⟨bytes, hdata, hpe, hjson⟩, hne, hc, hv, hm⟩ := hp
  subst hjson
  unfold AlbumsReceived
  rw [if_neg (not_not.mpr hreg), GetReplyData_quiet _ _ hre]
  unfold AlbumsSettled
  rw [if_neg (by simp [takeReply, hfin])]
  simp only [hdata]
  rw [ExtractJsonObj_quiet _ _ hpe]
  unfold AlbumsParsed
  rw [if_neg (by simp [hne]), if_neg (not_not.mpr ha), if_neg (by simp [hc])]
  simp only [hv]
  unfold AlbumsContainer
  rw [if_neg (by simp [hm]), if_neg (not_not.mpr hoff)]
  unfold ExtractItems
  simp only [hitems]
  have h2 : (takeReply s reply.handle).type_ = QueryType_Albums := ht
  simp [h2]

theorem SongsReceived_first_empty (env : Env) (s : State) (reply : QNetworkReply)
    (json_obj obj : QJsonObject) (a : Artist) (b : Album) (aa : Artist) (bb : Album) (l : Int)
    (hreg : reply.handle ∈ s.replies_) (hfin : s.finished_ = false)
    (hp : PageReply reply json_obj "tracks" obj)
    (hh : SongsAlbumHeader json_obj a b = Except.ok (aa, bb))
    (hoff : (jsonValue obj "offset").toInt = 0)
    (hitems : jsonValue obj "items" = QJsonValue.array [])
    (ht : s.type_ = QueryType_Songs) :
    SongsReceived env s reply a b l 0 =
      SongsFinishCheck env (noResults (takeReply s reply.handle)) aa bb l 0
        (jsonValue obj "total").toInt 0 := by
  obtain ⟨hre, ⟨bytes, hdata, hpe, hjson⟩, hne, hc, hv, hm⟩ := hp
  subst hjson
  unfold SongsReceived
  rw [if_neg (not_not.mpr hreg), GetReplyData_quiet _ _ hre]
  unfold SongsSettled
  rw [if_neg (by simp [takeReply, hfin])]
  simp only [hdata]
  rw [ExtractJsonObj_quiet _ _ hpe]
  unfold SongsParsed
  rw [if_neg (by simp [hne]), if_neg (by simp [hc])]
  simp only [hh, hv]
  unfold SongsContainer
  rw [if_neg (by simp [hm]), if_neg (not_not.mpr hoff)]
  unfold ExtractItems
  simp only [hitems]
  have h2 : (takeReply s reply.handle).type_ = QueryType_Songs := ht
  simp [h2]

theorem scenarioA_artists (env : Env) (reply : QNetworkReply) (json_obj obj : QJsonObject)
    (hh : reply.handle = 0) (hp : PageReply reply json_obj "artists" obj)
    (hoff : (jsonValue obj "offset").toInt = 0) (htot : (jsonValue obj "total").toInt = 0)
    (hitems : jsonValue obj "items" = QJsonValue.array []) :
    run env QueryType_Artists [Input.Tick, Input.Finished reply] =
      { State.init QueryType_Artists with
        finished_ := true, no_results_ := true,
        artists_requests_total_ := 1, artists_requests_received_ := 1, next_reply := 1,
        emitted := [Event.UpdateStatus "Receiving artists...", Event.UpdateProgress Progress.Zero,
                    Event.UpdateProgress (Progress.GetProgress 0 0), Event.Results [] ""] } := by
  have h1 : run env QueryType_Artists [Input.Tick, Input.Finished reply] =
      step env (step env (Process env (State.init QueryType_Artists)) Input.Tick)
        (Input.Finished reply) := rfl
  rw [h1, first_flush_artists,
    step_Finished env _ reply (Callback.Artists 0 0) [] (by rw [hh])]
  show ArtistsReplyReceived env _ reply 0 0 = _
  rw [ArtistsReplyReceived_first_empty env _ reply json_obj obj 0 (by rw [hh]; decide) rfl hp hoff
    hitems, htot, hh]
  rfl

theorem scenarioA_albums (env : Env) (reply : QNetworkReply) (json_obj obj : QJsonObject)
    (hh : reply.handle = 0) (hp : PageReply reply json_obj "albums" obj)
    (ha : (repliedArtist json_obj Artist.empty).artist_id = Artist.empty.artist_id)
    (hoff : (jsonValue obj "offset").toInt = 0)
    (hitems : jsonValue obj "items" = QJsonValue.array []) :
    run env QueryType_Albums [Input.Tick, Input.Finished reply] =
      { State.init QueryType_Albums with
        finished_ := true, no_results_ := true,
        albums_requests_total_ := 1, albums_requests_received_ := 1, next_reply := 1,
        emitted := [Event.UpdateStatus "Receiving albums...", Event.UpdateProgress Progress.Zero] ++
          (if env.download_album_covers = true then
            [Event.UpdateStatus "Receiving album covers for 0 albums...",
             Event.UpdateProgress Progress.Zero]
          else []) ++ [Event.Results [] ""] } := by
  have h1 : run env QueryType_Albums [Input.Tick, Input.Finished reply] =
      step env (step env (Process env (State.init QueryType_Albums)) Input.Tick)
        (Input.Finished reply) := rfl
  rw [h1, first_flush_albums,
    step_Finished env _ reply (Callback.Albums 0 0) [] (by rw [hh])]
  show AlbumsReceived env (albumsSettled _) reply Artist.empty 0 0 = _
  rw [AlbumsReceived_first_empty env _ reply json_obj obj Artist.empty 0 (by rw [hh]; decide) rfl
    hp ha hoff hitems rfl, hh]
  obtain ⟨dl, x1, x2, x3, x4, x5, x6, x7, x8⟩ := env
  cases dl <;> rfl

theorem scenarioA_songs (env : Env) (reply : QNetworkReply) (json_obj obj : QJsonObject)
    (aa : Artist) (bb : Album)
    (hh : reply.handle = 0) (hp : PageReply reply json_obj "tracks" obj)
    (hhd : SongsAlbumHeader json_obj Artist.empty Album.empty = Except.ok (aa, bb))
    (hoff : (jsonValue obj "offset").toInt = 0) (htot : (jsonValue obj "total").toInt = 0)
    (hitems : jsonValue obj "items" = QJsonValue.array []) :
    run env QueryType_Songs [Input.Tick, Input.Finished reply] =
      { State.init QueryType_Songs with
        finished_ := true, no_results_ := true,
        songs_requests_total_ := 1, songs_requests_received_ := 1, next_reply := 1,
        emitted := [Event.UpdateStatus "Receiving songs...", Event.UpdateProgress Progress.Zero] ++
          (if env.download_album_covers = true then
            [Event.UpdateStatus "Receiving album covers for 0 albums...",
             Event.UpdateProgress Progress.Zero]
          else []) ++ [Event.Results [] ""] } := by
  have h1 : run env QueryType_Songs [Input.Tick, Input.Finished reply] =
      step env (step env (Process env (State.init QueryType_Songs)) Input.Tick)
        (Input.Finished reply) := rfl
  rw [h1, first_flush_songs,
    step_Finished env _ reply (Callback.Songs 0 0) [] (by rw [hh])]
  show SongsReceived env (songsSettled _) reply Artist.empty Album.empty 0 0 = _
  rw [SongsReceived_first_empty env _ reply json_obj obj Artist.empty Album.empty aa bb 0
    (by rw [hh]; decide) rfl hp hhd hoff hitems rfl, hh, htot]
  obtain ⟨dl, x1, x2, x3, x4, x5, x6, x7, x8⟩ := env
  cases dl <;> rfl

/-- C6 (Scenario A): a direct artists, albums or songs query whose first request (handle 0) is
answered by a well-formed page reporting offset 0 and total 0 with an empty items array
finalizes on that reply with the no-match outcome: one `Results` with an empty song map and an
empty error string, an empty error log, empty queues, and no request queued beyond the first. -/
theorem scenarioA_no_match (env : Env) (reply : QNetworkReply) (json_obj obj : QJsonObject)
    (aa : Artist) (bb : Album) (hh : reply.handle = 0)
    (hoff : (jsonValue obj "offset").toInt = 0) (htot : (jsonValue obj "total").toInt = 0)
    (hitems : jsonValue obj "items" = QJsonValue.array []) :
    (PageReply reply json_obj "artists" obj →
      FinalizedNoMatch (run env QueryType_Artists [Input.Tick, Input.Finished reply])) ∧
    (PageReply reply json_obj "albums" obj →
      (repliedArtist json_obj Artist.empty).artist_id = Artist.empty.artist_id →
      FinalizedNoMatch (run env QueryType_Albums [Input.Tick, Input.Finished reply])) ∧
    (PageReply reply json_obj "tracks" obj →
      SongsAlbumHeader json_obj Artist.empty Album.empty = Except.ok (aa, bb) →
      FinalizedNoMatch (run env QueryType_Songs [Input.Tick, Input.Finished reply])) := by
  refine ⟨?_, ?_, ?_⟩
  · intro hp
    rw [scenarioA_artists env reply json_obj obj hh hp hoff htot hitems]
    unfold FinalizedNoMatch
    decide
  · intro hp ha
    rw [scenarioA_albums env reply json_obj obj hh hp ha hoff hitems]
    unfold FinalizedNoMatch resultsCount
    cases env.download_album_covers <;> simp [State.init, isResults]
  · intro hp hhd
    rw [scenarioA_songs env reply json_obj obj aa bb hh hp hhd hoff htot hitems]
    unfold FinalizedNoMatch resultsCount
    cases env.download_album_covers <;> simp [State.init, isResults]

/-- The empty first pages of the three direct listings, served by the sample service. -/
theorem scenarioA_no_match_witness :
    FinalizedNoMatch (run sampleEnv QueryType_Artists
      [Input.Tick, Input.Finished (sampleReply 0 (samplePage "artists" 0 0 []))]) ∧
    FinalizedNoMatch (run sampleEnv QueryType_Albums
      [Input.Tick, Input.Finished (sampleReply 0 (samplePage "artists" 0 0 [] ++
        samplePage "albums" 0 0 [] ++ samplePage "tracks" 0 0 []))]) :=
  ⟨(scenarioA_no_match sampleEnv (sampleReply 0 (samplePage "artists" 0 0 []))
      (samplePage "artists" 0 0 [])
      [("limit", QJsonValue.number 50), ("offset", QJsonValue.number 0),
       ("total", QJsonValue.number 0), ("items", QJsonValue.array [])]
      Artist.empty Album.empty rfl rfl rfl rfl).1 ⟨rfl, ⟨_, rfl, rfl, rfl⟩, rfl, rfl, rfl, rfl⟩,
   (scenarioA_no_match sampleEnv (sampleReply 0 (samplePage "artists" 0 0 [] ++
      samplePage "albums" 0 0 [] ++ samplePage "tracks" 0 0 []))
      (samplePage "artists" 0 0 [] ++ samplePage "albums" 0 0 [] ++ samplePage "tracks" 0 0 [])
      [("limit", QJsonValue.number 50), ("offset", QJsonValue.number 0),
       ("total", QJsonValue.number 0), ("items", QJsonValue.array [])]
      Artist.empty Album.empty rfl rfl rfl rfl).2.1 ⟨rfl, ⟨_, rfl, rfl, rfl⟩, rfl, rfl, rfl, rfl⟩
      rfl⟩

/-! ## Next-page cursors stay below the reported total -/

theorem RePaged.of_at {α : Type} {offset : α → Int} {before after : List α} {next total : Int}
    (h : after = before ∨
      (0 < next ∧ next < total ∧ ∃ c, after = before ++ [c] ∧ offset c = next)) :
    RePaged offset before after total := by
  rcases h with h | ⟨h1, h2, c, h3, h4⟩
  · exact Or.inl h
  · exact Or.inr ⟨c, h3, h4 ▸ h1, h4 ▸ h2⟩

theorem RePaged.zero {α : Type} (offset : α → Int) (before after : List α) (total : Int)
    (h : RePaged offset before after 0) : RePaged offset before after total := by
  rcases h with h | ⟨c, _, h1, h2⟩
  · exact Or.inl h
  · omega

theorem same_of_at {α : Type} {offset : α → Int} {before after : List α} {total : Int}
    (h : after = before ∨
      (0 < (0 : Int) + 0 ∧ (0 : Int) + 0 < total ∧ ∃ c, after = before ++ [c] ∧ offset c = 0 + 0)) :
    after = before := by
  rcases h with h | ⟨h1, _⟩
  · exact h
  · omega

theorem AddArtistsRequest_queue (s : State) (o l : Int) :
    (AddArtistsRequest s o l).artists_requests_queue_ =
      s.artists_requests_queue_ ++ [{ offset := o, limit := l }] := by
  unfold AddArtistsRequest StartRequests
  split <;> rfl

theorem AddAlbumsRequest_queue (s : State) (o l : Int) :
    (AddAlbumsRequest s o l).albums_requests_queue_ =
      s.albums_requests_queue_ ++ [{ offset := o, limit := l }] := by
  unfold AddAlbumsRequest StartRequests
  split <;> rfl

theorem AddSongsRequest_queue (s : State) (o l : Int) :
    (AddSongsRequest s o l).songs_requests_queue_ =
      s.songs_requests_queue_ ++ [{ offset := o, limit := l }] := by
  unfold AddSongsRequest StartRequests
  split <;> rfl

theorem AddArtistAlbumsRequest_queue (s : State) (a : Artist) (o : Int) :
    (AddArtistAlbumsRequest s a o).artist_albums_requests_queue_ =
      s.artist_albums_requests_queue_ ++ [{ artist := a, offset := o, limit := 0 }] := by
  unfold AddArtistAlbumsRequest StartRequests
  split <;> rfl

theorem AddAlbumSongsRequest_queue (s : State) (a : Artist) (b : Album) (o : Int) :
    (AddAlbumSongsRequest s a b o).album_songs_requests_queue_ =
      s.album_songs_requests_queue_ ++ [{ artist := a, album := b, offset := o, limit := 0 }] := by
  unfold AddAlbumSongsRequest StartRequests
  split <;> rfl

theorem ArtistsNextPage_queue (env : Env) (s : State) (l o r : Int) :
    (ArtistsNextPage env s l o r).artists_requests_queue_ = s.artists_requests_queue_ ∨
      (0 < o + r ∧ o + r < s.artists_total_ ∧
        ∃ c, (ArtistsNextPage env s l o r).artists_requests_queue_ =
          s.artists_requests_queue_ ++ [c] ∧ c.offset = o + r) := by
  unfold ArtistsNextPage AddArtistsSearchRequest
  by_cases h1 : (l = 0 ∨ l > r) ∧ s.artists_received_ < s.artists_total_
  · rw [if_pos h1]
    by_cases h2 : o + r > 0 ∧ o + r < s.artists_total_
    · rw [if_pos h2]
      split
      · exact Or.inr ⟨h2.1, h2.2, _, AddArtistsRequest_queue _ _ _, rfl⟩
      · split
        · exact Or.inr ⟨h2.1, h2.2, _, AddArtistsRequest_queue _ _ _, rfl⟩
        · exact Or.inl rfl
    · rw [if_neg h2]
      exact Or.inl rfl
  · rw [if_neg h1]
    exact Or.inl rfl

theorem AlbumsNextPage_queue (env : Env) (s : State) (a : Artist) (l o n r : Int) :
    ((AlbumsNextPage env s a l o n r).albums_requests_queue_ = s.albums_requests_queue_ ∨
      (0 < o + r ∧ o + r < n ∧
        ∃ c, (AlbumsNextPage env s a l o n r).albums_requests_queue_ =
          s.albums_requests_queue_ ++ [c] ∧ c.offset = o + r)) ∧
    ((AlbumsNextPage env s a l o n r).artist_albums_requests_queue_ =
        s.artist_albums_requests_queue_ ∨
      (0 < o + r ∧ o + r < n ∧
        ∃ c, (AlbumsNextPage env s a l o n r).artist_albums_requests_queue_ =
          s.artist_albums_requests_queue_ ++ [c] ∧ c.offset = o + r)) := by
  unfold AlbumsNextPage AddAlbumsSearchRequest
  by_cases h1 : l = 0 ∨ l > r
  · rw [if_pos h1]
    by_cases h2 : o + r > 0 ∧ o + r < n
    · rw [if_pos h2]
      split
      · exact ⟨Or.inr ⟨h2.1, h2.2, _, AddAlbumsRequest_queue _ _ _, rfl⟩,
          Or.inl ((agree_AddAlbumsRequest (fun _ h => h) (AgreeOff.unchanged _ s) _
            _).artist_albums_requests_queue_ (by decide))⟩
      · exact ⟨Or.inr ⟨h2.1, h2.2, _, AddAlbumsRequest_queue _ _ _, rfl⟩,
          Or.inl ((agree_AddAlbumsRequest (fun _ h => h) (AgreeOff.unchanged _ s) _
            _).artist_albums_requests_queue_ (by decide))⟩
      · exact ⟨Or.inl ((agree_AddArtistAlbumsRequest (fun _ h => h) (AgreeOff.unchanged _ s) _
            _).albums_requests_queue_ (by decide)),
          Or.inr ⟨h2.1, h2.2, _, AddArtistAlbumsRequest_queue _ _ _, rfl⟩⟩
      · exact ⟨Or.inl ((agree_AddArtistAlbumsRequest (fun _ h => h) (AgreeOff.unchanged _ s) _
            _).albums_requests_queue_ (by decide)),
          Or.inr ⟨h2.1, h2.2, _, AddArtistAlbumsRequest_queue _ _ _, rfl⟩⟩
      · exact ⟨Or.inl rfl, Or.inl rfl⟩
    · rw [if_neg h2]
      exact ⟨Or.inl rfl, Or.inl rfl⟩
  · rw [if_neg h1]
    exact ⟨Or.inl rfl, Or.inl rfl⟩

theorem SongsNextPage_queue (env : Env) (s : State) (a : Artist) (b : Album) (l o n r : Int) :
    ((SongsNextPage env s a b l o n r).songs_requests_queue_ = s.songs_requests_queue_ ∨
      (0 < o + r ∧ o + r < n ∧
        ∃ c, (SongsNextPage env s a b l o n r).songs_requests_queue_ =
          s.songs_requests_queue_ ++ [c] ∧ c.offset = o + r)) ∧
    ((SongsNextPage env s a b l o n r).album_songs_requests_queue_ =
        s.album_songs_requests_queue_ ∨
      (0 < o + r ∧ o + r < n ∧
        ∃ c, (SongsNextPage env s a b l o n r).album_songs_requests_queue_ =
          s.album_songs_requests_queue_ ++ [c] ∧ c.offset = o + r)) := by
  unfold SongsNextPage AddSongsSearchRequest
  by_cases h1 : l = 0 ∨ l > r
  · rw [if_pos h1]
    by_cases h2 : o + r > 0 ∧ o + r < n
    · rw [if_pos h2]
      split
      · exact ⟨Or.inr ⟨h2.1, h2.2, _, AddSongsRequest_queue _ _ _, rfl⟩,
          Or.inl ((agree_AddSongsRequest (fun _ h => h) (AgreeOff.unchanged _ s) _
            _).album_songs_requests_queue_ (by decide))⟩
      · exact ⟨Or.inr ⟨h2.1, h2.2, _, AddSongsRequest_queue _ _ _, rfl⟩,
          Or.inl ((agree_AddSongsRequest (fun _ h => h) (AgreeOff.unchanged _ s) _
            _).album_songs_requests_queue_ (by decide))⟩
      · exact ⟨Or.inl ((agree_AddAlbumSongsRequest (fun _ h => h) (AgreeOff.unchanged _ s) _ _
            _).songs_requests_queue_ (by decide)),
          Or.inr ⟨h2.1, h2.2, _, AddAlbumSongsRequest_queue _ _ _ _, rfl⟩⟩
      · exact ⟨Or.inl ((agree_AddAlbumSongsRequest (fun _ h => h) (AgreeOff.unchanged _ s) _ _
            _).songs_requests_queue_ (by decide)),
          Or.inr ⟨h2.1, h2.2, _, AddAlbumSongsRequest_queue _ _ _ _, rfl⟩⟩
      · exact ⟨Or.inl ((agree_AddAlbumSongsRequest (fun _ h => h) (AgreeOff.unchanged _ s) _ _
            _).songs_requests_queue_ (by decide)),
          Or.inr ⟨h2.1, h2.2, _, AddAlbumSongsRequest_queue _ _ _ _, rfl⟩⟩
      · exact ⟨Or.inl ((agree_AddAlbumSongsRequest (fun _ h => h) (AgreeOff.unchanged _ s) _ _
            _).songs_requests_queue_ (by decide)),
          Or.inr ⟨h2.1, h2.2, _, AddAlbumSongsRequest_queue _ _ _ _, rfl⟩⟩
      · exact ⟨Or.inl rfl, Or.inl rfl⟩
    · rw [if_neg h2]
      exact ⟨Or.inl rfl, Or.inl rfl⟩
  · rw [if_neg h1]
    exact ⟨Or.inl rfl, Or.inl rfl⟩

theorem ArtistsFinishCheck_queue (env : Env) (s : State) (l o r : Int) :
    (ArtistsFinishCheck env s l o r).artists_requests_queue_ = s.artists_requests_queue_ ∨
      (0 < o + r ∧ o + r < s.artists_total_ ∧
        ∃ c, (ArtistsFinishCheck env s l o r).artists_requests_queue_ =
          s.artists_requests_queue_ ++ [c] ∧ c.offset = o + r) := by
  unfold ArtistsFinishCheck
  split
  · exact Or.inl rfl
  · rw [(agree_FinishCheck
      (List.Subset.trans (by decide) (fun _ h => h))
      (agree_ArtistsRelease (W := fpAddArtistAlbumsRequest ++
          [Field.artist_albums_requests_pending_, Field.emitted] ++ fpFinishCheck)
        (List.Subset.trans (by decide) (fun _ h => h))
        (AgreeOff.unchanged _ (ArtistsNextPage env s l o r)))).artists_requests_queue_ (by decide)]
    exact ArtistsNextPage_queue env s l o r

theorem AlbumsFinishCheck_queue (env : Env) (s : State) (a : Artist) (l o n r : Int) :
    ((AlbumsFinishCheck env s a l o n r).albums_requests_queue_ = s.albums_requests_queue_ ∨
      (0 < o + r ∧ o + r < n ∧
        ∃ c, (AlbumsFinishCheck env s a l o n r).albums_requests_queue_ =
          s.albums_requests_queue_ ++ [c] ∧ c.offset = o + r)) ∧
    ((AlbumsFinishCheck env s a l o n r).artist_albums_requests_queue_ =
        s.artist_albums_requests_queue_ ∨
      (0 < o + r ∧ o + r < n ∧
        ∃ c, (AlbumsFinishCheck env s a l o n r).artist_albums_requests_queue_ =
          s.artist_albums_requests_queue_ ++ [c] ∧ c.offset = o + r)) := by
  unfold AlbumsFinishCheck
  split
  · exact ⟨Or.inl rfl, Or.inl rfl⟩
  · have h := agree_FinishCheck
      (List.Subset.trans (by decide) (fun _ h => h))
      (agree_GetAlbumCoversCheck (List.Subset.trans (by decide) (fun _ h => h))
        (agree_AlbumsRelease (W := fpAddAlbumSongsRequest ++
            [Field.album_songs_requests_pending_, Field.emitted] ++ fpGetAlbumCovers ++
            fpFinishCheck)
          (List.Subset.trans (by decide) (fun _ h => h))
          (AgreeOff.unchanged _ (AlbumsNextPage env s a l o n r))) env)
    rw [h.albums_requests_queue_ (by decide), h.artist_albums_requests_queue_ (by decide)]
    exact AlbumsNextPage_queue env s a l o n r

theorem SongsFinishCheck_queue (env : Env) (s : State) (a : Artist) (b : Album)
    (l o n r : Int) :
    ((SongsFinishCheck env s a b l o n r).songs_requests_queue_ = s.songs_requests_queue_ ∨
      (0 < o + r ∧ o + r < n ∧
        ∃ c, (SongsFinishCheck env s a b l o n r).songs_requests_queue_ =
          s.songs_requests_queue_ ++ [c] ∧ c.offset = o + r)) ∧
    ((SongsFinishCheck env s a b l o n r).album_songs_requests_queue_ =
        s.album_songs_requests_queue_ ∨
      (0 < o + r ∧ o + r < n ∧
        ∃ c, (SongsFinishCheck env s a b l o n r).album_songs_requests_queue_ =
          s.album_songs_requests_queue_ ++ [c] ∧ c.offset = o + r)) := by
  unfold SongsFinishCheck
  split
  · exact ⟨Or.inl rfl, Or.inl rfl⟩
  · have h := agree_FinishCheck
      (List.Subset.trans (by decide) (fun _ h => h))
      (agree_GetAlbumCoversCheck (W := fpGetAlbumCovers ++ fpFinishCheck)
        (List.Subset.trans (by decide) (fun _ h => h))
        (AgreeOff.unchanged _ (SongsNextPage env s a b l o n r)) env)
    rw [h.songs_requests_queue_ (by decide), h.album_songs_requests_queue_ (by decide)]
    exact SongsNextPage_queue env s a b l o n r

theorem ArtistsFinishCheck_repaged_agree (env : Env) {t y : State} {q : List Request} {T : Int}
    (hq : t.artists_requests_queue_ = q) (hT : t.artists_total_ = T)
    (l o r : Int) (hy : AgreeOff fpArtistsPage t y) :
    RePaged Request.offset q (ArtistsFinishCheck env y l o r).artists_requests_queue_ T := by
  rw [← hq, ← hT, ← hy.artists_requests_queue_ (by decide), ← hy.artists_total_ (by decide)]
  exact RePaged.of_at (ArtistsFinishCheck_queue env y l o r)

theorem ArtistsFinishCheck_same_agree (env : Env) {t y : State} {q : List Request} (T : Int)
    (hq : t.artists_requests_queue_ = q) (hy : AgreeOff fpArtistsPage t y) :
    RePaged Request.offset q (ArtistsFinishCheck env y 0 0 0).artists_requests_queue_ T := by
  rw [← hq, ← hy.artists_requests_queue_ (by decide)]
  exact Or.inl (same_of_at (ArtistsFinishCheck_queue env y 0 0 0))

theorem Error_artists_queue (s : State) (e : String) :
    (Error s e).artists_requests_queue_ = s.artists_requests_queue_ :=
  (agree_Error (fun _ h => h) (AgreeOff.unchanged fpError s) e).artists_requests_queue_ (by decide)

theorem ArtistsItems_repaged (env : Env) {t y : State} {q : List Request} {T : Int}
    (hq : t.artists_requests_queue_ = q) (hT : t.artists_total_ = T)
    (hy : AgreeOff fpArtistsPage t y) (obj : QJsonObject) (l o : Int) :
    RePaged Request.offset q (ArtistsItems env y obj l o).artists_requests_queue_ T := by
  unfold ArtistsItems
  repeat' first
    | with_reducible apply ArtistsFinishCheck_repaged_agree env hq hT
    | with_reducible apply agree_artistsProgress (by decide)
    | with_reducible apply agree_artistsCounted (by decide)
    | with_reducible apply agree_foldl ArtistsItem (fun _ b ht => agree_ArtistsItem (by decide) ht b)
    | split
    | exact hy
    | exact hy.andThen (by constructor <;> intro hn <;> first | rfl | exact absurd (by decide) hn)

theorem ArtistsPage_repaged (env : Env) {t y : State} {q : List Request} {T : Int}
    (hq : t.artists_requests_queue_ = q) (hT : t.artists_total_ = T)
    (hy : AgreeOff fpArtistsPage t y) (obj : QJsonObject) (l o : Int) :
    RePaged Request.offset q (ArtistsPage env y obj l o).artists_requests_queue_ T := by
  unfold ArtistsPage
  repeat' first
    | with_reducible apply ArtistsFinishCheck_repaged_agree env hq hT
    | with_reducible apply ArtistsItems_repaged env hq hT
    | with_reducible apply agree_artistsProgress (by decide)
    | with_reducible apply agree_Error (by decide)
    | split
    | exact hy

theorem ArtistsContainer_repaged (env : Env) {t y : State} {q : List Request}
    (hq : t.artists_requests_queue_ = q)
    (hy : AgreeOff fpArtistsPage t y) (obj : QJsonObject) (l o : Int) :
    RePaged Request.offset q (ArtistsContainer env y obj l o).artists_requests_queue_
      (jsonValue obj "total").toInt := by
  have hyq : y.artists_requests_queue_ = q := (hy.artists_requests_queue_ (by decide)).trans hq
  unfold ArtistsContainer
  split
  · rw [Error_artists_queue]
    exact ArtistsFinishCheck_same_agree env _ hq hy
  · split
    · exact ArtistsPage_repaged env
        (t := artistsTotalStored y (jsonValue obj "total").toInt) hyq rfl (AgreeOff.unchanged _ _) obj l o
    · split
      · exact ArtistsFinishCheck_same_agree env _ hq (agree_Error (by decide) hy _)
      · rename_i h3
        exact ArtistsPage_repaged env hyq (not_not.mp h3).symm (AgreeOff.unchanged _ _) obj l o

theorem ArtistsParsed_repaged (env : Env) {t y : State} {q : List Request} {T : Int}
    (hq : t.artists_requests_queue_ = q) (hy : AgreeOff fpArtistsPage t y) (json : QJsonObject)
    (hT : ∀ obj, jsonValue json "artists" = QJsonValue.object obj →
      (jsonValue obj "total").toInt = T) (l o : Int) :
    RePaged Request.offset q (ArtistsParsed env y json l o).artists_requests_queue_ T := by
  unfold ArtistsParsed
  split
  · exact ArtistsFinishCheck_same_agree env _ hq hy
  · split
    · rw [Error_artists_queue]
      exact ArtistsFinishCheck_same_agree env _ hq hy
    · split
      · rename_i obj heq
        rw [← hT obj heq]
        exact ArtistsContainer_repaged env hq hy obj l o
      · exact ArtistsFinishCheck_same_agree env _ hq (agree_Error (by decide) hy _)

theorem reportedTotal_of_data (reply : QNetworkReply) (bytes : ReplyBytes) (key : String)
    (hd : reply.data = some bytes) (obj : QJsonObject)
    (h : jsonValue bytes.json_obj key = QJsonValue.object obj) :
    (jsonValue obj "total").toInt = reportedTotal reply key := by
  simp [reportedTotal, hd, h]

theorem ArtistsSettled_repaged (env : Env) {t y : State} {q : List Request}
    (hq : t.artists_requests_queue_ = q) (hy : AgreeOff fpArtistsPage t y)
    (reply : QNetworkReply) (l o : Int) :
    RePaged Request.offset q (ArtistsSettled env y reply l o).artists_requests_queue_
      (reportedTotal reply "artists") := by
  unfold ArtistsSettled
  split
  · exact Or.inl ((hy.artists_requests_queue_ (by decide)).trans hq)
  · split
    · exact ArtistsFinishCheck_same_agree env _ hq hy
    · rename_i bytes hd
      exact ArtistsParsed_repaged env hq (agree_ExtractJsonObj (by decide) hy _) _
        (reportedTotal_of_data reply bytes "artists" hd) l o

theorem ArtistsReplyReceived_repaged (env : Env) (s : State) (reply : QNetworkReply)
    (l o : Int) :
    RePaged Request.offset s.artists_requests_queue_
      (ArtistsReplyReceived env s reply l o).artists_requests_queue_
      (reportedTotal reply "artists") := by
  unfold ArtistsReplyReceived
  split
  · exact Or.inl rfl
  · apply ArtistsSettled_repaged env rfl
    apply agree_artistsSettled (by decide)
    apply agree_GetReplyData (by decide)
    apply agree_takeReply (by decide)
    exact AgreeOff.unchanged _ _

theorem Error_albums_queue (s : State) (e : String) :
    (Error s e).albums_requests_queue_ = s.albums_requests_queue_ :=
  (agree_Error (fun _ h => h) (AgreeOff.unchanged fpError s) e).albums_requests_queue_ (by decide)

theorem Error_artist_albums_queue (s : State) (e : String) :
    (Error s e).artist_albums_requests_queue_ = s.artist_albums_requests_queue_ :=
  (agree_Error (fun _ h => h) (AgreeOff.unchanged fpError s) e).artist_albums_requests_queue_
    (by decide)

theorem Error_songs_queue (s : State) (e : String) :
    (Error s e).songs_requests_queue_ = s.songs_requests_queue_ :=
  (agree_Error (fun _ h => h) (AgreeOff.unchanged fpError s) e).songs_requests_queue_ (by decide)

theorem Error_album_songs_queue (s : State) (e : String) :
    (Error s e).album_songs_requests_queue_ = s.album_songs_requests_queue_ :=
  (agree_Error (fun _ h => h) (AgreeOff.unchanged fpError s) e).album_songs_requests_queue_
    (by decide)

theorem AlbumsFinishCheck_repaged_agree (env : Env) {t y : State} {q1 : List Request}
    {q2 : List ArtistAlbumsRequest}
    (hq1 : t.albums_requests_queue_ = q1) (hq2 : t.artist_albums_requests_queue_ = q2)
    (a : Artist) (l o n r : Int) (hy : AgreeOff fpAlbumsPage t y) :
    RePaged Request.offset q1 (AlbumsFinishCheck env y a l o n r).albums_requests_queue_ n ∧
    RePaged ArtistAlbumsRequest.offset q2
      (AlbumsFinishCheck env y a l o n r).artist_albums_requests_queue_ n := by
  rw [← hq1, ← hq2, ← hy.albums_requests_queue_ (by decide),
    ← hy.artist_albums_requests_queue_ (by decide)]
  exact ⟨RePaged.of_at (AlbumsFinishCheck_queue env y a l o n r).1,
    RePaged.of_at (AlbumsFinishCheck_queue env y a l o n r).2⟩

theorem AlbumsFinishCheck_same_agree (env : Env) {t y : State} {q1 : List Request}
    {q2 : List ArtistAlbumsRequest} (T : Int)
    (hq1 : t.albums_requests_queue_ = q1) (hq2 : t.artist_albums_requests_queue_ = q2)
    (a : Artist) (hy : AgreeOff fpAlbumsPage t y) :
    RePaged Request.offset q1 (AlbumsFinishCheck env y a 0 0 0 0).albums_requests_queue_ T ∧
    RePaged ArtistAlbumsRequest.offset q2
      (AlbumsFinishCheck env y a 0 0 0 0).artist_albums_requests_queue_ T := by
  rw [← hq1, ← hq2, ← hy.albums_requests_queue_ (by decide),
    ← hy.artist_albums_requests_queue_ (by decide)]
  exact ⟨Or.inl (same_of_at (AlbumsFinishCheck_queue env y a 0 0 0 0).1),
    Or.inl (same_of_at (AlbumsFinishCheck_queue env y a 0 0 0 0).2)⟩

theorem AlbumsContainer_repaged (env : Env) {t y : State} {q1 : List Request}
    {q2 : List ArtistAlbumsRequest}
    (hq1 : t.albums_requests_queue_ = q1) (hq2 : t.artist_albums_requests_queue_ = q2)
    (hy : AgreeOff fpAlbumsPage t y) (obj : QJsonObject) (a : Artist) (l o : Int) :
    RePaged Request.offset q1 (AlbumsContainer env y obj a l o).albums_requests_queue_
      (jsonValue obj "total").toInt ∧
    RePaged ArtistAlbumsRequest.offset q2
      (AlbumsContainer env y obj a l o).artist_albums_requests_queue_
      (jsonValue obj "total").toInt := by
  unfold AlbumsContainer
  repeat' first
    | rw [Error_albums_queue, Error_artist_albums_queue]
    | with_reducible apply AlbumsFinishCheck_repaged_agree env hq1 hq2
    | with_reducible apply AlbumsFinishCheck_same_agree env _ hq1 hq2
    | with_reducible apply agree_albumsCounted (by decide)
    | with_reducible apply agree_foldl (AlbumsItem _) (fun _ b ht => agree_AlbumsItem (by decide) ht _ b)
    | with_reducible apply agree_Error (by decide)
    | split
    | exact hy
    | exact hy.andThen (by constructor <;> intro hn <;> first | rfl | exact absurd (by decide) hn)

theorem AlbumsParsed_repaged (env : Env) {t y : State} {q1 : List Request}
    {q2 : List ArtistAlbumsRequest} {T : Int}
    (hq1 : t.albums_requests_queue_ = q1) (hq2 : t.artist_albums_requests_queue_ = q2)
    (hy : AgreeOff fpAlbumsPage t y) (json : QJsonObject)
    (hT : ∀ obj, jsonValue json "albums" = QJsonValue.object obj →
      (jsonValue obj "total").toInt = T) (a : Artist) (l o : Int) :
    RePaged Request.offset q1 (AlbumsParsed env y json a l o).albums_requests_queue_ T ∧
    RePaged ArtistAlbumsRequest.offset q2
      (AlbumsParsed env y json a l o).artist_albums_requests_queue_ T := by
  unfold AlbumsParsed
  split
  · exact AlbumsFinishCheck_same_agree env _ hq1 hq2 a hy
  · split
    · rw [Error_albums_queue, Error_artist_albums_queue]
      exact AlbumsFinishCheck_same_agree env _ hq1 hq2 a hy
    · split
      · rw [Error_albums_queue, Error_artist_albums_queue]
        exact AlbumsFinishCheck_same_agree env _ hq1 hq2 a hy
      · split
        · rename_i obj heq
          rw [← hT obj heq]
          exact AlbumsContainer_repaged env hq1 hq2 hy obj a l o
        · exact AlbumsFinishCheck_same_agree env _ hq1 hq2 a (agree_Error (by decide) hy _)

theorem AlbumsSettled_repaged (env : Env) {t y : State} {q1 : List Request}
    {q2 : List ArtistAlbumsRequest}
    (hq1 : t.albums_requests_queue_ = q1) (hq2 : t.artist_albums_requests_queue_ = q2)
    (hy : AgreeOff fpAlbumsPage t y) (reply : QNetworkReply) (a : Artist) (l o : Int) :
    RePaged Request.offset q1 (AlbumsSettled env y reply a l o).albums_requests_queue_
      (reportedTotal reply "albums") ∧
    RePaged ArtistAlbumsRequest.offset q2
      (AlbumsSettled env y reply a l o).artist_albums_requests_queue_
      (reportedTotal reply "albums") := by
  unfold AlbumsSettled
  split
  · exact ⟨Or.inl ((hy.albums_requests_queue_ (by decide)).trans hq1),
      Or.inl ((hy.artist_albums_requests_queue_ (by decide)).trans hq2)⟩
  · split
    · exact AlbumsFinishCheck_same_agree env _ hq1 hq2 a hy
    · rename_i bytes hd
      exact AlbumsParsed_repaged env hq1 hq2 (agree_ExtractJsonObj (by decide) hy _) _
        (reportedTotal_of_data reply bytes "albums" hd) a l o

theorem AlbumsReceived_repaged (env : Env) (s : State) (reply : QNetworkReply) (a : Artist)
    (l o : Int) :
    RePaged Request.offset s.albums_requests_queue_
      (AlbumsReceived env s reply a l o).albums_requests_queue_ (reportedTotal reply "albums") ∧
    RePaged ArtistAlbumsRequest.offset s.artist_albums_requests_queue_
      (AlbumsReceived env s reply a l o).artist_albums_requests_queue_
      (reportedTotal reply "albums") := by
  unfold AlbumsReceived
  split
  · exact ⟨Or.inl rfl, Or.inl rfl⟩
  · apply AlbumsSettled_repaged env rfl rfl
    apply agree_GetReplyData (by decide)
    apply agree_takeReply (by decide)
    exact AgreeOff.unchanged _ _

theorem SongsFinishCheck_repaged_agree (env : Env) {t y : State} {q1 : List Request}
    {q2 : List AlbumSongsRequest}
    (hq1 : t.songs_requests_queue_ = q1) (hq2 : t.album_songs_requests_queue_ = q2)
    (a : Artist) (b : Album) (l o n r : Int) (hy : AgreeOff fpSongsPage t y) :
    RePaged Request.offset q1 (SongsFinishCheck env y a b l o n r).songs_requests_queue_ n ∧
    RePaged AlbumSongsRequest.offset q2
      (SongsFinishCheck env y a b l o n r).album_songs_requests_queue_ n := by
  rw [← hq1, ← hq2, ← hy.songs_requests_queue_ (by decide),
    ← hy.album_songs_requests_queue_ (by decide)]
  exact ⟨RePaged.of_at (SongsFinishCheck_queue env y a b l o n r).1,
    RePaged.of_at (SongsFinishCheck_queue env y a b l o n r).2⟩

theorem SongsFinishCheck_zero_agree (env : Env) {t y : State} {q1 : List Request}
    {q2 : List AlbumSongsRequest} (T : Int)
    (hq1 : t.songs_requests_queue_ = q1) (hq2 : t.album_songs_requests_queue_ = q2)
    (a : Artist) (b : Album) (l o : Int) (hy : AgreeOff fpSongsPage t y) :
    RePaged Request.offset q1 (SongsFinishCheck env y a b l o 0 0).songs_requests_queue_ T ∧
    RePaged AlbumSongsRequest.offset q2
      (SongsFinishCheck env y a b l o 0 0).album_songs_requests_queue_ T := by
  have h := SongsFinishCheck_repaged_agree env hq1 hq2 a b l o 0 0 hy
  exact ⟨RePaged.zero _ _ _ _ h.1, RePaged.zero _ _ _ _ h.2⟩

theorem SongsContainer_repaged (env : Env) {t y : State} {q1 : List Request}
    {q2 : List AlbumSongsRequest}
    (hq1 : t.songs_requests_queue_ = q1) (hq2 : t.album_songs_requests_queue_ = q2)
    (hy : AgreeOff fpSongsPage t y) (obj : QJsonObject) (a : Artist) (b : Album) (aa : Artist)
    (bb : Album) (l o : Int) :
    RePaged Request.offset q1 (SongsContainer env y obj a b aa bb l o).songs_requests_queue_
      (jsonValue obj "total").toInt ∧
    RePaged AlbumSongsRequest.offset q2
      (SongsContainer env y obj a b aa bb l o).album_songs_requests_queue_
      (jsonValue obj "total").toInt := by
  unfold SongsContainer
  repeat' first
    | rw [Error_songs_queue, Error_album_songs_queue]
    | with_reducible apply SongsFinishCheck_repaged_agree env hq1 hq2
    | with_reducible apply SongsFinishCheck_zero_agree env _ hq1 hq2
    | with_reducible apply agree_songsCounted (by decide)
    | with_reducible apply agree_songsInserted (by decide)
    | with_reducible apply agree_SongsItems (by decide)
    | with_reducible apply agree_Error (by decide)
    | split
    | exact hy
    | exact hy.andThen (by constructor <;> intro hn <;> first | rfl | exact absurd (by decide) hn)

theorem SongsParsed_repaged (env : Env) {t y : State} {q1 : List Request}
    {q2 : List AlbumSongsRequest} {T : Int}
    (hq1 : t.songs_requests_queue_ = q1) (hq2 : t.album_songs_requests_queue_ = q2)
    (hy : AgreeOff fpSongsPage t y) (json : QJsonObject)
    (hT : ∀ obj, jsonValue json "tracks" = QJsonValue.object obj →
      (jsonValue obj "total").toInt = T) (a : Artist) (b : Album) (l o : Int) :
    RePaged Request.offset q1 (SongsParsed env y json a b l o).songs_requests_queue_ T ∧
    RePaged AlbumSongsRequest.offset q2
      (SongsParsed env y json a b l o).album_songs_requests_queue_ T := by
  unfold SongsParsed
  split
  · exact SongsFinishCheck_zero_agree env _ hq1 hq2 a b l o hy
  · split
    · exact SongsFinishCheck_zero_agree env _ hq1 hq2 a b l o (agree_Error (by decide) hy _)
    · split
      · exact SongsFinishCheck_zero_agree env _ hq1 hq2 a b l o (agree_Error (by decide) hy _)
      · split
        · rename_i obj heq
          rw [← hT obj heq]
          exact SongsContainer_repaged env hq1 hq2 hy obj a b _ _ l o
        · exact SongsFinishCheck_zero_agree env _ hq1 hq2 a b l o
            (agree_Error (by decide) hy _)

theorem SongsSettled_repaged (env : Env) {t y : State} {q1 : List Request}
    {q2 : List AlbumSongsRequest}
    (hq1 : t.songs_requests_queue_ = q1) (hq2 : t.album_songs_requests_queue_ = q2)
    (hy : AgreeOff fpSongsPage t y) (reply : QNetworkReply) (a : Artist) (b : Album)
    (l o : Int) :
    RePaged Request.offset q1 (SongsSettled env y reply a b l o).songs_requests_queue_
      (reportedTotal reply "tracks") ∧
    RePaged AlbumSongsRequest.offset q2
      (SongsSettled env y reply a b l o).album_songs_requests_queue_
      (reportedTotal reply "tracks") := by
  unfold SongsSettled
  split
  · exact ⟨Or.inl ((hy.songs_requests_queue_ (by decide)).trans hq1),
      Or.inl ((hy.album_songs_requests_queue_ (by decide)).trans hq2)⟩
  · split
    · exact SongsFinishCheck_zero_agree env _ hq1 hq2 a b l o hy
    · rename_i bytes hd
      exact SongsParsed_repaged env hq1 hq2 (agree_ExtractJsonObj (by decide) hy _) _
        (reportedTotal_of_data reply bytes "tracks" hd) a b l o

theorem SongsReceived_repaged (env : Env) (s : State) (reply : QNetworkReply) (a : Artist)
    (b : Album) (l o : Int) :
    RePaged Request.offset s.songs_requests_queue_
      (SongsReceived env s reply a b l o).songs_requests_queue_ (reportedTotal reply "tracks") ∧
    RePaged AlbumSongsRequest.offset s.album_songs_requests_queue_
      (SongsReceived env s reply a b l o).album_songs_requests_queue_
      (reportedTotal reply "tracks") := by
  unfold SongsReceived
  split
  · exact ⟨Or.inl rfl, Or.inl rfl⟩
  · apply SongsSettled_repaged env rfl rfl
    apply agree_GetReplyData (by decide)
    apply agree_takeReply (by decide)
    exact AgreeOff.unchanged _ _

/-! ## Accepted pages -/

theorem ArtistsItem_valid (s : State) (v : QJsonValue) (hv : ValidArtistItem v = true) :
    ∃ pending, ArtistsItem s v = { s with artist_albums_requests_pending_ := pending } := by
  cases v <;> simp only [ValidArtistItem] at hv <;> try exact absurd hv (by decide)
  rename_i obj
  unfold ArtistsItem
  simp only
  split at hv
  · rename_i h1
    rw [if_pos h1]
    split at hv
    · rename_i json_item heq
      try simp only [heq]
      simp only [Bool.and_eq_true] at hv
      unfold ArtistsItemObject
      rw [if_neg (by simp [hv.1, hv.2])]
      split
      · exact ⟨_, rfl⟩
      · exact ⟨_, rfl⟩
    · exact absurd hv (by decide)
  · rename_i h1
    rw [if_neg h1]
    simp only [Bool.and_eq_true] at hv
    unfold ArtistsItemObject
    rw [if_neg (by simp [hv.1, hv.2])]
    split
    · exact ⟨_, rfl⟩
    · exact ⟨_, rfl⟩

theorem foldl_ArtistsItem_valid (items : List QJsonValue)
    (hv : items.all ValidArtistItem = true) (s : State) :
    ∃ pending,
      items.foldl ArtistsItem s = { s with artist_albums_requests_pending_ := pending } := by
  induction items generalizing s with
  | nil => exact ⟨_, rfl⟩
  | cons v rest ih =>
    simp only [List.all_cons, Bool.and_eq_true] at hv
    obtain ⟨p1, h1⟩ := ArtistsItem_valid s v hv.1
    obtain ⟨p2, h2⟩ := ih hv.2 { s with artist_albums_requests_pending_ := p1 }
    refine ⟨p2, ?_⟩
    rw [List.foldl_cons, h1, h2]

theorem AlbumsItem_valid (s : State) (a : Artist) (ha : a.artist_id = "") (v : QJsonValue)
    (hv : ValidAlbumItem v = true) :
    ∃ pending, AlbumsItem a s v = { s with album_songs_requests_pending_ := pending } := by
  cases v <;> simp only [ValidAlbumItem] at hv <;> try exact absurd hv (by decide)
  rename_i obj
  simp only [Bool.and_eq_true] at hv
  obtain ⟨⟨⟨h1, h2⟩, h3⟩, h4⟩ := hv
  unfold AlbumsItem
  simp only
  rw [if_neg (by simp [h1, h2, h3])]
  split
  · exact ⟨_, rfl⟩
  · unfold AlbumsItemArtist
    split at h4
    · rename_i obj_artist heq
      try simp only [heq]
      have h5 : jsonContains obj_artist "id" = true ∧ jsonContains obj_artist "name" = true := by
        simpa using h4
      rw [if_neg (by simp [h5.1, h5.2]), if_neg (by simp [ha])]
      exact ⟨_, rfl⟩
    · exact absurd h4 (by decide)

theorem foldl_AlbumsItem_valid (a : Artist) (ha : a.artist_id = "") (items : List QJsonValue)
    (hv : items.all ValidAlbumItem = true) (s : State) :
    ∃ pending,
      items.foldl (AlbumsItem a) s = { s with album_songs_requests_pending_ := pending } := by
  induction items generalizing s with
  | nil => exact ⟨_, rfl⟩
  | cons v rest ih =>
    simp only [List.all_cons, Bool.and_eq_true] at hv
    obtain ⟨p1, h1⟩ := AlbumsItem_valid s a ha v hv.1
    obtain ⟨p2, h2⟩ := ih hv.2 { s with album_songs_requests_pending_ := p1 }
    refine ⟨p2, ?_⟩
    rw [List.foldl_cons, h1, h2]

theorem SongsItems_valid (env : Env) (a : Artist) (b : Album) (items : List QJsonValue)
    (hv : items.all (ValidTrack env a b) = true) (s : State) :
    (SongsItems env a b items s).1 = s ∧ songsReceivedCount items = items.length := by
  induction items generalizing s with
  | nil => exact ⟨rfl, rfl⟩
  | cons v rest ih =>
    simp only [List.all_cons, Bool.and_eq_true] at hv
    obtain ⟨hv1, hv2⟩ := hv
    cases v <;> simp only [ValidTrack] at hv1 <;> try exact absurd hv1 (by decide)
    rename_i obj
    have hp : (ParseSong env s obj a b).1 = s := by
      unfold ParseSong
      split at hv1
      · rename_i song heq
        simp only [heq]
      · exact absurd hv1 (by decide)
    simp only [SongsItems, songsReceivedCount, hp]
    refine ⟨(ih hv2 s).1, ?_⟩
    rw [(ih hv2 s).2]
    simp

theorem ArtistsReplyReceived_accepted_first (env : Env) (s : State) (reply : QNetworkReply)
    (json_obj obj : QJsonObject) (l : Int) (items : List QJsonValue)
    (hreg : reply.handle ∈ s.replies_) (hfin : s.finished_ = false)
    (hp : PageReply reply json_obj "artists" obj)
    (hoff : (jsonValue obj "offset").toInt = 0)
    (hitems : jsonValue obj "items" = QJsonValue.array items) (hne : items ≠ []) :
    ArtistsReplyReceived env s reply l 0 =
      ArtistsFinishCheck env
        (artistsCounted
          (items.foldl ArtistsItem
            (artistsProgress (artistsTotalStored (artistsSettled (takeReply s reply.handle))
              (jsonValue obj "total").toInt)))
          items.length) l 0 items.length := by
  obtain ⟨hre, ⟨bytes, hdata, hpe, hjson⟩, hne1, hc, hv, hm⟩ := hp
  subst hjson
  unfold ArtistsReplyReceived
  rw [if_neg (not_not.mpr hreg), GetReplyData_quiet _ _ hre]
  unfold ArtistsSettled
  rw [if_neg (by simp [artistsSettled, takeReply, hfin])]
  simp only [hdata]
  rw [ExtractJsonObj_quiet _ _ hpe]
  unfold ArtistsParsed
  rw [if_neg (by simp [hne1]), if_neg (by simp [hc])]
  simp only [hv]
  unfold ArtistsContainer
  rw [if_neg (by simp [hm]), if_pos rfl]
  unfold ArtistsPage
  rw [if_neg (not_not.mpr hoff), if_pos rfl]
  unfold ArtistsItems ExtractItems
  simp only [hitems]
  rw [if_neg (by simp [hne]), if_neg (by simp), hoff]

theorem ArtistsReplyReceived_accepted_next (env : Env) (s : State) (reply : QNetworkReply)
    (json_obj obj : QJsonObject) (l o : Int) (items : List QJsonValue)
    (hreg : reply.handle ∈ s.replies_) (hfin : s.finished_ = false)
    (hp : PageReply reply json_obj "artists" obj) (ho : o ≠ 0)
    (hoff : (jsonValue obj "offset").toInt = o)
    (htot : (jsonValue obj "total").toInt = s.artists_total_)
    (hitems : jsonValue obj "items" = QJsonValue.array items) (hne : items ≠ []) :
    ArtistsReplyReceived env s reply l o =
      ArtistsFinishCheck env
        (artistsProgress
          (artistsCounted (items.foldl ArtistsItem (artistsSettled (takeReply s reply.handle)))
            items.length)) l o items.length := by
  obtain ⟨hre, ⟨bytes, hdata, hpe, hjson⟩, hne1, hc, hv, hm⟩ := hp
  subst hjson
  unfold ArtistsReplyReceived
  rw [if_neg (not_not.mpr hreg), GetReplyData_quiet _ _ hre]
  unfold ArtistsSettled
  rw [if_neg (by simp [artistsSettled, takeReply, hfin])]
  simp only [hdata]
  rw [ExtractJsonObj_quiet _ _ hpe]
  unfold ArtistsParsed
  rw [if_neg (by simp [hne1]), if_neg (by simp [hc])]
  simp only [hv]
  unfold ArtistsContainer
  rw [if_neg (by simp [hm]), if_neg ho, if_neg (not_not.mpr (by rw [htot]; rfl))]
  unfold ArtistsPage
  rw [if_neg (not_not.mpr hoff), if_neg ho]
  unfold ArtistsItems ExtractItems
  simp only [hitems]
  rw [if_neg (by simp [hne]), if_pos ho, hoff]

theorem AlbumsReceived_accepted (env : Env) (s : State) (reply : QNetworkReply)
    (json_obj obj : QJsonObject) (a : Artist) (l o : Int) (items : List QJsonValue)
    (hreg : reply.handle ∈ s.replies_)
    (hfin : s.finished_ = false) (hp : PageReply reply json_obj "albums" obj)
    (ha : (repliedArtist json_obj a).artist_id = a.artist_id)
    (hoff : (jsonValue obj "offset").toInt = o)
    (hitems : jsonValue obj "items" = QJsonValue.array items) (hne : items ≠ []) :
    AlbumsReceived env s reply a l o =
      AlbumsFinishCheck env
        (albumsCounted (items.foldl (AlbumsItem a) (takeReply s reply.handle)) items.length)
        a l o (jsonValue obj "total").toInt items.length := by
  obtain ⟨hre, ⟨bytes, hdata, hpe, hjson⟩, hne1, hc, hv, hm⟩ := hp
  subst hjson
  unfold AlbumsReceived
  rw [if_neg (not_not.mpr hreg), GetReplyData_quiet _ _ hre]
  unfold AlbumsSettled
  rw [if_neg (by simp [takeReply, hfin])]
  simp only [hdata]
  rw [ExtractJsonObj_quiet _ _ hpe]
  unfold AlbumsParsed
  rw [if_neg (by simp [hne1]), if_neg (not_not.mpr ha), if_neg (by simp [hc])]
  simp only [hv]
  unfold AlbumsContainer
  rw [if_neg (by simp [hm]), if_neg (not_not.mpr hoff)]
  unfold ExtractItems
  simp only [hitems]
  rw [if_neg (by simp [hne]), hoff]

theorem SongsReceived_accepted (env : Env) (s : State) (reply : QNetworkReply)
    (json_obj obj : QJsonObject) (a : Artist) (b : Album) (aa : Artist) (bb : Album) (l o : Int)
    (items : List QJsonValue)
    (hreg : reply.handle ∈ s.replies_) (hfin : s.finished_ = false)
    (hp : PageReply reply json_obj "tracks" obj)
    (hh : SongsAlbumHeader json_obj a b = Except.ok (aa, bb))
    (hoff : (jsonValue obj "offset").toInt = o)
    (hitems : jsonValue obj "items" = QJsonValue.array items) (hne : items ≠ []) :
    SongsReceived env s reply a b l o =
      SongsFinishCheck env
        (songsCounted
          (songsInserted (SongsItems env aa bb items (takeReply s reply.handle)).1
            (SongsItems env aa bb items (takeReply s reply.handle)).2)
          (songsReceivedCount items))
        aa bb l o (jsonValue obj "total").toInt (songsReceivedCount items) := by
  obtain ⟨hre, ⟨bytes, hdata, hpe, hjson⟩, hne1, hc, hv, hm⟩ := hp
  subst hjson
  unfold SongsReceived
  rw [if_neg (not_not.mpr hreg), GetReplyData_quiet _ _ hre]
  unfold SongsSettled
  rw [if_neg (by simp [takeReply, hfin])]
  simp only [hdata]
  rw [ExtractJsonObj_quiet _ _ hpe]
  unfold SongsParsed
  rw [if_neg (by simp [hne1]), if_neg (by simp [hc])]
  simp only [hh, hv]
  unfold SongsContainer
  rw [if_neg (by simp [hm]), if_neg (not_not.mpr hoff)]
  unfold ExtractItems
  simp only [hitems]
  rw [if_neg (by simp [hne])]

/-! ## Scenario C -/

theorem ne_nil_of_length_five {α : Type} (items : List α) (h : items.length = 5) :
    items ≠ [] := by
  intro h0
  rw [h0] at h
  simp at h

theorem scenarioC_artists_page1 (env : Env) (page1 : QNetworkReply) (json1 obj1 : QJsonObject)
    (items1 : List QJsonValue) (h1 : PageOf page1 0 json1 "artists" obj1 0 10 items1)
    (hl1 : items1.length = 5) (hv1 : items1.all ValidArtistItem = true) :
    ∃ pending,
      run env QueryType_Artists [Input.Tick, Input.Finished page1] =
        { State.init QueryType_Artists with
          timer_active := true, artists_requests_total_ := 2, artists_requests_received_ := 1,
          artists_total_ := 10, artists_received_ := 5,
          artists_requests_queue_ := [{ offset := 5, limit := 0 }],
          artist_albums_requests_pending_ := pending, next_reply := 1,
          emitted := [Event.UpdateStatus "Receiving artists...",
                      Event.UpdateProgress Progress.Zero,
                      Event.UpdateProgress (Progress.GetProgress 0 10)] } := by
  obtain ⟨hh, hp, hoff, htot, hitems⟩ := h1
  have hr : run env QueryType_Artists [Input.Tick, Input.Finished page1] =
      step env (step env (Process env (State.init QueryType_Artists)) Input.Tick)
        (Input.Finished page1) := rfl
  rw [hr, first_flush_artists,
    step_Finished env _ page1 (Callback.Artists 0 0) [] (by rw [hh])]
  show ∃ pending, ArtistsReplyReceived env _ page1 0 0 = _
  rw [ArtistsReplyReceived_accepted_first env _ page1 json1 obj1 0 items1 (by rw [hh]; decide) rfl
    hp hoff hitems (ne_nil_of_length_five items1 hl1), htot, hh, hl1]
  obtain ⟨pending, hf⟩ := foldl_ArtistsItem_valid items1 hv1
    (artistsProgress (artistsTotalStored (artistsSettled
      (takeReply
        { State.init QueryType_Artists with
          timer_active := true, artists_requests_total_ := 1, artists_requests_active_ := 1,
          replies_ := [0], connections := [(0, Callback.Artists 0 0)], next_reply := 1,
          emitted := [Event.UpdateStatus "Receiving artists...",
                      Event.UpdateProgress Progress.Zero] } 0)) 10))
  refine ⟨pending, ?_⟩
  rw [hf]
  rfl

theorem scenarioC_artists_tick2 (env : Env) (page1 : QNetworkReply) (json1 obj1 : QJsonObject)
    (items1 : List QJsonValue) (h1 : PageOf page1 0 json1 "artists" obj1 0 10 items1)
    (hl1 : items1.length = 5) (hv1 : items1.all ValidArtistItem = true) :
    ∃ pending,
      run env QueryType_Artists [Input.Tick, Input.Finished page1, Input.Tick] =
        { State.init QueryType_Artists with
          timer_active := true, artists_requests_total_ := 2, artists_requests_received_ := 1,
          artists_requests_active_ := 1, artists_total_ := 10, artists_received_ := 5,
          artist_albums_requests_pending_ := pending, next_reply := 2,
          replies_ := [1], connections := [(1, Callback.Artists 0 5)],
          emitted := [Event.UpdateStatus "Receiving artists...",
                      Event.UpdateProgress Progress.Zero,
                      Event.UpdateProgress (Progress.GetProgress 0 10)] } := by
  obtain ⟨pending, hp⟩ := scenarioC_artists_page1 env page1 json1 obj1 items1 h1 hl1 hv1
  refine ⟨pending, ?_⟩
  have hr : run env QueryType_Artists [Input.Tick, Input.Finished page1, Input.Tick] =
      step env (run env QueryType_Artists [Input.Tick, Input.Finished page1]) Input.Tick := rfl
  rw [hr, hp]
  rfl

theorem scenarioC_artists_page2 (env : Env) (page1 page2 : QNetworkReply)
    (json1 obj1 json2 obj2 : QJsonObject) (items1 items2 : List QJsonValue)
    (h1 : PageOf page1 0 json1 "artists" obj1 0 10 items1)
    (h2 : PageOf page2 1 json2 "artists" obj2 5 10 items2)
    (hl1 : items1.length = 5) (hl2 : items2.length = 5)
    (hv1 : items1.all ValidArtistItem = true) (hv2 : items2.all ValidArtistItem = true) :
    ∃ pending,
      run env QueryType_Artists
          [Input.Tick, Input.Finished page1, Input.Tick, Input.Finished page2] =
        FinishCheck (ArtistsRelease
          { State.init QueryType_Artists with
            timer_active := true, artists_requests_total_ := 2, artists_requests_received_ := 2,
            artists_total_ := 10, artists_received_ := 10,
            artist_albums_requests_pending_ := pending, next_reply := 2,
            emitted := [Event.UpdateStatus "Receiving artists...",
                        Event.UpdateProgress Progress.Zero,
                        Event.UpdateProgress (Progress.GetProgress 0 10),
                        Event.UpdateProgress (Progress.GetProgress 10 10)] }) := by
  obtain ⟨p1, hp⟩ := scenarioC_artists_tick2 env page1 json1 obj1 items1 h1 hl1 hv1
  obtain ⟨hh, hpage, hoff, htot, hitems⟩ := h2
  have hr : run env QueryType_Artists
      [Input.Tick, Input.Finished page1, Input.Tick, Input.Finished page2] =
      step env (run env QueryType_Artists [Input.Tick, Input.Finished page1, Input.Tick])
        (Input.Finished page2) := rfl
  rw [hr, hp, step_Finished env _ page2 (Callback.Artists 0 5) [] (by rw [hh])]
  show ∃ pending, ArtistsReplyReceived env _ page2 0 5 = _
  rw [ArtistsReplyReceived_accepted_next env _ page2 json2 obj2 0 5 items2
    (by rw [hh]; exact List.mem_singleton.mpr rfl)
    rfl hpage (by decide) hoff htot hitems (ne_nil_of_length_five items2 hl2), hh, hl2]
  obtain ⟨pending, hf⟩ := foldl_ArtistsItem_valid items2 hv2
    (artistsSettled
      (takeReply
        { State.init QueryType_Artists with
          timer_active := true, artists_requests_total_ := 2, artists_requests_received_ := 1,
          artists_requests_active_ := 1, artists_total_ := 10, artists_received_ := 5,
          artist_albums_requests_pending_ := p1, next_reply := 2,
          replies_ := [1], connections := [(1, Callback.Artists 0 5)],
          emitted := [Event.UpdateStatus "Receiving artists...",
                      Event.UpdateProgress Progress.Zero,
                      Event.UpdateProgress (Progress.GetProgress 0 10)] } 1))
  refine ⟨pending, ?_⟩
  rw [hf]
  rfl

theorem scenarioC_albums_page1 (env : Env) (page1 : QNetworkReply) (json1 obj1 : QJsonObject)
    (items1 : List QJsonValue) (h1 : PageOf page1 0 json1 "albums" obj1 0 10 items1)
    (ha1 : (repliedArtist json1 Artist.empty).artist_id = Artist.empty.artist_id)
    (hl1 : items1.length = 5) (hv1 : items1.all ValidAlbumItem = true) :
    ∃ pending,
      run env QueryType_Albums [Input.Tick, Input.Finished page1] =
        { State.init QueryType_Albums with
          timer_active := true, albums_requests_total_ := 2, albums_requests_received_ := 1,
          albums_received_ := 5,
          albums_requests_queue_ := [{ offset := 5, limit := 0 }],
          album_songs_requests_pending_ := pending, next_reply := 1,
          emitted := [Event.UpdateStatus "Receiving albums...",
                      Event.UpdateProgress Progress.Zero,
                      Event.UpdateProgress (Progress.GetProgress 5 0)] } := by
  obtain ⟨hh, hp, hoff, htot, hitems⟩ := h1
  have hr : run env QueryType_Albums [Input.Tick, Input.Finished page1] =
      step env (step env (Process env (State.init QueryType_Albums)) Input.Tick)
        (Input.Finished page1) := rfl
  rw [hr, first_flush_albums,
    step_Finished env _ page1 (Callback.Albums 0 0) [] (by rw [hh])]
  show ∃ pending, AlbumsReceived env (albumsSettled _) page1 Artist.empty 0 0 = _
  rw [AlbumsReceived_accepted env _ page1 json1 obj1 Artist.empty 0 0 items1
    (by rw [hh]; exact List.mem_singleton.mpr rfl) rfl hp ha1 hoff hitems
    (ne_nil_of_length_five items1 hl1), htot, hh, hl1]
  obtain ⟨pending, hf⟩ := foldl_AlbumsItem_valid Artist.empty rfl items1 hv1
    (takeReply (albumsSettled
        { State.init QueryType_Albums with
          timer_active := true, albums_requests_total_ := 1, albums_requests_active_ := 1,
          replies_ := [0], connections := [(0, Callback.Albums 0 0)], next_reply := 1,
          emitted := [Event.UpdateStatus "Receiving albums...",
                      Event.UpdateProgress Progress.Zero] }) 0)
  refine ⟨pending, ?_⟩
  rw [hf]
  obtain ⟨dl, x1, x2, x3, x4, x5, x6, x7, x8⟩ := env
  cases dl <;> rfl

theorem scenarioC_albums_tick2 (env : Env) (page1 : QNetworkReply) (json1 obj1 : QJsonObject)
    (items1 : List QJsonValue) (h1 : PageOf page1 0 json1 "albums" obj1 0 10 items1)
    (ha1 : (repliedArtist json1 Artist.empty).artist_id = Artist.empty.artist_id)
    (hl1 : items1.length = 5) (hv1 : items1.all ValidAlbumItem = true) :
    ∃ pending,
      run env QueryType_Albums [Input.Tick, Input.Finished page1, Input.Tick] =
        { State.init QueryType_Albums with
          timer_active := true, albums_requests_total_ := 2, albums_requests_received_ := 1,
          albums_requests_active_ := 1, albums_received_ := 5,
          album_songs_requests_pending_ := pending, next_reply := 2,
          replies_ := [1], connections := [(1, Callback.Albums 0 5)],
          emitted := [Event.UpdateStatus "Receiving albums...",
                      Event.UpdateProgress Progress.Zero,
                      Event.UpdateProgress (Progress.GetProgress 5 0)] } := by
  obtain ⟨pending, hp⟩ := scenarioC_albums_page1 env page1 json1 obj1 items1 h1 ha1 hl1 hv1
  refine ⟨pending, ?_⟩
  have hr : run env QueryType_Albums [Input.Tick, Input.Finished page1, Input.Tick] =
      step env (run env QueryType_Albums [Input.Tick, Input.Finished page1]) Input.Tick := rfl
  rw [hr, hp]
  rfl

theorem scenarioC_albums_page2 (env : Env) (page1 page2 : QNetworkReply)
    (json1 obj1 json2 obj2 : QJsonObject) (items1 items2 : List QJsonValue)
    (h1 : PageOf page1 0 json1 "albums" obj1 0 10 items1)
    (h2 : PageOf page2 1 json2 "albums" obj2 5 10 items2)
    (ha1 : (repliedArtist json1 Artist.empty).artist_id = Artist.empty.artist_id)
    (ha2 : (repliedArtist json2 Artist.empty).artist_id = Artist.empty.artist_id)
    (hl1 : items1.length = 5) (hl2 : items2.length = 5)
    (hv1 : items1.all ValidAlbumItem = true) (hv2 : items2.all ValidAlbumItem = true) :
    ∃ pending,
      run env QueryType_Albums
          [Input.Tick, Input.Finished page1, Input.Tick, Input.Finished page2] =
        FinishCheck (GetAlbumCoversCheck env (AlbumsRelease
          { State.init QueryType_Albums with
            timer_active := true, albums_requests_total_ := 2, albums_requests_received_ := 2,
            albums_received_ := 10,
            album_songs_requests_pending_ := pending, next_reply := 2,
            emitted := [Event.UpdateStatus "Receiving albums...",
                        Event.UpdateProgress Progress.Zero,
                        Event.UpdateProgress (Progress.GetProgress 5 0),
                        Event.UpdateProgress (Progress.GetProgress 10 0)] })) := by
  obtain ⟨p1, hp⟩ := scenarioC_albums_tick2 env page1 json1 obj1 items1 h1 ha1 hl1 hv1
  obtain ⟨hh, hpage, hoff, htot, hitems⟩ := h2
  have hr : run env QueryType_Albums
      [Input.Tick, Input.Finished page1, Input.Tick, Input.Finished page2] =
      step env (run env QueryType_Albums [Input.Tick, Input.Finished page1, Input.Tick])
        (Input.Finished page2) := rfl
  rw [hr, hp, step_Finished env _ page2 (Callback.Albums 0 5) [] (by rw [hh])]
  show ∃ pending, AlbumsReceived env (albumsSettled _) page2 Artist.empty 0 5 = _
  rw [AlbumsReceived_accepted env _ page2 json2 obj2 Artist.empty 0 5 items2
    (by rw [hh]; exact List.mem_singleton.mpr rfl) rfl hpage ha2 hoff hitems
    (ne_nil_of_length_five items2 hl2), htot, hh, hl2]
  obtain ⟨pending, hf⟩ := foldl_AlbumsItem_valid Artist.empty rfl items2 hv2
    (takeReply (albumsSettled
        { State.init QueryType_Albums with
          timer_active := true, albums_requests_total_ := 2, albums_requests_received_ := 1,
          albums_requests_active_ := 1, albums_received_ := 5,
          album_songs_requests_pending_ := p1, next_reply := 2,
          replies_ := [1], connections := [(1, Callback.Albums 0 5)],
          emitted := [Event.UpdateStatus "Receiving albums...",
                      Event.UpdateProgress Progress.Zero,
                      Event.UpdateProgress (Progress.GetProgress 5 0)] }) 1)
  refine ⟨pending, ?_⟩
  rw [hf]
  rfl

theorem scenarioC_songs_page1 (env : Env) (page1 : QNetworkReply) (json1 obj1 : QJsonObject)
    (items1 : List QJsonValue) (aa1 : Artist) (bb1 : Album)
    (h1 : PageOf page1 0 json1 "tracks" obj1 0 10 items1)
    (hh1 : SongsAlbumHeader json1 Artist.empty Album.empty = Except.ok (aa1, bb1))
    (hl1 : items1.length = 5) (hv1 : items1.all (ValidTrack env aa1 bb1) = true) :
    ∃ songs,
      run env QueryType_Songs [Input.Tick, Input.Finished page1] =
        { State.init QueryType_Songs with
          timer_active := true, songs_requests_total_ := 2, songs_requests_received_ := 1,
          songs_received_ := 5,
          songs_requests_queue_ := [{ offset := 5, limit := 0 }],
          songs_ := songs, next_reply := 1,
          emitted := [Event.UpdateStatus "Receiving songs...",
                      Event.UpdateProgress Progress.Zero,
                      Event.UpdateProgress (Progress.GetProgress 5 0)] } := by
  obtain ⟨hh, hp, hoff, htot, hitems⟩ := h1
  have hr : run env QueryType_Songs [Input.Tick, Input.Finished page1] =
      step env (step env (Process env (State.init QueryType_Songs)) Input.Tick)
        (Input.Finished page1) := rfl
  rw [hr, first_flush_songs,
    step_Finished env _ page1 (Callback.Songs 0 0) [] (by rw [hh])]
  show ∃ songs, SongsReceived env (songsSettled _) page1 Artist.empty Album.empty 0 0 = _
  rw [SongsReceived_accepted env _ page1 json1 obj1 Artist.empty Album.empty aa1 bb1 0 0 items1
    (by rw [hh]; exact List.mem_singleton.mpr rfl) rfl hp hh1 hoff hitems
    (ne_nil_of_length_five items1 hl1), htot, hh,
    (SongsItems_valid env aa1 bb1 items1 hv1 _).1, (SongsItems_valid env aa1 bb1 items1 hv1
      (State.init QueryType_Songs)).2, hl1]
  clear hv1
  generalize (SongsItems env aa1 bb1 items1 _).2 = parsed
  refine ⟨insertSongs [] parsed, ?_⟩
  obtain ⟨dl, x1, x2, x3, x4, x5, x6, x7, x8⟩ := env
  cases dl <;> rfl

theorem scenarioC_songs_tick2 (env : Env) (page1 : QNetworkReply) (json1 obj1 : QJsonObject)
    (items1 : List QJsonValue) (aa1 : Artist) (bb1 : Album)
    (h1 : PageOf page1 0 json1 "tracks" obj1 0 10 items1)
    (hh1 : SongsAlbumHeader json1 Artist.empty Album.empty = Except.ok (aa1, bb1))
    (hl1 : items1.length = 5) (hv1 : items1.all (ValidTrack env aa1 bb1) = true) :
    ∃ songs,
      run env QueryType_Songs [Input.Tick, Input.Finished page1, Input.Tick] =
        { State.init QueryType_Songs with
          timer_active := true, songs_requests_total_ := 2, songs_requests_received_ := 1,
          songs_requests_active_ := 1, songs_received_ := 5,
          songs_ := songs, next_reply := 2,
          replies_ := [1], connections := [(1, Callback.Songs 0 5)],
          emitted := [Event.UpdateStatus "Receiving songs...",
                      Event.UpdateProgress Progress.Zero,
                      Event.UpdateProgress (Progress.GetProgress 5 0)] } := by
  obtain ⟨songs, hp⟩ := scenarioC_songs_page1 env page1 json1 obj1 items1 aa1 bb1 h1 hh1 hl1 hv1
  refine ⟨songs, ?_⟩
  have hr : run env QueryType_Songs [Input.Tick, Input.Finished page1, Input.Tick] =
      step env (run env QueryType_Songs [Input.Tick, Input.Finished page1]) Input.Tick := rfl
  rw [hr, hp]
  rfl

theorem scenarioC_songs_page2 (env : Env) (page1 page2 : QNetworkReply)
    (json1 obj1 json2 obj2 : QJsonObject) (items1 items2 : List QJsonValue)
    (aa1 aa2 : Artist) (bb1 bb2 : Album)
    (h1 : PageOf page1 0 json1 "tracks" obj1 0 10 items1)
    (h2 : PageOf page2 1 json2 "tracks" obj2 5 10 items2)
    (hh1 : SongsAlbumHeader json1 Artist.empty Album.empty = Except.ok (aa1, bb1))
    (hh2 : SongsAlbumHeader json2 Artist.empty Album.empty = Except.ok (aa2, bb2))
    (hl1 : items1.length = 5) (hl2 : items2.length = 5)
    (hv1 : items1.all (ValidTrack env aa1 bb1) = true)
    (hv2 : items2.all (ValidTrack env aa2 bb2) = true) :
    ∃ songs,
      run env QueryType_Songs
          [Input.Tick, Input.Finished page1, Input.Tick, Input.Finished page2] =
        FinishCheck (GetAlbumCoversCheck env
          { State.init QueryType_Songs with
            timer_active := true, songs_requests_total_ := 2, songs_requests_received_ := 2,
            songs_received_ := 10, songs_ := songs, next_reply := 2,
            emitted := [Event.UpdateStatus "Receiving songs...",
                        Event.UpdateProgress Progress.Zero,
                        Event.UpdateProgress (Progress.GetProgress 5 0),
                        Event.UpdateProgress (Progress.GetProgress 10 0)] }) := by
  obtain ⟨s1, hp⟩ := scenarioC_songs_tick2 env page1 json1 obj1 items1 aa1 bb1 h1 hh1 hl1 hv1
  obtain ⟨hh, hpage, hoff, htot, hitems⟩ := h2
  have hr : run env QueryType_Songs
      [Input.Tick, Input.Finished page1, Input.Tick, Input.Finished page2] =
      step env (run env QueryType_Songs [Input.Tick, Input.Finished page1, Input.Tick])
        (Input.Finished page2) := rfl
  rw [hr, hp, step_Finished env _ page2 (Callback.Songs 0 5) [] (by rw [hh])]
  show ∃ songs, SongsReceived env (songsSettled _) page2 Artist.empty Album.empty 0 5 = _
  rw [SongsReceived_accepted env _ page2 json2 obj2 Artist.empty Album.empty aa2 bb2 0 5 items2
    (by rw [hh]; exact List.mem_singleton.mpr rfl) rfl hpage hh2 hoff hitems
    (ne_nil_of_length_five items2 hl2), htot, hh,
    (SongsItems_valid env aa2 bb2 items2 hv2 _).1, (SongsItems_valid env aa2 bb2 items2 hv2
      (State.init QueryType_Songs)).2, hl2]
  generalize (SongsItems env aa2 bb2 items2 _).2 = parsed
  exact ⟨insertSongs s1 parsed, rfl⟩

/-! ## A drained stage queues no further page -/

theorem ConnGrow.same (P : Callback → Prop) (s : State) : ConnGrow P s s :=
  fun _ hc => Or.inl hc

theorem conn_issueReply {P : Callback → Prop} {s t : State} (h : ConnGrow P s t)
    (slot : Callback) (hp : P slot) : ConnGrow P s (issueReply t slot) := by
  intro c hc
  rcases List.mem_append.mp hc with h1 | h1
  · exact h c h1
  · rw [List.mem_singleton.mp h1]
    exact Or.inr hp

theorem conn_issueCoverReply {P : Callback → Prop} {s t : State} (h : ConnGrow P s t)
    (slot : Callback) (hp : P slot) : ConnGrow P s (issueCoverReply t slot) := by
  intro c hc
  rcases List.mem_append.mp hc with h1 | h1
  · exact h c h1
  · rw [List.mem_singleton.mp h1]
    exact Or.inr hp

theorem conn_FlushArtistsLoop {P : Callback → Prop} {s : State}
    (hP : ∀ l o, P (Callback.Artists l o)) (q : List Request) :
    ∀ t, ConnGrow P s t → ConnGrow P s (FlushArtistsLoop q t) := by
  induction q with
  | nil => intro t h; exact h
  | cons r q ih =>
    intro t h
    unfold FlushArtistsLoop
    split
    · split
      · exact ih _ (conn_issueReply (t := { t with artists_requests_queue_ := q }) h _ (hP _ _))
      · exact ih _ h
    · exact h

theorem conn_FlushAlbumsLoop {P : Callback → Prop} {s : State}
    (hP : ∀ l o, P (Callback.Albums l o)) (q : List Request) :
    ∀ t, ConnGrow P s t → ConnGrow P s (FlushAlbumsLoop q t) := by
  induction q with
  | nil => intro t h; exact h
  | cons r q ih =>
    intro t h
    unfold FlushAlbumsLoop
    split
    · split
      · exact ih _ (conn_issueReply (t := { t with albums_requests_queue_ := q }) h _ (hP _ _))
      · exact ih _ h
    · exact h

theorem conn_FlushSongsLoop {P : Callback → Prop} {s : State}
    (hP : ∀ l o, P (Callback.Songs l o)) (q : List Request) :
    ∀ t, ConnGrow P s t → ConnGrow P s (FlushSongsLoop q t) := by
  induction q with
  | nil => intro t h; exact h
  | cons r q ih =>
    intro t h
    unfold FlushSongsLoop
    split
    · split
      · exact ih _ (conn_issueReply (t := { t with songs_requests_queue_ := q }) h _ (hP _ _))
      · exact ih _ h
    · exact h

theorem conn_FlushArtistAlbumsLoop {P : Callback → Prop} {s : State}
    (hP : ∀ a o, P (Callback.ArtistAlbums a o)) (q : List ArtistAlbumsRequest) :
    ∀ t, ConnGrow P s t → ConnGrow P s (FlushArtistAlbumsLoop q t) := by
  induction q with
  | nil => intro t h; exact h
  | cons r q ih =>
    intro t h
    unfold FlushArtistAlbumsLoop
    split
    · exact ih _
        (conn_issueReply (t := { t with artist_albums_requests_queue_ := q }) h _ (hP _ _))
    · exact h

theorem conn_FlushAlbumSongsLoop {P : Callback → Prop} {s : State}
    (hP : ∀ a b o, P (Callback.AlbumSongs a b o)) (q : List AlbumSongsRequest) :
    ∀ t, ConnGrow P s t → ConnGrow P s (FlushAlbumSongsLoop q t) := by
  induction q with
  | nil => intro t h; exact h
  | cons r q ih =>
    intro t h
    unfold FlushAlbumSongsLoop
    split
    · exact ih _
        (conn_issueReply (t := { t with album_songs_requests_queue_ := q }) h _ (hP _ _ _))
    · exact h

theorem conn_FlushAlbumCoverLoop {P : Callback → Prop} {s : State}
    (hP : ∀ u f, P (Callback.AlbumCover u f)) (q : List AlbumCoverRequest) :
    ∀ t, ConnGrow P s t → ConnGrow P s (FlushAlbumCoverLoop q t) := by
  induction q with
  | nil => intro t h; exact h
  | cons r q ih =>
    intro t h
    unfold FlushAlbumCoverLoop
    split
    · exact ih _
        (conn_issueCoverReply (t := { t with album_cover_requests_queue_ := q }) h _ (hP _ _))
    · exact h

theorem conn_FlushRequests (s : State) : ConnGrow (FlushKind s) s (FlushRequests s) := by
  unfold FlushRequests FlushArtistsRequests FlushAlbumsRequests FlushSongsRequests
    FlushArtistAlbumsRequests FlushAlbumSongsRequests FlushAlbumCoverRequests
  split
  · rename_i h
    exact conn_FlushArtistsLoop (fun _ _ => h) _ s (ConnGrow.same _ s)
  · split
    · rename_i h
      exact conn_FlushAlbumsLoop (fun _ _ => h) _ s (ConnGrow.same _ s)
    · split
      · rename_i h
        exact conn_FlushArtistAlbumsLoop (fun _ _ => h) _ s (ConnGrow.same _ s)
      · split
        · rename_i h
          exact conn_FlushAlbumSongsLoop (fun _ _ _ => h) _ s (ConnGrow.same _ s)
        · split
          · rename_i h
            exact conn_FlushSongsLoop (fun _ _ => h) _ s (ConnGrow.same _ s)
          · split
            · rename_i h
              exact conn_FlushAlbumCoverLoop (fun _ _ => h) _ s (ConnGrow.same _ s)
            · exact ConnGrow.same _ s

theorem FlushRequests_keeps_empty (s : State) :
    (s.artists_requests_queue_ = [] → (FlushRequests s).artists_requests_queue_ = []) ∧
    (s.albums_requests_queue_ = [] → (FlushRequests s).albums_requests_queue_ = []) ∧
    (s.artist_albums_requests_queue_ = [] →
      (FlushRequests s).artist_albums_requests_queue_ = []) ∧
    (s.album_songs_requests_queue_ = [] →
      (FlushRequests s).album_songs_requests_queue_ = []) ∧
    (s.songs_requests_queue_ = [] → (FlushRequests s).songs_requests_queue_ = []) := by
  have hA := agree_FlushArtistsLoop (W := fpFlushArtists) (fun _ h => h)
    s.artists_requests_queue_ s (AgreeOff.unchanged _ s)
  have hB := agree_FlushAlbumsLoop (W := fpFlushAlbums) (fun _ h => h)
    s.albums_requests_queue_ s (AgreeOff.unchanged _ s)
  have hC := agree_FlushArtistAlbumsLoop (W := fpFlushArtistAlbums) (fun _ h => h)
    s.artist_albums_requests_queue_ s (AgreeOff.unchanged _ s)
  have hD := agree_FlushAlbumSongsLoop (W := fpFlushAlbumSongs) (fun _ h => h)
    s.album_songs_requests_queue_ s (AgreeOff.unchanged _ s)
  have hE := agree_FlushSongsLoop (W := fpFlushSongs) (fun _ h => h)
    s.songs_requests_queue_ s (AgreeOff.unchanged _ s)
  have hF := agree_FlushAlbumCoverLoop (W := fpFlushAlbumCover) (fun _ h => h)
    s.album_cover_requests_queue_ s (AgreeOff.unchanged _ s)
  unfold FlushRequests FlushArtistsRequests FlushAlbumsRequests FlushSongsRequests
    FlushArtistAlbumsRequests FlushAlbumSongsRequests FlushAlbumCoverRequests
  split
  · rename_i h
    exact ⟨fun h0 => absurd h0 h,
      fun h0 => (hA.albums_requests_queue_ (by decide)).trans h0,
      fun h0 => (hA.artist_albums_requests_queue_ (by decide)).trans h0,
      fun h0 => (hA.album_songs_requests_queue_ (by decide)).trans h0,
      fun h0 => (hA.songs_requests_queue_ (by decide)).trans h0⟩
  · split
    · rename_i h
      exact ⟨fun h0 => (hB.artists_requests_queue_ (by decide)).trans h0,
        fun h0 => absurd h0 h,
        fun h0 => (hB.artist_albums_requests_queue_ (by decide)).trans h0,
        fun h0 => (hB.album_songs_requests_queue_ (by decide)).trans h0,
        fun h0 => (hB.songs_requests_queue_ (by decide)).trans h0⟩
    · split
      · rename_i h
        exact ⟨fun h0 => (hC.artists_requests_queue_ (by decide)).trans h0,
          fun h0 => (hC.albums_requests_queue_ (by decide)).trans h0,
          fun h0 => absurd h0 h,
          fun h0 => (hC.album_songs_requests_queue_ (by decide)).trans h0,
          fun h0 => (hC.songs_requests_queue_ (by decide)).trans h0⟩
      · split
        · rename_i h
          exact ⟨fun h0 => (hD.artists_requests_queue_ (by decide)).trans h0,
            fun h0 => (hD.albums_requests_queue_ (by decide)).trans h0,
            fun h0 => (hD.artist_albums_requests_queue_ (by decide)).trans h0,
            fun h0 => absurd h0 h,
            fun h0 => (hD.songs_requests_queue_ (by decide)).trans h0⟩
        · split
          · rename_i h
            exact ⟨fun h0 => (hE.artists_requests_queue_ (by decide)).trans h0,
              fun h0 => (hE.albums_requests_queue_ (by decide)).trans h0,
              fun h0 => (hE.artist_albums_requests_queue_ (by decide)).trans h0,
              fun h0 => (hE.album_songs_requests_queue_ (by decide)).trans h0,
              fun h0 => absurd h0 h⟩
          · split
            · exact ⟨fun h0 => (hF.artists_requests_queue_ (by decide)).trans h0,
                fun h0 => (hF.albums_requests_queue_ (by decide)).trans h0,
                fun h0 => (hF.artist_albums_requests_queue_ (by decide)).trans h0,
                fun h0 => (hF.album_songs_requests_queue_ (by decide)).trans h0,
                fun h0 => (hF.songs_requests_queue_ (by decide)).trans h0⟩
            · exact ⟨fun h0 => h0, fun h0 => h0, fun h0 => h0, fun h0 => h0, fun h0 => h0⟩

theorem takeReply_connections (s : State) (reply : Nat) :
    ∀ c ∈ (takeReply s reply).connections, c ∈ s.connections :=
  fun _ hc => (List.mem_filter.mp hc).1

theorem ArtistsReplyReceived_connections (env : Env) (s : State) (reply : QNetworkReply)
    (l o : Int) :
    ∀ c ∈ (ArtistsReplyReceived env s reply l o).connections, c ∈ s.connections := by
  unfold ArtistsReplyReceived
  split
  · exact fun _ hc => hc
  · rw [(agree_ArtistsSettled (W := fpArtistsBody ++ [Field.artists_requests_active_,
        Field.artists_requests_received_]) (List.Subset.trans (by decide) (fun _ h => h))
      (agree_artistsSettled (List.Subset.trans (by decide) (fun _ h => h))
        (agree_GetReplyData (List.Subset.trans (by decide) (fun _ h => h))
          (AgreeOff.unchanged _ (takeReply s reply.handle)) reply)) env reply l o).connections
      (by decide)]
    exact takeReply_connections s reply.handle

theorem AlbumsReceived_connections (env : Env) (s : State) (reply : QNetworkReply)
    (a : Artist) (l o : Int) :
    ∀ c ∈ (AlbumsReceived env s reply a l o).connections, c ∈ s.connections := by
  unfold AlbumsReceived
  split
  · exact fun _ hc => hc
  · rw [(agree_AlbumsSettled (W := fpAlbumsBody) (fun _ h => h)
      (agree_GetReplyData (List.Subset.trans (by decide) (fun _ h => h))
        (AgreeOff.unchanged _ (takeReply s reply.handle)) reply) env reply a l o).connections
      (by decide)]
    exact takeReply_connections s reply.handle

theorem SongsReceived_connections (env : Env) (s : State) (reply : QNetworkReply)
    (a : Artist) (b : Album) (l o : Int) :
    ∀ c ∈ (SongsReceived env s reply a b l o).connections, c ∈ s.connections := by
  unfold SongsReceived
  split
  · exact fun _ hc => hc
  · rw [(agree_SongsSettled (W := fpSongsBody) (fun _ h => h)
      (agree_GetReplyData (List.Subset.trans (by decide) (fun _ h => h))
        (AgreeOff.unchanged _ (takeReply s reply.handle)) reply) env reply a b l o).connections
      (by decide)]
    exact takeReply_connections s reply.handle

theorem AlbumCoverReceived_connections (env : Env) (s : State) (reply : QNetworkReply)
    (url filename : String) :
    ∀ c ∈ (AlbumCoverReceived env s reply url filename).connections, c ∈ s.connections := by
  unfold AlbumCoverReceived
  split
  · rw [(agree_AlbumCoverFinishCheck (W := fpFinishCheck) (fun _ h => h)
      (AgreeOff.unchanged _ s)).connections (by decide)]
    exact fun _ hc => hc
  · rw [(agree_AlbumCoverSettled (W := fpAlbumCoverBody ++
        [Field.album_covers_requests_active_, Field.album_covers_requests_received_])
      (List.Subset.trans (by decide) (fun _ h => h))
      (agree_albumCoverSettled (List.Subset.trans (by decide) (fun _ h => h))
        (AgreeOff.unchanged _ (takeCoverReply s reply.handle))) env reply url filename).connections
      (by decide)]
    exact fun _ hc => (List.mem_filter.mp hc).1

theorem dispatch_connections (env : Env) (s : State) (reply : QNetworkReply) (slot : Callback) :
    ∀ c ∈ (dispatch env s reply slot).connections, c ∈ s.connections := by
  cases slot
  · exact ArtistsReplyReceived_connections env s reply _ _
  · exact AlbumsReceived_connections env (albumsSettled s) reply _ _ _
  · exact SongsReceived_connections env (songsSettled s) reply _ _ _ _
  · exact AlbumsReceived_connections env (artistAlbumsProgress (artistAlbumsSettled s)) reply
      _ _ _
  · intro c hc
    have h := SongsReceived_connections env _ reply _ _ _ _ c hc
    rwa [(agree_albumSongsProgress (W := [Field.emitted]) (fun _ h => h)
      (AgreeOff.unchanged _ (albumSongsSettled s)) _).connections (by decide)] at h
  · exact AlbumCoverReceived_connections env s reply _ _

theorem dispatch_agree_belowArtists (env : Env) (s : State) (reply : QNetworkReply)
    (slot : Callback) (h : ∀ l o, slot ≠ Callback.Artists l o) :
    AgreeOff fpBelowArtists s (dispatch env s reply slot) := by
  cases slot
  · exact absurd rfl (h _ _)
  · exact agree_AlbumsReceived (by decide)
      (agree_albumsSettled (by decide) (AgreeOff.unchanged _ s)) env reply _ _ _
  · exact agree_SongsReceived (by decide)
      (agree_songsSettled (by decide) (AgreeOff.unchanged _ s)) env reply _ _ _ _
  · exact agree_AlbumsReceived (by decide)
      (agree_artistAlbumsProgress (by decide)
        (agree_artistAlbumsSettled (by decide) (AgreeOff.unchanged _ s))) env reply _ _ _
  · exact agree_SongsReceived (by decide)
      (agree_albumSongsProgress (by decide)
        (agree_albumSongsSettled (by decide) (AgreeOff.unchanged _ s)) _) env reply _ _ _ _
  · exact agree_AlbumCoverReceived (by decide) (AgreeOff.unchanged _ s) env reply _ _

theorem dispatch_agree_belowAlbums (env : Env) (s : State) (reply : QNetworkReply)
    (slot : Callback) (h1 : ∀ l o, slot ≠ Callback.Artists l o)
    (h2 : ∀ l o, slot ≠ Callback.Albums l o) (h3 : ∀ a o, slot ≠ Callback.ArtistAlbums a o) :
    AgreeOff fpBelowAlbums s (dispatch env s reply slot) := by
  cases slot
  · exact absurd rfl (h1 _ _)
  · exact absurd rfl (h2 _ _)
  · exact agree_SongsReceived (by decide)
      (agree_songsSettled (by decide) (AgreeOff.unchanged _ s)) env reply _ _ _ _
  · exact absurd rfl (h3 _ _)
  · exact agree_SongsReceived (by decide)
      (agree_albumSongsProgress (by decide)
        (agree_albumSongsSettled (by decide) (AgreeOff.unchanged _ s)) _) env reply _ _ _ _
  · exact agree_AlbumCoverReceived (by decide) (AgreeOff.unchanged _ s) env reply _ _

theorem dispatch_agree_covers (env : Env) (s : State) (reply : QNetworkReply)
    (slot : Callback) (h1 : ∀ l o, slot ≠ Callback.Artists l o)
    (h2 : ∀ l o, slot ≠ Callback.Albums l o) (h3 : ∀ a o, slot ≠ Callback.ArtistAlbums a o)
    (h4 : ∀ l o, slot ≠ Callback.Songs l o) (h5 : ∀ a b o, slot ≠ Callback.AlbumSongs a b o) :
    AgreeOff fpAlbumCoverReceived s (dispatch env s reply slot) := by
  cases slot
  · exact absurd rfl (h1 _ _)
  · exact absurd rfl (h2 _ _)
  · exact absurd rfl (h4 _ _)
  · exact absurd rfl (h3 _ _)
  · exact absurd rfl (h5 _ _ _)
  · exact agree_AlbumCoverReceived (by decide) (AgreeOff.unchanged _ s) env reply _ _

theorem ArtistsDrained_step (env : Env) (s : State) (i : Input) (h : ArtistsDrained s) :
    ArtistsDrained (step env s i) ∧
      (step env s i).artists_requests_total_ = s.artists_requests_total_ := by
  cases i with
  | Tick =>
    simp only [step]
    split
    · refine ⟨⟨(FlushRequests_keeps_empty s).1 h.1, ?_⟩,
        (agree_FlushRequests (fun _ h => h)
          (AgreeOff.unchanged fpFlushRequests s)).artists_requests_total_ (by decide)⟩
      intro c hc l o heq
      rcases conn_FlushRequests s c hc with h1 | h1
      · exact h.2 c h1 l o heq
      · rw [heq] at h1
        exact h1 h.1
    · exact ⟨h, rfl⟩
  | Finished reply =>
    simp only [step]
    split
    · rename_i c hfind
      have hc : c ∈ s.connections := List.mem_of_find?_eq_some hfind
      have hag := dispatch_agree_belowArtists env s reply c.2 (h.2 c hc)
      exact ⟨⟨(hag.artists_requests_queue_ (by decide)).trans h.1,
        fun c1 hc1 => h.2 c1 (dispatch_connections env s reply c.2 c1 hc1)⟩,
        hag.artists_requests_total_ (by decide)⟩
    · exact ⟨h, rfl⟩

theorem AlbumsDrained_step (env : Env) (s : State) (i : Input) (h : AlbumsDrained s) :
    AlbumsDrained (step env s i) ∧
      (step env s i).albums_requests_total_ = s.albums_requests_total_ := by
  obtain ⟨hA, hq1, hq2, hc⟩ := h
  refine ⟨⟨(ArtistsDrained_step env s i hA).1, ?_⟩, ?_⟩
  · cases i with
    | Tick =>
      simp only [step]
      split
      · refine ⟨(FlushRequests_keeps_empty s).2.1 hq1, (FlushRequests_keeps_empty s).2.2.1 hq2,
          ?_⟩
        intro c hcc
        rcases conn_FlushRequests s c hcc with h1 | h1
        · exact hc c h1
        · refine ⟨fun l o heq => ?_, fun a o heq => ?_⟩
          · rw [heq] at h1
            exact h1 hq1
          · rw [heq] at h1
            exact h1 hq2
      · exact ⟨hq1, hq2, hc⟩
    | Finished reply =>
      simp only [step]
      split
      · rename_i c hfind
        have hm : c ∈ s.connections := List.mem_of_find?_eq_some hfind
        have hag := dispatch_agree_belowAlbums env s reply c.2 (hA.2 c hm) (hc c hm).1
          (hc c hm).2
        exact ⟨(hag.albums_requests_queue_ (by decide)).trans hq1,
          (hag.artist_albums_requests_queue_ (by decide)).trans hq2,
          fun c1 hc1 => hc c1 (dispatch_connections env s reply c.2 c1 hc1)⟩
      · exact ⟨hq1, hq2, hc⟩
  · cases i with
    | Tick =>
      simp only [step]
      split
      · exact (agree_FlushRequests (fun _ h => h)
          (AgreeOff.unchanged fpFlushRequests s)).albums_requests_total_ (by decide)
      · rfl
    | Finished reply =>
      simp only [step]
      split
      · rename_i c hfind
        have hm : c ∈ s.connections := List.mem_of_find?_eq_some hfind
        exact (dispatch_agree_belowAlbums env s reply c.2 (hA.2 c hm) (hc c hm).1
          (hc c hm).2).albums_requests_total_ (by decide)
      · rfl

theorem SongsDrained_step (env : Env) (s : State) (i : Input) (h : SongsDrained s) :
    SongsDrained (step env s i) ∧
      (step env s i).songs_requests_total_ = s.songs_requests_total_ := by
  obtain ⟨hB, hq1, hq2, hc⟩ := h
  refine ⟨⟨(AlbumsDrained_step env s i hB).1, ?_⟩, ?_⟩
  · cases i with
    | Tick =>
      simp only [step]
      split
      · refine ⟨(FlushRequests_keeps_empty s).2.2.2.1 hq1,
          (FlushRequests_keeps_empty s).2.2.2.2 hq2, ?_⟩
        intro c hcc
        rcases conn_FlushRequests s c hcc with h1 | h1
        · exact hc c h1
        · refine ⟨fun l o heq => ?_, fun a b o heq => ?_⟩
          · rw [heq] at h1
            exact h1 hq2
          · rw [heq] at h1
            exact h1 hq1
      · exact ⟨hq1, hq2, hc⟩
    | Finished reply =>
      simp only [step]
      split
      · rename_i c hfind
        have hm : c ∈ s.connections := List.mem_of_find?_eq_some hfind
        have hag := dispatch_agree_covers env s reply c.2 (hB.1.2 c hm) (hB.2.2.2 c hm).1
          (hB.2.2.2 c hm).2 (hc c hm).1 (hc c hm).2
        exact ⟨(hag.album_songs_requests_queue_ (by decide)).trans hq1,
          (hag.songs_requests_queue_ (by decide)).trans hq2,
          fun c1 hc1 => hc c1 (dispatch_connections env s reply c.2 c1 hc1)⟩
      · exact ⟨hq1, hq2, hc⟩
  · cases i with
    | Tick =>
      simp only [step]
      split
      · exact (agree_FlushRequests (fun _ h => h)
          (AgreeOff.unchanged fpFlushRequests s)).songs_requests_total_ (by decide)
      · rfl
    | Finished reply =>
      simp only [step]
      split
      · rename_i c hfind
        have hm : c ∈ s.connections := List.mem_of_find?_eq_some hfind
        exact (dispatch_agree_covers env s reply c.2 (hB.1.2 c hm) (hB.2.2.2 c hm).1
          (hB.2.2.2 c hm).2 (hc c hm).1 (hc c hm).2).songs_requests_total_ (by decide)
      · rfl

theorem ArtistsDrained_run (env : Env) (inputs : List Input) :
    ∀ s, ArtistsDrained s →
      (inputs.foldl (step env) s).artists_requests_total_ = s.artists_requests_total_ := by
  induction inputs with
  | nil => intro s _; rfl
  | cons i rest ih =>
    intro s h
    rw [List.foldl_cons, ih _ (ArtistsDrained_step env s i h).1]
    exact (ArtistsDrained_step env s i h).2

theorem AlbumsDrained_run (env : Env) (inputs : List Input) :
    ∀ s, AlbumsDrained s →
      (inputs.foldl (step env) s).albums_requests_total_ = s.albums_requests_total_ := by
  induction inputs with
  | nil => intro s _; rfl
  | cons i rest ih =>
    intro s h
    rw [List.foldl_cons, ih _ (AlbumsDrained_step env s i h).1]
    exact (AlbumsDrained_step env s i h).2

theorem SongsDrained_run (env : Env) (inputs : List Input) :
    ∀ s, SongsDrained s →
      (inputs.foldl (step env) s).songs_requests_total_ = s.songs_requests_total_ := by
  induction inputs with
  | nil => intro s _; rfl
  | cons i rest ih =>
    intro s h
    rw [List.foldl_cons, ih _ (SongsDrained_step env s i h).1]
    exact (SongsDrained_step env s i h).2

theorem run_append (env : Env) (type : QueryType) (inputs rest : List Input) :
    run env type (inputs ++ rest) = rest.foldl (step env) (run env type inputs) := by
  unfold run
  rw [List.foldl_append]

theorem scenarioC_artists (env : Env) (page1 page2 : QNetworkReply)
    (h : ArtistsPages page1 page2) :
    TwoPagesRequested env QueryType_Artists page1 page2 State.artists_requests_queue_
      State.artists_requests_total_ Callback.Artists := by
  obtain ⟨json1, obj1, items1, json2, obj2, items2, h1, h2, hl1, hl2, hv1, hv2⟩ := h
  obtain ⟨p1, hp1⟩ := scenarioC_artists_page1 env page1 json1 obj1 items1 h1 hl1 hv1
  obtain ⟨p2, hp2⟩ := scenarioC_artists_tick2 env page1 json1 obj1 items1 h1 hl1 hv1
  obtain ⟨p3, hp3⟩ := scenarioC_artists_page2 env page1 page2 json1 obj1 json2 obj2 items1
    items2 h1 h2 hl1 hl2 hv1 hv2
  have hag := agree_FinishCheck (List.Subset.trans (by decide) (fun _ h => h))
    (agree_ArtistsRelease (W := fpAddArtistAlbumsRequest ++
        [Field.artist_albums_requests_pending_, Field.emitted] ++ fpFinishCheck)
      (List.Subset.trans (by decide) (fun _ h => h))
      (AgreeOff.unchanged _
        { State.init QueryType_Artists with
          timer_active := true, artists_requests_total_ := 2, artists_requests_received_ := 2,
          artists_total_ := 10, artists_received_ := 10,
          artist_albums_requests_pending_ := p3, next_reply := 2,
          emitted := [Event.UpdateStatus "Receiving artists...",
                      Event.UpdateProgress Progress.Zero,
                      Event.UpdateProgress (Progress.GetProgress 0 10),
                      Event.UpdateProgress (Progress.GetProgress 10 10)] }))
  refine ⟨rfl, ?_, ?_, ?_, ?_, ?_⟩
  · rw [show run env QueryType_Artists [Input.Tick] =
      step env (Process env (State.init QueryType_Artists)) Input.Tick from rfl,
      first_flush_artists]
  · rw [hp1]
  · rw [hp2]
  · rw [hp3]
    exact hag.artists_requests_queue_ (by decide)
  · intro rest
    rw [run_append, hp3]
    show (rest.foldl (step env) _).artists_requests_total_ = 2
    rw [ArtistsDrained_run env rest _
      ⟨hag.artists_requests_queue_ (by decide), by
        rw [hag.connections (by decide)]
        exact fun c hc => absurd hc (List.not_mem_nil c)⟩]
    exact hag.artists_requests_total_ (by decide)

theorem scenarioC_albums (env : Env) (page1 page2 : QNetworkReply)
    (h : AlbumsPages page1 page2) :
    TwoPagesRequested env QueryType_Albums page1 page2 State.albums_requests_queue_
      State.albums_requests_total_ Callback.Albums := by
  obtain ⟨json1, obj1, items1, json2, obj2, items2, h1, h2, ha1, ha2, hl1, hl2, hv1, hv2⟩ := h
  obtain ⟨p1, hp1⟩ := scenarioC_albums_page1 env page1 json1 obj1 items1 h1 ha1 hl1 hv1
  obtain ⟨p2, hp2⟩ := scenarioC_albums_tick2 env page1 json1 obj1 items1 h1 ha1 hl1 hv1
  obtain ⟨p3, hp3⟩ := scenarioC_albums_page2 env page1 page2 json1 obj1 json2 obj2 items1
    items2 h1 h2 ha1 ha2 hl1 hl2 hv1 hv2
  have hag := agree_FinishCheck (List.Subset.trans (by decide) (fun _ h => h))
    (agree_GetAlbumCoversCheck (List.Subset.trans (by decide) (fun _ h => h))
      (agree_AlbumsRelease (W := fpAddAlbumSongsRequest ++
          [Field.album_songs_requests_pending_, Field.emitted] ++ fpGetAlbumCovers ++
          fpFinishCheck)
        (List.Subset.trans (by decide) (fun _ h => h))
        (AgreeOff.unchanged _
          { State.init QueryType_Albums with
            timer_active := true, albums_requests_total_ := 2, albums_requests_received_ := 2,
            albums_received_ := 10,
            album_songs_requests_pending_ := p3, next_reply := 2,
            emitted := [Event.UpdateStatus "Receiving albums...",
                        Event.UpdateProgress Progress.Zero,
                        Event.UpdateProgress (Progress.GetProgress 5 0),
                        Event.UpdateProgress (Progress.GetProgress 10 0)] })) env)
  have hconn : ∀ (P : Nat × Callback → Prop),
      ∀ c ∈ (FinishCheck (GetAlbumCoversCheck env (AlbumsRelease
          { State.init QueryType_Albums with
            timer_active := true, albums_requests_total_ := 2, albums_requests_received_ := 2,
            albums_received_ := 10,
            album_songs_requests_pending_ := p3, next_reply := 2,
            emitted := [Event.UpdateStatus "Receiving albums...",
                        Event.UpdateProgress Progress.Zero,
                        Event.UpdateProgress (Progress.GetProgress 5 0),
                        Event.UpdateProgress (Progress.GetProgress 10 0)] }))).connections,
        P c := by
    intro P
    rw [hag.connections (by decide)]
    exact fun c hc => absurd hc (List.not_mem_nil c)
  refine ⟨?_, ?_, ?_, ?_, ?_, ?_⟩
  · rfl
  · rw [show run env QueryType_Albums [Input.Tick] =
      step env (Process env (State.init QueryType_Albums)) Input.Tick from rfl,
      first_flush_albums]
  · rw [hp1]
  · rw [hp2]
  · rw [hp3]
    exact hag.albums_requests_queue_ (by decide)
  · intro rest
    rw [run_append, hp3]
    show (rest.foldl (step env) _).albums_requests_total_ = 2
    rw [AlbumsDrained_run env rest _
      ⟨⟨hag.artists_requests_queue_ (by decide), hconn _⟩,
        hag.albums_requests_queue_ (by decide),
        hag.artist_albums_requests_queue_ (by decide), hconn _⟩]
    exact hag.albums_requests_total_ (by decide)

theorem scenarioC_songs (env : Env) (page1 page2 : QNetworkReply)
    (h : SongsPages env page1 page2) :
    TwoPagesRequested env QueryType_Songs page1 page2 State.songs_requests_queue_
      State.songs_requests_total_ Callback.Songs := by
  obtain ⟨json1, obj1, items1, json2, obj2, items2, aa1, bb1, aa2, bb2, h1, h2, hh1, hh2, hl1,
    hl2, hv1, hv2⟩ := h
  obtain ⟨p1, hp1⟩ := scenarioC_songs_page1 env page1 json1 obj1 items1 aa1 bb1 h1 hh1 hl1 hv1
  obtain ⟨p2, hp2⟩ := scenarioC_songs_tick2 env page1 json1 obj1 items1 aa1 bb1 h1 hh1 hl1 hv1
  obtain ⟨p3, hp3⟩ := scenarioC_songs_page2 env page1 page2 json1 obj1 json2 obj2 items1
    items2 aa1 aa2 bb1 bb2 h1 h2 hh1 hh2 hl1 hl2 hv1 hv2
  have hag := agree_FinishCheck (List.Subset.trans (by decide) (fun _ h => h))
    (agree_GetAlbumCoversCheck (W := fpGetAlbumCovers ++ fpFinishCheck)
      (List.Subset.trans (by decide) (fun _ h => h))
      (AgreeOff.unchanged _
        { State.init QueryType_Songs with
          timer_active := true, songs_requests_total_ := 2, songs_requests_received_ := 2,
          songs_received_ := 10, songs_ := p3, next_reply := 2,
          emitted := [Event.UpdateStatus "Receiving songs...",
                      Event.UpdateProgress Progress.Zero,
                      Event.UpdateProgress (Progress.GetProgress 5 0),
                      Event.UpdateProgress (Progress.GetProgress 10 0)] }) env)
  have hconn : ∀ (P : Nat × Callback → Prop),
      ∀ c ∈ (FinishCheck (GetAlbumCoversCheck env
          { State.init QueryType_Songs with
            timer_active := true, songs_requests_total_ := 2, songs_requests_received_ := 2,
            songs_received_ := 10, songs_ := p3, next_reply := 2,
            emitted := [Event.UpdateStatus "Receiving songs...",
                        Event.UpdateProgress Progress.Zero,
                        Event.UpdateProgress (Progress.GetProgress 5 0),
                        Event.UpdateProgress (Progress.GetProgress 10 0)] })).connections,
        P c := by
    intro P
    rw [hag.connections (by decide)]
    exact fun c hc => absurd hc (List.not_mem_nil c)
  refine ⟨?_, ?_, ?_, ?_, ?_, ?_⟩
  · rfl
  · rw [show run env QueryType_Songs [Input.Tick] =
      step env (Process env (State.init QueryType_Songs)) Input.Tick from rfl,
      first_flush_songs]
  · rw [hp1]
  · rw [hp2]
  · rw [hp3]
    exact hag.songs_requests_queue_ (by decide)
  · intro rest
    rw [run_append, hp3]
    show (rest.foldl (step env) _).songs_requests_total_ = 2
    rw [SongsDrained_run env rest _
      ⟨⟨⟨hag.artists_requests_queue_ (by decide), hconn _⟩,
          hag.albums_requests_queue_ (by decide),
          hag.artist_albums_requests_queue_ (by decide), hconn _⟩,
        hag.album_songs_requests_queue_ (by decide),
        hag.songs_requests_queue_ (by decide), hconn _⟩]
    exact hag.songs_requests_total_ (by decide)

/-- C8 (Scenario C and the bound on next-page cursors). For every state and every argument,
the listing queues after `ArtistsFinishCheck`, `AlbumsFinishCheck` and `SongsFinishCheck` are the
queues before, or the queues before with one more cursor whose offset lies strictly between 0
and the total the check works with (`artists_total_`, resp. the total it is passed); for every
reply, the queues after `ArtistsReplyReceived`, `AlbumsReceived` and `SongsReceived` are the
queues before, or the queues before with one more cursor whose offset lies strictly between 0
and the total the page of that reply reports. In Scenario C (a direct artists, albums or songs
query, limit 0, whose first page reports offset 0 and total 10 and whose second page reports
offset 5 and total 10, five valid items each) the listing queues the cursors at the offsets 0
and 5 and nothing else: the second page queues no cursor, and whatever is delivered afterwards
the listing's request count stays 2. -/
theorem next_page_cursors_below_total (env : Env) :
    (∀ (s : State) (l o r : Int),
      RePaged Request.offset s.artists_requests_queue_
        (ArtistsFinishCheck env s l o r).artists_requests_queue_ s.artists_total_) ∧
    (∀ (s : State) (a : Artist) (l o n r : Int),
      RePaged Request.offset s.albums_requests_queue_
        (AlbumsFinishCheck env s a l o n r).albums_requests_queue_ n ∧
      RePaged ArtistAlbumsRequest.offset s.artist_albums_requests_queue_
        (AlbumsFinishCheck env s a l o n r).artist_albums_requests_queue_ n) ∧
    (∀ (s : State) (a : Artist) (b : Album) (l o n r : Int),
      RePaged Request.offset s.songs_requests_queue_
        (SongsFinishCheck env s a b l o n r).songs_requests_queue_ n ∧
      RePaged AlbumSongsRequest.offset s.album_songs_requests_queue_
        (SongsFinishCheck env s a b l o n r).album_songs_requests_queue_ n) ∧
    (∀ (s : State) (reply : QNetworkReply) (l o : Int),
      RePaged Request.offset s.artists_requests_queue_
        (ArtistsReplyReceived env s reply l o).artists_requests_queue_
        (reportedTotal reply "artists")) ∧
    (∀ (s : State) (reply : QNetworkReply) (a : Artist) (l o : Int),
      RePaged Request.offset s.albums_requests_queue_
        (AlbumsReceived env s reply a l o).albums_requests_queue_
        (reportedTotal reply "albums") ∧
      RePaged ArtistAlbumsRequest.offset s.artist_albums_requests_queue_
        (AlbumsReceived env s reply a l o).artist_albums_requests_queue_
        (reportedTotal reply "albums")) ∧
    (∀ (s : State) (reply : QNetworkReply) (a : Artist) (b : Album) (l o : Int),
      RePaged Request.offset s.songs_requests_queue_
        (SongsReceived env s reply a b l o).songs_requests_queue_
        (reportedTotal reply "tracks") ∧
      RePaged AlbumSongsRequest.offset s.album_songs_requests_queue_
        (SongsReceived env s reply a b l o).album_songs_requests_queue_
        (reportedTotal reply "tracks")) ∧
    (∀ page1 page2 : QNetworkReply, ArtistsPages page1 page2 →
      TwoPagesRequested env QueryType_Artists page1 page2 State.artists_requests_queue_
        State.artists_requests_total_ Callback.Artists) ∧
    (∀ page1 page2 : QNetworkReply, AlbumsPages page1 page2 →
      TwoPagesRequested env QueryType_Albums page1 page2 State.albums_requests_queue_
        State.albums_requests_total_ Callback.Albums) ∧
    (∀ page1 page2 : QNetworkReply, SongsPages env page1 page2 →
      TwoPagesRequested env QueryType_Songs page1 page2 State.songs_requests_queue_
        State.songs_requests_total_ Callback.Songs) :=
  ⟨fun s l o r => RePaged.of_at (ArtistsFinishCheck_queue env s l o r),
   fun s a l o n r => ⟨RePaged.of_at (AlbumsFinishCheck_queue env s a l o n r).1,
     RePaged.of_at (AlbumsFinishCheck_queue env s a l o n r).2⟩,
   fun s a b l o n r => ⟨RePaged.of_at (SongsFinishCheck_queue env s a b l o n r).1,
     RePaged.of_at (SongsFinishCheck_queue env s a b l o n r).2⟩,
   ArtistsReplyReceived_repaged env,
   AlbumsReceived_repaged env,
   SongsReceived_repaged env,
   scenarioC_artists env,
   scenarioC_albums env,
   scenarioC_songs env⟩

/-- Scenario C served by the sample service: ten artists, ten albums and ten tracks in two
pages of five. -/
theorem next_page_cursors_below_total_witness :
    TwoPagesRequested sampleEnv QueryType_Artists
      (sampleReply 0 (samplePage "artists" 0 10 (["a", "b", "c", "d", "e"].map sampleArtist)))
      (sampleReply 1 (samplePage "artists" 5 10 (["f", "g", "h", "i", "j"].map sampleArtist)))
      State.artists_requests_queue_ State.artists_requests_total_ Callback.Artists ∧
    TwoPagesRequested sampleEnv QueryType_Albums
      (sampleReply 0 (samplePage "albums" 0 10 (["a", "b", "c", "d", "e"].map sampleAlbum)))
      (sampleReply 1 (samplePage "albums" 5 10 (["f", "g", "h", "i", "j"].map sampleAlbum)))
      State.albums_requests_queue_ State.albums_requests_total_ Callback.Albums ∧
    TwoPagesRequested sampleEnv QueryType_Songs
      (sampleReply 0 (samplePage "tracks" 0 10 (["a", "b", "c", "d", "e"].map sampleTrack)))
      (sampleReply 1 (samplePage "tracks" 5 10 (["f", "g", "h", "i", "j"].map sampleTrack)))
      State.songs_requests_queue_ State.songs_requests_total_ Callback.Songs :=
  ⟨(next_page_cursors_below_total sampleEnv).2.2.2.2.2.2.1 _ _
      ⟨samplePage "artists" 0 10 (["a", "b", "c", "d", "e"].map sampleArtist),
       sampleContainer 0 10 (["a", "b", "c", "d", "e"].map sampleArtist),
       ["a", "b", "c", "d", "e"].map sampleArtist,
       samplePage "artists" 5 10 (["f", "g", "h", "i", "j"].map sampleArtist),
       sampleContainer 5 10 (["f", "g", "h", "i", "j"].map sampleArtist),
       ["f", "g", "h", "i", "j"].map sampleArtist,
       ⟨rfl, ⟨rfl, ⟨_, rfl, rfl, rfl⟩, rfl, rfl, rfl, rfl⟩, rfl, rfl, rfl⟩,
       ⟨rfl, ⟨rfl, ⟨_, rfl, rfl, rfl⟩, rfl, rfl, rfl, rfl⟩, rfl, rfl, rfl⟩,
       rfl, rfl, by decide, by decide⟩,
   (next_page_cursors_below_total sampleEnv).2.2.2.2.2.2.2.1 _ _
      ⟨samplePage "albums" 0 10 (["a", "b", "c", "d", "e"].map sampleAlbum),
       sampleContainer 0 10 (["a", "b", "c", "d", "e"].map sampleAlbum),
       ["a", "b", "c", "d", "e"].map sampleAlbum,
       samplePage "albums" 5 10 (["f", "g", "h", "i", "j"].map sampleAlbum),
       sampleContainer 5 10 (["f", "g", "h", "i", "j"].map sampleAlbum),
       ["f", "g", "h", "i", "j"].map sampleAlbum,
       ⟨rfl, ⟨rfl, ⟨_, rfl, rfl, rfl⟩, rfl, rfl, rfl, rfl⟩, rfl, rfl, rfl⟩,
       ⟨rfl, ⟨rfl, ⟨_, rfl, rfl, rfl⟩, rfl, rfl, rfl, rfl⟩, rfl, rfl, rfl⟩,
       rfl, rfl, rfl, rfl, by decide, by decide⟩,
   (next_page_cursors_below_total sampleEnv).2.2.2.2.2.2.2.2 _ _
      ⟨samplePage "tracks" 0 10 (["a", "b", "c", "d", "e"].map sampleTrack),
       sampleContainer 0 10 (["a", "b", "c", "d", "e"].map sampleTrack),
       ["a", "b", "c", "d", "e"].map sampleTrack,
       samplePage "tracks" 5 10 (["f", "g", "h", "i", "j"].map sampleTrack),
       sampleContainer 5 10 (["f", "g", "h", "i", "j"].map sampleTrack),
       ["f", "g", "h", "i", "j"].map sampleTrack,
       Artist.empty, Album.empty, Artist.empty, Album.empty,
       ⟨rfl, ⟨rfl, ⟨_, rfl, rfl, rfl⟩, rfl, rfl, rfl, rfl⟩, rfl, rfl, rfl⟩,
       ⟨rfl, ⟨rfl, ⟨_, rfl, rfl, rfl⟩, rfl, rfl, rfl, rfl⟩, rfl, rfl, rfl⟩,
       rfl, rfl, rfl, rfl, by decide, by decide⟩⟩

/-! ## Failing inputs of the paging rules -/

/-- C11 (the code at the failing input): the first page of a direct songs query reports total
10 and carries five entries, one of them malformed, so the next page at offset 5 is due
(`0 < 0 + 5 < 10`, limit 0); but the malformed entry finalizes the request inside the item loop
and `SongsFinishCheck` returns at its `finished_` test: no cursor is queued and the listing has
made one request.  The artists listing does the same for an entry that is not an object. -/
theorem bad_item_cancels_the_next_page :
    (List.range 5).all (fun k =>
      decide ((badTrackOfTen k).finished_ = true) &&
      decide ((badTrackOfTen k).songs_received_ = 5) &&
      decide ((badTrackOfTen k).songs_requests_queue_ = []) &&
      decide ((badTrackOfTen k).songs_requests_total_ = 1) &&
      decide ((badTrackOfTen k).connections = [])) = true ∧
    badArtistOfTen.finished_ = true ∧
    badArtistOfTen.artists_received_ = 5 ∧
    badArtistOfTen.artists_total_ = 10 ∧
    badArtistOfTen.artists_requests_queue_ = [] ∧
    badArtistOfTen.artists_requests_total_ = 1 ∧
    badArtistOfTen.connections = [] := by
  decide

/-- C12 (the code at the failing input): `SongsReceived` counts an entry only after its
`isObject` test, so a page of three entries with one that is not an object queues the cursor
at offset 2, inside the page it has just read; the artists and albums loops count the entry
first and queue the cursor at offset 3. -/
theorem songs_page_counts_objects_only :
    (run sampleEnv QueryType_Albums nonObjectTrackInputs).album_songs_requests_queue_ =
      [{ artist := { artist_id := "artist1", artist := "artist" },
         album := { album_id := "x", album := "album", cover_url := "" },
         offset := 2, limit := 0 }] ∧
    (run sampleEnv QueryType_Albums nonObjectTrackInputs).errors_ =
      ["Invalid Json reply, track is not a object."] ∧
    (run sampleEnv QueryType_Albums nonObjectTrackInputs).finished_ = false ∧
    (run sampleEnv QueryType_Artists nonObjectArtistInputs).artists_requests_queue_ =
      [{ offset := 3, limit := 0 }] ∧
    (run sampleEnv QueryType_Albums nonObjectAlbumInputs).albums_requests_queue_ =
      [{ offset := 3, limit := 0 }] := by
  decide

/-- C13 (the code at the failing input): the reply to the songs request at offset 5 carries no
item; `SongsFinishCheck` is called with the page's total and zero received songs, so the cursor
at offset 5 is queued again, without an error, and an identical reply to the new request queues
it once more. -/
theorem empty_page_is_requested_again :
    (run sampleEnv QueryType_Songs (emptySecondPageInputs.take 3)).connections =
      [(1, Callback.Songs 0 5)] ∧
    (run sampleEnv QueryType_Songs (emptySecondPageInputs.take 3)).songs_requests_total_ = 2 ∧
    (run sampleEnv QueryType_Songs emptySecondPageInputs).songs_requests_queue_ =
      [{ offset := 5, limit := 0 }] ∧
    (run sampleEnv QueryType_Songs emptySecondPageInputs).songs_requests_total_ = 3 ∧
    (run sampleEnv QueryType_Songs emptySecondPageInputs).errors_ = [] ∧
    (run sampleEnv QueryType_Songs emptySecondPageInputs).finished_ = false ∧
    (run sampleEnv QueryType_Songs
      (emptySecondPageInputs ++
        [Input.Tick, Input.Finished (sampleReply 2 (samplePage "tracks" 5 10 []))])
      ).songs_requests_queue_ = [{ offset := 5, limit := 0 }] ∧
    (run sampleEnv QueryType_Songs
      (emptySecondPageInputs ++
        [Input.Tick, Input.Finished (sampleReply 2 (samplePage "tracks" 5 10 []))])
      ).songs_requests_total_ = 4 := by
  decide

/-- C14 (the code at the failing input): the albums and the songs listing store no total
(`albums_total_` and `songs_total_` stay 0 after the first page) and take a second page that
reports total 20 after a first page that reported 10: no error is logged, its five items are
kept and the page at offset 10 is queued.  The artists listing stores 10, logs the differing
total, keeps none of the five items and queues no page. -/
theorem albums_and_songs_take_a_differing_total :
    (run sampleEnv QueryType_Albums
      ((differingTotalInputs "albums" sampleAlbum).take 2)).albums_total_ = 0 ∧
    (run sampleEnv QueryType_Albums (differingTotalInputs "albums" sampleAlbum)).errors_ = [] ∧
    (run sampleEnv QueryType_Albums
      (differingTotalInputs "albums" sampleAlbum)).album_songs_requests_pending_.map
      (fun kv => kv.1) = ["a", "b", "c", "d", "e", "f", "g", "h", "i", "j"] ∧
    (run sampleEnv QueryType_Albums
      (differingTotalInputs "albums" sampleAlbum)).albums_requests_queue_ =
      [{ offset := 10, limit := 0 }] ∧
    (run sampleEnv QueryType_Songs
      ((differingTotalInputs "tracks" sampleTrack).take 2)).songs_total_ = 0 ∧
    (run sampleEnv QueryType_Songs (differingTotalInputs "tracks" sampleTrack)).errors_ = [] ∧
    (run sampleEnv QueryType_Songs (differingTotalInputs "tracks" sampleTrack)).songs_.map
      (fun kv => kv.1) = ["a", "b", "c", "d", "e", "f", "g", "h", "i", "j"] ∧
    (run sampleEnv QueryType_Songs
      (differingTotalInputs "tracks" sampleTrack)).songs_requests_queue_ =
      [{ offset := 10, limit := 0 }] ∧
    (run sampleEnv QueryType_Artists
      ((differingTotalInputs "artists" sampleArtist).take 2)).artists_total_ = 10 ∧
    (run sampleEnv QueryType_Artists (differingTotalInputs "artists" sampleArtist)).errors_ =
      ["total returned does not match previous total! 20 != 10"] ∧
    (run sampleEnv QueryType_Artists
      (differingTotalInputs "artists" sampleArtist)).artists_requests_queue_ = [] ∧
    (run sampleEnv QueryType_Artists
      (differingTotalInputs "artists" sampleArtist)).artist_albums_requests_queue_.map
      (fun r => r.artist.artist_id) = ["a", "b", "c", "d", "e"] ∧
    (run sampleEnv QueryType_Artists
      (differingTotalInputs "artists" sampleArtist)).finished_ = false := by
  decide

/-! ## Cover downloads -/

theorem foldl_setLocalCover (filename : String) (ids : List String) :
    ∀ songs : SongMap,
      ids.foldl (fun songs id => setLocalCover songs filename id) songs =
        songs.map (fun kv =>
          if ids.contains kv.1 = true then
            (kv.1, { kv.2 with art_automatic := "file://" ++ filename })
          else kv) := by
  induction ids with
  | nil => intro songs; simp
  | cons id rest ih =>
    intro songs
    rw [List.foldl_cons, ih]
    unfold setLocalCover
    rw [List.map_map]
    apply List.map_congr_left
    intro kv _
    by_cases h : kv.1 = id
    · simp [h]
    · have h1 : (kv.1 == id) = false := by simpa using h
      simp [h1, h]

theorem FinishCheck_songs (s : State) : (FinishCheck s).songs_ = s.songs_ :=
  (agree_FinishCheck (fun _ h => h) (AgreeOff.unchanged fpFinishCheck s)).songs_ (by decide)

theorem FinishCheck_sent (s : State) :
    (FinishCheck s).album_covers_requests_sent_ = s.album_covers_requests_sent_ :=
  (agree_FinishCheck (fun _ h => h)
    (AgreeOff.unchanged fpFinishCheck s)).album_covers_requests_sent_ (by decide)

theorem FinishCheck_covers_active (s : State) :
    (FinishCheck s).album_covers_requests_active_ = s.album_covers_requests_active_ :=
  (agree_FinishCheck (fun _ h => h)
    (AgreeOff.unchanged fpFinishCheck s)).album_covers_requests_active_ (by decide)

theorem AlbumCoverReceived_due (env : Env) (s : State) (reply : QNetworkReply)
    (url filename : String) (h : CoverDue s reply url) :
    AlbumCoverReceived env s reply url filename =
      AlbumCoverBody env
        (albumCoverProgress (albumCoverSettled (takeCoverReply s reply.handle))) reply url
        filename := by
  obtain ⟨hreg, hfin, _⟩ := h
  unfold AlbumCoverReceived
  rw [if_neg (not_not.mpr hreg)]
  unfold AlbumCoverSettled
  rw [if_neg (by simp [albumCoverSettled, takeCoverReply, hfin])]

theorem mapContains_filter_ne {α : Type} (m : List (String × α)) (key : String) :
    mapContains (m.filter (fun kv => kv.1 != key)) key = false := by
  unfold mapContains
  simp [List.any_eq_false]

/-- A saved cover at the handler: when a registered download of an unfinished request, whose URL
`url` is in the cover registry, arrives without network error, with HTTP 200, a supported
mimetype and data, and the image loads and is saved, then every song whose id is registered
under `url` gets the local file as its cover, every other song is as before, the registry has no
entry for `url` any more and keeps the entries of the other URLs. -/
theorem saved_cover_when_due (env : Env) (s : State)
    (reply : QNetworkReply) (url filename : String) (hdue : CoverDue s reply url)
    (hok : CoverSaved env reply) :
    (AlbumCoverReceived env s reply url filename).songs_ =
      s.songs_.map (fun kv =>
        if (coverSongIds s url).contains kv.1 = true then
          (kv.1, { kv.2 with art_automatic := "file://" ++ filename })
        else kv) ∧
    mapContains (AlbumCoverReceived env s reply url filename).album_covers_requests_sent_ url =
      false ∧
    (AlbumCoverReceived env s reply url filename).album_covers_requests_sent_ =
      s.album_covers_requests_sent_.filter (fun kv => kv.1 != url) := by
  obtain ⟨h1, h2, h3, h4, h5, h6⟩ := hok
  have hc : mapContains
      (albumCoverProgress (albumCoverSettled
        (takeCoverReply s reply.handle))).album_covers_requests_sent_ url = true := hdue.2.2
  have hb : AlbumCoverReceived env s reply url filename =
      AlbumCoverFinishCheck
        (applyCover (albumCoverProgress (albumCoverSettled (takeCoverReply s reply.handle)))
          url filename) := by
    rw [AlbumCoverReceived_due env s reply url filename hdue]
    unfold AlbumCoverBody
    rw [if_neg (by simp [hc])]
    simp only [h1]
    rw [if_neg (not_not.mpr h2), if_neg (by simp [h3]), if_neg (by simp [h4]), if_pos h5,
      if_pos h6]
  rw [hb]
  unfold AlbumCoverFinishCheck
  rw [FinishCheck_songs, FinishCheck_sent]
  refine ⟨?_, mapContains_filter_ne _ _, rfl⟩
  exact foldl_setLocalCover filename (coverSongIds s url) s.songs_

/-- The cover `u` shared by the songs 1 and 2 is saved in a state set up by hand; both get the
local file, song 3 keeps its cover, and only the entry of `v` is left in the registry. -/
theorem saved_cover_when_due_example :
    (AlbumCoverReceived sampleEnv sharedCoverState (savedCoverReply 0) "u" "/covers/u").songs_.map
      (fun kv => (kv.1, kv.2.art_automatic)) =
      [("1", "file:///covers/u"), ("2", "file:///covers/u"), ("3", "v")] ∧
    (AlbumCoverReceived sampleEnv sharedCoverState (savedCoverReply 0) "u"
      "/covers/u").album_covers_requests_sent_ = [("v", "3")] := by
  have h := saved_cover_when_due sampleEnv sharedCoverState
    (savedCoverReply 0) "u" "/covers/u" (by decide) (by decide)
  rw [h.1, h.2.2]
  decide

theorem append_ne_empty_right (a b : String) (h : b ≠ "") : a ++ b ≠ "" := by
  intro hab
  apply h
  have h1 := congrArg String.data hab
  rw [String.data_append] at h1
  have h2 : b.data = [] := (List.append_eq_nil.mp h1).2
  cases b
  simp only at h2
  rw [h2]

theorem cover_error_logged (x : State) (e url : String) (he : e ≠ "") :
    (AlbumCoverFinishCheck (removeCover (Error x e) url)).errors_ = x.errors_ ++ [e] ∧
    (AlbumCoverFinishCheck (removeCover (Error x e) url)).album_covers_requests_sent_ =
      x.album_covers_requests_sent_.filter (fun kv => kv.1 != url) ∧
    (AlbumCoverFinishCheck (removeCover (Error x e) url)).songs_ = x.songs_ ∧
    (AlbumCoverFinishCheck (removeCover (Error x e) url)).album_covers_requests_active_ =
      x.album_covers_requests_active_ := by
  have hE := agree_Error (fun _ h => h) (AgreeOff.unchanged fpError x) e
  unfold AlbumCoverFinishCheck
  rw [FinishCheck_errors, FinishCheck_sent, FinishCheck_songs, FinishCheck_covers_active]
  refine ⟨Error_errors x e he, ?_, hE.songs_ (by decide),
    hE.album_covers_requests_active_ (by decide)⟩
  show (Error x e).album_covers_requests_sent_.filter _ = _
  rw [hE.album_covers_requests_sent_ (by decide)]

theorem cover_error_logged_after (x : State) (e url : String) (he : e ≠ "") :
    (AlbumCoverFinishCheck (Error (removeCover x url) e)).errors_ = x.errors_ ++ [e] ∧
    (AlbumCoverFinishCheck (Error (removeCover x url) e)).album_covers_requests_sent_ =
      x.album_covers_requests_sent_.filter (fun kv => kv.1 != url) ∧
    (AlbumCoverFinishCheck (Error (removeCover x url) e)).songs_ = x.songs_ ∧
    (AlbumCoverFinishCheck (Error (removeCover x url) e)).album_covers_requests_active_ =
      x.album_covers_requests_active_ := by
  have hE := agree_Error (fun _ h => h) (AgreeOff.unchanged fpError (removeCover x url)) e
  unfold AlbumCoverFinishCheck
  rw [FinishCheck_errors, FinishCheck_sent, FinishCheck_songs, FinishCheck_covers_active]
  exact ⟨Error_errors _ e he, hE.album_covers_requests_sent_ (by decide),
    hE.songs_ (by decide), hE.album_covers_requests_active_ (by decide)⟩

theorem cover_failure_outcome (s x t : State) (e url : String) (he : e ≠ "")
    (hx : x.errors_ = s.errors_ ∧
      x.album_covers_requests_sent_ = s.album_covers_requests_sent_ ∧
      x.songs_ = s.songs_ ∧
      x.album_covers_requests_active_ = s.album_covers_requests_active_ - 1)
    (ht : t.errors_ = x.errors_ ++ [e] ∧
      t.album_covers_requests_sent_ =
        x.album_covers_requests_sent_.filter (fun kv => kv.1 != url) ∧
      t.songs_ = x.songs_ ∧
      t.album_covers_requests_active_ = x.album_covers_requests_active_) :
    (∃ e, e ≠ "" ∧ t.errors_ = s.errors_ ++ [e]) ∧
    t.album_covers_requests_sent_ =
      s.album_covers_requests_sent_.filter (fun kv => kv.1 != url) ∧
    mapContains t.album_covers_requests_sent_ url = false ∧
    t.songs_ = s.songs_ ∧
    t.album_covers_requests_active_ = s.album_covers_requests_active_ - 1 := by
  obtain ⟨h1, h2, h3, h4⟩ := ht
  obtain ⟨x1, x2, x3, x4⟩ := hx
  refine ⟨⟨e, he, by rw [h1, x1]⟩, by rw [h2, x2], ?_, by rw [h3, x3], by rw [h4, x4]⟩
  rw [h2]
  exact mapContains_filter_ne _ _

/-- A failed cover at the handler: when a registered download of an unfinished request, whose
URL `url` is in the cover registry, fails one of the tests (network error, HTTP status other
than 200, unsupported mimetype, empty data, image that does not load, image that is not saved),
one error is logged, every entry of `url` leaves the registry while the entries of other URLs
stay, the song map is as before and `album_covers_requests_active_` is one less. -/
theorem failed_cover_when_due (env : Env) (s : State) (reply : QNetworkReply)
    (url filename : String) (hdue : CoverDue s reply url) (hfail : ¬ CoverSaved env reply) :
    (∃ e, e ≠ "" ∧
      (AlbumCoverReceived env s reply url filename).errors_ = s.errors_ ++ [e]) ∧
    (AlbumCoverReceived env s reply url filename).album_covers_requests_sent_ =
      s.album_covers_requests_sent_.filter (fun kv => kv.1 != url) ∧
    mapContains (AlbumCoverReceived env s reply url filename).album_covers_requests_sent_ url =
      false ∧
    (AlbumCoverReceived env s reply url filename).songs_ = s.songs_ ∧
    (AlbumCoverReceived env s reply url filename).album_covers_requests_active_ =
      s.album_covers_requests_active_ - 1 := by
  have hc : mapContains
      (albumCoverProgress (albumCoverSettled
        (takeCoverReply s reply.handle))).album_covers_requests_sent_ url = true := hdue.2.2
  have hx : (albumCoverProgress (albumCoverSettled (takeCoverReply s reply.handle))).errors_ =
        s.errors_ ∧
      (albumCoverProgress (albumCoverSettled
        (takeCoverReply s reply.handle))).album_covers_requests_sent_ =
        s.album_covers_requests_sent_ ∧
      (albumCoverProgress (albumCoverSettled (takeCoverReply s reply.handle))).songs_ =
        s.songs_ ∧
      (albumCoverProgress (albumCoverSettled
        (takeCoverReply s reply.handle))).album_covers_requests_active_ =
        s.album_covers_requests_active_ - 1 := ⟨rfl, rfl, rfl, rfl⟩
  rw [AlbumCoverReceived_due env s reply url filename hdue]
  generalize albumCoverProgress (albumCoverSettled (takeCoverReply s reply.handle)) = x
    at hc hx ⊢
  unfold AlbumCoverBody
  rw [if_neg (by simp [hc])]
  split
  · exact cover_failure_outcome s x _ _ url (append_ne_empty_right _ _ (by decide)) hx
      (cover_error_logged x _ url (append_ne_empty_right _ _ (by decide)))
  · rename_i h1
    split
    · exact cover_failure_outcome s x _ _ url (append_ne_empty_right _ _ (by decide)) hx
        (cover_error_logged x _ url (append_ne_empty_right _ _ (by decide)))
    · rename_i h2
      split
      · exact cover_failure_outcome s x _ _ url
          (append_ne_empty_left _ _ (append_ne_empty_right _ _ (by decide))) hx
          (cover_error_logged x _ url
            (append_ne_empty_left _ _ (append_ne_empty_right _ _ (by decide))))
      · rename_i h3
        split
        · exact cover_failure_outcome s x _ _ url (append_ne_empty_left _ _ (by decide)) hx
            (cover_error_logged x _ url (append_ne_empty_left _ _ (by decide)))
        · rename_i h4
          split
          · rename_i h5
            split
            · rename_i h6
              exact absurd ⟨h1, not_not.mp h2, by simpa using h3, by simpa using h4, h5, h6⟩
                hfail
            · exact cover_failure_outcome s x _ _ url (append_ne_empty_left _ _ (by decide))
                hx (cover_error_logged x _ url (append_ne_empty_left _ _ (by decide)))
          · exact cover_failure_outcome s x _ _ url (append_ne_empty_left _ _ (by decide)) hx
              (cover_error_logged_after x _ url (append_ne_empty_left _ _ (by decide)))

theorem failed_cover_when_due_example :
    (AlbumCoverReceived sampleEnv sharedCoverState (notFoundCoverReply 0) "u"
        "/covers/u").errors_ = ["Received HTTP code 404 for u."] ∧
    (AlbumCoverReceived sampleEnv sharedCoverState (notFoundCoverReply 0) "u"
        "/covers/u").album_covers_requests_sent_ = [("v", "3")] ∧
    (AlbumCoverReceived sampleEnv sharedCoverState (notFoundCoverReply 0) "u"
        "/covers/u").songs_ = sharedCoverState.songs_ ∧
    (AlbumCoverReceived sampleEnv sharedCoverState (notFoundCoverReply 0) "u"
        "/covers/u").album_covers_requests_active_ = 0 := by
  have h := failed_cover_when_due sampleEnv sharedCoverState (notFoundCoverReply 0) "u"
    "/covers/u" (by decide) (by decide)
  refine ⟨by decide, ?_, h.2.2.2.1, ?_⟩
  · rw [h.2.1]; decide
  · rw [h.2.2.2.2]; decide

theorem mapContains_append {α : Type} (m n : List (String × α)) (key : String) :
    mapContains (m ++ n) key = (mapContains m key || mapContains n key) := by
  unfold mapContains
  exact List.any_append

theorem CoversQueued_AddAlbumCoverRequest (env : Env) (base : Int) (s : State) (song : Song)
    (h : CoversQueued base s) : CoversQueued base (AddAlbumCoverRequest env s song) := by
  unfold AddAlbumCoverRequest
  split
  · exact h
  · split
    · rename_i hc
      refine ⟨h.nodup, fun u => ?_, h.total⟩
      show _ ↔ mapContains (s.album_covers_requests_sent_ ++ _) u = true
      rw [mapContains_append, h.registered u]
      by_cases hu : song.art_automatic = u
      · subst hu
        simp [hc]
      · simp [mapContains, hu]
    · rename_i hc
      split
      · exact h
      · have hnew : song.art_automatic ∉ s.album_cover_requests_queue_.map (fun r => r.url) :=
          fun hm => hc ((h.registered _).mp hm)
        refine ⟨?_, fun u => ?_, ?_⟩
        · show ((s.album_cover_requests_queue_ ++ _).map (fun r => r.url)).Nodup
          rw [List.map_append]
          refine List.Nodup.append h.nodup (List.nodup_singleton _) ?_
          intro a ha hb
          rw [List.map_singleton, List.mem_singleton] at hb
          subst hb
          exact hnew ha
        · show u ∈ (s.album_cover_requests_queue_ ++ _).map (fun r => r.url) ↔
            mapContains (s.album_covers_requests_sent_ ++ _) u = true
          rw [mapContains_append, List.map_append, List.mem_append, h.registered u]
          by_cases hu : song.art_automatic = u
          · subst hu
            simp [mapContains]
          · simp [mapContains, hu, Ne.symm hu]
        · show s.album_covers_requests_total_ + 1 =
            base + ((s.album_cover_requests_queue_ ++ _).length : Nat)
          rw [h.total, List.length_append, List.length_singleton]
          push_cast
          ring

theorem CoversQueued_foldl (env : Env) (base : Int) (songs : SongMap) :
    ∀ s : State, CoversQueued base s →
      CoversQueued base (songs.foldl (fun st kv => AddAlbumCoverRequest env st kv.2) s) := by
  induction songs with
  | nil => exact fun s h => h
  | cons kv rest ih =>
    intro s h
    exact ih _ (CoversQueued_AddAlbumCoverRequest env base s kv.2 h)

theorem CoversQueued_GetAlbumCovers (env : Env) (base : Int) (s : State)
    (h : CoversQueued base s) : CoversQueued base (GetAlbumCovers env s) := by
  have h1 := CoversQueued_foldl env base s.songs_ s h
  have ha : AgreeOff [Field.emitted, Field.timer_active]
      (s.songs_.foldl (fun st kv => AddAlbumCoverRequest env st kv.2) s)
      (GetAlbumCovers env s) := by
    unfold GetAlbumCovers
    exact agree_StartRequests (by decide) (agree_emit (by decide)
      (agree_albumCoversStatus (by decide) (AgreeOff.unchanged _ _)) _)
  have e1 := ha.album_cover_requests_queue_ (by decide)
  have e2 := ha.album_covers_requests_sent_ (by decide)
  have e3 := ha.album_covers_requests_total_ (by decide)
  refine ⟨?_, fun u => ?_, ?_⟩
  · rw [e1]; exact h1.nodup
  · rw [e1, e2]; exact h1.registered u
  · rw [e1, e3]; exact h1.total

/-- C15: when the registry and the cover queue are empty and no download was counted, as they
are when `GetAlbumCoversCheck` lets `GetAlbumCovers` run (in every run the delivery that queues
the downloads leaves these books, `covers_queued_on_clean_books`), then after `GetAlbumCovers` no URL is
queued twice, the queued URLs are exactly the registered ones, and
`album_covers_requests_total_` is the number of queued downloads; and a song whose valid cover
URL is already registered is only appended to the registry, the queue and the total staying as
they are. -/
theorem one_download_per_cover_url (env : Env) (s : State)
    (hsent : s.album_covers_requests_sent_ = []) (hqueue : s.album_cover_requests_queue_ = [])
    (htotal : s.album_covers_requests_total_ = 0) :
    ((GetAlbumCovers env s).album_cover_requests_queue_.map (fun r => r.url)).Nodup ∧
    (∀ u, u ∈ (GetAlbumCovers env s).album_cover_requests_queue_.map (fun r => r.url) ↔
      mapContains (GetAlbumCovers env s).album_covers_requests_sent_ u = true) ∧
    (GetAlbumCovers env s).album_covers_requests_total_ =
      (GetAlbumCovers env s).album_cover_requests_queue_.length ∧
    (∀ (st : State) (song : Song), env.url_valid song.art_automatic = true →
      mapContains st.album_covers_requests_sent_ song.art_automatic = true →
      (AddAlbumCoverRequest env st song).album_covers_requests_sent_ =
        st.album_covers_requests_sent_ ++ [(song.art_automatic, song.song_id)] ∧
      (AddAlbumCoverRequest env st song).album_cover_requests_queue_ =
        st.album_cover_requests_queue_ ∧
      (AddAlbumCoverRequest env st song).album_covers_requests_total_ =
        st.album_covers_requests_total_) := by
  have h0 : CoversQueued 0 s := by
    refine ⟨?_, fun u => ?_, ?_⟩
    · rw [hqueue]; exact List.nodup_nil
    · rw [hqueue, hsent]; simp [mapContains]
    · rw [hqueue, htotal]; rfl
  have h := CoversQueued_GetAlbumCovers env 0 s h0
  refine ⟨h.nodup, h.registered, by rw [h.total, zero_add], ?_⟩
  intro st song hv hc
  unfold AddAlbumCoverRequest
  rw [if_neg (by simp [hv]), if_pos hc]
  exact ⟨rfl, rfl, rfl⟩

theorem one_download_per_cover_url_witness :
    (GetAlbumCovers coverEnv sharedCoverSongs).album_cover_requests_queue_ =
      [{ url := "u", filename := "/covers/u" }, { url := "v", filename := "/covers/v" }] ∧
    (GetAlbumCovers coverEnv sharedCoverSongs).album_covers_requests_sent_ =
      [("u", "1"), ("u", "2"), ("v", "3")] ∧
    (GetAlbumCovers coverEnv sharedCoverSongs).album_covers_requests_total_ = 2 := by
  have h := one_download_per_cover_url coverEnv sharedCoverSongs rfl rfl rfl
  refine ⟨by decide, by decide, ?_⟩
  rw [h.2.2.1]
  decide

/-! ## The stage ordering -/

theorem Wired.carry {s t : State} (h : Wired s) (hc : t.connections = s.connections)
    (hn : t.next_reply = s.next_reply) (hr : t.replies_ = s.replies_)
    (hcr : t.album_cover_replies_ = s.album_cover_replies_)
    (ha : ∀ k, t.active k = s.active k) : Wired t := by
  refine ⟨?_, ?_, ?_, ?_, ?_⟩
  · rw [hc, hn]; exact h.fresh
  · rw [hc]; exact h.nodup
  · rw [hc, hr]; exact h.api
  · rw [hc, hcr]; exact h.cover
  · intro k
    rw [ha k, h.counts k]
    unfold inFlight
    rw [hc]

theorem Wired.sent {s t : State} (h : Wired s) (slot : Callback)
    (hc : t.connections = s.connections ++ [(s.next_reply, slot)])
    (hn : t.next_reply = s.next_reply + 1)
    (hr : ∀ r ∈ s.replies_, r ∈ t.replies_)
    (hcr : ∀ r ∈ s.album_cover_replies_, r ∈ t.album_cover_replies_)
    (hnew : slot.stage ≠ Stage.albumCovers → s.next_reply ∈ t.replies_)
    (hnewc : slot.stage = Stage.albumCovers → s.next_reply ∈ t.album_cover_replies_)
    (ha : ∀ k, t.active k = s.active k + (if slot.stage = k then 1 else 0)) : Wired t := by
  refine ⟨?_, ?_, ?_, ?_, ?_⟩
  · intro c hcm
    rw [hc, List.mem_append, List.mem_singleton] at hcm
    rw [hn]
    rcases hcm with hcm | hcm
    · exact Nat.lt_succ_of_lt (h.fresh c hcm)
    · rw [hcm]; exact Nat.lt_succ_self _
  · rw [hc, List.map_append]
    refine List.Nodup.append h.nodup (List.nodup_singleton _) ?_
    intro a ha1 ha2
    rw [List.map_singleton, List.mem_singleton] at ha2
    obtain ⟨c, hcm, hca⟩ := List.mem_map.mp ha1
    have := h.fresh c hcm
    rw [hca, ha2] at this
    exact Nat.lt_irrefl _ this
  · intro c hcm hk
    rw [hc, List.mem_append, List.mem_singleton] at hcm
    rcases hcm with hcm | hcm
    · exact hr _ (h.api c hcm hk)
    · rw [hcm] at hk ⊢; exact hnew hk
  · intro c hcm hk
    rw [hc, List.mem_append, List.mem_singleton] at hcm
    rcases hcm with hcm | hcm
    · exact hcr _ (h.cover c hcm hk)
    · rw [hcm] at hk ⊢; exact hnewc hk
  · intro k
    rw [ha k, h.counts k]
    unfold inFlight
    rw [hc, List.countP_append]
    by_cases hk : slot.stage = k
    · simp [hk]
    · simp [hk]

theorem countP_filter_handle (l : List (Nat × Callback)) (c : Nat × Callback) (k : Stage)
    (hn : (l.map (fun c => c.1)).Nodup) (hc : c ∈ l) :
    ((l.countP (fun x => x.2.stage == k) : Nat) : Int) =
      ((l.filter (fun x => x.1 != c.1)).countP (fun x => x.2.stage == k) : Nat) +
        (if c.2.stage = k then 1 else 0) := by
  induction l with
  | nil => exact absurd hc (List.not_mem_nil _)
  | cons x rest ih =>
    rw [List.map_cons, List.nodup_cons] at hn
    rcases List.mem_cons.mp hc with hx | hx
    · subst hx
      have hrest : rest.filter (fun x => x.1 != c.1) = rest := by
        apply List.filter_eq_self.mpr
        intro y hy
        have : y.1 ≠ c.1 := fun e => hn.1 (e ▸ List.mem_map_of_mem (fun c => c.1) hy)
        simpa using this
      rw [List.filter_cons_of_neg (by simp), hrest, List.countP_cons]
      by_cases hk : c.2.stage = k
      · simp [hk]
      · simp [hk]
    · have hne : x.1 ≠ c.1 := fun e => hn.1 (e ▸ List.mem_map_of_mem (fun c => c.1) hx)
      rw [List.filter_cons_of_pos (by simpa using hne), List.countP_cons, List.countP_cons]
      have := ih hn.2 hx
      push_cast
      omega

theorem Wired.taken {s t : State} (h : Wired s) (c : Nat × Callback) (hcm : c ∈ s.connections)
    (hc : t.connections = s.connections.filter (fun x => x.1 != c.1))
    (hn : t.next_reply = s.next_reply)
    (hr : ∀ r ∈ s.replies_, r ≠ c.1 → r ∈ t.replies_)
    (hcr : ∀ r ∈ s.album_cover_replies_, r ≠ c.1 → r ∈ t.album_cover_replies_)
    (ha : ∀ k, t.active k = s.active k - (if c.2.stage = k then 1 else 0)) : Wired t := by
  have hmem : ∀ x ∈ t.connections, x ∈ s.connections ∧ x.1 ≠ c.1 := by
    intro x hx
    rw [hc, List.mem_filter] at hx
    exact ⟨hx.1, by simpa using hx.2⟩
  refine ⟨?_, ?_, ?_, ?_, ?_⟩
  · intro x hx
    rw [hn]
    exact h.fresh x (hmem x hx).1
  · rw [hc]
    exact (List.Nodup.sublist ((List.filter_sublist _).map _) h.nodup)
  · intro x hx hk
    exact hr _ (h.api x (hmem x hx).1 hk) (hmem x hx).2
  · intro x hx hk
    exact hcr _ (h.cover x (hmem x hx).1 hk) (hmem x hx).2
  · intro k
    rw [ha k, h.counts k]
    unfold inFlight
    rw [hc, countP_filter_handle s.connections c k h.nodup hcm]
    omega

theorem Wired.active_pos {s : State} (h : Wired s) (c : Nat × Callback)
    (hcm : c ∈ s.connections) : 0 < s.active c.2.stage := by
  rw [h.counts]
  unfold inFlight
  have : 0 < s.connections.countP (fun x => x.2.stage == c.2.stage) :=
    List.countP_pos_iff.mpr ⟨c, hcm, by simp⟩
  exact_mod_cast this

theorem Wired.active_nonneg {s : State} (h : Wired s) (k : Stage) : 0 ≤ s.active k := by
  rw [h.counts]
  unfold inFlight
  exact Int.natCast_nonneg _

theorem StageOrder.shrink {s t : State} (h : StageOrder s)
    (q1 : s.artists_requests_queue_ = [] → t.artists_requests_queue_ = [])
    (q2 : s.albums_requests_queue_ = [] → t.albums_requests_queue_ = [])
    (q3 : s.artist_albums_requests_queue_ = [] → t.artist_albums_requests_queue_ = [])
    (q4 : s.album_songs_requests_queue_ = [] → t.album_songs_requests_queue_ = [])
    (a1 : t.artists_requests_active_ ≤ s.artists_requests_active_)
    (a2 : t.albums_requests_active_ ≤ s.albums_requests_active_)
    (a3 : t.artist_albums_requests_active_ ≤ s.artist_albums_requests_active_)
    (a4 : t.album_songs_requests_active_ ≤ s.album_songs_requests_active_) : StageOrder t := by
  obtain ⟨h1, h2⟩ := h
  constructor
  · intro hyp
    have hs : s.artist_albums_requests_queue_ ≠ [] ∨ s.artist_albums_requests_active_ > 0 :=
      hyp.imp (fun hne he => hne (q3 he)) (fun hp => by omega)
    obtain ⟨c1, c2⟩ := h1 hs
    exact ⟨q1 c1, by omega⟩
  · intro hyp
    have hs : s.album_songs_requests_queue_ ≠ [] ∨ s.album_songs_requests_active_ > 0 :=
      hyp.imp (fun hne he => hne (q4 he)) (fun hp => by omega)
    obtain ⟨c1, c2, c3, c4, c5, c6⟩ := h2 hs
    exact ⟨q1 c1, by omega, q2 c3, by omega, q3 c5, by omega⟩

theorem ListingTypes.narrow {s t : State} (h : ListingTypes s) (ht : t.type_ = s.type_)
    (q1 : s.albums_requests_queue_ = [] → t.albums_requests_queue_ = [])
    (q2 : s.songs_requests_queue_ = [] → t.songs_requests_queue_ = [])
    (a1 : t.albums_requests_active_ ≤ s.albums_requests_active_)
    (a2 : t.songs_requests_active_ ≤ s.songs_requests_active_) : ListingTypes t := by
  obtain ⟨h1, h2⟩ := h
  constructor
  · intro hyp
    rw [ht]
    exact h1 (hyp.imp (fun hne he => hne (q1 he)) (fun hp => by omega))
  · intro hyp
    rw [ht]
    exact h2 (hyp.imp (fun hne he => hne (q2 he)) (fun hp => by omega))

theorem StageOrder.of_idle {t : State}
    (haa : (t.artist_albums_requests_queue_ = [] ∧ t.artist_albums_requests_active_ ≤ 0) ∨
      (t.artists_requests_queue_ = [] ∧ t.artists_requests_active_ ≤ 0))
    (has : (t.album_songs_requests_queue_ = [] ∧ t.album_songs_requests_active_ ≤ 0) ∨
      (t.artists_requests_queue_ = [] ∧ t.artists_requests_active_ ≤ 0 ∧
        t.albums_requests_queue_ = [] ∧ t.albums_requests_active_ ≤ 0 ∧
        t.artist_albums_requests_queue_ = [] ∧ t.artist_albums_requests_active_ ≤ 0)) :
    StageOrder t := by
  constructor
  · intro hyp
    rcases haa with h | h
    · rcases hyp with x | x
      · exact absurd h.1 x
      · omega
    · exact h
  · intro hyp
    rcases has with h | h
    · rcases hyp with x | x
      · exact absurd h.1 x
      · omega
    · exact h

/-- While the artists listing works, no artist-albums and no album-songs request exists. -/
theorem StageOrder.artists_busy {s : State} (h : StageOrder s)
    (hb : s.artists_requests_queue_ ≠ [] ∨ s.artists_requests_active_ > 0) :
    (s.artist_albums_requests_queue_ = [] ∧ s.artist_albums_requests_active_ ≤ 0) ∧
    (s.album_songs_requests_queue_ = [] ∧ s.album_songs_requests_active_ ≤ 0) := by
  obtain ⟨h1, h2⟩ := h
  refine ⟨⟨?_, ?_⟩, ⟨?_, ?_⟩⟩
  · by_contra hne
    obtain ⟨c1, c2⟩ := h1 (Or.inl hne)
    rcases hb with x | x
    · exact x c1
    · omega
  · by_contra hne
    obtain ⟨c1, c2⟩ := h1 (Or.inr (by omega))
    rcases hb with x | x
    · exact x c1
    · omega
  · by_contra hne
    obtain ⟨c1, c2, _⟩ := h2 (Or.inl hne)
    rcases hb with x | x
    · exact x c1
    · omega
  · by_contra hne
    obtain ⟨c1, c2, _⟩ := h2 (Or.inr (by omega))
    rcases hb with x | x
    · exact x c1
    · omega

/-- While the albums listing works, no album-songs request exists. -/
theorem StageOrder.albums_busy {s : State} (h : StageOrder s)
    (hb : s.albums_requests_queue_ ≠ [] ∨ s.albums_requests_active_ > 0) :
    s.album_songs_requests_queue_ = [] ∧ s.album_songs_requests_active_ ≤ 0 := by
  obtain ⟨h1, h2⟩ := h
  refine ⟨?_, ?_⟩
  · by_contra hne
    obtain ⟨_, _, c1, c2, _⟩ := h2 (Or.inl hne)
    rcases hb with x | x
    · exact x c1
    · omega
  · by_contra hne
    obtain ⟨_, _, c1, c2, _⟩ := h2 (Or.inr (by omega))
    rcases hb with x | x
    · exact x c1
    · omega

/-- While artist-albums requests exist, no album-songs request exists. -/
theorem StageOrder.artist_albums_busy {s : State} (h : StageOrder s)
    (hb : s.artist_albums_requests_queue_ ≠ [] ∨ s.artist_albums_requests_active_ > 0) :
    s.album_songs_requests_queue_ = [] ∧ s.album_songs_requests_active_ ≤ 0 := by
  obtain ⟨h1, h2⟩ := h
  refine ⟨?_, ?_⟩
  · by_contra hne
    obtain ⟨_, _, _, _, c1, c2⟩ := h2 (Or.inl hne)
    rcases hb with x | x
    · exact x c1
    · omega
  · by_contra hne
    obtain ⟨_, _, _, _, c1, c2⟩ := h2 (Or.inr (by omega))
    rcases hb with x | x
    · exact x c1
    · omega

theorem Sound_FlushArtistsLoop (q : List Request) :
    ∀ s : State, s.artists_requests_queue_ = q → Sound s → Sound (FlushArtistsLoop q s) := by
  induction q with
  | nil => intro s _ h; exact h
  | cons r q ih =>
    intro s hq h
    have hb : s.artists_requests_queue_ ≠ [] := by rw [hq]; exact List.cons_ne_nil _ _
    have hidle := h.order.artists_busy (Or.inl hb)
    unfold FlushArtistsLoop
    split
    · split
      · refine ih _ rfl ⟨?_, ?_, ?_⟩
        · refine h.wired.sent (Callback.Artists r.limit r.offset) rfl rfl
            (fun x hx => List.mem_append_left _ hx) (fun x hx => hx)
            (fun _ => List.mem_append_right _ (List.mem_singleton.mpr rfl))
            (fun hk => Stage.noConfusion hk) ?_
          intro k
          cases k <;> simp [State.active, Callback.stage, artistsSent, issueReply]
        · exact StageOrder.of_idle (Or.inl hidle.1) (Or.inl hidle.2)
        · exact h.types
      · exact ih _ rfl ⟨h.wired.carry rfl rfl rfl rfl (fun _ => rfl),
          StageOrder.of_idle (Or.inl hidle.1) (Or.inl hidle.2), h.types⟩
    · exact h

theorem Sound_FlushAlbumsLoop (q : List Request) :
    ∀ s : State, s.albums_requests_queue_ = q → Sound s → Sound (FlushAlbumsLoop q s) := by
  induction q with
  | nil => intro s _ h; exact h
  | cons r q ih =>
    intro s hq h
    have hb : s.albums_requests_queue_ ≠ [] := by rw [hq]; exact List.cons_ne_nil _ _
    have hidle := h.order.albums_busy (Or.inl hb)
    unfold FlushAlbumsLoop
    split
    · split
      · refine ih _ rfl ⟨?_, ?_, ?_⟩
        · refine h.wired.sent (Callback.Albums r.limit r.offset) rfl rfl
            (fun x hx => List.mem_append_left _ hx) (fun x hx => hx)
            (fun _ => List.mem_append_right _ (List.mem_singleton.mpr rfl))
            (fun hk => Stage.noConfusion hk) ?_
          intro k
          cases k <;> simp [State.active, Callback.stage, albumsSent, issueReply]
        · exact ⟨h.order.1, fun hyp => hyp.elim (fun x => absurd hidle.1 x) (fun x => absurd hidle.2 (not_le.mpr x))⟩
        · exact ⟨fun _ => h.types.1 (Or.inl hb), h.types.2⟩
      · exact ih _ rfl ⟨h.wired.carry rfl rfl rfl rfl (fun _ => rfl),
          h.order.shrink (by first | exact id | exact fun e => absurd e hb)
            (by first | exact id | exact fun e => absurd e hb) id id
            (le_refl _) (le_refl _) (le_refl _) (le_refl _),
          h.types.narrow rfl (by first | exact id | exact fun e => absurd e hb)
            (by first | exact id | exact fun e => absurd e hb) (le_refl _) (le_refl _)⟩
    · exact h

theorem Sound_FlushSongsLoop (q : List Request) :
    ∀ s : State, s.songs_requests_queue_ = q → Sound s → Sound (FlushSongsLoop q s) := by
  induction q with
  | nil => intro s _ h; exact h
  | cons r q ih =>
    intro s hq h
    have hb : s.songs_requests_queue_ ≠ [] := by rw [hq]; exact List.cons_ne_nil _ _
    unfold FlushSongsLoop
    split
    · split
      · refine ih _ rfl ⟨?_, ?_, ?_⟩
        · refine h.wired.sent (Callback.Songs r.limit r.offset) rfl rfl
            (fun x hx => List.mem_append_left _ hx) (fun x hx => hx)
            (fun _ => List.mem_append_right _ (List.mem_singleton.mpr rfl))
            (fun hk => Stage.noConfusion hk) ?_
          intro k
          cases k <;> simp [State.active, Callback.stage, songsSent, issueReply]
        · exact h.order
        · exact ⟨h.types.1, fun _ => h.types.2 (Or.inl hb)⟩
      · exact ih _ rfl ⟨h.wired.carry rfl rfl rfl rfl (fun _ => rfl),
          h.order.shrink (by first | exact id | exact fun e => absurd e hb)
            (by first | exact id | exact fun e => absurd e hb) id id
            (le_refl _) (le_refl _) (le_refl _) (le_refl _),
          h.types.narrow rfl (by first | exact id | exact fun e => absurd e hb)
            (by first | exact id | exact fun e => absurd e hb) (le_refl _) (le_refl _)⟩
    · exact h

theorem Sound_FlushArtistAlbumsLoop (q : List ArtistAlbumsRequest) :
    ∀ s : State, s.artist_albums_requests_queue_ = q → Sound s → Sound (FlushArtistAlbumsLoop q s) := by
  induction q with
  | nil => intro s _ h; exact h
  | cons r q ih =>
    intro s hq h
    have hb : s.artist_albums_requests_queue_ ≠ [] := by rw [hq]; exact List.cons_ne_nil _ _
    have hidle := h.order.artist_albums_busy (Or.inl hb)
    unfold FlushArtistAlbumsLoop
    split
    · refine ih _ rfl ⟨?_, ?_, ?_⟩
      · refine h.wired.sent (Callback.ArtistAlbums r.artist r.offset) rfl rfl
          (fun x hx => List.mem_append_left _ hx) (fun x hx => hx)
          (fun _ => List.mem_append_right _ (List.mem_singleton.mpr rfl))
          (fun hk => Stage.noConfusion hk) ?_
        intro k
        cases k <;> simp [State.active, Callback.stage, artistAlbumsSent, issueReply]
      · exact ⟨fun _ => h.order.1 (Or.inl hb), fun hyp => hyp.elim (fun x => absurd hidle.1 x) (fun x => absurd hidle.2 (not_le.mpr x))⟩
      · exact h.types
    · exact h

theorem Sound_FlushAlbumSongsLoop (q : List AlbumSongsRequest) :
    ∀ s : State, s.album_songs_requests_queue_ = q → Sound s → Sound (FlushAlbumSongsLoop q s) := by
  induction q with
  | nil => intro s _ h; exact h
  | cons r q ih =>
    intro s hq h
    have hb : s.album_songs_requests_queue_ ≠ [] := by rw [hq]; exact List.cons_ne_nil _ _
    unfold FlushAlbumSongsLoop
    split
    · refine ih _ rfl ⟨?_, ?_, ?_⟩
      · refine h.wired.sent (Callback.AlbumSongs r.artist r.album r.offset) rfl rfl
          (fun x hx => List.mem_append_left _ hx) (fun x hx => hx)
          (fun _ => List.mem_append_right _ (List.mem_singleton.mpr rfl))
          (fun hk => Stage.noConfusion hk) ?_
        intro k
        cases k <;> simp [State.active, Callback.stage, albumSongsSent, issueReply]
      · exact ⟨h.order.1, fun _ => h.order.2 (Or.inl hb)⟩
      · exact h.types
    · exact h

theorem Sound_FlushAlbumCoverLoop (q : List AlbumCoverRequest) :
    ∀ s : State, s.album_cover_requests_queue_ = q → Sound s → Sound (FlushAlbumCoverLoop q s) := by
  induction q with
  | nil => intro s _ h; exact h
  | cons r q ih =>
    intro s hq h
    have hb : s.album_cover_requests_queue_ ≠ [] := by rw [hq]; exact List.cons_ne_nil _ _
    unfold FlushAlbumCoverLoop
    split
    · refine ih _ rfl ⟨?_, ?_, ?_⟩
      · refine h.wired.sent (Callback.AlbumCover r.url r.filename) rfl rfl
          (fun x hx => hx) (fun x hx => List.mem_append_left _ hx)
          (fun hk => absurd rfl hk)
          (fun _ => List.mem_append_right _ (List.mem_singleton.mpr rfl)) ?_
        intro k
        cases k <;> simp [State.active, Callback.stage, albumCoverSent, issueCoverReply]
      · exact h.order
      · exact h.types
    · exact h

theorem Sound_FlushRequests (s : State) (h : Sound s) : Sound (FlushRequests s) := by
  unfold FlushRequests FlushArtistsRequests FlushAlbumsRequests FlushSongsRequests
    FlushArtistAlbumsRequests FlushAlbumSongsRequests FlushAlbumCoverRequests
  repeat' first
    | exact Sound_FlushArtistsLoop _ s rfl h
    | exact Sound_FlushAlbumsLoop _ s rfl h
    | exact Sound_FlushSongsLoop _ s rfl h
    | exact Sound_FlushArtistAlbumsLoop _ s rfl h
    | exact Sound_FlushAlbumSongsLoop _ s rfl h
    | exact Sound_FlushAlbumCoverLoop _ s rfl h
    | exact ⟨h.wired.carry rfl rfl rfl rfl (fun _ => rfl), h.order, h.types⟩
    | split

/-! ## Every reply handler ends in its finish check -/

theorem Before.start {W : List Field} {P : State → Prop} {t : State} (h : P t) :
    Before W P t t :=
  ⟨AgreeOff.unchanged W t, h⟩

theorem agree_noResults {W : List Field} {s t : State} (hW : [Field.no_results_] ⊆ W)
    (h : AgreeOff W s t) : AgreeOff W s (noResults t) :=
  h.andThen (by constructor <;> intro hn <;> first | rfl | exact absurd (hW (by decide)) hn)

theorem agree_artistsTotalStored {W : List Field} {s t : State}
    (hW : [Field.artists_total_] ⊆ W) (h : AgreeOff W s t) (n : Int) :
    AgreeOff W s (artistsTotalStored t n) :=
  h.andThen (by constructor <;> intro hn <;> first | rfl | exact absurd (hW (by decide)) hn)

theorem before_foldl {β : Type} {W : List Field} {P : State → Prop} {t : State}
    (f : State → β → State) (hf : ∀ y b, Before W P t y → Before W P t (f y b))
    (l : List β) : ∀ y, Before W P t y → Before W P t (l.foldl f y) := by
  induction l with
  | nil => intro y h; exact h
  | cons b l ih => intro y h; exact ih _ (hf y b h)

theorem Steady.of_quiet {V U : List Field} {P : State → Prop} (h : Quiet V P)
    (hE : fpError ⊆ V) (hU : U ⊆ V) : Steady U P :=
  ⟨fun a b hab => h a b (hab.weaken hU),
    fun s e hp => h _ _ (agree_Error hE (AgreeOff.unchanged V s) e) hp⟩

theorem before_still {W V : List Field} {P : State → Prop} {t y z : State}
    (st : Steady V P) (h : Before W P t y) (hW : AgreeOff W y z) (hV : AgreeOff V y z) :
    Before W P t z :=
  ⟨h.agree.andThen hW, st.quiet _ _ hV h.holds⟩

theorem before_Error {W V : List Field} {P : State → Prop} {t y : State}
    (st : Steady V P) (hW : fpError ⊆ W) (e : String)
    (h : Before W P t y) : Before W P t (Error y e) :=
  ⟨agree_Error hW h.agree e, st.error y e h.holds⟩

theorem before_ExtractJsonObj {W V : List Field} {P : State → Prop} {t y : State}
    (st : Steady V P) (hW : fpError ⊆ W) (bytes : ReplyBytes)
    (h : Before W P t y) : Before W P t (ExtractJsonObj y bytes) :=
  before_foldl Error (fun _ e hy => before_Error st hW e hy) bytes.parse_errors y h

theorem before_noResults {W V : List Field} {P : State → Prop} {t y : State}
    (st : Steady V P) (hW : [Field.no_results_] ⊆ W) (hV : [Field.no_results_] ⊆ V)
    (h : Before W P t y) : Before W P t (noResults y) :=
  before_still st h (agree_noResults hW (AgreeOff.unchanged W y))
    (agree_noResults hV (AgreeOff.unchanged V y))

theorem before_artistsTotalStored {W V : List Field} {P : State → Prop} {t y : State}
    (st : Steady V P) (hW : [Field.artists_total_] ⊆ W) (hV : [Field.artists_total_] ⊆ V)
    (n : Int) (h : Before W P t y) : Before W P t (artistsTotalStored y n) :=
  before_still st h (agree_artistsTotalStored hW (AgreeOff.unchanged W y) n)
    (agree_artistsTotalStored hV (AgreeOff.unchanged V y) n)

theorem before_artistsProgress {W V : List Field} {P : State → Prop} {t y : State}
    (st : Steady V P) (hW : [Field.emitted] ⊆ W) (hV : [Field.emitted] ⊆ V)
    (h : Before W P t y) : Before W P t (artistsProgress y) :=
  before_still st h (agree_artistsProgress hW (AgreeOff.unchanged W y))
    (agree_artistsProgress hV (AgreeOff.unchanged V y))

theorem before_artistsCounted {W V : List Field} {P : State → Prop} {t y : State}
    (st : Steady V P) (hW : [Field.artists_received_] ⊆ W)
    (hV : [Field.artists_received_] ⊆ V)
    (n : Int) (h : Before W P t y) : Before W P t (artistsCounted y n) :=
  before_still st h (agree_artistsCounted hW (AgreeOff.unchanged W y) n)
    (agree_artistsCounted hV (AgreeOff.unchanged V y) n)

theorem before_albumsCounted {W V : List Field} {P : State → Prop} {t y : State}
    (st : Steady V P) (hW : [Field.albums_received_, Field.emitted] ⊆ W)
    (hV : [Field.albums_received_, Field.emitted] ⊆ V)
    (n : Int) (h : Before W P t y) : Before W P t (albumsCounted y n) :=
  before_still st h (agree_albumsCounted hW (AgreeOff.unchanged W y) n)
    (agree_albumsCounted hV (AgreeOff.unchanged V y) n)

theorem before_songsCounted {W V : List Field} {P : State → Prop} {t y : State}
    (st : Steady V P) (hW : [Field.songs_received_, Field.emitted] ⊆ W)
    (hV : [Field.songs_received_, Field.emitted] ⊆ V)
    (n : Int) (h : Before W P t y) : Before W P t (songsCounted y n) :=
  before_still st h (agree_songsCounted hW (AgreeOff.unchanged W y) n)
    (agree_songsCounted hV (AgreeOff.unchanged V y) n)

theorem before_songsInserted {W V : List Field} {P : State → Prop} {t y : State}
    (st : Steady V P) (hW : [Field.songs_] ⊆ W) (hV : [Field.songs_] ⊆ V)
    (l : List Song) (h : Before W P t y) : Before W P t (songsInserted y l) :=
  before_still st h (agree_songsInserted hW (AgreeOff.unchanged W y) l)
    (agree_songsInserted hV (AgreeOff.unchanged V y) l)

theorem before_ParseSong {W V : List Field} {P : State → Prop} {t y : State}
    (st : Steady V P) (hW : fpError ⊆ W) (env : Env) (o : QJsonObject) (a : Artist) (b : Album)
    (h : Before W P t y) : Before W P t (ParseSong env y o a b).1 := by
  unfold ParseSong
  split
  · exact before_Error st hW _ h
  · exact h

theorem before_SongsItems {W V : List Field} {P : State → Prop} {t : State}
    (st : Steady V P) (hW : fpError ⊆ W) (env : Env) (a : Artist)
    (b : Album) (l : List QJsonValue) :
    ∀ y, Before W P t y → Before W P t (SongsItems env a b l y).1 := by
  induction l with
  | nil => intro y h; exact h
  | cons v l ih =>
    intro y h
    cases v <;> simp only [SongsItems]
    all_goals first
      | exact ih _ (before_Error st hW _ h)
      | exact ih _ (before_ParseSong st hW env _ a b h)

theorem before_ArtistsItems {P : State → Prop} {t y : State}
    (hI : ∀ s v, P s → P (ArtistsItem s v)) (l : List QJsonValue)
    (h : Before fpArtistsPre P t y) : Before fpArtistsPre P t (l.foldl ArtistsItem y) :=
  before_foldl ArtistsItem
    (fun y b hy => ⟨agree_ArtistsItem (by decide) hy.agree b, hI y b hy.holds⟩) l y h

theorem before_AlbumsItems {P : State → Prop} {t y : State} (a : Artist)
    (hI : ∀ s v, P s → P (AlbumsItem a s v)) (l : List QJsonValue)
    (h : Before fpAlbumsPre P t y) : Before fpAlbumsPre P t (l.foldl (AlbumsItem a) y) :=
  before_foldl (AlbumsItem a)
    (fun y b hy => ⟨agree_AlbumsItem (by decide) hy.agree a b, hI y b hy.holds⟩) l y h

theorem artists_factor_finish {env : Env} {P : State → Prop} {t y : State} (l o r : Int)
    (h : Before fpArtistsPre P t y) : ArtistsFactor env P t (ArtistsFinishCheck env y l o r) :=
  ⟨y, l, o, r, h, Or.inl rfl⟩

theorem artists_factor_error_after {env : Env} {P : State → Prop} {t y : State} (l o r : Int)
    (e : String) (h : Before fpArtistsPre P t y) :
    ArtistsFactor env P t (Error (ArtistsFinishCheck env y l o r) e) :=
  ⟨y, l, o, r, h, Or.inr ⟨e, rfl⟩⟩

theorem ArtistsItems_factor (env : Env) {P : State → Prop} (st : Steady fpArtistsStill P)
    (hI : ∀ s v, P s → P (ArtistsItem s v)) {t y : State} (h : Before fpArtistsPre P t y)
    (obj : QJsonObject) (l o : Int) : ArtistsFactor env P t (ArtistsItems env y obj l o) := by
  unfold ArtistsItems
  repeat' first
    | with_reducible apply artists_factor_finish
    | with_reducible apply before_artistsProgress st (by decide) (by decide)
    | with_reducible apply before_artistsCounted st (by decide) (by decide)
    | with_reducible apply before_noResults st (by decide) (by decide)
    | with_reducible apply before_ArtistsItems hI
    | split
    | exact h

theorem ArtistsPage_factor (env : Env) {P : State → Prop} (st : Steady fpArtistsStill P)
    (hI : ∀ s v, P s → P (ArtistsItem s v)) {t y : State} (h : Before fpArtistsPre P t y)
    (obj : QJsonObject) (l o : Int) : ArtistsFactor env P t (ArtistsPage env y obj l o) := by
  unfold ArtistsPage
  repeat' first
    | with_reducible apply artists_factor_finish
    | with_reducible apply ArtistsItems_factor env st hI
    | with_reducible apply before_artistsProgress st (by decide) (by decide)
    | with_reducible apply before_Error st (by decide)
    | split
    | exact h

theorem ArtistsContainer_factor (env : Env) {P : State → Prop} (st : Steady fpArtistsStill P)
    (hI : ∀ s v, P s → P (ArtistsItem s v)) {t y : State} (h : Before fpArtistsPre P t y)
    (obj : QJsonObject) (l o : Int) :
    ArtistsFactor env P t (ArtistsContainer env y obj l o) := by
  unfold ArtistsContainer
  repeat' first
    | with_reducible apply artists_factor_finish
    | with_reducible apply artists_factor_error_after
    | with_reducible apply ArtistsPage_factor env st hI
    | with_reducible apply before_artistsTotalStored st (by decide) (by decide)
    | with_reducible apply before_Error st (by decide)
    | split
    | exact h

theorem ArtistsParsed_factor (env : Env) {P : State → Prop} (st : Steady fpArtistsStill P)
    (hI : ∀ s v, P s → P (ArtistsItem s v)) {t y : State} (h : Before fpArtistsPre P t y)
    (json : QJsonObject) (l o : Int) :
    ArtistsFactor env P t (ArtistsParsed env y json l o) := by
  unfold ArtistsParsed
  repeat' first
    | with_reducible apply artists_factor_finish
    | with_reducible apply artists_factor_error_after
    | with_reducible apply ArtistsContainer_factor env st hI
    | with_reducible apply before_Error st (by decide)
    | split
    | exact h

theorem ArtistsSettled_factor (env : Env) {P : State → Prop} (st : Steady fpArtistsStill P)
    (hI : ∀ s v, P s → P (ArtistsItem s v)) {t y : State} (h : Before fpArtistsPre P t y)
    (reply : QNetworkReply) (l o : Int) :
    ArtistsFactor env P t (ArtistsSettled env y reply l o) := by
  unfold ArtistsSettled
  split
  · rename_i hf
    exact ⟨y, 0, 0, 0, h, Or.inl (ArtistsFinishCheck_of_finished env y 0 0 0 hf).symm⟩
  · repeat' first
      | with_reducible apply artists_factor_finish
      | with_reducible apply ArtistsParsed_factor env st hI
      | with_reducible apply before_ExtractJsonObj st (by decide)
      | split
      | exact h

theorem albums_factor_finish {env : Env} {P : State → Prop} {a : Artist} {t y : State}
    (l o n r : Int) (h : Before fpAlbumsPre P t y) :
    AlbumsFactor env P a t (AlbumsFinishCheck env y a l o n r) :=
  ⟨y, l, o, n, r, h, Or.inl rfl⟩

theorem albums_factor_error_after {env : Env} {P : State → Prop} {a : Artist} {t y : State}
    (l o n r : Int) (e : String) (h : Before fpAlbumsPre P t y) :
    AlbumsFactor env P a t (Error (AlbumsFinishCheck env y a l o n r) e) :=
  ⟨y, l, o, n, r, h, Or.inr ⟨e, rfl⟩⟩

theorem AlbumsContainer_factor (env : Env) {P : State → Prop} (st : Steady fpAlbumsStill P)
    (a : Artist) (hI : ∀ s v, P s → P (AlbumsItem a s v)) {t y : State}
    (h : Before fpAlbumsPre P t y) (obj : QJsonObject) (l o : Int) :
    AlbumsFactor env P a t (AlbumsContainer env y obj a l o) := by
  unfold AlbumsContainer
  repeat' first
    | with_reducible apply albums_factor_finish
    | with_reducible apply albums_factor_error_after
    | with_reducible apply before_albumsCounted st (by decide) (by decide)
    | with_reducible apply before_noResults st (by decide) (by decide)
    | with_reducible apply before_AlbumsItems a hI
    | with_reducible apply before_Error st (by decide)
    | split
    | exact h

theorem AlbumsParsed_factor (env : Env) {P : State → Prop} (st : Steady fpAlbumsStill P)
    (a : Artist) (hI : ∀ s v, P s → P (AlbumsItem a s v)) {t y : State}
    (h : Before fpAlbumsPre P t y) (json : QJsonObject) (l o : Int) :
    AlbumsFactor env P a t (AlbumsParsed env y json a l o) := by
  unfold AlbumsParsed
  repeat' first
    | with_reducible apply albums_factor_finish
    | with_reducible apply albums_factor_error_after
    | with_reducible apply AlbumsContainer_factor env st a hI
    | with_reducible apply before_Error st (by decide)
    | split
    | exact h

theorem AlbumsSettled_factor (env : Env) {P : State → Prop} (st : Steady fpAlbumsStill P)
    (a : Artist) (hI : ∀ s v, P s → P (AlbumsItem a s v)) {t y : State}
    (h : Before fpAlbumsPre P t y) (reply : QNetworkReply) (l o : Int) :
    AlbumsFactor env P a t (AlbumsSettled env y reply a l o) := by
  unfold AlbumsSettled
  split
  · rename_i hf
    exact ⟨y, 0, 0, 0, 0, h, Or.inl (AlbumsFinishCheck_of_finished env y a 0 0 0 0 hf).symm⟩
  · repeat' first
      | with_reducible apply albums_factor_finish
      | with_reducible apply AlbumsParsed_factor env st a hI
      | with_reducible apply before_ExtractJsonObj st (by decide)
      | split
      | exact h

theorem songs_factor_finish {env : Env} {P : State → Prop} {t y : State} (a : Artist)
    (b : Album) (l o n r : Int) (h : Before fpSongsPre P t y) :
    SongsFactor env P t (SongsFinishCheck env y a b l o n r) :=
  ⟨y, a, b, l, o, n, r, h, Or.inl rfl⟩

theorem songs_factor_error_after {env : Env} {P : State → Prop} {t y : State} (a : Artist)
    (b : Album) (l o n r : Int) (e : String) (h : Before fpSongsPre P t y) :
    SongsFactor env P t (Error (SongsFinishCheck env y a b l o n r) e) :=
  ⟨y, a, b, l, o, n, r, h, Or.inr ⟨e, rfl⟩⟩

theorem SongsContainer_factor (env : Env) {P : State → Prop} (st : Steady fpSongsStill P)
    {t y : State} (h : Before fpSongsPre P t y) (obj : QJsonObject) (a : Artist) (b : Album)
    (a1 : Artist) (b1 : Album) (l o : Int) :
    SongsFactor env P t (SongsContainer env y obj a b a1 b1 l o) := by
  unfold SongsContainer
  repeat' first
    | with_reducible apply songs_factor_finish
    | with_reducible apply songs_factor_error_after
    | with_reducible apply before_songsCounted st (by decide) (by decide)
    | with_reducible apply before_songsInserted st (by decide) (by decide)
    | with_reducible apply before_SongsItems st (by decide)
    | with_reducible apply before_noResults st (by decide) (by decide)
    | with_reducible apply before_Error st (by decide)
    | split
    | exact h

theorem SongsParsed_factor (env : Env) {P : State → Prop} (st : Steady fpSongsStill P)
    {t y : State} (h : Before fpSongsPre P t y) (json : QJsonObject) (a : Artist) (b : Album)
    (l o : Int) : SongsFactor env P t (SongsParsed env y json a b l o) := by
  unfold SongsParsed
  repeat' first
    | with_reducible apply songs_factor_finish
    | with_reducible apply songs_factor_error_after
    | with_reducible apply SongsContainer_factor env st
    | with_reducible apply before_Error st (by decide)
    | split
    | exact h

theorem SongsSettled_factor (env : Env) {P : State → Prop} (st : Steady fpSongsStill P)
    {t y : State} (h : Before fpSongsPre P t y) (reply : QNetworkReply) (a : Artist)
    (b : Album) (l o : Int) : SongsFactor env P t (SongsSettled env y reply a b l o) := by
  unfold SongsSettled
  split
  · rename_i hf
    exact ⟨y, a, b, 0, 0, 0, 0, h,
      Or.inl (SongsFinishCheck_of_finished env y a b 0 0 0 0 hf).symm⟩
  · repeat' first
      | with_reducible apply songs_factor_finish
      | with_reducible apply SongsParsed_factor env st
      | with_reducible apply before_ExtractJsonObj st (by decide)
      | split
      | exact h

theorem Wired.unwritten {W : List Field} {s t : State} (h : Wired s) (hag : AgreeOff W s t)
    (hW : ∀ f ∈ fpWired, f ∉ W) : Wired t :=
  h.carry (hag.connections (hW _ (by decide))) (hag.next_reply (hW _ (by decide)))
    (hag.replies_ (hW _ (by decide))) (hag.album_cover_replies_ (hW _ (by decide)))
    (fun k => by
      cases k
      · exact hag.artists_requests_active_ (hW _ (by decide))
      · exact hag.albums_requests_active_ (hW _ (by decide))
      · exact hag.songs_requests_active_ (hW _ (by decide))
      · exact hag.artist_albums_requests_active_ (hW _ (by decide))
      · exact hag.album_songs_requests_active_ (hW _ (by decide))
      · exact hag.album_covers_requests_active_ (hW _ (by decide)))

theorem StageOrder.untouched {W : List Field} {s t : State} (h : StageOrder s)
    (hag : AgreeOff W s t) (hW : ∀ f ∈ fpOrder, f ∉ W) : StageOrder t :=
  h.shrink (fun e => (hag.artists_requests_queue_ (hW _ (by decide))).trans e)
    (fun e => (hag.albums_requests_queue_ (hW _ (by decide))).trans e)
    (fun e => (hag.artist_albums_requests_queue_ (hW _ (by decide))).trans e)
    (fun e => (hag.album_songs_requests_queue_ (hW _ (by decide))).trans e)
    (le_of_eq (hag.artists_requests_active_ (hW _ (by decide))))
    (le_of_eq (hag.albums_requests_active_ (hW _ (by decide))))
    (le_of_eq (hag.artist_albums_requests_active_ (hW _ (by decide))))
    (le_of_eq (hag.album_songs_requests_active_ (hW _ (by decide))))

theorem ListingTypes.unaffected {W : List Field} {s t : State} (h : ListingTypes s)
    (hag : AgreeOff W s t) (hW : ∀ f ∈ fpTypes, f ∉ W) : ListingTypes t :=
  h.narrow (hag.type_ (hW _ (by decide)))
    (fun e => (hag.albums_requests_queue_ (hW _ (by decide))).trans e)
    (fun e => (hag.songs_requests_queue_ (hW _ (by decide))).trans e)
    (le_of_eq (hag.albums_requests_active_ (hW _ (by decide))))
    (le_of_eq (hag.songs_requests_active_ (hW _ (by decide))))

theorem Sound.of_agree {W : List Field} {s t : State} (h : Sound s) (hag : AgreeOff W s t)
    (hW : ∀ f ∈ fpSound, f ∉ W) : Sound t :=
  ⟨h.wired.unwritten hag (fun f hf => hW f (by revert f; decide) ),
    h.order.untouched hag (fun f hf => hW f (by revert f; decide)),
    h.types.unaffected hag (fun f hf => hW f (by revert f; decide))⟩

/-- The finish check of the artists listing queues artist-albums requests only when it leaves
the artists listing drained. -/
theorem ArtistsFinishCheck_released (env : Env) (y : State) (l o r : Int) :
    (ArtistsFinishCheck env y l o r).artist_albums_requests_queue_ =
      y.artist_albums_requests_queue_ ∨
    ((ArtistsFinishCheck env y l o r).artists_requests_queue_ = [] ∧
      (ArtistsFinishCheck env y l o r).artists_requests_active_ ≤ 0) := by
  unfold ArtistsFinishCheck
  split
  · exact Or.inl rfl
  · have hF := agree_FinishCheck (W := fpFinishCheck) (fun _ h => h)
      (AgreeOff.unchanged _ (ArtistsRelease (ArtistsNextPage env y l o r)))
    rw [hF.artist_albums_requests_queue_ (by decide), hF.artists_requests_queue_ (by decide),
      hF.artists_requests_active_ (by decide)]
    by_cases hc : (ArtistsNextPage env y l o r).artists_requests_queue_ = [] ∧
        (ArtistsNextPage env y l o r).artists_requests_active_ ≤ 0
    · right
      have hR := agree_ArtistsRelease
        (W := fpAddArtistAlbumsRequest ++ [Field.artist_albums_requests_pending_, Field.emitted])
        (fun _ h => h) (AgreeOff.unchanged _ (ArtistsNextPage env y l o r))
      rw [hR.artists_requests_queue_ (by decide), hR.artists_requests_active_ (by decide)]
      exact hc
    · left
      have hx : ArtistsRelease (ArtistsNextPage env y l o r) = ArtistsNextPage env y l o r := by
        unfold ArtistsRelease
        rw [if_neg hc]
      rw [hx]
      exact (agree_ArtistsNextPage (W := fpAddArtistsRequest) (fun _ h => h)
        (AgreeOff.unchanged _ y) env l o r).artist_albums_requests_queue_ (by decide)

theorem Sound_ArtistsFinishCheck (env : Env) {y z : State} (hy : Sound y)
    (haa : y.artist_albums_requests_queue_ = [] ∧ y.artist_albums_requests_active_ ≤ 0)
    (has : y.album_songs_requests_queue_ = [] ∧ y.album_songs_requests_active_ ≤ 0)
    (hag : AgreeOff fpArtistsPre y z) (l o r : Int) :
    Sound (ArtistsFinishCheck env z l o r) := by
  have hb : AgreeOff fpArtistsBody y (ArtistsFinishCheck env z l o r) :=
    agree_ArtistsFinishCheck (by decide) (hag.weaken (by decide)) env l o r
  refine ⟨hy.wired.unwritten hb (by decide), ?_, hy.types.unaffected hb (by decide)⟩
  have has1 : (ArtistsFinishCheck env z l o r).album_songs_requests_queue_ = [] ∧
      (ArtistsFinishCheck env z l o r).album_songs_requests_active_ ≤ 0 := by
    rw [hb.album_songs_requests_queue_ (by decide), hb.album_songs_requests_active_ (by decide)]
    exact has
  rcases ArtistsFinishCheck_released env z l o r with h1 | h1
  · refine StageOrder.of_idle (Or.inl ⟨?_, ?_⟩) (Or.inl has1)
    · rw [h1, hag.artist_albums_requests_queue_ (by decide)]
      exact haa.1
    · rw [hb.artist_albums_requests_active_ (by decide)]
      exact haa.2
  · exact StageOrder.of_idle (Or.inr h1) (Or.inl has1)

theorem AlbumsNextPage_by_type (env : Env) (y : State) (a : Artist) (l o n r : Int) :
    ((AlbumsNextPage env y a l o n r).albums_requests_queue_ = y.albums_requests_queue_ ∨
      (y.type_ = QueryType_Albums ∨ y.type_ = QueryType_SearchAlbums)) ∧
    ((AlbumsNextPage env y a l o n r).artist_albums_requests_queue_ =
        y.artist_albums_requests_queue_ ∨
      (y.type_ = QueryType_Artists ∨ y.type_ = QueryType_SearchArtists)) := by
  unfold AlbumsNextPage AddAlbumsSearchRequest
  repeat' split
  all_goals
    refine ⟨?_, ?_⟩ <;> first
      | exact Or.inl rfl
      | exact Or.inr (Or.inl ‹_›)
      | exact Or.inr (Or.inr ‹_›)
      | exact Or.inl ((agree_AddAlbumsRequest (W := fpAddAlbumsRequest) (fun _ h => h)
          (AgreeOff.unchanged _ _) _ _).artist_albums_requests_queue_ (by decide))
      | exact Or.inl ((agree_AddArtistAlbumsRequest (W := fpAddArtistAlbumsRequest)
          (fun _ h => h) (AgreeOff.unchanged _ _) _ _).albums_requests_queue_ (by decide))

theorem SongsNextPage_by_type (env : Env) (y : State) (a : Artist) (b : Album)
    (l o n r : Int) :
    ((SongsNextPage env y a b l o n r).songs_requests_queue_ = y.songs_requests_queue_ ∨
      (y.type_ = QueryType_Songs ∨ y.type_ = QueryType_SearchSongs)) ∧
    ((SongsNextPage env y a b l o n r).album_songs_requests_queue_ =
        y.album_songs_requests_queue_ ∨
      ¬ (y.type_ = QueryType_Songs ∨ y.type_ = QueryType_SearchSongs)) := by
  unfold SongsNextPage AddSongsSearchRequest
  repeat' split
  all_goals
    refine ⟨?_, ?_⟩ <;> first
      | exact Or.inl rfl
      | exact Or.inr (Or.inl ‹_›)
      | exact Or.inr (Or.inr ‹_›)
      | exact Or.inl ((agree_AddSongsRequest (W := fpAddSongsRequest) (fun _ h => h)
          (AgreeOff.unchanged _ _) _ _).album_songs_requests_queue_ (by decide))
      | exact Or.inl ((agree_AddAlbumSongsRequest (W := fpAddAlbumSongsRequest)
          (fun _ h => h) (AgreeOff.unchanged _ _) _ _ _).songs_requests_queue_ (by decide))
      | (right; rename_i heq; rw [heq]; decide)

/-- The finish check of the albums stage queues album-songs requests only when it leaves the
artists, albums and artist-albums stages drained; it queues an albums request only for an
albums query and an artist-albums request only for an artists query. -/
theorem AlbumsFinishCheck_released (env : Env) (y : State) (a : Artist) (l o n r : Int) :
    ((AlbumsFinishCheck env y a l o n r).album_songs_requests_queue_ =
        y.album_songs_requests_queue_ ∨
      ((AlbumsFinishCheck env y a l o n r).artists_requests_queue_ = [] ∧
        (AlbumsFinishCheck env y a l o n r).artists_requests_active_ ≤ 0 ∧
        (AlbumsFinishCheck env y a l o n r).albums_requests_queue_ = [] ∧
        (AlbumsFinishCheck env y a l o n r).albums_requests_active_ ≤ 0 ∧
        (AlbumsFinishCheck env y a l o n r).artist_albums_requests_queue_ = [] ∧
        (AlbumsFinishCheck env y a l o n r).artist_albums_requests_active_ ≤ 0)) ∧
    ((AlbumsFinishCheck env y a l o n r).albums_requests_queue_ = y.albums_requests_queue_ ∨
      (y.type_ = QueryType_Albums ∨ y.type_ = QueryType_SearchAlbums)) ∧
    ((AlbumsFinishCheck env y a l o n r).artist_albums_requests_queue_ =
        y.artist_albums_requests_queue_ ∨
      (y.type_ = QueryType_Artists ∨ y.type_ = QueryType_SearchArtists)) := by
  unfold AlbumsFinishCheck
  split
  · exact ⟨Or.inl rfl, Or.inl rfl, Or.inl rfl⟩
  · have hF := agree_FinishCheck (W := fpGetAlbumCovers ++ fpFinishCheck) (by decide)
      (agree_GetAlbumCoversCheck (by decide)
        (AgreeOff.unchanged _ (AlbumsRelease (AlbumsNextPage env y a l o n r))) env)
    have hR := agree_AlbumsRelease
      (W := fpAddAlbumSongsRequest ++ [Field.album_songs_requests_pending_, Field.emitted])
      (fun _ h => h) (AgreeOff.unchanged _ (AlbumsNextPage env y a l o n r))
    have hN := agree_AlbumsNextPage (W := fpAddAlbumsRequest ++ fpAddArtistAlbumsRequest)
      (fun _ h => h) (AgreeOff.unchanged _ y) env a l o n r
    have hT := AlbumsNextPage_by_type env y a l o n r
    rw [hF.album_songs_requests_queue_ (by decide), hF.artists_requests_queue_ (by decide),
      hF.artists_requests_active_ (by decide), hF.albums_requests_queue_ (by decide),
      hF.albums_requests_active_ (by decide), hF.artist_albums_requests_queue_ (by decide),
      hF.artist_albums_requests_active_ (by decide)]
    refine ⟨?_, ?_, ?_⟩
    · by_cases hc : (AlbumsNextPage env y a l o n r).artists_requests_queue_ = [] ∧
          (AlbumsNextPage env y a l o n r).artists_requests_active_ ≤ 0 ∧
          (AlbumsNextPage env y a l o n r).albums_requests_queue_ = [] ∧
          (AlbumsNextPage env y a l o n r).albums_requests_active_ ≤ 0 ∧
          (AlbumsNextPage env y a l o n r).artist_albums_requests_queue_ = [] ∧
          (AlbumsNextPage env y a l o n r).artist_albums_requests_active_ ≤ 0
      · right
        rw [hR.artists_requests_queue_ (by decide), hR.artists_requests_active_ (by decide),
          hR.albums_requests_queue_ (by decide), hR.albums_requests_active_ (by decide),
          hR.artist_albums_requests_queue_ (by decide),
          hR.artist_albums_requests_active_ (by decide)]
        exact hc
      · left
        have hx : AlbumsRelease (AlbumsNextPage env y a l o n r) =
            AlbumsNextPage env y a l o n r := by
          unfold AlbumsRelease
          rw [if_neg hc]
        rw [hx]
        exact hN.album_songs_requests_queue_ (by decide)
    · rw [hR.albums_requests_queue_ (by decide)]
      exact hT.1
    · rw [hR.artist_albums_requests_queue_ (by decide)]
      exact hT.2

/-- The finish check of the songs stage queues a songs request only for a songs query and an
album-songs request only for another query. -/
theorem SongsFinishCheck_by_type (env : Env) (y : State) (a : Artist) (b : Album)
    (l o n r : Int) :
    ((SongsFinishCheck env y a b l o n r).songs_requests_queue_ = y.songs_requests_queue_ ∨
      (y.type_ = QueryType_Songs ∨ y.type_ = QueryType_SearchSongs)) ∧
    ((SongsFinishCheck env y a b l o n r).album_songs_requests_queue_ =
        y.album_songs_requests_queue_ ∨
      ¬ (y.type_ = QueryType_Songs ∨ y.type_ = QueryType_SearchSongs)) := by
  unfold SongsFinishCheck
  split
  · exact ⟨Or.inl rfl, Or.inl rfl⟩
  · have hF := agree_FinishCheck (W := fpGetAlbumCovers ++ fpFinishCheck) (by decide)
      (agree_GetAlbumCoversCheck (by decide)
        (AgreeOff.unchanged _ (SongsNextPage env y a b l o n r)) env)
    rw [hF.songs_requests_queue_ (by decide), hF.album_songs_requests_queue_ (by decide)]
    exact SongsNextPage_by_type env y a b l o n r

theorem Sound_AlbumsFinishCheck (env : Env) {y z : State} (hy : Sound y)
    (has : y.album_songs_requests_queue_ = [] ∧ y.album_songs_requests_active_ ≤ 0)
    (hctx : (y.artists_requests_queue_ = [] ∧ y.artists_requests_active_ ≤ 0) ∨
      (y.type_ = QueryType_Albums ∨ y.type_ = QueryType_SearchAlbums))
    (hag : AgreeOff fpAlbumsPre y z) (a : Artist) (l o n r : Int) :
    Sound (AlbumsFinishCheck env z a l o n r) := by
  have hb : AgreeOff fpAlbumsBody y (AlbumsFinishCheck env z a l o n r) :=
    agree_AlbumsFinishCheck (by decide) (hag.weaken (by decide)) env a l o n r
  obtain ⟨r1, r2, r3⟩ := AlbumsFinishCheck_released env z a l o n r
  rw [hag.album_songs_requests_queue_ (by decide)] at r1
  rw [hag.albums_requests_queue_ (by decide), hag.type_ (by decide)] at r2
  rw [hag.artist_albums_requests_queue_ (by decide), hag.type_ (by decide)] at r3
  have e1 := hb.artists_requests_queue_ (by decide)
  have e2 := hb.artists_requests_active_ (by decide)
  have e3 := hb.albums_requests_active_ (by decide)
  have e4 := hb.artist_albums_requests_active_ (by decide)
  have e5 := hb.album_songs_requests_active_ (by decide)
  have e6 := hb.songs_requests_queue_ (by decide)
  have e7 := hb.songs_requests_active_ (by decide)
  have e8 := hb.type_ (by decide)
  refine ⟨hy.wired.unwritten hb (by decide), ⟨?_, ?_⟩, ⟨?_, ?_⟩⟩
  · intro hyp
    rw [e1, e2]
    rcases hctx with hc | hc
    · exact hc
    · rcases r3 with r3 | r3
      · rw [r3, e4] at hyp
        exact hy.order.1 hyp
      · rcases hc with hc | hc <;> rcases r3 with r3 | r3 <;> rw [hc] at r3 <;>
          exact absurd r3 (by decide)
  · intro hyp
    rcases r1 with r1 | r1
    · rw [r1, e5] at hyp
      exact absurd has.1 (hyp.elim id (fun x => absurd has.2 (not_le.mpr x)))
    · exact r1
  · intro hyp
    rw [e8]
    rcases r2 with r2 | r2
    · rw [r2, e3] at hyp
      exact hy.types.1 hyp
    · exact r2
  · intro hyp
    rw [e6, e7] at hyp
    rw [e8]
    exact hy.types.2 hyp

theorem Sound_SongsFinishCheck (env : Env) {y z : State} (hy : Sound y)
    (hctx : (y.type_ = QueryType_Songs ∨ y.type_ = QueryType_SearchSongs) ∨
      (y.artists_requests_queue_ = [] ∧ y.artists_requests_active_ ≤ 0 ∧
        y.albums_requests_queue_ = [] ∧ y.albums_requests_active_ ≤ 0 ∧
        y.artist_albums_requests_queue_ = [] ∧ y.artist_albums_requests_active_ ≤ 0))
    (hag : AgreeOff fpSongsPre y z) (a : Artist) (b : Album) (l o n r : Int) :
    Sound (SongsFinishCheck env z a b l o n r) := by
  have hb : AgreeOff fpSongsBody y (SongsFinishCheck env z a b l o n r) :=
    agree_SongsFinishCheck (by decide) (hag.weaken (by decide)) env a b l o n r
  obtain ⟨r1, r2⟩ := SongsFinishCheck_by_type env z a b l o n r
  rw [hag.songs_requests_queue_ (by decide), hag.type_ (by decide)] at r1
  rw [hag.album_songs_requests_queue_ (by decide), hag.type_ (by decide)] at r2
  have e1 := hb.artists_requests_queue_ (by decide)
  have e2 := hb.artists_requests_active_ (by decide)
  have e3 := hb.albums_requests_active_ (by decide)
  have e4 := hb.artist_albums_requests_active_ (by decide)
  have e5 := hb.album_songs_requests_active_ (by decide)
  have e6 := hb.albums_requests_queue_ (by decide)
  have e7 := hb.songs_requests_active_ (by decide)
  have e8 := hb.type_ (by decide)
  have e9 := hb.artist_albums_requests_queue_ (by decide)
  refine ⟨hy.wired.unwritten hb (by decide), ⟨?_, ?_⟩, ⟨?_, ?_⟩⟩
  · intro hyp
    rw [e9, e4] at hyp
    rw [e1, e2]
    exact hy.order.1 hyp
  · intro hyp
    rw [e1, e2, e6, e3, e9, e4]
    rcases hctx with hc | hc
    · rcases r2 with r2 | r2
      · rw [r2, e5] at hyp
        exact hy.order.2 hyp
      · exact absurd hc r2
    · exact hc
  · intro hyp
    rw [e6, e3] at hyp
    rw [e8]
    exact hy.types.1 hyp
  · intro hyp
    rw [e8]
    rcases r1 with r1 | r1
    · rw [r1, e7] at hyp
      exact hy.types.2 hyp
    · exact r1

theorem Sound.settle {W : List Field} {s y : State} (h : Sound s) (c : Nat × Callback)
    (hcm : c ∈ s.connections)
    (hc : y.connections = s.connections.filter (fun x => x.1 != c.1))
    (hn : y.next_reply = s.next_reply)
    (hr : ∀ r ∈ s.replies_, r ≠ c.1 → r ∈ y.replies_)
    (hcr : ∀ r ∈ s.album_cover_replies_, r ≠ c.1 → r ∈ y.album_cover_replies_)
    (ha : ∀ k, y.active k = s.active k - (if c.2.stage = k then 1 else 0))
    (hq : AgreeOff W s y)
    (hW : ∀ f ∈ [Field.type_, Field.artists_requests_queue_, Field.albums_requests_queue_,
      Field.songs_requests_queue_, Field.artist_albums_requests_queue_,
      Field.album_songs_requests_queue_], f ∉ W) : Sound y := by
  have le : ∀ k, y.active k ≤ s.active k := by
    intro k
    rw [ha k]
    split <;> omega
  refine ⟨h.wired.taken c hcm hc hn hr hcr ha, ?_, ?_⟩
  · exact h.order.shrink (fun e => (hq.artists_requests_queue_ (hW _ (by decide))).trans e)
      (fun e => (hq.albums_requests_queue_ (hW _ (by decide))).trans e)
      (fun e => (hq.artist_albums_requests_queue_ (hW _ (by decide))).trans e)
      (fun e => (hq.album_songs_requests_queue_ (hW _ (by decide))).trans e)
      (le Stage.artists) (le Stage.albums) (le Stage.artistAlbums) (le Stage.albumSongs)
  · exact h.types.narrow (hq.type_ (hW _ (by decide)))
      (fun e => (hq.albums_requests_queue_ (hW _ (by decide))).trans e)
      (fun e => (hq.songs_requests_queue_ (hW _ (by decide))).trans e)
      (le Stage.albums) (le Stage.songs)

theorem Sound_ArtistsReplyReceived (env : Env) {s : State} (h : Sound s)
    (reply : QNetworkReply) (l o : Int) (c : Nat × Callback) (hcm : c ∈ s.connections)
    (hh : c.1 = reply.handle) (hk : c.2.stage = Stage.artists) :
    Sound (ArtistsReplyReceived env s reply l o) := by
  have hreg : reply.handle ∈ s.replies_ :=
    hh ▸ h.wired.api c hcm (by rw [hk]; exact fun e => Stage.noConfusion e)
  have hpos : 0 < s.artists_requests_active_ := by
    have := h.wired.active_pos c hcm
    rw [hk] at this
    exact this
  have hidle := h.order.artists_busy (Or.inr hpos)
  have hG := agree_GetReplyData (W := fpError) (fun _ h => h)
    (AgreeOff.unchanged _ (takeReply s reply.handle)) reply
  have hq : AgreeOff (fpTaken Field.artists_requests_active_ Field.artists_requests_received_) s
      (artistsSettled (GetReplyData (takeReply s reply.handle) reply)) :=
    agree_artistsSettled (by decide) (agree_GetReplyData (by decide)
      (agree_takeReply (by decide) (AgreeOff.unchanged _ s) _) reply)
  have hy : Sound (artistsSettled (GetReplyData (takeReply s reply.handle) reply)) := by
    refine h.settle c hcm ?_ ?_ ?_ ?_ ?_ hq (by decide)
    · rw [hh]
      exact hG.connections (by decide)
    · exact hG.next_reply (by decide)
    · intro r hr hne
      show r ∈ (GetReplyData (takeReply s reply.handle) reply).replies_
      rw [hG.replies_ (by decide)]
      exact List.mem_filter.mpr ⟨hr, by simpa [hh] using hne⟩
    · intro r hr _
      show r ∈ (GetReplyData (takeReply s reply.handle) reply).album_cover_replies_
      rw [hG.album_cover_replies_ (by decide)]
      exact hr
    · intro k
      rw [hk]
      cases k <;> simp only [State.active, if_true, if_false, sub_zero, reduceCtorEq] <;>
        first
          | exact congrArg (fun v => v - 1) (hG.artists_requests_active_ (by decide))
          | exact hG.albums_requests_active_ (by decide)
          | exact hG.songs_requests_active_ (by decide)
          | exact hG.artist_albums_requests_active_ (by decide)
          | exact hG.album_songs_requests_active_ (by decide)
          | exact hG.album_covers_requests_active_ (by decide)
  unfold ArtistsReplyReceived
  rw [if_neg (not_not.mpr hreg)]
  have haa : (artistsSettled (GetReplyData (takeReply s reply.handle)
        reply)).artist_albums_requests_queue_ = [] ∧
      (artistsSettled (GetReplyData (takeReply s reply.handle)
        reply)).artist_albums_requests_active_ ≤ 0 := by
    rw [hq.artist_albums_requests_queue_ (by decide),
      hq.artist_albums_requests_active_ (by decide)]
    exact hidle.1
  have has : (artistsSettled (GetReplyData (takeReply s reply.handle)
        reply)).album_songs_requests_queue_ = [] ∧
      (artistsSettled (GetReplyData (takeReply s reply.handle)
        reply)).album_songs_requests_active_ ≤ 0 := by
    rw [hq.album_songs_requests_queue_ (by decide),
      hq.album_songs_requests_active_ (by decide)]
    exact hidle.2
  obtain ⟨z, l1, o1, r1, hz, hu⟩ := ArtistsSettled_factor env (P := fun _ => True)
    ⟨fun _ _ _ _ => trivial, fun _ _ _ => trivial⟩ (fun _ _ _ => trivial) (Before.start trivial)
    reply l o
  rcases hu with hu | ⟨e, hu⟩
  · rw [hu]
    exact Sound_ArtistsFinishCheck env hy haa has hz.agree l1 o1 r1
  · rw [hu]
    exact (Sound_ArtistsFinishCheck env hy haa has hz.agree l1 o1 r1).of_agree
      (agree_Error (W := fpError) (fun _ h => h) (AgreeOff.unchanged _ _) e) (by decide)

theorem Sound_AlbumsReceived (env : Env) {s x : State} (h : Sound s)
    (reply : QNetworkReply) (a : Artist) (l o : Int) (c : Nat × Callback)
    (hcm : c ∈ s.connections) (hh : c.1 = reply.handle)
    (hk : c.2.stage = Stage.albums ∨ c.2.stage = Stage.artistAlbums)
    (hx : AgreeOff fpReplyCounted s x)
    (ha : ∀ k, x.active k = s.active k - (if c.2.stage = k then 1 else 0)) :
    Sound (AlbumsReceived env x reply a l o) := by
  have hreg : reply.handle ∈ x.replies_ := by
    rw [hx.replies_ (by decide)]
    exact hh ▸ h.wired.api c hcm (by rcases hk with e | e <;> rw [e] <;> decide)
  have hG := agree_GetReplyData (W := fpError) (fun _ h => h)
    (AgreeOff.unchanged _ (takeReply x reply.handle)) reply
  have hq : AgreeOff (fpError ++ [Field.replies_, Field.connections] ++ fpReplyCounted) s
      (GetReplyData (takeReply x reply.handle) reply) :=
    agree_GetReplyData (by decide)
      (agree_takeReply (by decide) (hx.weaken (by decide)) _) reply
  have hy : Sound (GetReplyData (takeReply x reply.handle) reply) := by
    refine h.settle c hcm ?_ ?_ ?_ ?_ ?_ hq (by decide)
    · rw [hh, hG.connections (by decide), ← hx.connections (by decide)]
      rfl
    · rw [hG.next_reply (by decide), ← hx.next_reply (by decide)]
      rfl
    · intro r hr hne
      rw [hG.replies_ (by decide)]
      refine List.mem_filter.mpr ⟨?_, by simpa [hh] using hne⟩
      rw [hx.replies_ (by decide)]
      exact hr
    · intro r hr _
      rw [hG.album_cover_replies_ (by decide)]
      show r ∈ x.album_cover_replies_
      rw [hx.album_cover_replies_ (by decide)]
      exact hr
    · intro k
      rw [← ha k]
      cases k
      · exact hG.artists_requests_active_ (by decide)
      · exact hG.albums_requests_active_ (by decide)
      · exact hG.songs_requests_active_ (by decide)
      · exact hG.artist_albums_requests_active_ (by decide)
      · exact hG.album_songs_requests_active_ (by decide)
      · exact hG.album_covers_requests_active_ (by decide)
  have hpos := h.wired.active_pos c hcm
  have has0 : s.album_songs_requests_queue_ = [] ∧ s.album_songs_requests_active_ ≤ 0 := by
    rcases hk with e | e <;> rw [e] at hpos
    · exact h.order.albums_busy (Or.inr hpos)
    · exact h.order.artist_albums_busy (Or.inr hpos)
  have hctx0 : (s.artists_requests_queue_ = [] ∧ s.artists_requests_active_ ≤ 0) ∨
      (s.type_ = QueryType_Albums ∨ s.type_ = QueryType_SearchAlbums) := by
    rcases hk with e | e <;> rw [e] at hpos
    · exact Or.inr (h.types.1 (Or.inr hpos))
    · exact Or.inl (h.order.1 (Or.inr hpos))
  have hle : ∀ k, (GetReplyData (takeReply x reply.handle) reply).active k ≤ s.active k := by
    intro k
    have e : (GetReplyData (takeReply x reply.handle) reply).active k = x.active k := by
      cases k
      · exact hG.artists_requests_active_ (by decide)
      · exact hG.albums_requests_active_ (by decide)
      · exact hG.songs_requests_active_ (by decide)
      · exact hG.artist_albums_requests_active_ (by decide)
      · exact hG.album_songs_requests_active_ (by decide)
      · exact hG.album_covers_requests_active_ (by decide)
    rw [e, ha k]
    split <;> omega
  have has : (GetReplyData (takeReply x reply.handle) reply).album_songs_requests_queue_ = [] ∧
      (GetReplyData (takeReply x reply.handle) reply).album_songs_requests_active_ ≤ 0 :=
    ⟨(hq.album_songs_requests_queue_ (by decide)).trans has0.1,
      le_trans (hle Stage.albumSongs) has0.2⟩
  have hctx : ((GetReplyData (takeReply x reply.handle) reply).artists_requests_queue_ = [] ∧
        (GetReplyData (takeReply x reply.handle) reply).artists_requests_active_ ≤ 0) ∨
      ((GetReplyData (takeReply x reply.handle) reply).type_ = QueryType_Albums ∨
        (GetReplyData (takeReply x reply.handle) reply).type_ = QueryType_SearchAlbums) := by
    rw [hq.type_ (by decide)]
    exact hctx0.imp (fun e => ⟨(hq.artists_requests_queue_ (by decide)).trans e.1,
      le_trans (hle Stage.artists) e.2⟩) id
  unfold AlbumsReceived
  rw [if_neg (not_not.mpr hreg)]
  obtain ⟨z, l1, o1, n1, r1, hz, hu⟩ := AlbumsSettled_factor env (P := fun _ => True)
    ⟨fun _ _ _ _ => trivial, fun _ _ _ => trivial⟩ a (fun _ _ _ => trivial)
    (Before.start trivial) reply l o
  rcases hu with hu | ⟨e, hu⟩
  · rw [hu]
    exact Sound_AlbumsFinishCheck env hy has hctx hz.agree a l1 o1 n1 r1
  · rw [hu]
    exact (Sound_AlbumsFinishCheck env hy has hctx hz.agree a l1 o1 n1 r1).of_agree
      (agree_Error (W := fpError) (fun _ h => h) (AgreeOff.unchanged _ _) e) (by decide)

theorem Sound_SongsReceived (env : Env) {s x : State} (h : Sound s)
    (reply : QNetworkReply) (a : Artist) (b : Album) (l o : Int) (c : Nat × Callback)
    (hcm : c ∈ s.connections) (hh : c.1 = reply.handle)
    (hk : c.2.stage = Stage.songs ∨ c.2.stage = Stage.albumSongs)
    (hx : AgreeOff fpReplyCounted s x)
    (ha : ∀ k, x.active k = s.active k - (if c.2.stage = k then 1 else 0)) :
    Sound (SongsReceived env x reply a b l o) := by
  have hreg : reply.handle ∈ x.replies_ := by
    rw [hx.replies_ (by decide)]
    exact hh ▸ h.wired.api c hcm (by rcases hk with e | e <;> rw [e] <;> decide)
  have hG := agree_GetReplyData (W := fpError) (fun _ h => h)
    (AgreeOff.unchanged _ (takeReply x reply.handle)) reply
  have hq : AgreeOff (fpError ++ [Field.replies_, Field.connections] ++ fpReplyCounted) s
      (GetReplyData (takeReply x reply.handle) reply) :=
    agree_GetReplyData (by decide)
      (agree_takeReply (by decide) (hx.weaken (by decide)) _) reply
  have hy : Sound (GetReplyData (takeReply x reply.handle) reply) := by
    refine h.settle c hcm ?_ ?_ ?_ ?_ ?_ hq (by decide)
    · rw [hh, hG.connections (by decide), ← hx.connections (by decide)]
      rfl
    · rw [hG.next_reply (by decide), ← hx.next_reply (by decide)]
      rfl
    · intro r hr hne
      rw [hG.replies_ (by decide)]
      refine List.mem_filter.mpr ⟨?_, by simpa [hh] using hne⟩
      rw [hx.replies_ (by decide)]
      exact hr
    · intro r hr _
      rw [hG.album_cover_replies_ (by decide)]
      show r ∈ x.album_cover_replies_
      rw [hx.album_cover_replies_ (by decide)]
      exact hr
    · intro k
      rw [← ha k]
      cases k
      · exact hG.artists_requests_active_ (by decide)
      · exact hG.albums_requests_active_ (by decide)
      · exact hG.songs_requests_active_ (by decide)
      · exact hG.artist_albums_requests_active_ (by decide)
      · exact hG.album_songs_requests_active_ (by decide)
      · exact hG.album_covers_requests_active_ (by decide)
  have hpos := h.wired.active_pos c hcm
  have hctx0 : (s.type_ = QueryType_Songs ∨ s.type_ = QueryType_SearchSongs) ∨
      (s.artists_requests_queue_ = [] ∧ s.artists_requests_active_ ≤ 0 ∧
        s.albums_requests_queue_ = [] ∧ s.albums_requests_active_ ≤ 0 ∧
        s.artist_albums_requests_queue_ = [] ∧ s.artist_albums_requests_active_ ≤ 0) := by
    rcases hk with e | e <;> rw [e] at hpos
    · exact Or.inl (h.types.2 (Or.inr hpos))
    · exact Or.inr (h.order.2 (Or.inr hpos))
  have hle : ∀ k, (GetReplyData (takeReply x reply.handle) reply).active k ≤ s.active k := by
    intro k
    have e : (GetReplyData (takeReply x reply.handle) reply).active k = x.active k := by
      cases k
      · exact hG.artists_requests_active_ (by decide)
      · exact hG.albums_requests_active_ (by decide)
      · exact hG.songs_requests_active_ (by decide)
      · exact hG.artist_albums_requests_active_ (by decide)
      · exact hG.album_songs_requests_active_ (by decide)
      · exact hG.album_covers_requests_active_ (by decide)
    rw [e, ha k]
    split <;> omega
  have hctx : ((GetReplyData (takeReply x reply.handle) reply).type_ = QueryType_Songs ∨
        (GetReplyData (takeReply x reply.handle) reply).type_ = QueryType_SearchSongs) ∨
      ((GetReplyData (takeReply x reply.handle) reply).artists_requests_queue_ = [] ∧
        (GetReplyData (takeReply x reply.handle) reply).artists_requests_active_ ≤ 0 ∧
        (GetReplyData (takeReply x reply.handle) reply).albums_requests_queue_ = [] ∧
        (GetReplyData (takeReply x reply.handle) reply).albums_requests_active_ ≤ 0 ∧
        (GetReplyData (takeReply x reply.handle) reply).artist_albums_requests_queue_ = [] ∧
        (GetReplyData (takeReply x reply.handle) reply).artist_albums_requests_active_ ≤ 0) := by
    rw [hq.type_ (by decide)]
    exact hctx0.imp id (fun e => ⟨(hq.artists_requests_queue_ (by decide)).trans e.1,
      le_trans (hle Stage.artists) e.2.1,
      (hq.albums_requests_queue_ (by decide)).trans e.2.2.1,
      le_trans (hle Stage.albums) e.2.2.2.1,
      (hq.artist_albums_requests_queue_ (by decide)).trans e.2.2.2.2.1,
      le_trans (hle Stage.artistAlbums) e.2.2.2.2.2⟩)
  unfold SongsReceived
  rw [if_neg (not_not.mpr hreg)]
  obtain ⟨z, a1, b1, l1, o1, n1, r1, hz, hu⟩ := SongsSettled_factor env (P := fun _ => True)
    ⟨fun _ _ _ _ => trivial, fun _ _ _ => trivial⟩ (Before.start trivial) reply a b l o
  rcases hu with hu | ⟨e, hu⟩
  · rw [hu]
    exact Sound_SongsFinishCheck env hy hctx hz.agree a1 b1 l1 o1 n1 r1
  · rw [hu]
    exact (Sound_SongsFinishCheck env hy hctx hz.agree a1 b1 l1 o1 n1 r1).of_agree
      (agree_Error (W := fpError) (fun _ h => h) (AgreeOff.unchanged _ _) e) (by decide)

theorem Sound_AlbumCoverReceived (env : Env) {s : State} (h : Sound s)
    (reply : QNetworkReply) (url filename : String) (c : Nat × Callback)
    (hcm : c ∈ s.connections) (hh : c.1 = reply.handle)
    (hk : c.2.stage = Stage.albumCovers) :
    Sound (AlbumCoverReceived env s reply url filename) := by
  unfold AlbumCoverReceived
  split
  · exact h.of_agree (agree_FinishCheck (W := fpFinishCheck) (fun _ h => h)
      (AgreeOff.unchanged _ s)) (by decide)
  · have hy : Sound (albumCoverSettled (takeCoverReply s reply.handle)) := by
      refine h.settle (W := [Field.album_cover_replies_, Field.connections,
        Field.album_covers_requests_active_, Field.album_covers_requests_received_]) c hcm
        ?_ rfl ?_ ?_ ?_ ?_ (by decide)
      · rw [hh]
        rfl
      · intro r hr _
        exact hr
      · intro r hr hne
        exact List.mem_filter.mpr ⟨hr, by simpa [hh] using hne⟩
      · intro k
        rw [hk]
        cases k <;> simp [State.active, albumCoverSettled, takeCoverReply]
      · exact agree_albumCoverSettled (by decide)
          (agree_takeCoverReply (by decide) (AgreeOff.unchanged _ s) _)
    exact hy.of_agree (agree_AlbumCoverSettled (W := fpAlbumCoverBody) (fun _ h => h)
      (AgreeOff.unchanged _ _) env reply url filename) (by decide)

theorem Sound_dispatch (env : Env) {s : State} (h : Sound s) (reply : QNetworkReply)
    (c : Nat × Callback) (hcm : c ∈ s.connections) (hh : c.1 = reply.handle) :
    Sound (dispatch env s reply c.2) := by
  cases hc : c.2 with
  | Artists l o =>
    exact Sound_ArtistsReplyReceived env h reply l o c hcm hh (by rw [hc]; rfl)
  | Albums l o =>
    refine Sound_AlbumsReceived env h reply Artist.empty l o c hcm hh
      (Or.inl (by rw [hc]; rfl))
      (by constructor <;> intro hn <;> first | rfl | exact absurd (by decide) hn) ?_
    intro k
    rw [hc]
    cases k <;> simp [State.active, albumsSettled, Callback.stage]
  | Songs l o =>
    refine Sound_SongsReceived env h reply Artist.empty Album.empty l o c hcm hh
      (Or.inl (by rw [hc]; rfl))
      (by constructor <;> intro hn <;> first | rfl | exact absurd (by decide) hn) ?_
    intro k
    rw [hc]
    cases k <;> simp [State.active, songsSettled, Callback.stage]
  | ArtistAlbums a o =>
    refine Sound_AlbumsReceived env h reply a 0 o c hcm hh (Or.inr (by rw [hc]; rfl))
      (by constructor <;> intro hn <;> first | rfl | exact absurd (by decide) hn) ?_
    intro k
    rw [hc]
    cases k <;> simp [State.active, artistAlbumsSettled, artistAlbumsProgress, emit,
      Callback.stage]
  | AlbumSongs a b o =>
    refine Sound_SongsReceived env h reply a b 0 o c hcm hh (Or.inr (by rw [hc]; rfl))
      (agree_albumSongsProgress (by decide)
        (agree_albumSongsSettled (by decide) (AgreeOff.unchanged _ s)) o) ?_
    intro k
    rw [hc]
    have e := agree_albumSongsProgress (W := [Field.emitted]) (fun _ h => h)
      (AgreeOff.unchanged _ (albumSongsSettled s)) o
    cases k
    · exact (e.artists_requests_active_ (by decide)).trans (by simp [albumSongsSettled, Callback.stage, State.active])
    · exact (e.albums_requests_active_ (by decide)).trans (by simp [albumSongsSettled, Callback.stage, State.active])
    · exact (e.songs_requests_active_ (by decide)).trans (by simp [albumSongsSettled, Callback.stage, State.active])
    · exact (e.artist_albums_requests_active_ (by decide)).trans (by simp [albumSongsSettled, Callback.stage, State.active])
    · exact (e.album_songs_requests_active_ (by decide)).trans (by simp [albumSongsSettled, Callback.stage, State.active])
    · exact (e.album_covers_requests_active_ (by decide)).trans (by simp [albumSongsSettled, Callback.stage, State.active])
  | AlbumCover url filename =>
    exact Sound_AlbumCoverReceived env h reply url filename c hcm hh (by rw [hc]; rfl)

theorem Sound_step (env : Env) {s : State} (h : Sound s) (input : Input) :
    Sound (step env s input) := by
  cases input with
  | Tick =>
    simp only [step]
    split
    · exact Sound_FlushRequests s h
    · exact h
  | Finished reply =>
    simp only [step]
    split
    · rename_i c hc
      have hm := List.mem_of_find?_eq_some hc
      have hp := List.find?_some hc
      exact Sound_dispatch env h reply c hm (by simpa using hp)
    · exact h

theorem Sound_Process (env : Env) (type : QueryType) : Sound (Process env (State.init type)) := by
  have hw : Wired (State.init type) :=
    ⟨fun c hc => absurd hc (List.not_mem_nil _), List.nodup_nil,
      fun c hc => absurd hc (List.not_mem_nil _), fun c hc => absurd hc (List.not_mem_nil _),
      fun k => by cases k <;> rfl⟩
  refine ⟨?_, ?_, ?_⟩
  · cases type <;>
      exact hw.unwritten (W := fpAddArtistsRequest ++ fpAddAlbumsRequest ++ fpAddSongsRequest ++
        fpError) (by
          unfold Process
          simp only [State.init, GetArtists, GetAlbums, GetSongs, ArtistsSearch, AlbumsSearch,
            SongsSearch, AddArtistsSearchRequest, AddAlbumsSearchRequest, AddSongsSearchRequest]
          first
            | exact agree_AddArtistsRequest (by decide) (agree_emit (by decide) (agree_emit (by decide) (AgreeOff.unchanged _ _) _) _) _ _
            | exact agree_AddAlbumsRequest (by decide) (agree_emit (by decide) (agree_emit (by decide) (AgreeOff.unchanged _ _) _) _) _ _
            | exact agree_AddSongsRequest (by decide) (agree_emit (by decide) (agree_emit (by decide) (AgreeOff.unchanged _ _) _) _) _ _
            | exact agree_Error (by decide) (AgreeOff.unchanged _ _) _) (by decide)
  · cases type <;> exact StageOrder.of_idle (Or.inl ⟨rfl, le_refl _⟩) (Or.inl ⟨rfl, le_refl _⟩)
  · cases type <;> refine ⟨fun hyp => ?_, fun hyp => ?_⟩ <;>
      first
        | exact Or.inl rfl
        | exact Or.inr rfl
        | exact absurd hyp (by simp [Process, State.init, GetArtists, GetAlbums, GetSongs,
            ArtistsSearch, AlbumsSearch, SongsSearch, AddArtistsSearchRequest,
            AddAlbumsSearchRequest, AddSongsSearchRequest, AddArtistsRequest, AddAlbumsRequest,
            AddSongsRequest, StartRequests, emit, Error, FinishCheck, Quiescent])

theorem Sound_steps (env : Env) (inputs : List Input) :
    ∀ s, Sound s → Sound (inputs.foldl (step env) s) := by
  induction inputs with
  | nil => intro s h; exact h
  | cons input rest ih => intro s h; exact ih _ (Sound_step env h input)

theorem Sound_run (env : Env) (type : QueryType) (inputs : List Input) :
    Sound (run env type inputs) :=
  Sound_steps env inputs _ (Sound_Process env type)

/-- C20: in every state a run reaches between two deliveries, an artist-albums request is
queued or in flight only when the artists queue is empty and no artists request is in flight,
and an album-songs request is queued or in flight only when the artists, albums and
artist-albums queues are empty and none of their requests is in flight. -/
theorem child_stage_waits_for_parents (env : Env) (type : QueryType) (inputs : List Input) :
    (((run env type inputs).artist_albums_requests_queue_ ≠ [] ∨
        (run env type inputs).artist_albums_requests_active_ > 0) →
      (run env type inputs).artists_requests_queue_ = [] ∧
      (run env type inputs).artists_requests_active_ ≤ 0) ∧
    (((run env type inputs).album_songs_requests_queue_ ≠ [] ∨
        (run env type inputs).album_songs_requests_active_ > 0) →
      (run env type inputs).artists_requests_queue_ = [] ∧
      (run env type inputs).artists_requests_active_ ≤ 0 ∧
      (run env type inputs).albums_requests_queue_ = [] ∧
      (run env type inputs).albums_requests_active_ ≤ 0 ∧
      (run env type inputs).artist_albums_requests_queue_ = [] ∧
      (run env type inputs).artist_albums_requests_active_ ≤ 0) :=
  (Sound_run env type inputs).order

/-! ## One child request per parent id -/

theorem mapInsert_fresh {α : Type} (m : List (String × α)) (key : String) (value : α)
    (h : mapContains m key = false) : mapInsert m key value = m ++ [(key, value)] := by
  unfold mapInsert
  rw [if_neg (by simp [h])]

theorem mapContains_false_iff {α : Type} (m : List (String × α)) (key : String) :
    mapContains m key = false ↔ key ∉ m.map (fun kv => kv.1) := by
  unfold mapContains
  rw [List.any_eq_false]
  constructor
  · intro h hm
    obtain ⟨kv, hkv, he⟩ := List.mem_map.mp hm
    have := h kv hkv
    simp [he] at this
  · intro h kv hkv
    simp only [beq_iff_eq]
    intro he
    exact h (List.mem_map.mpr ⟨kv, hkv, he⟩)

theorem ArtistsItemObject_pending (s : State) (obj : QJsonObject) :
    ∃ added, (ArtistsItemObject s obj).artist_albums_requests_pending_ =
        s.artist_albums_requests_pending_ ++ added ∧
      added.length ≤ 1 ∧
      ∀ kv ∈ added, mapContains s.artist_albums_requests_pending_ kv.1 = false ∧
        kv.2.artist.artist_id = kv.1 := by
  unfold ArtistsItemObject
  split
  · refine ⟨[], ?_, by simp, by simp⟩
    rw [List.append_nil]
    exact (agree_Error (W := fpError) (fun _ h => h) (AgreeOff.unchanged _ s)
      _).artist_albums_requests_pending_ (by decide)
  · split
    · exact ⟨[], by simp, by simp, by simp⟩
    · rename_i hc
      refine ⟨[(idString (jsonValue obj "id"), _)], mapInsert_fresh _ _ _ (by simpa using hc),
        by simp, ?_⟩
      intro kv hkv
      rw [List.mem_singleton] at hkv
      subst hkv
      exact ⟨by simpa using hc, rfl⟩

theorem ArtistsItem_pending (s : State) (v : QJsonValue) :
    ∃ added, (ArtistsItem s v).artist_albums_requests_pending_ =
        s.artist_albums_requests_pending_ ++ added ∧
      added.length ≤ 1 ∧
      ∀ kv ∈ added, mapContains s.artist_albums_requests_pending_ kv.1 = false ∧
        kv.2.artist.artist_id = kv.1 := by
  have hE : ∀ e, ∃ added, (Error s e).artist_albums_requests_pending_ =
        s.artist_albums_requests_pending_ ++ added ∧
      added.length ≤ 1 ∧
      ∀ kv ∈ added, mapContains s.artist_albums_requests_pending_ kv.1 = false ∧
        kv.2.artist.artist_id = kv.1 := by
    intro e
    refine ⟨[], ?_, by simp, by simp⟩
    rw [List.append_nil]
    exact (agree_Error (W := fpError) (fun _ h => h) (AgreeOff.unchanged _ s)
      _).artist_albums_requests_pending_ (by decide)
  unfold ArtistsItem
  repeat' first
    | exact ArtistsItemObject_pending s _
    | exact hE _
    | split

theorem ArtistsPendingOK_item (s : State) (v : QJsonValue) (h : ArtistsPendingOK s) :
    ArtistsPendingOK (ArtistsItem s v) := by
  obtain ⟨added, he, hl, ha⟩ := ArtistsItem_pending s v
  unfold ArtistsPendingOK
  rw [he]
  refine ⟨?_, ?_⟩
  · rw [List.map_append]
    refine List.Nodup.append h.1 ?_ ?_
    · match added, hl with
      | [], _ => exact List.nodup_nil
      | [x], _ => exact List.nodup_singleton _
    · intro k hk1 hk2
      obtain ⟨kv, hkv, hkk⟩ := List.mem_map.mp hk2
      have := (mapContains_false_iff _ _).mp (ha kv hkv).1
      rw [hkk] at this
      exact this hk1
  · intro kv hkv
    rcases List.mem_append.mp hkv with hm | hm
    · exact h.2 kv hm
    · exact (ha kv hm).2

theorem foldl_AddArtistAlbumsRequest (pending : List (String × ArtistAlbumsRequest)) :
    ∀ s : State,
      (pending.foldl (fun st kv => AddArtistAlbumsRequest st kv.2.artist 0)
        s).artist_albums_requests_queue_ =
        s.artist_albums_requests_queue_ ++ releasedArtistAlbums pending ∧
      AgreeOff fpAddArtistAlbumsRequest s
        (pending.foldl (fun st kv => AddArtistAlbumsRequest st kv.2.artist 0) s) := by
  induction pending with
  | nil => intro s; exact ⟨by simp [releasedArtistAlbums], AgreeOff.unchanged _ s⟩
  | cons kv rest ih =>
    intro s
    obtain ⟨h1, h2⟩ := ih (AddArtistAlbumsRequest s kv.2.artist 0)
    refine ⟨?_, (agree_AddArtistAlbumsRequest (fun _ h => h)
      (AgreeOff.unchanged _ s) _ _).andThen h2⟩
    rw [List.foldl_cons, h1, AddArtistAlbumsRequest_queue]
    simp [releasedArtistAlbums]

/-- When the artists listing is drained, `ArtistsRelease` appends one artist-albums request at
offset 0 for every pending entry and empties the pending set; otherwise it does nothing. -/
theorem ArtistsRelease_queue (s : State) :
    (s.artists_requests_queue_ = [] ∧ s.artists_requests_active_ ≤ 0 →
      (ArtistsRelease s).artist_albums_requests_queue_ =
        s.artist_albums_requests_queue_ ++
          releasedArtistAlbums s.artist_albums_requests_pending_ ∧
      (ArtistsRelease s).artist_albums_requests_pending_ = []) ∧
    (¬ (s.artists_requests_queue_ = [] ∧ s.artists_requests_active_ ≤ 0) →
      ArtistsRelease s = s) := by
  unfold ArtistsRelease
  refine ⟨fun hc => ?_, fun hc => by rw [if_neg hc]⟩
  rw [if_pos hc]
  have hS := agree_artistAlbumsStatus (W := [Field.emitted]) (fun _ h => h)
    (AgreeOff.unchanged _ (clearArtistAlbumsPending
      (s.artist_albums_requests_pending_.foldl
        (fun st kv => AddArtistAlbumsRequest st kv.2.artist 0) s)))
  rw [hS.artist_albums_requests_queue_ (by decide),
    hS.artist_albums_requests_pending_ (by decide)]
  exact ⟨(foldl_AddArtistAlbumsRequest _ s).1, rfl⟩

theorem releasedArtistAlbums_nodup (s : State) (h : ArtistsPendingOK s) :
    ((releasedArtistAlbums s.artist_albums_requests_pending_).map
      (fun r => r.artist.artist_id)).Nodup := by
  have e : (releasedArtistAlbums s.artist_albums_requests_pending_).map
      (fun r => r.artist.artist_id) = s.artist_albums_requests_pending_.map (fun kv => kv.1) := by
    unfold releasedArtistAlbums
    rw [List.map_map]
    exact List.map_congr_left (fun kv hkv => h.2 kv hkv)
  rw [e]
  exact h.1

theorem ArtistsFinishCheck_release (env : Env) (z : State) (l o r : Int)
    (h : ArtistsPendingOK z) :
    ArtistsPendingOK (ArtistsFinishCheck env z l o r) ∧
    ∃ rel, (ArtistsFinishCheck env z l o r).artist_albums_requests_queue_ =
        z.artist_albums_requests_queue_ ++ rel ∧
      (rel.map (fun r => r.artist.artist_id)).Nodup ∧
      (∀ r ∈ rel, r.offset = 0) ∧
      (rel ≠ [] → (ArtistsFinishCheck env z l o r).artists_requests_queue_ = [] ∧
        (ArtistsFinishCheck env z l o r).artists_requests_active_ ≤ 0) := by
  unfold ArtistsFinishCheck
  split
  · exact ⟨h, [], by simp, List.nodup_nil, by simp, fun hne => absurd rfl hne⟩
  · have hF := agree_FinishCheck (W := fpFinishCheck) (fun _ h => h)
      (AgreeOff.unchanged _ (ArtistsRelease (ArtistsNextPage env z l o r)))
    have hN := agree_ArtistsNextPage (W := fpAddArtistsRequest) (fun _ h => h)
      (AgreeOff.unchanged _ z) env l o r
    have hPN : ArtistsPendingOK (ArtistsNextPage env z l o r) := by
      unfold ArtistsPendingOK
      rw [hN.artist_albums_requests_pending_ (by decide)]
      exact h
    unfold ArtistsPendingOK
    rw [hF.artist_albums_requests_pending_ (by decide),
      hF.artist_albums_requests_queue_ (by decide), hF.artists_requests_queue_ (by decide),
      hF.artists_requests_active_ (by decide)]
    by_cases hc : (ArtistsNextPage env z l o r).artists_requests_queue_ = [] ∧
        (ArtistsNextPage env z l o r).artists_requests_active_ ≤ 0
    · obtain ⟨q1, q2⟩ := (ArtistsRelease_queue (ArtistsNextPage env z l o r)).1 hc
      have hR := agree_ArtistsRelease
        (W := fpAddArtistAlbumsRequest ++ [Field.artist_albums_requests_pending_, Field.emitted])
        (fun _ h => h) (AgreeOff.unchanged _ (ArtistsNextPage env z l o r))
      rw [q2]
      refine ⟨⟨List.nodup_nil, by simp⟩,
        releasedArtistAlbums (ArtistsNextPage env z l o r).artist_albums_requests_pending_,
        ?_, releasedArtistAlbums_nodup _ hPN, ?_, fun _ => ?_⟩
      · rw [q1, hN.artist_albums_requests_queue_ (by decide)]
      · intro x hx
        unfold releasedArtistAlbums at hx
        obtain ⟨kv, _, hkv⟩ := List.mem_map.mp hx
        rw [← hkv]
      · rw [hR.artists_requests_queue_ (by decide), hR.artists_requests_active_ (by decide)]
        exact hc
    · rw [(ArtistsRelease_queue (ArtistsNextPage env z l o r)).2 hc]
      exact ⟨hPN, [], by rw [List.append_nil, hN.artist_albums_requests_queue_ (by decide)],
        List.nodup_nil, by simp, fun hne => absurd rfl hne⟩

theorem quiet_ArtistsPendingOK : Quiet fpArtistsQuiet ArtistsPendingOK := by
  intro a b hab h
  unfold ArtistsPendingOK
  rw [hab.artist_albums_requests_pending_ (by decide)]
  exact h

/-- What a reply to an artists request does to the artist-albums queue: it appends nothing, or
it appends one request at offset 0 for each pending artist, no artist id twice, and then the
artists listing is drained. -/
theorem ArtistsReplyReceived_release (env : Env) (s : State) (hp : ArtistsPendingOK s)
    (reply : QNetworkReply) (l o : Int) :
    ArtistsPendingOK (ArtistsReplyReceived env s reply l o) ∧
    ∃ rel, (ArtistsReplyReceived env s reply l o).artist_albums_requests_queue_ =
        s.artist_albums_requests_queue_ ++ rel ∧
      (rel.map (fun r => r.artist.artist_id)).Nodup ∧
      (∀ r ∈ rel, r.offset = 0) ∧
      (rel ≠ [] → (ArtistsReplyReceived env s reply l o).artists_requests_queue_ = [] ∧
        (ArtistsReplyReceived env s reply l o).artists_requests_active_ ≤ 0) := by
  unfold ArtistsReplyReceived
  split
  · exact ⟨hp, [], by simp, List.nodup_nil, by simp, fun hne => absurd rfl hne⟩
  · have hq : AgreeOff (fpTaken Field.artists_requests_active_ Field.artists_requests_received_)
        s (artistsSettled (GetReplyData (takeReply s reply.handle) reply)) :=
      agree_artistsSettled (by decide) (agree_GetReplyData (by decide)
        (agree_takeReply (by decide) (AgreeOff.unchanged _ s) _) reply)
    have hpy : ArtistsPendingOK (artistsSettled (GetReplyData (takeReply s reply.handle)
        reply)) := by
      unfold ArtistsPendingOK
      rw [hq.artist_albums_requests_pending_ (by decide)]
      exact hp
    obtain ⟨z, l1, o1, r1, hz, hu⟩ := ArtistsSettled_factor env
      (Steady.of_quiet quiet_ArtistsPendingOK (by decide) (by decide)) ArtistsPendingOK_item (Before.start hpy) reply l o
    obtain ⟨h1, rel, h2, h3, h4, h5⟩ := ArtistsFinishCheck_release env z l1 o1 r1 hz.holds
    rw [hz.agree.artist_albums_requests_queue_ (by decide),
      hq.artist_albums_requests_queue_ (by decide)] at h2
    rcases hu with hu | ⟨e, hu⟩
    · rw [hu]
      exact ⟨h1, rel, h2, h3, h4, h5⟩
    · rw [hu]
      have hE := agree_Error (W := fpError) (fun _ h => h)
        (AgreeOff.unchanged _ (ArtistsFinishCheck env z l1 o1 r1)) e
      unfold ArtistsPendingOK
      rw [hE.artist_albums_requests_pending_ (by decide),
        hE.artist_albums_requests_queue_ (by decide), hE.artists_requests_queue_ (by decide),
        hE.artists_requests_active_ (by decide)]
      exact ⟨h1, rel, h2, h3, h4, h5⟩

theorem FlushArtistAlbumsLoop_queue (q : List ArtistAlbumsRequest) :
    ∀ s : State, s.artist_albums_requests_queue_ = q →
      ∃ k, (FlushArtistAlbumsLoop q s).artist_albums_requests_queue_ = q.drop k := by
  induction q with
  | nil => intro s hq; exact ⟨0, hq⟩
  | cons r q ih =>
    intro s hq
    unfold FlushArtistAlbumsLoop
    split
    · obtain ⟨k, hk⟩ := ih (artistAlbumsSent (issueReply
        { s with artist_albums_requests_queue_ := q }
        (Callback.ArtistAlbums r.artist r.offset))) rfl
      exact ⟨k + 1, hk⟩
    · exact ⟨0, hq⟩

theorem FlushAlbumSongsLoop_queue (q : List AlbumSongsRequest) :
    ∀ s : State, s.album_songs_requests_queue_ = q →
      ∃ k, (FlushAlbumSongsLoop q s).album_songs_requests_queue_ = q.drop k := by
  induction q with
  | nil => intro s hq; exact ⟨0, hq⟩
  | cons r q ih =>
    intro s hq
    unfold FlushAlbumSongsLoop
    split
    · obtain ⟨k, hk⟩ := ih (albumSongsSent (issueReply
        { s with album_songs_requests_queue_ := q }
        (Callback.AlbumSongs r.artist r.album r.offset))) rfl
      exact ⟨k + 1, hk⟩
    · exact ⟨0, hq⟩

/-- A flush appends nothing to the queues of the sub-fetches. -/
theorem FlushRequests_child_queues (s : State) :
    (FlushRequests s).artist_albums_requests_queue_.length ≤
      s.artist_albums_requests_queue_.length ∧
    (FlushRequests s).album_songs_requests_queue_.length ≤
      s.album_songs_requests_queue_.length := by
  have hA := agree_FlushArtistsLoop (W := fpFlushArtists) (fun _ h => h)
    s.artists_requests_queue_ s (AgreeOff.unchanged _ s)
  have hB := agree_FlushAlbumsLoop (W := fpFlushAlbums) (fun _ h => h)
    s.albums_requests_queue_ s (AgreeOff.unchanged _ s)
  have hC := agree_FlushArtistAlbumsLoop (W := fpFlushArtistAlbums) (fun _ h => h)
    s.artist_albums_requests_queue_ s (AgreeOff.unchanged _ s)
  have hD := agree_FlushAlbumSongsLoop (W := fpFlushAlbumSongs) (fun _ h => h)
    s.album_songs_requests_queue_ s (AgreeOff.unchanged _ s)
  have hE := agree_FlushSongsLoop (W := fpFlushSongs) (fun _ h => h)
    s.songs_requests_queue_ s (AgreeOff.unchanged _ s)
  have hF := agree_FlushAlbumCoverLoop (W := fpFlushAlbumCover) (fun _ h => h)
    s.album_cover_requests_queue_ s (AgreeOff.unchanged _ s)
  obtain ⟨k1, hk1⟩ := FlushArtistAlbumsLoop_queue _ s rfl
  obtain ⟨k2, hk2⟩ := FlushAlbumSongsLoop_queue _ s rfl
  unfold FlushRequests FlushArtistsRequests FlushAlbumsRequests FlushSongsRequests
    FlushArtistAlbumsRequests FlushAlbumSongsRequests FlushAlbumCoverRequests
  repeat' split
  · exact ⟨le_of_eq (congrArg _ (hA.artist_albums_requests_queue_ (by decide))),
      le_of_eq (congrArg _ (hA.album_songs_requests_queue_ (by decide)))⟩
  · exact ⟨le_of_eq (congrArg _ (hB.artist_albums_requests_queue_ (by decide))),
      le_of_eq (congrArg _ (hB.album_songs_requests_queue_ (by decide)))⟩
  · refine ⟨?_, le_of_eq (congrArg _ (hC.album_songs_requests_queue_ (by decide)))⟩
    rw [hk1, List.length_drop]
    exact Nat.sub_le _ _
  · refine ⟨le_of_eq (congrArg _ (hD.artist_albums_requests_queue_ (by decide))), ?_⟩
    rw [hk2, List.length_drop]
    exact Nat.sub_le _ _
  · exact ⟨le_of_eq (congrArg _ (hE.artist_albums_requests_queue_ (by decide))),
      le_of_eq (congrArg _ (hE.album_songs_requests_queue_ (by decide)))⟩
  · exact ⟨le_of_eq (congrArg _ (hF.artist_albums_requests_queue_ (by decide))),
      le_of_eq (congrArg _ (hF.album_songs_requests_queue_ (by decide)))⟩
  · exact ⟨le_refl _, le_refl _⟩

/-- A flush leaves a drained stage drained: it sends only what is queued. -/
theorem FlushRequests_keeps_idle (s : State) :
    (s.artists_requests_queue_ = [] → (FlushRequests s).artists_requests_active_ =
      s.artists_requests_active_) ∧
    (s.albums_requests_queue_ = [] → (FlushRequests s).albums_requests_active_ =
      s.albums_requests_active_) ∧
    (s.artist_albums_requests_queue_ = [] → (FlushRequests s).artist_albums_requests_active_ =
      s.artist_albums_requests_active_) := by
  have hA := agree_FlushArtistsLoop (W := fpFlushArtists) (fun _ h => h)
    s.artists_requests_queue_ s (AgreeOff.unchanged _ s)
  have hB := agree_FlushAlbumsLoop (W := fpFlushAlbums) (fun _ h => h)
    s.albums_requests_queue_ s (AgreeOff.unchanged _ s)
  have hC := agree_FlushArtistAlbumsLoop (W := fpFlushArtistAlbums) (fun _ h => h)
    s.artist_albums_requests_queue_ s (AgreeOff.unchanged _ s)
  have hD := agree_FlushAlbumSongsLoop (W := fpFlushAlbumSongs) (fun _ h => h)
    s.album_songs_requests_queue_ s (AgreeOff.unchanged _ s)
  have hE := agree_FlushSongsLoop (W := fpFlushSongs) (fun _ h => h)
    s.songs_requests_queue_ s (AgreeOff.unchanged _ s)
  have hF := agree_FlushAlbumCoverLoop (W := fpFlushAlbumCover) (fun _ h => h)
    s.album_cover_requests_queue_ s (AgreeOff.unchanged _ s)
  unfold FlushRequests FlushArtistsRequests FlushAlbumsRequests FlushSongsRequests
    FlushArtistAlbumsRequests FlushAlbumSongsRequests FlushAlbumCoverRequests
  repeat' split
  · rename_i h
    exact ⟨fun e => absurd e h, fun _ => hA.albums_requests_active_ (by decide),
      fun _ => hA.artist_albums_requests_active_ (by decide)⟩
  · rename_i h
    exact ⟨fun _ => hB.artists_requests_active_ (by decide), fun e => absurd e h,
      fun _ => hB.artist_albums_requests_active_ (by decide)⟩
  · rename_i h
    exact ⟨fun _ => hC.artists_requests_active_ (by decide),
      fun _ => hC.albums_requests_active_ (by decide), fun e => absurd e h⟩
  · exact ⟨fun _ => hD.artists_requests_active_ (by decide),
      fun _ => hD.albums_requests_active_ (by decide),
      fun _ => hD.artist_albums_requests_active_ (by decide)⟩
  · exact ⟨fun _ => hE.artists_requests_active_ (by decide),
      fun _ => hE.albums_requests_active_ (by decide),
      fun _ => hE.artist_albums_requests_active_ (by decide)⟩
  · exact ⟨fun _ => hF.artists_requests_active_ (by decide),
      fun _ => hF.albums_requests_active_ (by decide),
      fun _ => hF.artist_albums_requests_active_ (by decide)⟩
  · exact ⟨fun _ => rfl, fun _ => rfl, fun _ => rfl⟩

theorem filter_offset_zero_drop {α : Type} (offset : α → Int) (q u : List α) (T : Int)
    (h : RePaged offset q u T) :
    (u.drop q.length).filter (fun r => offset r == 0) = [] := by
  rcases h with h | ⟨c, h, h0, _⟩
  · rw [h, List.drop_length]
    rfl
  · rw [h, List.drop_left, List.filter_cons_of_neg (by simp; omega)]
    rfl

theorem dispatch_artist_albums_queue (env : Env) (s : State) (reply : QNetworkReply)
    (slot : Callback) (h : ∀ l o, slot ≠ Callback.Artists l o) :
    ∃ T, RePaged ArtistAlbumsRequest.offset s.artist_albums_requests_queue_
      (dispatch env s reply slot).artist_albums_requests_queue_ T := by
  cases slot with
  | Artists l o => exact absurd rfl (h l o)
  | Albums l o => exact ⟨_, (AlbumsReceived_repaged env (albumsSettled s) reply _ l o).2⟩
  | ArtistAlbums a o =>
    exact ⟨_, (AlbumsReceived_repaged env (artistAlbumsProgress (artistAlbumsSettled s)) reply
      a 0 o).2⟩
  | Songs l o =>
    exact ⟨0, Or.inl ((dispatch_agree_belowAlbums env s reply _ (fun _ _ => Callback.noConfusion)
      (fun _ _ => Callback.noConfusion)
      (fun _ _ => Callback.noConfusion)).artist_albums_requests_queue_ (by decide))⟩
  | AlbumSongs a b o =>
    exact ⟨0, Or.inl ((dispatch_agree_belowAlbums env s reply _ (fun _ _ => Callback.noConfusion)
      (fun _ _ => Callback.noConfusion)
      (fun _ _ => Callback.noConfusion)).artist_albums_requests_queue_ (by decide))⟩
  | AlbumCover url filename =>
    exact ⟨0, Or.inl ((dispatch_agree_belowAlbums env s reply _ (fun _ _ => Callback.noConfusion)
      (fun _ _ => Callback.noConfusion)
      (fun _ _ => Callback.noConfusion)).artist_albums_requests_queue_ (by decide))⟩

/-- What one delivery does to the artist-albums requests at offset 0: the ones it queues name
no artist twice; when it queues one, it leaves the artists listing drained; and once the
artists listing is drained it stays so and no delivery queues one. -/
theorem artistAlbums_step (env : Env) {s : State} (hs : Sound s) (hp : ArtistsPendingOK s)
    (input : Input) :
    ArtistsPendingOK (step env s input) ∧
    ((artistAlbumsQueuedBy env s input).map (fun r => r.artist.artist_id)).Nodup ∧
    (artistAlbumsQueuedBy env s input ≠ [] →
      (step env s input).artists_requests_queue_ = [] ∧
      (step env s input).artists_requests_active_ ≤ 0) ∧
    (s.artists_requests_queue_ = [] ∧ s.artists_requests_active_ ≤ 0 →
      artistAlbumsQueuedBy env s input = [] ∧
      (step env s input).artists_requests_queue_ = [] ∧
      (step env s input).artists_requests_active_ ≤ 0) := by
  have hsame : ∀ u : State, u.artist_albums_requests_pending_ =
        s.artist_albums_requests_pending_ →
      u.artists_requests_queue_ = s.artists_requests_queue_ →
      u.artists_requests_active_ = s.artists_requests_active_ →
      (u.artist_albums_requests_queue_.drop s.artist_albums_requests_queue_.length).filter
        (fun r => r.offset == 0) = [] →
      ArtistsPendingOK u ∧
      (((u.artist_albums_requests_queue_.drop s.artist_albums_requests_queue_.length).filter
        (fun r => r.offset == 0)).map (fun r => r.artist.artist_id)).Nodup ∧
      ((u.artist_albums_requests_queue_.drop s.artist_albums_requests_queue_.length).filter
          (fun r => r.offset == 0) ≠ [] →
        u.artists_requests_queue_ = [] ∧ u.artists_requests_active_ ≤ 0) ∧
      (s.artists_requests_queue_ = [] ∧ s.artists_requests_active_ ≤ 0 →
        (u.artist_albums_requests_queue_.drop s.artist_albums_requests_queue_.length).filter
          (fun r => r.offset == 0) = [] ∧
        u.artists_requests_queue_ = [] ∧ u.artists_requests_active_ ≤ 0) := by
    intro u e1 e2 e3 e4
    rw [e4, e2, e3]
    refine ⟨?_, List.nodup_nil, fun hne => absurd rfl hne, fun hd => ⟨rfl, hd⟩⟩
    unfold ArtistsPendingOK
    rw [e1]
    exact hp
  unfold artistAlbumsQueuedBy
  cases input with
  | Tick =>
    simp only [step]
    split
    · have hF := agree_FlushRequests (W := fpFlushRequests) (fun _ h => h)
        (AgreeOff.unchanged _ s)
      have hlen := (FlushRequests_child_queues s).1
      have hnil : (FlushRequests s).artist_albums_requests_queue_.drop
          s.artist_albums_requests_queue_.length = [] := List.drop_eq_nil_of_le hlen
      rw [hnil]
      refine ⟨?_, List.nodup_nil, fun hne => absurd rfl hne,
        fun hd => ⟨rfl, (FlushRequests_keeps_empty s).1 hd.1, ?_⟩⟩
      · unfold ArtistsPendingOK
        rw [hF.artist_albums_requests_pending_ (by decide)]
        exact hp
      · rw [(FlushRequests_keeps_idle s).1 hd.1]
        exact hd.2
    · exact hsame s rfl rfl rfl (by rw [List.drop_length]; rfl)
  | Finished reply =>
    simp only [step]
    split
    · rename_i c hc
      have hm := List.mem_of_find?_eq_some hc
      by_cases hk : ∃ l o, c.2 = Callback.Artists l o
      · obtain ⟨l, o, hk⟩ := hk
        rw [hk]
        obtain ⟨h1, rel, h2, h3, h4, h5⟩ := ArtistsReplyReceived_release env s hp reply l o
        have hq : ((dispatch env s reply (Callback.Artists l o)).artist_albums_requests_queue_.drop
            s.artist_albums_requests_queue_.length).filter (fun r => r.offset == 0) = rel := by
          show ((ArtistsReplyReceived env s reply l o).artist_albums_requests_queue_.drop
            s.artist_albums_requests_queue_.length).filter (fun r => r.offset == 0) = rel
          rw [h2, List.drop_left]
          exact List.filter_eq_self.mpr (fun r hr => by simp [h4 r hr])
        rw [hq]
        refine ⟨h1, h3, h5, fun hd => ?_⟩
        have hpos := hs.wired.active_pos c hm
        rw [hk] at hpos
        exact absurd hd.2 (not_le.mpr hpos)
      · have hk1 : ∀ l o, c.2 ≠ Callback.Artists l o := fun l o e => hk ⟨l, o, e⟩
        have hA := dispatch_agree_belowArtists env s reply c.2 hk1
        obtain ⟨T, hT⟩ := dispatch_artist_albums_queue env s reply c.2 hk1
        exact hsame _ (hA.artist_albums_requests_pending_ (by decide))
          (hA.artists_requests_queue_ (by decide)) (hA.artists_requests_active_ (by decide))
          (filter_offset_zero_drop _ _ _ T hT)
    · exact hsame s rfl rfl rfl (by rw [List.drop_length]; rfl)

theorem artistAlbumsLog_nodup (env : Env) (inputs : List Input) :
    ∀ s, Sound s → ArtistsPendingOK s →
      ((artistAlbumsLog env s inputs).map (fun r => r.artist.artist_id)).Nodup ∧
      (s.artists_requests_queue_ = [] ∧ s.artists_requests_active_ ≤ 0 →
        artistAlbumsLog env s inputs = []) ∧
      ArtistsPendingOK (inputs.foldl (step env) s) := by
  induction inputs with
  | nil => intro s _ hp; exact ⟨List.nodup_nil, fun _ => rfl, hp⟩
  | cons input rest ih =>
    intro s hs hp
    obtain ⟨h1, h2, h3, h4⟩ := artistAlbums_step env hs hp input
    obtain ⟨i1, i2, i3⟩ := ih _ (Sound_step env hs input) h1
    simp only [artistAlbumsLog, List.foldl_cons]
    refine ⟨?_, fun hd => ?_, i3⟩
    · by_cases hq : artistAlbumsQueuedBy env s input = []
      · rw [hq, List.nil_append]
        exact i1
      · rw [i2 (h3 hq), List.append_nil]
        exact h2
    · obtain ⟨q1, q2⟩ := h4 hd
      rw [q1, i2 q2]
      rfl

/-- C18: over a whole run the artist-albums requests queued at offset 0 name no artist id
twice; in every state the run reaches the pending set holds no id twice; the item loop leaves
the pending set as it is or appends one entry whose id was not pending, so an id that is
pending is not inserted again and its entry stays; and when the artists listing is drained,
`ArtistsRelease` queues exactly one request at offset 0 for each pending entry and empties
the pending set. -/
theorem artist_albums_requested_once (env : Env) (type : QueryType) (inputs : List Input) :
    ((artistAlbumsLog env (Process env (State.init type)) inputs).map
      (fun r => r.artist.artist_id)).Nodup ∧
    ((run env type inputs).artist_albums_requests_pending_.map (fun kv => kv.1)).Nodup ∧
    (∀ (s : State) (v : QJsonValue), ∃ added,
      (ArtistsItem s v).artist_albums_requests_pending_ =
        s.artist_albums_requests_pending_ ++ added ∧
      added.length ≤ 1 ∧
      ∀ kv ∈ added, mapContains s.artist_albums_requests_pending_ kv.1 = false ∧
        kv.2.artist.artist_id = kv.1) ∧
    (∀ s : State, s.artists_requests_queue_ = [] ∧ s.artists_requests_active_ ≤ 0 →
      (ArtistsRelease s).artist_albums_requests_queue_ =
        s.artist_albums_requests_queue_ ++
          s.artist_albums_requests_pending_.map
            (fun kv => { artist := kv.2.artist, offset := 0, limit := 0 }) ∧
      (ArtistsRelease s).artist_albums_requests_pending_ = []) := by
  have h0 : ArtistsPendingOK (Process env (State.init type)) := by
    have e : (Process env (State.init type)).artist_albums_requests_pending_ = [] := by
      cases type <;> rfl
    unfold ArtistsPendingOK
    rw [e]
    exact ⟨List.nodup_nil, by simp⟩
  obtain ⟨h1, _, h3⟩ := artistAlbumsLog_nodup env inputs _ (Sound_Process env type) h0
  exact ⟨h1, h3.1, ArtistsItem_pending, fun s hd => (ArtistsRelease_queue s).1 hd⟩

theorem AlbumsItem_pending (a : Artist) (s : State) (v : QJsonValue) :
    ∃ added, (AlbumsItem a s v).album_songs_requests_pending_ =
        s.album_songs_requests_pending_ ++ added ∧
      added.length ≤ 1 ∧
      ∀ kv ∈ added, mapContains s.album_songs_requests_pending_ kv.1 = false ∧
        kv.2.album.album_id = kv.1 := by
  have hE : ∀ e, ∃ added, (Error s e).album_songs_requests_pending_ =
        s.album_songs_requests_pending_ ++ added ∧
      added.length ≤ 1 ∧
      ∀ kv ∈ added, mapContains s.album_songs_requests_pending_ kv.1 = false ∧
        kv.2.album.album_id = kv.1 := by
    intro e
    refine ⟨[], ?_, by simp, by simp⟩
    rw [List.append_nil]
    exact (agree_Error (W := fpError) (fun _ h => h) (AgreeOff.unchanged _ s)
      _).album_songs_requests_pending_ (by decide)
  unfold AlbumsItem
  split
  · split
    · exact hE _
    · split
      · exact ⟨[], by simp, by simp, by simp⟩
      · rename_i obj _ hc
        unfold AlbumsItemArtist
        split
        · split
          · exact hE _
          · split
            · exact ⟨[], by simp, by simp, by simp⟩
            · refine ⟨[(idString (jsonValue obj "id"), _)],
                mapInsert_fresh _ _ _ (by simpa using hc), by simp, ?_⟩
              intro kv hkv
              rw [List.mem_singleton] at hkv
              subst hkv
              exact ⟨by simpa using hc, rfl⟩
        · exact hE _
  · exact hE _

theorem AlbumsPendingOK_item (a : Artist) (s : State) (v : QJsonValue)
    (h : AlbumsPendingOK s) : AlbumsPendingOK (AlbumsItem a s v) := by
  obtain ⟨added, he, hl, ha⟩ := AlbumsItem_pending a s v
  unfold AlbumsPendingOK
  rw [he]
  refine ⟨?_, ?_⟩
  · rw [List.map_append]
    refine List.Nodup.append h.1 ?_ ?_
    · match added, hl with
      | [], _ => exact List.nodup_nil
      | [x], _ => exact List.nodup_singleton _
    · intro k hk1 hk2
      obtain ⟨kv, hkv, hkk⟩ := List.mem_map.mp hk2
      have := (mapContains_false_iff _ _).mp (ha kv hkv).1
      rw [hkk] at this
      exact this hk1
  · intro kv hkv
    rcases List.mem_append.mp hkv with hm | hm
    · exact h.2 kv hm
    · exact (ha kv hm).2

theorem foldl_AddAlbumSongsRequest (pending : List (String × AlbumSongsRequest)) :
    ∀ s : State,
      (pending.foldl (fun st kv => AddAlbumSongsRequest st kv.2.artist kv.2.album 0)
        s).album_songs_requests_queue_ =
        s.album_songs_requests_queue_ ++ releasedAlbumSongs pending := by
  induction pending with
  | nil => intro s; simp [releasedAlbumSongs]
  | cons kv rest ih =>
    intro s
    rw [List.foldl_cons, ih, AddAlbumSongsRequest_queue]
    simp [releasedAlbumSongs]

/-- When the artists, albums and artist-albums stages are drained, `AlbumsRelease` appends one
album-songs request at offset 0 for every pending entry and empties the pending set;
otherwise it does nothing. -/
theorem AlbumsRelease_queue (s : State) :
    (ParentsDrained s →
      (AlbumsRelease s).album_songs_requests_queue_ =
        s.album_songs_requests_queue_ ++ releasedAlbumSongs s.album_songs_requests_pending_ ∧
      (AlbumsRelease s).album_songs_requests_pending_ = []) ∧
    (¬ ParentsDrained s → AlbumsRelease s = s) := by
  unfold AlbumsRelease ParentsDrained
  refine ⟨fun hc => ?_, fun hc => by rw [if_neg hc]⟩
  rw [if_pos hc]
  have hS := agree_albumSongsStatus (W := [Field.emitted]) (fun _ h => h)
    (AgreeOff.unchanged _ (clearAlbumSongsPending
      (s.album_songs_requests_pending_.foldl
        (fun st kv => AddAlbumSongsRequest st kv.2.artist kv.2.album 0) s)))
  rw [hS.album_songs_requests_queue_ (by decide),
    hS.album_songs_requests_pending_ (by decide)]
  exact ⟨foldl_AddAlbumSongsRequest _ s, rfl⟩

theorem releasedAlbumSongs_nodup (s : State) (h : AlbumsPendingOK s) :
    ((releasedAlbumSongs s.album_songs_requests_pending_).map
      (fun r => r.album.album_id)).Nodup := by
  have e : (releasedAlbumSongs s.album_songs_requests_pending_).map
      (fun r => r.album.album_id) = s.album_songs_requests_pending_.map (fun kv => kv.1) := by
    unfold releasedAlbumSongs
    rw [List.map_map]
    exact List.map_congr_left (fun kv hkv => h.2 kv hkv)
  rw [e]
  exact h.1

theorem ParentsDrained.stays {W : List Field} {s t : State} (h : ParentsDrained s)
    (hag : AgreeOff W s t)
    (hW : ∀ f ∈ [Field.artists_requests_queue_, Field.artists_requests_active_,
      Field.albums_requests_queue_, Field.albums_requests_active_,
      Field.artist_albums_requests_queue_, Field.artist_albums_requests_active_], f ∉ W) :
    ParentsDrained t := by
  unfold ParentsDrained
  rw [hag.artists_requests_queue_ (hW _ (by decide)),
    hag.artists_requests_active_ (hW _ (by decide)),
    hag.albums_requests_queue_ (hW _ (by decide)),
    hag.albums_requests_active_ (hW _ (by decide)),
    hag.artist_albums_requests_queue_ (hW _ (by decide)),
    hag.artist_albums_requests_active_ (hW _ (by decide))]
  exact h

theorem AlbumsFinishCheck_release (env : Env) (z : State) (a : Artist) (l o n r : Int)
    (h : AlbumsPendingOK z) :
    AlbumsPendingOK (AlbumsFinishCheck env z a l o n r) ∧
    ∃ rel, (AlbumsFinishCheck env z a l o n r).album_songs_requests_queue_ =
        z.album_songs_requests_queue_ ++ rel ∧
      (rel.map (fun r => r.album.album_id)).Nodup ∧
      (∀ r ∈ rel, r.offset = 0) ∧
      (rel ≠ [] → ParentsDrained (AlbumsFinishCheck env z a l o n r)) := by
  unfold AlbumsFinishCheck
  split
  · exact ⟨h, [], by simp, List.nodup_nil, by simp, fun hne => absurd rfl hne⟩
  · have hF := agree_FinishCheck (W := fpGetAlbumCovers ++ fpFinishCheck) (by decide)
      (agree_GetAlbumCoversCheck (by decide)
        (AgreeOff.unchanged _ (AlbumsRelease (AlbumsNextPage env z a l o n r))) env)
    have hN := agree_AlbumsNextPage (W := fpAddAlbumsRequest ++ fpAddArtistAlbumsRequest)
      (fun _ h => h) (AgreeOff.unchanged _ z) env a l o n r
    have hPN : AlbumsPendingOK (AlbumsNextPage env z a l o n r) := by
      unfold AlbumsPendingOK
      rw [hN.album_songs_requests_pending_ (by decide)]
      exact h
    unfold AlbumsPendingOK
    rw [hF.album_songs_requests_pending_ (by decide),
      hF.album_songs_requests_queue_ (by decide)]
    by_cases hc : ParentsDrained (AlbumsNextPage env z a l o n r)
    · obtain ⟨q1, q2⟩ := (AlbumsRelease_queue (AlbumsNextPage env z a l o n r)).1 hc
      have hR := agree_AlbumsRelease
        (W := fpAddAlbumSongsRequest ++ [Field.album_songs_requests_pending_, Field.emitted])
        (fun _ h => h) (AgreeOff.unchanged _ (AlbumsNextPage env z a l o n r))
      rw [q2]
      refine ⟨⟨List.nodup_nil, by simp⟩,
        releasedAlbumSongs (AlbumsNextPage env z a l o n r).album_songs_requests_pending_,
        ?_, releasedAlbumSongs_nodup _ hPN, ?_, fun _ => ?_⟩
      · rw [q1, hN.album_songs_requests_queue_ (by decide)]
      · intro x hx
        unfold releasedAlbumSongs at hx
        obtain ⟨kv, _, hkv⟩ := List.mem_map.mp hx
        rw [← hkv]
      · exact (hc.stays hR (by decide)).stays hF (by decide)
    · rw [(AlbumsRelease_queue (AlbumsNextPage env z a l o n r)).2 hc]
      exact ⟨hPN, [], by rw [List.append_nil, hN.album_songs_requests_queue_ (by decide)],
        List.nodup_nil, by simp, fun hne => absurd rfl hne⟩

theorem quiet_AlbumsPendingOK : Quiet fpAlbumsQuiet AlbumsPendingOK := by
  intro a b hab h
  unfold AlbumsPendingOK
  rw [hab.album_songs_requests_pending_ (by decide)]
  exact h

/-- What a reply to an albums or artist-albums request does to the album-songs queue: it
appends nothing, or it appends one request at offset 0 for each pending album, no album id
twice, and then the artists, albums and artist-albums stages are drained. -/
theorem AlbumsReceived_release (env : Env) (x : State) (hp : AlbumsPendingOK x)
    (reply : QNetworkReply) (a : Artist) (l o : Int) :
    AlbumsPendingOK (AlbumsReceived env x reply a l o) ∧
    ∃ rel, (AlbumsReceived env x reply a l o).album_songs_requests_queue_ =
        x.album_songs_requests_queue_ ++ rel ∧
      (rel.map (fun r => r.album.album_id)).Nodup ∧
      (∀ r ∈ rel, r.offset = 0) ∧
      (rel ≠ [] → ParentsDrained (AlbumsReceived env x reply a l o)) := by
  unfold AlbumsReceived
  split
  · exact ⟨hp, [], by simp, List.nodup_nil, by simp, fun hne => absurd rfl hne⟩
  · have hq : AgreeOff (fpError ++ [Field.replies_, Field.connections]) x
        (GetReplyData (takeReply x reply.handle) reply) :=
      agree_GetReplyData (by decide)
        (agree_takeReply (by decide) (AgreeOff.unchanged _ x) _) reply
    have hpy : AlbumsPendingOK (GetReplyData (takeReply x reply.handle) reply) := by
      unfold AlbumsPendingOK
      rw [hq.album_songs_requests_pending_ (by decide)]
      exact hp
    obtain ⟨z, l1, o1, n1, r1, hz, hu⟩ := AlbumsSettled_factor env
      (Steady.of_quiet quiet_AlbumsPendingOK (by decide) (by decide)) a
      (AlbumsPendingOK_item a) (Before.start hpy) reply l o
    obtain ⟨h1, rel, h2, h3, h4, h5⟩ := AlbumsFinishCheck_release env z a l1 o1 n1 r1 hz.holds
    rw [hz.agree.album_songs_requests_queue_ (by decide),
      hq.album_songs_requests_queue_ (by decide)] at h2
    rcases hu with hu | ⟨e, hu⟩
    · rw [hu]
      exact ⟨h1, rel, h2, h3, h4, h5⟩
    · rw [hu]
      have hE := agree_Error (W := fpError) (fun _ h => h)
        (AgreeOff.unchanged _ (AlbumsFinishCheck env z a l1 o1 n1 r1)) e
      refine ⟨?_, rel, ?_, h3, h4, fun hne => (h5 hne).stays hE (by decide)⟩
      · unfold AlbumsPendingOK
        rw [hE.album_songs_requests_pending_ (by decide)]
        exact h1
      · rw [hE.album_songs_requests_queue_ (by decide)]
        exact h2

theorem dispatch_album_songs_queue (env : Env) (s : State) (reply : QNetworkReply)
    (slot : Callback) (h2 : ∀ l o, slot ≠ Callback.Albums l o)
    (h3 : ∀ a o, slot ≠ Callback.ArtistAlbums a o) :
    ∃ T, RePaged AlbumSongsRequest.offset s.album_songs_requests_queue_
      (dispatch env s reply slot).album_songs_requests_queue_ T := by
  cases slot with
  | Artists l o =>
    exact ⟨0, Or.inl ((agree_ArtistsReplyReceived (W := fpArtistsReplyReceived) (fun _ h => h)
      (AgreeOff.unchanged _ s) env reply l o).album_songs_requests_queue_ (by decide))⟩
  | Albums l o => exact absurd rfl (h2 l o)
  | ArtistAlbums a o => exact absurd rfl (h3 a o)
  | Songs l o => exact ⟨_, (SongsReceived_repaged env (songsSettled s) reply _ _ l o).2⟩
  | AlbumSongs a b o =>
    have e : (albumSongsProgress (albumSongsSettled s) o).album_songs_requests_queue_ =
        s.album_songs_requests_queue_ :=
      (agree_albumSongsProgress (W := [Field.emitted]) (fun _ h => h)
        (AgreeOff.unchanged _ (albumSongsSettled s)) o).album_songs_requests_queue_ (by decide)
    have := (SongsReceived_repaged env (albumSongsProgress (albumSongsSettled s) o) reply
      a b 0 o).2
    rw [e] at this
    exact ⟨_, this⟩
  | AlbumCover url filename =>
    exact ⟨0, Or.inl ((agree_AlbumCoverReceived (W := fpAlbumCoverReceived) (fun _ h => h)
      (AgreeOff.unchanged _ s) env reply url filename).album_songs_requests_queue_
        (by decide))⟩

theorem dispatch_album_pending (env : Env) (s : State) (reply : QNetworkReply)
    (slot : Callback) (h2 : ∀ l o, slot ≠ Callback.Albums l o)
    (h3 : ∀ a o, slot ≠ Callback.ArtistAlbums a o) :
    (dispatch env s reply slot).album_songs_requests_pending_ =
      s.album_songs_requests_pending_ := by
  cases slot with
  | Artists l o =>
    exact (agree_ArtistsReplyReceived (W := fpArtistsReplyReceived) (fun _ h => h)
      (AgreeOff.unchanged _ s) env reply l o).album_songs_requests_pending_ (by decide)
  | Albums l o => exact absurd rfl (h2 l o)
  | ArtistAlbums a o => exact absurd rfl (h3 a o)
  | Songs l o =>
    exact (agree_SongsReceived (W := fpSongsReceived ++ [Field.songs_requests_active_,
      Field.songs_requests_received_]) (by decide)
      (agree_songsSettled (by decide) (AgreeOff.unchanged _ s)) env reply _ _ l
      o).album_songs_requests_pending_ (by decide)
  | AlbumSongs a b o =>
    exact (agree_SongsReceived (W := fpSongsReceived ++ [Field.album_songs_requests_active_,
      Field.album_songs_requests_received_]) (by decide)
      (agree_albumSongsProgress (by decide)
        (agree_albumSongsSettled (by decide) (AgreeOff.unchanged _ s)) o) env reply a b 0
      o).album_songs_requests_pending_ (by decide)
  | AlbumCover url filename =>
    exact (agree_AlbumCoverReceived (W := fpAlbumCoverReceived) (fun _ h => h)
      (AgreeOff.unchanged _ s) env reply url filename).album_songs_requests_pending_
        (by decide)

/-- What one delivery does to the album-songs requests at offset 0: the ones it queues name no
album twice; when it queues one, it leaves the artists, albums and artist-albums stages
drained; and once these are drained they stay so and no delivery queues one. -/
theorem albumSongs_step (env : Env) {s : State} (hs : Sound s) (hp : AlbumsPendingOK s)
    (input : Input) :
    AlbumsPendingOK (step env s input) ∧
    ((albumSongsQueuedBy env s input).map (fun r => r.album.album_id)).Nodup ∧
    (albumSongsQueuedBy env s input ≠ [] → ParentsDrained (step env s input)) ∧
    (ParentsDrained s →
      albumSongsQueuedBy env s input = [] ∧ ParentsDrained (step env s input)) := by
  have hsame : ∀ u : State, u.album_songs_requests_pending_ =
        s.album_songs_requests_pending_ →
      (ParentsDrained s → ParentsDrained u) →
      (u.album_songs_requests_queue_.drop s.album_songs_requests_queue_.length).filter
        (fun r => r.offset == 0) = [] →
      AlbumsPendingOK u ∧
      (((u.album_songs_requests_queue_.drop s.album_songs_requests_queue_.length).filter
        (fun r => r.offset == 0)).map (fun r => r.album.album_id)).Nodup ∧
      ((u.album_songs_requests_queue_.drop s.album_songs_requests_queue_.length).filter
          (fun r => r.offset == 0) ≠ [] → ParentsDrained u) ∧
      (ParentsDrained s →
        (u.album_songs_requests_queue_.drop s.album_songs_requests_queue_.length).filter
          (fun r => r.offset == 0) = [] ∧ ParentsDrained u) := by
    intro u e1 e2 e4
    rw [e4]
    refine ⟨?_, List.nodup_nil, fun hne => absurd rfl hne, fun hd => ⟨rfl, e2 hd⟩⟩
    unfold AlbumsPendingOK
    rw [e1]
    exact hp
  unfold albumSongsQueuedBy
  cases input with
  | Tick =>
    simp only [step]
    split
    · have hF := agree_FlushRequests (W := fpFlushRequests) (fun _ h => h)
        (AgreeOff.unchanged _ s)
      refine hsame _ (hF.album_songs_requests_pending_ (by decide)) ?_ ?_
      · intro hd
        obtain ⟨k1, k2, k3, _⟩ := FlushRequests_keeps_empty s
        obtain ⟨a1, a2, a3⟩ := FlushRequests_keeps_idle s
        unfold ParentsDrained
        rw [a1 hd.1, a2 hd.2.2.1, a3 hd.2.2.2.2.1]
        exact ⟨k1 hd.1, hd.2.1, k2 hd.2.2.1, hd.2.2.2.1, k3 hd.2.2.2.2.1, hd.2.2.2.2.2⟩
      · rw [List.drop_eq_nil_of_le (FlushRequests_child_queues s).2]
        rfl
    · exact hsame s rfl id (by rw [List.drop_length]; rfl)
  | Finished reply =>
    simp only [step]
    split
    · rename_i c hc
      have hm := List.mem_of_find?_eq_some hc
      have hpos := hs.wired.active_pos c hm
      have hrel : ∀ (x : State) (a : Artist) (l o : Int),
          x.album_songs_requests_pending_ = s.album_songs_requests_pending_ →
          x.album_songs_requests_queue_ = s.album_songs_requests_queue_ →
          (ParentsDrained s → False) →
          AlbumsPendingOK (AlbumsReceived env x reply a l o) ∧
          ((((AlbumsReceived env x reply a l o).album_songs_requests_queue_.drop
            s.album_songs_requests_queue_.length).filter
              (fun r => r.offset == 0)).map (fun r => r.album.album_id)).Nodup ∧
          (((AlbumsReceived env x reply a l o).album_songs_requests_queue_.drop
            s.album_songs_requests_queue_.length).filter (fun r => r.offset == 0) ≠ [] →
            ParentsDrained (AlbumsReceived env x reply a l o)) ∧
          (ParentsDrained s →
            ((AlbumsReceived env x reply a l o).album_songs_requests_queue_.drop
              s.album_songs_requests_queue_.length).filter (fun r => r.offset == 0) = [] ∧
            ParentsDrained (AlbumsReceived env x reply a l o)) := by
        intro x a l o e1 e2 hnd
        have hpx : AlbumsPendingOK x := by
          unfold AlbumsPendingOK
          rw [e1]
          exact hp
        obtain ⟨h1, rel, h2, h3, h4, h5⟩ := AlbumsReceived_release env x hpx reply a l o
        have hq : ((AlbumsReceived env x reply a l o).album_songs_requests_queue_.drop
            s.album_songs_requests_queue_.length).filter (fun r => r.offset == 0) = rel := by
          rw [h2, e2, List.drop_left]
          exact List.filter_eq_self.mpr (fun r hr => by simp [h4 r hr])
        rw [hq]
        exact ⟨h1, h3, h5, fun hd => absurd hd hnd⟩
      cases hk : c.2 with
      | Albums l o =>
        rw [hk] at hpos
        exact hrel (albumsSettled s) Artist.empty l o rfl rfl
          (fun hd => absurd hd.2.2.2.1 (not_le.mpr hpos))
      | ArtistAlbums a o =>
        rw [hk] at hpos
        exact hrel (artistAlbumsProgress (artistAlbumsSettled s)) a 0 o rfl rfl
          (fun hd => absurd hd.2.2.2.2.2 (not_le.mpr hpos))
      | Artists l o =>
        rw [hk] at hpos
        obtain ⟨T, hT⟩ := dispatch_album_songs_queue env s reply (Callback.Artists l o)
          (fun _ _ => Callback.noConfusion) (fun _ _ => Callback.noConfusion)
        exact hsame _ (dispatch_album_pending env s reply (Callback.Artists l o)
            (fun _ _ => Callback.noConfusion) (fun _ _ => Callback.noConfusion))
          (fun hd => absurd hd.2.1 (not_le.mpr hpos)) (filter_offset_zero_drop _ _ _ T hT)
      | Songs l o =>
        obtain ⟨T, hT⟩ := dispatch_album_songs_queue env s reply (Callback.Songs l o)
          (fun _ _ => Callback.noConfusion) (fun _ _ => Callback.noConfusion)
        exact hsame _ (dispatch_album_pending env s reply (Callback.Songs l o)
            (fun _ _ => Callback.noConfusion) (fun _ _ => Callback.noConfusion))
          (fun hd => hd.stays (dispatch_agree_belowAlbums env s reply (Callback.Songs l o)
            (fun _ _ => Callback.noConfusion) (fun _ _ => Callback.noConfusion)
            (fun _ _ => Callback.noConfusion)) (by decide))
          (filter_offset_zero_drop _ _ _ T hT)
      | AlbumSongs a b o =>
        obtain ⟨T, hT⟩ := dispatch_album_songs_queue env s reply (Callback.AlbumSongs a b o)
          (fun _ _ => Callback.noConfusion) (fun _ _ => Callback.noConfusion)
        exact hsame _ (dispatch_album_pending env s reply (Callback.AlbumSongs a b o)
            (fun _ _ => Callback.noConfusion) (fun _ _ => Callback.noConfusion))
          (fun hd => hd.stays (dispatch_agree_belowAlbums env s reply
            (Callback.AlbumSongs a b o)
            (fun _ _ => Callback.noConfusion) (fun _ _ => Callback.noConfusion)
            (fun _ _ => Callback.noConfusion)) (by decide))
          (filter_offset_zero_drop _ _ _ T hT)
      | AlbumCover url filename =>
        obtain ⟨T, hT⟩ := dispatch_album_songs_queue env s reply
          (Callback.AlbumCover url filename)
          (fun _ _ => Callback.noConfusion) (fun _ _ => Callback.noConfusion)
        exact hsame _ (dispatch_album_pending env s reply (Callback.AlbumCover url filename)
            (fun _ _ => Callback.noConfusion) (fun _ _ => Callback.noConfusion))
          (fun hd => hd.stays (dispatch_agree_belowAlbums env s reply
            (Callback.AlbumCover url filename)
            (fun _ _ => Callback.noConfusion) (fun _ _ => Callback.noConfusion)
            (fun _ _ => Callback.noConfusion)) (by decide))
          (filter_offset_zero_drop _ _ _ T hT)
    · exact hsame s rfl id (by rw [List.drop_length]; rfl)

theorem albumSongsLog_nodup (env : Env) (inputs : List Input) :
    ∀ s, Sound s → AlbumsPendingOK s →
      ((albumSongsLog env s inputs).map (fun r => r.album.album_id)).Nodup ∧
      (ParentsDrained s → albumSongsLog env s inputs = []) ∧
      AlbumsPendingOK (inputs.foldl (step env) s) := by
  induction inputs with
  | nil => intro s _ hp; exact ⟨List.nodup_nil, fun _ => rfl, hp⟩
  | cons input rest ih =>
    intro s hs hp
    obtain ⟨h1, h2, h3, h4⟩ := albumSongs_step env hs hp input
    obtain ⟨i1, i2, i3⟩ := ih _ (Sound_step env hs input) h1
    simp only [albumSongsLog, List.foldl_cons]
    refine ⟨?_, fun hd => ?_, i3⟩
    · by_cases hq : albumSongsQueuedBy env s input = []
      · rw [hq, List.nil_append]
        exact i1
      · rw [i2 (h3 hq), List.append_nil]
        exact h2
    · obtain ⟨q1, q2⟩ := h4 hd
      rw [q1, i2 q2]
      rfl

/-- C19: over a whole run the album-songs requests queued at offset 0 name no album id twice,
whether the albums come from the direct listing or from the artist-albums sub-fetches in any
order; in every state the run reaches the pending set holds no id twice; the item loop leaves
the pending set as it is or appends one entry whose id was not pending; and when the artists,
albums and artist-albums stages are drained, `AlbumsRelease` queues exactly one request at
offset 0 for each pending entry and empties the pending set. -/
theorem album_songs_requested_once (env : Env) (type : QueryType) (inputs : List Input) :
    ((albumSongsLog env (Process env (State.init type)) inputs).map
      (fun r => r.album.album_id)).Nodup ∧
    ((run env type inputs).album_songs_requests_pending_.map (fun kv => kv.1)).Nodup ∧
    (∀ (a : Artist) (s : State) (v : QJsonValue), ∃ added,
      (AlbumsItem a s v).album_songs_requests_pending_ =
        s.album_songs_requests_pending_ ++ added ∧
      added.length ≤ 1 ∧
      ∀ kv ∈ added, mapContains s.album_songs_requests_pending_ kv.1 = false ∧
        kv.2.album.album_id = kv.1) ∧
    (∀ s : State,
      s.artists_requests_queue_ = [] ∧ s.artists_requests_active_ ≤ 0 ∧
      s.albums_requests_queue_ = [] ∧ s.albums_requests_active_ ≤ 0 ∧
      s.artist_albums_requests_queue_ = [] ∧ s.artist_albums_requests_active_ ≤ 0 →
      (AlbumsRelease s).album_songs_requests_queue_ =
        s.album_songs_requests_queue_ ++
          s.album_songs_requests_pending_.map
            (fun kv => { artist := kv.2.artist, album := kv.2.album, offset := 0,
                         limit := 0 }) ∧
      (AlbumsRelease s).album_songs_requests_pending_ = []) := by
  have h0 : AlbumsPendingOK (Process env (State.init type)) := by
    have e : (Process env (State.init type)).album_songs_requests_pending_ = [] := by
      cases type <;> rfl
    unfold AlbumsPendingOK
    rw [e]
    exact ⟨List.nodup_nil, by simp⟩
  obtain ⟨h1, _, h3⟩ := albumSongsLog_nodup env inputs _ (Sound_Process env type) h0
  exact ⟨h1, h3.1, AlbumsItem_pending, fun s hd => (AlbumsRelease_queue s).1 hd⟩

theorem artist_albums_requested_once_witness :
    (artistAlbumsLog sampleEnv (Process sampleEnv (State.init QueryType_Artists))
      repeatedArtistInputs).map (fun r => (r.artist.artist_id, r.offset)) =
      [("a", 0), ("b", 0), ("c", 0)] ∧
    ((artistAlbumsLog sampleEnv (Process sampleEnv (State.init QueryType_Artists))
      repeatedArtistInputs).map (fun r => r.artist.artist_id)).Nodup :=
  ⟨by decide,
    (artist_albums_requested_once sampleEnv QueryType_Artists repeatedArtistInputs).1⟩

theorem album_songs_requested_once_witness :
    (albumSongsLog sampleEnv (Process sampleEnv (State.init QueryType_Artists))
      sharedAlbumInputs).map (fun r => (r.album.album_id, r.artist.artist_id, r.offset)) =
      [("m", "y", 0), ("n", "y", 0), ("p", "x", 0)] ∧
    ((albumSongsLog sampleEnv (Process sampleEnv (State.init QueryType_Artists))
      sharedAlbumInputs).map (fun r => r.album.album_id)).Nodup :=
  ⟨by decide,
    (album_songs_requested_once sampleEnv QueryType_Artists sharedAlbumInputs).1⟩

/-! ## The books of the cover stage -/

theorem active_of_agree {W : List Field} {s t : State} (hag : AgreeOff W s t)
    (hW : ∀ f ∈ [Field.artists_requests_active_, Field.albums_requests_active_,
      Field.songs_requests_active_, Field.artist_albums_requests_active_,
      Field.album_songs_requests_active_, Field.album_covers_requests_active_], f ∉ W)
    (k : Stage) : t.active k = s.active k := by
  cases k
  · exact hag.artists_requests_active_ (hW _ (by decide))
  · exact hag.albums_requests_active_ (hW _ (by decide))
  · exact hag.songs_requests_active_ (hW _ (by decide))
  · exact hag.artist_albums_requests_active_ (hW _ (by decide))
  · exact hag.album_songs_requests_active_ (hW _ (by decide))
  · exact hag.album_covers_requests_active_ (hW _ (by decide))

theorem Drained.lower_drained {W : List Field} {s t : State} (h : Drained s) (hag : AgreeOff W s t)
    (hW : ∀ f ∈ [Field.artists_requests_queue_, Field.albums_requests_queue_,
      Field.songs_requests_queue_, Field.artist_albums_requests_queue_,
      Field.album_songs_requests_queue_, Field.album_cover_requests_queue_], f ∉ W)
    (ha : ∀ k, t.active k ≤ s.active k) : Drained t := by
  obtain ⟨⟨q1, q2, q3, q4, q5, q6⟩, a⟩ := h
  refine ⟨⟨?_, ?_, ?_, ?_, ?_, ?_⟩, fun k => le_trans (ha k) (a k)⟩
  · rw [hag.artists_requests_queue_ (hW _ (by decide))]; exact q1
  · rw [hag.albums_requests_queue_ (hW _ (by decide))]; exact q2
  · rw [hag.songs_requests_queue_ (hW _ (by decide))]; exact q3
  · rw [hag.artist_albums_requests_queue_ (hW _ (by decide))]; exact q4
  · rw [hag.album_songs_requests_queue_ (hW _ (by decide))]; exact q5
  · rw [hag.album_cover_requests_queue_ (hW _ (by decide))]; exact q6

theorem Drained.kept_drained {W : List Field} {s t : State} (h : Drained s) (hag : AgreeOff W s t)
    (hW : ∀ f ∈ fpDrained, f ∉ W) : Drained t :=
  h.lower_drained hag (fun f hf => hW f (by revert f; decide))
    (fun k => le_of_eq (active_of_agree hag (fun f hf => hW f (by revert f; decide)) k))

theorem Drained.of_quiescent {s : State} (h : Quiescent s) : Drained s := by
  obtain ⟨q1, q2, q3, q4, q5, q6, _, _, _, a1, a2, a3, a4, a5, a6⟩ := h
  refine ⟨⟨q1, q2, q3, q4, q5, q6⟩, fun k => ?_⟩
  cases k
  · exact a1
  · exact a2
  · exact a3
  · exact a4
  · exact a5
  · exact a6

theorem quiescent_iff (s : State) : Quiescent s ↔ ApiDone s ∧ CoverIdle s := by
  unfold Quiescent ApiDone CoverIdle
  constructor
  · rintro ⟨q1, q2, q3, q4, q5, q6, p1, p2, r, a1, a2, a3, a4, a5, a6⟩
    exact ⟨⟨q1, q2, q3, q4, q5, p1, p2, a1, a2, a3, a4, a5⟩, q6, r, a6⟩
  · rintro ⟨⟨q1, q2, q3, q4, q5, p1, p2, a1, a2, a3, a4, a5⟩, q6, r, a6⟩
    exact ⟨q1, q2, q3, q4, q5, q6, p1, p2, r, a1, a2, a3, a4, a5, a6⟩

theorem ApiDone.kept_done {W : List Field} {s t : State} (h : ApiDone s) (hag : AgreeOff W s t)
    (hW : ∀ f ∈ fpApiDone, f ∉ W) : ApiDone t := by
  obtain ⟨q1, q2, q3, q4, q5, p1, p2, a1, a2, a3, a4, a5⟩ := h
  refine ⟨?_, ?_, ?_, ?_, ?_, ?_, ?_, ?_, ?_, ?_, ?_, ?_⟩
  · rw [hag.artists_requests_queue_ (hW _ (by decide))]; exact q1
  · rw [hag.albums_requests_queue_ (hW _ (by decide))]; exact q2
  · rw [hag.songs_requests_queue_ (hW _ (by decide))]; exact q3
  · rw [hag.artist_albums_requests_queue_ (hW _ (by decide))]; exact q4
  · rw [hag.album_songs_requests_queue_ (hW _ (by decide))]; exact q5
  · rw [hag.artist_albums_requests_pending_ (hW _ (by decide))]; exact p1
  · rw [hag.album_songs_requests_pending_ (hW _ (by decide))]; exact p2
  · rw [hag.artists_requests_active_ (hW _ (by decide))]; exact a1
  · rw [hag.albums_requests_active_ (hW _ (by decide))]; exact a2
  · rw [hag.songs_requests_active_ (hW _ (by decide))]; exact a3
  · rw [hag.artist_albums_requests_active_ (hW _ (by decide))]; exact a4
  · rw [hag.album_songs_requests_active_ (hW _ (by decide))]; exact a5

theorem CoverFresh.carry_fresh {W : List Field} {s t : State} (h : CoverFresh s)
    (hag : AgreeOff W s t) (hW : ∀ f ∈ fpCoverBooks, f ∉ W)
    (hc : ConnGrow (fun slot => slot.coverUrl = none) s t) : CoverFresh t := by
  refine ⟨?_, ?_, ?_, ?_, fun c hcm => (hc c hcm).elim (h.conns c) id⟩
  · rw [hag.album_cover_requests_queue_ (hW _ (by decide))]; exact h.queue
  · rw [hag.album_covers_requests_sent_ (hW _ (by decide))]; exact h.sent
  · rw [hag.album_covers_requests_total_ (hW _ (by decide))]; exact h.total
  · rw [hag.album_covers_requests_active_ (hW _ (by decide))]; exact h.active

theorem CoverFresh.kept_fresh {W : List Field} {s t : State} (h : CoverFresh s)
    (hag : AgreeOff W s t) (hW : ∀ f ∈ Field.connections :: fpCoverBooks, f ∉ W) :
    CoverFresh t :=
  h.carry_fresh hag (fun f hf => hW f (List.mem_cons_of_mem _ hf))
    (fun c hcm => Or.inl (by rw [← hag.connections (hW _ (by decide))]; exact hcm))

theorem CoversBegun.kept_begun {W : List Field} {s t : State} (h : CoversBegun s)
    (hag : AgreeOff W s t) (hW : ∀ f ∈ Field.connections :: fpCoverBooks ++ fpApiDone, f ∉ W) :
    CoversBegun t := by
  have e1 := hag.album_cover_requests_queue_ (hW _ (by decide))
  have e2 := hag.album_covers_requests_sent_ (hW _ (by decide))
  have e3 := hag.album_covers_requests_total_ (hW _ (by decide))
  refine ⟨⟨?_, fun u => ?_, ?_⟩, h.api.kept_done hag (fun f hf => hW f (by revert f; decide)), ?_, ?_⟩
  · rw [e1]; exact h.queued.nodup
  · rw [e1, e2]; exact h.queued.registered u
  · rw [e1, e3]; exact h.queued.total
  · rw [hag.album_covers_requests_active_ (hW _ (by decide))]; exact h.active
  · rw [hag.connections (hW _ (by decide))]; exact h.conns

theorem FinishedIdle.kept_idle {W : List Field} {s t : State} (h : FinishedIdle s)
    (hag : AgreeOff W s t) (hW : ∀ f ∈ Field.finished_ :: fpDrained, f ∉ W) : FinishedIdle t :=
  fun hf => (h ((hag.finished_ (hW _ (by decide))).symm.trans hf)).kept_drained hag
    (fun f hf => hW f (List.mem_cons_of_mem _ hf))

theorem FinishedIdle_FinishCheck (s : State) (h : FinishedIdle s) :
    FinishedIdle (FinishCheck s) := by
  have ag := agree_FinishCheck (W := fpFinishCheck) (fun _ h => h) (AgreeOff.unchanged _ s)
  intro hf
  by_cases h1 : s.finished_ = true
  · exact (h h1).kept_drained ag (by decide)
  · by_cases h2 : Quiescent s
    · exact (Drained.of_quiescent h2).kept_drained ag (by decide)
    · rw [FinishCheck_of_not_quiescent s h2] at hf
      exact absurd hf h1

theorem FinishedIdle_Error (s : State) (e : String) (h : FinishedIdle s) :
    FinishedIdle (Error s e) := by
  unfold Error
  apply FinishedIdle_FinishCheck
  split
  · exact h
  · exact h

theorem FinishedIdle_ArtistsItem (s : State) (v : QJsonValue) (h : FinishedIdle s) :
    FinishedIdle (ArtistsItem s v) := by
  unfold ArtistsItem ArtistsItemObject
  repeat' first
    | exact h
    | exact FinishedIdle_Error _ _ h
    | split

theorem FinishedIdle_AlbumsItem (a : Artist) (s : State) (v : QJsonValue) (h : FinishedIdle s) :
    FinishedIdle (AlbumsItem a s v) := by
  unfold AlbumsItem AlbumsItemArtist
  repeat' first
    | exact h
    | exact FinishedIdle_Error _ _ h
    | split

theorem steady_FinishedIdle {V : List Field} (hV : ∀ f ∈ Field.finished_ :: fpDrained, f ∉ V) :
    Steady V FinishedIdle :=
  ⟨fun _ _ hag h => h.kept_idle hag hV, fun s e h => FinishedIdle_Error s e h⟩

theorem FinishedIdle.lower_idle {W : List Field} {s t : State} (h : FinishedIdle s)
    (hag : AgreeOff W s t)
    (hW : ∀ f ∈ [Field.finished_, Field.artists_requests_queue_, Field.albums_requests_queue_,
      Field.songs_requests_queue_, Field.artist_albums_requests_queue_,
      Field.album_songs_requests_queue_, Field.album_cover_requests_queue_], f ∉ W)
    (ha : ∀ k, t.active k ≤ s.active k) : FinishedIdle t :=
  fun hf => (h ((hag.finished_ (hW _ (by decide))).symm.trans hf)).lower_drained hag
    (fun f hf => hW f (by revert f; decide)) ha

theorem FinishedIdle.of_unfinished {s : State} (h : s.finished_ = false) : FinishedIdle s :=
  fun hf => absurd (h.symm.trans hf) (by decide)

theorem FinishedIdle_foldl_Error (l : List String) :
    ∀ s, FinishedIdle s → FinishedIdle (l.foldl Error s) := by
  induction l with
  | nil => exact fun s h => h
  | cons e l ih => exact fun s h => ih _ (FinishedIdle_Error s e h)

theorem coverUrls_of_fresh {s : State} (h : CoverFresh s) : coverUrls s = [] := by
  unfold coverUrls
  rw [h.queue, List.filterMap_eq_nil_iff.mpr h.conns]
  rfl

theorem Booked.of_fresh {s : State} (hf : FinishedIdle s) (h : CoverFresh s) : Booked s := by
  have hi : CoverIdle s := ⟨h.queue, h.sent, h.active⟩
  refine ⟨hf, fun hn => absurd hi hn, ?_, fun u => ?_, fun hn => absurd h.total hn⟩
  · rw [coverUrls_of_fresh h]
    exact List.nodup_nil
  · rw [coverUrls_of_fresh h, h.sent]
    simp [mapContains]

theorem coverUrls_of_begun {s : State} (h : CoversBegun s) :
    coverUrls s = s.album_cover_requests_queue_.map (fun r => r.url) := by
  unfold coverUrls
  rw [List.filterMap_eq_nil_iff.mpr h.conns, List.append_nil]

theorem Booked.of_begun {s : State} (hf : FinishedIdle s) (h : CoversBegun s) : Booked s := by
  refine ⟨hf, fun _ => h.api, ?_, fun u => ?_, fun hn => Or.inl fun hi => hn ?_⟩
  · rw [coverUrls_of_begun h]
    exact h.queued.nodup
  · rw [coverUrls_of_begun h]
    exact (h.queued.registered u).symm
  · rw [h.queued.total, hi.1]
    rfl

theorem Booked.of_open {s : State} (h : CoverOpen s) : Booked s :=
  h.2.elim (Booked.of_fresh h.1) (Booked.of_begun h.1)

theorem CoverOpen.kept_open {W : List Field} {s t : State} (h : CoverOpen s) (hf : FinishedIdle t)
    (hag : AgreeOff W s t) (hW : ∀ f ∈ Field.connections :: fpCoverBooks ++ fpApiDone, f ∉ W) :
    CoverOpen t :=
  ⟨hf, h.2.imp (fun c => c.kept_fresh hag (fun f hf => hW f (by revert f; decide)))
    (fun c => c.kept_begun hag hW)⟩

theorem CoverOpen_FinishCheck {s : State} (h : CoverOpen s) : CoverOpen (FinishCheck s) :=
  h.kept_open (FinishedIdle_FinishCheck s h.1)
    (agree_FinishCheck (W := fpFinishCheck) (fun _ h => h) (AgreeOff.unchanged _ s)) (by decide)

theorem CoverOpen_Error {s : State} (h : CoverOpen s) (e : String) : CoverOpen (Error s e) :=
  h.kept_open (FinishedIdle_Error s e h.1)
    (agree_Error (W := fpError) (fun _ h => h) (AgreeOff.unchanged _ s) e) (by decide)

theorem CoverFresh.checked (env : Env) {s : State} (h : CoverFresh s) :
    CoverFresh (GetAlbumCoversCheck env s) ∨ CoversBegun (GetAlbumCoversCheck env s) := by
  unfold GetAlbumCoversCheck
  split
  · rename_i hg
    have ag := agree_GetAlbumCovers (W := fpGetAlbumCovers) (fun _ h => h)
      (AgreeOff.unchanged _ s) env
    refine Or.inr ⟨CoversQueued_GetAlbumCovers env 0 s ⟨?_, fun u => ?_, ?_⟩,
      ((quiescent_iff s).mp hg.2.2.2).1.kept_done ag (by decide), ?_, ?_⟩
    · rw [h.queue]
      exact List.nodup_nil
    · rw [h.queue, h.sent]
      simp [mapContains]
    · rw [h.queue, h.total]
      rfl
    · rw [ag.album_covers_requests_active_ (by decide)]
      exact h.active
    · rw [ag.connections (by decide)]
      exact h.conns
  · exact Or.inl h

theorem CoverOpen_ArtistsFinishCheck (env : Env) {z : State} (hf : FinishedIdle z)
    (h : CoverFresh z) (l o r : Int) : CoverOpen (ArtistsFinishCheck env z l o r) := by
  unfold ArtistsFinishCheck
  split
  · exact ⟨hf, Or.inl h⟩
  · rename_i hn
    have ag : AgreeOff (fpAddArtistsRequest ++ fpAddArtistAlbumsRequest ++
        [Field.artist_albums_requests_pending_, Field.emitted]) z
        (ArtistsRelease (ArtistsNextPage env z l o r)) :=
      agree_ArtistsRelease (by decide)
        (agree_ArtistsNextPage (by decide) (AgreeOff.unchanged _ z) env l o r)
    exact CoverOpen_FinishCheck
      ⟨FinishedIdle.of_unfinished ((ag.finished_ (by decide)).trans (by simpa using hn)),
        Or.inl (h.kept_fresh ag (by decide))⟩

theorem CoverOpen_AlbumsFinishCheck (env : Env) {z : State} (hf : FinishedIdle z)
    (h : CoverFresh z) (a : Artist) (l o n r : Int) :
    CoverOpen (AlbumsFinishCheck env z a l o n r) := by
  unfold AlbumsFinishCheck
  split
  · exact ⟨hf, Or.inl h⟩
  · rename_i hn
    have ag : AgreeOff (fpAddAlbumsRequest ++ fpAddArtistAlbumsRequest ++ fpAddAlbumSongsRequest ++
        [Field.album_songs_requests_pending_, Field.emitted]) z
        (AlbumsRelease (AlbumsNextPage env z a l o n r)) :=
      agree_AlbumsRelease (by decide)
        (agree_AlbumsNextPage (by decide) (AgreeOff.unchanged _ z) env a l o n r)
    have ag2 := agree_GetAlbumCoversCheck (W := fpGetAlbumCovers) (fun _ h => h)
      (AgreeOff.unchanged _ (AlbumsRelease (AlbumsNextPage env z a l o n r))) env
    exact CoverOpen_FinishCheck
      ⟨FinishedIdle.of_unfinished ((ag2.finished_ (by decide)).trans
          ((ag.finished_ (by decide)).trans (by simpa using hn))),
        (h.kept_fresh ag (by decide)).checked env⟩

theorem CoverOpen_SongsFinishCheck (env : Env) {z : State} (hf : FinishedIdle z)
    (h : CoverFresh z) (a : Artist) (b : Album) (l o n r : Int) :
    CoverOpen (SongsFinishCheck env z a b l o n r) := by
  unfold SongsFinishCheck
  split
  · exact ⟨hf, Or.inl h⟩
  · rename_i hn
    have ag : AgreeOff (fpAddSongsRequest ++ fpAddAlbumSongsRequest) z
        (SongsNextPage env z a b l o n r) :=
      agree_SongsNextPage (by decide) (AgreeOff.unchanged _ z) env a b l o n r
    have ag2 := agree_GetAlbumCoversCheck (W := fpGetAlbumCovers) (fun _ h => h)
      (AgreeOff.unchanged _ (SongsNextPage env z a b l o n r)) env
    exact CoverOpen_FinishCheck
      ⟨FinishedIdle.of_unfinished ((ag2.finished_ (by decide)).trans
          ((ag.finished_ (by decide)).trans (by simpa using hn))),
        (h.kept_fresh ag (by decide)).checked env⟩

theorem Booked.fresh {s : State} (hb : Booked s) (hn : ¬ ApiDone s) (hd : ¬ Drained s) :
    CoverFresh s ∧ s.finished_ = false := by
  have hfin : s.finished_ = false := by
    cases hf : s.finished_ with
    | false => rfl
    | true => exact absurd (hb.fin hf) hd
  have hi : CoverIdle s := Classical.byContradiction fun h => hn (hb.phase h)
  have ht : s.album_covers_requests_total_ = 0 := Classical.byContradiction fun h =>
    (hb.total h).elim (fun h1 => h1 hi) (fun h1 => absurd (hfin.symm.trans h1) (by decide))
  have hu : coverUrls s = [] := by
    apply List.eq_nil_iff_forall_not_mem.mpr
    intro u hu
    have hr := (hb.registered u).mpr hu
    rw [hi.2.1] at hr
    exact absurd hr (by simp [mapContains])
  exact ⟨⟨hi.1, hi.2.1, ht, hi.2.2,
    List.filterMap_eq_nil_iff.mp (List.append_eq_nil.mp hu).2⟩, hfin⟩

theorem Booked.fresh_of_active {s : State} (hb : Booked s) (k : Stage)
    (hk : k ≠ Stage.albumCovers) (hpos : 0 < s.active k) :
    CoverFresh s ∧ s.finished_ = false := by
  refine hb.fresh (fun h => ?_) (fun h => absurd (h.2 k) (not_le.mpr hpos))
  obtain ⟨_, _, _, _, _, _, _, a1, a2, a3, a4, a5⟩ := h
  cases k
  · exact absurd a1 (not_le.mpr hpos)
  · exact absurd a2 (not_le.mpr hpos)
  · exact absurd a3 (not_le.mpr hpos)
  · exact absurd a4 (not_le.mpr hpos)
  · exact absurd a5 (not_le.mpr hpos)
  · exact hk rfl

theorem CoverOpen_ArtistsReplyReceived (env : Env) {s : State} (h : Sound s) (hb : Booked s)
    (reply : QNetworkReply) (l o : Int) (c : Nat × Callback) (hcm : c ∈ s.connections)
    (hh : c.1 = reply.handle) (hk : c.2.stage = Stage.artists) :
    CoverOpen (ArtistsReplyReceived env s reply l o) := by
  have hreg : reply.handle ∈ s.replies_ :=
    hh ▸ h.wired.api c hcm (by rw [hk]; exact fun e => Stage.noConfusion e)
  obtain ⟨hfresh, -⟩ := hb.fresh_of_active _ (by rw [hk]; exact fun e => Stage.noConfusion e)
    (h.wired.active_pos c hcm)
  have hG := agree_GetReplyData (W := fpError) (fun _ h => h)
    (AgreeOff.unchanged _ (takeReply s reply.handle)) reply
  have hq : AgreeOff (fpTaken Field.artists_requests_active_ Field.artists_requests_received_) s
      (artistsSettled (GetReplyData (takeReply s reply.handle) reply)) :=
    agree_artistsSettled (by decide) (agree_GetReplyData (by decide)
      (agree_takeReply (by decide) (AgreeOff.unchanged _ s) _) reply)
  have hyf : FinishedIdle (artistsSettled (GetReplyData (takeReply s reply.handle) reply)) := by
    have h1 : FinishedIdle (takeReply s reply.handle) :=
      hb.fin.kept_idle (agree_takeReply (W := [Field.replies_, Field.connections]) (fun _ h => h)
        (AgreeOff.unchanged _ s) _) (by decide)
    have h2 : FinishedIdle (GetReplyData (takeReply s reply.handle) reply) :=
      FinishedIdle_foldl_Error reply.read_errors _ h1
    exact h2.lower_idle
      (agree_artistsSettled (W := [Field.artists_requests_active_,
        Field.artists_requests_received_]) (fun _ h => h) (AgreeOff.unchanged _ _)) (by decide)
      (fun k => by cases k <;> simp only [State.active, artistsSettled] <;> omega)
  have hyc : CoverFresh (artistsSettled (GetReplyData (takeReply s reply.handle) reply)) := by
    refine hfresh.carry_fresh hq (by decide) (fun x hx => Or.inl ?_)
    have hx1 : x ∈ (GetReplyData (takeReply s reply.handle) reply).connections := hx
    rw [hG.connections (by decide)] at hx1
    exact (List.mem_filter.mp hx1).1
  unfold ArtistsReplyReceived
  rw [if_neg (not_not.mpr hreg)]
  obtain ⟨z, l1, o1, r1, hz, hu⟩ := ArtistsSettled_factor env (P := FinishedIdle)
    (steady_FinishedIdle (by decide)) FinishedIdle_ArtistsItem (Before.start hyf) reply l o
  have hzc := hyc.kept_fresh hz.agree (by decide)
  rcases hu with hu | ⟨e, hu⟩ <;> rw [hu]
  · exact CoverOpen_ArtistsFinishCheck env hz.holds hzc l1 o1 r1
  · exact CoverOpen_Error (CoverOpen_ArtistsFinishCheck env hz.holds hzc l1 o1 r1) e

theorem cover_books_of_counted {s x : State} (h : Sound s) (hb : Booked s)
    (reply : QNetworkReply) (c : Nat × Callback) (hcm : c ∈ s.connections)
    (hk : c.2.stage ≠ Stage.albumCovers) (hx : AgreeOff fpReplyCounted s x)
    (ha : ∀ k, x.active k = s.active k - (if c.2.stage = k then 1 else 0)) :
    FinishedIdle (GetReplyData (takeReply x reply.handle) reply) ∧
    CoverFresh (GetReplyData (takeReply x reply.handle) reply) := by
  obtain ⟨hfresh, -⟩ := hb.fresh_of_active _ hk (h.wired.active_pos c hcm)
  have hT := agree_takeReply (W := [Field.replies_, Field.connections]) (fun _ h => h)
    (AgreeOff.unchanged _ x) reply.handle
  have hG := agree_GetReplyData (W := fpError) (fun _ h => h)
    (AgreeOff.unchanged _ (takeReply x reply.handle)) reply
  have hxf : FinishedIdle x :=
    hb.fin.lower_idle hx (by decide) (fun k => by rw [ha k]; split <;> omega)
  refine ⟨FinishedIdle_foldl_Error reply.read_errors _ (hxf.kept_idle hT (by decide)), ?_⟩
  have hxc : CoverFresh x := hfresh.kept_fresh hx (by decide)
  refine (hxc.carry_fresh hT (by decide) (fun y hy => Or.inl (List.mem_filter.mp hy).1)).kept_fresh hG
    (by decide)

theorem CoverOpen_AlbumsReceived (env : Env) {s x : State} (h : Sound s) (hb : Booked s)
    (reply : QNetworkReply) (a : Artist) (l o : Int) (c : Nat × Callback)
    (hcm : c ∈ s.connections) (hh : c.1 = reply.handle)
    (hk : c.2.stage = Stage.albums ∨ c.2.stage = Stage.artistAlbums)
    (hx : AgreeOff fpReplyCounted s x)
    (ha : ∀ k, x.active k = s.active k - (if c.2.stage = k then 1 else 0)) :
    CoverOpen (AlbumsReceived env x reply a l o) := by
  have hreg : reply.handle ∈ x.replies_ := by
    rw [hx.replies_ (by decide)]
    exact hh ▸ h.wired.api c hcm (by rcases hk with e | e <;> rw [e] <;> decide)
  obtain ⟨hyf, hyc⟩ := cover_books_of_counted h hb reply c hcm
    (by rcases hk with e | e <;> rw [e] <;> decide) hx ha
  unfold AlbumsReceived
  rw [if_neg (not_not.mpr hreg)]
  obtain ⟨z, l1, o1, n1, r1, hz, hu⟩ := AlbumsSettled_factor env (P := FinishedIdle)
    (steady_FinishedIdle (by decide)) a (FinishedIdle_AlbumsItem a) (Before.start hyf) reply l o
  have hzc := hyc.kept_fresh hz.agree (by decide)
  rcases hu with hu | ⟨e, hu⟩ <;> rw [hu]
  · exact CoverOpen_AlbumsFinishCheck env hz.holds hzc a l1 o1 n1 r1
  · exact CoverOpen_Error (CoverOpen_AlbumsFinishCheck env hz.holds hzc a l1 o1 n1 r1) e

theorem CoverOpen_SongsReceived (env : Env) {s x : State} (h : Sound s) (hb : Booked s)
    (reply : QNetworkReply) (a : Artist) (b : Album) (l o : Int) (c : Nat × Callback)
    (hcm : c ∈ s.connections) (hh : c.1 = reply.handle)
    (hk : c.2.stage = Stage.songs ∨ c.2.stage = Stage.albumSongs)
    (hx : AgreeOff fpReplyCounted s x)
    (ha : ∀ k, x.active k = s.active k - (if c.2.stage = k then 1 else 0)) :
    CoverOpen (SongsReceived env x reply a b l o) := by
  have hreg : reply.handle ∈ x.replies_ := by
    rw [hx.replies_ (by decide)]
    exact hh ▸ h.wired.api c hcm (by rcases hk with e | e <;> rw [e] <;> decide)
  obtain ⟨hyf, hyc⟩ := cover_books_of_counted h hb reply c hcm
    (by rcases hk with e | e <;> rw [e] <;> decide) hx ha
  unfold SongsReceived
  rw [if_neg (not_not.mpr hreg)]
  obtain ⟨z, a1, b1, l1, o1, n1, r1, hz, hu⟩ := SongsSettled_factor env (P := FinishedIdle)
    (steady_FinishedIdle (by decide)) (Before.start hyf) reply a b l o
  have hzc := hyc.kept_fresh hz.agree (by decide)
  rcases hu with hu | ⟨e, hu⟩ <;> rw [hu]
  · exact CoverOpen_SongsFinishCheck env hz.holds hzc a1 b1 l1 o1 n1 r1
  · exact CoverOpen_Error (CoverOpen_SongsFinishCheck env hz.holds hzc a1 b1 l1 o1 n1 r1) e

theorem CoverOpen_dispatch (env : Env) {s : State} (h : Sound s) (hb : Booked s)
    (reply : QNetworkReply) (c : Nat × Callback) (hcm : c ∈ s.connections)
    (hh : c.1 = reply.handle) (hk : c.2.stage ≠ Stage.albumCovers) :
    CoverOpen (dispatch env s reply c.2) := by
  cases hc : c.2 with
  | Artists l o =>
    exact CoverOpen_ArtistsReplyReceived env h hb reply l o c hcm hh (by rw [hc]; rfl)
  | Albums l o =>
    refine CoverOpen_AlbumsReceived env h hb reply Artist.empty l o c hcm hh
      (Or.inl (by rw [hc]; rfl))
      (by constructor <;> intro hn <;> first | rfl | exact absurd (by decide) hn) ?_
    intro k
    rw [hc]
    cases k <;> simp [State.active, albumsSettled, Callback.stage]
  | Songs l o =>
    refine CoverOpen_SongsReceived env h hb reply Artist.empty Album.empty l o c hcm hh
      (Or.inl (by rw [hc]; rfl))
      (by constructor <;> intro hn <;> first | rfl | exact absurd (by decide) hn) ?_
    intro k
    rw [hc]
    cases k <;> simp [State.active, songsSettled, Callback.stage]
  | ArtistAlbums a o =>
    refine CoverOpen_AlbumsReceived env h hb reply a 0 o c hcm hh (Or.inr (by rw [hc]; rfl))
      (by constructor <;> intro hn <;> first | rfl | exact absurd (by decide) hn) ?_
    intro k
    rw [hc]
    cases k <;> simp [State.active, artistAlbumsSettled, artistAlbumsProgress, emit,
      Callback.stage]
  | AlbumSongs a b o =>
    refine CoverOpen_SongsReceived env h hb reply a b 0 o c hcm hh (Or.inr (by rw [hc]; rfl))
      (agree_albumSongsProgress (by decide)
        (agree_albumSongsSettled (by decide) (AgreeOff.unchanged _ s)) o) ?_
    intro k
    rw [hc]
    have e := agree_albumSongsProgress (W := [Field.emitted]) (fun _ h => h)
      (AgreeOff.unchanged _ (albumSongsSettled s)) o
    cases k
    · exact (e.artists_requests_active_ (by decide)).trans (by simp [albumSongsSettled, Callback.stage, State.active])
    · exact (e.albums_requests_active_ (by decide)).trans (by simp [albumSongsSettled, Callback.stage, State.active])
    · exact (e.songs_requests_active_ (by decide)).trans (by simp [albumSongsSettled, Callback.stage, State.active])
    · exact (e.artist_albums_requests_active_ (by decide)).trans (by simp [albumSongsSettled, Callback.stage, State.active])
    · exact (e.album_songs_requests_active_ (by decide)).trans (by simp [albumSongsSettled, Callback.stage, State.active])
    · exact (e.album_covers_requests_active_ (by decide)).trans (by simp [albumSongsSettled, Callback.stage, State.active])
  | AlbumCover url filename =>
    exact absurd (by rw [hc]; rfl) hk

theorem cover_urls_taken (l : List (Nat × Callback)) (c : Nat × Callback) (url : String)
    (hn : (l.map (fun c => c.1)).Nodup) (hc : c ∈ l) (hu : c.2.coverUrl = some url) :
    (l.filterMap (fun c => c.2.coverUrl)).Perm
      (url :: (l.filter (fun x => x.1 != c.1)).filterMap (fun c => c.2.coverUrl)) := by
  induction l with
  | nil => exact absurd hc (List.not_mem_nil _)
  | cons a l ih =>
    rw [List.map_cons, List.nodup_cons] at hn
    rcases List.mem_cons.mp hc with e | hm
    · subst e
      have hf : l.filter (fun x => x.1 != c.1) = l := by
        apply List.filter_eq_self.mpr
        intro x hx
        have hne : x.1 ≠ c.1 := fun e => hn.1 (e ▸ List.mem_map_of_mem (fun c => c.1) hx)
        simpa using hne
      rw [List.filter_cons_of_neg (by simp), hf, List.filterMap_cons_some (f := fun c : Nat × Callback => c.2.coverUrl) hu]
    · have hne : a.1 ≠ c.1 := fun e => hn.1 (e ▸ List.mem_map_of_mem (fun c => c.1) hm)
      rw [List.filter_cons_of_pos (by simpa using hne)]
      cases ha : a.2.coverUrl with
      | none =>
        rw [List.filterMap_cons_none (f := fun c : Nat × Callback => c.2.coverUrl) ha, List.filterMap_cons_none (f := fun c : Nat × Callback => c.2.coverUrl) ha]
        exact ih hn.2 hm
      | some v =>
        rw [List.filterMap_cons_some (f := fun c : Nat × Callback => c.2.coverUrl) ha, List.filterMap_cons_some (f := fun c : Nat × Callback => c.2.coverUrl) ha]
        exact ((ih hn.2 hm).cons v).trans (List.Perm.swap _ _ _)

theorem mapContains_filter_other {α : Type} (m : List (String × α)) (key other : String)
    (h : other ≠ key) :
    mapContains (m.filter (fun kv => kv.1 != key)) other = mapContains m other := by
  induction m with
  | nil => rfl
  | cons kv m ih =>
    by_cases hk : kv.1 = key
    · rw [List.filter_cons_of_neg (by simp [hk]), ih]
      have hne : kv.1 ≠ other := fun e => h (e.symm.trans hk)
      simp [mapContains, hne]
    · rw [List.filter_cons_of_pos (by simpa using hk)]
      unfold mapContains at ih ⊢
      rw [List.any_cons, List.any_cons, ih]

theorem Error_sent (s : State) (e : String) :
    (Error s e).album_covers_requests_sent_ = s.album_covers_requests_sent_ :=
  (agree_Error (W := fpError) (fun _ h => h)
    (AgreeOff.unchanged _ s) e).album_covers_requests_sent_ (by decide)

theorem AlbumCoverBody_sent (env : Env) (s : State) (reply : QNetworkReply)
    (url filename : String) (h : mapContains s.album_covers_requests_sent_ url = true) :
    (AlbumCoverBody env s reply url filename).album_covers_requests_sent_ =
      s.album_covers_requests_sent_.filter (fun kv => kv.1 != url) := by
  unfold AlbumCoverBody AlbumCoverFinishCheck
  rw [if_neg (by simp [h])]
  repeat' split
  all_goals simp only [FinishCheck_sent, Error_sent, removeCover, applyCover]

theorem AlbumCoverBody_is_check (env : Env) (s : State) (reply : QNetworkReply)
    (url filename : String) : ∃ w, AlbumCoverBody env s reply url filename = FinishCheck w := by
  unfold AlbumCoverBody AlbumCoverFinishCheck
  repeat' split
  all_goals exact ⟨_, rfl⟩

theorem FinishCheck_finished_of_quiescent (w : State) (h : Quiescent (FinishCheck w)) :
    (FinishCheck w).finished_ = true := by
  by_cases hq : Quiescent w
  · cases hf : w.finished_ with
    | true => rw [FinishCheck_of_finished w hf]; exact hf
    | false =>
      obtain ⟨songs, error, he⟩ := FinishCheck_of_quiescent w hf hq
      rw [he]
  · rw [FinishCheck_of_not_quiescent w hq] at h
    exact absurd h hq

theorem FinishedIdle_removeCover (s : State) (url : String) (h : FinishedIdle s) :
    FinishedIdle (removeCover s url) :=
  h.kept_idle (agree_removeCover (W := [Field.album_covers_requests_sent_]) (fun _ h => h)
    (AgreeOff.unchanged _ s) url) (by decide)

theorem FinishedIdle_applyCover (s : State) (url filename : String) (h : FinishedIdle s) :
    FinishedIdle (applyCover s url filename) :=
  h.kept_idle (agree_applyCover (W := [Field.songs_, Field.album_covers_requests_sent_])
    (fun _ h => h) (AgreeOff.unchanged _ s) url filename) (by decide)

theorem FinishedIdle_AlbumCoverBody (env : Env) (s : State) (reply : QNetworkReply)
    (url filename : String) (h : FinishedIdle s) :
    FinishedIdle (AlbumCoverBody env s reply url filename) := by
  unfold AlbumCoverBody AlbumCoverFinishCheck
  repeat' first
    | with_reducible apply FinishedIdle_FinishCheck
    | with_reducible apply FinishedIdle_Error
    | with_reducible apply FinishedIdle_removeCover
    | with_reducible apply FinishedIdle_applyCover
    | split
    | exact h

/-- In a state between two deliveries, a connected cover download is due: its reply is in the
registry of cover replies, the request is not finished, and its URL is registered. -/
theorem cover_reply_due {s : State} (h : Sound s) (hb : Booked s) (reply : QNetworkReply)
    (url filename : String) (c : Nat × Callback) (hcm : c ∈ s.connections)
    (hh : c.1 = reply.handle) (hc : c.2 = Callback.AlbumCover url filename) :
    CoverDue s reply url := by
  have hk : c.2.stage = Stage.albumCovers := by rw [hc]; rfl
  have hpos := h.wired.active_pos c hcm
  refine ⟨hh ▸ h.wired.cover c hcm hk, ?_, (hb.registered url).mpr ?_⟩
  · cases hf : s.finished_ with
    | false => rfl
    | true => exact absurd ((hb.fin hf).2 _) (not_le.mpr hpos)
  · exact List.mem_append_right _ (List.mem_filterMap.mpr ⟨c, hcm, by rw [hc]; rfl⟩)

theorem Booked_AlbumCoverBody (env : Env) {s y : State} (h : Sound s) (hb : Booked s)
    (reply : QNetworkReply) (url filename : String) (c : Nat × Callback)
    (hcm : c ∈ s.connections) (hc : c.2 = Callback.AlbumCover url filename)
    (hfin : s.finished_ = false)
    (hreg : mapContains s.album_covers_requests_sent_ url = true)
    (hag : AgreeOff [Field.emitted, Field.album_cover_replies_, Field.connections,
      Field.album_covers_requests_active_, Field.album_covers_requests_received_] s y)
    (hconn : y.connections = s.connections.filter (fun x => x.1 != c.1)) :
    Booked (AlbumCoverBody env y reply url filename) := by
  have hk : c.2.stage = Stage.albumCovers := by rw [hc]; rfl
  have hpos : 0 < s.album_covers_requests_active_ := by
    have hp := h.wired.active_pos c hcm
    rw [hk] at hp
    exact hp
  have agB := agree_AlbumCoverBody (W := fpAlbumCoverBody) (fun _ h => h)
    (AgreeOff.unchanged _ y) env reply url filename
  have hsent := AlbumCoverBody_sent env y reply url filename
    (by rw [hag.album_covers_requests_sent_ (by decide)]; exact hreg)
  rw [hag.album_covers_requests_sent_ (by decide)] at hsent
  have hapi : ApiDone (AlbumCoverBody env y reply url filename) :=
    ((hb.phase (fun hi => absurd hi.2.2 (not_le.mpr hpos))).kept_done hag (by decide)).kept_done agB
      (by decide)
  have hurls : (coverUrls s).Perm (url :: coverUrls (AlbumCoverBody env y reply url filename)) := by
    unfold coverUrls
    rw [agB.connections (by decide), hconn, agB.album_cover_requests_queue_ (by decide),
      hag.album_cover_requests_queue_ (by decide)]
    exact (List.Perm.append_left _
      (cover_urls_taken s.connections c url h.wired.nodup hcm (by rw [hc]; rfl))).trans
      List.perm_middle
  have hnd := List.nodup_cons.mp (hurls.nodup_iff.mp hb.urls)
  refine ⟨FinishedIdle_AlbumCoverBody env y reply url filename
      (FinishedIdle.of_unfinished ((hag.finished_ (by decide)).trans hfin)),
    fun _ => hapi, hnd.2, fun v => ?_, fun _ => ?_⟩
  · rw [hsent]
    by_cases hv : v = url
    · subst hv
      rw [mapContains_filter_ne]
      exact ⟨fun e => absurd e (by decide), fun e => absurd e hnd.1⟩
    · rw [mapContains_filter_other _ _ _ hv, hb.registered v, hurls.mem_iff, List.mem_cons]
      exact ⟨fun e => e.resolve_left hv, Or.inr⟩
  · by_cases hi : CoverIdle (AlbumCoverBody env y reply url filename)
    · obtain ⟨w, hw⟩ := AlbumCoverBody_is_check env y reply url filename
      have hq := (quiescent_iff _).mpr ⟨hapi, hi⟩
      rw [hw] at hq ⊢
      exact Or.inr (FinishCheck_finished_of_quiescent w hq)
    · exact Or.inl hi

theorem Booked_AlbumCoverReceived (env : Env) {s : State} (h : Sound s) (hb : Booked s)
    (reply : QNetworkReply) (url filename : String) (c : Nat × Callback)
    (hcm : c ∈ s.connections) (hh : c.1 = reply.handle)
    (hc : c.2 = Callback.AlbumCover url filename) :
    Booked (AlbumCoverReceived env s reply url filename) := by
  have hdue := cover_reply_due h hb reply url filename c hcm hh hc
  rw [AlbumCoverReceived_due env s reply url filename hdue]
  refine Booked_AlbumCoverBody env h hb reply url filename c hcm hc hdue.2.1 hdue.2.2 ?_ ?_
  · exact agree_albumCoverProgress (by decide) (agree_albumCoverSettled (by decide)
      (agree_takeCoverReply (by decide) (AgreeOff.unchanged _ s) _))
  · rw [hh]
    rfl

theorem Booked_dispatch (env : Env) {s : State} (h : Sound s) (hb : Booked s)
    (reply : QNetworkReply) (c : Nat × Callback) (hcm : c ∈ s.connections)
    (hh : c.1 = reply.handle) : Booked (dispatch env s reply c.2) := by
  by_cases hk : c.2.stage = Stage.albumCovers
  · cases hc : c.2 with
    | AlbumCover url filename =>
      exact Booked_AlbumCoverReceived env h hb reply url filename c hcm hh hc
    | _ => rw [hc] at hk; exact Stage.noConfusion hk
  · exact Booked.of_open (CoverOpen_dispatch env h hb reply c hcm hh hk)

theorem Booked.flushed {W : List Field} {s t : State} (hb : Booked s) (hn : ¬ ApiDone s)
    (hd : ¬ Drained s) (hag : AgreeOff W s t)
    (hW : ∀ f ∈ Field.finished_ :: fpCoverBooks, f ∉ W)
    (hc : ConnGrow (fun slot => slot.coverUrl = none) s t) : Booked t :=
  Booked.of_fresh
    (FinishedIdle.of_unfinished ((hag.finished_ (hW _ (by decide))).trans (hb.fresh hn hd).2))
    ((hb.fresh hn hd).1.carry_fresh hag (fun f hf => hW f (List.mem_cons_of_mem _ hf)) hc)

theorem Booked_FlushAlbumCoverLoop (q : List AlbumCoverRequest) :
    ∀ s : State, s.album_cover_requests_queue_ = q → Sound s → Booked s →
      Booked (FlushAlbumCoverLoop q s) := by
  induction q with
  | nil => intro s _ _ hb; exact hb
  | cons r q ih =>
    intro s hq h hb
    have hne : s.album_cover_requests_queue_ ≠ [] := by rw [hq]; exact List.cons_ne_nil _ _
    unfold FlushAlbumCoverLoop
    split
    · have hs : Sound (albumCoverSent (issueCoverReply { s with album_cover_requests_queue_ := q }
          (Callback.AlbumCover r.url r.filename))) := by
        refine ⟨?_, h.order, h.types⟩
        refine h.wired.sent (Callback.AlbumCover r.url r.filename) rfl rfl
          (fun x hx => hx) (fun x hx => List.mem_append_left _ hx)
          (fun hk => absurd rfl hk)
          (fun _ => List.mem_append_right _ (List.mem_singleton.mpr rfl)) ?_
        intro k
        cases k <;> simp [State.active, Callback.stage, albumCoverSent, issueCoverReply]
      refine ih _ rfl hs ?_
      have hfin : s.finished_ = false := by
        cases hf : s.finished_ with
        | false => rfl
        | true => exact absurd (hb.fin hf).1.2.2.2.2.2 hne
      have hperm : (coverUrls s).Perm
          (coverUrls (albumCoverSent (issueCoverReply { s with album_cover_requests_queue_ := q }
            (Callback.AlbumCover r.url r.filename)))) := by
        simp only [coverUrls, albumCoverSent, issueCoverReply, hq, List.map_cons,
          List.filterMap_append, List.filterMap_cons, List.filterMap_nil, Callback.coverUrl,
          List.cons_append]
        rw [← List.append_assoc]
        exact (List.perm_append_singleton _ _).symm
      refine ⟨FinishedIdle.of_unfinished hfin, fun _ => hb.phase (fun hi => hne hi.1),
        hperm.nodup_iff.mp hb.urls, fun u => ?_, fun _ => Or.inl fun hi => ?_⟩
      · rw [← hperm.mem_iff]
        exact hb.registered u
      · have h0 := h.wired.active_nonneg Stage.albumCovers
        have h1 : s.album_covers_requests_active_ + 1 ≤ 0 := hi.2.2
        have h2 : 0 ≤ s.album_covers_requests_active_ := h0
        omega
    · exact hb

theorem Booked_FlushRequests {s : State} (h : Sound s) (hb : Booked s) :
    Booked (FlushRequests s) := by
  unfold FlushRequests FlushArtistsRequests FlushAlbumsRequests FlushSongsRequests
    FlushArtistAlbumsRequests FlushAlbumSongsRequests FlushAlbumCoverRequests
  split
  · rename_i hq
    exact hb.flushed (fun e => hq e.1) (fun e => hq e.1.1)
      (agree_FlushArtistsLoop (W := fpFlushArtists) (fun _ h => h) _ s (AgreeOff.unchanged _ s))
      (by decide) (conn_FlushArtistsLoop (P := fun slot => slot.coverUrl = none) (fun _ _ => rfl) _ s (ConnGrow.same _ s))
  · split
    · rename_i hq
      exact hb.flushed (fun e => hq e.2.1) (fun e => hq e.1.2.1)
        (agree_FlushAlbumsLoop (W := fpFlushAlbums) (fun _ h => h) _ s (AgreeOff.unchanged _ s))
        (by decide) (conn_FlushAlbumsLoop (P := fun slot => slot.coverUrl = none) (fun _ _ => rfl) _ s (ConnGrow.same _ s))
    · split
      · rename_i hq
        exact hb.flushed (fun e => hq e.2.2.2.1) (fun e => hq e.1.2.2.2.1)
          (agree_FlushArtistAlbumsLoop (W := fpFlushArtistAlbums) (fun _ h => h) _ s
            (AgreeOff.unchanged _ s))
          (by decide) (conn_FlushArtistAlbumsLoop (P := fun slot => slot.coverUrl = none) (fun _ _ => rfl) _ s (ConnGrow.same _ s))
      · split
        · rename_i hq
          exact hb.flushed (fun e => hq e.2.2.2.2.1) (fun e => hq e.1.2.2.2.2.1)
            (agree_FlushAlbumSongsLoop (W := fpFlushAlbumSongs) (fun _ h => h) _ s
              (AgreeOff.unchanged _ s))
            (by decide) (conn_FlushAlbumSongsLoop (P := fun slot => slot.coverUrl = none) (fun _ _ _ => rfl) _ s (ConnGrow.same _ s))
        · split
          · rename_i hq
            exact hb.flushed (fun e => hq e.2.2.1) (fun e => hq e.1.2.2.1)
              (agree_FlushSongsLoop (W := fpFlushSongs) (fun _ h => h) _ s
                (AgreeOff.unchanged _ s))
              (by decide) (conn_FlushSongsLoop (P := fun slot => slot.coverUrl = none) (fun _ _ => rfl) _ s (ConnGrow.same _ s))
          · split
            · exact Booked_FlushAlbumCoverLoop _ s rfl h hb
            · exact ⟨hb.fin, hb.phase, hb.urls, hb.registered, hb.total⟩

theorem Booked_Process (env : Env) (type : QueryType) :
    Booked (Process env (State.init type)) := by
  have hinit : CoverFresh (State.init type) :=
    ⟨rfl, rfl, rfl, le_refl _, fun c hc => absurd hc (List.not_mem_nil _)⟩
  have hfi : FinishedIdle (State.init type) := FinishedIdle.of_unfinished rfl
  cases type <;> first
    | exact Booked.of_fresh (FinishedIdle.of_unfinished rfl)
        ⟨rfl, rfl, rfl, le_refl _, fun c hc => absurd hc (List.not_mem_nil _)⟩
    | exact Booked.of_open (CoverOpen_Error ⟨hfi, Or.inl hinit⟩ _)

theorem Booked_step (env : Env) {s : State} (h : Sound s) (hb : Booked s) (input : Input) :
    Booked (step env s input) := by
  cases input with
  | Tick =>
    simp only [step]
    split
    · exact Booked_FlushRequests h hb
    · exact hb
  | Finished reply =>
    simp only [step]
    split
    · rename_i c hc
      exact Booked_dispatch env h hb reply c (List.mem_of_find?_eq_some hc)
        (by simpa using List.find?_some hc)
    · exact hb

theorem Booked_steps (env : Env) (inputs : List Input) :
    ∀ s, Sound s → Booked s → Booked (inputs.foldl (step env) s) := by
  induction inputs with
  | nil => intro s _ hb; exact hb
  | cons input rest ih =>
    intro s h hb
    exact ih _ (Sound_step env h input) (Booked_step env h hb input)

theorem Booked_run (env : Env) (type : QueryType) (inputs : List Input) :
    Booked (run env type inputs) :=
  Booked_steps env inputs _ (Sound_Process env type) (Booked_Process env type)

theorem FlushRequests_cover_queue (s : State) (h : s.album_cover_requests_queue_ = []) :
    (FlushRequests s).album_cover_requests_queue_ = [] := by
  unfold FlushRequests FlushArtistsRequests FlushAlbumsRequests FlushSongsRequests
    FlushArtistAlbumsRequests FlushAlbumSongsRequests FlushAlbumCoverRequests
  repeat' first
    | exact ((agree_FlushArtistsLoop (W := fpFlushArtists) (fun _ h => h) _ s
        (AgreeOff.unchanged _ s)).album_cover_requests_queue_ (by decide)).trans h
    | exact ((agree_FlushAlbumsLoop (W := fpFlushAlbums) (fun _ h => h) _ s
        (AgreeOff.unchanged _ s)).album_cover_requests_queue_ (by decide)).trans h
    | exact ((agree_FlushSongsLoop (W := fpFlushSongs) (fun _ h => h) _ s
        (AgreeOff.unchanged _ s)).album_cover_requests_queue_ (by decide)).trans h
    | exact ((agree_FlushArtistAlbumsLoop (W := fpFlushArtistAlbums) (fun _ h => h) _ s
        (AgreeOff.unchanged _ s)).album_cover_requests_queue_ (by decide)).trans h
    | exact ((agree_FlushAlbumSongsLoop (W := fpFlushAlbumSongs) (fun _ h => h) _ s
        (AgreeOff.unchanged _ s)).album_cover_requests_queue_ (by decide)).trans h
    | exact absurd h (by assumption)
    | exact h
    | split

/-- In every run, a cover download that is delivered to `AlbumCoverReceived` is due: its reply
is in the registry of cover replies, the request is not finished, and its URL is in the cover
registry. -/
theorem delivered_cover_is_due (env : Env) (type : QueryType) (inputs : List Input)
    (reply : QNetworkReply) (url filename : String) (c : Nat × Callback)
    (hfind : (run env type inputs).connections.find? (fun c => c.1 == reply.handle) = some c)
    (hc : c.2 = Callback.AlbumCover url filename) :
    CoverDue (run env type inputs) reply url :=
  cover_reply_due (Sound_run env type inputs) (Booked_run env type inputs) reply url filename c
    (List.mem_of_find?_eq_some hfind) (by simpa using List.find?_some hfind) hc

/-- In every run, the delivery that queues the first cover downloads leaves the books clean: no
URL is queued twice, the queued URLs are the registered ones, and
`album_covers_requests_total_` is the number of queued downloads. -/
theorem covers_queued_on_clean_books (env : Env) (type : QueryType) (inputs : List Input)
    (input : Input) (h0 : (run env type inputs).album_cover_requests_queue_ = [])
    (h1 : (step env (run env type inputs) input).album_cover_requests_queue_ ≠ []) :
    CoversQueued 0 (step env (run env type inputs) input) := by
  have hs := Sound_run env type inputs
  have hb := Booked_run env type inputs
  revert h1
  cases input with
  | Tick =>
    simp only [step]
    split
    · exact fun h1 => absurd (FlushRequests_cover_queue _ h0) h1
    · exact fun h1 => absurd h0 h1
  | Finished reply =>
    simp only [step]
    split
    · rename_i c hc
      have hcm := List.mem_of_find?_eq_some hc
      have hh : c.1 = reply.handle := by simpa using List.find?_some hc
      intro h1
      by_cases hk : c.2.stage = Stage.albumCovers
      · exfalso
        cases hcb : c.2 with
        | AlbumCover url filename =>
          rw [hcb] at h1
          exact h1 (((agree_AlbumCoverReceived (W := fpAlbumCoverReceived) (fun _ h => h)
            (AgreeOff.unchanged _ _) env reply url filename).album_cover_requests_queue_
              (by decide)).trans h0)
        | _ => rw [hcb] at hk; exact Stage.noConfusion hk
      · rcases (CoverOpen_dispatch env hs hb reply c hcm hh hk).2 with hf | hg
        · exact absurd hf.queue h1
        · exact hg.queued
    · exact fun h1 => absurd h0 h1

/-! ## Cover downloads in a run -/

theorem step_cover_delivery (env : Env) (s : State) (reply : QNetworkReply)
    (url filename : String) (c : Nat × Callback)
    (hfind : s.connections.find? (fun c => c.1 == reply.handle) = some c)
    (hc : c.2 = Callback.AlbumCover url filename) :
    step env s (Input.Finished reply) = AlbumCoverReceived env s reply url filename := by
  simp only [step, hfind, hc, dispatch]

/-- C16: in every run, when the download of the cover `url` is delivered to its slot
`AlbumCoverReceived` and arrives without network error, with HTTP 200, a supported mimetype and
data, and the image loads and is saved, then every song whose id is registered under `url` gets
the local file as its cover, every other song is as before, the registry has no entry for `url`
any more and keeps the entries of the other URLs. -/
theorem saved_cover_reaches_every_registered_song (env : Env) (type : QueryType)
    (inputs : List Input) (reply : QNetworkReply) (url filename : String) (c : Nat × Callback)
    (hfind : (run env type inputs).connections.find? (fun c => c.1 == reply.handle) = some c)
    (hc : c.2 = Callback.AlbumCover url filename) (hok : CoverSaved env reply) :
    (step env (run env type inputs) (Input.Finished reply)).songs_ =
      (run env type inputs).songs_.map (fun kv =>
        if (coverSongIds (run env type inputs) url).contains kv.1 = true then
          (kv.1, { kv.2 with art_automatic := "file://" ++ filename })
        else kv) ∧
    mapContains
      (step env (run env type inputs) (Input.Finished reply)).album_covers_requests_sent_ url =
      false ∧
    (step env (run env type inputs) (Input.Finished reply)).album_covers_requests_sent_ =
      (run env type inputs).album_covers_requests_sent_.filter (fun kv => kv.1 != url) := by
  rw [step_cover_delivery env _ reply url filename c hfind hc]
  exact saved_cover_when_due env _ reply url filename
    (delivered_cover_is_due env type inputs reply url filename c hfind hc) hok

/-- Scenario D, second half: in the run of the songs query the download of the cover `u`, shared
by the songs 1 and 2, is saved; both get the local file, song 3 keeps its cover, and only the
entry of `v` is left in the registry. -/
theorem saved_cover_reaches_every_registered_song_witness :
    (step coverEnv (run coverEnv QueryType_Songs scenarioDInputs)
      (Input.Finished (savedCoverReply 1))).songs_.map (fun kv => (kv.1, kv.2.art_automatic)) =
      [("1", "file:///covers/u"), ("2", "file:///covers/u"), ("3", "v")] ∧
    (step coverEnv (run coverEnv QueryType_Songs scenarioDInputs)
      (Input.Finished (savedCoverReply 1))).album_covers_requests_sent_ = [("v", "3")] := by
  have h := saved_cover_reaches_every_registered_song coverEnv QueryType_Songs scenarioDInputs
    (savedCoverReply 1) "u" "/covers/u" (1, Callback.AlbumCover "u" "/covers/u")
    (by decide) rfl (by decide)
  rw [h.1, h.2.2]
  decide

/-- C17: in every run, when the download of the cover `url` is delivered to its slot
`AlbumCoverReceived` and fails one of the tests (network error, HTTP status other than 200,
unsupported mimetype, empty data, image that does not load, image that is not saved), one error
is logged, every entry of `url` leaves the registry while the entries of other URLs stay, the
song map is as before and `album_covers_requests_active_` is one less. -/
theorem failed_cover_updates_no_song (env : Env) (type : QueryType) (inputs : List Input)
    (reply : QNetworkReply) (url filename : String) (c : Nat × Callback)
    (hfind : (run env type inputs).connections.find? (fun c => c.1 == reply.handle) = some c)
    (hc : c.2 = Callback.AlbumCover url filename) (hfail : ¬ CoverSaved env reply) :
    (∃ e, e ≠ "" ∧
      (step env (run env type inputs) (Input.Finished reply)).errors_ =
        (run env type inputs).errors_ ++ [e]) ∧
    (step env (run env type inputs) (Input.Finished reply)).album_covers_requests_sent_ =
      (run env type inputs).album_covers_requests_sent_.filter (fun kv => kv.1 != url) ∧
    mapContains
      (step env (run env type inputs) (Input.Finished reply)).album_covers_requests_sent_ url =
      false ∧
    (step env (run env type inputs) (Input.Finished reply)).songs_ =
      (run env type inputs).songs_ ∧
    (step env (run env type inputs) (Input.Finished reply)).album_covers_requests_active_ =
      (run env type inputs).album_covers_requests_active_ - 1 := by
  rw [step_cover_delivery env _ reply url filename c hfind hc]
  exact failed_cover_when_due env _ reply url filename
    (delivered_cover_is_due env type inputs reply url filename c hfind hc) hfail

/-- In the run of Scenario D the download of the cover `u` comes back with HTTP 404: the error is
logged, the entries of `u` leave the registry, no song is updated, and no download is in flight
any more. -/
theorem failed_cover_updates_no_song_witness :
    (step coverEnv (run coverEnv QueryType_Songs scenarioDInputs)
      (Input.Finished (notFoundCoverReply 1))).errors_ = ["Received HTTP code 404 for u."] ∧
    (step coverEnv (run coverEnv QueryType_Songs scenarioDInputs)
      (Input.Finished (notFoundCoverReply 1))).album_covers_requests_sent_ = [("v", "3")] ∧
    (step coverEnv (run coverEnv QueryType_Songs scenarioDInputs)
      (Input.Finished (notFoundCoverReply 1))).songs_.map (fun kv => (kv.1, kv.2.art_automatic)) =
      [("1", "u"), ("2", "u"), ("3", "v")] ∧
    (step coverEnv (run coverEnv QueryType_Songs scenarioDInputs)
      (Input.Finished (notFoundCoverReply 1))).album_covers_requests_active_ = 0 := by
  have h := failed_cover_updates_no_song coverEnv QueryType_Songs scenarioDInputs
    (notFoundCoverReply 1) "u" "/covers/u" (1, Callback.AlbumCover "u" "/covers/u")
    (by decide) rfl (by decide)
  refine ⟨by decide, ?_, ?_, ?_⟩
  · rw [h.2.1]; decide
  · rw [h.2.2.2.1]; decide
  · rw [h.2.2.2.2]; decide

/-! ## The flush tick -/

theorem queue_of_agree {W : List Field} {s t : State} (hag : AgreeOff W s t)
    (hW : ∀ f ∈ [Field.artists_requests_queue_, Field.albums_requests_queue_,
      Field.songs_requests_queue_, Field.artist_albums_requests_queue_,
      Field.album_songs_requests_queue_, Field.album_cover_requests_queue_], f ∉ W)
    (k : Stage) : t.queue k = s.queue k := by
  cases k <;> simp only [State.queue]
  · rw [hag.artists_requests_queue_ (hW _ (by decide))]
  · rw [hag.albums_requests_queue_ (hW _ (by decide))]
  · rw [hag.songs_requests_queue_ (hW _ (by decide))]
  · rw [hag.artist_albums_requests_queue_ (hW _ (by decide))]
  · rw [hag.album_songs_requests_queue_ (hW _ (by decide))]
  · rw [hag.album_cover_requests_queue_ (hW _ (by decide))]

/-- The queue and the active counter of a stage. -/
theorem stage_unwritten {W : List Field} {s t : State} (hag : AgreeOff W s t) (j : Stage)
    (hq : match j with
      | Stage.artists => Field.artists_requests_queue_ ∉ W ∧ Field.artists_requests_active_ ∉ W
      | Stage.albums => Field.albums_requests_queue_ ∉ W ∧ Field.albums_requests_active_ ∉ W
      | Stage.songs => Field.songs_requests_queue_ ∉ W ∧ Field.songs_requests_active_ ∉ W
      | Stage.artistAlbums =>
        Field.artist_albums_requests_queue_ ∉ W ∧ Field.artist_albums_requests_active_ ∉ W
      | Stage.albumSongs =>
        Field.album_songs_requests_queue_ ∉ W ∧ Field.album_songs_requests_active_ ∉ W
      | Stage.albumCovers =>
        Field.album_cover_requests_queue_ ∉ W ∧ Field.album_covers_requests_active_ ∉ W) :
    t.queue j = s.queue j ∧ t.active j = s.active j := by
  cases j <;> simp only [State.queue, State.active] <;> simp only at hq
  · rw [hag.artists_requests_queue_ hq.1, hag.artists_requests_active_ hq.2]; exact ⟨rfl, rfl⟩
  · rw [hag.albums_requests_queue_ hq.1, hag.albums_requests_active_ hq.2]; exact ⟨rfl, rfl⟩
  · rw [hag.songs_requests_queue_ hq.1, hag.songs_requests_active_ hq.2]; exact ⟨rfl, rfl⟩
  · rw [hag.artist_albums_requests_queue_ hq.1, hag.artist_albums_requests_active_ hq.2]
    exact ⟨rfl, rfl⟩
  · rw [hag.album_songs_requests_queue_ hq.1, hag.album_songs_requests_active_ hq.2]
    exact ⟨rfl, rfl⟩
  · rw [hag.album_cover_requests_queue_ hq.1, hag.album_covers_requests_active_ hq.2]
    exact ⟨rfl, rfl⟩

theorem queue_eq_nil (s : State) :
    (s.queue Stage.artists = [] ↔ s.artists_requests_queue_ = []) ∧
    (s.queue Stage.albums = [] ↔ s.albums_requests_queue_ = []) ∧
    (s.queue Stage.songs = [] ↔ s.songs_requests_queue_ = []) ∧
    (s.queue Stage.artistAlbums = [] ↔ s.artist_albums_requests_queue_ = []) ∧
    (s.queue Stage.albumSongs = [] ↔ s.album_songs_requests_queue_ = []) ∧
    (s.queue Stage.albumCovers = [] ↔ s.album_cover_requests_queue_ = []) := by
  simp [State.queue]

theorem stageFlush_others (k : Stage) (s : State) :
    (∀ j, j ≠ k → (stageFlush k s).queue j = s.queue j ∧ (stageFlush k s).active j = s.active j) ∧
    (stageFlush k s).timer_active = s.timer_active := by
  cases k
  · have ag := agree_FlushArtistsLoop (W := fpFlushArtists) (fun _ h => h)
      s.artists_requests_queue_ s (AgreeOff.unchanged _ s)
    refine ⟨fun j hj => ?_, ag.timer_active (by decide)⟩
    cases j <;> first
      | exact absurd rfl hj
      | exact stage_unwritten ag _ (by decide)
  · have ag := agree_FlushAlbumsLoop (W := fpFlushAlbums) (fun _ h => h)
      s.albums_requests_queue_ s (AgreeOff.unchanged _ s)
    refine ⟨fun j hj => ?_, ag.timer_active (by decide)⟩
    cases j <;> first
      | exact absurd rfl hj
      | exact stage_unwritten ag _ (by decide)
  · have ag := agree_FlushSongsLoop (W := fpFlushSongs) (fun _ h => h)
      s.songs_requests_queue_ s (AgreeOff.unchanged _ s)
    refine ⟨fun j hj => ?_, ag.timer_active (by decide)⟩
    cases j <;> first
      | exact absurd rfl hj
      | exact stage_unwritten ag _ (by decide)
  · have ag := agree_FlushArtistAlbumsLoop (W := fpFlushArtistAlbums) (fun _ h => h)
      s.artist_albums_requests_queue_ s (AgreeOff.unchanged _ s)
    refine ⟨fun j hj => ?_, ag.timer_active (by decide)⟩
    cases j <;> first
      | exact absurd rfl hj
      | exact stage_unwritten ag _ (by decide)
  · have ag := agree_FlushAlbumSongsLoop (W := fpFlushAlbumSongs) (fun _ h => h)
      s.album_songs_requests_queue_ s (AgreeOff.unchanged _ s)
    refine ⟨fun j hj => ?_, ag.timer_active (by decide)⟩
    cases j <;> first
      | exact absurd rfl hj
      | exact stage_unwritten ag _ (by decide)
  · have ag := agree_FlushAlbumCoverLoop (W := fpFlushAlbumCover) (fun _ h => h)
      s.album_cover_requests_queue_ s (AgreeOff.unchanged _ s)
    refine ⟨fun j hj => ?_, ag.timer_active (by decide)⟩
    cases j <;> first
      | exact absurd rfl hj
      | exact stage_unwritten ag _ (by decide)

theorem FlushRequests_firstBusy (s : State) :
    (∀ k, firstBusy s = some k → FlushRequests s = stageFlush k s) ∧
    (firstBusy s = none → FlushRequests s = { s with timer_active := false }) := by
  obtain ⟨q1, q2, q3, q4, q5, q6⟩ := queue_eq_nil s
  unfold firstBusy FlushRequests
  simp only [ne_eq, q1, q2, q3, q4, q5, q6]
  by_cases h1 : s.artists_requests_queue_ = []
  · by_cases h2 : s.albums_requests_queue_ = []
    · by_cases h3 : s.artist_albums_requests_queue_ = []
      · by_cases h4 : s.album_songs_requests_queue_ = []
        · by_cases h5 : s.songs_requests_queue_ = []
          · by_cases h6 : s.album_cover_requests_queue_ = []
            · simp [h1, h2, h3, h4, h5, h6]
            · simp only [h1, h2, h3, h4, h5, h6, not_true_eq_false, not_false_eq_true, if_true,
                if_false]
              exact ⟨fun k hk => by cases hk; rfl, fun hk => by cases hk⟩
          · simp only [h1, h2, h3, h4, h5, not_true_eq_false, not_false_eq_true, if_true,
              if_false]
            exact ⟨fun k hk => by cases hk; rfl, fun hk => by cases hk⟩
        · simp only [h1, h2, h3, h4, not_true_eq_false, not_false_eq_true, if_true, if_false]
          exact ⟨fun k hk => by cases hk; rfl, fun hk => by cases hk⟩
      · simp only [h1, h2, h3, not_true_eq_false, not_false_eq_true, if_true, if_false]
        exact ⟨fun k hk => by cases hk; rfl, fun hk => by cases hk⟩
    · simp only [h1, h2, not_true_eq_false, not_false_eq_true, if_true, if_false]
      exact ⟨fun k hk => by cases hk; rfl, fun hk => by cases hk⟩
  · simp only [h1, not_false_eq_true, if_true]
    exact ⟨fun k hk => by cases hk; rfl, fun hk => by cases hk⟩

theorem firstBusy_spec (s : State) :
    (firstBusy s = none ↔ ∀ k, s.queue k = []) ∧
    (∀ k, firstBusy s = some k → s.queue k ≠ []) := by
  unfold firstBusy
  by_cases h1 : s.queue Stage.artists = []
  · by_cases h2 : s.queue Stage.albums = []
    · by_cases h3 : s.queue Stage.artistAlbums = []
      · by_cases h4 : s.queue Stage.albumSongs = []
        · by_cases h5 : s.queue Stage.songs = []
          · by_cases h6 : s.queue Stage.albumCovers = []
            · simp only [h1, h2, h3, h4, h5, h6, ne_eq, not_true_eq_false, if_false, true_iff]
              exact ⟨fun k => by cases k <;> assumption, fun k hk => by cases hk⟩
            · simp only [h1, h2, h3, h4, h5, h6, ne_eq, not_true_eq_false, not_false_eq_true,
                if_true, if_false]
              exact ⟨⟨fun hk => Option.noConfusion hk, fun hk => absurd (hk _) h6⟩,
                fun k hk => by cases hk; exact h6⟩
          · simp only [h1, h2, h3, h4, h5, ne_eq, not_true_eq_false, not_false_eq_true,
              if_true, if_false]
            exact ⟨⟨fun hk => Option.noConfusion hk, fun hk => absurd (hk _) h5⟩,
              fun k hk => by cases hk; exact h5⟩
        · simp only [h1, h2, h3, h4, ne_eq, not_true_eq_false, not_false_eq_true, if_true,
            if_false]
          exact ⟨⟨fun hk => Option.noConfusion hk, fun hk => absurd (hk _) h4⟩,
            fun k hk => by cases hk; exact h4⟩
      · simp only [h1, h2, h3, ne_eq, not_true_eq_false, not_false_eq_true, if_true, if_false]
        exact ⟨⟨fun hk => Option.noConfusion hk, fun hk => absurd (hk _) h3⟩,
          fun k hk => by cases hk; exact h3⟩
    · simp only [h1, h2, ne_eq, not_true_eq_false, not_false_eq_true, if_true, if_false]
      exact ⟨⟨fun hk => Option.noConfusion hk, fun hk => absurd (hk _) h2⟩,
        fun k hk => by cases hk; exact h2⟩
  · simp only [h1, ne_eq, not_false_eq_true, if_true]
    exact ⟨⟨fun hk => Option.noConfusion hk, fun hk => absurd (hk _) h1⟩,
      fun k hk => by cases hk; exact h1⟩

/-! ## The batch release of pending child requests -/

theorem AddArtistAlbumsRequest_total (s : State) (a : Artist) (o : Int) :
    (AddArtistAlbumsRequest s a o).artist_albums_requests_total_ =
      s.artist_albums_requests_total_ + 1 := by
  unfold AddArtistAlbumsRequest StartRequests
  split <;> rfl

theorem AddAlbumSongsRequest_total (s : State) (a : Artist) (b : Album) (o : Int) :
    (AddAlbumSongsRequest s a b o).album_songs_requests_total_ =
      s.album_songs_requests_total_ + 1 := by
  unfold AddAlbumSongsRequest StartRequests
  split <;> rfl

theorem foldl_AddArtistAlbumsRequest_total (pending : List (String × ArtistAlbumsRequest)) :
    ∀ s : State,
      (pending.foldl (fun st kv => AddArtistAlbumsRequest st kv.2.artist 0)
        s).artist_albums_requests_total_ = s.artist_albums_requests_total_ + pending.length := by
  induction pending with
  | nil => intro s; simp
  | cons kv rest ih =>
    intro s
    rw [List.foldl_cons, ih, AddArtistAlbumsRequest_total, List.length_cons]
    push_cast
    ring

theorem foldl_AddAlbumSongsRequest_total (pending : List (String × AlbumSongsRequest)) :
    ∀ s : State,
      (pending.foldl (fun st kv => AddAlbumSongsRequest st kv.2.artist kv.2.album 0)
        s).album_songs_requests_total_ = s.album_songs_requests_total_ + pending.length := by
  induction pending with
  | nil => intro s; simp
  | cons kv rest ih =>
    intro s
    rw [List.foldl_cons, ih, AddAlbumSongsRequest_total, List.length_cons]
    push_cast
    ring

theorem ArtistsRelease_total (s : State)
    (hc : s.artists_requests_queue_ = [] ∧ s.artists_requests_active_ ≤ 0) :
    (ArtistsRelease s).artist_albums_requests_total_ =
      s.artist_albums_requests_total_ + s.artist_albums_requests_pending_.length := by
  unfold ArtistsRelease
  rw [if_pos hc]
  have hS := agree_artistAlbumsStatus (W := [Field.emitted]) (fun _ h => h)
    (AgreeOff.unchanged _ (clearArtistAlbumsPending
      (s.artist_albums_requests_pending_.foldl
        (fun st kv => AddArtistAlbumsRequest st kv.2.artist 0) s)))
  rw [hS.artist_albums_requests_total_ (by decide)]
  exact foldl_AddArtistAlbumsRequest_total _ s

theorem AlbumsRelease_total (s : State) (hc : ParentsDrained s) :
    (AlbumsRelease s).album_songs_requests_total_ =
      s.album_songs_requests_total_ + s.album_songs_requests_pending_.length := by
  unfold AlbumsRelease
  unfold ParentsDrained at hc
  rw [if_pos hc]
  have hS := agree_albumSongsStatus (W := [Field.emitted]) (fun _ h => h)
    (AgreeOff.unchanged _ (clearAlbumSongsPending
      (s.album_songs_requests_pending_.foldl
        (fun st kv => AddAlbumSongsRequest st kv.2.artist kv.2.album 0) s)))
  rw [hS.album_songs_requests_total_ (by decide)]
  exact foldl_AddAlbumSongsRequest_total _ s

/-- C21: `ArtistsFinishCheck`, run while the request is not finished, tests the artists stage
after its next-page block (the artists queue and active count it tests are those of the state
it leaves). When the stage is drained there, every pending artist yields exactly one queued
artist-albums request at offset 0, the pending set is emptied and
`artist_albums_requests_total_` grows by the number of entries; when it is not, pending set,
artist-albums queue and total are as before. `AlbumsFinishCheck` does the same for the pending
albums and the album-songs queue, its test being that the artists, albums and artist-albums
stages are drained. -/
theorem pending_released_when_parents_drained (env : Env) (s : State)
    (hf : s.finished_ = false) :
    (∀ l o r : Int,
      (((ArtistsNextPage env s l o r).artists_requests_queue_ = [] ∧
          (ArtistsNextPage env s l o r).artists_requests_active_ ≤ 0) ↔
        ((ArtistsFinishCheck env s l o r).artists_requests_queue_ = [] ∧
          (ArtistsFinishCheck env s l o r).artists_requests_active_ ≤ 0)) ∧
      (((ArtistsFinishCheck env s l o r).artists_requests_queue_ = [] ∧
          (ArtistsFinishCheck env s l o r).artists_requests_active_ ≤ 0) →
        (∃ added,
          (ArtistsFinishCheck env s l o r).artist_albums_requests_queue_ =
            s.artist_albums_requests_queue_ ++ added ∧
          added.Perm (s.artist_albums_requests_pending_.map
            (fun kv => ({ artist := kv.2.artist, offset := 0, limit := 0 } :
              ArtistAlbumsRequest)))) ∧
        (ArtistsFinishCheck env s l o r).artist_albums_requests_pending_ = [] ∧
        (ArtistsFinishCheck env s l o r).artist_albums_requests_total_ =
          s.artist_albums_requests_total_ + s.artist_albums_requests_pending_.length) ∧
      (¬ ((ArtistsFinishCheck env s l o r).artists_requests_queue_ = [] ∧
          (ArtistsFinishCheck env s l o r).artists_requests_active_ ≤ 0) →
        (ArtistsFinishCheck env s l o r).artist_albums_requests_pending_ =
          s.artist_albums_requests_pending_ ∧
        (ArtistsFinishCheck env s l o r).artist_albums_requests_queue_ =
          s.artist_albums_requests_queue_ ∧
        (ArtistsFinishCheck env s l o r).artist_albums_requests_total_ =
          s.artist_albums_requests_total_)) ∧
    (∀ (a : Artist) (l o n r : Int),
      (ParentsDrained (AlbumsNextPage env s a l o n r) ↔
        ParentsDrained (AlbumsFinishCheck env s a l o n r)) ∧
      (ParentsDrained (AlbumsFinishCheck env s a l o n r) →
        (∃ added,
          (AlbumsFinishCheck env s a l o n r).album_songs_requests_queue_ =
            s.album_songs_requests_queue_ ++ added ∧
          added.Perm (s.album_songs_requests_pending_.map
            (fun kv => ({ artist := kv.2.artist, album := kv.2.album, offset := 0,
                          limit := 0 } : AlbumSongsRequest)))) ∧
        (AlbumsFinishCheck env s a l o n r).album_songs_requests_pending_ = [] ∧
        (AlbumsFinishCheck env s a l o n r).album_songs_requests_total_ =
          s.album_songs_requests_total_ + s.album_songs_requests_pending_.length) ∧
      (¬ ParentsDrained (AlbumsFinishCheck env s a l o n r) →
        (AlbumsFinishCheck env s a l o n r).album_songs_requests_pending_ =
          s.album_songs_requests_pending_ ∧
        (AlbumsFinishCheck env s a l o n r).album_songs_requests_queue_ =
          s.album_songs_requests_queue_ ∧
        (AlbumsFinishCheck env s a l o n r).album_songs_requests_total_ =
          s.album_songs_requests_total_)) := by
  constructor
  · intro l o r
    have hN := agree_ArtistsNextPage (W := fpAddArtistsRequest) (fun _ h => h)
      (AgreeOff.unchanged _ s) env l o r
    have hR := agree_ArtistsRelease
      (W := fpAddArtistAlbumsRequest ++ [Field.artist_albums_requests_pending_, Field.emitted])
      (fun _ h => h) (AgreeOff.unchanged _ (ArtistsNextPage env s l o r))
    have hF := agree_FinishCheck (W := fpFinishCheck) (fun _ h => h)
      (AgreeOff.unchanged _ (ArtistsRelease (ArtistsNextPage env s l o r)))
    have e : ArtistsFinishCheck env s l o r =
        FinishCheck (ArtistsRelease (ArtistsNextPage env s l o r)) := by
      unfold ArtistsFinishCheck
      rw [if_neg (by simp [hf])]
    rw [e, hF.artists_requests_queue_ (by decide), hF.artists_requests_active_ (by decide),
      hF.artist_albums_requests_queue_ (by decide),
      hF.artist_albums_requests_pending_ (by decide),
      hF.artist_albums_requests_total_ (by decide),
      hR.artists_requests_queue_ (by decide), hR.artists_requests_active_ (by decide)]
    refine ⟨Iff.rfl, fun hc => ?_, fun hc => ?_⟩
    · obtain ⟨q1, q2⟩ := (ArtistsRelease_queue (ArtistsNextPage env s l o r)).1 hc
      rw [q1, q2, ArtistsRelease_total _ hc, hN.artist_albums_requests_queue_ (by decide),
        hN.artist_albums_requests_pending_ (by decide),
        hN.artist_albums_requests_total_ (by decide)]
      exact ⟨⟨_, rfl, List.Perm.refl _⟩, rfl, rfl⟩
    · rw [(ArtistsRelease_queue (ArtistsNextPage env s l o r)).2 hc]
      exact ⟨hN.artist_albums_requests_pending_ (by decide),
        hN.artist_albums_requests_queue_ (by decide),
        hN.artist_albums_requests_total_ (by decide)⟩
  · intro a l o n r
    have hN := agree_AlbumsNextPage (W := fpAddAlbumsRequest ++ fpAddArtistAlbumsRequest)
      (fun _ h => h) (AgreeOff.unchanged _ s) env a l o n r
    have hR := agree_AlbumsRelease
      (W := fpAddAlbumSongsRequest ++ [Field.album_songs_requests_pending_, Field.emitted])
      (fun _ h => h) (AgreeOff.unchanged _ (AlbumsNextPage env s a l o n r))
    have hF := agree_FinishCheck (W := fpGetAlbumCovers ++ fpFinishCheck) (by decide)
      (agree_GetAlbumCoversCheck (by decide)
        (AgreeOff.unchanged _ (AlbumsRelease (AlbumsNextPage env s a l o n r))) env)
    have e : AlbumsFinishCheck env s a l o n r =
        FinishCheck (GetAlbumCoversCheck env
          (AlbumsRelease (AlbumsNextPage env s a l o n r))) := by
      unfold AlbumsFinishCheck
      rw [if_neg (by simp [hf])]
    have hd : ParentsDrained (AlbumsNextPage env s a l o n r) ↔
        ParentsDrained (AlbumsFinishCheck env s a l o n r) := by
      rw [e]
      constructor
      · intro h
        exact (h.stays hR (by decide)).stays hF (by decide)
      · intro h
        unfold ParentsDrained at h ⊢
        rw [hF.artists_requests_queue_ (by decide), hF.artists_requests_active_ (by decide),
          hF.albums_requests_queue_ (by decide), hF.albums_requests_active_ (by decide),
          hF.artist_albums_requests_queue_ (by decide),
          hF.artist_albums_requests_active_ (by decide),
          hR.artists_requests_queue_ (by decide), hR.artists_requests_active_ (by decide),
          hR.albums_requests_queue_ (by decide), hR.albums_requests_active_ (by decide),
          hR.artist_albums_requests_queue_ (by decide),
          hR.artist_albums_requests_active_ (by decide)] at h
        exact h
    refine ⟨hd, fun hc => ?_, fun hc => ?_⟩
    · have hx := hd.mpr hc
      obtain ⟨q1, q2⟩ := (AlbumsRelease_queue (AlbumsNextPage env s a l o n r)).1 hx
      rw [e, hF.album_songs_requests_queue_ (by decide),
        hF.album_songs_requests_pending_ (by decide),
        hF.album_songs_requests_total_ (by decide), q1, q2, AlbumsRelease_total _ hx,
        hN.album_songs_requests_queue_ (by decide),
        hN.album_songs_requests_pending_ (by decide),
        hN.album_songs_requests_total_ (by decide)]
      exact ⟨⟨_, rfl, List.Perm.refl _⟩, rfl, rfl⟩
    · have hx : ¬ ParentsDrained (AlbumsNextPage env s a l o n r) := fun h => hc (hd.mp h)
      rw [e, hF.album_songs_requests_queue_ (by decide),
        hF.album_songs_requests_pending_ (by decide),
        hF.album_songs_requests_total_ (by decide),
        (AlbumsRelease_queue (AlbumsNextPage env s a l o n r)).2 hx]
      exact ⟨hN.album_songs_requests_pending_ (by decide),
        hN.album_songs_requests_queue_ (by decide),
        hN.album_songs_requests_total_ (by decide)⟩

/-- With the artists `a` and `b` pending and the artists stage drained, `ArtistsFinishCheck`
queues one artist-albums request at offset 0 for each, empties the pending set and counts two
requests. -/
theorem pending_released_when_parents_drained_witness :
    (ArtistsFinishCheck sampleEnv twoPendingArtists 0 0 0).artist_albums_requests_queue_ =
      [{ artist := { artist_id := "a", artist := "A" }, offset := 0, limit := 0 },
       { artist := { artist_id := "b", artist := "B" }, offset := 0, limit := 0 }] ∧
    (ArtistsFinishCheck sampleEnv twoPendingArtists 0 0 0).artist_albums_requests_pending_ = [] ∧
    (ArtistsFinishCheck sampleEnv twoPendingArtists 0 0 0).artist_albums_requests_total_ = 2 := by
  have h := ((pending_released_when_parents_drained sampleEnv twoPendingArtists rfl).1 0 0 0).2.1
    (by decide)
  refine ⟨by decide, h.2.1, ?_⟩
  rw [h.2.2]
  decide

theorem FlushArtistsLoop_fifo (q : List Request) :
    ∀ s : State, s.artists_requests_queue_ = q →
      ∃ n, (FlushArtistsLoop q s).artists_requests_queue_ = q.drop n ∧
        (FlushArtistsLoop q s).connections.map (fun c => c.2) =
          s.connections.map (fun c => c.2) ++
            (q.take n).filterMap (fun r =>
              if s.type_ = QueryType_Artists ∨ s.type_ = QueryType_SearchArtists then some (Callback.Artists r.limit r.offset) else none) ∧
        ((FlushArtistsLoop q s).artists_requests_queue_ = [] ∨ kMaxConcurrentArtistsRequests ≤ (FlushArtistsLoop q s).artists_requests_active_) ∧
        (s.artists_requests_active_ ≤ kMaxConcurrentArtistsRequests → (FlushArtistsLoop q s).artists_requests_active_ ≤ kMaxConcurrentArtistsRequests) := by
  induction q with
  | nil => intro s hq; exact ⟨0, hq, by simp [FlushArtistsLoop], Or.inl hq, fun h => h⟩
  | cons r q ih =>
    intro s hq
    unfold FlushArtistsLoop
    split
    · rename_i hlt
      split
      · rename_i ht
        obtain ⟨n, h1, h2, h3, h4⟩ := ih (artistsSent (issueReply { s with artists_requests_queue_ := q }
          (Callback.Artists r.limit r.offset))) rfl
        refine ⟨n + 1, h1, ?_, h3, fun _ => h4 (by
          show s.artists_requests_active_ + 1 ≤ kMaxConcurrentArtistsRequests
          omega)⟩
        rw [h2]
        simp only [artistsSent, issueReply, List.map_append, List.map_cons, List.map_nil,
          List.take_succ_cons, List.filterMap_cons, if_pos ht, List.append_assoc,
          List.singleton_append]
      · rename_i ht
        obtain ⟨n, h1, h2, h3, h4⟩ := ih { s with artists_requests_queue_ := q } rfl
        refine ⟨n + 1, h1, ?_, h3, h4⟩
        rw [h2]
        simp only [List.take_succ_cons, List.filterMap_cons, if_neg ht]
    · rename_i hlt
      exact ⟨0, hq, by simp, Or.inr (not_lt.mp hlt), fun h => h⟩

theorem FlushAlbumsLoop_fifo (q : List Request) :
    ∀ s : State, s.albums_requests_queue_ = q →
      ∃ n, (FlushAlbumsLoop q s).albums_requests_queue_ = q.drop n ∧
        (FlushAlbumsLoop q s).connections.map (fun c => c.2) =
          s.connections.map (fun c => c.2) ++
            (q.take n).filterMap (fun r =>
              if s.type_ = QueryType_Albums ∨ s.type_ = QueryType_SearchAlbums then some (Callback.Albums r.limit r.offset) else none) ∧
        ((FlushAlbumsLoop q s).albums_requests_queue_ = [] ∨ kMaxConcurrentAlbumsRequests ≤ (FlushAlbumsLoop q s).albums_requests_active_) ∧
        (s.albums_requests_active_ ≤ kMaxConcurrentAlbumsRequests → (FlushAlbumsLoop q s).albums_requests_active_ ≤ kMaxConcurrentAlbumsRequests) := by
  induction q with
  | nil => intro s hq; exact ⟨0, hq, by simp [FlushAlbumsLoop], Or.inl hq, fun h => h⟩
  | cons r q ih =>
    intro s hq
    unfold FlushAlbumsLoop
    split
    · rename_i hlt
      split
      · rename_i ht
        obtain ⟨n, h1, h2, h3, h4⟩ := ih (albumsSent (issueReply { s with albums_requests_queue_ := q }
          (Callback.Albums r.limit r.offset))) rfl
        refine ⟨n + 1, h1, ?_, h3, fun _ => h4 (by
          show s.albums_requests_active_ + 1 ≤ kMaxConcurrentAlbumsRequests
          omega)⟩
        rw [h2]
        simp only [albumsSent, issueReply, List.map_append, List.map_cons, List.map_nil,
          List.take_succ_cons, List.filterMap_cons, if_pos ht, List.append_assoc,
          List.singleton_append]
      · rename_i ht
        obtain ⟨n, h1, h2, h3, h4⟩ := ih { s with albums_requests_queue_ := q } rfl
        refine ⟨n + 1, h1, ?_, h3, h4⟩
        rw [h2]
        simp only [List.take_succ_cons, List.filterMap_cons, if_neg ht]
    · rename_i hlt
      exact ⟨0, hq, by simp, Or.inr (not_lt.mp hlt), fun h => h⟩

theorem FlushSongsLoop_fifo (q : List Request) :
    ∀ s : State, s.songs_requests_queue_ = q →
      ∃ n, (FlushSongsLoop q s).songs_requests_queue_ = q.drop n ∧
        (FlushSongsLoop q s).connections.map (fun c => c.2) =
          s.connections.map (fun c => c.2) ++
            (q.take n).filterMap (fun r =>
              if s.type_ = QueryType_Songs ∨ s.type_ = QueryType_SearchSongs then some (Callback.Songs r.limit r.offset) else none) ∧
        ((FlushSongsLoop q s).songs_requests_queue_ = [] ∨ kMaxConcurrentSongsRequests ≤ (FlushSongsLoop q s).songs_requests_active_) ∧
        (s.songs_requests_active_ ≤ kMaxConcurrentSongsRequests → (FlushSongsLoop q s).songs_requests_active_ ≤ kMaxConcurrentSongsRequests) := by
  induction q with
  | nil => intro s hq; exact ⟨0, hq, by simp [FlushSongsLoop], Or.inl hq, fun h => h⟩
  | cons r q ih =>
    intro s hq
    unfold FlushSongsLoop
    split
    · rename_i hlt
      split
      · rename_i ht
        obtain ⟨n, h1, h2, h3, h4⟩ := ih (songsSent (issueReply { s with songs_requests_queue_ := q }
          (Callback.Songs r.limit r.offset))) rfl
        refine ⟨n + 1, h1, ?_, h3, fun _ => h4 (by
          show s.songs_requests_active_ + 1 ≤ kMaxConcurrentSongsRequests
          omega)⟩
        rw [h2]
        simp only [songsSent, issueReply, List.map_append, List.map_cons, List.map_nil,
          List.take_succ_cons, List.filterMap_cons, if_pos ht, List.append_assoc,
          List.singleton_append]
      · rename_i ht
        obtain ⟨n, h1, h2, h3, h4⟩ := ih { s with songs_requests_queue_ := q } rfl
        refine ⟨n + 1, h1, ?_, h3, h4⟩
        rw [h2]
        simp only [List.take_succ_cons, List.filterMap_cons, if_neg ht]
    · rename_i hlt
      exact ⟨0, hq, by simp, Or.inr (not_lt.mp hlt), fun h => h⟩

theorem FlushArtistAlbumsLoop_fifo (q : List ArtistAlbumsRequest) :
    ∀ s : State, s.artist_albums_requests_queue_ = q →
      ∃ n, (FlushArtistAlbumsLoop q s).artist_albums_requests_queue_ = q.drop n ∧
        (FlushArtistAlbumsLoop q s).connections.map (fun c => c.2) =
          s.connections.map (fun c => c.2) ++ (q.take n).map (fun r => Callback.ArtistAlbums r.artist r.offset) ∧
        ((FlushArtistAlbumsLoop q s).artist_albums_requests_queue_ = [] ∨ kMaxConcurrentArtistAlbumsRequests ≤ (FlushArtistAlbumsLoop q s).artist_albums_requests_active_) ∧
        (s.artist_albums_requests_active_ ≤ kMaxConcurrentArtistAlbumsRequests → (FlushArtistAlbumsLoop q s).artist_albums_requests_active_ ≤ kMaxConcurrentArtistAlbumsRequests) := by
  induction q with
  | nil => intro s hq; exact ⟨0, hq, by simp [FlushArtistAlbumsLoop], Or.inl hq, fun h => h⟩
  | cons r q ih =>
    intro s hq
    unfold FlushArtistAlbumsLoop
    split
    · rename_i hlt
      obtain ⟨n, h1, h2, h3, h4⟩ := ih (artistAlbumsSent (issueReply { s with artist_albums_requests_queue_ := q }
        (Callback.ArtistAlbums r.artist r.offset))) rfl
      refine ⟨n + 1, h1, ?_, h3, fun _ => h4 (by
        show s.artist_albums_requests_active_ + 1 ≤ kMaxConcurrentArtistAlbumsRequests
        omega)⟩
      rw [h2]
      simp only [artistAlbumsSent, issueReply, List.map_append, List.map_cons, List.map_nil,
        List.take_succ_cons, List.append_assoc, List.singleton_append]
    · rename_i hlt
      exact ⟨0, hq, by simp, Or.inr (not_lt.mp hlt), fun h => h⟩

theorem FlushAlbumSongsLoop_fifo (q : List AlbumSongsRequest) :
    ∀ s : State, s.album_songs_requests_queue_ = q →
      ∃ n, (FlushAlbumSongsLoop q s).album_songs_requests_queue_ = q.drop n ∧
        (FlushAlbumSongsLoop q s).connections.map (fun c => c.2) =
          s.connections.map (fun c => c.2) ++ (q.take n).map (fun r => Callback.AlbumSongs r.artist r.album r.offset) ∧
        ((FlushAlbumSongsLoop q s).album_songs_requests_queue_ = [] ∨ kMaxConcurrentAlbumSongsRequests ≤ (FlushAlbumSongsLoop q s).album_songs_requests_active_) ∧
        (s.album_songs_requests_active_ ≤ kMaxConcurrentAlbumSongsRequests → (FlushAlbumSongsLoop q s).album_songs_requests_active_ ≤ kMaxConcurrentAlbumSongsRequests) := by
  induction q with
  | nil => intro s hq; exact ⟨0, hq, by simp [FlushAlbumSongsLoop], Or.inl hq, fun h => h⟩
  | cons r q ih =>
    intro s hq
    unfold FlushAlbumSongsLoop
    split
    · rename_i hlt
      obtain ⟨n, h1, h2, h3, h4⟩ := ih (albumSongsSent (issueReply { s with album_songs_requests_queue_ := q }
        (Callback.AlbumSongs r.artist r.album r.offset))) rfl
      refine ⟨n + 1, h1, ?_, h3, fun _ => h4 (by
        show s.album_songs_requests_active_ + 1 ≤ kMaxConcurrentAlbumSongsRequests
        omega)⟩
      rw [h2]
      simp only [albumSongsSent, issueReply, List.map_append, List.map_cons, List.map_nil,
        List.take_succ_cons, List.append_assoc, List.singleton_append]
    · rename_i hlt
      exact ⟨0, hq, by simp, Or.inr (not_lt.mp hlt), fun h => h⟩

theorem FlushAlbumCoverLoop_fifo (q : List AlbumCoverRequest) :
    ∀ s : State, s.album_cover_requests_queue_ = q →
      ∃ n, (FlushAlbumCoverLoop q s).album_cover_requests_queue_ = q.drop n ∧
        (FlushAlbumCoverLoop q s).connections.map (fun c => c.2) =
          s.connections.map (fun c => c.2) ++ (q.take n).map (fun r => Callback.AlbumCover r.url r.filename) ∧
        ((FlushAlbumCoverLoop q s).album_cover_requests_queue_ = [] ∨ kMaxConcurrentAlbumCoverRequests ≤ (FlushAlbumCoverLoop q s).album_covers_requests_active_) ∧
        (s.album_covers_requests_active_ ≤ kMaxConcurrentAlbumCoverRequests → (FlushAlbumCoverLoop q s).album_covers_requests_active_ ≤ kMaxConcurrentAlbumCoverRequests) := by
  induction q with
  | nil => intro s hq; exact ⟨0, hq, by simp [FlushAlbumCoverLoop], Or.inl hq, fun h => h⟩
  | cons r q ih =>
    intro s hq
    unfold FlushAlbumCoverLoop
    split
    · rename_i hlt
      obtain ⟨n, h1, h2, h3, h4⟩ := ih (albumCoverSent (issueCoverReply { s with album_cover_requests_queue_ := q }
        (Callback.AlbumCover r.url r.filename))) rfl
      refine ⟨n + 1, h1, ?_, h3, fun _ => h4 (by
        show s.album_covers_requests_active_ + 1 ≤ kMaxConcurrentAlbumCoverRequests
        omega)⟩
      rw [h2]
      simp only [albumCoverSent, issueCoverReply, List.map_append, List.map_cons, List.map_nil,
        List.take_succ_cons, List.append_assoc, List.singleton_append]
    · rename_i hlt
      exact ⟨0, hq, by simp, Or.inr (not_lt.mp hlt), fun h => h⟩

/-! ## The concurrency caps -/

theorem stageFlush_fifo (k : Stage) (s : State) :
    ∃ n, (stageFlush k s).queue k = (s.queue k).drop n ∧
      (stageFlush k s).connections.map (fun c => c.2) =
        s.connections.map (fun c => c.2) ++
          ((s.queue k).take n).filterMap (stageSlot s.type_ k) ∧
      ((stageFlush k s).queue k = [] ∨ k.cap ≤ (stageFlush k s).active k) ∧
      (s.active k ≤ k.cap → (stageFlush k s).active k ≤ k.cap) := by
  cases k
  · obtain ⟨n, h1, h2, h3, h4⟩ := FlushArtistsLoop_fifo _ s rfl
    refine ⟨n, ?_, ?_, ?_, h4⟩
    · simp only [stageFlush, FlushArtistsRequests, State.queue, h1, List.map_drop]
    · simp only [stageFlush, FlushArtistsRequests, State.queue, h2, ← List.map_take,
        List.filterMap_map]
      rfl
    · simpa only [stageFlush, FlushArtistsRequests, State.queue, List.map_eq_nil_iff] using h3
  · obtain ⟨n, h1, h2, h3, h4⟩ := FlushAlbumsLoop_fifo _ s rfl
    refine ⟨n, ?_, ?_, ?_, h4⟩
    · simp only [stageFlush, FlushAlbumsRequests, State.queue, h1, List.map_drop]
    · simp only [stageFlush, FlushAlbumsRequests, State.queue, h2, ← List.map_take,
        List.filterMap_map]
      rfl
    · simpa only [stageFlush, FlushAlbumsRequests, State.queue, List.map_eq_nil_iff] using h3
  · obtain ⟨n, h1, h2, h3, h4⟩ := FlushSongsLoop_fifo _ s rfl
    refine ⟨n, ?_, ?_, ?_, h4⟩
    · simp only [stageFlush, FlushSongsRequests, State.queue, h1, List.map_drop]
    · simp only [stageFlush, FlushSongsRequests, State.queue, h2, ← List.map_take,
        List.filterMap_map]
      rfl
    · simpa only [stageFlush, FlushSongsRequests, State.queue, List.map_eq_nil_iff] using h3
  · obtain ⟨n, h1, h2, h3, h4⟩ := FlushArtistAlbumsLoop_fifo _ s rfl
    refine ⟨n, ?_, ?_, ?_, h4⟩
    · simp only [stageFlush, FlushArtistAlbumsRequests, State.queue, h1, List.map_drop]
    · simp only [stageFlush, FlushArtistAlbumsRequests, State.queue, h2, ← List.map_take,
        List.filterMap_map]
      congr 1
      rw [← List.filterMap_eq_map]
      rfl
    · simpa only [stageFlush, FlushArtistAlbumsRequests, State.queue, List.map_eq_nil_iff]
        using h3
  · obtain ⟨n, h1, h2, h3, h4⟩ := FlushAlbumSongsLoop_fifo _ s rfl
    refine ⟨n, ?_, ?_, ?_, h4⟩
    · simp only [stageFlush, FlushAlbumSongsRequests, State.queue, h1, List.map_drop]
    · simp only [stageFlush, FlushAlbumSongsRequests, State.queue, h2, ← List.map_take,
        List.filterMap_map]
      congr 1
      rw [← List.filterMap_eq_map]
      rfl
    · simpa only [stageFlush, FlushAlbumSongsRequests, State.queue, List.map_eq_nil_iff]
        using h3
  · obtain ⟨n, h1, h2, h3, h4⟩ := FlushAlbumCoverLoop_fifo _ s rfl
    refine ⟨n, ?_, ?_, ?_, h4⟩
    · simp only [stageFlush, FlushAlbumCoverRequests, State.queue, h1, List.map_drop]
    · simp only [stageFlush, FlushAlbumCoverRequests, State.queue, h2, ← List.map_take,
        List.filterMap_map]
      congr 1
      rw [← List.filterMap_eq_map]
      rfl
    · simpa only [stageFlush, FlushAlbumCoverRequests, State.queue, List.map_eq_nil_iff]
        using h3

theorem settled_active_le {W : List Field} {s y : State} (hag : AgreeOff W s y)
    (hW : ∀ f ∈ [Field.artists_requests_active_, Field.albums_requests_active_,
      Field.songs_requests_active_, Field.artist_albums_requests_active_,
      Field.album_songs_requests_active_, Field.album_covers_requests_active_], f ∉ W)
    (k : Stage) : y.active k ≤ s.active k :=
  le_of_eq (active_of_agree hag hW k)

theorem ArtistsReplyReceived_active_le (env : Env) (s : State) (reply : QNetworkReply)
    (l o : Int) (k : Stage) : (ArtistsReplyReceived env s reply l o).active k ≤ s.active k := by
  unfold ArtistsReplyReceived
  split
  · exact le_refl _
  · refine le_trans (settled_active_le (agree_ArtistsSettled (W := fpArtistsBody)
      (fun _ h => h) (AgreeOff.unchanged _ _) env reply l o) (by decide) k) ?_
    have h1 := active_of_agree (agree_GetReplyData (W := fpError ++ [Field.replies_,
      Field.connections]) (by decide) (agree_takeReply (by decide) (AgreeOff.unchanged _ s)
      reply.handle) reply) (by decide)
    cases k <;> simp only [State.active, artistsSettled]
    · have := h1 Stage.artists
      simp only [State.active] at this
      omega
    · exact le_of_eq (h1 Stage.albums)
    · exact le_of_eq (h1 Stage.songs)
    · exact le_of_eq (h1 Stage.artistAlbums)
    · exact le_of_eq (h1 Stage.albumSongs)
    · exact le_of_eq (h1 Stage.albumCovers)

theorem AlbumsReceived_active_eq (env : Env) (x : State) (reply : QNetworkReply) (a : Artist)
    (l o : Int) (k : Stage) : (AlbumsReceived env x reply a l o).active k = x.active k :=
  active_of_agree (agree_AlbumsReceived (W := fpAlbumsReceived) (fun _ h => h)
    (AgreeOff.unchanged _ x) env reply a l o) (by decide) k

theorem SongsReceived_active_eq (env : Env) (x : State) (reply : QNetworkReply) (a : Artist)
    (b : Album) (l o : Int) (k : Stage) :
    (SongsReceived env x reply a b l o).active k = x.active k :=
  active_of_agree (agree_SongsReceived (W := fpSongsReceived) (fun _ h => h)
    (AgreeOff.unchanged _ x) env reply a b l o) (by decide) k

theorem AlbumCoverReceived_active_le (env : Env) (s : State) (reply : QNetworkReply)
    (url filename : String) (k : Stage) :
    (AlbumCoverReceived env s reply url filename).active k ≤ s.active k := by
  unfold AlbumCoverReceived
  split
  · exact le_of_eq (active_of_agree (agree_AlbumCoverFinishCheck (W := fpFinishCheck)
      (fun _ h => h) (AgreeOff.unchanged _ s)) (by decide) k)
  · refine le_trans (settled_active_le (agree_AlbumCoverSettled (W := fpAlbumCoverBody)
      (fun _ h => h) (AgreeOff.unchanged _ _) env reply url filename) (by decide) k) ?_
    cases k <;> simp only [State.active, albumCoverSettled, takeCoverReply] <;> omega

/-- A reply handler raises no active count. -/
theorem dispatch_active_le (env : Env) (s : State) (reply : QNetworkReply) (slot : Callback)
    (k : Stage) : (dispatch env s reply slot).active k ≤ s.active k := by
  cases slot with
  | Artists l o => exact ArtistsReplyReceived_active_le env s reply l o k
  | Albums l o =>
    simp only [dispatch, AlbumsReplyReceived]
    rw [AlbumsReceived_active_eq]
    cases k <;> simp only [State.active, albumsSettled] <;> omega
  | Songs l o =>
    simp only [dispatch, SongsReplyReceived]
    rw [SongsReceived_active_eq]
    cases k <;> simp only [State.active, songsSettled] <;> omega
  | ArtistAlbums a o =>
    simp only [dispatch, ArtistAlbumsReplyReceived]
    rw [AlbumsReceived_active_eq]
    cases k <;> simp only [State.active, artistAlbumsSettled, artistAlbumsProgress, emit] <;>
      omega
  | AlbumSongs a b o =>
    simp only [dispatch, AlbumSongsReplyReceived]
    rw [SongsReceived_active_eq]
    have e := active_of_agree (agree_albumSongsProgress (W := [Field.emitted]) (fun _ h => h)
      (AgreeOff.unchanged _ (albumSongsSettled s)) o) (by decide) k
    rw [e]
    cases k <;> simp only [State.active, albumSongsSettled] <;> omega
  | AlbumCover url filename => exact AlbumCoverReceived_active_le env s reply url filename k

theorem Capped_FlushRequests {s : State} (h : Capped s) : Capped (FlushRequests s) := by
  intro j
  cases hb : firstBusy s with
  | none =>
    rw [(FlushRequests_firstBusy s).2 hb]
    exact h j
  | some k =>
    rw [(FlushRequests_firstBusy s).1 k hb]
    by_cases hj : j = k
    · subst hj
      obtain ⟨n, _, _, _, h4⟩ := stageFlush_fifo j s
      exact h4 (h j)
    · rw [((stageFlush_others k s).1 j hj).2]
      exact h j

theorem Capped_step (env : Env) {s : State} (h : Capped s) (input : Input) :
    Capped (step env s input) := by
  cases input with
  | Tick =>
    simp only [step]
    split
    · exact Capped_FlushRequests h
    · exact h
  | Finished reply =>
    simp only [step]
    split
    · exact fun k => le_trans (dispatch_active_le env s reply _ k) (h k)
    · exact h

theorem Capped_Process (env : Env) (type : QueryType) : Capped (Process env (State.init type)) := by
  intro k
  have e : (Process env (State.init type)).active k = 0 := by
    have ag : AgreeOff (fpAddArtistsRequest ++ fpAddAlbumsRequest ++ fpAddSongsRequest ++
        fpError) (State.init type) (Process env (State.init type)) := by
      unfold Process
      cases type <;>
        simp only [State.init, GetArtists, GetAlbums, GetSongs, ArtistsSearch, AlbumsSearch,
          SongsSearch, AddArtistsSearchRequest, AddAlbumsSearchRequest, AddSongsSearchRequest] <;>
        first
          | exact agree_AddArtistsRequest (by decide) (agree_emit (by decide) (agree_emit (by decide) (AgreeOff.unchanged _ _) _) _) _ _
          | exact agree_AddAlbumsRequest (by decide) (agree_emit (by decide) (agree_emit (by decide) (AgreeOff.unchanged _ _) _) _) _ _
          | exact agree_AddSongsRequest (by decide) (agree_emit (by decide) (agree_emit (by decide) (AgreeOff.unchanged _ _) _) _) _ _
          | exact agree_Error (by decide) (AgreeOff.unchanged _ _) _
    rw [active_of_agree ag (by decide) k]
    cases k <;> rfl
  rw [e]
  cases k <;> decide

theorem Capped_steps (env : Env) (inputs : List Input) :
    ∀ s, Capped s → Capped (inputs.foldl (step env) s) := by
  induction inputs with
  | nil => intro s h; exact h
  | cons input rest ih => intro s h; exact ih _ (Capped_step env h input)

theorem Capped_run (env : Env) (type : QueryType) (inputs : List Input) :
    Capped (run env type inputs) :=
  Capped_steps env inputs _ (Capped_Process env type)

/-- C23: in every state a run reaches, the active count of every stage is at most its cap (3 for
the artists, albums, songs, artist-albums and album-songs stages, 1 for the album covers); and
the flush of a stage whose active count is within its cap takes the requests off the head of
the stage's queue, connects their replies in that order, and stops with the queue empty or the
active count equal to the cap. -/
theorem active_counts_stay_within_caps :
    Stage.cap Stage.artists = 3 ∧ Stage.cap Stage.albums = 3 ∧ Stage.cap Stage.songs = 3 ∧
    Stage.cap Stage.artistAlbums = 3 ∧ Stage.cap Stage.albumSongs = 3 ∧
    Stage.cap Stage.albumCovers = 1 ∧
    (∀ (env : Env) (type : QueryType) (inputs : List Input) (k : Stage),
      (run env type inputs).active k ≤ k.cap) ∧
    (∀ (k : Stage) (s : State), s.active k ≤ k.cap →
      ∃ n, (stageFlush k s).queue k = (s.queue k).drop n ∧
        (stageFlush k s).connections.map (fun c => c.2) =
          s.connections.map (fun c => c.2) ++
            ((s.queue k).take n).filterMap (stageSlot s.type_ k) ∧
        ((stageFlush k s).queue k = [] ∨ (stageFlush k s).active k = k.cap) ∧
        (stageFlush k s).active k ≤ k.cap) := by
  refine ⟨rfl, rfl, rfl, rfl, rfl, rfl, fun env type inputs k => Capped_run env type inputs k,
    fun k s hs => ?_⟩
  obtain ⟨n, h1, h2, h3, h4⟩ := stageFlush_fifo k s
  exact ⟨n, h1, h2, h3.imp id (fun h => le_antisymm (h4 hs) h), h4 hs⟩

/-- With five artist-albums requests queued and none in flight, the flush sends the first three
in order and leaves the last two queued. -/
theorem active_counts_stay_within_caps_witness :
    (stageFlush Stage.artistAlbums fiveQueuedState).artist_albums_requests_queue_.map
      (fun r => r.artist.artist_id) = ["d", "e"] ∧
    (stageFlush Stage.artistAlbums fiveQueuedState).connections.map
      (fun c => c.2.stage) = [Stage.artistAlbums, Stage.artistAlbums, Stage.artistAlbums] ∧
    (stageFlush Stage.artistAlbums fiveQueuedState).active Stage.artistAlbums = 3 := by
  obtain ⟨n, h1, h2, h3, h4⟩ := active_counts_stay_within_caps.2.2.2.2.2.2.2
    Stage.artistAlbums fiveQueuedState (by decide)
  refine ⟨by decide, by decide, ?_⟩
  rcases h3 with h3 | h3
  · exact absurd h3 (by decide)
  · exact h3

/-! ## The flush timer -/

theorem TimerLive.of_active {s : State} (h : s.timer_active = true) : TimerLive s :=
  fun _ => h

theorem TimerLive.of_empty {s : State} (h : ∀ k, s.queue k = []) : TimerLive s :=
  fun ⟨k, hk⟩ => absurd (h k) hk

theorem TimerLive.kept_live {W : List Field} {s t : State} (h : TimerLive s)
    (hag : AgreeOff W s t) (hW : ∀ f ∈ fpTimerLive, f ∉ W) : TimerLive t := by
  rintro ⟨k, hk⟩
  rw [hag.timer_active (hW _ (by decide))]
  refine h ⟨k, ?_⟩
  rwa [← queue_of_agree hag (fun f hf => hW f (List.mem_cons_of_mem _ hf)) k]

theorem quiescent_queues {s : State} (h : Quiescent s) (k : Stage) : s.queue k = [] := by
  obtain ⟨h1, h2, h3, h4, h5, h6, -⟩ := h
  cases k <;> simp [State.queue, *]

theorem FinishCheck_stops {s : State} (h : (FinishCheck s).timer_active ≠ s.timer_active) :
    Quiescent s := by
  by_cases h1 : s.finished_ = false ∧ Quiescent s
  · exact h1.2
  · exact absurd (by simp [FinishCheck, h1]) h

theorem TimerLive_FinishCheck {s : State} (h : TimerLive s) : TimerLive (FinishCheck s) := by
  by_cases h1 : s.finished_ = false ∧ Quiescent s
  · have ag := agree_FinishCheck (W := fpFinishCheck) (fun _ h => h) (AgreeOff.unchanged _ s)
    exact TimerLive.of_empty
      (fun k => (queue_of_agree ag (by decide) k).trans (quiescent_queues h1.2 k))
  · rw [show FinishCheck s = s by simp [FinishCheck, h1]]
    exact h

theorem TimerLive_Error (s : State) (e : String) (h : TimerLive s) : TimerLive (Error s e) := by
  unfold Error
  apply TimerLive_FinishCheck
  split
  · exact h.kept_live (W := [Field.errors_])
      (by constructor <;> intro hn <;> first | rfl | exact absurd (by decide) hn) (by decide)
  · exact h

theorem TimerLive_foldl {β : Type} (f : State → β → State)
    (hf : ∀ s b, TimerLive s → TimerLive (f s b)) (l : List β) :
    ∀ s, TimerLive s → TimerLive (l.foldl f s) := by
  induction l with
  | nil => intro s h; exact h
  | cons b l ih => intro s h; exact ih _ (hf s b h)

theorem StartRequests_active (s : State) : (StartRequests s).timer_active = true := by
  cases h : s.timer_active <;> simp [StartRequests, h]

theorem TimerLive_ArtistsItem (s : State) (v : QJsonValue) (h : TimerLive s) :
    TimerLive (ArtistsItem s v) := by
  unfold ArtistsItem ArtistsItemObject
  repeat' first
    | with_reducible apply TimerLive_Error
    | split
    | exact h
    | exact h.kept_live (W := [Field.artist_albums_requests_pending_])
        (by constructor <;> intro hn <;> first | rfl | exact absurd (by decide) hn) (by decide)

theorem TimerLive_AlbumsItem (a : Artist) (s : State) (v : QJsonValue) (h : TimerLive s) :
    TimerLive (AlbumsItem a s v) := by
  unfold AlbumsItem AlbumsItemArtist
  repeat' first
    | with_reducible apply TimerLive_Error
    | split
    | exact h
    | exact h.kept_live (W := [Field.album_songs_requests_pending_])
        (by constructor <;> intro hn <;> first | rfl | exact absurd (by decide) hn) (by decide)

theorem steady_TimerLive {V : List Field} (hV : ∀ f ∈ fpTimerLive, f ∉ V) :
    Steady V TimerLive :=
  ⟨fun _ _ hab h => h.kept_live hab hV, TimerLive_Error⟩

theorem TimerLive_ArtistsNextPage (env : Env) {s : State} (h : TimerLive s) (l o r : Int) :
    TimerLive (ArtistsNextPage env s l o r) := by
  unfold ArtistsNextPage
  repeat' first
    | exact h
    | exact TimerLive.of_active (StartRequests_active _)
    | split

theorem TimerLive_ArtistsRelease {s : State} (h : TimerLive s) : TimerLive (ArtistsRelease s) := by
  unfold ArtistsRelease
  split
  · exact (TimerLive_foldl _ (fun _ _ _ => TimerLive.of_active (StartRequests_active _)) _ s
      h).kept_live
      (agree_artistAlbumsStatus (W := [Field.artist_albums_requests_pending_, Field.emitted])
        (by decide) (agree_clearArtistAlbumsPending (by decide) (AgreeOff.unchanged _ _)))
      (by decide)
  · exact h

theorem TimerLive_AlbumsNextPage (env : Env) {s : State} (h : TimerLive s) (a : Artist)
    (l o n r : Int) : TimerLive (AlbumsNextPage env s a l o n r) := by
  unfold AlbumsNextPage
  repeat' first
    | exact h
    | exact TimerLive.of_active (StartRequests_active _)
    | split

theorem TimerLive_AlbumsRelease {s : State} (h : TimerLive s) : TimerLive (AlbumsRelease s) := by
  unfold AlbumsRelease
  split
  · exact (TimerLive_foldl _ (fun _ _ _ => TimerLive.of_active (StartRequests_active _)) _ s
      h).kept_live
      (agree_albumSongsStatus (W := [Field.album_songs_requests_pending_, Field.emitted])
        (by decide) (agree_clearAlbumSongsPending (by decide) (AgreeOff.unchanged _ _)))
      (by decide)
  · exact h

theorem TimerLive_SongsNextPage (env : Env) {s : State} (h : TimerLive s) (a : Artist)
    (b : Album) (l o n r : Int) : TimerLive (SongsNextPage env s a b l o n r) := by
  unfold SongsNextPage
  repeat' first
    | exact h
    | exact TimerLive.of_active (StartRequests_active _)
    | split

theorem TimerLive_GetAlbumCoversCheck (env : Env) {s : State} (h : TimerLive s) :
    TimerLive (GetAlbumCoversCheck env s) := by
  unfold GetAlbumCoversCheck
  split
  · exact TimerLive.of_active (StartRequests_active _)
  · exact h

theorem TimerLive_ArtistsFinishCheck (env : Env) {s : State} (h : TimerLive s) (l o r : Int) :
    TimerLive (ArtistsFinishCheck env s l o r) := by
  unfold ArtistsFinishCheck
  split
  · exact h
  · exact TimerLive_FinishCheck (TimerLive_ArtistsRelease (TimerLive_ArtistsNextPage env h l o r))

theorem TimerLive_AlbumsFinishCheck (env : Env) {s : State} (h : TimerLive s) (a : Artist)
    (l o n r : Int) : TimerLive (AlbumsFinishCheck env s a l o n r) := by
  unfold AlbumsFinishCheck
  split
  · exact h
  · exact TimerLive_FinishCheck (TimerLive_GetAlbumCoversCheck env
      (TimerLive_AlbumsRelease (TimerLive_AlbumsNextPage env h a l o n r)))

theorem TimerLive_SongsFinishCheck (env : Env) {s : State} (h : TimerLive s) (a : Artist)
    (b : Album) (l o n r : Int) : TimerLive (SongsFinishCheck env s a b l o n r) := by
  unfold SongsFinishCheck
  split
  · exact h
  · exact TimerLive_FinishCheck (TimerLive_GetAlbumCoversCheck env
      (TimerLive_SongsNextPage env h a b l o n r))

theorem TimerLive_GetReplyData (s : State) (reply : QNetworkReply) (h : TimerLive s) :
    TimerLive (GetReplyData s reply) :=
  TimerLive_foldl Error (fun s e hs => TimerLive_Error s e hs) _ s h

theorem TimerLive_ArtistsReplyReceived (env : Env) {s : State} (h : TimerLive s)
    (reply : QNetworkReply) (l o : Int) : TimerLive (ArtistsReplyReceived env s reply l o) := by
  unfold ArtistsReplyReceived
  split
  · exact h
  · have h1 : TimerLive (artistsSettled (GetReplyData (takeReply s reply.handle) reply)) :=
      (TimerLive_GetReplyData _ reply (h.kept_live (agree_takeReply
        (W := [Field.replies_, Field.connections]) (fun _ h => h) (AgreeOff.unchanged _ s) _)
        (by decide))).kept_live
        (agree_artistsSettled (W := [Field.artists_requests_active_,
          Field.artists_requests_received_]) (fun _ h => h) (AgreeOff.unchanged _ _)) (by decide)
    obtain ⟨z, l1, o1, r1, hz, hu⟩ := ArtistsSettled_factor env (P := TimerLive)
      (steady_TimerLive (by decide)) TimerLive_ArtistsItem (Before.start h1) reply l o
    rcases hu with hu | ⟨e, hu⟩ <;> rw [hu]
    · exact TimerLive_ArtistsFinishCheck env hz.holds l1 o1 r1
    · exact TimerLive_Error _ e (TimerLive_ArtistsFinishCheck env hz.holds l1 o1 r1)

theorem TimerLive_AlbumsReceived (env : Env) {s : State} (h : TimerLive s)
    (reply : QNetworkReply) (a : Artist) (l o : Int) :
    TimerLive (AlbumsReceived env s reply a l o) := by
  unfold AlbumsReceived
  split
  · exact h
  · have h1 : TimerLive (GetReplyData (takeReply s reply.handle) reply) :=
      TimerLive_GetReplyData _ reply (h.kept_live (agree_takeReply
        (W := [Field.replies_, Field.connections]) (fun _ h => h) (AgreeOff.unchanged _ s) _)
        (by decide))
    obtain ⟨z, l1, o1, n1, r1, hz, hu⟩ := AlbumsSettled_factor env (P := TimerLive)
      (steady_TimerLive (by decide)) a (TimerLive_AlbumsItem a) (Before.start h1) reply l o
    rcases hu with hu | ⟨e, hu⟩ <;> rw [hu]
    · exact TimerLive_AlbumsFinishCheck env hz.holds a l1 o1 n1 r1
    · exact TimerLive_Error _ e (TimerLive_AlbumsFinishCheck env hz.holds a l1 o1 n1 r1)

theorem TimerLive_SongsReceived (env : Env) {s : State} (h : TimerLive s)
    (reply : QNetworkReply) (a : Artist) (b : Album) (l o : Int) :
    TimerLive (SongsReceived env s reply a b l o) := by
  unfold SongsReceived
  split
  · exact h
  · have h1 : TimerLive (GetReplyData (takeReply s reply.handle) reply) :=
      TimerLive_GetReplyData _ reply (h.kept_live (agree_takeReply
        (W := [Field.replies_, Field.connections]) (fun _ h => h) (AgreeOff.unchanged _ s) _)
        (by decide))
    obtain ⟨z, a1, b1, l1, o1, n1, r1, hz, hu⟩ := SongsSettled_factor env (P := TimerLive)
      (steady_TimerLive (by decide)) (Before.start h1) reply a b l o
    rcases hu with hu | ⟨e, hu⟩ <;> rw [hu]
    · exact TimerLive_SongsFinishCheck env hz.holds a1 b1 l1 o1 n1 r1
    · exact TimerLive_Error _ e (TimerLive_SongsFinishCheck env hz.holds a1 b1 l1 o1 n1 r1)

theorem TimerLive_removeCover (s : State) (url : String) (h : TimerLive s) :
    TimerLive (removeCover s url) :=
  h.kept_live (agree_removeCover (W := [Field.album_covers_requests_sent_]) (fun _ h => h)
    (AgreeOff.unchanged _ s) url) (by decide)

theorem TimerLive_applyCover (s : State) (url filename : String) (h : TimerLive s) :
    TimerLive (applyCover s url filename) :=
  h.kept_live (agree_applyCover (W := [Field.songs_, Field.album_covers_requests_sent_])
    (fun _ h => h) (AgreeOff.unchanged _ s) url filename) (by decide)

theorem TimerLive_AlbumCoverBody (env : Env) (s : State) (reply : QNetworkReply)
    (url filename : String) (h : TimerLive s) :
    TimerLive (AlbumCoverBody env s reply url filename) := by
  unfold AlbumCoverBody AlbumCoverFinishCheck
  repeat' first
    | with_reducible apply TimerLive_FinishCheck
    | with_reducible apply TimerLive_Error
    | with_reducible apply TimerLive_removeCover
    | with_reducible apply TimerLive_applyCover
    | split
    | exact h

theorem TimerLive_AlbumCoverReceived (env : Env) {s : State} (h : TimerLive s)
    (reply : QNetworkReply) (url filename : String) :
    TimerLive (AlbumCoverReceived env s reply url filename) := by
  unfold AlbumCoverReceived AlbumCoverSettled AlbumCoverFinishCheck
  have h1 : TimerLive (albumCoverSettled (takeCoverReply s reply.handle)) :=
    h.kept_live (agree_albumCoverSettled (W := [Field.album_cover_replies_, Field.connections,
      Field.album_covers_requests_active_, Field.album_covers_requests_received_]) (by decide)
      (agree_takeCoverReply (by decide) (AgreeOff.unchanged _ s) _)) (by decide)
  split
  · exact TimerLive_FinishCheck h
  · split
    · exact h1
    · exact TimerLive_AlbumCoverBody env _ reply url filename
        (h1.kept_live (agree_albumCoverProgress (W := [Field.emitted]) (fun _ h => h)
          (AgreeOff.unchanged _ _)) (by decide))

theorem TimerLive_dispatch (env : Env) {s : State} (h : TimerLive s) (reply : QNetworkReply)
    (slot : Callback) : TimerLive (dispatch env s reply slot) := by
  cases slot with
  | Artists l o => exact TimerLive_ArtistsReplyReceived env h reply l o
  | Albums l o =>
    exact TimerLive_AlbumsReceived env (h.kept_live (agree_albumsSettled
      (W := [Field.albums_requests_active_, Field.albums_requests_received_]) (fun _ h => h)
      (AgreeOff.unchanged _ s)) (by decide)) reply _ l o
  | Songs l o =>
    exact TimerLive_SongsReceived env (h.kept_live (agree_songsSettled
      (W := [Field.songs_requests_active_, Field.songs_requests_received_]) (fun _ h => h)
      (AgreeOff.unchanged _ s)) (by decide)) reply _ _ l o
  | ArtistAlbums a o =>
    exact TimerLive_AlbumsReceived env (h.kept_live (agree_artistAlbumsProgress
      (W := [Field.artist_albums_requests_active_, Field.artist_albums_requests_received_,
        Field.emitted]) (by decide) (agree_artistAlbumsSettled (by decide)
      (AgreeOff.unchanged _ s))) (by decide)) reply a 0 o
  | AlbumSongs a b o =>
    exact TimerLive_SongsReceived env (h.kept_live (agree_albumSongsProgress
      (W := [Field.album_songs_requests_active_, Field.album_songs_requests_received_,
        Field.emitted]) (by decide) (agree_albumSongsSettled (by decide)
      (AgreeOff.unchanged _ s)) o) (by decide)) reply a b 0 o
  | AlbumCover url filename => exact TimerLive_AlbumCoverReceived env h reply url filename

theorem TimerLive_FlushRequests {s : State} (h : TimerLive s) : TimerLive (FlushRequests s) := by
  cases hb : firstBusy s with
  | none =>
    rw [(FlushRequests_firstBusy s).2 hb]
    exact TimerLive.of_empty (fun k => (firstBusy_spec s).1.mp hb k)
  | some k =>
    rw [(FlushRequests_firstBusy s).1 k hb]
    refine TimerLive.of_active ?_
    rw [(stageFlush_others k s).2]
    exact h ⟨k, (firstBusy_spec s).2 k hb⟩

theorem TimerLive_step (env : Env) {s : State} (h : TimerLive s) (input : Input) :
    TimerLive (step env s input) := by
  cases input with
  | Tick =>
    simp only [step]
    split
    · exact TimerLive_FlushRequests h
    · exact h
  | Finished reply =>
    simp only [step]
    split
    · exact TimerLive_dispatch env h reply _
    · exact h

theorem TimerLive_Process (env : Env) (type : QueryType) :
    TimerLive (Process env (State.init type)) := by
  cases type <;> first
    | exact TimerLive.of_active (StartRequests_active _)
    | exact TimerLive_Error _ _ (TimerLive.of_empty (fun k => by cases k <;> rfl))

theorem TimerLive_steps (env : Env) (inputs : List Input) :
    ∀ s, TimerLive s → TimerLive (inputs.foldl (step env) s) := by
  induction inputs with
  | nil => intro s h; exact h
  | cons input rest ih => intro s h; exact ih _ (TimerLive_step env h input)

theorem TimerLive_run (env : Env) (type : QueryType) (inputs : List Input) :
    TimerLive (run env type inputs) :=
  TimerLive_steps env inputs _ (TimerLive_Process env type)

/-- C24: in every state a run reaches (finished or not), a non-empty stage queue means the flush
timer is active; each of the six enqueue operations leaves the timer active whatever it was
before; and the timer is stopped only with all six queues empty: a flush tick that stops it
finds all queues empty, a `FinishCheck` that stops it runs in a quiescent state, and a delivery
in a run that leaves the timer stopped leaves every queue empty. -/
theorem flush_timer_runs_while_requests_are_queued :
    (∀ (env : Env) (type : QueryType) (inputs : List Input),
      (∃ k, (run env type inputs).queue k ≠ []) → (run env type inputs).timer_active = true) ∧
    (∀ (s : State) (o l : Int), (AddArtistsRequest s o l).timer_active = true) ∧
    (∀ (s : State) (o l : Int), (AddAlbumsRequest s o l).timer_active = true) ∧
    (∀ (s : State) (o l : Int), (AddSongsRequest s o l).timer_active = true) ∧
    (∀ (s : State) (a : Artist) (o : Int), (AddArtistAlbumsRequest s a o).timer_active = true) ∧
    (∀ (s : State) (a : Artist) (b : Album) (o : Int),
      (AddAlbumSongsRequest s a b o).timer_active = true) ∧
    (∀ (env : Env) (s : State), (GetAlbumCovers env s).timer_active = true) ∧
    (∀ s : State, s.timer_active = true → (FlushRequests s).timer_active = false →
      ∀ k, s.queue k = []) ∧
    (∀ s : State, s.timer_active = true → (FinishCheck s).timer_active = false →
      ∀ k, s.queue k = []) ∧
    (∀ (env : Env) (type : QueryType) (inputs : List Input) (input : Input),
      (step env (run env type inputs) input).timer_active = false →
      ∀ k, (step env (run env type inputs) input).queue k = []) := by
  refine ⟨fun env type inputs => TimerLive_run env type inputs,
    fun s o l => StartRequests_active _, fun s o l => StartRequests_active _,
    fun s o l => StartRequests_active _, fun s a o => StartRequests_active _,
    fun s a b o => StartRequests_active _, fun env s => StartRequests_active _,
    fun s ht hf k => ?_, fun s ht hf k => ?_, fun env type inputs input hf k => ?_⟩
  · cases hb : firstBusy s with
    | none => exact (firstBusy_spec s).1.mp hb k
    | some j =>
      have e := (stageFlush_others j s).2
      rw [← (FlushRequests_firstBusy s).1 j hb, hf, ht] at e
      exact absurd e (by decide)
  · exact quiescent_queues (FinishCheck_stops (by rw [hf, ht]; decide)) k
  · by_contra hk
    have hl := TimerLive_step env (TimerLive_run env type inputs) input ⟨k, hk⟩
    rw [hf] at hl
    exact absurd hl (by decide)

/-- A stopped timer is started by the release of a pending artist: with the timer stopped and
one artist pending, the artists finish check queues the artist-albums request and the timer is
active again. -/
theorem flush_timer_runs_while_requests_are_queued_witness :
    stoppedTimerState.timer_active = false ∧
    (AddArtistAlbumsRequest stoppedTimerState { artist_id := "a", artist := "A" } 0).timer_active
      = true ∧
    (∀ k, (FlushRequests { stoppedTimerState with timer_active := true }).queue k = []) ∧
    (run sampleEnv QueryType_Artists []).timer_active = true :=
  ⟨rfl, flush_timer_runs_while_requests_are_queued.2.2.2.2.1 _ _ _,
    fun k => by cases k <;> rfl,
    flush_timer_runs_while_requests_are_queued.1 sampleEnv QueryType_Artists []
      ⟨Stage.artists, by decide⟩⟩

/-! ## Finalization with nothing found -/

/-- C25 (the code at the counterexample): an artists query whose one artist has no albums, and
an albums query whose one album has no tracks, receive only well-formed pages and finalize with
the empty song map, the empty error log, the no-results flag clear and `Unknown error`. -/
theorem empty_subfetch_ends_in_unknown_error :
    (run sampleEnv QueryType_Artists artistWithoutAlbumsInputs).finished_ = true ∧
    (run sampleEnv QueryType_Artists artistWithoutAlbumsInputs).songs_ = [] ∧
    (run sampleEnv QueryType_Artists artistWithoutAlbumsInputs).errors_ = [] ∧
    (run sampleEnv QueryType_Artists artistWithoutAlbumsInputs).no_results_ = false ∧
    (run sampleEnv QueryType_Artists artistWithoutAlbumsInputs).emitted.getLast? =
      some (Event.Results [] "Unknown error") ∧
    (run sampleEnv QueryType_Albums albumWithoutTracksInputs).finished_ = true ∧
    (run sampleEnv QueryType_Albums albumWithoutTracksInputs).songs_ = [] ∧
    (run sampleEnv QueryType_Albums albumWithoutTracksInputs).errors_ = [] ∧
    (run sampleEnv QueryType_Albums albumWithoutTracksInputs).no_results_ = false ∧
    (run sampleEnv QueryType_Albums albumWithoutTracksInputs).emitted.getLast? =
      some (Event.Results [] "Unknown error") := by
  decide

/-- C25 (amended): a `FinishCheck` that finalizes with an empty song map and an empty error log
emits one `Results` with the empty map; its text is the no-match text (`No match.` for a
search, the empty string for a direct query) when the no-results flag is set and `Unknown
error` when the flag is clear, and the two texts differ. -/
theorem empty_finalization_follows_the_flag (s : State) (hf : s.finished_ = false)
    (hq : Quiescent s) (hs : s.songs_ = []) (he : s.errors_ = []) :
    (FinishCheck s).finished_ = true ∧
    (s.no_results_ = true →
      (FinishCheck s).emitted =
        s.emitted ++ [Event.Results [] (if IsSearch s.type_ = true then "No match." else "")]) ∧
    (s.no_results_ = false →
      (FinishCheck s).emitted = s.emitted ++ [Event.Results [] "Unknown error"]) ∧
    (if IsSearch s.type_ = true then "No match." else "") ≠ "Unknown error" := by
  refine ⟨?_, fun h => ?_, fun h => ?_, ?_⟩
  · obtain ⟨songs, error, e⟩ := FinishCheck_of_quiescent s hf hq
    rw [e]
  · unfold FinishCheck
    rw [if_pos ⟨hf, hq⟩, if_pos ⟨h, hs⟩]
    split <;> rfl
  · unfold FinishCheck
    rw [if_pos ⟨hf, hq⟩, if_neg (by rw [h]; exact fun e => Bool.noConfusion e.1),
      if_pos ⟨hs, he⟩, hs]
    rfl
  · split <;> decide

theorem empty_finalization_follows_the_flag_witness :
    (FinishCheck (nothingFoundState QueryType_SearchArtists true)).emitted =
      [Event.Results [] "No match."] ∧
    (FinishCheck (nothingFoundState QueryType_Artists false)).emitted =
      [Event.Results [] "Unknown error"] :=
  ⟨(empty_finalization_follows_the_flag (nothingFoundState QueryType_SearchArtists true) rfl
      (by decide) rfl rfl).2.1 rfl,
    (empty_finalization_follows_the_flag (nothingFoundState QueryType_Artists false) rfl
      (by decide) rfl rfl).2.2.1 rfl⟩

/-! ## An invalid artist and the artists that are fetched -/

/-- C27 (the code at the failing input): a page with the valid artists `a` and `b` and one
artist without name logs one error wherever the invalid item stands; with the invalid item
first the request finalizes inside the item loop, `a` and `b` are registered in the pending set
afterwards and never released (no artist-albums request is ever queued, and a further tick
sends nothing); with the invalid item second or last both artists are released. -/
theorem invalid_artist_first_finalizes_the_request :
    (namelessArtistAt 0).errors_ = ["Invalid Json reply, item missing id or album."] ∧
    (namelessArtistAt 0).finished_ = true ∧
    (namelessArtistAt 0).emitted.getLast? =
      some (Event.Results [] "Invalid Json reply, item missing id or album.<br />") ∧
    (namelessArtistAt 0).artist_albums_requests_pending_.map (fun kv => kv.1) = ["a", "b"] ∧
    (namelessArtistAt 0).artist_albums_requests_queue_ = [] ∧
    (namelessArtistAt 0).artist_albums_requests_total_ = 0 ∧
    (step sampleEnv (namelessArtistAt 0) Input.Tick).connections = [] ∧
    (namelessArtistAt 1).errors_ = ["Invalid Json reply, item missing id or album."] ∧
    (namelessArtistAt 1).finished_ = false ∧
    (namelessArtistAt 1).artist_albums_requests_pending_ = [] ∧
    (namelessArtistAt 1).artist_albums_requests_queue_.map (fun r => r.artist.artist_id) =
      ["a", "b"] ∧
    (step sampleEnv (namelessArtistAt 1) Input.Tick).connections.map (fun c => c.2.stage) =
      [Stage.artistAlbums, Stage.artistAlbums] ∧
    (namelessArtistAt 2).errors_ = ["Invalid Json reply, item missing id or album."] ∧
    (namelessArtistAt 2).finished_ = false ∧
    (namelessArtistAt 2).artist_albums_requests_queue_.map (fun r => r.artist.artist_id) =
      ["a", "b"] := by
  decide

/-! ## The totals the progress is divided by -/

theorem totals_dispatch (env : Env) (s : State) (reply : QNetworkReply) (slot : Callback) :
    (dispatch env s reply slot).albums_total_ = s.albums_total_ ∧
    (dispatch env s reply slot).songs_total_ = s.songs_total_ := by
  cases slot with
  | Artists l o =>
    have ag := agree_ArtistsReplyReceived (W := fpArtistsReplyReceived) (fun _ h => h)
      (AgreeOff.unchanged _ s) env reply l o
    exact ⟨ag.albums_total_ (by decide), ag.songs_total_ (by decide)⟩
  | Albums l o =>
    have ag := agree_AlbumsReceived (W := fpAlbumsReceived) (fun _ h => h)
      (AgreeOff.unchanged _ (albumsSettled s)) env reply Artist.empty l o
    exact ⟨ag.albums_total_ (by decide), ag.songs_total_ (by decide)⟩
  | Songs l o =>
    have ag := agree_SongsReceived (W := fpSongsReceived) (fun _ h => h)
      (AgreeOff.unchanged _ (songsSettled s)) env reply Artist.empty Album.empty l o
    exact ⟨ag.albums_total_ (by decide), ag.songs_total_ (by decide)⟩
  | ArtistAlbums a o =>
    have ag := agree_AlbumsReceived (W := fpAlbumsReceived) (fun _ h => h)
      (AgreeOff.unchanged _ (artistAlbumsProgress (artistAlbumsSettled s))) env reply a 0 o
    exact ⟨ag.albums_total_ (by decide), ag.songs_total_ (by decide)⟩
  | AlbumSongs a b o =>
    have ag := agree_SongsReceived (W := fpSongsReceived) (fun _ h => h)
      (AgreeOff.unchanged _ (albumSongsProgress (albumSongsSettled s) o)) env reply a b 0 o
    have ag2 := agree_albumSongsProgress (W := [Field.emitted]) (fun _ h => h)
      (AgreeOff.unchanged _ (albumSongsSettled s)) o
    exact ⟨(ag.albums_total_ (by decide)).trans (ag2.albums_total_ (by decide)),
      (ag.songs_total_ (by decide)).trans (ag2.songs_total_ (by decide))⟩
  | AlbumCover url filename =>
    have ag := agree_AlbumCoverReceived (W := fpAlbumCoverReceived) (fun _ h => h)
      (AgreeOff.unchanged _ s) env reply url filename
    exact ⟨ag.albums_total_ (by decide), ag.songs_total_ (by decide)⟩

theorem totals_step (env : Env) (s : State) (input : Input) :
    (step env s input).albums_total_ = s.albums_total_ ∧
    (step env s input).songs_total_ = s.songs_total_ := by
  cases input with
  | Tick =>
    simp only [step]
    split
    · have ag := agree_FlushRequests (W := fpFlushRequests) (fun _ h => h)
        (AgreeOff.unchanged _ s)
      exact ⟨ag.albums_total_ (by decide), ag.songs_total_ (by decide)⟩
    · exact ⟨rfl, rfl⟩
  | Finished reply =>
    simp only [step]
    split
    · exact totals_dispatch env s reply _
    · exact ⟨rfl, rfl⟩

theorem totals_steps (env : Env) (inputs : List Input) :
    ∀ s, (inputs.foldl (step env) s).albums_total_ = s.albums_total_ ∧
      (inputs.foldl (step env) s).songs_total_ = s.songs_total_ := by
  induction inputs with
  | nil => intro s; exact ⟨rfl, rfl⟩
  | cons input rest ih =>
    intro s
    exact ⟨(ih _).1.trans (totals_step env s input).1, (ih _).2.trans (totals_step env s input).2⟩

theorem totals_Process (env : Env) (type : QueryType) :
    (Process env (State.init type)).albums_total_ = 0 ∧
    (Process env (State.init type)).songs_total_ = 0 := by
  cases type <;> exact ⟨rfl, rfl⟩

/-- C30 (the code at the failing input): `albums_total_` and `songs_total_` are 0 in every
state a run reaches, and the progress of an albums or songs listing divides by them: the first
page of a direct albums query, and of a direct songs query, with two items emits the progress
`GetProgress(2, 0)`; and the first page of an artists listing without artists (total 0) emits
`GetProgress(0, 0)`. -/
theorem progress_is_divided_by_a_zero_total :
    (∀ (env : Env) (type : QueryType) (inputs : List Input),
      (run env type inputs).albums_total_ = 0 ∧ (run env type inputs).songs_total_ = 0) ∧
    (∀ (s : State) (n : Int), (albumsCounted { s with type_ := QueryType_Albums } n).emitted =
      s.emitted ++ [Event.UpdateProgress (Progress.GetProgress (s.albums_received_ + n)
        s.albums_total_)]) ∧
    (∀ (s : State) (n : Int), (songsCounted { s with type_ := QueryType_Songs } n).emitted =
      s.emitted ++ [Event.UpdateProgress (Progress.GetProgress (s.songs_received_ + n)
        s.songs_total_)]) ∧
    Event.UpdateProgress (Progress.GetProgress 2 0) ∈
      (run sampleEnv QueryType_Albums (firstPageOfTwoInputs "albums" sampleAlbum)).emitted ∧
    Event.UpdateProgress (Progress.GetProgress 2 0) ∈
      (run sampleEnv QueryType_Songs (firstPageOfTwoInputs "tracks" sampleTrack)).emitted ∧
    Event.UpdateProgress (Progress.GetProgress 0 0) ∈
      (run sampleEnv QueryType_Artists noArtistsInputs).emitted := by
  refine ⟨fun env type inputs => ?_, fun s n => rfl, fun s n => rfl, by decide, by decide,
    by decide⟩
  have h := totals_steps env inputs (Process env (State.init type))
  have h0 := totals_Process env type
  exact ⟨h.1.trans h0.1, h.2.trans h0.2⟩

/-! ## The no-results flag -/

theorem FlagStep.idle (C : Prop) (s : State) : FlagStep C s s :=
  ⟨rfl, fun h => h, fun h => Or.inl h⟩

theorem FlagStep.via {C : Prop} {W : List Field} {s t u : State} (h : FlagStep C s t)
    (hag : AgreeOff W t u) (hW : ∀ f ∈ [Field.type_, Field.no_results_], f ∉ W) :
    FlagStep C s u := by
  obtain ⟨h1, h2, h3⟩ := h
  have e1 := hag.type_ (hW _ (by decide))
  have e2 := hag.no_results_ (hW _ (by decide))
  exact ⟨e1.trans h1, fun x => e2.trans (h2 x), fun x => h3 (e2.symm.trans x)⟩

theorem FlagStep.only {C D : Prop} {s t : State} (h : FlagStep C s t) (hCD : C → D) :
    FlagStep D s t :=
  ⟨h.1, h.2.1, fun x => (h.2.2 x).imp id hCD⟩

theorem flag_noResults {C : Prop} {s t : State} (hC : C) (h : FlagStep C s t) :
    FlagStep C s (noResults t) :=
  ⟨h.1, fun _ => rfl, fun _ => Or.inr hC⟩

theorem flag_Error {C : Prop} {s t : State} (h : FlagStep C s t) (e : String) :
    FlagStep C s (Error t e) :=
  h.via (agree_Error (W := fpError) (fun _ h => h) (AgreeOff.unchanged _ t) e) (by decide)

theorem flag_ExtractJsonObj {C : Prop} {s t : State} (h : FlagStep C s t) (bytes : ReplyBytes) :
    FlagStep C s (ExtractJsonObj t bytes) :=
  h.via (agree_ExtractJsonObj (W := fpError) (fun _ h => h) (AgreeOff.unchanged _ t) bytes) (by decide)

theorem flag_GetReplyData {C : Prop} {s t : State} (h : FlagStep C s t) (reply : QNetworkReply) :
    FlagStep C s (GetReplyData t reply) :=
  h.via (agree_GetReplyData (W := fpError) (fun _ h => h) (AgreeOff.unchanged _ t) reply) (by decide)

theorem flag_takeReply {C : Prop} {s t : State} (h : FlagStep C s t) (r : Nat) :
    FlagStep C s (takeReply t r) :=
  h.via (agree_takeReply (W := [Field.replies_, Field.connections]) (fun _ h => h) (AgreeOff.unchanged _ t) r) (by decide)

theorem flag_artistsSettled {C : Prop} {s t : State} (h : FlagStep C s t) :
    FlagStep C s (artistsSettled t) :=
  h.via (agree_artistsSettled (W := [Field.artists_requests_active_, Field.artists_requests_received_]) (fun _ h => h) (AgreeOff.unchanged _ t)) (by decide)

theorem flag_albumsSettled {C : Prop} {s t : State} (h : FlagStep C s t) :
    FlagStep C s (albumsSettled t) :=
  h.via (agree_albumsSettled (W := [Field.albums_requests_active_, Field.albums_requests_received_]) (fun _ h => h) (AgreeOff.unchanged _ t)) (by decide)

theorem flag_songsSettled {C : Prop} {s t : State} (h : FlagStep C s t) :
    FlagStep C s (songsSettled t) :=
  h.via (agree_songsSettled (W := [Field.songs_requests_active_, Field.songs_requests_received_]) (fun _ h => h) (AgreeOff.unchanged _ t)) (by decide)

theorem flag_artistAlbumsSettled {C : Prop} {s t : State} (h : FlagStep C s t) :
    FlagStep C s (artistAlbumsSettled t) :=
  h.via (agree_artistAlbumsSettled (W := [Field.artist_albums_requests_active_, Field.artist_albums_requests_received_]) (fun _ h => h) (AgreeOff.unchanged _ t)) (by decide)

theorem flag_albumSongsSettled {C : Prop} {s t : State} (h : FlagStep C s t) :
    FlagStep C s (albumSongsSettled t) :=
  h.via (agree_albumSongsSettled (W := [Field.album_songs_requests_active_, Field.album_songs_requests_received_]) (fun _ h => h) (AgreeOff.unchanged _ t)) (by decide)

theorem flag_artistAlbumsProgress {C : Prop} {s t : State} (h : FlagStep C s t) :
    FlagStep C s (artistAlbumsProgress t) :=
  h.via (agree_artistAlbumsProgress (W := [Field.emitted]) (fun _ h => h) (AgreeOff.unchanged _ t)) (by decide)

theorem flag_albumSongsProgress {C : Prop} {s t : State} (h : FlagStep C s t) (o : Int) :
    FlagStep C s (albumSongsProgress t o) :=
  h.via (agree_albumSongsProgress (W := [Field.emitted]) (fun _ h => h) (AgreeOff.unchanged _ t) o) (by decide)

theorem flag_artistsProgress {C : Prop} {s t : State} (h : FlagStep C s t) :
    FlagStep C s (artistsProgress t) :=
  h.via (agree_artistsProgress (W := [Field.emitted]) (fun _ h => h) (AgreeOff.unchanged _ t)) (by decide)

theorem flag_artistsCounted {C : Prop} {s t : State} (h : FlagStep C s t) (n : Int) :
    FlagStep C s (artistsCounted t n) :=
  h.via (agree_artistsCounted (W := [Field.artists_received_]) (fun _ h => h) (AgreeOff.unchanged _ t) n) (by decide)

theorem flag_artistsTotalStored {C : Prop} {s t : State} (h : FlagStep C s t) (n : Int) :
    FlagStep C s (artistsTotalStored t n) :=
  h.via (agree_artistsTotalStored (W := [Field.artists_total_]) (fun _ h => h) (AgreeOff.unchanged _ t) n) (by decide)

theorem flag_albumsCounted {C : Prop} {s t : State} (h : FlagStep C s t) (n : Int) :
    FlagStep C s (albumsCounted t n) :=
  h.via (agree_albumsCounted (W := [Field.albums_received_, Field.emitted]) (fun _ h => h) (AgreeOff.unchanged _ t) n) (by decide)

theorem flag_songsCounted {C : Prop} {s t : State} (h : FlagStep C s t) (n : Int) :
    FlagStep C s (songsCounted t n) :=
  h.via (agree_songsCounted (W := [Field.songs_received_, Field.emitted]) (fun _ h => h) (AgreeOff.unchanged _ t) n) (by decide)

theorem flag_songsInserted {C : Prop} {s t : State} (h : FlagStep C s t) (l : List Song) :
    FlagStep C s (songsInserted t l) :=
  h.via (agree_songsInserted (W := [Field.songs_]) (fun _ h => h) (AgreeOff.unchanged _ t) l) (by decide)

theorem flag_ArtistsFinishCheck {C : Prop} {s t : State} (h : FlagStep C s t) (env : Env) (l o r : Int) :
    FlagStep C s (ArtistsFinishCheck env t l o r) :=
  h.via (agree_ArtistsFinishCheck (W := fpArtistsFinishCheck) (fun _ h => h) (AgreeOff.unchanged _ t) env l o r) (by decide)

theorem flag_AlbumsFinishCheck {C : Prop} {s t : State} (h : FlagStep C s t) (env : Env) (a : Artist) (l o n r : Int) :
    FlagStep C s (AlbumsFinishCheck env t a l o n r) :=
  h.via (agree_AlbumsFinishCheck (W := fpAlbumsFinishCheck) (fun _ h => h) (AgreeOff.unchanged _ t) env a l o n r) (by decide)

theorem flag_SongsFinishCheck {C : Prop} {s t : State} (h : FlagStep C s t) (env : Env) (a : Artist) (b : Album) (l o n r : Int) :
    FlagStep C s (SongsFinishCheck env t a b l o n r) :=
  h.via (agree_SongsFinishCheck (W := fpSongsFinishCheck) (fun _ h => h) (AgreeOff.unchanged _ t) env a b l o n r) (by decide)

theorem flag_FlushRequests {C : Prop} {s t : State} (h : FlagStep C s t) :
    FlagStep C s (FlushRequests t) :=
  h.via (agree_FlushRequests (W := fpFlushRequests) (fun _ h => h) (AgreeOff.unchanged _ t)) (by decide)

theorem flag_AlbumCoverReceived {C : Prop} {s t : State} (h : FlagStep C s t) (env : Env) (reply : QNetworkReply) (url filename : String) :
    FlagStep C s (AlbumCoverReceived env t reply url filename) :=
  h.via (agree_AlbumCoverReceived (W := fpAlbumCoverReceived) (fun _ h => h) (AgreeOff.unchanged _ t) env reply url filename) (by decide)

theorem flag_ArtistsLoop {C : Prop} {s t : State} (h : FlagStep C s t) (l : List QJsonValue) :
    FlagStep C s (l.foldl ArtistsItem t) :=
  h.via (agree_foldl (W := fpError ++ [Field.artist_albums_requests_pending_]) ArtistsItem
    (fun _ b hb => agree_ArtistsItem (fun _ h => h) hb b) l t (AgreeOff.unchanged _ t))
    (by decide)

theorem flag_AlbumsLoop {C : Prop} {s t : State} (h : FlagStep C s t) (a : Artist)
    (l : List QJsonValue) : FlagStep C s (l.foldl (AlbumsItem a) t) :=
  h.via (agree_foldl (W := fpError ++ [Field.album_songs_requests_pending_]) (AlbumsItem a)
    (fun _ b hb => agree_AlbumsItem (fun _ h => h) hb a b) l t (AgreeOff.unchanged _ t))
    (by decide)

theorem flag_SongsItems {C : Prop} {s t : State} (h : FlagStep C s t) (env : Env) (a : Artist)
    (b : Album) (l : List QJsonValue) : FlagStep C s (SongsItems env a b l t).1 :=
  h.via (agree_SongsItems (W := fpError) (fun _ h => h) env a b l t (AgreeOff.unchanged _ t))
    (by decide)

theorem ArtistsItems_flag {C : Prop} {s t : State} (h : FlagStep C s t) (env : Env) (obj : QJsonObject) (l o : Int)
    (hC : ∀ items, ExtractItems obj = QJsonValue.array items → items.isEmpty = true → o = 0 → C) :
    FlagStep C s (ArtistsItems env t obj l o) := by
  unfold ArtistsItems
  repeat' first
    | with_reducible apply flag_ArtistsFinishCheck
    | with_reducible apply flag_Error
    | with_reducible apply flag_ExtractJsonObj
    | with_reducible apply flag_artistsProgress
    | with_reducible apply flag_artistsCounted
    | with_reducible apply flag_artistsTotalStored
    | with_reducible apply flag_ArtistsLoop
    | with_reducible apply flag_noResults
    | split
    | exact h
  all_goals (intros; apply hC <;> assumption)

theorem ArtistsPage_flag {C : Prop} {s t : State} (h : FlagStep C s t) (env : Env) (obj : QJsonObject) (l o : Int)
    (hC : ¬ (jsonValue obj "offset").toInt ≠ o →
      ∀ items, ExtractItems obj = QJsonValue.array items → items.isEmpty = true → o = 0 → C) :
    FlagStep C s (ArtistsPage env t obj l o) := by
  unfold ArtistsPage
  repeat' first
    | with_reducible apply ArtistsItems_flag
    | with_reducible apply flag_ArtistsFinishCheck
    | with_reducible apply flag_Error
    | with_reducible apply flag_ExtractJsonObj
    | with_reducible apply flag_artistsProgress
    | with_reducible apply flag_artistsCounted
    | with_reducible apply flag_artistsTotalStored
    | with_reducible apply flag_ArtistsLoop
    | with_reducible apply flag_noResults
    | split
    | exact h
  all_goals (intros; apply hC <;> assumption)

theorem ArtistsContainer_flag {C : Prop} {s t : State} (h : FlagStep C s t) (env : Env) (obj : QJsonObject) (l o : Int)
    (hC : ¬ missingPageValues obj = true → ¬ (jsonValue obj "offset").toInt ≠ o →
      ∀ items, ExtractItems obj = QJsonValue.array items → items.isEmpty = true → o = 0 → C) :
    FlagStep C s (ArtistsContainer env t obj l o) := by
  unfold ArtistsContainer
  repeat' first
    | with_reducible apply ArtistsPage_flag
    | with_reducible apply flag_ArtistsFinishCheck
    | with_reducible apply flag_Error
    | with_reducible apply flag_ExtractJsonObj
    | with_reducible apply flag_artistsProgress
    | with_reducible apply flag_artistsCounted
    | with_reducible apply flag_artistsTotalStored
    | with_reducible apply flag_ArtistsLoop
    | with_reducible apply flag_noResults
    | split
    | exact h
  all_goals (intros; apply hC <;> assumption)

theorem ArtistsParsed_flag {C : Prop} {s t : State} (h : FlagStep C s t) (env : Env) (json : QJsonObject) (l o : Int)
    (hC : ∀ obj, jsonValue json "artists" = QJsonValue.object obj →
      ¬ json.isEmpty = true → ¬ jsonContains json "artists" = false →
      ¬ missingPageValues obj = true → ¬ (jsonValue obj "offset").toInt ≠ o →
      ∀ items, ExtractItems obj = QJsonValue.array items → items.isEmpty = true → o = 0 → C) :
    FlagStep C s (ArtistsParsed env t json l o) := by
  unfold ArtistsParsed
  repeat' first
    | with_reducible apply ArtistsContainer_flag
    | with_reducible apply flag_ArtistsFinishCheck
    | with_reducible apply flag_Error
    | with_reducible apply flag_ExtractJsonObj
    | with_reducible apply flag_artistsProgress
    | with_reducible apply flag_artistsCounted
    | with_reducible apply flag_artistsTotalStored
    | with_reducible apply flag_ArtistsLoop
    | with_reducible apply flag_noResults
    | split
    | exact h
  all_goals (intros; apply hC <;> assumption)

theorem ArtistsSettled_flag {C : Prop} {s t : State} (h : FlagStep C s t) (env : Env) (reply : QNetworkReply) (l o : Int)
    (hC : ¬ t.finished_ = true → ∀ bytes, reply.data = some bytes →
      ∀ obj, jsonValue bytes.json_obj "artists" = QJsonValue.object obj →
      ¬ bytes.json_obj.isEmpty = true → ¬ jsonContains bytes.json_obj "artists" = false →
      ¬ missingPageValues obj = true → ¬ (jsonValue obj "offset").toInt ≠ o →
      ∀ items, ExtractItems obj = QJsonValue.array items → items.isEmpty = true → o = 0 → C) :
    FlagStep C s (ArtistsSettled env t reply l o) := by
  unfold ArtistsSettled
  repeat' first
    | with_reducible apply ArtistsParsed_flag
    | with_reducible apply flag_ArtistsFinishCheck
    | with_reducible apply flag_Error
    | with_reducible apply flag_ExtractJsonObj
    | with_reducible apply flag_artistsProgress
    | with_reducible apply flag_artistsCounted
    | with_reducible apply flag_artistsTotalStored
    | with_reducible apply flag_ArtistsLoop
    | with_reducible apply flag_noResults
    | split
    | exact h
  all_goals (intros; apply hC <;> assumption)

theorem AlbumsContainer_flag {C : Prop} {s t : State} (h : FlagStep C s t) (env : Env)
    (obj : QJsonObject) (a : Artist) (l o : Int)
    (hC : ¬ missingPageValues obj = true → ¬ (jsonValue obj "offset").toInt ≠ o →
      ∀ items, ExtractItems obj = QJsonValue.array items → items.isEmpty = true →
      (s.type_ = QueryType_Albums ∨ s.type_ = QueryType_SearchAlbums) ∧ o = 0 → C) :
    FlagStep C s (AlbumsContainer env t obj a l o) := by
  have ht := h.1
  unfold AlbumsContainer
  rw [ht]
  repeat' first
    | with_reducible apply flag_AlbumsFinishCheck
    | with_reducible apply flag_Error
    | with_reducible apply flag_ExtractJsonObj
    | with_reducible apply flag_albumsCounted
    | with_reducible apply flag_AlbumsLoop
    | with_reducible apply flag_noResults
    | split
    | exact h
  all_goals (intros; apply hC <;> assumption)

theorem AlbumsParsed_flag {C : Prop} {s t : State} (h : FlagStep C s t) (env : Env) (json : QJsonObject) (a : Artist) (l o : Int)
    (hC : ∀ obj, jsonValue json "albums" = QJsonValue.object obj →
      ¬ json.isEmpty = true → ¬ jsonContains json "albums" = false →
      ¬ missingPageValues obj = true → ¬ (jsonValue obj "offset").toInt ≠ o →
      ∀ items, ExtractItems obj = QJsonValue.array items → items.isEmpty = true →
      (s.type_ = QueryType_Albums ∨ s.type_ = QueryType_SearchAlbums) ∧ o = 0 → C) :
    FlagStep C s (AlbumsParsed env t json a l o) := by
  unfold AlbumsParsed
  repeat' first
    | with_reducible apply AlbumsContainer_flag
    | with_reducible apply flag_AlbumsFinishCheck
    | with_reducible apply flag_Error
    | with_reducible apply flag_ExtractJsonObj
    | with_reducible apply flag_albumsCounted
    | with_reducible apply flag_AlbumsLoop
    | with_reducible apply flag_noResults
    | split
    | exact h
  all_goals (intros; apply hC <;> assumption)

theorem AlbumsSettled_flag {C : Prop} {s t : State} (h : FlagStep C s t) (env : Env) (reply : QNetworkReply) (a : Artist) (l o : Int)
    (hC : ¬ t.finished_ = true → ∀ bytes, reply.data = some bytes →
      ∀ obj, jsonValue bytes.json_obj "albums" = QJsonValue.object obj →
      ¬ bytes.json_obj.isEmpty = true → ¬ jsonContains bytes.json_obj "albums" = false →
      ¬ missingPageValues obj = true → ¬ (jsonValue obj "offset").toInt ≠ o →
      ∀ items, ExtractItems obj = QJsonValue.array items → items.isEmpty = true →
      (s.type_ = QueryType_Albums ∨ s.type_ = QueryType_SearchAlbums) ∧ o = 0 → C) :
    FlagStep C s (AlbumsSettled env t reply a l o) := by
  unfold AlbumsSettled
  repeat' first
    | with_reducible apply AlbumsParsed_flag
    | with_reducible apply flag_AlbumsFinishCheck
    | with_reducible apply flag_Error
    | with_reducible apply flag_ExtractJsonObj
    | with_reducible apply flag_albumsCounted
    | with_reducible apply flag_AlbumsLoop
    | with_reducible apply flag_noResults
    | split
    | exact h
  all_goals (intros; apply hC <;> assumption)

theorem SongsContainer_flag {C : Prop} {s t : State} (h : FlagStep C s t) (env : Env)
    (obj : QJsonObject) (a : Artist) (b : Album) (a1 : Artist) (b1 : Album) (l o : Int)
    (hC : ¬ missingPageValues obj = true → ¬ (jsonValue obj "offset").toInt ≠ o →
      ∀ items, ExtractItems obj = QJsonValue.array items → items.isEmpty = true →
      (s.type_ = QueryType_Songs ∨ s.type_ = QueryType_SearchSongs) ∧ o = 0 → C) :
    FlagStep C s (SongsContainer env t obj a b a1 b1 l o) := by
  have ht := h.1
  unfold SongsContainer
  rw [ht]
  repeat' first
    | with_reducible apply flag_SongsFinishCheck
    | with_reducible apply flag_Error
    | with_reducible apply flag_ExtractJsonObj
    | with_reducible apply flag_songsCounted
    | with_reducible apply flag_songsInserted
    | with_reducible apply flag_SongsItems
    | with_reducible apply flag_noResults
    | split
    | exact h
  all_goals (intros; apply hC <;> assumption)

theorem SongsParsed_flag {C : Prop} {s t : State} (h : FlagStep C s t) (env : Env) (json : QJsonObject) (a : Artist) (b : Album) (l o : Int)
    (hC : ∀ obj, jsonValue json "tracks" = QJsonValue.object obj →
      ¬ json.isEmpty = true → ¬ jsonContains json "tracks" = false →
      ¬ missingPageValues obj = true → ¬ (jsonValue obj "offset").toInt ≠ o →
      ∀ items, ExtractItems obj = QJsonValue.array items → items.isEmpty = true →
      (s.type_ = QueryType_Songs ∨ s.type_ = QueryType_SearchSongs) ∧ o = 0 → C) :
    FlagStep C s (SongsParsed env t json a b l o) := by
  unfold SongsParsed
  repeat' first
    | with_reducible apply SongsContainer_flag
    | with_reducible apply flag_SongsFinishCheck
    | with_reducible apply flag_Error
    | with_reducible apply flag_ExtractJsonObj
    | with_reducible apply flag_songsCounted
    | with_reducible apply flag_songsInserted
    | with_reducible apply flag_SongsItems
    | with_reducible apply flag_noResults
    | split
    | exact h
  all_goals (intros; apply hC <;> assumption)

theorem SongsSettled_flag {C : Prop} {s t : State} (h : FlagStep C s t) (env : Env) (reply : QNetworkReply) (a : Artist) (b : Album) (l o : Int)
    (hC : ¬ t.finished_ = true → ∀ bytes, reply.data = some bytes →
      ∀ obj, jsonValue bytes.json_obj "tracks" = QJsonValue.object obj →
      ¬ bytes.json_obj.isEmpty = true → ¬ jsonContains bytes.json_obj "tracks" = false →
      ¬ missingPageValues obj = true → ¬ (jsonValue obj "offset").toInt ≠ o →
      ∀ items, ExtractItems obj = QJsonValue.array items → items.isEmpty = true →
      (s.type_ = QueryType_Songs ∨ s.type_ = QueryType_SearchSongs) ∧ o = 0 → C) :
    FlagStep C s (SongsSettled env t reply a b l o) := by
  unfold SongsSettled
  repeat' first
    | with_reducible apply SongsParsed_flag
    | with_reducible apply flag_SongsFinishCheck
    | with_reducible apply flag_Error
    | with_reducible apply flag_ExtractJsonObj
    | with_reducible apply flag_songsCounted
    | with_reducible apply flag_songsInserted
    | with_reducible apply flag_SongsItems
    | with_reducible apply flag_noResults
    | split
    | exact h
  all_goals (intros; apply hC <;> assumption)

theorem Mono.unfinished {s t : State} (h : Mono s t) (ht : ¬ t.finished_ = true) :
    s.finished_ = false := by
  have h1 := h.1
  unfold finishedCount at h1
  cases hs : s.finished_ with
  | false => rfl
  | true => simp [hs, ht] at h1

theorem ArtistsReplyReceived_flag (env : Env) (s : State) (reply : QNetworkReply) (l o : Int) :
    FlagStep (AcceptedEmptyFirst s reply "artists" o) s (ArtistsReplyReceived env s reply l o) := by
  unfold ArtistsReplyReceived
  split
  · exact FlagStep.idle _ s
  · rename_i hreg
    have hm : Mono s (artistsSettled (GetReplyData (takeReply s reply.handle) reply)) :=
      mono_artistsSettled (mono_GetReplyData (mono_takeReply (Mono.refl s) _) reply)
    refine ArtistsSettled_flag (flag_artistsSettled (flag_GetReplyData
      (flag_takeReply (FlagStep.idle _ s) _) reply)) env reply l o ?_
    intro hf bytes hd obj ho hne hk hmiss hoff items hi hemp h0
    exact ⟨hm.unfinished hf, not_not.mp hreg, bytes, obj, hd, by simpa using hne,
      by simpa using hk, ho, by simpa using hmiss, not_not.mp hoff, h0,
      by rw [hi, List.isEmpty_iff.mp hemp]⟩

theorem AlbumsReceived_flag {C : Prop} {s x : State} (h : FlagStep C s x) (env : Env)
    (reply : QNetworkReply) (a : Artist) (l o : Int)
    (hC : (s.type_ = QueryType_Albums ∨ s.type_ = QueryType_SearchAlbums) →
      AcceptedEmptyFirst x reply "albums" o → C) :
    FlagStep C s (AlbumsReceived env x reply a l o) := by
  unfold AlbumsReceived
  split
  · exact h
  · rename_i hreg
    have hm : Mono x (GetReplyData (takeReply x reply.handle) reply) :=
      mono_GetReplyData (mono_takeReply (Mono.refl x) _) reply
    refine AlbumsSettled_flag (flag_GetReplyData (flag_takeReply h _) reply) env reply a l o ?_
    intro hf bytes hd obj ho hne hk hmiss hoff items hi hemp h0
    exact hC h0.1 ⟨hm.unfinished hf, not_not.mp hreg, bytes, obj, hd, by simpa using hne,
      by simpa using hk, ho, by simpa using hmiss, not_not.mp hoff, h0.2,
      by rw [hi, List.isEmpty_iff.mp hemp]⟩

theorem SongsReceived_flag {C : Prop} {s x : State} (h : FlagStep C s x) (env : Env)
    (reply : QNetworkReply) (a : Artist) (b : Album) (l o : Int)
    (hC : (s.type_ = QueryType_Songs ∨ s.type_ = QueryType_SearchSongs) →
      AcceptedEmptyFirst x reply "tracks" o → C) :
    FlagStep C s (SongsReceived env x reply a b l o) := by
  unfold SongsReceived
  split
  · exact h
  · rename_i hreg
    have hm : Mono x (GetReplyData (takeReply x reply.handle) reply) :=
      mono_GetReplyData (mono_takeReply (Mono.refl x) _) reply
    refine SongsSettled_flag (flag_GetReplyData (flag_takeReply h _) reply) env reply a b l o ?_
    intro hf bytes hd obj ho hne hk hmiss hoff items hi hemp h0
    exact hC h0.1 ⟨hm.unfinished hf, not_not.mp hreg, bytes, obj, hd, by simpa using hne,
      by simpa using hk, ho, by simpa using hmiss, not_not.mp hoff, h0.2,
      by rw [hi, List.isEmpty_iff.mp hemp]⟩

theorem AcceptedEmptyFirst.carried {W : List Field} {s x : State} {reply : QNetworkReply}
    {key : String} {o : Int} (h : AcceptedEmptyFirst x reply key o) (hag : AgreeOff W s x)
    (hW : ∀ f ∈ [Field.finished_, Field.replies_], f ∉ W) : AcceptedEmptyFirst s reply key o := by
  obtain ⟨h1, h2, h3⟩ := h
  rw [hag.finished_ (hW _ (by decide))] at h1
  rw [hag.replies_ (hW _ (by decide))] at h2
  exact ⟨h1, h2, h3⟩

/-- A reply handler keeps a set no-results flag, and sets the flag only for an accepted first
page without items, in the albums and songs handlers only in a query of that kind. -/
theorem dispatch_flag (env : Env) (s : State) (reply : QNetworkReply) (slot : Callback) :
    FlagStep (SetsNoResults s reply slot) s (dispatch env s reply slot) := by
  cases slot with
  | Artists l o => exact ArtistsReplyReceived_flag env s reply l o
  | Albums l o =>
    exact AlbumsReceived_flag (flag_albumsSettled (FlagStep.idle _ s)) env reply _ l o
      (fun ht ha => ⟨ht, ha.carried (agree_albumsSettled (W := [Field.albums_requests_active_,
        Field.albums_requests_received_]) (fun _ h => h) (AgreeOff.unchanged _ s)) (by decide)⟩)
  | Songs l o =>
    exact SongsReceived_flag (flag_songsSettled (FlagStep.idle _ s)) env reply _ _ l o
      (fun ht ha => ⟨ht, ha.carried (agree_songsSettled (W := [Field.songs_requests_active_,
        Field.songs_requests_received_]) (fun _ h => h) (AgreeOff.unchanged _ s)) (by decide)⟩)
  | ArtistAlbums a o =>
    exact AlbumsReceived_flag (flag_artistAlbumsProgress (flag_artistAlbumsSettled
      (FlagStep.idle _ s))) env reply a 0 o
      (fun ht ha => ⟨ht, ha.carried (agree_artistAlbumsProgress
        (W := [Field.artist_albums_requests_active_, Field.artist_albums_requests_received_,
          Field.emitted]) (by decide) (agree_artistAlbumsSettled (by decide)
        (AgreeOff.unchanged _ s))) (by decide)⟩)
  | AlbumSongs a b o =>
    exact SongsReceived_flag (flag_albumSongsProgress (flag_albumSongsSettled
      (FlagStep.idle _ s)) o) env reply a b 0 o
      (fun ht ha => ⟨ht, ha.carried (agree_albumSongsProgress
        (W := [Field.album_songs_requests_active_, Field.album_songs_requests_received_,
          Field.emitted]) (by decide) (agree_albumSongsSettled (by decide)
        (AgreeOff.unchanged _ s)) o) (by decide)⟩)
  | AlbumCover url filename =>
    exact flag_AlbumCoverReceived (FlagStep.idle _ s) env reply url filename

theorem step_flag (env : Env) (s : State) (input : Input) :
    FlagStep (∃ reply c, input = Input.Finished reply ∧ c ∈ s.connections ∧
      c.1 = reply.handle ∧ SetsNoResults s reply c.2) s (step env s input) := by
  cases input with
  | Tick =>
    simp only [step]
    split
    · exact flag_FlushRequests (FlagStep.idle _ s)
    · exact FlagStep.idle _ s
  | Finished reply =>
    simp only [step]
    split
    · rename_i c hc
      exact (dispatch_flag env s reply c.2).only (fun hs =>
        ⟨reply, c, rfl, List.mem_of_find?_eq_some hc, by simpa using List.find?_some hc, hs⟩)
    · exact FlagStep.idle _ s

theorem type_steps (env : Env) (inputs : List Input) :
    ∀ s, (inputs.foldl (step env) s).type_ = s.type_ := by
  induction inputs with
  | nil => intro s; rfl
  | cons input rest ih => intro s; exact (ih _).trans (step_flag env s input).1

theorem type_run (env : Env) (type : QueryType) (inputs : List Input) :
    (run env type inputs).type_ = type := by
  refine (type_steps env inputs _).trans ?_
  cases type <;> first
    | rfl
    | exact (agree_Error (W := fpError) (fun _ h => h) (AgreeOff.unchanged _ _) _).type_
        (by decide)

theorem steady_trivial (V : List Field) : Steady V (fun _ => True) :=
  ⟨fun _ _ _ _ => trivial, fun _ _ _ => trivial⟩

/-- The albums handler queues an albums request only for an albums query and an artist-albums
request only for an artists query. -/
theorem AlbumsReceived_by_type (env : Env) (x : State) (reply : QNetworkReply) (a : Artist)
    (l o : Int) :
    ((AlbumsReceived env x reply a l o).albums_requests_queue_ = x.albums_requests_queue_ ∨
      (x.type_ = QueryType_Albums ∨ x.type_ = QueryType_SearchAlbums)) ∧
    ((AlbumsReceived env x reply a l o).artist_albums_requests_queue_ =
        x.artist_albums_requests_queue_ ∨
      (x.type_ = QueryType_Artists ∨ x.type_ = QueryType_SearchArtists)) := by
  unfold AlbumsReceived
  split
  · exact ⟨Or.inl rfl, Or.inl rfl⟩
  · have hT := agree_GetReplyData (W := fpAlbumsPre ++ [Field.replies_, Field.connections])
      (by decide) (agree_takeReply (by decide) (AgreeOff.unchanged _ x) reply.handle) reply
    obtain ⟨y, l1, o1, n1, r1, hy, hu⟩ := AlbumsSettled_factor env (P := fun _ => True)
      (steady_trivial _) a (fun _ _ _ => trivial)
      (Before.start (t := GetReplyData (takeReply x reply.handle) reply) trivial) reply l o
    have hxy := hT.andThen (hy.agree.weaken (V := fpAlbumsPre ++ [Field.replies_,
      Field.connections]) (by decide))
    have hR := AlbumsFinishCheck_released env y a l1 o1 n1 r1
    rw [hxy.albums_requests_queue_ (by decide), hxy.artist_albums_requests_queue_ (by decide),
      hxy.type_ (by decide)] at hR
    rcases hu with hu | ⟨e, hu⟩ <;> rw [hu]
    · exact ⟨hR.2.1, hR.2.2⟩
    · have hE := agree_Error (W := fpError) (fun _ h => h)
        (AgreeOff.unchanged _ (AlbumsFinishCheck env y a l1 o1 n1 r1)) e
      rw [hE.albums_requests_queue_ (by decide), hE.artist_albums_requests_queue_ (by decide)]
      exact ⟨hR.2.1, hR.2.2⟩

/-- The songs handler queues a songs request only for a songs query and an album-songs request
only for another query. -/
theorem SongsReceived_by_type (env : Env) (x : State) (reply : QNetworkReply) (a : Artist)
    (b : Album) (l o : Int) :
    ((SongsReceived env x reply a b l o).songs_requests_queue_ = x.songs_requests_queue_ ∨
      (x.type_ = QueryType_Songs ∨ x.type_ = QueryType_SearchSongs)) ∧
    ((SongsReceived env x reply a b l o).album_songs_requests_queue_ =
        x.album_songs_requests_queue_ ∨
      ¬ (x.type_ = QueryType_Songs ∨ x.type_ = QueryType_SearchSongs)) := by
  unfold SongsReceived
  split
  · exact ⟨Or.inl rfl, Or.inl rfl⟩
  · have hT := agree_GetReplyData (W := fpSongsPre ++ [Field.replies_, Field.connections])
      (by decide) (agree_takeReply (by decide) (AgreeOff.unchanged _ x) reply.handle) reply
    obtain ⟨y, a1, b1, l1, o1, n1, r1, hy, hu⟩ := SongsSettled_factor env (P := fun _ => True)
      (steady_trivial _)
      (Before.start (t := GetReplyData (takeReply x reply.handle) reply) trivial) reply a b l o
    have hxy := hT.andThen (hy.agree.weaken (V := fpSongsPre ++ [Field.replies_,
      Field.connections]) (by decide))
    have hR := SongsFinishCheck_by_type env y a1 b1 l1 o1 n1 r1
    rw [hxy.songs_requests_queue_ (by decide), hxy.album_songs_requests_queue_ (by decide),
      hxy.type_ (by decide)] at hR
    rcases hu with hu | ⟨e, hu⟩ <;> rw [hu]
    · exact hR
    · have hE := agree_Error (W := fpError) (fun _ h => h)
        (AgreeOff.unchanged _ (SongsFinishCheck env y a1 b1 l1 o1 n1 r1)) e
      rw [hE.songs_requests_queue_ (by decide), hE.album_songs_requests_queue_ (by decide)]
      exact hR

/-- A reply handler queues a request of a stage only in a query the stage works for, given that
the handler's own stage works for the query. -/
theorem dispatch_queue_typed (env : Env) (s : State) (reply : QNetworkReply) (slot : Callback)
    (hs : slot.stage.serves s.type_) (k : Stage) :
    (dispatch env s reply slot).queue k = s.queue k ∨ k.serves s.type_ := by
  cases slot with
  | Artists l o =>
    have ag := agree_ArtistsReplyReceived (W := fpArtistsReplyReceived) (fun _ h => h)
      (AgreeOff.unchanged _ s) env reply l o
    cases k
    · exact Or.inr hs
    · exact Or.inl (by simp only [State.queue, dispatch]; rw [ag.albums_requests_queue_ (by decide)])
    · exact Or.inl (by simp only [State.queue, dispatch]; rw [ag.songs_requests_queue_ (by decide)])
    · exact Or.inr hs
    · exact Or.inl (by simp only [State.queue, dispatch]; rw [ag.album_songs_requests_queue_ (by decide)])
    · exact Or.inr trivial
  | Albums l o =>
    have ag := agree_AlbumsReceived (W := fpAlbumsReceived) (fun _ h => h)
      (AgreeOff.unchanged _ (albumsSettled s)) env reply Artist.empty l o
    have hT := AlbumsReceived_by_type env (albumsSettled s) reply Artist.empty l o
    cases k
    · exact Or.inl (by simp only [State.queue, dispatch, AlbumsReplyReceived]; rw [ag.artists_requests_queue_ (by decide)]; rfl)
    · exact Or.inr hs
    · exact Or.inl (by simp only [State.queue, dispatch, AlbumsReplyReceived]; rw [ag.songs_requests_queue_ (by decide)]; rfl)
    · exact hT.2.imp (fun e => by simp only [State.queue, dispatch, AlbumsReplyReceived]; rw [e]; rfl) id
    · exact Or.inr (Or.inr hs)
    · exact Or.inr trivial
  | Songs l o =>
    have ag := agree_SongsReceived (W := fpSongsReceived) (fun _ h => h)
      (AgreeOff.unchanged _ (songsSettled s)) env reply Artist.empty Album.empty l o
    have hT := SongsReceived_by_type env (songsSettled s) reply Artist.empty Album.empty l o
    cases k
    · exact Or.inl (by simp only [State.queue, dispatch, SongsReplyReceived]; rw [ag.artists_requests_queue_ (by decide)]; rfl)
    · exact Or.inl (by simp only [State.queue, dispatch, SongsReplyReceived]; rw [ag.albums_requests_queue_ (by decide)]; rfl)
    · exact Or.inr hs
    · exact Or.inl (by simp only [State.queue, dispatch, SongsReplyReceived]; rw [ag.artist_albums_requests_queue_ (by decide)]; rfl)
    · exact hT.2.elim (fun e => Or.inl (by simp only [State.queue, dispatch, SongsReplyReceived]; rw [e]; rfl))
        (fun hn => absurd hs hn)
    · exact Or.inr trivial
  | ArtistAlbums a o =>
    have ag := agree_AlbumsReceived (W := fpAlbumsReceived) (fun _ h => h)
      (AgreeOff.unchanged _ (artistAlbumsProgress (artistAlbumsSettled s))) env reply a 0 o
    have hT := AlbumsReceived_by_type env (artistAlbumsProgress (artistAlbumsSettled s)) reply a 0 o
    cases k
    · exact Or.inl (by simp only [State.queue, dispatch, ArtistAlbumsReplyReceived]; rw [ag.artists_requests_queue_ (by decide)]; rfl)
    · exact hT.1.imp (fun e => by simp only [State.queue, dispatch, ArtistAlbumsReplyReceived]; rw [e]; rfl) id
    · exact Or.inl (by simp only [State.queue, dispatch, ArtistAlbumsReplyReceived]; rw [ag.songs_requests_queue_ (by decide)]; rfl)
    · exact Or.inr hs
    · exact Or.inr (Or.inl hs)
    · exact Or.inr trivial
  | AlbumSongs a b o =>
    have ag2 := agree_albumSongsProgress (W := [Field.emitted]) (fun _ h => h)
      (AgreeOff.unchanged _ (albumSongsSettled s)) o
    have ag := agree_SongsReceived (W := fpSongsReceived) (fun _ h => h)
      (AgreeOff.unchanged _ (albumSongsProgress (albumSongsSettled s) o)) env reply a b 0 o
    have hT := SongsReceived_by_type env (albumSongsProgress (albumSongsSettled s) o) reply a b 0 o
    rw [ag2.type_ (by decide), ag2.songs_requests_queue_ (by decide)] at hT
    cases k
    · exact Or.inl (by simp only [State.queue, dispatch, AlbumSongsReplyReceived]; rw [ag.artists_requests_queue_ (by decide), ag2.artists_requests_queue_ (by decide)]; rfl)
    · exact Or.inl (by simp only [State.queue, dispatch, AlbumSongsReplyReceived]; rw [ag.albums_requests_queue_ (by decide), ag2.albums_requests_queue_ (by decide)]; rfl)
    · exact hT.1.imp (fun e => by simp only [State.queue, dispatch, AlbumSongsReplyReceived]; rw [e]; rfl) id
    · exact Or.inl (by simp only [State.queue, dispatch, AlbumSongsReplyReceived]; rw [ag.artist_albums_requests_queue_ (by decide), ag2.artist_albums_requests_queue_ (by decide)]; rfl)
    · exact Or.inr hs
    · exact Or.inr trivial
  | AlbumCover url filename =>
    have ag := agree_AlbumCoverReceived (W := fpAlbumCoverReceived) (fun _ h => h)
      (AgreeOff.unchanged _ s) env reply url filename
    exact Or.inl (queue_of_agree ag (by decide) k)

theorem StageTypes_dispatch (env : Env) {s : State} (h : Sound s) (ht : StageTypes s)
    (reply : QNetworkReply) (c : Nat × Callback) (hcm : c ∈ s.connections) :
    StageTypes (dispatch env s reply c.2) := by
  have hs : c.2.stage.serves s.type_ := ht _ (Or.inr (h.wired.active_pos c hcm))
  intro k hk
  rw [(dispatch_flag env s reply c.2).1]
  rcases hk with hk | hk
  · rcases dispatch_queue_typed env s reply c.2 hs k with e | e
    · exact ht k (Or.inl (e ▸ hk))
    · exact e
  · exact ht k (Or.inr (lt_of_lt_of_le hk (dispatch_active_le env s reply c.2 k)))

theorem StageTypes_FlushRequests {s : State} (ht : StageTypes s) :
    StageTypes (FlushRequests s) := by
  intro j hj
  rw [(flag_FlushRequests (FlagStep.idle True s)).1]
  cases hb : firstBusy s with
  | none =>
    rw [(FlushRequests_firstBusy s).2 hb] at hj
    exact ht j hj
  | some k =>
    rw [(FlushRequests_firstBusy s).1 k hb] at hj
    by_cases hjk : j = k
    · subst hjk
      exact ht j (Or.inl ((firstBusy_spec s).2 j hb))
    · obtain ⟨e1, e2⟩ := (stageFlush_others k s).1 j hjk
      rw [e1, e2] at hj
      exact ht j hj

theorem StageTypes_step (env : Env) {s : State} (h : Sound s) (ht : StageTypes s)
    (input : Input) : StageTypes (step env s input) := by
  cases input with
  | Tick =>
    simp only [step]
    split
    · exact StageTypes_FlushRequests ht
    · exact ht
  | Finished reply =>
    simp only [step]
    split
    · rename_i c hc
      exact StageTypes_dispatch env h ht reply c (List.mem_of_find?_eq_some hc)
    · exact ht

theorem StageTypes_Process (env : Env) (type : QueryType) :
    StageTypes (Process env (State.init type)) := by
  intro k hk
  cases type <;> cases k <;> first
    | exact Or.inl rfl
    | exact Or.inr rfl
    | exact trivial
    | (exfalso; revert hk; simp [Process, GetArtists, GetAlbums, GetSongs, ArtistsSearch,
        AlbumsSearch, SongsSearch, AddArtistsSearchRequest, AddAlbumsSearchRequest,
        AddSongsSearchRequest, AddArtistsRequest, AddAlbumsRequest, AddSongsRequest,
        StartRequests, emit, State.init, State.queue, State.active, Error, FinishCheck,
        Quiescent])

theorem StageTypes_steps (env : Env) (inputs : List Input) :
    ∀ s, Sound s → StageTypes s → StageTypes (inputs.foldl (step env) s) := by
  induction inputs with
  | nil => intro s _ ht; exact ht
  | cons input rest ih =>
    intro s h ht
    exact ih _ (Sound_step env h input) (StageTypes_step env h ht input)

theorem StageTypes_run (env : Env) (type : QueryType) (inputs : List Input) :
    StageTypes (run env type inputs) :=
  StageTypes_steps env inputs _ (Sound_Process env type) (StageTypes_Process env type)

theorem FlagStep.flag_kept {C : Prop} {s t : State} (h : FlagStep C s t) (hn : ¬ C) :
    t.no_results_ = s.no_results_ := by
  cases hs : s.no_results_ with
  | true => exact h.2.1 hs
  | false =>
    cases ht : t.no_results_ with
    | false => rfl
    | true =>
      rcases h.2.2 ht with e | e
      · rw [hs] at e
        exact Bool.noConfusion e
      · exact absurd e hn

theorem AcceptedEmptyFirst.first {s : State} {reply : QNetworkReply} {key : String} {o : Int}
    (h : AcceptedEmptyFirst s reply key o) : o = 0 := by
  obtain ⟨-, -, bytes, obj, -, -, -, -, -, -, h0, -⟩ := h
  exact h0

theorem SetsNoResults.first_page {s : State} {reply : QNetworkReply} {slot : Callback}
    (h : SetsNoResults s reply slot) : slot.offset_requested = some 0 := by
  cases slot <;> simp only [SetsNoResults] at h
  · rw [Callback.offset_requested, h.first]
  · rw [Callback.offset_requested, h.2.first]
  · rw [Callback.offset_requested, h.2.first]
  · rw [Callback.offset_requested, h.2.first]
  · rw [Callback.offset_requested, h.2.first]

/-- C26: in every state the no-results flag, once set, stays set through every delivery.  In a
run, a delivery that sets the flag is the reply to the request for offset 0 of the query's own
listing (artists for an artists query, albums for an albums query, songs for a songs query),
registered with an unfinished request, carrying a page with all page values, the requested
offset 0 and an empty items array.  A reply to a request for an offset other than 0 never
changes the flag, nor does an artist-albums reply in an artists query, an album-songs reply in
an artists or albums query, or a flush tick. -/
theorem no_results_only_by_empty_first_listing_page :
    (∀ (env : Env) (s : State) (input : Input),
      s.no_results_ = true → (step env s input).no_results_ = true) ∧
    (∀ (env : Env) (type : QueryType) (inputs : List Input) (input : Input),
      (run env type inputs).no_results_ = false →
      (step env (run env type inputs) input).no_results_ = true →
      ∃ reply l, input = Input.Finished reply ∧
        (((type = QueryType_Artists ∨ type = QueryType_SearchArtists) ∧
            (reply.handle, Callback.Artists l 0) ∈ (run env type inputs).connections ∧
            AcceptedEmptyFirst (run env type inputs) reply "artists" 0) ∨
          ((type = QueryType_Albums ∨ type = QueryType_SearchAlbums) ∧
            (reply.handle, Callback.Albums l 0) ∈ (run env type inputs).connections ∧
            AcceptedEmptyFirst (run env type inputs) reply "albums" 0) ∨
          ((type = QueryType_Songs ∨ type = QueryType_SearchSongs) ∧
            (reply.handle, Callback.Songs l 0) ∈ (run env type inputs).connections ∧
            AcceptedEmptyFirst (run env type inputs) reply "tracks" 0))) ∧
    (∀ (env : Env) (s : State) (reply : QNetworkReply) (slot : Callback) (o : Int),
      slot.offset_requested = some o → o ≠ 0 →
      (dispatch env s reply slot).no_results_ = s.no_results_) ∧
    (∀ (env : Env) (s : State) (reply : QNetworkReply) (a : Artist) (o : Int),
      s.type_ = QueryType_Artists ∨ s.type_ = QueryType_SearchArtists →
      (dispatch env s reply (Callback.ArtistAlbums a o)).no_results_ = s.no_results_) ∧
    (∀ (env : Env) (s : State) (reply : QNetworkReply) (a : Artist) (b : Album) (o : Int),
      (s.type_ = QueryType_Artists ∨ s.type_ = QueryType_SearchArtists) ∨
        (s.type_ = QueryType_Albums ∨ s.type_ = QueryType_SearchAlbums) →
      (dispatch env s reply (Callback.AlbumSongs a b o)).no_results_ = s.no_results_) ∧
    (∀ (env : Env) (s : State), (step env s Input.Tick).no_results_ = s.no_results_) := by
  refine ⟨fun env s input => (step_flag env s input).2.1, ?_, ?_, ?_, ?_, ?_⟩
  · intro env type inputs input h0 h1
    rcases (step_flag env _ input).2.2 h1 with e | ⟨reply, c, hin, hcm, hh, hs⟩
    · rw [h0] at e
      exact Bool.noConfusion e
    · have hserves : c.2.stage.serves type := by
        have := StageTypes_run env type inputs _
          (Or.inr ((Sound_run env type inputs).wired.active_pos c hcm))
        rwa [type_run] at this
      have hc : c = (reply.handle, c.2) := by rw [← hh]
      rw [hc] at hcm
      cases hslot : c.2 with
      | Artists l o =>
        rw [hslot] at hs hserves hcm
        have ho := hs.first
        subst ho
        exact ⟨reply, l, hin, Or.inl ⟨hserves, hcm, hs⟩⟩
      | Albums l o =>
        rw [hslot] at hs hserves hcm
        have ho := hs.2.first
        subst ho
        exact ⟨reply, l, hin, Or.inr (Or.inl ⟨hserves, hcm, hs.2⟩)⟩
      | Songs l o =>
        rw [hslot] at hs hserves hcm
        have ho := hs.2.first
        subst ho
        exact ⟨reply, l, hin, Or.inr (Or.inr ⟨hserves, hcm, hs.2⟩)⟩
      | ArtistAlbums a o =>
        rw [hslot] at hs hserves
        have h2 := hs.1
        rw [type_run] at h2
        rcases hserves with e | e <;> rw [e] at h2 <;> exact absurd h2 (by decide)
      | AlbumSongs a b o =>
        rw [hslot] at hs hserves
        have h2 := hs.1
        rw [type_run] at h2
        rcases hserves with (e | e) | (e | e) <;> rw [e] at h2 <;> exact absurd h2 (by decide)
      | AlbumCover url filename =>
        rw [hslot] at hs
        exact hs.elim
  · intro env s reply slot o ho hne
    refine (dispatch_flag env s reply slot).flag_kept (fun hs => ?_)
    rw [hs.first_page] at ho
    exact hne (Option.some.inj ho).symm
  · intro env s reply a o ht
    refine (dispatch_flag env s reply _).flag_kept (fun hs => ?_)
    have h2 := hs.1
    rcases ht with e | e <;> rw [e] at h2 <;> exact absurd h2 (by decide)
  · intro env s reply a b o ht
    refine (dispatch_flag env s reply _).flag_kept (fun hs => ?_)
    have h2 := hs.1
    rcases ht with (e | e) | (e | e) <;> rw [e] at h2 <;> exact absurd h2 (by decide)
  · intro env s
    exact (step_flag env s Input.Tick).flag_kept
      (fun ⟨_, _, hin, _⟩ => Input.noConfusion hin)

/-- The empty first page of a direct artists query sets the flag, and the delivery is the one
the theorem names. -/
theorem no_results_only_by_empty_first_listing_page_witness :
    (run sampleEnv QueryType_Artists [Input.Tick]).no_results_ = false ∧
    (step sampleEnv (run sampleEnv QueryType_Artists [Input.Tick])
      (Input.Finished (sampleReply 0 (samplePage "artists" 0 0 [])))).no_results_ = true ∧
    ∃ reply l,
      Input.Finished (sampleReply 0 (samplePage "artists" 0 0 [])) = Input.Finished reply ∧
      (((QueryType_Artists = QueryType_Artists ∨ QueryType_Artists = QueryType_SearchArtists) ∧
          (reply.handle, Callback.Artists l 0) ∈
            (run sampleEnv QueryType_Artists [Input.Tick]).connections ∧
          AcceptedEmptyFirst (run sampleEnv QueryType_Artists [Input.Tick]) reply "artists" 0) ∨
        ((QueryType_Artists = QueryType_Albums ∨ QueryType_Artists = QueryType_SearchAlbums) ∧
          (reply.handle, Callback.Albums l 0) ∈
            (run sampleEnv QueryType_Artists [Input.Tick]).connections ∧
          AcceptedEmptyFirst (run sampleEnv QueryType_Artists [Input.Tick]) reply "albums" 0) ∨
        ((QueryType_Artists = QueryType_Songs ∨ QueryType_Artists = QueryType_SearchSongs) ∧
          (reply.handle, Callback.Songs l 0) ∈
            (run sampleEnv QueryType_Artists [Input.Tick]).connections ∧
          AcceptedEmptyFirst (run sampleEnv QueryType_Artists [Input.Tick]) reply "tracks" 0)) :=
  ⟨by decide, by decide,
    no_results_only_by_empty_first_listing_page.2.1 sampleEnv QueryType_Artists [Input.Tick]
      (Input.Finished (sampleReply 0 (samplePage "artists" 0 0 []))) (by decide) (by decide)⟩

/-! ## The aggregate song map -/

theorem mapContains_iff {α : Type} (m : List (String × α)) (key : String) :
    mapContains m key = true ↔ key ∈ m.map (fun kv => kv.1) := by
  unfold mapContains
  rw [List.any_eq_true, List.mem_map]
  constructor
  · rintro ⟨kv, hm, hk⟩
    exact ⟨kv, hm, by simpa using hk⟩
  · rintro ⟨kv, hm, hk⟩
    exact ⟨kv, hm, by simpa using hk⟩

theorem mapInsert_keys {α : Type} (m : List (String × α)) (key : String) (value : α) :
    (mapInsert m key value).map (fun kv => kv.1) =
      if mapContains m key = true then m.map (fun kv => kv.1)
      else m.map (fun kv => kv.1) ++ [key] := by
  unfold mapInsert
  split
  · rw [List.map_map]
    apply List.map_congr_left
    intro kv _
    by_cases hk : kv.1 = key
    · simp [hk]
    · simp [hk]
  · simp

theorem mapInsert_mem_keys {α : Type} (m : List (String × α)) (key : String) (value : α)
    (id : String) :
    id ∈ (mapInsert m key value).map (fun kv => kv.1) ↔
      id ∈ m.map (fun kv => kv.1) ∨ id = key := by
  rw [mapInsert_keys]
  split
  · rename_i hc
    constructor
    · exact Or.inl
    · rintro (h | h)
      · exact h
      · rw [h]
        exact (mapContains_iff m key).mp hc
  · simp

theorem mapInsert_nodup {α : Type} (m : List (String × α)) (key : String) (value : α)
    (h : (m.map (fun kv => kv.1)).Nodup) :
    ((mapInsert m key value).map (fun kv => kv.1)).Nodup := by
  rw [mapInsert_keys]
  split
  · exact h
  · rename_i hc
    rw [List.nodup_append]
    refine ⟨h, List.nodup_singleton _, ?_⟩
    intro a ha hb
    rw [List.mem_singleton] at hb
    subst hb
    exact hc ((mapContains_iff m a).mpr ha)

theorem mapValue_replaced_other {α : Type} (m : List (String × α)) (key : String) (value : α)
    (id : String) (hi : ¬ id = key) :
    mapValue (m.map (fun kv => if kv.1 == key then (key, value) else kv)) id = mapValue m id := by
  induction m with
  | nil => rfl
  | cons kv m ih =>
    unfold mapValue at ih ⊢
    have hne : ¬ key = id := fun e => hi e.symm
    by_cases hk : kv.1 = key
    · have h2 : ¬ kv.1 = id := fun e => hi (e.symm.trans hk)
      simpa [hk, hne, h2, List.find?_cons] using ih
    · by_cases h2 : kv.1 = id
      · simp [h2, hi, List.find?_cons]
      · simpa [hk, h2, List.find?_cons] using ih

theorem mapValue_replaced_key {α : Type} (m : List (String × α)) (key : String) (value : α)
    (hc : key ∈ m.map (fun kv => kv.1)) :
    mapValue (m.map (fun kv => if kv.1 == key then (key, value) else kv)) key = some value := by
  induction m with
  | nil => simp at hc
  | cons kv m ih =>
    unfold mapValue at ih ⊢
    by_cases hk : kv.1 = key
    · simp [hk, List.find?_cons]
    · have hc2 : key ∈ m.map (fun kv => kv.1) := by
        rw [List.map_cons, List.mem_cons] at hc
        exact hc.resolve_left (fun e => hk e.symm)
      simpa [hk, List.find?_cons] using ih hc2

theorem mapValue_appended {α : Type} (m : List (String × α)) (key : String) (value : α)
    (id : String) (hc : ¬ mapContains m key = true) :
    mapValue (m ++ [(key, value)]) id = if id = key then some value else mapValue m id := by
  unfold mapValue
  rw [List.find?_append]
  by_cases hi : id = key
  · subst hi
    have hn : m.find? (fun kv => kv.1 == id) = none := by
      rw [List.find?_eq_none]
      intro kv hm hk
      exact hc ((mapContains_iff m id).mpr (List.mem_map.mpr ⟨kv, hm, by simpa using hk⟩))
    simp [hn]
  · have hne : ¬ key = id := fun e => hi e.symm
    cases hf : m.find? (fun kv => kv.1 == id) <;> simp [hi, hne]

/-- A lookup after `QMap::insert`: the inserted value under the inserted key, the value stored
before under every other key. -/
theorem mapValue_mapInsert {α : Type} (m : List (String × α)) (key : String) (value : α)
    (id : String) :
    mapValue (mapInsert m key value) id = if id = key then some value else mapValue m id := by
  unfold mapInsert
  split
  · rename_i hc
    by_cases hi : id = key
    · rw [if_pos hi, hi]
      exact mapValue_replaced_key m key value ((mapContains_iff m key).mp hc)
    · rw [if_neg hi]
      exact mapValue_replaced_other m key value id hi
  · rename_i hc
    exact mapValue_appended m key value id hc

theorem storedSong_id (songs : List Song) (song : Song) :
    (storedSong songs song).song_id = song.song_id := by
  unfold storedSong
  simp only
  split <;> split <;> rfl

theorem insertSongs_eq (m : SongMap) (songs : List Song) :
    insertSongs m songs =
      songs.foldl (fun m song =>
        mapInsert m (storedSong songs song).song_id (storedSong songs song)) m := rfl

theorem Keyed_mapInsert (m : SongMap) (song : Song) (h : Keyed m) :
    Keyed (mapInsert m song.song_id song) := by
  refine ⟨mapInsert_nodup m _ _ h.1, ?_⟩
  intro kv hkv
  unfold mapInsert at hkv
  split at hkv
  · obtain ⟨kv0, hm, e⟩ := List.mem_map.mp hkv
    split at e
    · rw [← e]
    · rw [← e]
      exact h.2 kv0 hm
  · rcases List.mem_append.mp hkv with hm | hm
    · exact h.2 kv hm
    · rw [List.mem_singleton.mp hm]

theorem foldl_keyed (f : Song → Song) (l : List Song) :
    ∀ m : SongMap, Keyed m →
      Keyed (l.foldl (fun m song => mapInsert m (f song).song_id (f song)) m) := by
  induction l with
  | nil => intro m h; exact h
  | cons x l ih => intro m h; exact ih _ (Keyed_mapInsert m (f x) h)

theorem foldl_mem_keys (f : Song → Song) (hf : ∀ song, (f song).song_id = song.song_id)
    (id : String) (l : List Song) :
    ∀ m : SongMap,
      id ∈ (l.foldl (fun m song => mapInsert m (f song).song_id (f song)) m).map (fun kv => kv.1) ↔
        id ∈ m.map (fun kv => kv.1) ∨ id ∈ l.map (fun song => song.song_id) := by
  induction l with
  | nil => intro m; simp
  | cons x l ih =>
    intro m
    rw [List.foldl_cons, ih, mapInsert_mem_keys, hf, List.map_cons, List.mem_cons]
    tauto

theorem foldl_value (f : Song → Song) (hf : ∀ song, (f song).song_id = song.song_id)
    (id : String) (l : List Song) :
    ∀ m : SongMap,
      (∀ song, l.reverse.find? (fun song => song.song_id == id) = some song →
        mapValue (l.foldl (fun m song => mapInsert m (f song).song_id (f song)) m) id =
          some (f song)) ∧
      (l.reverse.find? (fun song => song.song_id == id) = none →
        mapValue (l.foldl (fun m song => mapInsert m (f song).song_id (f song)) m) id =
          mapValue m id) := by
  induction l with
  | nil =>
    intro m
    exact ⟨fun song h => by simp at h, fun _ => rfl⟩
  | cons x l ih =>
    intro m
    obtain ⟨ih1, ih2⟩ := ih (mapInsert m (f x).song_id (f x))
    rw [List.reverse_cons, List.find?_append, List.foldl_cons]
    cases hl : l.reverse.find? (fun song => song.song_id == id) with
    | some song1 =>
      refine ⟨fun song h => ?_, fun h => by simp at h⟩
      have e : song1 = song := by simpa using h
      rw [← e]
      exact ih1 song1 hl
    | none =>
      have hv := (ih2 hl).trans (mapValue_mapInsert m _ _ id)
      by_cases hx : x.song_id = id
      · refine ⟨fun song h => ?_, fun h => by simp [hx] at h⟩
        have e : x = song := by simpa [hx] using h
        rw [hv, if_pos (by rw [hf]; exact hx.symm), e]
      · refine ⟨fun song h => by simp [hx] at h, fun _ => ?_⟩
        rw [hv, if_neg (by rw [hf]; exact fun e => hx e.symm)]

theorem foldl_length (f : Song → Song) (hf : ∀ song, (f song).song_id = song.song_id)
    (l : List Song) (m : SongMap) (h : Keyed m) :
    (l.foldl (fun m song => mapInsert m (f song).song_id (f song)) m).length =
      (m.map (fun kv => kv.1) ++ l.map (fun song => song.song_id)).dedup.length := by
  rw [← List.length_map (l.foldl (fun m song => mapInsert m (f song).song_id (f song)) m)
    (fun kv => kv.1)]
  apply List.Perm.length_eq
  rw [List.perm_ext_iff_of_nodup (foldl_keyed f l m h).1 (List.nodup_dedup _)]
  intro id
  rw [foldl_mem_keys f hf, List.mem_dedup, List.mem_append]

theorem SongsItems_songs (env : Env) (a : Artist) (b : Album) (items : List QJsonValue) :
    ∀ s : State, (SongsItems env a b items s).2 = pageSongs env a b items := by
  induction items with
  | nil => intro s; rfl
  | cons v rest ih =>
    intro s
    cases v <;> simp only [SongsItems, pageSongs, List.filterMap_cons] <;>
      try exact ih _
    rename_i obj
    unfold ParseSong
    cases hp : ParseSongFields env obj a b with
    | error e =>
      simp only
      rw [if_neg (by decide)]
      exact ih _
    | ok song =>
      simp only
      split
      · rw [ih]
        rfl
      · exact ih _

theorem keyed_Error {t : State} (h : Keyed t.songs_) (e : String) :
    Keyed (Error t e).songs_ := by
  rw [(agree_Error (W := fpError) (fun _ h => h) (AgreeOff.unchanged _ t) e).songs_ (by decide)]
  exact h

theorem keyed_FinishCheck {t : State} (h : Keyed t.songs_) :
    Keyed (FinishCheck t).songs_ := by
  rw [(agree_FinishCheck (W := fpFinishCheck) (fun _ h => h) (AgreeOff.unchanged _ t)).songs_ (by decide)]
  exact h

theorem keyed_ExtractJsonObj {t : State} (h : Keyed t.songs_) (bytes : ReplyBytes) :
    Keyed (ExtractJsonObj t bytes).songs_ := by
  rw [(agree_ExtractJsonObj (W := fpError) (fun _ h => h) (AgreeOff.unchanged _ t) bytes).songs_ (by decide)]
  exact h

theorem keyed_GetReplyData {t : State} (h : Keyed t.songs_) (reply : QNetworkReply) :
    Keyed (GetReplyData t reply).songs_ := by
  rw [(agree_GetReplyData (W := fpError) (fun _ h => h) (AgreeOff.unchanged _ t) reply).songs_ (by decide)]
  exact h

theorem keyed_takeReply {t : State} (h : Keyed t.songs_) (r : Nat) :
    Keyed (takeReply t r).songs_ := by
  rw [(agree_takeReply (W := [Field.replies_, Field.connections]) (fun _ h => h) (AgreeOff.unchanged _ t) r).songs_ (by decide)]
  exact h

theorem keyed_takeCoverReply {t : State} (h : Keyed t.songs_) (r : Nat) :
    Keyed (takeCoverReply t r).songs_ := by
  rw [(agree_takeCoverReply (W := [Field.album_cover_replies_, Field.connections]) (fun _ h => h) (AgreeOff.unchanged _ t) r).songs_ (by decide)]
  exact h

theorem keyed_albumsSettled {t : State} (h : Keyed t.songs_) :
    Keyed (albumsSettled t).songs_ := by
  rw [(agree_albumsSettled (W := [Field.albums_requests_active_, Field.albums_requests_received_]) (fun _ h => h) (AgreeOff.unchanged _ t)).songs_ (by decide)]
  exact h

theorem keyed_songsSettled {t : State} (h : Keyed t.songs_) :
    Keyed (songsSettled t).songs_ := by
  rw [(agree_songsSettled (W := [Field.songs_requests_active_, Field.songs_requests_received_]) (fun _ h => h) (AgreeOff.unchanged _ t)).songs_ (by decide)]
  exact h

theorem keyed_artistAlbumsSettled {t : State} (h : Keyed t.songs_) :
    Keyed (artistAlbumsSettled t).songs_ := by
  rw [(agree_artistAlbumsSettled (W := [Field.artist_albums_requests_active_, Field.artist_albums_requests_received_]) (fun _ h => h) (AgreeOff.unchanged _ t)).songs_ (by decide)]
  exact h

theorem keyed_albumSongsSettled {t : State} (h : Keyed t.songs_) :
    Keyed (albumSongsSettled t).songs_ := by
  rw [(agree_albumSongsSettled (W := [Field.album_songs_requests_active_, Field.album_songs_requests_received_]) (fun _ h => h) (AgreeOff.unchanged _ t)).songs_ (by decide)]
  exact h

theorem keyed_albumCoverSettled {t : State} (h : Keyed t.songs_) :
    Keyed (albumCoverSettled t).songs_ := by
  rw [(agree_albumCoverSettled (W := [Field.album_covers_requests_active_, Field.album_covers_requests_received_]) (fun _ h => h) (AgreeOff.unchanged _ t)).songs_ (by decide)]
  exact h

theorem keyed_artistAlbumsProgress {t : State} (h : Keyed t.songs_) :
    Keyed (artistAlbumsProgress t).songs_ := by
  rw [(agree_artistAlbumsProgress (W := [Field.emitted]) (fun _ h => h) (AgreeOff.unchanged _ t)).songs_ (by decide)]
  exact h

theorem keyed_albumSongsProgress {t : State} (h : Keyed t.songs_) (o : Int) :
    Keyed (albumSongsProgress t o).songs_ := by
  rw [(agree_albumSongsProgress (W := [Field.emitted]) (fun _ h => h) (AgreeOff.unchanged _ t) o).songs_ (by decide)]
  exact h

theorem keyed_albumCoverProgress {t : State} (h : Keyed t.songs_) :
    Keyed (albumCoverProgress t).songs_ := by
  rw [(agree_albumCoverProgress (W := [Field.emitted]) (fun _ h => h) (AgreeOff.unchanged _ t)).songs_ (by decide)]
  exact h

theorem keyed_songsCounted {t : State} (h : Keyed t.songs_) (n : Int) :
    Keyed (songsCounted t n).songs_ := by
  rw [(agree_songsCounted (W := [Field.songs_received_, Field.emitted]) (fun _ h => h) (AgreeOff.unchanged _ t) n).songs_ (by decide)]
  exact h

theorem keyed_noResults {t : State} (h : Keyed t.songs_) :
    Keyed (noResults t).songs_ := by
  rw [(agree_noResults (W := [Field.no_results_]) (fun _ h => h) (AgreeOff.unchanged _ t)).songs_ (by decide)]
  exact h

theorem keyed_removeCover {t : State} (h : Keyed t.songs_) (url : String) :
    Keyed (removeCover t url).songs_ := by
  rw [(agree_removeCover (W := [Field.album_covers_requests_sent_]) (fun _ h => h) (AgreeOff.unchanged _ t) url).songs_ (by decide)]
  exact h

theorem keyed_SongsFinishCheck {t : State} (h : Keyed t.songs_) (env : Env) (a : Artist) (b : Album) (l o n r : Int) :
    Keyed (SongsFinishCheck env t a b l o n r).songs_ := by
  rw [(agree_SongsFinishCheck (W := fpSongsFinishCheck) (fun _ h => h) (AgreeOff.unchanged _ t) env a b l o n r).songs_ (by decide)]
  exact h

theorem keyed_FlushRequests {t : State} (h : Keyed t.songs_) :
    Keyed (FlushRequests t).songs_ := by
  rw [(agree_FlushRequests (W := fpFlushRequests) (fun _ h => h) (AgreeOff.unchanged _ t)).songs_ (by decide)]
  exact h

theorem keyed_ArtistsReplyReceived {t : State} (h : Keyed t.songs_) (env : Env) (reply : QNetworkReply) (l o : Int) :
    Keyed (ArtistsReplyReceived env t reply l o).songs_ := by
  rw [(agree_ArtistsReplyReceived (W := fpArtistsReplyReceived) (fun _ h => h) (AgreeOff.unchanged _ t) env reply l o).songs_ (by decide)]
  exact h

theorem keyed_AlbumsReceived {t : State} (h : Keyed t.songs_) (env : Env) (reply : QNetworkReply) (a : Artist) (l o : Int) :
    Keyed (AlbumsReceived env t reply a l o).songs_ := by
  rw [(agree_AlbumsReceived (W := fpAlbumsReceived) (fun _ h => h) (AgreeOff.unchanged _ t) env reply a l o).songs_ (by decide)]
  exact h

theorem keyed_SongsItems {t : State} (h : Keyed t.songs_) (env : Env) (a : Artist) (b : Album)
    (l : List QJsonValue) : Keyed (SongsItems env a b l t).1.songs_ := by
  rw [(agree_SongsItems (W := fpError) (fun _ h => h) env a b l t
    (AgreeOff.unchanged _ t)).songs_ (by decide)]
  exact h

theorem keyed_songsInserted {t : State} (h : Keyed t.songs_) (l : List Song) :
    Keyed (songsInserted t l).songs_ :=
  foldl_keyed (storedSong l) l t.songs_ h

theorem Keyed_setLocalCover (m : SongMap) (filename id : String) (h : Keyed m) :
    Keyed (setLocalCover m filename id) := by
  unfold setLocalCover
  constructor
  · rw [List.map_map]
    have e : ((fun kv : String × Song => kv.1) ∘ fun kv : String × Song =>
        if kv.1 == id then (kv.1, { kv.2 with art_automatic := "file://" ++ filename }) else kv) =
        fun kv => kv.1 := by
      funext kv
      simp only [Function.comp]
      split <;> rfl
    rw [e]
    exact h.1
  · intro kv hkv
    obtain ⟨kv0, hm, e⟩ := List.mem_map.mp hkv
    split at e
    · rw [← e]
      exact h.2 kv0 hm
    · rw [← e]
      exact h.2 kv0 hm

theorem keyed_applyCover {t : State} (h : Keyed t.songs_) (url filename : String) :
    Keyed (applyCover t url filename).songs_ := by
  unfold applyCover
  simp only
  generalize ((t.album_covers_requests_sent_.filter (fun kv => kv.1 == url)).map
    (fun kv => kv.2)) = ids
  induction ids generalizing t with
  | nil => exact h
  | cons id ids ih =>
    rw [List.foldl_cons]
    exact ih (t := { t with songs_ := setLocalCover t.songs_ filename id })
      (Keyed_setLocalCover _ _ _ h)

theorem keyed_SongsContainer {t : State} (h : Keyed t.songs_) (env : Env) (obj : QJsonObject) (a : Artist) (b : Album) (a1 : Artist) (b1 : Album) (l o : Int) :
    Keyed (SongsContainer env t obj a b a1 b1 l o).songs_ := by
  unfold SongsContainer
  repeat' first
    | with_reducible apply keyed_SongsFinishCheck
    | with_reducible apply keyed_Error
    | with_reducible apply keyed_ExtractJsonObj
    | with_reducible apply keyed_GetReplyData
    | with_reducible apply keyed_takeReply
    | with_reducible apply keyed_songsCounted
    | with_reducible apply keyed_songsInserted
    | with_reducible apply keyed_SongsItems
    | with_reducible apply keyed_noResults
    | split
    | exact h

theorem keyed_SongsParsed {t : State} (h : Keyed t.songs_) (env : Env) (json : QJsonObject) (a : Artist) (b : Album) (l o : Int) :
    Keyed (SongsParsed env t json a b l o).songs_ := by
  unfold SongsParsed
  repeat' first
    | with_reducible apply keyed_SongsContainer
    | with_reducible apply keyed_SongsFinishCheck
    | with_reducible apply keyed_Error
    | with_reducible apply keyed_ExtractJsonObj
    | with_reducible apply keyed_GetReplyData
    | with_reducible apply keyed_takeReply
    | with_reducible apply keyed_songsCounted
    | with_reducible apply keyed_songsInserted
    | with_reducible apply keyed_SongsItems
    | with_reducible apply keyed_noResults
    | split
    | exact h

theorem keyed_SongsSettled {t : State} (h : Keyed t.songs_) (env : Env) (reply : QNetworkReply) (a : Artist) (b : Album) (l o : Int) :
    Keyed (SongsSettled env t reply a b l o).songs_ := by
  unfold SongsSettled
  repeat' first
    | with_reducible apply keyed_SongsParsed
    | with_reducible apply keyed_SongsFinishCheck
    | with_reducible apply keyed_Error
    | with_reducible apply keyed_ExtractJsonObj
    | with_reducible apply keyed_GetReplyData
    | with_reducible apply keyed_takeReply
    | with_reducible apply keyed_songsCounted
    | with_reducible apply keyed_songsInserted
    | with_reducible apply keyed_SongsItems
    | with_reducible apply keyed_noResults
    | split
    | exact h

theorem keyed_SongsReceived {t : State} (h : Keyed t.songs_) (env : Env) (reply : QNetworkReply) (a : Artist) (b : Album) (l o : Int) :
    Keyed (SongsReceived env t reply a b l o).songs_ := by
  unfold SongsReceived
  repeat' first
    | with_reducible apply keyed_SongsSettled
    | with_reducible apply keyed_SongsFinishCheck
    | with_reducible apply keyed_Error
    | with_reducible apply keyed_ExtractJsonObj
    | with_reducible apply keyed_GetReplyData
    | with_reducible apply keyed_takeReply
    | with_reducible apply keyed_songsCounted
    | with_reducible apply keyed_songsInserted
    | with_reducible apply keyed_SongsItems
    | with_reducible apply keyed_noResults
    | split
    | exact h

theorem keyed_AlbumCoverReceived {t : State} (h : Keyed t.songs_) (env : Env)
    (reply : QNetworkReply) (url filename : String) :
    Keyed (AlbumCoverReceived env t reply url filename).songs_ := by
  unfold AlbumCoverReceived AlbumCoverSettled AlbumCoverBody AlbumCoverFinishCheck
  repeat' first
    | with_reducible apply keyed_FinishCheck
    | with_reducible apply keyed_Error
    | with_reducible apply keyed_removeCover
    | with_reducible apply keyed_applyCover
    | with_reducible apply keyed_albumCoverProgress
    | with_reducible apply keyed_albumCoverSettled
    | with_reducible apply keyed_takeCoverReply
    | split
    | exact h

theorem Keyed_dispatch (env : Env) {s : State} (h : Keyed s.songs_) (reply : QNetworkReply)
    (slot : Callback) : Keyed (dispatch env s reply slot).songs_ := by
  cases slot with
  | Artists l o => exact keyed_ArtistsReplyReceived h env reply l o
  | Albums l o => exact keyed_AlbumsReceived (keyed_albumsSettled h) env reply _ l o
  | Songs l o => exact keyed_SongsReceived (keyed_songsSettled h) env reply _ _ l o
  | ArtistAlbums a o =>
    exact keyed_AlbumsReceived (keyed_artistAlbumsProgress (keyed_artistAlbumsSettled h)) env
      reply a 0 o
  | AlbumSongs a b o =>
    exact keyed_SongsReceived (keyed_albumSongsProgress (keyed_albumSongsSettled h) o) env
      reply a b 0 o
  | AlbumCover url filename => exact keyed_AlbumCoverReceived h env reply url filename

theorem Keyed_step (env : Env) {s : State} (h : Keyed s.songs_) (input : Input) :
    Keyed (step env s input).songs_ := by
  cases input with
  | Tick =>
    simp only [step]
    split
    · exact keyed_FlushRequests h
    · exact h
  | Finished reply =>
    simp only [step]
    split
    · exact Keyed_dispatch env h reply _
    · exact h

theorem Keyed_steps (env : Env) (inputs : List Input) :
    ∀ s : State, Keyed s.songs_ → Keyed (inputs.foldl (step env) s).songs_ := by
  induction inputs with
  | nil => intro s h; exact h
  | cons input rest ih => intro s h; exact ih _ (Keyed_step env h input)

theorem Keyed_run (env : Env) (type : QueryType) (inputs : List Input) :
    Keyed (run env type inputs).songs_ := by
  refine Keyed_steps env inputs _ ?_
  have e : (Process env (State.init type)).songs_ = [] := by cases type <;> rfl
  rw [e]
  exact ⟨List.nodup_nil, fun kv hkv => absurd hkv (List.not_mem_nil _)⟩

theorem SongsReceived_accepted_songs (env : Env) (s : State) (reply : QNetworkReply)
    (json_obj obj : QJsonObject) (a : Artist) (b : Album) (aa : Artist) (bb : Album) (l o : Int)
    (items : List QJsonValue)
    (hreg : reply.handle ∈ s.replies_) (hfin : s.finished_ = false)
    (hp : PageReply reply json_obj "tracks" obj)
    (hh : SongsAlbumHeader json_obj a b = Except.ok (aa, bb))
    (hoff : (jsonValue obj "offset").toInt = o)
    (hitems : jsonValue obj "items" = QJsonValue.array items) (hne : items ≠ []) :
    (SongsReceived env s reply a b l o).songs_ =
      insertSongs s.songs_ (pageSongs env aa bb items) := by
  rw [SongsReceived_accepted env s reply json_obj obj a b aa bb l o items hreg hfin hp hh hoff
    hitems hne]
  rw [(agree_SongsFinishCheck (W := fpSongsFinishCheck) (fun _ h => h)
      (AgreeOff.unchanged _ _) env aa bb l o _ _).songs_ (by decide),
    (agree_songsCounted (W := [Field.songs_received_, Field.emitted]) (fun _ h => h)
      (AgreeOff.unchanged _ _) _).songs_ (by decide)]
  unfold songsInserted
  simp only
  rw [(agree_SongsItems (W := fpError) (fun _ h => h) env aa bb items _
      (AgreeOff.unchanged _ (takeReply s reply.handle))).songs_ (by decide), SongsItems_songs]
  rfl

/-- C28: the song map keeps one entry per song id, each song under its own id, in every state a
run reaches.  When `SongsReceived` accepts a page, the map becomes the old map with the valid
songs of the page inserted in page order: its keys are the old keys and the ids of the page's
valid songs; under an id of the page it holds the record of the last valid song of the page
with that id (with the compilation flag and disc number the page gives all its songs), whatever
was stored there before; under every other id it holds what it held; and its size is the number
of distinct ids among the old keys and the page's ids. -/
theorem songs_map_is_last_write_wins :
    (∀ (env : Env) (type : QueryType) (inputs : List Input),
      Keyed (run env type inputs).songs_) ∧
    (∀ (env : Env) (s : State) (reply : QNetworkReply) (json_obj obj : QJsonObject)
      (a : Artist) (b : Album) (aa : Artist) (bb : Album) (l o : Int) (items : List QJsonValue),
      reply.handle ∈ s.replies_ → s.finished_ = false →
      PageReply reply json_obj "tracks" obj →
      SongsAlbumHeader json_obj a b = Except.ok (aa, bb) →
      (jsonValue obj "offset").toInt = o →
      jsonValue obj "items" = QJsonValue.array items → items ≠ [] →
      Keyed s.songs_ →
      (SongsReceived env s reply a b l o).songs_ =
        insertSongs s.songs_ (pageSongs env aa bb items) ∧
      Keyed (SongsReceived env s reply a b l o).songs_ ∧
      (∀ id, id ∈ (SongsReceived env s reply a b l o).songs_.map (fun kv => kv.1) ↔
        id ∈ s.songs_.map (fun kv => kv.1) ∨
          id ∈ (pageSongs env aa bb items).map (fun song => song.song_id)) ∧
      (∀ id song, lastWrite (pageSongs env aa bb items) id = some song →
        mapValue (SongsReceived env s reply a b l o).songs_ id =
          some (storedSong (pageSongs env aa bb items) song)) ∧
      (∀ id, lastWrite (pageSongs env aa bb items) id = none →
        mapValue (SongsReceived env s reply a b l o).songs_ id = mapValue s.songs_ id) ∧
      (SongsReceived env s reply a b l o).songs_.length =
        (s.songs_.map (fun kv => kv.1) ++
          (pageSongs env aa bb items).map (fun song => song.song_id)).dedup.length) := by
  refine ⟨Keyed_run, ?_⟩
  intro env s reply json_obj obj a b aa bb l o items hreg hfin hp hh hoff hitems hne hk
  have e := SongsReceived_accepted_songs env s reply json_obj obj a b aa bb l o items hreg hfin
    hp hh hoff hitems hne
  rw [e, insertSongs_eq]
  have hf := storedSong_id (pageSongs env aa bb items)
  exact ⟨rfl, foldl_keyed _ _ _ hk, fun id => foldl_mem_keys _ hf id _ _,
    fun id song h => (foldl_value _ hf id _ _).1 song h,
    fun id h => (foldl_value _ hf id _ _).2 h, foldl_length _ hf _ _ hk⟩

/-- A songs page with the track `a` and two tracks with the id `b`: the map has the two keys
`a` and `b`, and under `b` the second of the two tracks. -/
theorem songs_map_is_last_write_wins_witness :
    (SongsReceived sampleEnv (songsSettled (run sampleEnv QueryType_Songs [Input.Tick]))
      (sampleReply 0 (samplePage "tracks" 0 3 rewrittenTrackPage)) Artist.empty Album.empty 0
      0).songs_.map (fun kv => (kv.1, kv.2.title)) = [("a", "title"), ("b", "second")] ∧
    (SongsReceived sampleEnv (songsSettled (run sampleEnv QueryType_Songs [Input.Tick]))
      (sampleReply 0 (samplePage "tracks" 0 3 rewrittenTrackPage)) Artist.empty Album.empty 0
      0).songs_.length =
      ((songsSettled (run sampleEnv QueryType_Songs [Input.Tick])).songs_.map (fun kv => kv.1) ++
        (pageSongs sampleEnv Artist.empty Album.empty rewrittenTrackPage).map
          (fun song => song.song_id)).dedup.length :=
  ⟨by decide,
    (songs_map_is_last_write_wins.2 sampleEnv
      (songsSettled (run sampleEnv QueryType_Songs [Input.Tick]))
      (sampleReply 0 (samplePage "tracks" 0 3 rewrittenTrackPage))
      (samplePage "tracks" 0 3 rewrittenTrackPage)
      [("limit", QJsonValue.number 50), ("offset", QJsonValue.number 0),
        ("total", QJsonValue.number 3), ("items", QJsonValue.array rewrittenTrackPage)]
      Artist.empty Album.empty Artist.empty Album.empty 0 0 rewrittenTrackPage
      (by decide) (by decide) ⟨rfl, ⟨_, rfl, rfl, rfl⟩, rfl, rfl, rfl, rfl⟩
      rfl rfl rfl (List.cons_ne_nil _ _)
      ⟨List.nodup_nil, fun kv hkv => absurd hkv (List.not_mem_nil _)⟩).2.2.2.2.2⟩

/-! ## The progress value -/

theorem log2Fuel_spec (fuel : Nat) : ∀ n, n ≤ fuel → 0 < n →
    2 ^ log2Fuel fuel n ≤ n ∧ n < 2 ^ (log2Fuel fuel n + 1) := by
  induction fuel with
  | zero => intro n h h0; omega
  | succ fuel ih =>
    intro n h h0
    unfold log2Fuel
    split
    · constructor <;> simp <;> omega
    · rename_i h2
      have := ih (n / 2) (by omega) (by omega)
      rw [pow_succ, pow_succ]
      constructor <;> omega

theorem floorLog2_spec (q : ℚ) (hq : q ≠ 0) :
    (2 : ℚ) ^ floorLog2 q ≤ |q| ∧ |q| < (2 : ℚ) ^ (floorLog2 q + 1) := by
  have hn : 0 < q.num.natAbs := Int.natAbs_pos.mpr (Rat.num_ne_zero.mpr hq)
  have hd : 0 < q.den := q.den_pos
  obtain ⟨a1, a2⟩ := log2Fuel_spec _ _ (le_refl q.num.natAbs) hn
  obtain ⟨b1, b2⟩ := log2Fuel_spec _ _ (le_refl q.den) hd
  have habs : |q| = (q.num.natAbs : ℚ) / (q.den : ℚ) := by
    conv_lhs => rw [← Rat.num_div_den q]
    rw [abs_div, Nat.abs_cast, Nat.cast_natAbs, Int.cast_abs]
  have a1q : (2 : ℚ) ^ log2Fuel q.num.natAbs q.num.natAbs ≤ (q.num.natAbs : ℚ) := by
    exact_mod_cast a1
  have a2q : (q.num.natAbs : ℚ) < (2 : ℚ) ^ (log2Fuel q.num.natAbs q.num.natAbs + 1) := by
    exact_mod_cast a2
  have b1q : (2 : ℚ) ^ log2Fuel q.den q.den ≤ (q.den : ℚ) := by exact_mod_cast b1
  have b2q : (q.den : ℚ) < (2 : ℚ) ^ (log2Fuel q.den q.den + 1) := by exact_mod_cast b2
  have hdq : (0 : ℚ) < q.den := by exact_mod_cast hd
  have hpb : (0 : ℚ) < 2 ^ log2Fuel q.den q.den := by positivity
  have hpb1 : (0 : ℚ) < 2 ^ (log2Fuel q.den q.den + 1) := by positivity
  have e0 : (2 : ℚ) ^ ((log2Fuel q.num.natAbs q.num.natAbs : Int) - (log2Fuel q.den q.den : Int)) =
      2 ^ log2Fuel q.num.natAbs q.num.natAbs / 2 ^ log2Fuel q.den q.den := by
    rw [zpow_sub₀ two_ne_zero, zpow_natCast, zpow_natCast]
  have hup : |q| < (2 : ℚ) ^ ((log2Fuel q.num.natAbs q.num.natAbs : Int) -
      (log2Fuel q.den q.den : Int) + 1) := by
    rw [zpow_add_one₀ two_ne_zero, e0, habs, div_mul_eq_mul_div, div_lt_div_iff₀ hdq hpb]
    calc (q.num.natAbs : ℚ) * 2 ^ log2Fuel q.den q.den
        ≤ (q.num.natAbs : ℚ) * q.den := by gcongr
      _ < 2 ^ (log2Fuel q.num.natAbs q.num.natAbs + 1) * q.den := by gcongr
      _ = 2 ^ log2Fuel q.num.natAbs q.num.natAbs * 2 * q.den := by rw [pow_succ]
  have hlow : (2 : ℚ) ^ ((log2Fuel q.num.natAbs q.num.natAbs : Int) -
      (log2Fuel q.den q.den : Int) - 1) ≤ |q| := by
    rw [zpow_sub_one₀ two_ne_zero, e0, habs, div_mul_eq_mul_div, div_le_div_iff₀ hpb hdq]
    have h2 : (q.den : ℚ) * 2⁻¹ ≤ 2 ^ log2Fuel q.den q.den := by
      rw [pow_succ] at b2q
      linarith
    calc (2 : ℚ) ^ log2Fuel q.num.natAbs q.num.natAbs * 2⁻¹ * q.den
        = 2 ^ log2Fuel q.num.natAbs q.num.natAbs * (q.den * 2⁻¹) := by ring
      _ ≤ 2 ^ log2Fuel q.num.natAbs q.num.natAbs * 2 ^ log2Fuel q.den q.den := by gcongr
      _ ≤ (q.num.natAbs : ℚ) * 2 ^ log2Fuel q.den q.den := by gcongr
  unfold floorLog2
  simp only
  split
  · rename_i h
    exact ⟨h, hup⟩
  · rename_i h
    refine ⟨hlow, ?_⟩
    rw [sub_add_cancel]
    exact not_le.mp h

theorem roundHalfEven_floor_le (x : ℚ) : ⌊x⌋ ≤ roundHalfEven x := by
  unfold roundHalfEven
  repeat' split
  all_goals omega

theorem roundHalfEven_le_floor_succ (x : ℚ) : roundHalfEven x ≤ ⌊x⌋ + 1 := by
  unfold roundHalfEven
  repeat' split
  all_goals omega

theorem roundHalfEven_mono {x y : ℚ} (h : x ≤ y) : roundHalfEven x ≤ roundHalfEven y := by
  rcases lt_or_eq_of_le (Int.floor_mono h) with hf | hf
  · exact le_trans (roundHalfEven_le_floor_succ x) (le_trans hf (roundHalfEven_floor_le y))
  · unfold roundHalfEven
    rw [hf]
    have hxy : x - ⌊y⌋ ≤ y - ⌊y⌋ := by linarith
    repeat' split
    all_goals first
      | omega
      | (exfalso; linarith)

theorem roundHalfEven_near (x : ℚ) : |(roundHalfEven x : ℚ) - x| ≤ 1 / 2 := by
  have h1 := Int.floor_le x
  have h2 := Int.lt_floor_add_one x
  unfold roundHalfEven
  rw [abs_le]
  repeat' split
  all_goals (push_cast; constructor <;> linarith)

theorem scaled_bounds (q : ℚ) (hq : 0 < q) :
    (2 : ℚ) ^ (23 : ℕ) ≤ q / (2 : ℚ) ^ (floorLog2 q - 23) ∧
    q / (2 : ℚ) ^ (floorLog2 q - 23) < (2 : ℚ) ^ (24 : ℕ) := by
  obtain ⟨h1, h2⟩ := floorLog2_spec q (ne_of_gt hq)
  rw [abs_of_pos hq] at h1 h2
  have hu : (0 : ℚ) < (2 : ℚ) ^ (floorLog2 q - 23) := zpow_pos (by norm_num) _
  have e1 : (2 : ℚ) ^ (23 : ℕ) * (2 : ℚ) ^ (floorLog2 q - 23) = (2 : ℚ) ^ floorLog2 q := by
    rw [← zpow_natCast, ← zpow_add₀ two_ne_zero]
    congr 1
    push_cast
    ring
  have e2 : (2 : ℚ) ^ (24 : ℕ) * (2 : ℚ) ^ (floorLog2 q - 23) = (2 : ℚ) ^ (floorLog2 q + 1) := by
    rw [← zpow_natCast, ← zpow_add₀ two_ne_zero]
    congr 1
    push_cast
    ring
  constructor
  · rw [le_div_iff₀ hu, e1]
    exact h1
  · rw [div_lt_iff₀ hu, e2]
    exact h2

theorem roundToFloat_zero : roundToFloat 0 = 0 := by
  simp [roundToFloat]

theorem roundToFloat_of_pos (q : ℚ) (hq : 0 < q) :
    roundToFloat q =
      (roundHalfEven (q / (2 : ℚ) ^ (floorLog2 q - 23)) : ℚ) * (2 : ℚ) ^ (floorLog2 q - 23) := by
  unfold roundToFloat
  rw [if_neg (ne_of_gt hq)]

/-- A positive value and its binary32 value lie in the same binade. -/
theorem roundToFloat_binade (q : ℚ) (hq : 0 < q) :
    (2 : ℚ) ^ floorLog2 q ≤ roundToFloat q ∧ roundToFloat q ≤ (2 : ℚ) ^ (floorLog2 q + 1) := by
  obtain ⟨h1, h2⟩ := scaled_bounds q hq
  have hu : (0 : ℚ) < (2 : ℚ) ^ (floorLog2 q - 23) := zpow_pos (by norm_num) _
  have e1 : (2 : ℚ) ^ (23 : ℕ) * (2 : ℚ) ^ (floorLog2 q - 23) = (2 : ℚ) ^ floorLog2 q := by
    rw [← zpow_natCast, ← zpow_add₀ two_ne_zero]
    congr 1
    push_cast
    ring
  have e2 : (2 : ℚ) ^ (24 : ℕ) * (2 : ℚ) ^ (floorLog2 q - 23) = (2 : ℚ) ^ (floorLog2 q + 1) := by
    rw [← zpow_natCast, ← zpow_add₀ two_ne_zero]
    congr 1
    push_cast
    ring
  have f1 : ((2 : ℤ) ^ (23 : ℕ)) ≤ ⌊q / (2 : ℚ) ^ (floorLog2 q - 23)⌋ := by
    rw [Int.le_floor]
    push_cast
    exact h1
  have f2 : ⌊q / (2 : ℚ) ^ (floorLog2 q - 23)⌋ < ((2 : ℤ) ^ (24 : ℕ)) := by
    rw [Int.floor_lt]
    push_cast
    exact h2
  have g1 : ((2 : ℤ) ^ (23 : ℕ)) ≤ roundHalfEven (q / (2 : ℚ) ^ (floorLog2 q - 23)) :=
    le_trans f1 (roundHalfEven_floor_le _)
  have g2 : roundHalfEven (q / (2 : ℚ) ^ (floorLog2 q - 23)) ≤ ((2 : ℤ) ^ (24 : ℕ)) :=
    le_trans (roundHalfEven_le_floor_succ _) (by omega)
  have g1q : (2 : ℚ) ^ (23 : ℕ) ≤ (roundHalfEven (q / (2 : ℚ) ^ (floorLog2 q - 23)) : ℚ) := by
    exact_mod_cast g1
  have g2q : (roundHalfEven (q / (2 : ℚ) ^ (floorLog2 q - 23)) : ℚ) ≤ (2 : ℚ) ^ (24 : ℕ) := by
    exact_mod_cast g2
  rw [roundToFloat_of_pos q hq, ← e1, ← e2]
  constructor
  · exact mul_le_mul_of_nonneg_right g1q hu.le
  · exact mul_le_mul_of_nonneg_right g2q hu.le

theorem roundToFloat_pos (q : ℚ) (hq : 0 < q) : 0 < roundToFloat q :=
  lt_of_lt_of_le (zpow_pos (by norm_num) _) (roundToFloat_binade q hq).1

theorem roundToFloat_nonneg (q : ℚ) (hq : 0 ≤ q) : 0 ≤ roundToFloat q := by
  rcases lt_or_eq_of_le hq with h | h
  · exact (roundToFloat_pos q h).le
  · rw [← h, roundToFloat_zero]

theorem floorLog2_mono {q1 q2 : ℚ} (h1 : 0 < q1) (h : q1 ≤ q2) : floorLog2 q1 ≤ floorLog2 q2 := by
  have h2 : 0 < q2 := lt_of_lt_of_le h1 h
  have s1 := (floorLog2_spec q1 (ne_of_gt h1)).1
  have s2 := (floorLog2_spec q2 (ne_of_gt h2)).2
  rw [abs_of_pos h1] at s1
  rw [abs_of_pos h2] at s2
  have := lt_of_le_of_lt (le_trans s1 h) s2
  rw [zpow_lt_zpow_iff_right₀ (by norm_num : (1 : ℚ) < 2)] at this
  omega

/-- Rounding to binary32 is monotone on the values that are not negative. -/
theorem roundToFloat_mono {q1 q2 : ℚ} (h0 : 0 ≤ q1) (h : q1 ≤ q2) :
    roundToFloat q1 ≤ roundToFloat q2 := by
  rcases lt_or_eq_of_le h0 with h1 | h1
  · have h2 : 0 < q2 := lt_of_lt_of_le h1 h
    rcases lt_or_eq_of_le (floorLog2_mono h1 h) with he | he
    · calc roundToFloat q1 ≤ (2 : ℚ) ^ (floorLog2 q1 + 1) := (roundToFloat_binade q1 h1).2
        _ ≤ (2 : ℚ) ^ floorLog2 q2 := zpow_le_zpow_right₀ (by norm_num) (by omega)
        _ ≤ roundToFloat q2 := (roundToFloat_binade q2 h2).1
    · rw [roundToFloat_of_pos q1 h1, roundToFloat_of_pos q2 h2, he]
      have hu : (0 : ℚ) < (2 : ℚ) ^ (floorLog2 q2 - 23) := zpow_pos (by norm_num) _
      apply mul_le_mul_of_nonneg_right _ hu.le
      have : q1 / (2 : ℚ) ^ (floorLog2 q2 - 23) ≤ q2 / (2 : ℚ) ^ (floorLog2 q2 - 23) :=
        div_le_div_of_nonneg_right h hu.le
      exact_mod_cast roundHalfEven_mono this
  · rw [← h1, roundToFloat_zero]
    exact roundToFloat_nonneg q2 (le_trans h0 h)

/-- The relative error of a rounding to binary32 is at most `2^-24`. -/
theorem roundToFloat_near (q : ℚ) (hq : 0 ≤ q) :
    q * (1 - 1 / 16777216) ≤ roundToFloat q ∧ roundToFloat q ≤ q * (1 + 1 / 16777216) := by
  rcases lt_or_eq_of_le hq with h | h
  · have hu : (0 : ℚ) < (2 : ℚ) ^ (floorLog2 q - 23) := zpow_pos (by norm_num) _
    obtain ⟨s1, -⟩ := scaled_bounds q h
    have hn := roundHalfEven_near (q / (2 : ℚ) ^ (floorLog2 q - 23))
    rw [abs_le] at hn
    have hx : q = q / (2 : ℚ) ^ (floorLog2 q - 23) * (2 : ℚ) ^ (floorLog2 q - 23) := by
      field_simp
    have hhalf : (1 : ℚ) / 2 ≤ q / (2 : ℚ) ^ (floorLog2 q - 23) * (1 / 16777216) := by
      have : (2 : ℚ) ^ (23 : ℕ) * (1 / 16777216) = 1 / 2 := by norm_num
      rw [← this]
      exact mul_le_mul_of_nonneg_right s1 (by norm_num)
    rw [roundToFloat_of_pos q h]
    constructor
    · calc q * (1 - 1 / 16777216)
          = (q / (2 : ℚ) ^ (floorLog2 q - 23) -
              q / (2 : ℚ) ^ (floorLog2 q - 23) * (1 / 16777216)) *
              (2 : ℚ) ^ (floorLog2 q - 23) := by
            conv_lhs => rw [hx]
            ring
        _ ≤ _ := by
            apply mul_le_mul_of_nonneg_right _ hu.le
            linarith
    · calc _ ≤ (q / (2 : ℚ) ^ (floorLog2 q - 23) +
              q / (2 : ℚ) ^ (floorLog2 q - 23) * (1 / 16777216)) *
              (2 : ℚ) ^ (floorLog2 q - 23) := by
            apply mul_le_mul_of_nonneg_right _ hu.le
            linarith
        _ = q * (1 + 1 / 16777216) := by
            conv_rhs => rw [hx]
            ring
  · rw [← h, roundToFloat_zero]
    constructor <;> norm_num

theorem progress_value_bounds (count total : Int) (h0 : 0 ≤ count) (h1 : count ≤ total)
    (ht : 0 < total) :
    0 ≤ roundToFloat (roundToFloat (roundToFloat count / roundToFloat total) * 100) ∧
    roundToFloat (roundToFloat (roundToFloat count / roundToFloat total) * 100) ≤ 100 ∧
    (count : ℚ) / (total : ℚ) * 100 - 1 / 2 ≤
      roundToFloat (roundToFloat (roundToFloat count / roundToFloat total) * 100) ∧
    roundToFloat (roundToFloat (roundToFloat count / roundToFloat total) * 100) ≤
      (count : ℚ) / (total : ℚ) * 100 + 1 / 2 := by
  have c0 : (0 : ℚ) ≤ (count : ℚ) := by exact_mod_cast h0
  have t0 : (0 : ℚ) < (total : ℚ) := by exact_mod_cast ht
  have ct : (count : ℚ) ≤ (total : ℚ) := by exact_mod_cast h1
  have hA0 := roundToFloat_nonneg _ c0
  have hB0 := roundToFloat_pos _ t0
  have hAB := roundToFloat_mono c0 ct
  have hq0 : 0 ≤ roundToFloat count / roundToFloat total := div_nonneg hA0 hB0.le
  have hq1 : roundToFloat count / roundToFloat total ≤ 1 := (div_le_one hB0).mpr hAB
  have hY0 := roundToFloat_nonneg _ hq0
  have hY1 : roundToFloat (roundToFloat count / roundToFloat total) ≤ 1 := by
    have := roundToFloat_mono hq0 hq1
    rwa [show roundToFloat 1 = 1 by decide!] at this
  have hm0 : 0 ≤ roundToFloat (roundToFloat count / roundToFloat total) * 100 :=
    mul_nonneg hY0 (by norm_num)
  have hm1 : roundToFloat (roundToFloat count / roundToFloat total) * 100 ≤ 100 := by linarith
  have hZ1 : roundToFloat (roundToFloat (roundToFloat count / roundToFloat total) * 100) ≤ 100 := by
    have := roundToFloat_mono hm0 hm1
    rwa [show roundToFloat 100 = 100 by decide!] at this
  refine ⟨roundToFloat_nonneg _ hm0, hZ1, ?_, ?_⟩
  · -- the lower bound
    obtain ⟨a1, -⟩ := roundToFloat_near _ c0
    obtain ⟨-, b2⟩ := roundToFloat_near _ t0.le
    obtain ⟨y1, -⟩ := roundToFloat_near _ hq0
    obtain ⟨z1, -⟩ := roundToFloat_near _ hm0
    have hr0 : 0 ≤ (count : ℚ) / (total : ℚ) := div_nonneg c0 t0.le
    have hr1 : (count : ℚ) / (total : ℚ) ≤ 1 := (div_le_one t0).mpr ct
    have hq : (count : ℚ) / (total : ℚ) * ((1 - 1 / 16777216) / (1 + 1 / 16777216)) ≤
        roundToFloat count / roundToFloat total := by
      rw [div_mul_div_comm, div_le_div_iff₀ (by positivity) hB0]
      calc (count : ℚ) * (1 - 1 / 16777216) * roundToFloat total
          ≤ roundToFloat count * roundToFloat total :=
            mul_le_mul_of_nonneg_right a1 hB0.le
        _ ≤ roundToFloat count * ((total : ℚ) * (1 + 1 / 16777216)) :=
            mul_le_mul_of_nonneg_left b2 hA0
    have hy : (count : ℚ) / (total : ℚ) * ((1 - 1 / 16777216) / (1 + 1 / 16777216)) *
        (1 - 1 / 16777216) ≤ roundToFloat (roundToFloat count / roundToFloat total) :=
      le_trans (mul_le_mul_of_nonneg_right hq (by norm_num)) y1
    have hz : (count : ℚ) / (total : ℚ) * ((1 - 1 / 16777216) / (1 + 1 / 16777216)) *
        (1 - 1 / 16777216) * 100 * (1 - 1 / 16777216) ≤
        roundToFloat (roundToFloat (roundToFloat count / roundToFloat total) * 100) :=
      le_trans (mul_le_mul_of_nonneg_right
        (mul_le_mul_of_nonneg_right hy (by norm_num)) (by norm_num)) z1
    have hk : (count : ℚ) / (total : ℚ) * (100 - 1 / 2) ≤
        (count : ℚ) / (total : ℚ) * ((1 - 1 / 16777216) / (1 + 1 / 16777216)) *
          (1 - 1 / 16777216) * 100 * (1 - 1 / 16777216) := by
      rw [mul_assoc, mul_assoc, mul_assoc]
      exact mul_le_mul_of_nonneg_left (by norm_num) hr0
    linarith
  · -- the upper bound
    obtain ⟨-, a2⟩ := roundToFloat_near _ c0
    obtain ⟨b1, -⟩ := roundToFloat_near _ t0.le
    obtain ⟨-, y2⟩ := roundToFloat_near _ hq0
    obtain ⟨-, z2⟩ := roundToFloat_near _ hm0
    have hr0 : 0 ≤ (count : ℚ) / (total : ℚ) := div_nonneg c0 t0.le
    have hr1 : (count : ℚ) / (total : ℚ) ≤ 1 := (div_le_one t0).mpr ct
    have hq : roundToFloat count / roundToFloat total ≤
        (count : ℚ) / (total : ℚ) * ((1 + 1 / 16777216) / (1 - 1 / 16777216)) := by
      rw [div_mul_div_comm, div_le_div_iff₀ hB0 (by positivity)]
      calc roundToFloat count * ((total : ℚ) * (1 - 1 / 16777216))
          ≤ roundToFloat count * roundToFloat total := mul_le_mul_of_nonneg_left b1 hA0
        _ ≤ (count : ℚ) * (1 + 1 / 16777216) * roundToFloat total :=
            mul_le_mul_of_nonneg_right a2 hB0.le
    have hy : roundToFloat (roundToFloat count / roundToFloat total) ≤
        (count : ℚ) / (total : ℚ) * ((1 + 1 / 16777216) / (1 - 1 / 16777216)) *
          (1 + 1 / 16777216) :=
      le_trans y2 (mul_le_mul_of_nonneg_right hq (by norm_num))
    have hz : roundToFloat (roundToFloat (roundToFloat count / roundToFloat total) * 100) ≤
        (count : ℚ) / (total : ℚ) * ((1 + 1 / 16777216) / (1 - 1 / 16777216)) *
          (1 + 1 / 16777216) * 100 * (1 + 1 / 16777216) :=
      le_trans z2 (mul_le_mul_of_nonneg_right
        (mul_le_mul_of_nonneg_right hy (by norm_num)) (by norm_num))
    have hk : (count : ℚ) / (total : ℚ) * ((1 + 1 / 16777216) / (1 - 1 / 16777216)) *
          (1 + 1 / 16777216) * 100 * (1 + 1 / 16777216) ≤
        (count : ℚ) / (total : ℚ) * (100 + 1 / 2) := by
      rw [mul_assoc, mul_assoc, mul_assoc]
      exact mul_le_mul_of_nonneg_left (by norm_num) hr0
    linarith

/-- C29 (amended): for `0 ≤ count ≤ total` and `total > 0`, `GetProgress` returns a value, the
value lies in 0..100, it is 0 for `count = 0` and 100 for `count = total`, and it is the
rounded percentage or the rounded percentage less one: the cast to `int` truncates the
single-precision product. -/
theorem progress_is_rounded_percentage_or_one_less (count total : Int) (h0 : 0 ≤ count) (h1 : count ≤ total)
    (ht : 0 < total) :
    ∃ p, GetProgress count total = some p ∧ 0 ≤ p ∧ p ≤ 100 ∧
      (count = 0 → p = 0) ∧ (count = total → p = 100) ∧
      (p = roundedPercent count total ∨ p = roundedPercent count total - 1) := by
  obtain ⟨z0, z1, zl, zu⟩ := progress_value_bounds count total h0 h1 ht
  refine ⟨_, if_neg (ne_of_gt ht), Int.floor_nonneg.mpr z0, ?_, ?_, ?_, ?_⟩
  · have := Int.floor_mono z1
    rwa [show ⌊(100 : ℚ)⌋ = 100 by exact_mod_cast Int.floor_intCast (100 : ℤ)] at this
  · intro hc
    subst hc
    have e : roundToFloat (roundToFloat (roundToFloat ((0 : ℤ) : ℚ) / roundToFloat total) * 100)
        = 0 := by
      simp [roundToFloat_zero]
    rw [e]
    simp
  · intro hc
    subst hc
    have t0 : (0 : ℚ) < (count : ℚ) := by exact_mod_cast ht
    have e : roundToFloat count / roundToFloat count = 1 :=
      div_self (ne_of_gt (roundToFloat_pos _ t0))
    rw [e, show roundToFloat 1 = 1 by decide!, one_mul, show roundToFloat 100 = 100 by decide!]
    exact_mod_cast Int.floor_intCast (100 : ℤ)
  · have hle : ⌊roundToFloat (roundToFloat (roundToFloat count / roundToFloat total) * 100)⌋ ≤
        roundedPercent count total := Int.floor_mono zu
    have hge : roundedPercent count total - 1 ≤
        ⌊roundToFloat (roundToFloat (roundToFloat count / roundToFloat total) * 100)⌋ := by
      rw [Int.le_floor]
      have := Int.floor_le ((count : ℚ) / (total : ℚ) * 100 + 1 / 2)
      unfold roundedPercent
      push_cast
      linarith
    omega

theorem progress_is_rounded_percentage_or_one_less_witness :
    ∃ p, GetProgress 2 3 = some p ∧ 0 ≤ p ∧ p ≤ 100 ∧
      ((2 : Int) = 0 → p = 0) ∧ ((2 : Int) = 3 → p = 100) ∧
      (p = roundedPercent 2 3 ∨ p = roundedPercent 2 3 - 1) :=
  progress_is_rounded_percentage_or_one_less 2 3 (by decide) (by decide) (by decide)

/-- C29 (the code at the counterexample): two of three is 66, where the rounded percentage is
67; 53 of 100 is 52, because the single-precision quotient lies below 0.53; the signal of such
a call carries that value; and a total of 0 gives no value. -/
theorem progress_is_truncated_not_rounded :
    GetProgress 2 3 = some 66 ∧ roundedPercent 2 3 = 67 ∧
    GetProgress 53 100 = some 52 ∧ roundedPercent 53 100 = 53 ∧
    (Progress.GetProgress 2 3).percent = some 66 ∧
    GetProgress 0 0 = none := by
  decide!

/-! ## No stall after a settled request -/

theorem NoStall_FinishCheck (w : State) : NoStall (FinishCheck w) :=
  fun h => FinishCheck_finished_of_quiescent w h

theorem NoStall_Error (w : State) (e : String) : NoStall (Error w e) :=
  NoStall_FinishCheck _

theorem NoStall_ArtistsFinishCheck (env : Env) (y : State) (l o r : Int) :
    NoStall (ArtistsFinishCheck env y l o r) := by
  unfold ArtistsFinishCheck
  split
  · rename_i hf
    exact fun _ => hf
  · exact NoStall_FinishCheck _

theorem NoStall_AlbumsFinishCheck (env : Env) (y : State) (a : Artist) (l o n r : Int) :
    NoStall (AlbumsFinishCheck env y a l o n r) := by
  unfold AlbumsFinishCheck
  split
  · rename_i hf
    exact fun _ => hf
  · exact NoStall_FinishCheck _

theorem NoStall_SongsFinishCheck (env : Env) (y : State) (a : Artist) (b : Album)
    (l o n r : Int) : NoStall (SongsFinishCheck env y a b l o n r) := by
  unfold SongsFinishCheck
  split
  · rename_i hf
    exact fun _ => hf
  · exact NoStall_FinishCheck _

theorem NoStall_ArtistsSettled (env : Env) (t : State) (reply : QNetworkReply) (l o : Int) :
    NoStall (ArtistsSettled env t reply l o) := by
  obtain ⟨y, l1, o1, r1, _, hu⟩ :=
    ArtistsSettled_factor env (steady_trivial fpArtistsStill) (fun _ _ _ => trivial)
      (Before.start (W := fpArtistsPre) (P := fun _ => True) (t := t) trivial) reply l o
  rcases hu with hu | ⟨e, hu⟩
  · rw [hu]
    exact NoStall_ArtistsFinishCheck env y l1 o1 r1
  · rw [hu]
    exact NoStall_Error _ e

theorem NoStall_AlbumsSettled (env : Env) (t : State) (reply : QNetworkReply) (a : Artist)
    (l o : Int) : NoStall (AlbumsSettled env t reply a l o) := by
  obtain ⟨y, l1, o1, n1, r1, _, hu⟩ :=
    AlbumsSettled_factor env (steady_trivial fpAlbumsStill) a (fun _ _ _ => trivial)
      (Before.start (W := fpAlbumsPre) (P := fun _ => True) (t := t) trivial) reply l o
  rcases hu with hu | ⟨e, hu⟩
  · rw [hu]
    exact NoStall_AlbumsFinishCheck env y a l1 o1 n1 r1
  · rw [hu]
    exact NoStall_Error _ e

theorem NoStall_SongsSettled (env : Env) (t : State) (reply : QNetworkReply) (a : Artist)
    (b : Album) (l o : Int) : NoStall (SongsSettled env t reply a b l o) := by
  obtain ⟨y, a1, b1, l1, o1, n1, r1, _, hu⟩ :=
    SongsSettled_factor env (steady_trivial fpSongsStill)
      (Before.start (W := fpSongsPre) (P := fun _ => True) (t := t) trivial) reply a b l o
  rcases hu with hu | ⟨e, hu⟩
  · rw [hu]
    exact NoStall_SongsFinishCheck env y a1 b1 l1 o1 n1 r1
  · rw [hu]
    exact NoStall_Error _ e

theorem NoStall_AlbumCoverReceived (env : Env) (s : State) (reply : QNetworkReply)
    (url filename : String) : NoStall (AlbumCoverReceived env s reply url filename) := by
  unfold AlbumCoverReceived
  split
  · exact NoStall_FinishCheck s
  · unfold AlbumCoverSettled
    split
    · rename_i hf
      exact fun _ => hf
    · obtain ⟨w, hw⟩ := AlbumCoverBody_is_check env
        (albumCoverProgress (albumCoverSettled (takeCoverReply s reply.handle))) reply url filename
      rw [hw]
      exact NoStall_FinishCheck w

/-- A reply handler called with a registered reply returns a state that is finished if it is
quiescent. -/
theorem NoStall_dispatch (env : Env) (s : State) (reply : QNetworkReply) (c : Callback)
    (hapi : c.stage ≠ Stage.albumCovers → reply.handle ∈ s.replies_) :
    NoStall (dispatch env s reply c) := by
  cases c with
  | Artists l o =>
    have hreg := hapi (fun e => Stage.noConfusion e)
    show NoStall (ArtistsReplyReceived env s reply l o)
    unfold ArtistsReplyReceived
    rw [if_neg (not_not.mpr hreg)]
    exact NoStall_ArtistsSettled env _ reply l o
  | Albums l o =>
    have hreg := hapi (fun e => Stage.noConfusion e)
    show NoStall (AlbumsReceived env (albumsSettled s) reply Artist.empty l o)
    unfold AlbumsReceived
    rw [if_neg (not_not.mpr (show reply.handle ∈ (albumsSettled s).replies_ from hreg))]
    exact NoStall_AlbumsSettled env _ reply _ l o
  | Songs l o =>
    have hreg := hapi (fun e => Stage.noConfusion e)
    show NoStall (SongsReceived env (songsSettled s) reply Artist.empty Album.empty l o)
    unfold SongsReceived
    rw [if_neg (not_not.mpr (show reply.handle ∈ (songsSettled s).replies_ from hreg))]
    exact NoStall_SongsSettled env _ reply _ _ l o
  | ArtistAlbums a o =>
    have hreg := hapi (fun e => Stage.noConfusion e)
    show NoStall (AlbumsReceived env (artistAlbumsProgress (artistAlbumsSettled s)) reply a 0 o)
    unfold AlbumsReceived
    rw [if_neg (not_not.mpr
      (show reply.handle ∈ (artistAlbumsProgress (artistAlbumsSettled s)).replies_ from hreg))]
    exact NoStall_AlbumsSettled env _ reply _ 0 o
  | AlbumSongs a b o =>
    have hreg := hapi (fun e => Stage.noConfusion e)
    show NoStall (SongsReceived env (albumSongsProgress (albumSongsSettled s) o) reply a b 0 o)
    have hr : reply.handle ∈ (albumSongsProgress (albumSongsSettled s) o).replies_ := by
      unfold albumSongsProgress
      split <;> exact hreg
    unfold SongsReceived
    rw [if_neg (not_not.mpr hr)]
    exact NoStall_SongsSettled env _ reply _ _ 0 o
  | AlbumCover url filename => exact NoStall_AlbumCoverReceived env s reply url filename

theorem results_of_count {s : State} (h : resultsCount s = 1) :
    ∃ songs error, Event.Results songs error ∈ s.emitted := by
  have hp : 0 < s.emitted.countP isResults := by
    unfold resultsCount at h
    omega
  obtain ⟨e, he, hr⟩ := List.countP_pos_iff.mp hp
  cases e with
  | Results songs error => exact ⟨songs, error, he⟩
  | UpdateStatus t => exact absurd hr (by simp [isResults])
  | UpdateProgress p => exact absurd hr (by simp [isResults])

theorem run_results_count (env : Env) (type : QueryType) (inputs : List Input) :
    resultsCount (run env type inputs) = finishedCount (run env type inputs) := by
  have h : Mono (State.init type) (run env type inputs) :=
    mono_steps env inputs _ (mono_Process (Mono.refl _) env)
  have h1 : resultsCount (State.init type) = 0 := rfl
  have h2 : finishedCount (State.init type) = 0 := rfl
  unfold Mono at h
  omega

/-- C33: a reply handler called with a registered reply never leaves the request quiescent but
unfinished.  For every state, every reply and every slot: if the reply is in the registry of
its kind and the state the handler returns is quiescent (the six queues empty, no active count
positive, the two pending sets and the cover registry empty), then `finished_` is set in it,
and, when the books of the `Results` signal were right before (one signal if finished, none
otherwise), exactly one `Results` signal has been emitted.  In a run this holds of every
delivery of a finished reply. -/
theorem settled_request_never_stalls (env : Env) :
    (∀ (s : State) (reply : QNetworkReply) (c : Callback),
      (c.stage ≠ Stage.albumCovers → reply.handle ∈ s.replies_) →
      (c.stage = Stage.albumCovers → reply.handle ∈ s.album_cover_replies_) →
      Quiescent (dispatch env s reply c) →
      (dispatch env s reply c).finished_ = true ∧
      (resultsCount s = finishedCount s → resultsCount (dispatch env s reply c) = 1)) ∧
    (∀ (type : QueryType) (inputs : List Input) (reply : QNetworkReply) (c : Nat × Callback),
      (run env type inputs).connections.find? (fun c => c.1 == reply.handle) = some c →
      Quiescent (step env (run env type inputs) (Input.Finished reply)) →
      (step env (run env type inputs) (Input.Finished reply)).finished_ = true ∧
      resultsCount (step env (run env type inputs) (Input.Finished reply)) = 1 ∧
      ∃ songs error, Event.Results songs error ∈
        (step env (run env type inputs) (Input.Finished reply)).emitted) := by
  have key : ∀ (s : State) (reply : QNetworkReply) (c : Callback),
      (c.stage ≠ Stage.albumCovers → reply.handle ∈ s.replies_) →
      Quiescent (dispatch env s reply c) →
      (dispatch env s reply c).finished_ = true ∧
      (resultsCount s = finishedCount s → resultsCount (dispatch env s reply c) = 1) := by
    intro s reply c hapi hq
    have hf := NoStall_dispatch env s reply c hapi hq
    refine ⟨hf, fun hb => ?_⟩
    have hm := mono_dispatch (Mono.refl s) env reply c
    have h1 : finishedCount (dispatch env s reply c) = 1 := by simp [finishedCount, hf]
    have h2 : finishedCount s ≤ 1 := by
      unfold finishedCount
      split <;> omega
    unfold Mono at hm
    omega
  refine ⟨fun s reply c hapi _ hq => key s reply c hapi hq, ?_⟩
  intro type inputs reply c hfind hq
  have hstep : step env (run env type inputs) (Input.Finished reply) =
      dispatch env (run env type inputs) reply c.2 := by
    simp only [step, hfind]
  rw [hstep] at hq ⊢
  have hcm := List.mem_of_find?_eq_some hfind
  have hh : c.1 = reply.handle := by
    have := List.find?_some hfind
    simpa using this
  have hw := (Sound_run env type inputs).wired
  obtain ⟨hf, hc⟩ := key (run env type inputs) reply c.2
    (fun hk => hh ▸ hw.api c hcm hk) hq
  have h1 := hc (run_results_count env type inputs)
  exact ⟨hf, h1, results_of_count h1⟩

theorem settled_request_never_stalls_witness :
    Quiescent (dispatch sampleEnv (run sampleEnv QueryType_Songs [Input.Tick])
      (sampleReply 0 (samplePage "tracks" 0 1 [sampleTrack "a"])) (Callback.Songs 0 0)) ∧
    (dispatch sampleEnv (run sampleEnv QueryType_Songs [Input.Tick])
      (sampleReply 0 (samplePage "tracks" 0 1 [sampleTrack "a"]))
      (Callback.Songs 0 0)).finished_ = true ∧
    resultsCount (dispatch sampleEnv (run sampleEnv QueryType_Songs [Input.Tick])
      (sampleReply 0 (samplePage "tracks" 0 1 [sampleTrack "a"])) (Callback.Songs 0 0)) = 1 :=
  have hq : Quiescent (dispatch sampleEnv (run sampleEnv QueryType_Songs [Input.Tick])
      (sampleReply 0 (samplePage "tracks" 0 1 [sampleTrack "a"])) (Callback.Songs 0 0)) := by
    decide
  have h := (settled_request_never_stalls sampleEnv).1
    (run sampleEnv QueryType_Songs [Input.Tick])
    (sampleReply 0 (samplePage "tracks" 0 1 [sampleTrack "a"])) (Callback.Songs 0 0)
    (fun _ => by decide) (fun hk => absurd hk (by decide)) hq
  ⟨hq, h.1, h.2 (by decide)⟩

/-! ## A request of no known type -/

theorem step_of_idle (env : Env) (s : State) (ht : s.timer_active = false)
    (hc : s.connections = []) (input : Input) : step env s input = s := by
  cases input with
  | Tick => simp [step, ht]
  | Finished reply => simp [step, hc]

theorem steps_of_idle (env : Env) (s : State) (ht : s.timer_active = false)
    (hc : s.connections = []) (inputs : List Input) : inputs.foldl (step env) s = s := by
  induction inputs with
  | nil => rfl
  | cons input rest ih =>
    rw [List.foldl_cons, step_of_idle env s ht hc input]
    exact ih

/-- C37: `Process` on a request whose type is none of the six query types queues no request,
logs exactly the error "Invalid query type." and finalizes at once: the state it leaves is the
constructed one with that one error in the log, `finished_` set and one `Results` signal with an
empty song map and the rendered log; every queue is empty and every request total is zero; and
no later delivery changes anything, so the signal stays the only one. -/
theorem invalid_query_type_finalizes_at_once (env : Env) (type : QueryType)
    (hq : IsQuery type = false) (hs : IsSearch type = false) :
    Process env (State.init type) = invalidTypeState type ∧
    (Process env (State.init type)).errors_ = ["Invalid query type."] ∧
    (Process env (State.init type)).finished_ = true ∧
    (Process env (State.init type)).emitted = [Event.Results [] "Invalid query type.<br />"] ∧
    (∀ k, (Process env (State.init type)).queue k = []) ∧
    (Process env (State.init type)).artists_requests_total_ = 0 ∧
    (Process env (State.init type)).albums_requests_total_ = 0 ∧
    (Process env (State.init type)).songs_requests_total_ = 0 ∧
    (Process env (State.init type)).artist_albums_requests_total_ = 0 ∧
    (Process env (State.init type)).album_songs_requests_total_ = 0 ∧
    (Process env (State.init type)).album_covers_requests_total_ = 0 ∧
    (∀ inputs : List Input,
      run env type inputs = invalidTypeState type ∧ resultsCount (run env type inputs) = 1) := by
  have hP : Process env (State.init type) = invalidTypeState type := by
    cases type <;> first
      | exact absurd hq (by decide)
      | exact absurd hs (by decide)
      | rfl
  have hrun : ∀ inputs : List Input, run env type inputs = invalidTypeState type := by
    intro inputs
    unfold run
    rw [hP]
    exact steps_of_idle env _ rfl rfl inputs
  rw [hP]
  have hhtml : ErrorsToHTML ["Invalid query type."] = "Invalid query type.<br />" := by decide
  refine ⟨rfl, rfl, rfl, ?_, fun k => by cases k <;> rfl, rfl, rfl, rfl, rfl, rfl, rfl,
    fun inputs => ⟨hrun inputs, ?_⟩⟩
  · show [Event.Results [] (ErrorsToHTML ["Invalid query type."])] = _
    rw [hhtml]
  rw [hrun inputs]
  rfl

theorem invalid_query_type_finalizes_at_once_witness :
    (Process sampleEnv (State.init QueryType_None)).errors_ = ["Invalid query type."] ∧
    (Process sampleEnv (State.init QueryType_None)).finished_ = true ∧
    (Process sampleEnv (State.init QueryType_None)).emitted =
      [Event.Results [] "Invalid query type.<br />"] ∧
    (Process sampleEnv (State.init QueryType_StreamURL)).emitted =
      [Event.Results [] "Invalid query type.<br />"] :=
  ⟨(invalid_query_type_finalizes_at_once sampleEnv QueryType_None (by decide) (by decide)).2.1,
    (invalid_query_type_finalizes_at_once sampleEnv QueryType_None (by decide) (by decide)).2.2.1,
    (invalid_query_type_finalizes_at_once sampleEnv QueryType_None (by decide)
      (by decide)).2.2.2.1,
    (invalid_query_type_finalizes_at_once sampleEnv QueryType_StreamURL (by decide)
      (by decide)).2.2.2.1⟩

/-! ## The error log only grows -/

theorem LogKept.unmoved (s : State) : LogKept s s :=
  List.prefix_refl _

theorem LogKept.andLater {s t u : State} (h1 : LogKept s t) (h2 : LogKept t u) : LogKept s u :=
  List.IsPrefix.trans h1 h2

theorem LogKept.of_errors {s t u : State} (h : LogKept s t) (e : u.errors_ = t.errors_) :
    LogKept s u := by
  unfold LogKept
  rw [e]
  exact h

theorem errors_FinishCheck (s : State) : (FinishCheck s).errors_ = s.errors_ :=
  (agree_FinishCheck (W := fpFinishCheck) (fun _ h => h) (AgreeOff.unchanged _ s)).errors_
    (by decide)

theorem errors_Error_logged (s : State) (e : String) (h : e ≠ "") :
    (Error s e).errors_ = s.errors_ ++ [e] := by
  unfold Error
  rw [errors_FinishCheck, if_pos h]

theorem errors_Error_empty (s : State) : (Error s "").errors_ = s.errors_ := by
  unfold Error
  rw [errors_FinishCheck, if_neg (fun h => h rfl)]

theorem logKept_Error {s t : State} (h : LogKept s t) (e : String) : LogKept s (Error t e) := by
  by_cases he : e = ""
  · subst he
    exact h.of_errors (errors_Error_empty t)
  · unfold LogKept
    rw [errors_Error_logged t e he]
    exact List.IsPrefix.trans h (List.prefix_append _ _)

theorem logKept_foldl_Error {s : State} (l : List String) :
    ∀ t, LogKept s t → LogKept s (l.foldl Error t) := by
  induction l with
  | nil => intro t h; exact h
  | cons e l ih => intro t h; exact ih _ (logKept_Error h e)

theorem steady_logKept (s : State) {V : List Field} (hV : Field.errors_ ∉ V) :
    Steady V (LogKept s) :=
  ⟨fun _ _ hab h => h.of_errors (hab.errors_ hV), fun _ e h => logKept_Error h e⟩

theorem logKept_ArtistsItem (s t : State) (v : QJsonValue) (h : LogKept s t) :
    LogKept s (ArtistsItem t v) := by
  unfold ArtistsItem ArtistsItemObject
  repeat' first
    | with_reducible apply logKept_Error
    | split
    | exact h

theorem logKept_AlbumsItem (a : Artist) (s t : State) (v : QJsonValue) (h : LogKept s t) :
    LogKept s (AlbumsItem a t v) := by
  unfold AlbumsItem AlbumsItemArtist
  repeat' first
    | with_reducible apply logKept_Error
    | split
    | exact h

theorem errors_ArtistsFinishCheck (env : Env) (s : State) (l o r : Int) :
    (ArtistsFinishCheck env s l o r).errors_ = s.errors_ :=
  (agree_ArtistsFinishCheck (W := fpArtistsFinishCheck) (fun _ h => h) (AgreeOff.unchanged _ s)
    env l o r).errors_ (by decide)

theorem errors_AlbumsFinishCheck (env : Env) (s : State) (a : Artist) (l o n r : Int) :
    (AlbumsFinishCheck env s a l o n r).errors_ = s.errors_ :=
  (agree_AlbumsFinishCheck (W := fpAlbumsFinishCheck) (fun _ h => h) (AgreeOff.unchanged _ s)
    env a l o n r).errors_ (by decide)

theorem errors_SongsFinishCheck (env : Env) (s : State) (a : Artist) (b : Album)
    (l o n r : Int) : (SongsFinishCheck env s a b l o n r).errors_ = s.errors_ :=
  (agree_SongsFinishCheck (W := fpSongsFinishCheck) (fun _ h => h) (AgreeOff.unchanged _ s)
    env a b l o n r).errors_ (by decide)

theorem errors_GetAlbumCoversCheck (env : Env) (s : State) :
    (GetAlbumCoversCheck env s).errors_ = s.errors_ :=
  (agree_GetAlbumCoversCheck (W := fpGetAlbumCovers) (fun _ h => h) (AgreeOff.unchanged _ s)
    env).errors_ (by decide)

theorem errors_FlushRequests (s : State) : (FlushRequests s).errors_ = s.errors_ :=
  (agree_FlushRequests (W := fpFlushRequests) (fun _ h => h) (AgreeOff.unchanged _ s)).errors_
    (by decide)

theorem logKept_ArtistsSettled (env : Env) {s t : State} (h : LogKept s t)
    (reply : QNetworkReply) (l o : Int) : LogKept s (ArtistsSettled env t reply l o) := by
  obtain ⟨y, l1, o1, r1, hy, hu⟩ :=
    ArtistsSettled_factor env (steady_logKept s (V := fpArtistsStill) (by decide))
      (logKept_ArtistsItem s) (Before.start (W := fpArtistsPre) h) reply l o
  have h1 : LogKept s (ArtistsFinishCheck env y l1 o1 r1) :=
    hy.holds.of_errors (errors_ArtistsFinishCheck env y l1 o1 r1)
  rcases hu with hu | ⟨e, hu⟩
  · rw [hu]
    exact h1
  · rw [hu]
    exact logKept_Error h1 e

theorem logKept_AlbumsSettled (env : Env) {s t : State} (h : LogKept s t)
    (reply : QNetworkReply) (a : Artist) (l o : Int) :
    LogKept s (AlbumsSettled env t reply a l o) := by
  obtain ⟨y, l1, o1, n1, r1, hy, hu⟩ :=
    AlbumsSettled_factor env (steady_logKept s (V := fpAlbumsStill) (by decide)) a
      (logKept_AlbumsItem a s) (Before.start (W := fpAlbumsPre) h) reply l o
  have h1 : LogKept s (AlbumsFinishCheck env y a l1 o1 n1 r1) :=
    hy.holds.of_errors (errors_AlbumsFinishCheck env y a l1 o1 n1 r1)
  rcases hu with hu | ⟨e, hu⟩
  · rw [hu]
    exact h1
  · rw [hu]
    exact logKept_Error h1 e

theorem logKept_SongsSettled (env : Env) {s t : State} (h : LogKept s t)
    (reply : QNetworkReply) (a : Artist) (b : Album) (l o : Int) :
    LogKept s (SongsSettled env t reply a b l o) := by
  obtain ⟨y, a1, b1, l1, o1, n1, r1, hy, hu⟩ :=
    SongsSettled_factor env (steady_logKept s (V := fpSongsStill) (by decide))
      (Before.start (W := fpSongsPre) h) reply a b l o
  have h1 : LogKept s (SongsFinishCheck env y a1 b1 l1 o1 n1 r1) :=
    hy.holds.of_errors (errors_SongsFinishCheck env y a1 b1 l1 o1 n1 r1)
  rcases hu with hu | ⟨e, hu⟩
  · rw [hu]
    exact h1
  · rw [hu]
    exact logKept_Error h1 e

theorem logKept_ArtistsReplyReceived (env : Env) (s : State) (reply : QNetworkReply)
    (l o : Int) : LogKept s (ArtistsReplyReceived env s reply l o) := by
  unfold ArtistsReplyReceived
  split
  · exact LogKept.unmoved s
  · exact logKept_ArtistsSettled env
      (LogKept.of_errors (t := GetReplyData (takeReply s reply.handle) reply)
        (u := artistsSettled (GetReplyData (takeReply s reply.handle) reply))
        (logKept_foldl_Error _ _ (LogKept.unmoved s)) rfl) reply l o

theorem logKept_AlbumsReceived (env : Env) {s t : State} (h : LogKept s t)
    (reply : QNetworkReply) (a : Artist) (l o : Int) :
    LogKept s (AlbumsReceived env t reply a l o) := by
  unfold AlbumsReceived
  split
  · exact h
  · exact logKept_AlbumsSettled env
      (logKept_foldl_Error _ _ (h.of_errors (u := takeReply t reply.handle) rfl)) reply a l o

theorem logKept_SongsReceived (env : Env) {s t : State} (h : LogKept s t)
    (reply : QNetworkReply) (a : Artist) (b : Album) (l o : Int) :
    LogKept s (SongsReceived env t reply a b l o) := by
  unfold SongsReceived
  split
  · exact h
  · exact logKept_SongsSettled env
      (logKept_foldl_Error _ _ (h.of_errors (u := takeReply t reply.handle) rfl)) reply a b l o

theorem logKept_FinishCheck {s t : State} (h : LogKept s t) : LogKept s (FinishCheck t) :=
  h.of_errors (errors_FinishCheck t)

theorem logKept_removeCover {s t : State} (h : LogKept s t) (url : String) :
    LogKept s (removeCover t url) :=
  h

theorem logKept_applyCover {s t : State} (h : LogKept s t) (url filename : String) :
    LogKept s (applyCover t url filename) :=
  h

theorem logKept_AlbumCoverBody (env : Env) {s t : State} (h : LogKept s t)
    (reply : QNetworkReply) (url filename : String) :
    LogKept s (AlbumCoverBody env t reply url filename) := by
  unfold AlbumCoverBody AlbumCoverFinishCheck
  repeat' first
    | with_reducible apply logKept_FinishCheck
    | with_reducible apply logKept_Error
    | with_reducible apply logKept_removeCover
    | with_reducible apply logKept_applyCover
    | split
    | exact h

theorem logKept_AlbumCoverReceived (env : Env) (s : State) (reply : QNetworkReply)
    (url filename : String) : LogKept s (AlbumCoverReceived env s reply url filename) := by
  unfold AlbumCoverReceived AlbumCoverSettled AlbumCoverFinishCheck
  split
  · exact logKept_FinishCheck (LogKept.unmoved s)
  · split
    · exact (List.prefix_refl _ : s.errors_ <+: s.errors_)
    · exact logKept_AlbumCoverBody env
        (show LogKept s (albumCoverProgress (albumCoverSettled (takeCoverReply s reply.handle)))
          from (List.prefix_refl _ : s.errors_ <+: s.errors_)) reply url filename

theorem logKept_dispatch (env : Env) (s : State) (reply : QNetworkReply) (c : Callback) :
    LogKept s (dispatch env s reply c) := by
  cases c with
  | Artists l o => exact logKept_ArtistsReplyReceived env s reply l o
  | Albums l o =>
    exact logKept_AlbumsReceived env
      (show LogKept s (albumsSettled s) from (List.prefix_refl _ : s.errors_ <+: s.errors_))
      reply _ l o
  | Songs l o =>
    exact logKept_SongsReceived env
      (show LogKept s (songsSettled s) from (List.prefix_refl _ : s.errors_ <+: s.errors_))
      reply _ _ l o
  | ArtistAlbums a o =>
    exact logKept_AlbumsReceived env
      (show LogKept s (artistAlbumsProgress (artistAlbumsSettled s)) from
        (List.prefix_refl _ : s.errors_ <+: s.errors_)) reply a 0 o
  | AlbumSongs a b o =>
    have h0 : LogKept s (albumSongsProgress (albumSongsSettled s) o) := by
      unfold albumSongsProgress
      split <;> exact (List.prefix_refl _ : s.errors_ <+: s.errors_)
    exact logKept_SongsReceived env h0 reply a b 0 o
  | AlbumCover url filename => exact logKept_AlbumCoverReceived env s reply url filename

theorem logKept_step (env : Env) (s : State) (input : Input) : LogKept s (step env s input) := by
  cases input with
  | Tick =>
    simp only [step]
    split
    · exact (LogKept.unmoved s).of_errors (errors_FlushRequests s)
    · exact LogKept.unmoved s
  | Finished reply =>
    simp only [step]
    split
    · exact logKept_dispatch env s reply _
    · exact LogKept.unmoved s

theorem logKept_steps (env : Env) (inputs : List Input) :
    ∀ s, LogKept s (inputs.foldl (step env) s) := by
  induction inputs with
  | nil => intro s; exact LogKept.unmoved s
  | cons input rest ih => intro s; exact (logKept_step env s input).andLater (ih _)

theorem errors_StartRequests (s : State) : (StartRequests s).errors_ = s.errors_ := by
  unfold StartRequests
  split <;> rfl

theorem logKept_Process (env : Env) (s : State) : LogKept s (Process env s) := by
  unfold Process GetArtists GetAlbums GetSongs ArtistsSearch AlbumsSearch SongsSearch
    AddArtistsSearchRequest AddAlbumsSearchRequest AddSongsSearchRequest
    AddArtistsRequest AddAlbumsRequest AddSongsRequest
  split
  all_goals first
    | exact logKept_Error (LogKept.unmoved s) _
    | exact (LogKept.unmoved s).of_errors (errors_StartRequests _)

/-- C32: the error log is append-only.  `Error` with a non-empty text appends exactly that text
at the end of the log, `Error` with the empty text leaves the log as it is; `FinishCheck`, the
four stage finish checks, `GetAlbumCoversCheck`, `FlushRequests` and the flush of every single
stage leave the log as it is; and for every reply handler, called in any state with any reply,
for every delivery and for `Process`, the log before is an initial segment of the log after.
Hence the log of a run is an initial segment of the log of every continuation of the run. -/
theorem error_log_is_append_only :
    (∀ (s : State) (e : String), e ≠ "" → (Error s e).errors_ = s.errors_ ++ [e]) ∧
    (∀ s : State, (Error s "").errors_ = s.errors_) ∧
    (∀ s : State, (FinishCheck s).errors_ = s.errors_) ∧
    (∀ (env : Env) (s : State) (l o r : Int),
      (ArtistsFinishCheck env s l o r).errors_ = s.errors_) ∧
    (∀ (env : Env) (s : State) (a : Artist) (l o n r : Int),
      (AlbumsFinishCheck env s a l o n r).errors_ = s.errors_) ∧
    (∀ (env : Env) (s : State) (a : Artist) (b : Album) (l o n r : Int),
      (SongsFinishCheck env s a b l o n r).errors_ = s.errors_) ∧
    (∀ s : State, (AlbumCoverFinishCheck s).errors_ = s.errors_) ∧
    (∀ (env : Env) (s : State), (GetAlbumCoversCheck env s).errors_ = s.errors_) ∧
    (∀ s : State, (FlushRequests s).errors_ = s.errors_) ∧
    (∀ (k : Stage) (s : State), (stageFlush k s).errors_ = s.errors_) ∧
    (∀ (env : Env) (s : State) (reply : QNetworkReply) (c : Callback),
      s.errors_ <+: (dispatch env s reply c).errors_) ∧
    (∀ (env : Env) (s : State) (input : Input), s.errors_ <+: (step env s input).errors_) ∧
    (∀ (env : Env) (s : State), s.errors_ <+: (Process env s).errors_) ∧
    (∀ (env : Env) (type : QueryType) (inputs more : List Input),
      (run env type inputs).errors_ <+: (run env type (inputs ++ more)).errors_) := by
  refine ⟨errors_Error_logged, errors_Error_empty, errors_FinishCheck, errors_ArtistsFinishCheck,
    errors_AlbumsFinishCheck, errors_SongsFinishCheck, errors_FinishCheck,
    errors_GetAlbumCoversCheck, errors_FlushRequests, ?_, logKept_dispatch, logKept_step,
    logKept_Process, ?_⟩
  · intro k s
    cases k
    · exact (agree_FlushArtistsLoop (W := fpFlushArtists) (fun _ h => h) _ s
        (AgreeOff.unchanged _ s)).errors_ (by decide)
    · exact (agree_FlushAlbumsLoop (W := fpFlushAlbums) (fun _ h => h) _ s
        (AgreeOff.unchanged _ s)).errors_ (by decide)
    · exact (agree_FlushSongsLoop (W := fpFlushSongs) (fun _ h => h) _ s
        (AgreeOff.unchanged _ s)).errors_ (by decide)
    · exact (agree_FlushArtistAlbumsLoop (W := fpFlushArtistAlbums) (fun _ h => h) _ s
        (AgreeOff.unchanged _ s)).errors_ (by decide)
    · exact (agree_FlushAlbumSongsLoop (W := fpFlushAlbumSongs) (fun _ h => h) _ s
        (AgreeOff.unchanged _ s)).errors_ (by decide)
    · exact (agree_FlushAlbumCoverLoop (W := fpFlushAlbumCover) (fun _ h => h) _ s
        (AgreeOff.unchanged _ s)).errors_ (by decide)
  · intro env type inputs more
    unfold run
    rw [List.foldl_append]
    exact logKept_steps env more _

/-- A second error is appended to the log of a state that holds one. -/
theorem error_log_is_append_only_witness :
    (Error (Error (State.init QueryType_Songs) "first") "second").errors_ =
      (Error (State.init QueryType_Songs) "first").errors_ ++ ["second"] ∧
    (Error (Error (State.init QueryType_Songs) "first") "second").errors_ = ["first", "second"] :=
  ⟨error_log_is_append_only.1 (Error (State.init QueryType_Songs) "first") "second" (by decide),
    by decide⟩

/-! ## Handlers called with a reply that is not registered -/

/-- What a handler does when it is called with a reply that is not in the registry of its kind.
`ArtistsReplyReceived` and the shared bodies `AlbumsReceived` and `SongsReceived`, whose first
statement is the registry test, return the state as it is.  The slots `AlbumsReplyReceived`,
`SongsReplyReceived`, `ArtistAlbumsReplyReceived` and `AlbumSongsReplyReceived` count the reply
before they hand it to the shared body: they return the state with their own active counter
decremented and their own received counter incremented, the two sub-fetch slots after emitting
their progress signal (album-songs only for offset 0), and nothing else changed.
`AlbumCoverReceived` runs `FinishCheck` in that case.  In a run no slot is called with a reply
that is not registered: the reply of every connection is in the registry of its kind. -/
theorem slot_called_unregistered (env : Env) (s : State)
    (reply : QNetworkReply) :
    (reply.handle ∉ s.replies_ →
      (∀ l o : Int, ArtistsReplyReceived env s reply l o = s) ∧
      (∀ (a : Artist) (l o : Int), AlbumsReceived env s reply a l o = s) ∧
      (∀ (a : Artist) (b : Album) (l o : Int), SongsReceived env s reply a b l o = s) ∧
      (∀ l o : Int, AlbumsReplyReceived env s reply l o =
        { s with albums_requests_active_ := s.albums_requests_active_ - 1,
                 albums_requests_received_ := s.albums_requests_received_ + 1 }) ∧
      (∀ l o : Int, SongsReplyReceived env s reply l o =
        { s with songs_requests_active_ := s.songs_requests_active_ - 1,
                 songs_requests_received_ := s.songs_requests_received_ + 1 }) ∧
      (∀ (a : Artist) (o : Int), ArtistAlbumsReplyReceived env s reply a o =
        { s with artist_albums_requests_active_ := s.artist_albums_requests_active_ - 1,
                 artist_albums_requests_received_ := s.artist_albums_requests_received_ + 1,
                 emitted := s.emitted ++ [Event.UpdateProgress (Progress.GetProgress
                   (s.artist_albums_requests_received_ + 1) s.artist_albums_requests_total_)] }) ∧
      (∀ (a : Artist) (b : Album), AlbumSongsReplyReceived env s reply a b 0 =
        { s with album_songs_requests_active_ := s.album_songs_requests_active_ - 1,
                 album_songs_requests_received_ := s.album_songs_requests_received_ + 1,
                 emitted := s.emitted ++ [Event.UpdateProgress (Progress.GetProgress
                   (s.album_songs_requests_received_ + 1) s.album_songs_requests_total_)] }) ∧
      (∀ (a : Artist) (b : Album) (o : Int), o ≠ 0 →
        AlbumSongsReplyReceived env s reply a b o =
          { s with album_songs_requests_active_ := s.album_songs_requests_active_ - 1,
                   album_songs_requests_received_ := s.album_songs_requests_received_ + 1 })) ∧
    (reply.handle ∉ s.album_cover_replies_ →
      ∀ url filename : String,
        AlbumCoverReceived env s reply url filename = FinishCheck s ∧
        ((s.finished_ = true ∨ ¬ Quiescent s) →
          AlbumCoverReceived env s reply url filename = s)) ∧
    (∀ (type : QueryType) (inputs : List Input) (c : Nat × Callback),
      (run env type inputs).connections.find? (fun c => c.1 == reply.handle) = some c →
      (c.2.stage ≠ Stage.albumCovers → reply.handle ∈ (run env type inputs).replies_) ∧
      (c.2.stage = Stage.albumCovers →
        reply.handle ∈ (run env type inputs).album_cover_replies_)) := by
  refine ⟨fun h => ⟨?_, ?_, ?_, ?_, ?_, ?_, ?_, ?_⟩, fun h url filename => ⟨?_, ?_⟩, ?_⟩
  · intro l o
    unfold ArtistsReplyReceived
    rw [if_pos h]
  · intro a l o
    unfold AlbumsReceived
    rw [if_pos h]
  · intro a b l o
    unfold SongsReceived
    rw [if_pos h]
  · intro l o
    unfold AlbumsReplyReceived AlbumsReceived
    rw [if_pos (show reply.handle ∉ (albumsSettled s).replies_ from h)]
    rfl
  · intro l o
    unfold SongsReplyReceived SongsReceived
    rw [if_pos (show reply.handle ∉ (songsSettled s).replies_ from h)]
    rfl
  · intro a o
    unfold ArtistAlbumsReplyReceived AlbumsReceived
    rw [if_pos (show reply.handle ∉ (artistAlbumsProgress (artistAlbumsSettled s)).replies_
      from h)]
    rfl
  · intro a b
    unfold AlbumSongsReplyReceived SongsReceived
    rw [if_pos (show reply.handle ∉ (albumSongsProgress (albumSongsSettled s) 0).replies_
      from h)]
    rfl
  · intro a b o ho
    have e : albumSongsProgress (albumSongsSettled s) o = albumSongsSettled s := by
      unfold albumSongsProgress
      rw [if_neg ho]
    unfold AlbumSongsReplyReceived SongsReceived
    rw [e, if_pos (show reply.handle ∉ (albumSongsSettled s).replies_ from h)]
    rfl
  · unfold AlbumCoverReceived
    rw [if_pos h]
    rfl
  · intro hs
    unfold AlbumCoverReceived
    rw [if_pos h]
    rcases hs with hf | hq
    · exact FinishCheck_of_finished s hf
    · exact FinishCheck_of_not_quiescent s hq
  · intro type inputs c hfind
    have hcm := List.mem_of_find?_eq_some hfind
    have hh : c.1 = reply.handle := by
      have := List.find?_some hfind
      simpa using this
    have hw := (Sound_run env type inputs).wired
    exact ⟨fun hk => hh ▸ hw.api c hcm hk, fun hk => hh ▸ hw.cover c hcm hk⟩

/-! ## Request conservation -/

theorem conserved_iff (s : State) :
    Conserved s ↔
      s.artists_requests_total_ = (s.artists_requests_queue_.length : Int) + s.artists_requests_active_ + s.artists_requests_received_ ∧
      s.albums_requests_total_ = (s.albums_requests_queue_.length : Int) + s.albums_requests_active_ + s.albums_requests_received_ ∧
      s.songs_requests_total_ = (s.songs_requests_queue_.length : Int) + s.songs_requests_active_ + s.songs_requests_received_ ∧
      s.artist_albums_requests_total_ = (s.artist_albums_requests_queue_.length : Int) + s.artist_albums_requests_active_ + s.artist_albums_requests_received_ ∧
      s.album_songs_requests_total_ = (s.album_songs_requests_queue_.length : Int) + s.album_songs_requests_active_ + s.album_songs_requests_received_ ∧
      s.album_covers_requests_total_ = (s.album_cover_requests_queue_.length : Int) + s.album_covers_requests_active_ + s.album_covers_requests_received_ := by
  constructor
  · intro h
    refine ⟨?_, ?_, ?_, ?_, ?_, ?_⟩
    · simpa [State.total, State.queue, State.active, State.received] using h Stage.artists
    · simpa [State.total, State.queue, State.active, State.received] using h Stage.albums
    · simpa [State.total, State.queue, State.active, State.received] using h Stage.songs
    · simpa [State.total, State.queue, State.active, State.received] using h Stage.artistAlbums
    · simpa [State.total, State.queue, State.active, State.received] using h Stage.albumSongs
    · simpa [State.total, State.queue, State.active, State.received] using h Stage.albumCovers
  · intro h k
    obtain ⟨h1, h2, h3, h4, h5, h6⟩ := h
    cases k <;> simp only [State.total, State.queue, State.active, State.received,
      List.length_map] <;> assumption

theorem Conserved.kept_books {W : List Field} {s t : State} (h : Conserved s)
    (hag : AgreeOff W s t) (hW : ∀ f ∈ fpConserved, f ∉ W) : Conserved t := by
  rw [conserved_iff] at h ⊢
  rw [hag.artists_requests_total_ (hW _ (by decide)),
    hag.artists_requests_queue_ (hW _ (by decide)),
    hag.artists_requests_active_ (hW _ (by decide)),
    hag.artists_requests_received_ (hW _ (by decide)),
    hag.albums_requests_total_ (hW _ (by decide)),
    hag.albums_requests_queue_ (hW _ (by decide)),
    hag.albums_requests_active_ (hW _ (by decide)),
    hag.albums_requests_received_ (hW _ (by decide)),
    hag.songs_requests_total_ (hW _ (by decide)),
    hag.songs_requests_queue_ (hW _ (by decide)),
    hag.songs_requests_active_ (hW _ (by decide)),
    hag.songs_requests_received_ (hW _ (by decide)),
    hag.artist_albums_requests_total_ (hW _ (by decide)),
    hag.artist_albums_requests_queue_ (hW _ (by decide)),
    hag.artist_albums_requests_active_ (hW _ (by decide)),
    hag.artist_albums_requests_received_ (hW _ (by decide)),
    hag.album_songs_requests_total_ (hW _ (by decide)),
    hag.album_songs_requests_queue_ (hW _ (by decide)),
    hag.album_songs_requests_active_ (hW _ (by decide)),
    hag.album_songs_requests_received_ (hW _ (by decide)),
    hag.album_covers_requests_total_ (hW _ (by decide)),
    hag.album_cover_requests_queue_ (hW _ (by decide)),
    hag.album_covers_requests_active_ (hW _ (by decide)),
    hag.album_covers_requests_received_ (hW _ (by decide))]
  exact h

theorem Conserved.of_agree_off {W : List Field} {t : State} (h : Conserved t) {u : State}
    (hag : AgreeOff W t u) (hW : ∀ f ∈ fpConserved, f ∉ W) : Conserved u :=
  h.kept_books hag hW

theorem conserved_FinishCheck {t : State} (h : Conserved t) : Conserved (FinishCheck t) :=
  h.kept_books (agree_FinishCheck (W := fpFinishCheck) (fun _ h => h) (AgreeOff.unchanged _ t))
    (by decide)

theorem conserved_Error {t : State} (h : Conserved t) (e : String) : Conserved (Error t e) :=
  h.kept_books (agree_Error (W := fpError) (fun _ h => h) (AgreeOff.unchanged _ t) e) (by decide)

theorem conserved_foldl {β : Type} (f : State → β → State)
    (hf : ∀ t b, Conserved t → Conserved (f t b)) (l : List β) :
    ∀ t, Conserved t → Conserved (l.foldl f t) := by
  induction l with
  | nil => intro t h; exact h
  | cons b l ih => intro t h; exact ih _ (hf t b h)

theorem conserved_StartRequests {t : State} (h : Conserved t) : Conserved (StartRequests t) :=
  h.kept_books (agree_StartRequests (W := [Field.timer_active]) (fun _ h => h)
    (AgreeOff.unchanged _ t)) (by decide)

theorem conserved_emit {t : State} (h : Conserved t) (e : Event) : Conserved (emit t e) :=
  h.kept_books (agree_emit (W := [Field.emitted]) (fun _ h => h) (AgreeOff.unchanged _ t) e)
    (by decide)

theorem conserved_takeReply {t : State} (h : Conserved t) (r : Nat) :
    Conserved (takeReply t r) :=
  h.kept_books (agree_takeReply (W := [Field.replies_, Field.connections]) (fun _ h => h)
    (AgreeOff.unchanged _ t) r) (by decide)

theorem conserved_takeCoverReply {t : State} (h : Conserved t) (r : Nat) :
    Conserved (takeCoverReply t r) :=
  h.kept_books (agree_takeCoverReply (W := [Field.album_cover_replies_, Field.connections])
    (fun _ h => h) (AgreeOff.unchanged _ t) r) (by decide)

theorem conserved_GetReplyData {t : State} (h : Conserved t) (reply : QNetworkReply) :
    Conserved (GetReplyData t reply) :=
  conserved_foldl Error (fun _ e ht => conserved_Error ht e) _ t h

theorem conserved_removeCover {t : State} (h : Conserved t) (url : String) :
    Conserved (removeCover t url) :=
  h.kept_books (agree_removeCover (W := [Field.album_covers_requests_sent_]) (fun _ h => h)
    (AgreeOff.unchanged _ t) url) (by decide)

theorem conserved_applyCover {t : State} (h : Conserved t) (url filename : String) :
    Conserved (applyCover t url filename) :=
  h.kept_books (agree_applyCover (W := [Field.songs_, Field.album_covers_requests_sent_])
    (fun _ h => h) (AgreeOff.unchanged _ t) url filename) (by decide)

theorem conserved_artistAlbumsProgress {t : State} (h : Conserved t) :
    Conserved (artistAlbumsProgress t) :=
  conserved_emit h _

theorem conserved_albumCoverProgress {t : State} (h : Conserved t) :
    Conserved (albumCoverProgress t) :=
  conserved_emit h _

theorem conserved_albumSongsProgress {t : State} (h : Conserved t) (o : Int) :
    Conserved (albumSongsProgress t o) := by
  unfold albumSongsProgress
  split
  · exact conserved_emit h _
  · exact h

theorem conserved_artistAlbumsStatus {t : State} (h : Conserved t) :
    Conserved (artistAlbumsStatus t) :=
  h.kept_books (agree_artistAlbumsStatus (W := [Field.emitted]) (fun _ h => h)
    (AgreeOff.unchanged _ t)) (by decide)

theorem conserved_albumSongsStatus {t : State} (h : Conserved t) :
    Conserved (albumSongsStatus t) :=
  h.kept_books (agree_albumSongsStatus (W := [Field.emitted]) (fun _ h => h)
    (AgreeOff.unchanged _ t)) (by decide)

theorem conserved_albumCoversStatus {t : State} (h : Conserved t) :
    Conserved (albumCoversStatus t) :=
  h.kept_books (agree_albumCoversStatus (W := [Field.emitted]) (fun _ h => h)
    (AgreeOff.unchanged _ t)) (by decide)

theorem conserved_clearArtistAlbumsPending {t : State} (h : Conserved t) :
    Conserved (clearArtistAlbumsPending t) :=
  h.kept_books (agree_clearArtistAlbumsPending (W := [Field.artist_albums_requests_pending_])
    (fun _ h => h) (AgreeOff.unchanged _ t)) (by decide)

theorem conserved_clearAlbumSongsPending {t : State} (h : Conserved t) :
    Conserved (clearAlbumSongsPending t) :=
  h.kept_books (agree_clearAlbumSongsPending (W := [Field.album_songs_requests_pending_])
    (fun _ h => h) (AgreeOff.unchanged _ t)) (by decide)

theorem conserved_artistsSettled {t : State} (h : Conserved t) : Conserved (artistsSettled t) := by
  rw [conserved_iff] at h ⊢
  simp only [artistsSettled]
  omega

theorem conserved_albumsSettled {t : State} (h : Conserved t) : Conserved (albumsSettled t) := by
  rw [conserved_iff] at h ⊢
  simp only [albumsSettled]
  omega

theorem conserved_songsSettled {t : State} (h : Conserved t) : Conserved (songsSettled t) := by
  rw [conserved_iff] at h ⊢
  simp only [songsSettled]
  omega

theorem conserved_artistAlbumsSettled {t : State} (h : Conserved t) : Conserved (artistAlbumsSettled t) := by
  rw [conserved_iff] at h ⊢
  simp only [artistAlbumsSettled]
  omega

theorem conserved_albumSongsSettled {t : State} (h : Conserved t) : Conserved (albumSongsSettled t) := by
  rw [conserved_iff] at h ⊢
  simp only [albumSongsSettled]
  omega

theorem conserved_albumCoverSettled {t : State} (h : Conserved t) : Conserved (albumCoverSettled t) := by
  rw [conserved_iff] at h ⊢
  simp only [albumCoverSettled]
  omega

theorem conserved_AddArtistsRequest {t : State} (h : Conserved t) (o l : Int) :
    Conserved (AddArtistsRequest t o l) := by
  unfold AddArtistsRequest
  apply conserved_StartRequests
  rw [conserved_iff] at h ⊢
  simp only [List.length_append, List.length_singleton, Nat.cast_add, Nat.cast_one]
  omega

theorem conserved_AddAlbumsRequest {t : State} (h : Conserved t) (o l : Int) :
    Conserved (AddAlbumsRequest t o l) := by
  unfold AddAlbumsRequest
  apply conserved_StartRequests
  rw [conserved_iff] at h ⊢
  simp only [List.length_append, List.length_singleton, Nat.cast_add, Nat.cast_one]
  omega

theorem conserved_AddSongsRequest {t : State} (h : Conserved t) (o l : Int) :
    Conserved (AddSongsRequest t o l) := by
  unfold AddSongsRequest
  apply conserved_StartRequests
  rw [conserved_iff] at h ⊢
  simp only [List.length_append, List.length_singleton, Nat.cast_add, Nat.cast_one]
  omega

theorem conserved_AddArtistAlbumsRequest {t : State} (h : Conserved t) (a : Artist) (o : Int) :
    Conserved (AddArtistAlbumsRequest t a o) := by
  unfold AddArtistAlbumsRequest
  apply conserved_StartRequests
  rw [conserved_iff] at h ⊢
  simp only [List.length_append, List.length_singleton, Nat.cast_add, Nat.cast_one]
  omega

theorem conserved_AddAlbumSongsRequest {t : State} (h : Conserved t) (a : Artist) (b : Album) (o : Int) :
    Conserved (AddAlbumSongsRequest t a b o) := by
  unfold AddAlbumSongsRequest
  apply conserved_StartRequests
  rw [conserved_iff] at h ⊢
  simp only [List.length_append, List.length_singleton, Nat.cast_add, Nat.cast_one]
  omega

theorem conserved_AddAlbumCoverRequest (env : Env) {t : State} (h : Conserved t) (song : Song) :
    Conserved (AddAlbumCoverRequest env t song) := by
  unfold AddAlbumCoverRequest
  split
  · exact h
  · split
    · rw [conserved_iff] at h ⊢
      exact h
    · split
      · exact h
      · rw [conserved_iff] at h ⊢
        simp only [List.length_append, List.length_singleton, Nat.cast_add, Nat.cast_one]
        omega

theorem conserved_GetAlbumCoversCheck (env : Env) {t : State} (h : Conserved t) :
    Conserved (GetAlbumCoversCheck env t) := by
  unfold GetAlbumCoversCheck GetAlbumCovers
  split
  · exact conserved_StartRequests (conserved_emit (conserved_albumCoversStatus
      (conserved_foldl _ (fun t kv ht => conserved_AddAlbumCoverRequest env ht kv.2) _ _ h)) _)
  · exact h

theorem conserved_ArtistsRelease {t : State} (h : Conserved t) : Conserved (ArtistsRelease t) := by
  unfold ArtistsRelease
  split
  · exact conserved_artistAlbumsStatus (conserved_clearArtistAlbumsPending
      (conserved_foldl _ (fun t kv ht => conserved_AddArtistAlbumsRequest ht kv.2.artist 0) _ _ h))
  · exact h

theorem conserved_AlbumsRelease {t : State} (h : Conserved t) : Conserved (AlbumsRelease t) := by
  unfold AlbumsRelease
  split
  · exact conserved_albumSongsStatus (conserved_clearAlbumSongsPending
      (conserved_foldl _
        (fun t kv ht => conserved_AddAlbumSongsRequest ht kv.2.artist kv.2.album 0) _ _ h))
  · exact h

theorem conserved_ArtistsFinishCheck (env : Env) {t : State} (h : Conserved t) (l o r : Int) :
    Conserved (ArtistsFinishCheck env t l o r) := by
  unfold ArtistsFinishCheck ArtistsNextPage AddArtistsSearchRequest
  repeat' first
    | with_reducible apply conserved_FinishCheck
    | with_reducible apply conserved_ArtistsRelease
    | with_reducible apply conserved_AddArtistsRequest
    | split
    | exact h

theorem conserved_AlbumsFinishCheck (env : Env) {t : State} (h : Conserved t) (a : Artist)
    (l o n r : Int) : Conserved (AlbumsFinishCheck env t a l o n r) := by
  unfold AlbumsFinishCheck AlbumsNextPage AddAlbumsSearchRequest
  repeat' first
    | with_reducible apply conserved_FinishCheck
    | with_reducible apply conserved_GetAlbumCoversCheck
    | with_reducible apply conserved_AlbumsRelease
    | with_reducible apply conserved_AddAlbumsRequest
    | with_reducible apply conserved_AddArtistAlbumsRequest
    | split
    | exact h

theorem conserved_SongsFinishCheck (env : Env) {t : State} (h : Conserved t) (a : Artist)
    (b : Album) (l o n r : Int) : Conserved (SongsFinishCheck env t a b l o n r) := by
  unfold SongsFinishCheck SongsNextPage AddSongsSearchRequest
  repeat' first
    | with_reducible apply conserved_FinishCheck
    | with_reducible apply conserved_GetAlbumCoversCheck
    | with_reducible apply conserved_AddSongsRequest
    | with_reducible apply conserved_AddAlbumSongsRequest
    | split
    | exact h

theorem steady_Conserved {V : List Field} (hV : ∀ f ∈ fpConserved, f ∉ V) :
    Steady V Conserved :=
  ⟨fun _ _ hab h => h.kept_books hab hV, fun _ e h => conserved_Error h e⟩

theorem conserved_ArtistsItem (t : State) (v : QJsonValue) (h : Conserved t) :
    Conserved (ArtistsItem t v) :=
  h.kept_books (agree_ArtistsItem (W := fpError ++ [Field.artist_albums_requests_pending_])
    (fun _ h => h) (AgreeOff.unchanged _ t) v) (by decide)

theorem conserved_AlbumsItem (a : Artist) (t : State) (v : QJsonValue) (h : Conserved t) :
    Conserved (AlbumsItem a t v) :=
  h.kept_books (agree_AlbumsItem (W := fpError ++ [Field.album_songs_requests_pending_])
    (fun _ h => h) (AgreeOff.unchanged _ t) a v) (by decide)

theorem conserved_ArtistsSettled (env : Env) {t : State} (h : Conserved t)
    (reply : QNetworkReply) (l o : Int) : Conserved (ArtistsSettled env t reply l o) := by
  obtain ⟨y, l1, o1, r1, hy, hu⟩ :=
    ArtistsSettled_factor env (steady_Conserved (V := fpArtistsStill) (by decide))
      conserved_ArtistsItem (Before.start (W := fpArtistsPre) h) reply l o
  have h1 := conserved_ArtistsFinishCheck env hy.holds l1 o1 r1
  rcases hu with hu | ⟨e, hu⟩
  · rw [hu]
    exact h1
  · rw [hu]
    exact conserved_Error h1 e

theorem conserved_AlbumsSettled (env : Env) {t : State} (h : Conserved t)
    (reply : QNetworkReply) (a : Artist) (l o : Int) :
    Conserved (AlbumsSettled env t reply a l o) := by
  obtain ⟨y, l1, o1, n1, r1, hy, hu⟩ :=
    AlbumsSettled_factor env (steady_Conserved (V := fpAlbumsStill) (by decide)) a
      (conserved_AlbumsItem a) (Before.start (W := fpAlbumsPre) h) reply l o
  have h1 := conserved_AlbumsFinishCheck env hy.holds a l1 o1 n1 r1
  rcases hu with hu | ⟨e, hu⟩
  · rw [hu]
    exact h1
  · rw [hu]
    exact conserved_Error h1 e

theorem conserved_SongsSettled (env : Env) {t : State} (h : Conserved t)
    (reply : QNetworkReply) (a : Artist) (b : Album) (l o : Int) :
    Conserved (SongsSettled env t reply a b l o) := by
  obtain ⟨y, a1, b1, l1, o1, n1, r1, hy, hu⟩ :=
    SongsSettled_factor env (steady_Conserved (V := fpSongsStill) (by decide))
      (Before.start (W := fpSongsPre) h) reply a b l o
  have h1 := conserved_SongsFinishCheck env hy.holds a1 b1 l1 o1 n1 r1
  rcases hu with hu | ⟨e, hu⟩
  · rw [hu]
    exact h1
  · rw [hu]
    exact conserved_Error h1 e

theorem conserved_AlbumsReceived (env : Env) {t : State} (h : Conserved t)
    (reply : QNetworkReply) (a : Artist) (l o : Int) :
    Conserved (AlbumsReceived env t reply a l o) := by
  unfold AlbumsReceived
  split
  · exact h
  · exact conserved_AlbumsSettled env (conserved_GetReplyData (conserved_takeReply h _) reply)
      reply a l o

theorem conserved_SongsReceived (env : Env) {t : State} (h : Conserved t)
    (reply : QNetworkReply) (a : Artist) (b : Album) (l o : Int) :
    Conserved (SongsReceived env t reply a b l o) := by
  unfold SongsReceived
  split
  · exact h
  · exact conserved_SongsSettled env (conserved_GetReplyData (conserved_takeReply h _) reply)
      reply a b l o

theorem conserved_AlbumCoverReceived (env : Env) {t : State} (h : Conserved t)
    (reply : QNetworkReply) (url filename : String) :
    Conserved (AlbumCoverReceived env t reply url filename) := by
  unfold AlbumCoverReceived AlbumCoverSettled AlbumCoverBody AlbumCoverFinishCheck
  repeat' first
    | with_reducible apply conserved_FinishCheck
    | with_reducible apply conserved_Error
    | with_reducible apply conserved_removeCover
    | with_reducible apply conserved_applyCover
    | with_reducible apply conserved_albumCoverProgress
    | with_reducible apply conserved_albumCoverSettled
    | with_reducible apply conserved_takeCoverReply
    | split
    | exact h

/-- Every reply handler keeps the books of the requests, whatever reply it is called with. -/
theorem Conserved_dispatch (env : Env) {s : State} (h : Conserved s) (reply : QNetworkReply)
    (slot : Callback) : Conserved (dispatch env s reply slot) := by
  cases slot with
  | Artists l o =>
    show Conserved (ArtistsReplyReceived env s reply l o)
    unfold ArtistsReplyReceived
    split
    · exact h
    · exact conserved_ArtistsSettled env
        (conserved_artistsSettled (conserved_GetReplyData (conserved_takeReply h _) reply))
        reply l o
  | Albums l o => exact conserved_AlbumsReceived env (conserved_albumsSettled h) reply _ l o
  | Songs l o => exact conserved_SongsReceived env (conserved_songsSettled h) reply _ _ l o
  | ArtistAlbums a o =>
    exact conserved_AlbumsReceived env
      (conserved_artistAlbumsProgress (conserved_artistAlbumsSettled h)) reply a 0 o
  | AlbumSongs a b o =>
    exact conserved_SongsReceived env
      (conserved_albumSongsProgress (conserved_albumSongsSettled h) o) reply a b 0 o
  | AlbumCover url filename => exact conserved_AlbumCoverReceived env h reply url filename

theorem conserved_FlushArtistsLoop (q : List Request) :
    ∀ s : State, s.artists_requests_queue_ = q →
      (s.type_ = QueryType_Artists ∨ s.type_ = QueryType_SearchArtists) → Conserved s →
      Conserved (FlushArtistsLoop q s) := by
  induction q with
  | nil => intro s _ _ h; exact h
  | cons r q ih =>
    intro s hq ht h
    unfold FlushArtistsLoop
    split
    · try rw [if_pos ht]
      refine ih _ rfl ht ?_
      rw [conserved_iff] at h ⊢
      rw [hq] at h
      simp only [artistsSent, issueReply, List.length_cons, Nat.cast_add, Nat.cast_one] at h ⊢
      omega
    · exact h

theorem conserved_FlushAlbumsLoop (q : List Request) :
    ∀ s : State, s.albums_requests_queue_ = q →
      (s.type_ = QueryType_Albums ∨ s.type_ = QueryType_SearchAlbums) → Conserved s →
      Conserved (FlushAlbumsLoop q s) := by
  induction q with
  | nil => intro s _ _ h; exact h
  | cons r q ih =>
    intro s hq ht h
    unfold FlushAlbumsLoop
    split
    · try rw [if_pos ht]
      refine ih _ rfl ht ?_
      rw [conserved_iff] at h ⊢
      rw [hq] at h
      simp only [albumsSent, issueReply, List.length_cons, Nat.cast_add, Nat.cast_one] at h ⊢
      omega
    · exact h

theorem conserved_FlushSongsLoop (q : List Request) :
    ∀ s : State, s.songs_requests_queue_ = q →
      (s.type_ = QueryType_Songs ∨ s.type_ = QueryType_SearchSongs) → Conserved s →
      Conserved (FlushSongsLoop q s) := by
  induction q with
  | nil => intro s _ _ h; exact h
  | cons r q ih =>
    intro s hq ht h
    unfold FlushSongsLoop
    split
    · try rw [if_pos ht]
      refine ih _ rfl ht ?_
      rw [conserved_iff] at h ⊢
      rw [hq] at h
      simp only [songsSent, issueReply, List.length_cons, Nat.cast_add, Nat.cast_one] at h ⊢
      omega
    · exact h

theorem conserved_FlushArtistAlbumsLoop (q : List ArtistAlbumsRequest) :
    ∀ s : State, s.artist_albums_requests_queue_ = q → Conserved s → Conserved (FlushArtistAlbumsLoop q s) := by
  induction q with
  | nil => intro s _ h; exact h
  | cons r q ih =>
    intro s hq h
    unfold FlushArtistAlbumsLoop
    split
    · refine ih _ rfl ?_
      rw [conserved_iff] at h ⊢
      rw [hq] at h
      simp only [artistAlbumsSent, issueReply, List.length_cons, Nat.cast_add, Nat.cast_one] at h ⊢
      omega
    · exact h

theorem conserved_FlushAlbumSongsLoop (q : List AlbumSongsRequest) :
    ∀ s : State, s.album_songs_requests_queue_ = q → Conserved s → Conserved (FlushAlbumSongsLoop q s) := by
  induction q with
  | nil => intro s _ h; exact h
  | cons r q ih =>
    intro s hq h
    unfold FlushAlbumSongsLoop
    split
    · refine ih _ rfl ?_
      rw [conserved_iff] at h ⊢
      rw [hq] at h
      simp only [albumSongsSent, issueReply, List.length_cons, Nat.cast_add, Nat.cast_one] at h ⊢
      omega
    · exact h

theorem conserved_FlushAlbumCoverLoop (q : List AlbumCoverRequest) :
    ∀ s : State, s.album_cover_requests_queue_ = q → Conserved s → Conserved (FlushAlbumCoverLoop q s) := by
  induction q with
  | nil => intro s _ h; exact h
  | cons r q ih =>
    intro s hq h
    unfold FlushAlbumCoverLoop
    split
    · refine ih _ rfl ?_
      rw [conserved_iff] at h ⊢
      rw [hq] at h
      simp only [albumCoverSent, issueCoverReply, List.length_cons, Nat.cast_add, Nat.cast_one] at h ⊢
      omega
    · exact h

theorem Conserved_FlushRequests {s : State} (ht : StageTypes s) (h : Conserved s) :
    Conserved (FlushRequests s) := by
  have hq := queue_eq_nil s
  unfold FlushRequests FlushArtistsRequests FlushAlbumsRequests FlushSongsRequests
    FlushArtistAlbumsRequests FlushAlbumSongsRequests FlushAlbumCoverRequests
  split
  · rename_i hb
    exact conserved_FlushArtistsLoop _ s rfl
      (ht Stage.artists (Or.inl (fun e => hb (hq.1.mp e)))) h
  · split
    · rename_i hb
      exact conserved_FlushAlbumsLoop _ s rfl
        (ht Stage.albums (Or.inl (fun e => hb (hq.2.1.mp e)))) h
    · split
      · exact conserved_FlushArtistAlbumsLoop _ s rfl h
      · split
        · exact conserved_FlushAlbumSongsLoop _ s rfl h
        · split
          · rename_i hb
            exact conserved_FlushSongsLoop _ s rfl
              (ht Stage.songs (Or.inl (fun e => hb (hq.2.2.1.mp e)))) h
          · split
            · exact conserved_FlushAlbumCoverLoop _ s rfl h
            · rw [conserved_iff] at h ⊢
              exact h

theorem Conserved_step (env : Env) {s : State} (ht : StageTypes s) (h : Conserved s)
    (input : Input) : Conserved (step env s input) := by
  cases input with
  | Tick =>
    simp only [step]
    split
    · exact Conserved_FlushRequests ht h
    · exact h
  | Finished reply =>
    simp only [step]
    split
    · exact Conserved_dispatch env h reply _
    · exact h

theorem Conserved_Process (env : Env) (type : QueryType) :
    Conserved (Process env (State.init type)) := by
  rw [conserved_iff]
  cases type <;> exact ⟨rfl, rfl, rfl, rfl, rfl, rfl⟩

theorem Conserved_steps (env : Env) (inputs : List Input) :
    ∀ s, Sound s → StageTypes s → Conserved s → Conserved (inputs.foldl (step env) s) := by
  induction inputs with
  | nil => intro s _ _ h; exact h
  | cons input rest ih =>
    intro s hs ht h
    exact ih _ (Sound_step env hs input) (StageTypes_step env hs ht input)
      (Conserved_step env ht h input)

theorem Conserved_run (env : Env) (type : QueryType) (inputs : List Input) :
    Conserved (run env type inputs) :=
  Conserved_steps env inputs _ (Sound_Process env type) (StageTypes_Process env type)
    (Conserved_Process env type)

theorem received_of_agree {W : List Field} {s t : State} (hag : AgreeOff W s t)
    (hW : ∀ f ∈ [Field.artists_requests_received_, Field.albums_requests_received_,
      Field.songs_requests_received_, Field.artist_albums_requests_received_,
      Field.album_songs_requests_received_, Field.album_covers_requests_received_], f ∉ W)
    (k : Stage) : t.received k = s.received k := by
  cases k
  · exact hag.artists_requests_received_ (hW _ (by decide))
  · exact hag.albums_requests_received_ (hW _ (by decide))
  · exact hag.songs_requests_received_ (hW _ (by decide))
  · exact hag.artist_albums_requests_received_ (hW _ (by decide))
  · exact hag.album_songs_requests_received_ (hW _ (by decide))
  · exact hag.album_covers_requests_received_ (hW _ (by decide))

theorem registered_eq_inFlight {s : State} (h : Wired s) (k : Stage) :
    registered s k = inFlight s k := by
  unfold registered inFlight
  rw [List.countP_eq_length_filter]
  congr 2
  apply List.filter_congr
  intro c hc
  by_cases hk : c.2.stage = k
  · have hm : c.1 ∈ s.registry k := by
      subst hk
      by_cases hcov : c.2.stage = Stage.albumCovers
      · rw [hcov]
        exact h.cover c hc hcov
      · have hr := h.api c hc hcov
        revert hcov hr
        cases c.2.stage <;> intro hcov hr <;> first
          | exact hr
          | exact absurd rfl hcov
    simp [hk, hm]
  · simp [hk]

/-- What a delivery does to the counters: the stage of the slot has one active request less and
one received request more, every other stage keeps both counters. -/
theorem dispatch_counts (env : Env) {s : State} (h : Sound s) (reply : QNetworkReply)
    (c : Nat × Callback) (hcm : c ∈ s.connections) (hh : c.1 = reply.handle) (k : Stage) :
    (dispatch env s reply c.2).active k = s.active k - (if c.2.stage = k then 1 else 0) ∧
    (dispatch env s reply c.2).received k =
      s.received k + (if c.2.stage = k then 1 else 0) := by
  obtain ⟨handle, slot⟩ := c
  cases slot with
  | Artists l o =>
    have hreg : reply.handle ∈ s.replies_ :=
      hh ▸ h.wired.api _ hcm (fun e => Stage.noConfusion e)
    have hq : AgreeOff (fpError ++ [Field.replies_, Field.connections]) s
        (GetReplyData (takeReply s reply.handle) reply) :=
      agree_GetReplyData (by decide) (agree_takeReply (by decide) (AgreeOff.unchanged _ s) _) reply
    have hb := agree_ArtistsSettled (W := fpArtistsBody) (fun _ h => h)
      (AgreeOff.unchanged _ (artistsSettled (GetReplyData (takeReply s reply.handle) reply)))
      env reply l o
    show (ArtistsReplyReceived env s reply l o).active k = _ ∧
      (ArtistsReplyReceived env s reply l o).received k = _
    unfold ArtistsReplyReceived
    rw [if_neg (not_not.mpr hreg), active_of_agree hb (by decide) k,
      received_of_agree hb (by decide) k]
    have ha := active_of_agree hq (by decide)
    have hr := received_of_agree hq (by decide)
    cases k <;>
      simp only [Callback.stage, State.active, State.received, artistsSettled, if_true, if_false,
        reduceCtorEq, sub_zero, add_zero] <;>
      first
        | exact ⟨congrArg (fun v => v - 1) (ha Stage.artists),
            congrArg (fun v => v + 1) (hr Stage.artists)⟩
        | exact ⟨ha Stage.albums, hr Stage.albums⟩
        | exact ⟨ha Stage.songs, hr Stage.songs⟩
        | exact ⟨ha Stage.artistAlbums, hr Stage.artistAlbums⟩
        | exact ⟨ha Stage.albumSongs, hr Stage.albumSongs⟩
        | exact ⟨ha Stage.albumCovers, hr Stage.albumCovers⟩
  | Albums l o =>
    have hb := agree_AlbumsReceived (W := fpAlbumsReceived) (fun _ h => h)
      (AgreeOff.unchanged _ (albumsSettled s)) env reply Artist.empty l o
    show (AlbumsReceived env (albumsSettled s) reply Artist.empty l o).active k = _ ∧
      (AlbumsReceived env (albumsSettled s) reply Artist.empty l o).received k = _
    rw [active_of_agree hb (by decide) k, received_of_agree hb (by decide) k]
    cases k <;> simp [Callback.stage, State.active, State.received, albumsSettled]
  | Songs l o =>
    have hb := agree_SongsReceived (W := fpSongsReceived) (fun _ h => h)
      (AgreeOff.unchanged _ (songsSettled s)) env reply Artist.empty Album.empty l o
    show (SongsReceived env (songsSettled s) reply Artist.empty Album.empty l o).active k = _ ∧
      (SongsReceived env (songsSettled s) reply Artist.empty Album.empty l o).received k = _
    rw [active_of_agree hb (by decide) k, received_of_agree hb (by decide) k]
    cases k <;> simp [Callback.stage, State.active, State.received, songsSettled]
  | ArtistAlbums a o =>
    have hb := agree_AlbumsReceived (W := fpAlbumsReceived) (fun _ h => h)
      (AgreeOff.unchanged _ (artistAlbumsProgress (artistAlbumsSettled s))) env reply a 0 o
    show (AlbumsReceived env (artistAlbumsProgress (artistAlbumsSettled s)) reply a 0 o).active k
        = _ ∧
      (AlbumsReceived env (artistAlbumsProgress (artistAlbumsSettled s)) reply a 0 o).received k
        = _
    rw [active_of_agree hb (by decide) k, received_of_agree hb (by decide) k]
    cases k <;>
      simp [Callback.stage, State.active, State.received, artistAlbumsSettled,
        artistAlbumsProgress, emit]
  | AlbumSongs a b o =>
    have hb := agree_SongsReceived (W := fpSongsReceived) (fun _ h => h)
      (AgreeOff.unchanged _ (albumSongsProgress (albumSongsSettled s) o)) env reply a b 0 o
    have hp := agree_albumSongsProgress (W := [Field.emitted]) (fun _ h => h)
      (AgreeOff.unchanged _ (albumSongsSettled s)) o
    show (SongsReceived env (albumSongsProgress (albumSongsSettled s) o) reply a b 0 o).active k
        = _ ∧
      (SongsReceived env (albumSongsProgress (albumSongsSettled s) o) reply a b 0 o).received k
        = _
    rw [active_of_agree hb (by decide) k, received_of_agree hb (by decide) k,
      active_of_agree hp (by decide) k, received_of_agree hp (by decide) k]
    cases k <;> simp [Callback.stage, State.active, State.received, albumSongsSettled]
  | AlbumCover url filename =>
    have hreg : reply.handle ∈ s.album_cover_replies_ := hh ▸ h.wired.cover _ hcm rfl
    have hb := agree_AlbumCoverSettled (W := fpAlbumCoverBody ++ [Field.emitted])
      (List.subset_append_left _ _)
      (AgreeOff.unchanged _ (albumCoverSettled (takeCoverReply s reply.handle))) env reply url
      filename
    show (AlbumCoverReceived env s reply url filename).active k = _ ∧
      (AlbumCoverReceived env s reply url filename).received k = _
    unfold AlbumCoverReceived
    rw [if_neg (not_not.mpr hreg), active_of_agree hb (by decide) k,
      received_of_agree hb (by decide) k]
    cases k <;>
      simp [Callback.stage, State.active, State.received, albumCoverSettled, takeCoverReply]

/-- C34: request conservation.  The model hands out a reply for every request that is sent and
delivers a finished reply to its slot at most once (the slot disconnects the reply).  In every
state a run reaches and for every stage, `requests_total` is the length of the stage's queue
plus `requests_active` plus `requests_received`; `requests_active` is the number of replies
connected to the stage's slot, each of which is in the registry the stage keeps its replies in;
hence `requests_active` is not negative.  Every delivery of a finished reply takes exactly one
from `requests_active` of the stage of its slot and adds one to `requests_received` of that
stage, and leaves both counters of every other stage as they were. -/
theorem requests_are_conserved (env : Env) (type : QueryType) (inputs : List Input) :
    (∀ k : Stage,
      (run env type inputs).total k =
        (((run env type inputs).queue k).length : Int) + (run env type inputs).active k +
          (run env type inputs).received k ∧
      (run env type inputs).active k = registered (run env type inputs) k ∧
      (run env type inputs).active k = inFlight (run env type inputs) k ∧
      0 ≤ (run env type inputs).active k) ∧
    (∀ c ∈ (run env type inputs).connections,
      c.1 ∈ (run env type inputs).registry c.2.stage) ∧
    (∀ (reply : QNetworkReply) (c : Nat × Callback),
      (run env type inputs).connections.find? (fun c => c.1 == reply.handle) = some c →
      ∀ k : Stage,
        (step env (run env type inputs) (Input.Finished reply)).active k =
          (run env type inputs).active k - (if c.2.stage = k then 1 else 0) ∧
        (step env (run env type inputs) (Input.Finished reply)).received k =
          (run env type inputs).received k + (if c.2.stage = k then 1 else 0)) := by
  have hs := Sound_run env type inputs
  refine ⟨fun k => ⟨Conserved_run env type inputs k, ?_, hs.wired.counts k, ?_⟩, ?_, ?_⟩
  · rw [registered_eq_inFlight hs.wired k]
    exact hs.wired.counts k
  · rw [hs.wired.counts k]
    exact Int.natCast_nonneg _
  · intro c hc
    by_cases hcov : c.2.stage = Stage.albumCovers
    · rw [hcov]
      exact hs.wired.cover c hc hcov
    · have hr := hs.wired.api c hc hcov
      revert hcov hr
      cases c.2.stage <;> intro hcov hr <;> first
        | exact hr
        | exact absurd rfl hcov
  · intro reply c hfind k
    have hstep : step env (run env type inputs) (Input.Finished reply) =
        dispatch env (run env type inputs) reply c.2 := by
      simp only [step, hfind]
    rw [hstep]
    have hcm := List.mem_of_find?_eq_some hfind
    have hh : c.1 = reply.handle := by
      have := List.find?_some hfind
      simpa using this
    exact dispatch_counts env hs reply c hcm hh k

/-- A direct albums query with the album-songs requests of two albums in flight: two requests
in total, none queued, two active, none received; the reply to the first takes one from the
active requests and adds one to the received ones. -/
theorem requests_are_conserved_witness :
    (run sampleEnv QueryType_Albums twoAlbumsSentInputs).connections.find?
        (fun c => c.1 == (sampleReply 1 (samplePage "tracks" 0 1 [sampleTrack "a"])).handle) =
      some (1, Callback.AlbumSongs { artist_id := "artist1", artist := "artist" }
        { album_id := "x", album := "album", cover_url := "" } 0) ∧
    (run sampleEnv QueryType_Albums twoAlbumsSentInputs).total Stage.albumSongs = 2 ∧
    ((run sampleEnv QueryType_Albums twoAlbumsSentInputs).queue Stage.albumSongs).length = 0 ∧
    (run sampleEnv QueryType_Albums twoAlbumsSentInputs).active Stage.albumSongs = 2 ∧
    (run sampleEnv QueryType_Albums twoAlbumsSentInputs).received Stage.albumSongs = 0 ∧
    (step sampleEnv (run sampleEnv QueryType_Albums twoAlbumsSentInputs)
      (Input.Finished (sampleReply 1 (samplePage "tracks" 0 1 [sampleTrack "a"])))).active
        Stage.albumSongs =
      (run sampleEnv QueryType_Albums twoAlbumsSentInputs).active Stage.albumSongs - 1 ∧
    (step sampleEnv (run sampleEnv QueryType_Albums twoAlbumsSentInputs)
      (Input.Finished (sampleReply 1 (samplePage "tracks" 0 1 [sampleTrack "a"])))).received
        Stage.albumSongs =
      (run sampleEnv QueryType_Albums twoAlbumsSentInputs).received Stage.albumSongs + 1 :=
  have hfind : (run sampleEnv QueryType_Albums twoAlbumsSentInputs).connections.find?
        (fun c => c.1 == (sampleReply 1 (samplePage "tracks" 0 1 [sampleTrack "a"])).handle) =
      some (1, Callback.AlbumSongs { artist_id := "artist1", artist := "artist" }
        { album_id := "x", album := "album", cover_url := "" } 0) := by decide
  have h := (requests_are_conserved sampleEnv QueryType_Albums twoAlbumsSentInputs).2.2
    (sampleReply 1 (samplePage "tracks" 0 1 [sampleTrack "a"])) _ hfind Stage.albumSongs
  ⟨hfind, by decide, by decide, by decide, by decide, h.1, h.2⟩

/-! ## Requests without cover downloads -/

theorem search_is_no_query (type : QueryType) (h : IsSearch type = true) :
    IsQuery type = false := by
  cases type <;> first
    | rfl
    | exact absurd h (by decide)

theorem GetAlbumCoversCheck_off (env : Env) (z : State) (hd : CoversOff env z.type_) :
    GetAlbumCoversCheck env z = z := by
  unfold GetAlbumCoversCheck
  rw [if_neg]
  rintro ⟨_, h1, h2, _⟩
  rcases hd with hd | hd
  · rw [hd] at h1
    exact Bool.noConfusion h1
  · rw [hd] at h2
    exact Bool.noConfusion h2

theorem GetAlbumCoversCheck_started (env : Env) (s : State)
    (h : GetAlbumCoversCheck env s ≠ s) :
    s.finished_ = false ∧ env.download_album_covers = true ∧ IsQuery s.type_ = true ∧
      Quiescent s := by
  by_contra hn
  apply h
  unfold GetAlbumCoversCheck
  rw [if_neg hn]

theorem agree_AlbumsFinishCheck_off {W : List Field} {s t : State}
    (hW : fpAlbumsFinishOff ⊆ W) (h : AgreeOff W s t) (env : Env) (hd : CoversOff env t.type_)
    (a : Artist) (l o n r : Int) : AgreeOff W s (AlbumsFinishCheck env t a l o n r) := by
  have h1 := agree_AlbumsRelease (W := fpAlbumsFinishOff) (by decide)
    (agree_AlbumsNextPage (by decide) (AgreeOff.unchanged _ t) env a l o n r)
  unfold AlbumsFinishCheck
  split
  · exact h
  · rw [GetAlbumCoversCheck_off env _ (by rw [h1.type_ (by decide)]; exact hd)]
    exact agree_FinishCheck (List.Subset.trans (by decide) hW)
      (agree_AlbumsRelease (List.Subset.trans (by decide) hW)
        (agree_AlbumsNextPage (List.Subset.trans (by decide) hW) h env a l o n r))

theorem agree_SongsFinishCheck_off {W : List Field} {s t : State}
    (hW : fpSongsFinishOff ⊆ W) (h : AgreeOff W s t) (env : Env) (hd : CoversOff env t.type_)
    (a : Artist) (b : Album) (l o n r : Int) :
    AgreeOff W s (SongsFinishCheck env t a b l o n r) := by
  have h1 := agree_SongsNextPage (W := fpSongsFinishOff) (by decide) (AgreeOff.unchanged _ t)
    env a b l o n r
  unfold SongsFinishCheck
  split
  · exact h
  · rw [GetAlbumCoversCheck_off env _ (by rw [h1.type_ (by decide)]; exact hd)]
    exact agree_FinishCheck (List.Subset.trans (by decide) hW)
      (agree_SongsNextPage (List.Subset.trans (by decide) hW) h env a b l o n r)

theorem CoverFresh_taken {x : State} (h : CoverFresh x) (reply : QNetworkReply) :
    CoverFresh (GetReplyData (takeReply x reply.handle) reply) ∧
    (GetReplyData (takeReply x reply.handle) reply).type_ = x.type_ := by
  have hG := agree_GetReplyData (W := fpError ++ [Field.replies_, Field.connections])
    (by decide) (agree_takeReply (by decide) (AgreeOff.unchanged _ x) reply.handle) reply
  have hc := (agree_GetReplyData (W := fpError) (fun _ h => h)
    (AgreeOff.unchanged _ (takeReply x reply.handle)) reply).connections (by decide)
  refine ⟨h.carry_fresh hG (by decide) ?_, hG.type_ (by decide)⟩
  intro c hcm
  rw [hc] at hcm
  exact Or.inl (List.mem_filter.mp hcm).1

theorem CoverFresh_AlbumsReceived_off (env : Env) {x : State} (h : CoverFresh x)
    (hd : CoversOff env x.type_) (reply : QNetworkReply) (a : Artist) (l o : Int) :
    CoverFresh (AlbumsReceived env x reply a l o) := by
  unfold AlbumsReceived
  split
  · exact h
  · obtain ⟨h0, ht0⟩ := CoverFresh_taken h reply
    obtain ⟨y, l1, o1, n1, r1, hy, hu⟩ :=
      AlbumsSettled_factor env (steady_trivial fpAlbumsStill) a (fun _ _ _ => trivial)
        (Before.start (W := fpAlbumsPre) (P := fun _ => True)
          (t := GetReplyData (takeReply x reply.handle) reply) trivial) reply l o
    have hyf : CoverFresh y := h0.kept_fresh hy.agree (by decide)
    have hyt : CoversOff env y.type_ := by
      rw [hy.agree.type_ (by decide), ht0]
      exact hd
    have h1 : CoverFresh (AlbumsFinishCheck env y a l1 o1 n1 r1) :=
      hyf.kept_fresh (agree_AlbumsFinishCheck_off (W := fpAlbumsFinishOff) (fun _ h => h)
        (AgreeOff.unchanged _ y) env hyt a l1 o1 n1 r1) (by decide)
    rcases hu with hu | ⟨e, hu⟩
    · rw [hu]
      exact h1
    · rw [hu]
      exact h1.kept_fresh (agree_Error (W := fpError) (fun _ h => h) (AgreeOff.unchanged _ _) e)
        (by decide)

theorem CoverFresh_SongsReceived_off (env : Env) {x : State} (h : CoverFresh x)
    (hd : CoversOff env x.type_) (reply : QNetworkReply) (a : Artist) (b : Album) (l o : Int) :
    CoverFresh (SongsReceived env x reply a b l o) := by
  unfold SongsReceived
  split
  · exact h
  · obtain ⟨h0, ht0⟩ := CoverFresh_taken h reply
    obtain ⟨y, a1, b1, l1, o1, n1, r1, hy, hu⟩ :=
      SongsSettled_factor env (steady_trivial fpSongsStill)
        (Before.start (W := fpSongsPre) (P := fun _ => True)
          (t := GetReplyData (takeReply x reply.handle) reply) trivial) reply a b l o
    have hyf : CoverFresh y := h0.kept_fresh hy.agree (by decide)
    have hyt : CoversOff env y.type_ := by
      rw [hy.agree.type_ (by decide), ht0]
      exact hd
    have h1 : CoverFresh (SongsFinishCheck env y a1 b1 l1 o1 n1 r1) :=
      hyf.kept_fresh (agree_SongsFinishCheck_off (W := fpSongsFinishOff) (fun _ h => h)
        (AgreeOff.unchanged _ y) env hyt a1 b1 l1 o1 n1 r1) (by decide)
    rcases hu with hu | ⟨e, hu⟩
    · rw [hu]
      exact h1
    · rw [hu]
      exact h1.kept_fresh (agree_Error (W := fpError) (fun _ h => h) (AgreeOff.unchanged _ _) e)
        (by decide)

theorem CoverFresh_ArtistsReplyReceived (env : Env) {s : State} (h : CoverFresh s)
    (reply : QNetworkReply) (l o : Int) : CoverFresh (ArtistsReplyReceived env s reply l o) := by
  unfold ArtistsReplyReceived
  split
  · exact h
  · obtain ⟨h0, _⟩ := CoverFresh_taken h reply
    have h1 : CoverFresh (artistsSettled (GetReplyData (takeReply s reply.handle) reply)) :=
      h0.kept_fresh (agree_artistsSettled
        (W := [Field.artists_requests_active_, Field.artists_requests_received_])
        (fun _ h => h) (AgreeOff.unchanged _ _)) (by decide)
    exact h1.kept_fresh (agree_ArtistsSettled (W := fpArtistsBody) (fun _ h => h)
      (AgreeOff.unchanged _ _) env reply l o) (by decide)

/-- A reply handler of the API stages leaves the cover stage untouched when cover downloads are
off. -/
theorem CoverFresh_dispatch_off (env : Env) {s : State} (h : CoverFresh s)
    (hd : CoversOff env s.type_) (reply : QNetworkReply) (slot : Callback)
    (hs : slot.coverUrl = none) : CoverFresh (dispatch env s reply slot) := by
  cases slot with
  | Artists l o => exact CoverFresh_ArtistsReplyReceived env h reply l o
  | Albums l o =>
    exact CoverFresh_AlbumsReceived_off env
      (h.kept_fresh (agree_albumsSettled
        (W := [Field.albums_requests_active_, Field.albums_requests_received_]) (fun _ h => h)
        (AgreeOff.unchanged _ s)) (by decide)) hd reply _ l o
  | Songs l o =>
    exact CoverFresh_SongsReceived_off env
      (h.kept_fresh (agree_songsSettled
        (W := [Field.songs_requests_active_, Field.songs_requests_received_]) (fun _ h => h)
        (AgreeOff.unchanged _ s)) (by decide)) hd reply _ _ l o
  | ArtistAlbums a o =>
    exact CoverFresh_AlbumsReceived_off env
      (h.kept_fresh (agree_artistAlbumsProgress
        (W := [Field.emitted, Field.artist_albums_requests_active_,
          Field.artist_albums_requests_received_]) (by decide)
        (agree_artistAlbumsSettled (by decide) (AgreeOff.unchanged _ s))) (by decide))
      hd reply a 0 o
  | AlbumSongs a b o =>
    have hp := agree_albumSongsProgress
      (W := [Field.emitted, Field.album_songs_requests_active_,
        Field.album_songs_requests_received_]) (by decide)
      (agree_albumSongsSettled (by decide) (AgreeOff.unchanged _ s)) o
    exact CoverFresh_SongsReceived_off env (h.kept_fresh hp (by decide))
      (by rw [hp.type_ (by decide)]; exact hd) reply a b 0 o
  | AlbumCover url filename => exact absurd hs (by simp [Callback.coverUrl])

theorem CoverFresh_FlushRequests {s : State} (h : CoverFresh s) :
    CoverFresh (FlushRequests s) := by
  unfold FlushRequests FlushArtistsRequests FlushAlbumsRequests FlushSongsRequests
    FlushArtistAlbumsRequests FlushAlbumSongsRequests FlushAlbumCoverRequests
  split
  · exact h.carry_fresh
      (agree_FlushArtistsLoop (W := fpFlushArtists) (fun _ h => h) _ s (AgreeOff.unchanged _ s))
      (by decide)
      (conn_FlushArtistsLoop (P := fun slot => slot.coverUrl = none) (fun _ _ => rfl) _ s
        (ConnGrow.same _ s))
  · split
    · exact h.carry_fresh
        (agree_FlushAlbumsLoop (W := fpFlushAlbums) (fun _ h => h) _ s (AgreeOff.unchanged _ s))
        (by decide)
        (conn_FlushAlbumsLoop (P := fun slot => slot.coverUrl = none) (fun _ _ => rfl) _ s
          (ConnGrow.same _ s))
    · split
      · exact h.carry_fresh
          (agree_FlushArtistAlbumsLoop (W := fpFlushArtistAlbums) (fun _ h => h) _ s
            (AgreeOff.unchanged _ s))
          (by decide)
          (conn_FlushArtistAlbumsLoop (P := fun slot => slot.coverUrl = none) (fun _ _ => rfl)
            _ s (ConnGrow.same _ s))
      · split
        · exact h.carry_fresh
            (agree_FlushAlbumSongsLoop (W := fpFlushAlbumSongs) (fun _ h => h) _ s
              (AgreeOff.unchanged _ s))
            (by decide)
            (conn_FlushAlbumSongsLoop (P := fun slot => slot.coverUrl = none)
              (fun _ _ _ => rfl) _ s (ConnGrow.same _ s))
        · split
          · exact h.carry_fresh
              (agree_FlushSongsLoop (W := fpFlushSongs) (fun _ h => h) _ s
                (AgreeOff.unchanged _ s))
              (by decide)
              (conn_FlushSongsLoop (P := fun slot => slot.coverUrl = none) (fun _ _ => rfl) _ s
                (ConnGrow.same _ s))
          · split
            · rename_i hq
              exact absurd h.queue hq
            · exact ⟨h.queue, h.sent, h.total, h.active, h.conns⟩

theorem CoverFresh_step_off (env : Env) {s : State} (h : CoverFresh s)
    (hd : CoversOff env s.type_) (input : Input) : CoverFresh (step env s input) := by
  cases input with
  | Tick =>
    simp only [step]
    split
    · exact CoverFresh_FlushRequests h
    · exact h
  | Finished reply =>
    simp only [step]
    split
    · rename_i c hc
      exact CoverFresh_dispatch_off env h hd reply c.2
        (h.conns c (List.mem_of_find?_eq_some hc))
    · exact h

theorem CoverFresh_Process (env : Env) (type : QueryType) :
    CoverFresh (Process env (State.init type)) := by
  cases type <;>
    exact ⟨rfl, rfl, rfl, le_refl _, fun c hc => absurd hc (List.not_mem_nil _)⟩

theorem run_snoc (env : Env) (type : QueryType) (inputs : List Input) (input : Input) :
    run env type (inputs ++ [input]) = step env (run env type inputs) input := by
  unfold run
  rw [List.foldl_append]
  rfl

/-- With cover downloads off the cover stage never begins: in every state of the run no
download is queued, registered, counted or connected. -/
theorem CoverFresh_run_off (env : Env) (type : QueryType) (hd : CoversOff env type)
    (inputs : List Input) : CoverFresh (run env type inputs) := by
  induction inputs using List.reverseRecOn with
  | nil => exact CoverFresh_Process env type
  | append_singleton inputs input ih =>
    rw [run_snoc]
    exact CoverFresh_step_off env ih (by rw [type_run]; exact hd) input

/-! ## The albums of a requested artist -/

theorem OwnAlbum.artist_id {a : Artist} {v : QJsonValue} {kv : String × AlbumSongsRequest}
    (h : OwnAlbum a v kv) : kv.2.artist.artist_id = a.artist_id := by
  obtain ⟨obj_item, obj_artist, _, _, hid, hkv⟩ := h
  rw [hkv]
  exact hid

theorem FlushArtistsLoop_sent (q : List Request) :
    ∀ s : State, (FlushArtistsLoop q s).artists_requests_active_ + (s.connections.length : Int) =
      s.artists_requests_active_ + ((FlushArtistsLoop q s).connections.length : Int) := by
  induction q with
  | nil => intro s; unfold FlushArtistsLoop; rfl
  | cons r q ih =>
    intro s
    unfold FlushArtistsLoop
    split
    · split
      · have h := ih (artistsSent (issueReply { s with artists_requests_queue_ := q }
          (Callback.Artists r.limit r.offset)))
        simp only [artistsSent, issueReply, List.length_append, List.length_singleton, Nat.cast_add,
          Nat.cast_one] at h ⊢
        omega
      · exact ih { s with artists_requests_queue_ := q }
    · rfl

theorem FlushAlbumsLoop_sent (q : List Request) :
    ∀ s : State, (FlushAlbumsLoop q s).albums_requests_active_ + (s.connections.length : Int) =
      s.albums_requests_active_ + ((FlushAlbumsLoop q s).connections.length : Int) := by
  induction q with
  | nil => intro s; unfold FlushAlbumsLoop; rfl
  | cons r q ih =>
    intro s
    unfold FlushAlbumsLoop
    split
    · split
      · have h := ih (albumsSent (issueReply { s with albums_requests_queue_ := q }
          (Callback.Albums r.limit r.offset)))
        simp only [albumsSent, issueReply, List.length_append, List.length_singleton, Nat.cast_add,
          Nat.cast_one] at h ⊢
        omega
      · exact ih { s with albums_requests_queue_ := q }
    · rfl

theorem FlushSongsLoop_sent (q : List Request) :
    ∀ s : State, (FlushSongsLoop q s).songs_requests_active_ + (s.connections.length : Int) =
      s.songs_requests_active_ + ((FlushSongsLoop q s).connections.length : Int) := by
  induction q with
  | nil => intro s; unfold FlushSongsLoop; rfl
  | cons r q ih =>
    intro s
    unfold FlushSongsLoop
    split
    · split
      · have h := ih (songsSent (issueReply { s with songs_requests_queue_ := q }
          (Callback.Songs r.limit r.offset)))
        simp only [songsSent, issueReply, List.length_append, List.length_singleton, Nat.cast_add,
          Nat.cast_one] at h ⊢
        omega
      · exact ih { s with songs_requests_queue_ := q }
    · rfl

theorem FlushArtistAlbumsLoop_sent (q : List ArtistAlbumsRequest) :
    ∀ s : State, (FlushArtistAlbumsLoop q s).artist_albums_requests_active_ + (s.connections.length : Int) =
      s.artist_albums_requests_active_ + ((FlushArtistAlbumsLoop q s).connections.length : Int) := by
  induction q with
  | nil => intro s; unfold FlushArtistAlbumsLoop; rfl
  | cons r q ih =>
    intro s
    unfold FlushArtistAlbumsLoop
    split
    · have h := ih (artistAlbumsSent (issueReply { s with artist_albums_requests_queue_ := q }
        (Callback.ArtistAlbums r.artist r.offset)))
      simp only [artistAlbumsSent, issueReply, List.length_append, List.length_singleton, Nat.cast_add,
        Nat.cast_one] at h ⊢
      omega
    · rfl

theorem FlushAlbumSongsLoop_sent (q : List AlbumSongsRequest) :
    ∀ s : State, (FlushAlbumSongsLoop q s).album_songs_requests_active_ + (s.connections.length : Int) =
      s.album_songs_requests_active_ + ((FlushAlbumSongsLoop q s).connections.length : Int) := by
  induction q with
  | nil => intro s; unfold FlushAlbumSongsLoop; rfl
  | cons r q ih =>
    intro s
    unfold FlushAlbumSongsLoop
    split
    · have h := ih (albumSongsSent (issueReply { s with album_songs_requests_queue_ := q }
        (Callback.AlbumSongs r.artist r.album r.offset)))
      simp only [albumSongsSent, issueReply, List.length_append, List.length_singleton, Nat.cast_add,
        Nat.cast_one] at h ⊢
      omega
    · rfl

theorem FlushAlbumCoverLoop_sent (q : List AlbumCoverRequest) :
    ∀ s : State, (FlushAlbumCoverLoop q s).album_covers_requests_active_ + (s.connections.length : Int) =
      s.album_covers_requests_active_ + ((FlushAlbumCoverLoop q s).connections.length : Int) := by
  induction q with
  | nil => intro s; unfold FlushAlbumCoverLoop; rfl
  | cons r q ih =>
    intro s
    unfold FlushAlbumCoverLoop
    split
    · have h := ih (albumCoverSent (issueCoverReply { s with album_cover_requests_queue_ := q }
        (Callback.AlbumCover r.url r.filename)))
      simp only [albumCoverSent, issueCoverReply, List.length_append, List.length_singleton, Nat.cast_add,
        Nat.cast_one] at h ⊢
      omega
    · rfl

theorem stageFlush_sent (k : Stage) (s : State) :
    (stageFlush k s).active k + (s.connections.length : Int) =
      s.active k + ((stageFlush k s).connections.length : Int) := by
  cases k
  · exact FlushArtistsLoop_sent _ s
  · exact FlushAlbumsLoop_sent _ s
  · exact FlushSongsLoop_sent _ s
  · exact FlushArtistAlbumsLoop_sent _ s
  · exact FlushAlbumSongsLoop_sent _ s
  · exact FlushAlbumCoverLoop_sent _ s

theorem stageSlot_served (type : QueryType) (k : Stage) (hk : k.serves type) (s : State) :
    ∀ q ∈ s.queue k, (stageSlot type k q).isSome = true := by
  intro q hq
  cases k <;> simp only [State.queue, List.mem_map] at hq <;> obtain ⟨r, _, rfl⟩ := hq
  · simp only [stageSlot, if_pos (show type = QueryType_Artists ∨ type = QueryType_SearchArtists
      from hk)]
    rfl
  · simp only [stageSlot, if_pos (show type = QueryType_Albums ∨ type = QueryType_SearchAlbums
      from hk)]
    rfl
  · simp only [stageSlot, if_pos (show type = QueryType_Songs ∨ type = QueryType_SearchSongs
      from hk)]
    rfl
  · rfl
  · rfl
  · rfl

theorem filterMap_length_of_isSome {α β : Type} (f : α → Option β) :
    ∀ l : List α, (∀ a ∈ l, (f a).isSome = true) → (l.filterMap f).length = l.length := by
  intro l
  induction l with
  | nil => intro _; rfl
  | cons a l ih =>
    intro h
    have ha := h a (List.mem_cons_self _ _)
    obtain ⟨b, hb⟩ := Option.isSome_iff_exists.mp ha
    rw [List.filterMap_cons, hb]
    simp only [List.length_cons]
    rw [ih (fun x hx => h x (List.mem_cons_of_mem _ hx))]

/-- The flush of a stage: the requests it takes from the head of the queue, what it sends for
them, and what it counts. -/
theorem stageFlush_drain (k : Stage) (s : State) :
    ∃ n, n ≤ (s.queue k).length ∧
      (s.queue k ≠ [] → s.active k < k.cap → 0 < n) ∧
      (stageFlush k s).queue k = (s.queue k).drop n ∧
      (stageFlush k s).connections.map (fun c => c.2) =
        s.connections.map (fun c => c.2) ++
          ((s.queue k).take n).filterMap (stageSlot s.type_ k) ∧
      (stageFlush k s).active k =
        s.active k + ((((s.queue k).take n).filterMap (stageSlot s.type_ k)).length : Int) ∧
      (k.serves s.type_ → (stageFlush k s).active k = s.active k + (n : Int)) ∧
      ((stageFlush k s).queue k = [] ∨ k.cap ≤ (stageFlush k s).active k) := by
  obtain ⟨n, h1, h2, h3, _⟩ := stageFlush_fifo k s
  have key : ∀ m, (stageFlush k s).queue k = (s.queue k).drop m →
      (stageFlush k s).connections.map (fun c => c.2) =
        s.connections.map (fun c => c.2) ++
          ((s.queue k).take m).filterMap (stageSlot s.type_ k) →
      m ≤ (s.queue k).length →
      (s.queue k ≠ [] → s.active k < k.cap → 0 < m) ∧
      (stageFlush k s).active k =
        s.active k + ((((s.queue k).take m).filterMap (stageSlot s.type_ k)).length : Int) ∧
      (k.serves s.type_ → (stageFlush k s).active k = s.active k + (m : Int)) := by
    intro m e1 e2 hm
    have hl := congrArg List.length e2
    simp only [List.length_map, List.length_append] at hl
    have hs := stageFlush_sent k s
    have ha : (stageFlush k s).active k =
        s.active k + ((((s.queue k).take m).filterMap (stageSlot s.type_ k)).length : Int) := by
      rw [hl] at hs
      push_cast at hs
      omega
    refine ⟨fun hq hlt => ?_, ha, fun hk => ?_⟩
    · rcases Nat.eq_zero_or_pos m with h0 | h0
      · exfalso
        subst h0
        rw [List.drop_zero] at e1
        rw [List.take_zero, List.filterMap_nil, List.length_nil] at ha
        rcases h3 with h3 | h3
        · exact hq (e1 ▸ h3)
        · rw [ha] at h3
          simp only [Nat.cast_zero, add_zero] at h3
          omega
      · exact h0
    · rw [ha, filterMap_length_of_isSome _ _ (fun q hq =>
        stageSlot_served s.type_ k hk s q (List.mem_of_mem_take hq)), List.length_take,
        Nat.min_eq_left hm]
  by_cases hn : n ≤ (s.queue k).length
  · obtain ⟨k1, k2, k3⟩ := key n h1 h2 hn
    exact ⟨n, hn, k1, h1, h2, k2, k3, h3⟩
  · have hge : (s.queue k).length ≤ n := Nat.le_of_lt (Nat.lt_of_not_le hn)
    have e1 : (stageFlush k s).queue k = (s.queue k).drop (s.queue k).length := by
      rw [h1, List.drop_eq_nil_of_le hge, List.drop_length]
    have e2 : (stageFlush k s).connections.map (fun c => c.2) =
        s.connections.map (fun c => c.2) ++
          ((s.queue k).take (s.queue k).length).filterMap (stageSlot s.type_ k) := by
      rw [h2, List.take_of_length_le hge, List.take_length]
    obtain ⟨k1, k2, k3⟩ := key _ e1 e2 (le_refl _)
    exact ⟨_, le_refl _, k1, e1, e2, k2, k3, h3⟩

/-- C22: a flush tick runs the flush function of exactly one stage, the first one with a
non-empty queue in the order artists, albums, artist-albums, album-songs, songs, album covers.
That stage is drained from the head of its queue: for some `n`, at least one when the stage is
below its concurrency cap, the first `n` requests leave the queue in order, the replies sent
for them are connected to the stage's slot in the same order behind the connections there
were, the active count of the stage grows by the number of replies sent (by `n` in a query the
stage works for, and in a run the first busy stage always works for the query), and afterwards
the queue is empty or the stage is at its cap.  The queue and the active count of every other
stage and the timer are as before.  When all six queues are empty, and only then, the tick
does nothing but stop the timer. -/
theorem flush_tick_drains_one_stage (s : State) :
    (∀ k, firstBusy s = some k →
      s.queue k ≠ [] ∧ FlushRequests s = stageFlush k s ∧
      (∀ j, j ≠ k →
        (FlushRequests s).queue j = s.queue j ∧ (FlushRequests s).active j = s.active j) ∧
      (FlushRequests s).timer_active = s.timer_active ∧
      ∃ n, n ≤ (s.queue k).length ∧
        (s.active k < k.cap → 0 < n) ∧
        (FlushRequests s).queue k = (s.queue k).drop n ∧
        (FlushRequests s).connections.map (fun c => c.2) =
          s.connections.map (fun c => c.2) ++
            ((s.queue k).take n).filterMap (stageSlot s.type_ k) ∧
        (FlushRequests s).active k =
          s.active k + ((((s.queue k).take n).filterMap (stageSlot s.type_ k)).length : Int) ∧
        (k.serves s.type_ → (FlushRequests s).active k = s.active k + (n : Int)) ∧
        ((FlushRequests s).queue k = [] ∨ k.cap ≤ (FlushRequests s).active k)) ∧
    (firstBusy s = none → FlushRequests s = { s with timer_active := false }) ∧
    (firstBusy s = none ↔ ∀ k, s.queue k = []) ∧
    (∀ (env : Env) (type : QueryType) (inputs : List Input) (k : Stage),
      firstBusy (run env type inputs) = some k → k.serves (run env type inputs).type_) := by
  refine ⟨fun k hk => ?_, (FlushRequests_firstBusy s).2, (firstBusy_spec s).1,
    fun env type inputs k hk =>
      StageTypes_run env type inputs k (Or.inl ((firstBusy_spec _).2 k hk))⟩
  have e := (FlushRequests_firstBusy s).1 k hk
  have hq := (firstBusy_spec s).2 k hk
  obtain ⟨n, h1, h2, h3, h4, h5, h6, h7⟩ := stageFlush_drain k s
  rw [e]
  exact ⟨hq, rfl, (stageFlush_others k s).1, (stageFlush_others k s).2,
    n, h1, h2 hq, h3, h4, h5, h6, h7⟩

/-- Three ticks.  With an artists page and two artist-albums requests queued, the tick sends the
artists page and leaves the artist-albums queue and the timer alone.  In the direct songs query
of Scenario D with the cover downloads of `u` and `v` queued, the tick takes the download of
`u` from the queue, connects its reply to the cover handler and stops at the cap of one.  In
the albums query with the songs of the albums `x` and `y` queued, the tick sends both. -/
theorem flush_tick_drains_one_stage_witness :
    (firstBusy twoQueuesState = some Stage.artists ∧
      (FlushRequests twoQueuesState).artists_requests_queue_ = [] ∧
      (FlushRequests twoQueuesState).artists_requests_active_ = 1 ∧
      (FlushRequests twoQueuesState).queue Stage.artistAlbums =
        twoQueuesState.queue Stage.artistAlbums ∧
      (FlushRequests twoQueuesState).active Stage.artistAlbums = 0 ∧
      (FlushRequests twoQueuesState).timer_active = true) ∧
    (firstBusy (run coverEnv QueryType_Songs (scenarioDInputs.take 2)) =
        some Stage.albumCovers ∧
      (run coverEnv QueryType_Songs (scenarioDInputs.take 2)).album_cover_requests_queue_ =
        [{ url := "u", filename := "/covers/u" }, { url := "v", filename := "/covers/v" }] ∧
      (run coverEnv QueryType_Songs (scenarioDInputs.take 2)).connections = [] ∧
      (FlushRequests
        (run coverEnv QueryType_Songs (scenarioDInputs.take 2))).album_cover_requests_queue_ =
        [{ url := "v", filename := "/covers/v" }] ∧
      (FlushRequests (run coverEnv QueryType_Songs (scenarioDInputs.take 2))).connections =
        [(1, Callback.AlbumCover "u" "/covers/u")] ∧
      (FlushRequests
        (run coverEnv QueryType_Songs (scenarioDInputs.take 2))).album_covers_requests_active_ =
        1 ∧
      ∃ n, 0 < n ∧
        (FlushRequests (run coverEnv QueryType_Songs (scenarioDInputs.take 2))).queue
            Stage.albumCovers =
          ((run coverEnv QueryType_Songs (scenarioDInputs.take 2)).queue
            Stage.albumCovers).drop n ∧
        (FlushRequests (run coverEnv QueryType_Songs (scenarioDInputs.take 2))).active
            Stage.albumCovers =
          (run coverEnv QueryType_Songs (scenarioDInputs.take 2)).active Stage.albumCovers +
            (n : Int)) ∧
    (firstBusy (run sampleEnv QueryType_Albums (twoAlbumsSentInputs.take 2)) =
        some Stage.albumSongs ∧
      (FlushRequests (run sampleEnv QueryType_Albums
        (twoAlbumsSentInputs.take 2))).album_songs_requests_queue_ = [] ∧
      (FlushRequests (run sampleEnv QueryType_Albums
        (twoAlbumsSentInputs.take 2))).album_songs_requests_active_ = 2 ∧
      (FlushRequests (run sampleEnv QueryType_Albums
        (twoAlbumsSentInputs.take 2))).connections.map (fun c => c.2) =
        (run sampleEnv QueryType_Albums (twoAlbumsSentInputs.take 2)).connections.map
            (fun c => c.2) ++
          ((run sampleEnv QueryType_Albums (twoAlbumsSentInputs.take 2)).queue
            Stage.albumSongs).filterMap (stageSlot QueryType_Albums Stage.albumSongs)) := by
  have h := (flush_tick_drains_one_stage twoQueuesState).1 Stage.artists (by decide)
  have hc := (flush_tick_drains_one_stage
    (run coverEnv QueryType_Songs (scenarioDInputs.take 2))).1 Stage.albumCovers (by decide)
  obtain ⟨n, _, hpos, hq, _, _, hs, _⟩ := hc.2.2.2.2
  refine ⟨⟨by decide, by decide, by decide, (h.2.2.1 _ (by decide)).1, ?_, ?_⟩,
    ⟨by decide, by decide, by decide, by decide, by decide, by decide,
      n, hpos (by decide), hq, hs (show Stage.albumCovers.serves _ from True.intro)⟩,
    ⟨by decide, by decide, by decide, by decide⟩⟩
  · rw [(h.2.2.1 _ (by decide)).2]; decide
  · rw [h.2.2.2.1]; decide

/-! ## The finished flag set in the middle of a handler -/

/-- C2 (the code at the failing input): Scenario B with the malformed track first.  Before the
reply is delivered the request is unfinished, the song map is empty and no song was counted.
The item loop of `SongsReceived` reports the malformed track through `Error`, whose
`FinishCheck` finds the request quiescent: after this first item `finished_` is set and
`Results` is emitted with the empty song map.  The handler runs on: when it returns, the four
valid tracks are in the song map, `songs_received_` is 5, and a progress signal stands after
the `Results` signal.  The last part is the handler itself from the item loop on: the
insertion, the count with its progress signal and the finish check follow the loop in which
the flag was set. -/
theorem flag_set_mid_page_does_not_stop_the_handler :
    ((run sampleEnv QueryType_Songs [Input.Tick]).finished_ = false ∧
      (run sampleEnv QueryType_Songs [Input.Tick]).connections = [(0, Callback.Songs 0 0)] ∧
      (run sampleEnv QueryType_Songs [Input.Tick]).songs_ = [] ∧
      (run sampleEnv QueryType_Songs [Input.Tick]).songs_received_ = 0 ∧
      (run sampleEnv QueryType_Songs [Input.Tick]).emitted =
        [Event.UpdateStatus "Receiving songs...", Event.UpdateProgress Progress.Zero]) ∧
    ((SongsItems sampleEnv Artist.empty Album.empty [malformedTrack]
        scenarioBLoopStart).1.finished_ = true ∧
      (SongsItems sampleEnv Artist.empty Album.empty [malformedTrack]
        scenarioBLoopStart).1.emitted =
        [Event.UpdateStatus "Receiving songs...", Event.UpdateProgress Progress.Zero,
         Event.Results [] "Invalid Json reply, track is missing one or more values.<br />"] ∧
      (SongsItems sampleEnv Artist.empty Album.empty [malformedTrack]
        scenarioBLoopStart).1.songs_ = [] ∧
      (SongsItems sampleEnv Artist.empty Album.empty [malformedTrack]
        scenarioBLoopStart).1.songs_received_ = 0) ∧
    ((scenarioB 0).finished_ = true ∧
      (scenarioB 0).emitted =
        [Event.UpdateStatus "Receiving songs...", Event.UpdateProgress Progress.Zero,
         Event.Results [] "Invalid Json reply, track is missing one or more values.<br />",
         Event.UpdateProgress (Progress.GetProgress 5 0)] ∧
      (scenarioB 0).songs_.map (fun kv => kv.1) = ["a", "b", "c", "d"] ∧
      (scenarioB 0).songs_received_ = 5 ∧
      (scenarioB 0).connections = []) ∧
    scenarioB 0 =
      SongsFinishCheck sampleEnv
        (songsCounted
          (songsInserted
            (SongsItems sampleEnv Artist.empty Album.empty
              (malformedTrack :: ["a", "b", "c", "d"].map sampleTrack) scenarioBLoopStart).1
            (SongsItems sampleEnv Artist.empty Album.empty
              (malformedTrack :: ["a", "b", "c", "d"].map sampleTrack) scenarioBLoopStart).2)
          5)
        Artist.empty Album.empty 0 0 5 5 :=
  ⟨by decide, by decide, by decide, rfl⟩

/-! ## Completions of replies that are not in flight -/

theorem Quiescent.stage {s : State} (h : Quiescent s) (k : Stage) :
    s.queue k = [] ∧ s.active k ≤ 0 := by
  obtain ⟨q1, q2, q3, q4, q5, q6, _, _, _, a1, a2, a3, a4, a5, a6⟩ := h
  cases k <;> simp only [State.queue, State.active, List.map_eq_nil_iff]
  · exact ⟨q1, a1⟩
  · exact ⟨q2, a2⟩
  · exact ⟨q3, a3⟩
  · exact ⟨q4, a4⟩
  · exact ⟨q5, a5⟩
  · exact ⟨q6, a6⟩

theorem RemoteCover.mono {L M : List Song} (hLM : ∀ p ∈ L, p ∈ M) {song : Song}
    (h : RemoteCover L song) : RemoteCover M song := by
  obtain ⟨p, hp, e⟩ := h
  exact ⟨p, hLM p hp, e⟩

theorem Remote.grow {L M : List Song} (hLM : ∀ p ∈ L, p ∈ M) {m : SongMap}
    (h : Remote L m) : Remote M m :=
  fun kv hkv => (h kv hkv).mono hLM

theorem Orig.widen {L M : List Song} (hLM : ∀ p ∈ L, p ∈ M) {t : State}
    (h : Orig L t) : Orig M t :=
  ⟨h.1.grow hLM, fun songs error hm => (h.2 songs error hm).grow hLM⟩

theorem RemoteCover_self {L : List Song} {song : Song} (h : song ∈ L) : RemoteCover L song :=
  ⟨song, h, rfl, rfl⟩

theorem RemoteCover_storedSong {L : List Song} (songs : List Song) (song : Song)
    (h : RemoteCover L song) : RemoteCover L (storedSong songs song) := by
  unfold storedSong
  simp only
  split <;> split <;> exact h

theorem Remote_nil {L : List Song} : Remote L [] :=
  fun _ hkv => absurd hkv (List.not_mem_nil _)

theorem Remote_mapInsert {L : List Song} (m : SongMap) (key : String) (song : Song) (hm
    : Remote L m)
    (hs : RemoteCover L song) : Remote L (mapInsert m key song) := by
  unfold mapInsert
  split
  · intro kv hkv
    obtain ⟨kv0, hm0, e⟩ := List.mem_map.mp hkv
    split at e
    · rw [← e]
      exact hs
    · rw [← e]
      exact hm kv0 hm0
  · intro kv hkv
    rcases List.mem_append.mp hkv with h | h
    · exact hm kv h
    · rw [List.mem_singleton.mp h]
      exact hs

theorem Remote_foldl {L : List Song} (f : Song → Song) (hf
    : ∀ song, RemoteCover L song → RemoteCover L (f song))
    (l : List Song) :
    ∀ m : SongMap, Remote L m → (∀ song ∈ l, RemoteCover L song) →
      Remote L (l.foldl (fun m song => mapInsert m (f song).song_id (f song)) m) := by
  induction l with
  | nil => intro m h _; exact h
  | cons x l ih =>
    intro m h hl
    exact ih _ (Remote_mapInsert m _ _ h (hf x (hl x (List.mem_cons_self _ _))))
      (fun song hs => hl song (List.mem_cons_of_mem _ hs))

theorem Remote_insertSongs {L : List Song} (m : SongMap) (songs : List Song) (hm : Remote L m)
    (hs : ∀ song ∈ songs, RemoteCover L song) : Remote L (insertSongs m songs) := by
  rw [insertSongs_eq]
  exact Remote_foldl _ (RemoteCover_storedSong songs) songs m hm hs

theorem orig_mk {L : List Song} {t : State} (h : Orig L t)
    {a1 : QueryType} {a2 a3 : Bool} {a4 a5 a6 a7 a8 a9 a10 a11 a12 a13 a14 a15 a16 a17 a18 a19 a20
      a21 a22 a23 a24 a25 a26 a27 : Int} {a28 : Bool} {a29 a30 a31 : List Request}
    {a32 : List ArtistAlbumsRequest} {a33 : List AlbumSongsRequest}
    {a34 : List AlbumCoverRequest} {a35 : List (String × ArtistAlbumsRequest)}
    {a36 : List (String × AlbumSongsRequest)} {a37 : List (String × String)}
    {a39 : List String} {a40 a41 : List Nat} {a42 : List (Nat × Callback)} {a43 : Nat} :
    Orig L (State.mk a1 a2 a3 a4 a5 a6 a7 a8 a9 a10 a11 a12 a13 a14 a15 a16 a17 a18 a19
      a20 a21 a22 a23 a24 a25 a26 a27 a28 a29 a30 a31 a32 a33 a34 a35 a36 a37 t.songs_ a39 a40
      a41 a42 a43 t.emitted) := h

theorem orig_emit_status {L : List Song} {t : State} (h : Orig L t) (text : String) :
    Orig L (emit t (Event.UpdateStatus text)) := by
  refine ⟨h.1, fun songs error hm => h.2 songs error ?_⟩
  simpa [emit] using hm

theorem orig_emit_progress {L : List Song} {t : State} (h : Orig L t) (p : Progress) :
    Orig L (emit t (Event.UpdateProgress p)) := by
  refine ⟨h.1, fun songs error hm => h.2 songs error ?_⟩
  simpa [emit] using hm

theorem orig_emit_results {L : List Song} {t : State} (h : Orig L t) {a2 a3 : Bool} (songs
    : SongMap)
    (hs : Remote L songs) (error : String) :
    Orig L (emit { t with timer_active := a2, finished_ := a3 } (Event.Results songs error)) := by
  refine ⟨h.1, fun songs1 error1 hm => ?_⟩
  simp only [emit, List.mem_append, List.mem_singleton] at hm
  rcases hm with hm | hm
  · exact h.2 songs1 error1 hm
  · rw [(Event.Results.inj hm).1]
    exact hs

theorem orig_FinishCheck {L : List Song} {t : State} (h : Orig L t) : Orig L (FinishCheck t) := by
  unfold FinishCheck
  split
  · simp only
    split
    · split
      · exact orig_emit_results h [] Remote_nil _
      · exact orig_emit_results h [] Remote_nil _
    · split
      · exact orig_emit_results h _ h.1 _
      · exact orig_emit_results h _ h.1 _
  · exact h

theorem orig_foldl {L : List Song} {β : Type} (f : State → β → State)
    (hf : ∀ t b, Orig L t → Orig L (f t b)) (l : List β) :
    ∀ t, Orig L t → Orig L (l.foldl f t) := by
  induction l with
  | nil => intro t h; exact h
  | cons b l ih => intro t h; exact ih _ (hf t b h)

theorem orig_songsInserted {L : List Song} {t : State} (h : Orig L t) (env : Env)
    (a : Artist) (b : Album) (items : List QJsonValue) (s0 : State)
    (hp : ∀ song ∈ pageSongs env a b items, RemoteCover L song) :
    Orig L (songsInserted t (SongsItems env a b items s0).2) := by
  refine ⟨?_, h.2⟩
  rw [SongsItems_songs]
  exact Remote_insertSongs _ _ h.1 hp

theorem orig_Error {L : List Song} {t : State} (h : Orig L t) (e : String) : Orig L
    (Error t e) := by
  unfold Error
  apply orig_FinishCheck
  split
  · exact orig_mk h
  · exact h

theorem orig_StartRequests {L : List Song} {t : State} (h : Orig L t) : Orig L
    (StartRequests t) := by
  unfold StartRequests
  split
  · exact orig_mk h
  · exact h

theorem orig_issueReply {L : List Song} {t : State} (h : Orig L t) (slot : Callback) :
    Orig L (issueReply t slot) := orig_mk h

theorem orig_issueCoverReply {L : List Song} {t : State} (h : Orig L t) (slot : Callback) :
    Orig L (issueCoverReply t slot) := orig_mk h

theorem orig_takeReply {L : List Song} {t : State} (h : Orig L t) (reply : Nat) :
    Orig L (takeReply t reply) := orig_mk h

theorem orig_takeCoverReply {L : List Song} {t : State} (h : Orig L t) (reply : Nat) :
    Orig L (takeCoverReply t reply) := orig_mk h

theorem orig_removeCover {L : List Song} {t : State} (h : Orig L t) (url : String) :
    Orig L (removeCover t url) := orig_mk h

theorem orig_artistsSent {L : List Song} {t : State} (h : Orig L t) : Orig L
    (artistsSent t) := orig_mk h

theorem orig_albumsSent {L : List Song} {t : State} (h : Orig L t) : Orig L
    (albumsSent t) := orig_mk h

theorem orig_songsSent {L : List Song} {t : State} (h : Orig L t) : Orig L
    (songsSent t) := orig_mk h

theorem orig_artistAlbumsSent {L : List Song} {t : State} (h : Orig L t) : Orig L
    (artistAlbumsSent t) :=
  orig_mk h

theorem orig_albumSongsSent {L : List Song} {t : State} (h : Orig L t) : Orig L
    (albumSongsSent t) := orig_mk h

theorem orig_albumCoverSent {L : List Song} {t : State} (h : Orig L t) : Orig L
    (albumCoverSent t) := orig_mk h

theorem orig_artistsSettled {L : List Song} {t : State} (h : Orig L t) : Orig L
    (artistsSettled t) := orig_mk h

theorem orig_albumsSettled {L : List Song} {t : State} (h : Orig L t) : Orig L
    (albumsSettled t) := orig_mk h

theorem orig_songsSettled {L : List Song} {t : State} (h : Orig L t) : Orig L
    (songsSettled t) := orig_mk h

theorem orig_artistAlbumsSettled {L : List Song} {t : State} (h : Orig L t) : Orig L
    (artistAlbumsSettled t) :=
  orig_mk h

theorem orig_albumSongsSettled {L : List Song} {t : State} (h : Orig L t) : Orig L
    (albumSongsSettled t) :=
  orig_mk h

theorem orig_albumCoverSettled {L : List Song} {t : State} (h : Orig L t) : Orig L
    (albumCoverSettled t) :=
  orig_mk h

theorem orig_clearArtistAlbumsPending {L : List Song} {t : State} (h : Orig L t) :
    Orig L (clearArtistAlbumsPending t) := orig_mk h

theorem orig_clearAlbumSongsPending {L : List Song} {t : State} (h : Orig L t) :
    Orig L (clearAlbumSongsPending t) := orig_mk h

theorem orig_artistsCounted {L : List Song} {t : State} (h : Orig L t) (n : Int) :
    Orig L (artistsCounted t n) := orig_mk h

theorem orig_artistsProgress {L : List Song} {t : State} (h : Orig L t) : Orig L
    (artistsProgress t) :=
  orig_emit_progress h _

theorem orig_artistAlbumsProgress {L : List Song} {t : State} (h : Orig L t) :
    Orig L (artistAlbumsProgress t) := orig_emit_progress h _

theorem orig_albumCoverProgress {L : List Song} {t : State} (h : Orig L t) : Orig L
    (albumCoverProgress t) :=
  orig_emit_progress h _

theorem orig_albumSongsProgress {L : List Song} {t : State} (h : Orig L t) (o : Int) :
    Orig L (albumSongsProgress t o) := by
  unfold albumSongsProgress
  split
  · exact orig_emit_progress h _
  · exact h

theorem orig_albumsCounted {L : List Song} {t : State} (h : Orig L t) (n : Int) :
    Orig L (albumsCounted t n) := by
  unfold albumsCounted
  split
  · exact orig_emit_progress (orig_mk h) _
  · exact h

theorem orig_songsCounted {L : List Song} {t : State} (h : Orig L t) (n : Int) :
    Orig L (songsCounted t n) := by
  unfold songsCounted
  split
  · exact orig_emit_progress (orig_mk h) _
  · exact h

theorem orig_albumCoversStatus {L : List Song} {t : State} (h : Orig L t) : Orig L
    (albumCoversStatus t) := by
  unfold albumCoversStatus
  split <;> exact orig_emit_status h _

theorem orig_artistAlbumsStatus {L : List Song} {t : State} (h : Orig L t) : Orig L
    (artistAlbumsStatus t) := by
  unfold artistAlbumsStatus
  split
  · apply orig_emit_progress
    split <;> exact orig_emit_status h _
  · exact h

theorem orig_albumSongsStatus {L : List Song} {t : State} (h : Orig L t) : Orig L
    (albumSongsStatus t) := by
  unfold albumSongsStatus
  split
  · apply orig_emit_progress
    split <;> exact orig_emit_status h _
  · exact h

theorem orig_GetReplyData {L : List Song} {t : State} (h : Orig L t) (reply : QNetworkReply) :
    Orig L (GetReplyData t reply) :=
  orig_foldl Error (fun _ e ht => orig_Error ht e) _ t h

theorem orig_ExtractJsonObj {L : List Song} {t : State} (h : Orig L t) (bytes : ReplyBytes) :
    Orig L (ExtractJsonObj t bytes) :=
  orig_foldl Error (fun _ e ht => orig_Error ht e) _ t h

theorem orig_AddArtistsRequest {L : List Song} {t : State} (h : Orig L t) (o l : Int) :
    Orig L (AddArtistsRequest t o l) := orig_StartRequests (orig_mk h)

theorem orig_AddAlbumsRequest {L : List Song} {t : State} (h : Orig L t) (o l : Int) :
    Orig L (AddAlbumsRequest t o l) := orig_StartRequests (orig_mk h)

theorem orig_AddSongsRequest {L : List Song} {t : State} (h : Orig L t) (o l : Int) :
    Orig L (AddSongsRequest t o l) := orig_StartRequests (orig_mk h)

theorem orig_AddArtistAlbumsRequest {L : List Song} {t : State} (h : Orig L t) (a : Artist) (o
    : Int) :
    Orig L (AddArtistAlbumsRequest t a o) := orig_StartRequests (orig_mk h)

theorem orig_AddAlbumSongsRequest {L : List Song} {t : State} (h : Orig L t) (a : Artist) (b
    : Album) (o : Int) :
    Orig L (AddAlbumSongsRequest t a b o) := orig_StartRequests (orig_mk h)

theorem orig_FlushArtistsLoop {L : List Song} (q : List Request) :
    ∀ t, Orig L t → Orig L (FlushArtistsLoop q t) := by
  induction q with
  | nil => intro t h; exact h
  | cons r q ih =>
    intro t h
    unfold FlushArtistsLoop
    repeat' first
      | with_reducible apply ih
      | with_reducible apply orig_artistsSent
      | with_reducible apply orig_issueReply
      | split
      | exact h

theorem orig_FlushAlbumsLoop {L : List Song} (q : List Request) :
    ∀ t, Orig L t → Orig L (FlushAlbumsLoop q t) := by
  induction q with
  | nil => intro t h; exact h
  | cons r q ih =>
    intro t h
    unfold FlushAlbumsLoop
    repeat' first
      | with_reducible apply ih
      | with_reducible apply orig_albumsSent
      | with_reducible apply orig_issueReply
      | split
      | exact h

theorem orig_FlushSongsLoop {L : List Song} (q : List Request) :
    ∀ t, Orig L t → Orig L (FlushSongsLoop q t) := by
  induction q with
  | nil => intro t h; exact h
  | cons r q ih =>
    intro t h
    unfold FlushSongsLoop
    repeat' first
      | with_reducible apply ih
      | with_reducible apply orig_songsSent
      | with_reducible apply orig_issueReply
      | split
      | exact h

theorem orig_FlushArtistAlbumsLoop {L : List Song} (q : List ArtistAlbumsRequest) :
    ∀ t, Orig L t → Orig L (FlushArtistAlbumsLoop q t) := by
  induction q with
  | nil => intro t h; exact h
  | cons r q ih =>
    intro t h
    unfold FlushArtistAlbumsLoop
    repeat' first
      | with_reducible apply ih
      | with_reducible apply orig_artistAlbumsSent
      | with_reducible apply orig_issueReply
      | split
      | exact h

theorem orig_FlushAlbumSongsLoop {L : List Song} (q : List AlbumSongsRequest) :
    ∀ t, Orig L t → Orig L (FlushAlbumSongsLoop q t) := by
  induction q with
  | nil => intro t h; exact h
  | cons r q ih =>
    intro t h
    unfold FlushAlbumSongsLoop
    repeat' first
      | with_reducible apply ih
      | with_reducible apply orig_albumSongsSent
      | with_reducible apply orig_issueReply
      | split
      | exact h

theorem orig_FlushAlbumCoverLoop {L : List Song} (q : List AlbumCoverRequest) :
    ∀ t, Orig L t → Orig L (FlushAlbumCoverLoop q t) := by
  induction q with
  | nil => intro t h; exact h
  | cons r q ih =>
    intro t h
    unfold FlushAlbumCoverLoop
    repeat' first
      | with_reducible apply ih
      | with_reducible apply orig_albumCoverSent
      | with_reducible apply orig_issueCoverReply
      | split
      | exact h

theorem orig_FlushRequests {L : List Song} {t : State} (h : Orig L t) : Orig L
    (FlushRequests t) := by
  unfold FlushRequests FlushArtistsRequests FlushAlbumsRequests FlushSongsRequests
    FlushArtistAlbumsRequests FlushAlbumSongsRequests FlushAlbumCoverRequests
  repeat' first
    | with_reducible apply orig_FlushArtistsLoop
    | with_reducible apply orig_FlushAlbumsLoop
    | with_reducible apply orig_FlushSongsLoop
    | with_reducible apply orig_FlushArtistAlbumsLoop
    | with_reducible apply orig_FlushAlbumSongsLoop
    | with_reducible apply orig_FlushAlbumCoverLoop
    | split
    | exact h

theorem orig_AddAlbumCoverRequest {L : List Song} {t : State} (h : Orig L t) (env : Env) (song
    : Song) :
    Orig L (AddAlbumCoverRequest env t song) := by
  unfold AddAlbumCoverRequest
  repeat' first
    | split
    | exact h

theorem orig_GetAlbumCovers {L : List Song} {t : State} (h : Orig L t) (env : Env) :
    Orig L (GetAlbumCovers env t) := by
  unfold GetAlbumCovers
  exact orig_StartRequests (orig_emit_progress (orig_albumCoversStatus
    (orig_foldl (fun st (kv : String × Song) => AddAlbumCoverRequest env st kv.2)
      (fun t b ht => orig_AddAlbumCoverRequest ht env b.2) t.songs_ t h)) _)

theorem orig_GetAlbumCoversCheck {L : List Song} {t : State} (h : Orig L t) (env : Env) :
    Orig L (GetAlbumCoversCheck env t) := by
  unfold GetAlbumCoversCheck
  split
  · exact orig_GetAlbumCovers h env
  · exact h

theorem orig_ArtistsNextPage {L : List Song} {t : State} (h : Orig L t) (env : Env) (l o r : Int) :
    Orig L (ArtistsNextPage env t l o r) := by
  unfold ArtistsNextPage AddArtistsSearchRequest
  repeat' first
    | with_reducible apply orig_AddArtistsRequest
    | split
    | exact h

theorem orig_ArtistsRelease {L : List Song} {t : State} (h : Orig L t) : Orig L
    (ArtistsRelease t) := by
  unfold ArtistsRelease
  split
  · exact orig_artistAlbumsStatus (orig_clearArtistAlbumsPending
      (orig_foldl (fun st (kv : String × ArtistAlbumsRequest) =>
          AddArtistAlbumsRequest st kv.2.artist 0)
        (fun t b ht => orig_AddArtistAlbumsRequest ht b.2.artist 0)
        t.artist_albums_requests_pending_ t h))
  · exact h

theorem orig_ArtistsFinishCheck {L : List Song} {t : State} (h : Orig L t) (env : Env) (l o r
    : Int) :
    Orig L (ArtistsFinishCheck env t l o r) := by
  unfold ArtistsFinishCheck
  split
  · exact h
  · exact orig_FinishCheck (orig_ArtistsRelease (orig_ArtistsNextPage h env l o r))

theorem orig_ArtistsItemObject {L : List Song} {t : State} (h : Orig L t) (o : QJsonObject) :
    Orig L (ArtistsItemObject t o) := by
  unfold ArtistsItemObject
  repeat' first
    | with_reducible apply orig_Error
    | split
    | exact h

theorem orig_ArtistsItem {L : List Song} {t : State} (h : Orig L t) (v : QJsonValue) :
    Orig L (ArtistsItem t v) := by
  unfold ArtistsItem
  repeat' first
    | with_reducible apply orig_Error
    | with_reducible apply orig_ArtistsItemObject
    | split
    | exact h

theorem orig_ArtistsItems {L : List Song} {t : State} (h : Orig L t) (env : Env) (obj : QJsonObject)
    (l o : Int) : Orig L (ArtistsItems env t obj l o) := by
  unfold ArtistsItems
  repeat' first
    | with_reducible apply orig_ArtistsFinishCheck
    | with_reducible apply orig_artistsProgress
    | with_reducible apply orig_artistsCounted
    | with_reducible apply orig_foldl ArtistsItem (fun _ b ht => orig_ArtistsItem ht b)
    | split
    | exact h

theorem orig_ArtistsPage {L : List Song} {t : State} (h : Orig L t) (env : Env) (obj : QJsonObject)
    (l o : Int) : Orig L (ArtistsPage env t obj l o) := by
  unfold ArtistsPage
  repeat' first
    | with_reducible apply orig_ArtistsFinishCheck
    | with_reducible apply orig_ArtistsItems
    | with_reducible apply orig_Error
    | with_reducible apply orig_artistsProgress
    | split
    | exact h

theorem orig_ArtistsContainer {L : List Song} {t : State} (h : Orig L t) (env : Env) (obj
    : QJsonObject)
    (l o : Int) : Orig L (ArtistsContainer env t obj l o) := by
  unfold ArtistsContainer
  repeat' first
    | with_reducible apply orig_ArtistsPage
    | with_reducible apply orig_ArtistsFinishCheck
    | with_reducible apply orig_Error
    | split
    | exact h

theorem orig_ArtistsParsed {L : List Song} {t : State} (h : Orig L t) (env : Env) (obj
    : QJsonObject)
    (l o : Int) : Orig L (ArtistsParsed env t obj l o) := by
  unfold ArtistsParsed
  repeat' first
    | with_reducible apply orig_ArtistsContainer
    | with_reducible apply orig_ArtistsFinishCheck
    | with_reducible apply orig_Error
    | split
    | exact h

theorem orig_ArtistsSettled {L : List Song} {t : State} (h : Orig L t) (env : Env) (reply
    : QNetworkReply)
    (l o : Int) : Orig L (ArtistsSettled env t reply l o) := by
  unfold ArtistsSettled
  repeat' first
    | with_reducible apply orig_ArtistsParsed
    | with_reducible apply orig_ArtistsFinishCheck
    | with_reducible apply orig_ExtractJsonObj
    | split
    | exact h

theorem orig_ArtistsReplyReceived {L : List Song} {t : State} (h : Orig L t) (env : Env)
    (reply : QNetworkReply) (l o : Int) : Orig L (ArtistsReplyReceived env t reply l o) := by
  unfold ArtistsReplyReceived
  split
  · exact h
  · exact orig_ArtistsSettled (orig_artistsSettled (orig_GetReplyData (orig_takeReply h _) reply))
      env reply l o

theorem orig_AlbumsNextPage {L : List Song} {t : State} (h : Orig L t) (env : Env) (a : Artist)
    (l o n r : Int) : Orig L (AlbumsNextPage env t a l o n r) := by
  unfold AlbumsNextPage AddAlbumsSearchRequest
  repeat' first
    | with_reducible apply orig_AddAlbumsRequest
    | with_reducible apply orig_AddArtistAlbumsRequest
    | split
    | exact h

theorem orig_AlbumsRelease {L : List Song} {t : State} (h : Orig L t) : Orig L
    (AlbumsRelease t) := by
  unfold AlbumsRelease
  split
  · exact orig_albumSongsStatus (orig_clearAlbumSongsPending
      (orig_foldl (fun st (kv : String × AlbumSongsRequest) =>
          AddAlbumSongsRequest st kv.2.artist kv.2.album 0)
        (fun t b ht => orig_AddAlbumSongsRequest ht b.2.artist b.2.album 0)
        t.album_songs_requests_pending_ t h))
  · exact h

theorem orig_AlbumsFinishCheck {L : List Song} {t : State} (h : Orig L t) (env : Env) (a : Artist)
    (l o n r : Int) : Orig L (AlbumsFinishCheck env t a l o n r) := by
  unfold AlbumsFinishCheck
  split
  · exact h
  · exact orig_FinishCheck (orig_GetAlbumCoversCheck
      (orig_AlbumsRelease (orig_AlbumsNextPage h env a l o n r)) env)

theorem orig_AlbumsItemArtist {L : List Song} {t : State} (h : Orig L t) (a : Artist) (o
    : QJsonObject) :
    Orig L (AlbumsItemArtist a t o) := by
  unfold AlbumsItemArtist
  repeat' first
    | with_reducible apply orig_Error
    | split
    | exact h

theorem orig_AlbumsItem {L : List Song} {t : State} (h : Orig L t) (a : Artist) (v : QJsonValue) :
    Orig L (AlbumsItem a t v) := by
  unfold AlbumsItem
  repeat' first
    | with_reducible apply orig_Error
    | with_reducible apply orig_AlbumsItemArtist
    | split
    | exact h

theorem orig_AlbumsContainer {L : List Song} {t : State} (h : Orig L t) (env : Env) (obj
    : QJsonObject)
    (a : Artist) (l o : Int) : Orig L (AlbumsContainer env t obj a l o) := by
  unfold AlbumsContainer
  repeat' first
    | with_reducible apply orig_AlbumsFinishCheck
    | with_reducible apply orig_Error
    | with_reducible apply orig_albumsCounted
    | with_reducible apply orig_foldl (AlbumsItem a) (fun _ b ht => orig_AlbumsItem ht a b)
    | split
    | exact h

theorem orig_AlbumsParsed {L : List Song} {t : State} (h : Orig L t) (env : Env) (obj : QJsonObject)
    (a : Artist) (l o : Int) : Orig L (AlbumsParsed env t obj a l o) := by
  unfold AlbumsParsed
  repeat' first
    | with_reducible apply orig_AlbumsContainer
    | with_reducible apply orig_AlbumsFinishCheck
    | with_reducible apply orig_Error
    | split
    | exact h

theorem orig_AlbumsSettled {L : List Song} {t : State} (h : Orig L t) (env : Env) (reply
    : QNetworkReply)
    (a : Artist) (l o : Int) : Orig L (AlbumsSettled env t reply a l o) := by
  unfold AlbumsSettled
  repeat' first
    | with_reducible apply orig_AlbumsParsed
    | with_reducible apply orig_AlbumsFinishCheck
    | with_reducible apply orig_ExtractJsonObj
    | split
    | exact h

theorem orig_AlbumsReceived {L : List Song} {t : State} (h : Orig L t) (env : Env) (reply
    : QNetworkReply)
    (a : Artist) (l o : Int) : Orig L (AlbumsReceived env t reply a l o) := by
  unfold AlbumsReceived
  split
  · exact h
  · exact orig_AlbumsSettled (orig_GetReplyData (orig_takeReply h _) reply) env reply a l o

theorem orig_AlbumsReplyReceived {L : List Song} {t : State} (h : Orig L t) (env : Env)
    (reply : QNetworkReply) (l o : Int) : Orig L (AlbumsReplyReceived env t reply l o) :=
  orig_AlbumsReceived (orig_albumsSettled h) env reply _ l o

theorem orig_ArtistAlbumsReplyReceived {L : List Song} {t : State} (h : Orig L t) (env : Env)
    (reply : QNetworkReply) (a : Artist) (o : Int) :
    Orig L (ArtistAlbumsReplyReceived env t reply a o) :=
  orig_AlbumsReceived (orig_artistAlbumsProgress (orig_artistAlbumsSettled h)) env reply a 0 o

theorem orig_SongsNextPage {L : List Song} {t : State} (h : Orig L t) (env : Env) (a : Artist)
    (b : Album)
    (l o n r : Int) : Orig L (SongsNextPage env t a b l o n r) := by
  unfold SongsNextPage AddSongsSearchRequest
  repeat' first
    | with_reducible apply orig_AddSongsRequest
    | with_reducible apply orig_AddAlbumSongsRequest
    | split
    | exact h

theorem orig_SongsFinishCheck {L : List Song} {t : State} (h : Orig L t) (env : Env) (a : Artist)
    (b : Album)
    (l o n r : Int) : Orig L (SongsFinishCheck env t a b l o n r) := by
  unfold SongsFinishCheck
  split
  · exact h
  · exact orig_FinishCheck (orig_GetAlbumCoversCheck (orig_SongsNextPage h env a b l o n r) env)

theorem orig_ParseSong {L : List Song} {t : State} (h : Orig L t) (env : Env) (o : QJsonObject)
    (a : Artist)
    (b : Album) : Orig L (ParseSong env t o a b).1 := by
  unfold ParseSong
  split
  · exact orig_Error h _
  · exact h

theorem orig_SongsItems {L : List Song} (env : Env) (a : Artist) (b : Album) (l : List QJsonValue) :
    ∀ t, Orig L t → Orig L (SongsItems env a b l t).1 := by
  induction l with
  | nil => intro t h; exact h
  | cons v l ih =>
    intro t h
    cases v <;> simp only [SongsItems]
    all_goals first
      | exact ih _ (orig_Error h _)
      | exact ih _ (orig_ParseSong h env _ a b)

theorem orig_SongsContainer {L : List Song} {t : State} (h : Orig L t) (env : Env)
    (obj : QJsonObject) (a : Artist) (b : Album) (a1 : Artist) (b1 : Album) (l o : Int)
    (hp : ∀ song ∈ containerSongs env obj a1 b1, RemoteCover L song) :
    Orig L (SongsContainer env t obj a b a1 b1 l o) := by
  unfold SongsContainer
  split
  · exact orig_Error (orig_SongsFinishCheck h env _ _ _ _ _ _) _
  · split
    · exact orig_SongsFinishCheck (orig_Error h _) env _ _ _ _ _ _
    · split
      · rename_i items heq
        have hpage : ∀ song ∈ pageSongs env a1 b1 items, RemoteCover L song := by
          intro song hs
          apply hp
          unfold containerSongs
          rw [heq]
          exact hs
        split
        · apply orig_SongsFinishCheck
          split
          · exact orig_mk h
          · exact h
        · exact orig_SongsFinishCheck
            (orig_songsCounted
              (orig_songsInserted (orig_SongsItems env a1 b1 items t h) env a1 b1 items t hpage)
              _) env _ _ _ _ _ _
      · exact orig_SongsFinishCheck h env _ _ _ _ _ _

theorem orig_SongsParsed {L : List Song} {t : State} (h : Orig L t) (env : Env)
    (obj : QJsonObject) (a : Artist) (b : Album) (l o : Int)
    (hp : ∀ song ∈ objectSongs env obj a b, RemoteCover L song) :
    Orig L (SongsParsed env t obj a b l o) := by
  unfold SongsParsed
  split
  · exact orig_SongsFinishCheck h env _ _ _ _ _ _
  · split
    · exact orig_SongsFinishCheck (orig_Error h _) env _ _ _ _ _ _
    · split
      · exact orig_SongsFinishCheck (orig_Error h _) env _ _ _ _ _ _
      · rename_i a1 b1 hhead
        split
        · rename_i obj_tracks htracks
          apply orig_SongsContainer h env obj_tracks a b a1 b1 l o
          intro song hs
          apply hp
          unfold objectSongs
          rw [hhead]
          simp only
          rw [htracks]
          exact hs
        · exact orig_SongsFinishCheck (orig_Error h _) env _ _ _ _ _ _

theorem orig_SongsSettled {L : List Song} {t : State} (h : Orig L t) (env : Env)
    (reply : QNetworkReply) (a : Artist) (b : Album) (l o : Int)
    (hp : ∀ song ∈ replySongs env reply a b, RemoteCover L song) :
    Orig L (SongsSettled env t reply a b l o) := by
  unfold SongsSettled
  split
  · exact h
  · split
    · exact orig_SongsFinishCheck h env _ _ _ _ _ _
    · rename_i bytes hdata
      apply orig_SongsParsed (orig_ExtractJsonObj h bytes) env bytes.json_obj a b l o
      intro song hs
      apply hp
      unfold replySongs
      rw [hdata]
      exact hs

theorem orig_SongsReceived {L : List Song} {t : State} (h : Orig L t) (env : Env)
    (reply : QNetworkReply) (a : Artist) (b : Album) (l o : Int)
    (hp : ∀ song ∈ replySongs env reply a b, RemoteCover L song) :
    Orig L (SongsReceived env t reply a b l o) := by
  unfold SongsReceived
  split
  · exact h
  · exact orig_SongsSettled (orig_GetReplyData (orig_takeReply h _) reply) env reply a b l o hp

theorem orig_SongsReplyReceived {L : List Song} {t : State} (h : Orig L t) (env : Env)
    (reply : QNetworkReply) (l o : Int)
    (hp : ∀ song ∈ replySongs env reply Artist.empty Album.empty, RemoteCover L song) :
    Orig L (SongsReplyReceived env t reply l o) :=
  orig_SongsReceived (orig_songsSettled h) env reply _ _ l o hp

theorem orig_AlbumSongsReplyReceived {L : List Song} {t : State} (h : Orig L t) (env : Env)
    (reply : QNetworkReply) (a : Artist) (b : Album) (o : Int)
    (hp : ∀ song ∈ replySongs env reply a b, RemoteCover L song) :
    Orig L (AlbumSongsReplyReceived env t reply a b o) :=
  orig_SongsReceived (orig_albumSongsProgress (orig_albumSongsSettled h) o) env reply a b 0 o hp

theorem orig_Process {L : List Song} {t : State} (h : Orig L t) (env : Env) : Orig L
    (Process env t) := by
  unfold Process GetArtists GetAlbums GetSongs ArtistsSearch AlbumsSearch SongsSearch
    AddArtistsSearchRequest AddAlbumsSearchRequest AddSongsSearchRequest
  repeat' first
    | with_reducible apply orig_AddArtistsRequest
    | with_reducible apply orig_AddAlbumsRequest
    | with_reducible apply orig_AddSongsRequest
    | with_reducible apply orig_emit_progress
    | with_reducible apply orig_emit_status
    | with_reducible apply orig_Error
    | split
    | exact h

/-- A reply handler of the API stages stores only songs it parses from its reply: the songs of
the map and of the `Results` signals keep the cover references of the parsed songs. -/
theorem Orig_dispatch {L : List Song} (env : Env) {s : State} (h : Orig L s)
    (reply : QNetworkReply) (slot : Callback) (hs : slot.coverUrl = none)
    (hp : ∀ song ∈ slot.parsed env reply, song ∈ L) :
    Orig L (dispatch env s reply slot) := by
  cases slot with
  | Artists l o => exact orig_ArtistsReplyReceived h env reply l o
  | Albums l o => exact orig_AlbumsReplyReceived h env reply l o
  | Songs l o =>
    exact orig_SongsReplyReceived h env reply l o (fun song hm => RemoteCover_self (hp song hm))
  | ArtistAlbums a o => exact orig_ArtistAlbumsReplyReceived h env reply a o
  | AlbumSongs a b o =>
    exact orig_AlbumSongsReplyReceived h env reply a b o
      (fun song hm => RemoteCover_self (hp song hm))
  | AlbumCover u f => exact absurd hs (by simp [Callback.coverUrl])

theorem Orig_step {L : List Song} (env : Env) {s : State} (hc : CoverFresh s) (h : Orig L s)
    (input : Input) : Orig (L ++ parsedBy env s input) (step env s input) := by
  have hw : Orig (L ++ parsedBy env s input) s :=
    h.widen (fun p hp => List.mem_append_left _ hp)
  cases input with
  | Tick =>
    simp only [step]
    split
    · exact orig_FlushRequests hw
    · exact hw
  | Finished reply =>
    cases hf : s.connections.find? (fun c => c.1 == reply.handle) with
    | none =>
      have e : step env s (Input.Finished reply) = s := by
        simp only [step, hf]
      rw [e]
      exact hw
    | some c =>
      have e1 : step env s (Input.Finished reply) = dispatch env s reply c.2 := by
        simp only [step, hf]
      have e2 : parsedBy env s (Input.Finished reply) = c.2.parsed env reply := by
        simp only [parsedBy, hf]
      rw [e1]
      refine Orig_dispatch env hw reply c.2 (hc.conns c (List.mem_of_find?_eq_some hf)) ?_
      intro song hm
      rw [e2]
      exact List.mem_append_right _ hm

theorem stepParsed_state (env : Env) (inputs : List Input) :
    ∀ p : State × List Song,
      (inputs.foldl (stepParsed env) p).1 = inputs.foldl (step env) p.1 := by
  induction inputs with
  | nil => intro p; rfl
  | cons input rest ih => intro p; exact ih _

theorem parsedSongs_snoc (env : Env) (type : QueryType) (inputs : List Input) (input : Input) :
    parsedSongs env type (inputs ++ [input]) =
      parsedSongs env type inputs ++ parsedBy env (run env type inputs) input := by
  unfold parsedSongs run
  rw [List.foldl_append, ← stepParsed_state env inputs (Process env (State.init type), [])]
  rfl

/-- With cover downloads off every song of the map and of every `Results` signal carries the
cover reference of a song parsed in the run, in every state of the run. -/
theorem Orig_run_off (env : Env) (type : QueryType) (hd : CoversOff env type)
    (inputs : List Input) : Orig (parsedSongs env type inputs) (run env type inputs) := by
  induction inputs using List.reverseRecOn with
  | nil =>
    exact orig_Process (t := State.init type)
      ⟨Remote_nil, fun _ _ hm => absurd hm (List.not_mem_nil _)⟩ env
  | append_singleton inputs input ih =>
    rw [run_snoc, parsedSongs_snoc]
    exact Orig_step env (CoverFresh_run_off env type hd inputs) ih input


/-- C35: `GetAlbumCoversCheck`, the only caller of `GetAlbumCovers`, starts the cover downloads
only if the request is not finished, cover download is enabled in the service configuration,
the request is a direct query, and the state is quiescent (every queue, both pending sets and
the cover registry empty, no active count positive); otherwise it leaves the state as it is.  A
search is no direct query.  Hence in a run with cover download disabled, and in a run of a
request that is no direct query, in every state: the album-cover queue and the cover registry
are empty, no cover download is counted, no reply is connected to `AlbumCoverReceived`, and
every song in the aggregate map and in every `Results` signal emitted carries its original
remote cover reference: its `art_automatic` is the one of a song with the same id that
`ParseSong` made of a track object of a reply delivered to a songs slot in the run
(`parsedSongs`), so no song was rewritten to a local cover file. -/
theorem covers_start_only_in_direct_queries (env : Env) :
    (∀ s : State, GetAlbumCoversCheck env s ≠ s →
      s.finished_ = false ∧ env.download_album_covers = true ∧ IsQuery s.type_ = true ∧
        Quiescent s) ∧
    (∀ s : State,
      GetAlbumCoversCheck env s = s ∨ GetAlbumCoversCheck env s = GetAlbumCovers env s) ∧
    (∀ type : QueryType, IsSearch type = true → IsQuery type = false) ∧
    (∀ (type : QueryType) (inputs : List Input),
      (env.download_album_covers = false ∨ IsQuery type = false) →
      (run env type inputs).album_cover_requests_queue_ = [] ∧
      (run env type inputs).album_covers_requests_sent_ = [] ∧
      (run env type inputs).album_covers_requests_total_ = 0 ∧
      (∀ c ∈ (run env type inputs).connections, c.2.stage ≠ Stage.albumCovers) ∧
      (∀ kv ∈ (run env type inputs).songs_,
        ∃ p ∈ parsedSongs env type inputs,
          p.song_id = kv.2.song_id ∧ p.art_automatic = kv.2.art_automatic) ∧
      (∀ songs error, Event.Results songs error ∈ (run env type inputs).emitted →
        ∀ kv ∈ songs, ∃ p ∈ parsedSongs env type inputs,
          p.song_id = kv.2.song_id ∧ p.art_automatic = kv.2.art_automatic)) := by
  refine ⟨GetAlbumCoversCheck_started env, fun s => ?_, search_is_no_query, ?_⟩
  · unfold GetAlbumCoversCheck
    split
    · exact Or.inr rfl
    · exact Or.inl rfl
  · intro type inputs hd
    have hc := CoverFresh_run_off env type hd inputs
    have ho := Orig_run_off env type hd inputs
    refine ⟨hc.queue, hc.sent, hc.total, fun c hcm hk => ?_, ho.1, ho.2⟩
    have hn := hc.conns c hcm
    revert hk hn
    cases c.2 <;> intro hk hn <;> first
      | exact Stage.noConfusion hk
      | exact Option.noConfusion hn

/-- A songs search with cover download enabled: nothing is queued for download, the songs
parsed from the one page carry the covers `u`, `u` and `v`, and the three songs of the map and
of the `Results` signal carry these references.  The direct songs query with the same page
queues the downloads of `u` and `v`; once both covers are saved its songs carry the local files
instead, which are the cover references of no parsed song. -/
theorem covers_start_only_in_direct_queries_witness :
    ((run coverEnv QueryType_SearchSongs searchWithCoversInputs).album_cover_requests_queue_ =
        [] ∧
      (run coverEnv QueryType_SearchSongs searchWithCoversInputs).album_covers_requests_sent_ =
        [] ∧
      (parsedSongs coverEnv QueryType_SearchSongs searchWithCoversInputs).map
        (fun p => (p.song_id, p.art_automatic)) = [("1", "u"), ("2", "u"), ("3", "v")] ∧
      (run coverEnv QueryType_SearchSongs searchWithCoversInputs).songs_.map
        (fun kv => (kv.1, kv.2.art_automatic)) = [("1", "u"), ("2", "u"), ("3", "v")] ∧
      (run coverEnv QueryType_SearchSongs searchWithCoversInputs).finished_ = true ∧
      (∀ kv ∈ (run coverEnv QueryType_SearchSongs searchWithCoversInputs).songs_,
        ∃ p ∈ parsedSongs coverEnv QueryType_SearchSongs searchWithCoversInputs,
          p.song_id = kv.2.song_id ∧ p.art_automatic = kv.2.art_automatic) ∧
      (∀ songs error, Event.Results songs error ∈
          (run coverEnv QueryType_SearchSongs searchWithCoversInputs).emitted →
        ∀ kv ∈ songs, ∃ p ∈ parsedSongs coverEnv QueryType_SearchSongs searchWithCoversInputs,
          p.song_id = kv.2.song_id ∧ p.art_automatic = kv.2.art_automatic)) ∧
    ((run coverEnv QueryType_Songs searchWithCoversInputs).album_cover_requests_queue_.map
        (fun r => r.url) = ["u", "v"] ∧
      (parsedSongs coverEnv QueryType_Songs coversSavedInputs).map
        (fun p => (p.song_id, p.art_automatic)) = [("1", "u"), ("2", "u"), ("3", "v")] ∧
      (run coverEnv QueryType_Songs coversSavedInputs).songs_.map
        (fun kv => (kv.1, kv.2.art_automatic)) =
        [("1", "file:///covers/u"), ("2", "file:///covers/u"), ("3", "file:///covers/v")] ∧
      ¬ ∀ kv ∈ (run coverEnv QueryType_Songs coversSavedInputs).songs_,
        ∃ p ∈ parsedSongs coverEnv QueryType_Songs coversSavedInputs,
          p.song_id = kv.2.song_id ∧ p.art_automatic = kv.2.art_automatic) :=
  have h := (covers_start_only_in_direct_queries coverEnv).2.2.2 QueryType_SearchSongs
    searchWithCoversInputs (Or.inr (by decide))
  ⟨⟨h.1, h.2.1, by decide, by decide, by decide, h.2.2.2.2.1, h.2.2.2.2.2⟩,
    ⟨by decide, by decide, by decide, by decide⟩⟩

/-- In a run a finished request has no reply connected: no handler is entered with `finished_`
set. -/
theorem finished_run_has_no_connection (env : Env) (type : QueryType) (inputs : List Input)
    (hf : (run env type inputs).finished_ = true) : (run env type inputs).connections = [] := by
  apply List.eq_nil_iff_forall_not_mem.mpr
  intro c hc
  have hpos := (Sound_run env type inputs).wired.active_pos c hc
  have hle := ((Booked_run env type inputs).fin hf).2 c.2.stage
  omega

end Qobuz
